import Mathlib

/-!
Verification of the SCRAM client authenticator of `pyxmpp2/sasl/scram.py`
(RFC 5802 SCRAM authentication for the PyXMPP2 SASL implementation).

Byte strings are modelled as `List Nat` (each element a byte value).  The
hash primitive used by the `SCRAM-SHA-1` mechanism (`hashlib.sha1`) is
modelled by an executable SHA-1 implementation working on byte strings
packed big-endian into a single `Nat`, which the Lean kernel can evaluate
quickly; `hmac.new(key, msg, hash).digest()` is modelled by the standard
RFC 2104 HMAC construction over an arbitrary hash 'suite'.  The SCRAM
operations (`Normalize`, `HMAC`, `H`, `XOR`, `Hi`) and the client session
(`start`, `challenge`, `_make_response`, `_final_challenge`, `finish`)
follow the Python source line by line; Python exceptions are modelled by
an `Except` layer, since a raising method aborts without returning a
result value.
-/

set_option maxRecDepth 1000000
set_option maxHeartbeats 400000000
set_option exponentiation.threshold 100000
set_option linter.unreachableTactic false
set_option linter.unusedTactic false
set_option linter.unnecessarySeqFocus false
set_option linter.unusedVariables false

/-- A byte string: list of byte values (each `< 256` for meaningful inputs). -/
abbrev Bytes := List Nat

/-- Bytes of an ASCII string (all source literals are ASCII). -/
def strBytes (s : String) : Bytes := s.toList.map Char.toNat

/-! ### SHA-1 (model of `hashlib.sha1`, RFC 3174)

The implementation packs data big-endian into a `Nat` and uses the
kernel-accelerated `Nat` bit operations. -/

/-- Pack the five 32-bit output words (each reduced mod `2^32`) into the
160-bit digest. -/
def sha1Out (v0 v1 v2 v3 v4 : Nat) : Nat :=
  Nat.add (Nat.mul (Nat.add (Nat.mul (Nat.add (Nat.mul (Nat.add (Nat.mul
    (Nat.mod v0 4294967296) 4294967296) (Nat.mod v1 4294967296)) 4294967296)
    (Nat.mod v2 4294967296)) 4294967296) (Nat.mod v3 4294967296)) 4294967296)
    (Nat.mod v4 4294967296)

/-- SHA-1 rounds, the first sixteen rounds (`f = Ch`, `K = 5A827999`): the round word is the top word of the 512-bit window, which is rotated to the bottom so that after sixteen rounds the window again holds `W[t-16..t-1]` newest-lowest.  The working state is `a`, `b`, `c` and the
64-bit pack `de` of `d` and `e`; the result packs the final state above the
final window. -/
def roundsChA : Nat → Nat → Nat → Nat → Nat → Nat → Nat
  | 0, a, b, c, de, win =>
    Nat.add (Nat.mul (Nat.add (Nat.mul (Nat.add (Nat.mul (Nat.add (Nat.mul a 4294967296) b)
      4294967296) c) 18446744073709551616) de)
      13407807929942597099574024998205846127479365820592393377723561443721764030073546976801874298166903427690031858186486050853753882811946569946433649006084096)
      win
  | n+1, a, b, c, de, win =>
    let w := Nat.shiftRight win 480
    let d := Nat.shiftRight de 32
    roundsChA n
      (Nat.mod (Nat.add (Nat.add (Nat.mod (Nat.add (Nat.mul a 32) (Nat.div a 134217728)) 4294967296) (Nat.add (Nat.xor d (Nat.land b (Nat.xor c d))) (Nat.land de 4294967295))) (Nat.add 1518500249 w)) 4294967296)
      a
      (Nat.mod (Nat.add (Nat.mul b 1073741824) (Nat.div b 4)) 4294967296)
      (Nat.add (Nat.mul c 4294967296) d)
      (Nat.add (Nat.mul (Nat.mod win 3121748550315992231381597229793166305748598142664971150859156959625371738819765620120306103063491971159826931121406622895447975679288285306290176) 4294967296) w)

/-- SHA-1 rounds, rounds 16-19 (`f = Ch`, `K = 5A827999`), with the round word produced by the schedule recurrence: the schedule word
`W[t] = rotl1 (W[t-3] xor W[t-8] xor W[t-14] xor W[t-16])` is read from the
512-bit sliding window (newest word lowest) and shifted into it. -/
def roundsChB : Nat → Nat → Nat → Nat → Nat → Nat → Nat
  | 0, a, b, c, de, win =>
    Nat.add (Nat.mul (Nat.add (Nat.mul (Nat.add (Nat.mul (Nat.add (Nat.mul a 4294967296) b)
      4294967296) c) 18446744073709551616) de)
      13407807929942597099574024998205846127479365820592393377723561443721764030073546976801874298166903427690031858186486050853753882811946569946433649006084096)
      win
  | n+1, a, b, c, de, win =>
    let x := Nat.land (Nat.xor (Nat.xor (Nat.shiftRight win 64) (Nat.shiftRight win 224))
      (Nat.xor (Nat.shiftRight win 416) (Nat.shiftRight win 480))) 4294967295
    let w := Nat.mod (Nat.add (Nat.mul x 2) (Nat.div x 2147483648)) 4294967296
    let d := Nat.shiftRight de 32
    roundsChB n
      (Nat.mod (Nat.add (Nat.add (Nat.mod (Nat.add (Nat.mul a 32) (Nat.div a 134217728)) 4294967296) (Nat.add (Nat.xor d (Nat.land b (Nat.xor c d))) (Nat.land de 4294967295))) (Nat.add 1518500249 w)) 4294967296)
      a
      (Nat.mod (Nat.add (Nat.mul b 1073741824) (Nat.div b 4)) 4294967296)
      (Nat.add (Nat.mul c 4294967296) d)
      (Nat.add (Nat.mul (Nat.mod win 3121748550315992231381597229793166305748598142664971150859156959625371738819765620120306103063491971159826931121406622895447975679288285306290176) 4294967296) w)

/-- SHA-1 rounds, rounds 20-39 (`f = Parity`, `K = 6ED9EBA1`): the schedule word
`W[t] = rotl1 (W[t-3] xor W[t-8] xor W[t-14] xor W[t-16])` is read from the
512-bit sliding window (newest word lowest) and shifted into it. -/
def roundsPar1 : Nat → Nat → Nat → Nat → Nat → Nat → Nat
  | 0, a, b, c, de, win =>
    Nat.add (Nat.mul (Nat.add (Nat.mul (Nat.add (Nat.mul (Nat.add (Nat.mul a 4294967296) b)
      4294967296) c) 18446744073709551616) de)
      13407807929942597099574024998205846127479365820592393377723561443721764030073546976801874298166903427690031858186486050853753882811946569946433649006084096)
      win
  | n+1, a, b, c, de, win =>
    let x := Nat.land (Nat.xor (Nat.xor (Nat.shiftRight win 64) (Nat.shiftRight win 224))
      (Nat.xor (Nat.shiftRight win 416) (Nat.shiftRight win 480))) 4294967295
    let w := Nat.mod (Nat.add (Nat.mul x 2) (Nat.div x 2147483648)) 4294967296
    let d := Nat.shiftRight de 32
    roundsPar1 n
      (Nat.mod (Nat.add (Nat.add (Nat.mod (Nat.add (Nat.mul a 32) (Nat.div a 134217728)) 4294967296) (Nat.add (Nat.xor (Nat.xor b c) d) (Nat.land de 4294967295))) (Nat.add 1859775393 w)) 4294967296)
      a
      (Nat.mod (Nat.add (Nat.mul b 1073741824) (Nat.div b 4)) 4294967296)
      (Nat.add (Nat.mul c 4294967296) d)
      (Nat.add (Nat.mul (Nat.mod win 3121748550315992231381597229793166305748598142664971150859156959625371738819765620120306103063491971159826931121406622895447975679288285306290176) 4294967296) w)

/-- SHA-1 rounds, rounds 40-59 (`f = Maj`, `K = 8F1BBCDC`): the schedule word
`W[t] = rotl1 (W[t-3] xor W[t-8] xor W[t-14] xor W[t-16])` is read from the
512-bit sliding window (newest word lowest) and shifted into it. -/
def roundsMaj : Nat → Nat → Nat → Nat → Nat → Nat → Nat
  | 0, a, b, c, de, win =>
    Nat.add (Nat.mul (Nat.add (Nat.mul (Nat.add (Nat.mul (Nat.add (Nat.mul a 4294967296) b)
      4294967296) c) 18446744073709551616) de)
      13407807929942597099574024998205846127479365820592393377723561443721764030073546976801874298166903427690031858186486050853753882811946569946433649006084096)
      win
  | n+1, a, b, c, de, win =>
    let x := Nat.land (Nat.xor (Nat.xor (Nat.shiftRight win 64) (Nat.shiftRight win 224))
      (Nat.xor (Nat.shiftRight win 416) (Nat.shiftRight win 480))) 4294967295
    let w := Nat.mod (Nat.add (Nat.mul x 2) (Nat.div x 2147483648)) 4294967296
    let d := Nat.shiftRight de 32
    roundsMaj n
      (Nat.mod (Nat.add (Nat.add (Nat.mod (Nat.add (Nat.mul a 32) (Nat.div a 134217728)) 4294967296) (Nat.add (Nat.lor (Nat.land b c) (Nat.land d (Nat.xor b c))) (Nat.land de 4294967295))) (Nat.add 2400959708 w)) 4294967296)
      a
      (Nat.mod (Nat.add (Nat.mul b 1073741824) (Nat.div b 4)) 4294967296)
      (Nat.add (Nat.mul c 4294967296) d)
      (Nat.add (Nat.mul (Nat.mod win 3121748550315992231381597229793166305748598142664971150859156959625371738819765620120306103063491971159826931121406622895447975679288285306290176) 4294967296) w)

/-- SHA-1 rounds, rounds 60-79 (`f = Parity`, `K = CA62C1D6`): the schedule word
`W[t] = rotl1 (W[t-3] xor W[t-8] xor W[t-14] xor W[t-16])` is read from the
512-bit sliding window (newest word lowest) and shifted into it. -/
def roundsPar2 : Nat → Nat → Nat → Nat → Nat → Nat → Nat
  | 0, a, b, c, de, win =>
    Nat.add (Nat.mul (Nat.add (Nat.mul (Nat.add (Nat.mul (Nat.add (Nat.mul a 4294967296) b)
      4294967296) c) 18446744073709551616) de)
      13407807929942597099574024998205846127479365820592393377723561443721764030073546976801874298166903427690031858186486050853753882811946569946433649006084096)
      win
  | n+1, a, b, c, de, win =>
    let x := Nat.land (Nat.xor (Nat.xor (Nat.shiftRight win 64) (Nat.shiftRight win 224))
      (Nat.xor (Nat.shiftRight win 416) (Nat.shiftRight win 480))) 4294967295
    let w := Nat.mod (Nat.add (Nat.mul x 2) (Nat.div x 2147483648)) 4294967296
    let d := Nat.shiftRight de 32
    roundsPar2 n
      (Nat.mod (Nat.add (Nat.add (Nat.mod (Nat.add (Nat.mul a 32) (Nat.div a 134217728)) 4294967296) (Nat.add (Nat.xor (Nat.xor b c) d) (Nat.land de 4294967295))) (Nat.add 3395469782 w)) 4294967296)
      a
      (Nat.mod (Nat.add (Nat.mul b 1073741824) (Nat.div b 4)) 4294967296)
      (Nat.add (Nat.mul c 4294967296) d)
      (Nat.add (Nat.mul (Nat.mod win 3121748550315992231381597229793166305748598142664971150859156959625371738819765620120306103063491971159826931121406622895447975679288285306290176) 4294967296) w)

/-- One SHA-1 compression (RFC 3174): `h` is the packed 160-bit chaining
state, `blk` the packed 512-bit message block.  The 80 rounds run in five
stages on the packed state-and-window `Nat`, the message schedule being
produced on the fly from the sliding 16-word window. -/
def sha1Block (h blk : Nat) : Nat :=
  let h0 := Nat.shiftRight h 128
  let h1 := Nat.land (Nat.shiftRight h 96) 4294967295
  let h2 := Nat.land (Nat.shiftRight h 64) 4294967295
  let h3 := Nat.land (Nat.shiftRight h 32) 4294967295
  let h4 := Nat.land h 4294967295
  let s1 := roundsChA 16 h0 h1 h2 (Nat.add (Nat.mul h3 4294967296) h4) blk
  let s2 := roundsChB 4 (Nat.shiftRight s1 640) (Nat.land (Nat.shiftRight s1 608) 4294967295)
    (Nat.land (Nat.shiftRight s1 576) 4294967295) (Nat.land (Nat.shiftRight s1 512) 18446744073709551615)
    (Nat.land s1 13407807929942597099574024998205846127479365820592393377723561443721764030073546976801874298166903427690031858186486050853753882811946569946433649006084095)
  let s3 := roundsPar1 20 (Nat.shiftRight s2 640) (Nat.land (Nat.shiftRight s2 608) 4294967295)
    (Nat.land (Nat.shiftRight s2 576) 4294967295) (Nat.land (Nat.shiftRight s2 512) 18446744073709551615)
    (Nat.land s2 13407807929942597099574024998205846127479365820592393377723561443721764030073546976801874298166903427690031858186486050853753882811946569946433649006084095)
  let s4 := roundsMaj 20 (Nat.shiftRight s3 640) (Nat.land (Nat.shiftRight s3 608) 4294967295)
    (Nat.land (Nat.shiftRight s3 576) 4294967295) (Nat.land (Nat.shiftRight s3 512) 18446744073709551615)
    (Nat.land s3 13407807929942597099574024998205846127479365820592393377723561443721764030073546976801874298166903427690031858186486050853753882811946569946433649006084095)
  let s5 := roundsPar2 20 (Nat.shiftRight s4 640) (Nat.land (Nat.shiftRight s4 608) 4294967295)
    (Nat.land (Nat.shiftRight s4 576) 4294967295) (Nat.land (Nat.shiftRight s4 512) 18446744073709551615)
    (Nat.land s4 13407807929942597099574024998205846127479365820592393377723561443721764030073546976801874298166903427690031858186486050853753882811946569946433649006084095)
  let st := Nat.shiftRight s5 512
  sha1Out (Nat.add h0 (Nat.shiftRight st 128))
    (Nat.add h1 (Nat.land (Nat.shiftRight st 96) 4294967295))
    (Nat.add h2 (Nat.land (Nat.shiftRight st 64) 4294967295))
    (Nat.add h3 (Nat.land (Nat.shiftRight st 32) 4294967295))
    (Nat.add h4 (Nat.land st 4294967295))

/-- Process `n` 512-bit blocks packed into `data` (earliest block topmost). -/
def sha1Blocks : Nat → Nat → Nat → Nat
  | 0, h, _ => h
  | n+1, h, data =>
      sha1Blocks n (sha1Block h (data / 2 ^ (512 * n))) (data % 2 ^ (512 * n))

/-- SHA-1 of a `len`-byte message packed big-endian into `data`: append the
`0x80` byte, zero padding and the 64-bit bit length, then compress each
block starting from the standard initial state. -/
def sha1Raw (len data : Nat) : Nat :=
  let z := (55 + 64 - len % 64) % 64
  let padded := (data * 256 + 128) * 2 ^ (8 * (z + 8)) + 8 * len
  sha1Blocks ((len + 1 + z + 8) / 64) 589567850402597453564513526754136399297876517360 padded

/-- Pack a byte string big-endian into a `Nat`. -/
def packBytes (b : Bytes) : Nat := b.foldl (fun acc x => acc * 256 + x) 0

/-- The low `k` bytes of `n`, prepended big-endian onto `acc`. -/
def unpackBytesAux : Nat → Nat → Bytes → Bytes
  | 0, _, acc => acc
  | k+1, n, acc => unpackBytesAux k (n / 256) (n % 256 :: acc)

/-- The low `k` bytes of `n`, as a big-endian byte string. -/
def unpackBytes (k n : Nat) : Bytes := unpackBytesAux k n []

/-- SHA-1 digest of a byte string: model of `hashlib.sha1(msg).digest()`. -/
def sha1 (msg : Bytes) : Bytes := unpackBytes 20 (sha1Raw msg.length (packBytes msg))

/-! ### Base64 (models of `base64.standard_b64encode` and `binascii.a2b_base64`) -/

/-- The base64 alphabet: digit value (0..63) to ASCII code. -/
def b64Char (n : Nat) : Nat :=
  if n < 26 then 65 + n
  else if n < 52 then 97 + (n - 26)
  else if n < 62 then 48 + (n - 52)
  else if n = 62 then 43
  else 47

/-- Standard base64 encoding with `=` padding: model of
`base64.standard_b64encode`. -/
def b64encode : Bytes → Bytes
  | b0 :: b1 :: b2 :: rest =>
      let g := (b0 * 256 + b1) * 256 + b2
      b64Char (g / 262144) :: b64Char (g / 4096 % 64) :: b64Char (g / 64 % 64) ::
        b64Char (g % 64) :: b64encode rest
  | [b0, b1] =>
      let g := b0 * 1024 + b1 * 4
      [b64Char (g / 4096), b64Char (g / 64 % 64), b64Char (g % 64), 61]
  | [b0] =>
      let g := b0 * 16
      [b64Char (g / 64), b64Char (g % 64), 61, 61]
  | [] => []

/-- ASCII code to base64 digit value. -/
def b64Val (c : Nat) : Option Nat :=
  if 65 ≤ c ∧ c ≤ 90 then some (c - 65)
  else if 97 ≤ c ∧ c ≤ 122 then some (c - 97 + 26)
  else if 48 ≤ c ∧ c ≤ 57 then some (c - 48 + 52)
  else if c = 43 then some 62
  else if c = 47 then some 63
  else none

/-- Base64 decoding: model of `binascii.a2b_base64` on the inputs that occur
in this development (strings over the base64 alphabet plus `=`, as enforced
by the wire-message grammars before any decode).  Well-formed groups of four
decode; anything else — wrong length, misplaced padding, an alien
character — makes `a2b_base64` raise `binascii.Error` (a `ValueError`),
modelled by `none`. -/
def a2b_base64 : Bytes → Option Bytes
  | [] => some []
  | c0 :: c1 :: c2 :: c3 :: rest =>
      match b64Val c0, b64Val c1 with
      | some v0, some v1 =>
        if c2 = 61 ∧ c3 = 61 ∧ rest = [] then
          some [v0 * 4 + v1 / 16]
        else
          match b64Val c2 with
          | some v2 =>
            if c3 = 61 ∧ rest = [] then
              some [v0 * 4 + v1 / 16, v1 % 16 * 16 + v2 / 4]
            else
              match b64Val c3, a2b_base64 rest with
              | some v3, some tail =>
                  some ([v0 * 4 + v1 / 16, v1 % 16 * 16 + v2 / 4,
                         v2 % 4 * 64 + v3] ++ tail)
              | _, _ => none
          | none => none
      | _, _ => none
  | _ => none

/-! ### SCRAM operations (class `SCRAMOperations`)

The Python class binds a named hash function from `HASH_FACTORIES` and
derives `digest_size` from it; `HMAC` delegates to `hmac.new(key, str_,
self.hash_factory)`, whose padding block size is a property of the hash.
We model the bound suite as a structure holding the hash function and its
HMAC block size, and the `SCRAM-SHA-1` suite as its SHA-1 instance. -/

structure SCRAMOperations where
  hashRaw : Nat → Nat → Nat
  block_size : Nat
  digest_size : Nat

/-- The suite bound by `SCRAMClientAuthenticator.__init__(self, "SHA-1", ...)`:
`HASH_FACTORIES["SHA-1"] = hashlib.sha1`, block size 64, digest size 20. -/
def SHA_1 : SCRAMOperations := ⟨sha1Raw, 64, 20⟩

/-- The byte-string hash function of the bound suite (`self.hash_factory`):
digest of the packed message, as a byte string.  For `SHA_1` this is
exactly `sha1`. -/
def SCRAMOperations.hash_factory (ops : SCRAMOperations) (msg : Bytes) : Bytes :=
  unpackBytes ops.digest_size (ops.hashRaw msg.length (packBytes msg))

/-- Model of `SCRAMOperations.Normalize`.

Modelled from the spec: the source delegates to `SASLPREP.prepare` of module
`pyxmpp2.sasl.saslprep`, which is not part of the sources under
verification; per the spec it applies a SASLPrep-equivalent mapping and
encodes as UTF-8, which is the identity on the ASCII byte strings free of
mapped or prohibited code points that occur in this development. -/
def SCRAMOperations.Normalize (str_ : Bytes) : Bytes := str_

/-- `SCRAMOperations.H`: `self.hash_factory(str_).digest()`. -/
def SCRAMOperations.H (ops : SCRAMOperations) (str_ : Bytes) : Bytes :=
  ops.hash_factory str_

/-- `SCRAMOperations.HMAC`: `hmac.new(key, str_, self.hash_factory).digest()`,
i.e. the RFC 2104 construction
`H((K ^ opad) ++ H((K ^ ipad) ++ msg))` with `K` the key hashed down if
longer than the block size and zero-padded (on the right) to the block
size.  Computed on the packed representation: `kp` is the padded key,
big-endian; XOR with the repeated `0x36`/`0x5c` pad bytes is a single
packed XOR, and concatenation is shift-and-add. -/
def SCRAMOperations.HMAC (ops : SCRAMOperations) (key str_ : Bytes) : Bytes :=
  let key := if ops.block_size < key.length then ops.hash_factory key else key
  let kp := packBytes key * 2 ^ (8 * (ops.block_size - key.length))
  let repunit := (2 ^ (8 * ops.block_size) - 1) / 255
  let inner := ops.hashRaw (ops.block_size + str_.length)
    ((kp ^^^ 54 * repunit) * 2 ^ (8 * str_.length) + packBytes str_)
  unpackBytes ops.digest_size (ops.hashRaw (ops.block_size + ops.digest_size)
    ((kp ^^^ 92 * repunit) * 2 ^ (8 * ops.digest_size) + inner))

/-- `SCRAMOperations.XOR` (a static method): byte-wise XOR over the `zip` of
the two strings — Python's `zip` stops at the shorter input. -/
def SCRAMOperations.XOR : Bytes → Bytes → Bytes
  | a :: as, b :: bs => (a ^^^ b) :: SCRAMOperations.XOR as bs
  | _, _ => []

/-- The `for _ in range(2, i + 1)` loop of `SCRAMOperations.Hi`, with `n`
remaining iterations: `Uj = HMAC(str, Uj); result = XOR(result, Uj)`. -/
def hiLoop (ops : SCRAMOperations) (str_ : Bytes) : Nat → Bytes → Bytes → Bytes
  | 0, _, result => result
  | n+1, uj, result =>
    let uj2 := ops.HMAC str_ uj
    hiLoop ops str_ n uj2 (SCRAMOperations.XOR result uj2)

/-- `SCRAMOperations.Hi(str_, salt, i)`:
`U1 = HMAC(str, salt + b"\x00\x00\x00\x01")`, then the loop for `j` from 2
to `i` folds in `Uj = HMAC(str, U(j-1))` with `XOR`. -/
def SCRAMOperations.Hi (ops : SCRAMOperations) (str_ salt : Bytes) (i : Nat) : Bytes :=
  let u1 := ops.HMAC str_ (salt ++ [0, 0, 0, 1])
  hiLoop ops str_ (i - 1) u1 u1

/-! ### Wire-message parsing (`SERVER_FIRST_MESSAGE_RE`, `SERVER_FINAL_MESSAGE_RE`,
`VALUE_CHARS_RE`)

The regular expressions are modelled by deterministic parsers.  Their
character classes exclude the comma, so each greedy group extends exactly
to the next comma (or the end), and the optional `m=` extension group,
whose class excludes `=`, must end right before the `r=` attribute holding
the first `=` of its tail; hence the backtracking matches of the Python
regexes coincide with the parses below. -/

/-- A byte of `VALUE_CHARS_RE` and of the nonce class of
`SERVER_FIRST_MESSAGE_RE`: printable ASCII except comma. -/
def valueChar (b : Nat) : Bool := (33 ≤ b && b ≤ 43) || (45 ≤ b && b ≤ 126)

/-- `VALUE_CHARS_RE`: one or more `valueChar` bytes. -/
def valueChars (b : Bytes) : Bool := !b.isEmpty && b.all valueChar

/-- A byte of the salt/verifier class `[a-zA-Z0-9/+=]`. -/
def b64TextChar (b : Nat) : Bool :=
  (65 ≤ b && b ≤ 90) || (97 ≤ b && b ≤ 122) || (48 ≤ b && b ≤ 57) ||
    b = 47 || b = 43 || b = 61

/-- An ASCII digit. -/
def digitChar (b : Nat) : Bool := 48 ≤ b && b ≤ 57

/-- A byte of the extension class `[^\x00=]`. -/
def mextChar (b : Nat) : Bool := b ≠ 0 && b ≠ 61

/-- Digits to the number they denote (`int` applied to the matched digits). -/
def natOfDigits (ds : Bytes) : Nat := ds.foldl (fun acc d => acc * 10 + (d - 48)) 0

/-- Split a byte string at its first comma, if any. -/
def splitComma? : Bytes → Option (Bytes × Bytes)
  | [] => none
  | b :: rest =>
    if b = 44 then some ([], rest)
    else match splitComma? rest with
      | some (x, y) => some (b :: x, y)
      | none => none

/-- Strip an expected literal from the front of a byte string. -/
def stripPfx : Bytes → Bytes → Option Bytes
  | [], b => some b
  | p :: ps, b :: bs => if p = b then stripPfx ps bs else none
  | _ :: _, [] => none

/-- The captures of `SERVER_FIRST_MESSAGE_RE`: the optional extension group
(`m=...,` in full, as captured), the nonce, the salt (still base64 text) and
the iteration count (already through `int`, which cannot fail on `\d+`). -/
structure ParsedServerFirst where
  mext : Option Bytes
  nonce : Bytes
  salt : Bytes
  iteration_count : Nat
deriving DecidableEq

/-- The `r=nonce,s=salt,i=digits[,extra]` tail of a server-first message. -/
def parseSFTail (b : Bytes) : Option (Bytes × Bytes × Nat) :=
  match stripPfx (strBytes "r=") b with
  | none => none
  | some b =>
    match splitComma? b with
    | none => none
    | some (nonce, b) =>
      if !nonce.isEmpty && nonce.all valueChar then
        match stripPfx (strBytes "s=") b with
        | none => none
        | some b =>
          match splitComma? b with
          | none => none
          | some (salt, b) =>
            if !salt.isEmpty && salt.all b64TextChar then
              match stripPfx (strBytes "i=") b with
              | none => none
              | some b =>
                let digits := match splitComma? b with
                  | none => b
                  | some (d, _) => d
                if !digits.isEmpty && digits.all digitChar then
                  some (nonce, salt, natOfDigits digits)
                else none
            else none
      else none

/-- Index of the first `=` byte, if any. -/
def idxOfEq : Bytes → Option Nat
  | [] => none
  | b :: rest =>
    if b = 61 then some 0
    else match idxOfEq rest with
      | some i => some (i + 1)
      | none => none

/-- Model of `SERVER_FIRST_MESSAGE_RE.match`.  When the message starts with
`m=`, the extension value contains no `=`, so any successful match places
the first `=` of the remainder as the `=` of `r=`; the extension group is
everything up to the comma right before that `r`. -/
def parseServerFirstMessage (msg : Bytes) : Option ParsedServerFirst :=
  match stripPfx (strBytes "m=") msg with
  | some rest =>
    (match idxOfEq rest with
     | none => none
     | some j =>
       if h : 2 ≤ j ∧ j - 1 < rest.length then
         let x := rest.take (j - 2)
         if rest.get ⟨j - 2, by omega⟩ = 44 ∧ rest.get ⟨j - 1, by omega⟩ = 114 ∧
             !x.isEmpty ∧ x.all mextChar then
           match parseSFTail (rest.drop (j - 1)) with
           | some (nonce, salt, ic) =>
               some ⟨some (strBytes "m=" ++ x ++ [44]), nonce, salt, ic⟩
           | none => none
         else none
       else none)
  | none =>
    match parseSFTail msg with
    | some (nonce, salt, ic) => some ⟨none, nonce, salt, ic⟩
    | none => none

/-- The captures of `SERVER_FINAL_MESSAGE_RE`: either the error group or the
verifier group. -/
inductive ParsedServerFinal where
  | error (e : Bytes)
  | verifier (v : Bytes)
deriving DecidableEq

/-- Model of `SERVER_FINAL_MESSAGE_RE.match`: `e=` takes everything (comma
free, to the end); `v=` takes base64 text up to the first comma, optionally
followed by a comma and arbitrary trailing bytes. -/
def parseServerFinalMessage (msg : Bytes) : Option ParsedServerFinal :=
  match stripPfx (strBytes "e=") msg with
  | some e =>
      if !e.isEmpty && e.all (fun b => b ≠ 44) then some (.error e) else none
  | none =>
    match stripPfx (strBytes "v=") msg with
    | some rest =>
      let v := match splitComma? rest with
        | none => rest
        | some (x, _) => x
      if !v.isEmpty && v.all b64TextChar then some (.verifier v) else none
    | none => none

/-! ### Outcomes and exceptions (`pyxmpp2.sasl.core` value classes)

Modelled from the spec: the outcome classes `Response`, `Failure` and
`Success` live in `pyxmpp2/sasl/core.py`, which is not among the sources
under verification; per the spec every step returns outbound bytes
(`Response`, possibly empty/`None`), a `Failure` with a short
machine-readable reason token, or a `Success` carrying the authenticated
username and authzid.  Failure reasons are kept as byte strings.  A Python
exception escaping a method is modelled by the `Except` error case. -/

inductive SASLResult where
  | response (data : Option Bytes)
  | failure (reason : Bytes)
  | success (username authzid : Option Bytes)
deriving DecidableEq

/-- Is this outcome a `Failure`? -/
def SASLResult.isFailure : SASLResult → Bool
  | .failure _ => true
  | _ => false

/-- An uncaught Python exception: `TypeError` (e.g. an operation applied to
`None`) or `ValueError` (including `binascii.Error`). -/
inductive PyExc where
  | typeError
  | valueError (msg : String)
deriving DecidableEq

deriving instance DecidableEq for Except

/-! ### The client session (`SCRAMClientAuthenticator`)

The mutable instance attributes set in `__init__` become a state record;
`None`/`False` placeholders become `none`.  Each method takes the bound
operations (the `SCRAMOperations` base of the object) and the state, and
returns the new state with the outcome, or an uncaught exception. -/

structure ScramState where
  channel_binding : Bool
  username : Option Bytes := none
  password : Option Bytes := none
  authzid : Option Bytes := none
  c_nonce : Option Bytes := none
  server_first_message : Option Bytes := none
  client_first_message_bare : Option Bytes := none
  gs2_header : Option Bytes := none
  finished : Bool := false
  auth_message : Option Bytes := none
  salted_password : Option Bytes := none
  cb_data : Option Bytes := none
deriving DecidableEq

/-- `SCRAMClientAuthenticator.__init__(hash_name, channel_binding)`: all
session fields cleared. -/
def ScramState.init (channel_binding : Bool) : ScramState := { channel_binding }

/-- The credential properties consumed by `start`.  The source draws the
client nonce from `properties["nonce_factory"]` (default: random bytes) —
modelled as the `nonce` field; `cb_type`/`cb_data` model the entry the
source selects from `properties["channel-binding"]` (preferring
`tls-unique`, then `tls-server-end-point`), `none` when the mapping is
missing or empty; `plus_enabled` models membership of the `-PLUS` mechanism
name in `properties["enabled_mechanisms"]`. -/
structure ScramProps where
  username : Bytes
  password : Bytes
  authzid : Bytes := []
  nonce : Bytes
  cb_type : Option Bytes := none
  cb_data : Bytes := []
  plus_enabled : Bool := false

/-- The common tail of `start` after the channel-binding flag is chosen:
builds `gs2_header`, `client_first_message_bare` and the response. -/
def startTail (s : ScramState) (cb_flag c_nonce : Bytes) :
    Except PyExc (ScramState × SASLResult) :=
  let authzid := match s.authzid with
    | some az => if !az.isEmpty then strBytes "a=" ++ az else []
    | none => []
  let gs2_header := cb_flag ++ [44] ++ authzid ++ [44]
  let nonce := strBytes "r=" ++ c_nonce
  let client_first_message_bare :=
    (strBytes "n=" ++ (s.username.getD [])) ++ [44] ++ nonce
  let s := { s with gs2_header := some gs2_header,
                    client_first_message_bare := some client_first_message_bare }
  .ok (s, .response (some (gs2_header ++ client_first_message_bare)))

/-- `SCRAMClientAuthenticator.start(properties)`: store the credentials and
client nonce (base64-encoded when it fails `VALUE_CHARS_RE`), build the
gs2 header from the channel-binding flag and the authzid, store and return
the client-first message.  With channel binding enabled but no
channel-binding data, raises `ValueError`. -/
def start (s : ScramState) (props : ScramProps) : Except PyExc (ScramState × SASLResult) :=
  let c_nonce := if valueChars props.nonce then props.nonce else b64encode props.nonce
  let s := { s with username := some props.username, password := some props.password,
                    authzid := some props.authzid, c_nonce := some c_nonce }
  match s.channel_binding, props.cb_type with
  | true, none => .error (.valueError "No channel binding data provided")
  | true, some cb_type =>
    let s := { s with cb_data := some props.cb_data }
    startTail s (strBytes "p=" ++ cb_type) c_nonce
  | false, _ =>
    startTail s (if props.plus_enabled then strBytes "y" else strBytes "n") c_nonce

/-- `SCRAMClientAuthenticator._make_response(nonce, salt, iteration_count)`:
derive `salted_password` via `Hi` from the normalized password (a `None`
password would make `Normalize` raise `TypeError`), clear the password,
build the channel-binding attribute and the client-final message without
proof, fix `auth_message`, compute the client proof and return the
client-final message. -/
def make_response (ops : SCRAMOperations) (s : ScramState)
    (nonce salt : Bytes) (iteration_count : Nat) :
    Except PyExc (ScramState × SASLResult) :=
  match s.password with
  | none => .error .typeError
  | some pw =>
    match s.gs2_header with
    | none => .error .typeError
    | some gs2 =>
      match (if s.channel_binding then
               match s.cb_data with
               | none => none
               | some cbd => some (strBytes "c=" ++ b64encode (gs2 ++ cbd))
             else some (strBytes "c=" ++ b64encode gs2) : Option Bytes) with
      | none => .error .typeError
      | some channel_binding =>
        match s.client_first_message_bare, s.server_first_message with
        | some bare, some sfm =>
          let salted_password := ops.Hi (SCRAMOperations.Normalize pw) salt iteration_count
          let client_final_message_without_proof := channel_binding ++ strBytes ",r=" ++ nonce
          let client_key := ops.HMAC salted_password (strBytes "Client Key")
          let stored_key := ops.H client_key
          let auth_message := bare ++ [44] ++ sfm ++ [44] ++
            client_final_message_without_proof
          let s := { s with salted_password := some salted_password, password := none,
                            auth_message := some auth_message }
          let client_signature := ops.HMAC stored_key auth_message
          let client_proof := SCRAMOperations.XOR client_key client_signature
          let proof := strBytes "p=" ++ b64encode client_proof
          .ok (s, .response (some (client_final_message_without_proof ++ [44] ++ proof)))
        | _, _ => .error .typeError

/-- `SCRAMClientAuthenticator._final_challenge(challenge)`: reject when
already finished; parse as a server-final message; a server error token
becomes `Failure("scram-<token>")`; otherwise verify the base64-decoded
verifier against `HMAC(HMAC(salted_password, "Server Key"), auth_message)`
(with no stored `salted_password` or `auth_message` the HMAC calls raise
`TypeError`; a verifier with broken base64 padding makes the uncaught
`a2b_base64` raise).  A matching verifier finishes the session. -/
def final_challenge (ops : SCRAMOperations) (s : ScramState) (challenge : Bytes) :
    Except PyExc (ScramState × SASLResult) :=
  if s.finished then .ok (s, .failure (strBytes "extra-challenge"))
  else match parseServerFinalMessage challenge with
  | none => .ok (s, .failure (strBytes "bad-challenge"))
  | some (.error e) => .ok (s, .failure (strBytes "scram-" ++ e))
  | some (.verifier v) =>
    if v.isEmpty then .ok (s, .failure (strBytes "bad-succes"))
    else
      match s.salted_password, s.auth_message with
      | some sp, some am =>
        match a2b_base64 v with
        | none => .error (.valueError "Incorrect padding")
        | some dv =>
          -- server_key = HMAC(salted_password, "Server Key"),
          -- server_signature = HMAC(server_key, auth_message)
          if ops.HMAC (ops.HMAC sp (strBytes "Server Key")) am ≠ dv then
            .ok (s, .failure (strBytes "bad-succes"))
          else .ok ({ s with finished := true }, .response none)
      | _, _ => .error .typeError

/-- `SCRAMClientAuthenticator.challenge(challenge)`: empty challenges are
rejected; once a server-first message has been recorded every call goes to
`_final_challenge`; otherwise the challenge is parsed as a server-first
message and recorded (before any validation), the unsupported extension
marker and a nonce not extending the client nonce are rejected, the salt is
base64-decoded (`ValueError` caught as a protocol failure; a `None` client
nonce would make `startswith` raise `TypeError`), and `_make_response`
builds the reply. -/
def challenge (ops : SCRAMOperations) (s : ScramState) (challenge_ : Bytes) :
    Except PyExc (ScramState × SASLResult) :=
  if challenge_.isEmpty then .ok (s, .failure (strBytes "bad-challenge"))
  else if s.server_first_message.isSome then final_challenge ops s challenge_
  else match parseServerFirstMessage challenge_ with
  | none => .ok (s, .failure (strBytes "bad-challenge"))
  | some pr =>
    if pr.mext.isSome then
      .ok ({ s with server_first_message := some challenge_ },
           .failure (strBytes "bad-challenge"))
    else match s.c_nonce with
      | none => .error .typeError
      | some cn =>
        if !cn.isPrefixOf pr.nonce then
          .ok ({ s with server_first_message := some challenge_ },
               .failure (strBytes "bad-challenge"))
        else match a2b_base64 pr.salt with
          | none =>
            .ok ({ s with server_first_message := some challenge_ },
                 .failure (strBytes "bad-challenge"))
          | some salt =>
            make_response ops { s with server_first_message := some challenge_ }
              pr.nonce salt pr.iteration_count

/-- `SCRAMClientAuthenticator.finish(data)`: too early before any
server-first message; a success already `_finished` surfaces the username
and authzid; otherwise the data is processed as a (folded-in) final
challenge and must finish the session. -/
def finish (ops : SCRAMOperations) (s : ScramState) (data : Bytes) :
    Except PyExc (ScramState × SASLResult) :=
  if !s.server_first_message.isSome then .ok (s, .failure (strBytes "bad-success"))
  else if s.finished then .ok (s, .success s.username s.authzid)
  else
    match final_challenge ops s data with
    | .error e => .error e
    | .ok (s2, ret) =>
      if ret.isFailure then .ok (s2, ret)
      else if s2.finished then .ok (s2, .success s2.username s2.authzid)
      else .ok (s2, .failure (strBytes "bad-success"))

/-! ### Spec-side recurrences for `Hi` (for the refinement claim about the
iterated-HMAC derivation)

`Useq` is the sequence `U1 = HMAC(password, salt ++ 0x00000001)`,
`Uj = HMAC(password, U(j-1))`, and `xorFoldU i` the XOR-fold of `U1..Ui`,
exactly as the specification words them. -/

def Useq (ops : SCRAMOperations) (p salt : Bytes) : Nat → Bytes
  | 0 => []
  | 1 => ops.HMAC p (salt ++ [0, 0, 0, 1])
  | j+2 => ops.HMAC p (Useq ops p salt (j+1))

def xorFoldU (ops : SCRAMOperations) (p salt : Bytes) : Nat → Bytes
  | 0 => []
  | 1 => Useq ops p salt 1
  | j+2 => SCRAMOperations.XOR (xorFoldU ops p salt (j+1)) (Useq ops p salt (j+2))

/-! ### Concrete sessions

A small session (`SCRAM-SHA-1`, username `u`, password `p`, client nonce
`c`, iteration count 1) used to exhibit concrete behaviours cheaply, and
the RFC 5802 test-vector session. -/

/-- The state after a step, the previous state if the step raised. -/
def stateOf (r : Except PyExc (ScramState × SASLResult)) (dflt : ScramState) : ScramState :=
  match r with
  | .ok (s, _) => s
  | .error _ => dflt

def miniProps : ScramProps :=
  { username := strBytes "u", password := strBytes "p", nonce := strBytes "c" }

def mini0 : ScramState := ScramState.init false

/-- The state after `start(miniProps)`, spelled out (validated below by
`mini_trace_start`). -/
def mini1 : ScramState where
  channel_binding := false
  username := some (strBytes "u")
  password := some (strBytes "p")
  authzid := some []
  c_nonce := some (strBytes "c")
  server_first_message := none
  client_first_message_bare := some (strBytes "n=u,r=c")
  gs2_header := some (strBytes "n,,")
  finished := false
  auth_message := none
  salted_password := none
  cb_data := none

/-- The state after the first challenge `r=c,s=QQ==,i=1`, spelled out
(validated below by `mini_trace_first_challenge`). -/
def mini2 : ScramState where
  channel_binding := false
  username := some (strBytes "u")
  password := none
  authzid := some []
  c_nonce := some (strBytes "c")
  server_first_message := some (strBytes "r=c,s=QQ==,i=1")
  client_first_message_bare := some (strBytes "n=u,r=c")
  gs2_header := some (strBytes "n,,")
  finished := false
  auth_message := some (strBytes "n=u,r=c,r=c,s=QQ==,i=1,c=biws,r=c")
  salted_password := some [149, 44, 89, 145, 59, 192, 145, 115, 149, 64, 158, 67,
    60, 23, 155, 189, 7, 171, 220, 62]
  cb_data := none

def rfcProps : ScramProps :=
  { username := strBytes "user", password := strBytes "pencil",
    nonce := strBytes "fyko+d2lbbFgONRv9qkxdawL" }

def rfc_s0 : ScramState := ScramState.init false

def rfc_s1 : ScramState := stateOf (start rfc_s0 rfcProps) rfc_s0

/-- The server-first message of the RFC 5802 test vector. -/
def rfcServerFirst : Bytes :=
  strBytes "r=fyko+d2lbbFgONRv9qkxdawL3rfcNHYJY1ZVvWVs7j,s=QSXCR+Q6sek8bf92,i=4096"

/-- `Hi(Normalize("pencil"), salt, 4096)` for the test vector's salt. -/
def rfcSaltedPassword : Bytes :=
  [29, 150, 238, 58, 82, 155, 90, 95, 158, 71, 192, 31, 34, 154, 44, 184,
   166, 225, 95, 125]

/-- The session state after the test vector's first challenge, spelled out. -/
def rfc_s2 : ScramState where
  channel_binding := false
  username := some (strBytes "user")
  password := none
  authzid := some []
  c_nonce := some (strBytes "fyko+d2lbbFgONRv9qkxdawL")
  server_first_message := some rfcServerFirst
  client_first_message_bare := some (strBytes "n=user,r=fyko+d2lbbFgONRv9qkxdawL")
  gs2_header := some (strBytes "n,,")
  finished := false
  auth_message := some (strBytes
    "n=user,r=fyko+d2lbbFgONRv9qkxdawL,r=fyko+d2lbbFgONRv9qkxdawL3rfcNHYJY1ZVvWVs7j,s=QSXCR+Q6sek8bf92,i=4096,c=biws,r=fyko+d2lbbFgONRv9qkxdawL3rfcNHYJY1ZVvWVs7j")
  salted_password := some rfcSaltedPassword
  cb_data := none

def rfc_s3 : ScramState := { rfc_s2 with finished := true }

/-! ## Helper lemmas -/

theorem hiLoop_eq_fold (ops : SCRAMOperations) (p salt : Bytes) :
    ∀ n j, 1 ≤ j →
      hiLoop ops p n (Useq ops p salt j) (xorFoldU ops p salt j) =
        xorFoldU ops p salt (j + n) := by
  intro n
  induction n with
  | zero => intro j hj; rfl
  | succ n ih =>
    intro j hj
    obtain ⟨k, rfl⟩ : ∃ k, j = k + 1 := ⟨j - 1, by omega⟩
    have hU : ops.HMAC p (Useq ops p salt (k + 1)) = Useq ops p salt (k + 2) := rfl
    have hF : SCRAMOperations.XOR (xorFoldU ops p salt (k + 1)) (Useq ops p salt (k + 2)) =
        xorFoldU ops p salt (k + 2) := rfl
    simp only [hiLoop, hU, hF]
    rw [ih (k + 2) (by omega)]
    congr 1
    omega

/-- C2: for every password, salt and positive iteration count, `Hi` equals
the XOR-fold of the HMAC chain `U1 = HMAC(p, salt ++ 0x00000001)`,
`Uj = HMAC(p, U(j-1))`; in particular with one iteration (for every suite)
it is exactly `HMAC(p, salt ++ 0x00000001)`. -/
theorem Hi_eq_xorFold_of_hmac_chain :
    (∀ (ops : SCRAMOperations) (p salt : Bytes) (i : Nat), 0 < i →
      ops.Hi p salt i = xorFoldU ops p salt i) ∧
    (∀ (ops : SCRAMOperations) (p salt : Bytes),
      ops.Hi p salt 1 = ops.HMAC p (salt ++ [0, 0, 0, 1])) := by
  constructor
  · intro ops p salt i hpos
    obtain ⟨k, rfl⟩ : ∃ k, i = 1 + k := ⟨i - 1, by omega⟩
    have h := hiLoop_eq_fold ops p salt k 1 (by omega)
    simpa [SCRAMOperations.Hi, Nat.add_sub_cancel_left, Useq, xorFoldU] using h
  · intro ops p salt
    rfl

theorem Hi_eq_xorFold_of_hmac_chain_witness :
    0 < 2 ∧ SHA_1.Hi (strBytes "p") [65] 2 = xorFoldU SHA_1 (strBytes "p") [65] 2 :=
  ⟨by decide, Hi_eq_xorFold_of_hmac_chain.1 SHA_1 (strBytes "p") [65] 2 (by decide)⟩

/-- C7: on equal-length byte strings, `XOR` is an involution in its second
argument: `XOR(XOR(a, b), b) = a`. -/
theorem XOR_xor_cancel : ∀ (a b : Bytes), a.length = b.length →
    SCRAMOperations.XOR (SCRAMOperations.XOR a b) b = a := by
  intro a
  induction a with
  | nil =>
    intro b h
    cases b with
    | nil => rfl
    | cons y ys => simp at h
  | cons x xs ih =>
    intro b h
    cases b with
    | nil => simp at h
    | cons y ys =>
      simp only [SCRAMOperations.XOR, List.cons.injEq]
      refine ⟨?_, ih ys (by simpa using h)⟩
      exact Nat.xor_cancel_right y x

theorem XOR_xor_cancel_witness :
    ([1, 2] : Bytes).length = ([3, 4] : Bytes).length ∧
      SCRAMOperations.XOR (SCRAMOperations.XOR [1, 2] [3, 4]) [3, 4] = [1, 2] :=
  ⟨by decide, XOR_xor_cancel [1, 2] [3, 4] (by decide)⟩

/-- C8 (counterexample): `XOR` applied to inputs of mismatched length does
not fail: Python's `zip` silently truncates, so the call returns the
byte-wise XOR of the overlapping prefix. -/
theorem XOR_mismatch_returns_value : SCRAMOperations.XOR [1, 2, 3] [7] = [6] := by decide

/-- C8 (amended): `XOR` never signals mismatched lengths; it returns a
result truncated to the shorter input, of length `min |a| |b|`. -/
theorem XOR_length_min : ∀ (a b : Bytes),
    (SCRAMOperations.XOR a b).length = min a.length b.length := by
  intro a
  induction a with
  | nil =>
    intro b
    cases b <;> simp [SCRAMOperations.XOR]
  | cons x xs ih =>
    intro b
    cases b with
    | nil => simp [SCRAMOperations.XOR]
    | cons y ys => simp [SCRAMOperations.XOR, ih ys, Nat.succ_min_succ]

theorem parseServerFirstMessage_ne_nil {msg : Bytes} {pr : ParsedServerFirst}
    (h : parseServerFirstMessage msg = some pr) : msg.isEmpty = false := by
  cases msg with
  | nil => rw [show parseServerFirstMessage [] = none from by decide] at h; cases h
  | cons b rest => rfl

theorem parseServerFinalMessage_verifier_ne_nil {msg v : Bytes}
    (h : parseServerFinalMessage msg = some (.verifier v)) : v.isEmpty = false := by
  unfold parseServerFinalMessage at h
  cases he : stripPfx (strBytes "e=") msg with
  | some e =>
    rw [he] at h
    cases hb : (!e.isEmpty && e.all fun b => b ≠ 44) <;> simp [hb] at h
  | none =>
    rw [he] at h
    cases hv : stripPfx (strBytes "v=") msg with
    | none => rw [hv] at h; cases h
    | some rest =>
      rw [hv] at h
      cases hs : splitComma? rest with
      | none =>
        simp only [hs] at h
        cases hb : (!rest.isEmpty && rest.all b64TextChar) <;> simp [hb] at h
        rcases h with ⟨rfl⟩
        rw [Bool.and_eq_true] at hb
        obtain ⟨h1, h2⟩ := hb
        simpa using h1
      | some p =>
        simp only [hs] at h
        cases hb : (!p.1.isEmpty && p.1.all b64TextChar) <;> simp [hb] at h
        rcases h with ⟨rfl⟩
        rw [Bool.and_eq_true] at hb
        obtain ⟨h1, h2⟩ := hb
        simpa using h1

/-- C6: the code accepts a server-first message with iteration count zero:
`int("0")` raises nothing, no positivity check exists, `Hi` is invoked with
`0` (its loop body never runs, leaving `U1`), and a client-final `Response`
is produced instead of a protocol failure. -/
theorem zero_iteration_count_accepted :
    (challenge SHA_1 mini1 (strBytes "r=c,s=QQ==,i=0")).map (fun p => p.2.isFailure) =
      .ok false ∧
    (stateOf (challenge SHA_1 mini1 (strBytes "r=c,s=QQ==,i=0")) mini1).salted_password =
      some (SHA_1.Hi (strBytes "p") [65] 0) ∧
    SHA_1.Hi (strBytes "p") [65] 0 = SHA_1.HMAC (strBytes "p") ([65] ++ [0, 0, 0, 1]) := by
  decide

theorem make_response_ok_inv {ops : SCRAMOperations} {s : ScramState}
    {nonce salt : Bytes} {ic : Nat} {s' : ScramState} {r : SASLResult}
    (h : make_response ops s nonce salt ic = .ok (s', r)) :
    s'.password = none ∧ s'.server_first_message = s.server_first_message ∧
      (∃ d, r = .response (some d)) := by
  unfold make_response at h
  iterate 8 all_goals try split at h
  all_goals try simp_all
  obtain ⟨h1, h2⟩ := h
  subst h1
  subst h2
  exact ⟨rfl, rfl, _, rfl⟩

theorem final_challenge_state {ops : SCRAMOperations} {s : ScramState} {m : Bytes}
    {s' : ScramState} {r : SASLResult}
    (h : final_challenge ops s m = .ok (s', r)) :
    s' = s ∨ s' = { s with finished := true } := by
  unfold final_challenge at h
  iterate 8 all_goals try split at h
  all_goals cases h
  all_goals first
  | exact Or.inl rfl
  | exact Or.inr rfl

theorem challenge_response_clears_password {ops : SCRAMOperations} {s : ScramState}
    {msg : Bytes} {s' : ScramState} {r : Option Bytes}
    (hs : s.server_first_message = none)
    (h : challenge ops s msg = .ok (s', .response r)) : s'.password = none := by
  unfold challenge at h
  iterate 8 all_goals try split at h
  all_goals first
  | exact (make_response_ok_inv h).1
  | cases h
  | simp_all

theorem challenge_keeps_password_none {ops : SCRAMOperations} {s : ScramState}
    {msg : Bytes} {s' : ScramState} {r : SASLResult}
    (hp : s.password = none)
    (h : challenge ops s msg = .ok (s', r)) : s'.password = none := by
  unfold challenge at h
  iterate 8 all_goals try split at h
  all_goals first
  | exact (make_response_ok_inv h).1
  | (rcases final_challenge_state h with rfl | rfl <;> exact hp)
  | (cases h <;> exact hp)

theorem finish_keeps_password_none {ops : SCRAMOperations} {s : ScramState}
    {d : Bytes} {s' : ScramState} {r : SASLResult}
    (hp : s.password = none)
    (h : finish ops s d = .ok (s', r)) : s'.password = none := by
  unfold finish at h
  split at h
  · cases h <;> exact hp
  · split at h
    · cases h <;> exact hp
    · cases hfc : final_challenge ops s d with
      | error e => simp [hfc] at h
      | ok p =>
        obtain ⟨s2, ret⟩ := p
        have hst : s2.password = none := by
          rcases final_challenge_state hfc with rfl | rfl <;> exact hp
        rw [hfc] at h
        cases hr : ret.isFailure <;> cases hf : s2.finished <;>
          simp [hr, hf] at h <;> simp_all

/-- C9: once the first `challenge()` call succeeds with a client-final
`Response`, the password stored in the session is cleared (the state paired
with the returned `Response` already has no password), and no later
`challenge()` or `finish()` call ever repopulates it. -/
theorem password_cleared_after_salted_password :
    (∀ (ops : SCRAMOperations) (s : ScramState) (msg : Bytes) (s' : ScramState)
       (r : Option Bytes),
       s.server_first_message = none →
       challenge ops s msg = .ok (s', .response r) → s'.password = none) ∧
    (∀ (ops : SCRAMOperations) (s : ScramState) (msg : Bytes) (s' : ScramState)
       (r : SASLResult),
       s.password = none → challenge ops s msg = .ok (s', r) → s'.password = none) ∧
    (∀ (ops : SCRAMOperations) (s : ScramState) (d : Bytes) (s' : ScramState)
       (r : SASLResult),
       s.password = none → finish ops s d = .ok (s', r) → s'.password = none) :=
  ⟨fun _ _ _ _ _ hs h => challenge_response_clears_password hs h,
   fun _ _ _ _ _ hp h => challenge_keeps_password_none hp h,
   fun _ _ _ _ _ hp h => finish_keeps_password_none hp h⟩

theorem password_cleared_after_salted_password_witness :
    mini1.server_first_message = none ∧
    challenge SHA_1 mini1 (strBytes "r=c,s=QQ==,i=1") =
      .ok (mini2, .response (some (strBytes "c=biws,r=c,p=Ll4aUST5pAk5D6bHnMIcM5EwszU="))) ∧
    mini2.password = none :=
  ⟨by decide, by decide,
   password_cleared_after_salted_password.1 SHA_1 mini1 (strBytes "r=c,s=QQ==,i=1")
     mini2 (some (strBytes "c=biws,r=c,p=Ll4aUST5pAk5D6bHnMIcM5EwszU="))
     (by decide) (by decide)⟩

theorem challenge_after_first_is_final {ops : SCRAMOperations} {s : ScramState}
    {m : Bytes} (hs : s.server_first_message.isSome = true) (hm : m.isEmpty = false) :
    challenge ops s m = final_challenge ops s m := by
  unfold challenge
  simp [hs, hm]

theorem sha1Out_lt (v0 v1 v2 v3 v4 : Nat) : sha1Out v0 v1 v2 v3 v4 < 2 ^ 160 := by
  unfold sha1Out
  have e : (2:Nat) ^ 160 = 1461501637330902918203684832716283019655932542976 := by norm_num
  rw [e]
  show ((((v0 % 4294967296) * 4294967296 + v1 % 4294967296) * 4294967296 + v2 % 4294967296)
      * 4294967296 + v3 % 4294967296) * 4294967296 + v4 % 4294967296 <
    1461501637330902918203684832716283019655932542976
  have h0 : v0 % 4294967296 < 4294967296 := Nat.mod_lt _ (by norm_num)
  have h1 : v1 % 4294967296 < 4294967296 := Nat.mod_lt _ (by norm_num)
  have h2 : v2 % 4294967296 < 4294967296 := Nat.mod_lt _ (by norm_num)
  have h3 : v3 % 4294967296 < 4294967296 := Nat.mod_lt _ (by norm_num)
  have h4 : v4 % 4294967296 < 4294967296 := Nat.mod_lt _ (by norm_num)
  omega

theorem sha1Block_lt (h blk : Nat) : sha1Block h blk < 2 ^ 160 :=
  sha1Out_lt _ _ _ _ _

theorem sha1Raw_84 (A r : Nat) (hA : A < 2 ^ 512) (hr : r < 2 ^ 160) :
    sha1Raw 84 (A * 2 ^ 160 + r) =
      sha1Block (sha1Block 589567850402597453564513526754136399297876517360 A)
        ((r * 256 + 128) * 2 ^ 344 + 672) := by
  have hrest : (r * 256 + 128) * 2 ^ 344 + 672 < 2 ^ 512 := by
    have h1 : r ≤ 2 ^ 160 - 1 := by omega
    calc (r * 256 + 128) * 2 ^ 344 + 672
        ≤ ((2 ^ 160 - 1) * 256 + 128) * 2 ^ 344 + 672 := by gcongr
      _ < 2 ^ 512 := by norm_num
  have hkey : sha1Raw 84 (A * 2 ^ 160 + r) =
      sha1Blocks 2 589567850402597453564513526754136399297876517360
        (2 ^ 512 * A + ((r * 256 + 128) * 2 ^ 344 + 672)) := by
    have harg : ((A * 2 ^ 160 + r) * 256 + 128) * 2 ^ 344 + 672 =
        2 ^ 512 * A + ((r * 256 + 128) * 2 ^ 344 + 672) := by ring
    show sha1Blocks 2 589567850402597453564513526754136399297876517360
        (((A * 2 ^ 160 + r) * 256 + 128) * 2 ^ 344 + 672) = _
    rw [harg]
  rw [hkey]
  have hsb2 : ∀ h d, sha1Blocks 2 h d =
      sha1Block (sha1Block h (d / 2 ^ (512 * 1))) (d % 2 ^ (512 * 1) / 2 ^ (512 * 0)) :=
    fun h d => rfl
  rw [hsb2]
  simp only [show (512 * 1 : Nat) = 512 from rfl, show ((2:Nat) ^ (512 * 0)) = 1 from rfl,
    Nat.div_one]
  rw [Nat.mul_add_div (by positivity), Nat.mul_add_mod,
    Nat.div_eq_of_lt hrest, Nat.mod_eq_of_lt hrest, Nat.add_zero]

/-- HMAC over the `SHA-1` suite on a 20-byte message, reduced to two
compressions from the precomputed inner/outer key-pad midstates: both the
inner hash (key pad block followed by the message block) and the outer hash
(key pad block followed by the inner digest block) are two-block SHA-1
computations, split by `sha1Raw_84`. -/
theorem SHA_1_HMAC_fast (key m : Bytes) (kp mi mo : Nat)
    (hk : key.length ≤ 64)
    (hkp : packBytes key * 2 ^ (8 * (64 - key.length)) = kp)
    (hkb : kp < 2 ^ 512)
    (hm : m.length = 20) (hb : packBytes m < 2 ^ 160)
    (hmi : sha1Block 589567850402597453564513526754136399297876517360
        (kp ^^^ 54 * ((2 ^ 512 - 1) / 255)) = mi)
    (hmo : sha1Block 589567850402597453564513526754136399297876517360
        (kp ^^^ 92 * ((2 ^ 512 - 1) / 255)) = mo) :
    SHA_1.HMAC key m =
      unpackBytes 20 (sha1Block mo
        ((sha1Block mi ((packBytes m * 256 + 128) * 2 ^ 344 + 672) * 256 + 128)
          * 2 ^ 344 + 672)) := by
  have h64 : ¬ (SHA_1.block_size < key.length) := by
    show ¬ (64 < key.length); omega
  simp only [SCRAMOperations.HMAC, if_neg h64, hm]
  show unpackBytes 20 (sha1Raw 84
      ((packBytes key * 2 ^ (8 * (64 - key.length)) ^^^ 92 * ((2 ^ 512 - 1) / 255)) * 2 ^ 160 +
        sha1Raw 84
          ((packBytes key * 2 ^ (8 * (64 - key.length)) ^^^ 54 * ((2 ^ 512 - 1) / 255)) * 2 ^ 160 +
            packBytes m))) = _
  rw [hkp]
  rw [sha1Raw_84 (kp ^^^ 54 * ((2 ^ 512 - 1) / 255)) (packBytes m)
    (Nat.xor_lt_two_pow hkb (by norm_num)) hb, hmi]
  rw [sha1Raw_84 (kp ^^^ 92 * ((2 ^ 512 - 1) / 255))
    (sha1Block mi ((packBytes m * 256 + 128) * 2 ^ 344 + 672))
    (Nat.xor_lt_two_pow hkb (by norm_num)) (sha1Block_lt _ _), hmo]

/-- One iteration of the `Hi` loop for the password `pencil`, with the HMAC
evaluated through `SHA_1_HMAC_fast` at the `pencil` key-pad midstates. -/
theorem hiStepPencil (n : Nat) (uj res u' r' : Bytes)
    (h : uj.length = 20 ∧ packBytes uj < 2 ^ 160 ∧
      unpackBytes 20 (sha1Block 953193231874945418467983188247142141541081291094
        ((sha1Block 937064627668432815937435359933756401632200283012
            ((packBytes uj * 256 + 128) * 2 ^ 344 + 672) * 256 + 128)
          * 2 ^ 344 + 672)) = u' ∧
      SCRAMOperations.XOR res u' = r') :
    hiLoop SHA_1 (strBytes "pencil") (n+1) uj res = hiLoop SHA_1 (strBytes "pencil") n u' r' := by
  obtain ⟨hm, hb, hu, hr⟩ := h
  have hh : SHA_1.HMAC (strBytes "pencil") uj = u' := by
    rw [SHA_1_HMAC_fast (strBytes "pencil") uj
        5886667466340063168167731682348343236677542429289578201552965551151526393951190752135140482064198658634206633070931929066810577404079960032028366125137920
        937064627668432815937435359933756401632200283012
        953193231874945418467983188247142141541081291094
        (by decide) (by decide) (by decide) hm hb (by decide!) (by decide!)]
    exact hu
  conv_lhs => rw [hiLoop]
  rw [hh]
  show hiLoop SHA_1 (strBytes "pencil") n u' (SCRAMOperations.XOR res u') = _
  rw [hr]


/-- Closed form of `packBytes` over an arbitrary `foldl` seed. -/
theorem packBytes_foldl_init (b : Bytes) (i : Nat) :
    b.foldl (fun acc x => acc * 256 + x) i = i * 256 ^ b.length + packBytes b := by
  induction b generalizing i with
  | nil => simp [packBytes]
  | cons x bs ih =>
    show bs.foldl (fun acc x => acc * 256 + x) (i * 256 + x) = _
    rw [ih (i * 256 + x)]
    have hc : packBytes (x :: bs) = x * 256 ^ bs.length + packBytes bs := by
      show bs.foldl (fun acc x => acc * 256 + x) (0 * 256 + x) = _
      rw [ih (0 * 256 + x)]
      ring
    rw [hc, List.length_cons]
    ring

/-- Length of the unpacking accumulator loop. -/
theorem unpackBytesAux_length (k : Nat) : ∀ (n : Nat) (acc : Bytes),
    (unpackBytesAux k n acc).length = k + acc.length := by
  induction k with
  | zero => intro n acc; simp [unpackBytesAux]
  | succ k ih =>
    intro n acc
    show (unpackBytesAux k (n / 256) (n % 256 :: acc)).length = k + 1 + acc.length
    rw [ih, List.length_cons]
    omega

/-- `unpackBytes k` always yields `k` bytes. -/
theorem unpackBytes_length (k n : Nat) : (unpackBytes k n).length = k := by
  show (unpackBytesAux k n []).length = k
  rw [unpackBytesAux_length]
  rfl

/-- Repacking the unpacking accumulator loop recovers the low bytes. -/
theorem packBytes_unpackBytesAux (k : Nat) : ∀ (n : Nat) (acc : Bytes),
    packBytes (unpackBytesAux k n acc) = n % 256 ^ k * 256 ^ acc.length + packBytes acc := by
  induction k with
  | zero => intro n acc; simp [unpackBytesAux, Nat.mod_one]
  | succ k ih =>
    intro n acc
    show packBytes (unpackBytesAux k (n / 256) (n % 256 :: acc)) = _
    rw [ih]
    have hc : packBytes (n % 256 :: acc) = n % 256 * 256 ^ acc.length + packBytes acc := by
      show acc.foldl (fun a x => a * 256 + x) (0 * 256 + n % 256) = _
      rw [packBytes_foldl_init]
      ring
    have hm : n % 256 ^ (k + 1) = n / 256 % 256 ^ k * 256 + n % 256 := by
      have h2 : (256:Nat) ^ (k + 1) = 256 * 256 ^ k := by ring
      rw [h2, Nat.mod_mul]
      ring
    rw [hc, List.length_cons, hm]
    ring

/-- Packing inverts unpacking up to reduction modulo `256 ^ k`. -/
theorem packBytes_unpackBytes (k n : Nat) : packBytes (unpackBytes k n) = n % 256 ^ k := by
  show packBytes (unpackBytesAux k n []) = n % 256 ^ k
  rw [packBytes_unpackBytesAux]
  simp [packBytes]

/-- Byte-aligned division distributes over `Nat.xor`. -/
theorem xor_div_256 (x y : Nat) : (x ^^^ y) / 256 = x / 256 ^^^ y / 256 := by
  have h : ∀ z : Nat, z / 256 = z >>> 8 := by
    intro z
    rw [Nat.shiftRight_eq_div_pow]
  rw [h, h, h]
  apply Nat.eq_of_testBit_eq
  intro i
  simp [Nat.testBit_shiftRight, Nat.testBit_xor]

/-- The low byte distributes over `Nat.xor`. -/
theorem xor_mod_256 (x y : Nat) : (x ^^^ y) % 256 = x % 256 ^^^ y % 256 := by
  have h : ∀ z : Nat, z % 256 = z % 2 ^ 8 := by intro z; norm_num
  rw [h, h, h]
  apply Nat.eq_of_testBit_eq
  intro i
  simp only [Nat.testBit_mod_two_pow, Nat.testBit_xor]
  by_cases hi : i < 8 <;> simp [hi]

/-- `SCRAMOperations.XOR` commutes with the unpacking accumulator loop. -/
theorem XOR_unpackBytesAux (k : Nat) : ∀ (x y : Nat) (a b : Bytes),
    SCRAMOperations.XOR (unpackBytesAux k x a) (unpackBytesAux k y b) =
      unpackBytesAux k (x ^^^ y) (SCRAMOperations.XOR a b) := by
  induction k with
  | zero => intro x y a b; rfl
  | succ k ih =>
    intro x y a b
    show SCRAMOperations.XOR (unpackBytesAux k (x / 256) (x % 256 :: a))
        (unpackBytesAux k (y / 256) (y % 256 :: b)) = _
    rw [ih]
    show unpackBytesAux k (x / 256 ^^^ y / 256)
        ((x % 256 ^^^ y % 256) :: SCRAMOperations.XOR a b) =
      unpackBytesAux k ((x ^^^ y) / 256) ((x ^^^ y) % 256 :: SCRAMOperations.XOR a b)
    rw [xor_div_256, xor_mod_256]

/-- Byte-wise `XOR` of two equal-length unpackings is the unpacking of the
packed `Nat.xor`. -/
theorem XOR_unpackBytes (k x y : Nat) :
    SCRAMOperations.XOR (unpackBytes k x) (unpackBytes k y) = unpackBytes k (x ^^^ y) := by
  show SCRAMOperations.XOR (unpackBytesAux k x []) (unpackBytesAux k y []) =
    unpackBytesAux k (x ^^^ y) []
  rw [XOR_unpackBytesAux]
  rfl

/-- One iteration of the `Hi` loop for the password `pencil` on packed
160-bit states: `pu2` is the next `U` (the two-compression midstate HMAC of
`hiStepPencil`, on packed digests) and `pr2` the running XOR fold. -/
theorem hiStepP (n pu pr pu2 pr2 : Nat)
    (h : pu < 2 ^ 160 ∧
      sha1Block 953193231874945418467983188247142141541081291094
        ((sha1Block 937064627668432815937435359933756401632200283012
            ((pu * 256 + 128) * 2 ^ 344 + 672) * 256 + 128) * 2 ^ 344 + 672) = pu2 ∧
      pr ^^^ pu2 = pr2) :
    hiLoop SHA_1 (strBytes "pencil") (n+1) (unpackBytes 20 pu) (unpackBytes 20 pr) =
      hiLoop SHA_1 (strBytes "pencil") n (unpackBytes 20 pu2) (unpackBytes 20 pr2) := by
  obtain ⟨hb, hs, hx⟩ := h
  have h160 : (256:Nat) ^ 20 = 2 ^ 160 := by norm_num
  have hpu : packBytes (unpackBytes 20 pu) = pu := by
    rw [packBytes_unpackBytes, h160, Nat.mod_eq_of_lt hb]
  apply hiStepPencil
  refine ⟨unpackBytes_length 20 pu, ?_, ?_, ?_⟩
  · rw [hpu]; exact hb
  · rw [hpu, hs]
  · rw [XOR_unpackBytes, hx]

/-! The 4095 iterations of the `Hi` loop for the RFC 5802 vector
(`Hi("pencil", a2b_base64("QSXCR+Q6sek8bf92"), 4096)`), evaluated on packed
digests in segments of one hundred `hiStepP` steps each. -/

theorem hiChainSeg0 : hiLoop SHA_1 (strBytes "pencil") 4095
    (unpackBytes 20 1387399148016657729648552872063065704306095805337)
    (unpackBytes 20 1387399148016657729648552872063065704306095805337) =
    hiLoop SHA_1 (strBytes "pencil") 3995
      (unpackBytes 20 1383749017385733962377184693769599206937786849338)
      (unpackBytes 20 860117176931083403429861279559794856449962441873) := by
  have e0 := hiStepP 4094 1387399148016657729648552872063065704306095805337 1387399148016657729648552872063065704306095805337 380279566364578157940851581336320242699148925902 1013913349679997785082423649757045343907081537623 (by decide!)
  have e1 := hiStepP 4093 380279566364578157940851581336320242699148925902 1013913349679997785082423649757045343907081537623 1115379474986706269547310734111675983736731039868 655244164776914124662911347493330154073024999467 (by decide!)
  have e2 := hiStepP 4092 1115379474986706269547310734111675983736731039868 655244164776914124662911347493330154073024999467 265953831494664073947086085400830217642658027858 527097831792973266604973639168020480964321175929 (by decide!)
  have e3 := hiStepP 4091 265953831494664073947086085400830217642658027858 527097831792973266604973639168020480964321175929 1197014797199112160301448399978648540771645926566 810500865865511896101951432875321606063574042079 (by decide!)
  have e4 := hiStepP 4090 1197014797199112160301448399978648540771645926566 810500865865511896101951432875321606063574042079 1285737163686359737636114789714535656517085050605 621174664171462662125586608983825673575116796722 (by decide!)
  have e5 := hiStepP 4089 1285737163686359737636114789714535656517085050605 621174664171462662125586608983825673575116796722 1304483780137039500081434850165867719843984281260 780380782139645627598578906849059025300665335198 (by decide!)
  have e6 := hiStepP 4088 1304483780137039500081434850165867719843984281260 780380782139645627598578906849059025300665335198 327557853558016735645050416465126023416202845360 1015159172857567960598171022652052971796132274478 (by decide!)
  have e7 := hiStepP 4087 327557853558016735645050416465126023416202845360 1015159172857567960598171022652052971796132274478 956822276225315038027525811764550449205145147860 127207176426383128815447654042398367639706974458 (by decide!)
  have e8 := hiStepP 4086 956822276225315038027525811764550449205145147860 127207176426383128815447654042398367639706974458 137018876144766096253482534875224506627731161074 81532333647853518905779461506540153706331522824 (by decide!)
  have e9 := hiStepP 4085 137018876144766096253482534875224506627731161074 81532333647853518905779461506540153706331522824 1458105066182722112242907420948765866031955410151 1376930943714923098779185692462809172997247941615 (by decide!)
  have e10 := hiStepP 4084 1458105066182722112242907420948765866031955410151 1376930943714923098779185692462809172997247941615 916789242942755009129867048941613517166572992 1376014885015821989952602504957483100164349382191 (by decide!)
  have e11 := hiStepP 4083 916789242942755009129867048941613517166572992 1376014885015821989952602504957483100164349382191 799947293050242210102109089762246614415627043535 714165043725086457350857182269811090748553465056 (by decide!)
  have e12 := hiStepP 4082 799947293050242210102109089762246614415627043535 714165043725086457350857182269811090748553465056 709593225178614677776973578857889160408649465664 7560483740564030805797215499957927531201360800 (by decide!)
  have e13 := hiStepP 4081 709593225178614677776973578857889160408649465664 7560483740564030805797215499957927531201360800 891913906687822586075529456834278249113394321113 898670866149826978182582899813801020176416204153 (by decide!)
  have e14 := hiStepP 4080 891913906687822586075529456834278249113394321113 898670866149826978182582899813801020176416204153 677074206795796873377281145207310271539764992510 1346982185728385170652351777926230787310992915591 (by decide!)
  have e15 := hiStepP 4079 677074206795796873377281145207310271539764992510 1346982185728385170652351777926230787310992915591 262176373373097084522496352453466850188688018469 1131018531614221203382216529129399088623585374370 (by decide!)
  have e16 := hiStepP 4078 262176373373097084522496352453466850188688018469 1131018531614221203382216529129399088623585374370 625769651793296939075479396121367855059148534696 979111021338669890947738140818777326977153778442 (by decide!)
  have e17 := hiStepP 4077 625769651793296939075479396121367855059148534696 979111021338669890947738140818777326977153778442 100940687695669387874753204302816318606154450 979189303290658473243164654781729393314272795096 (by decide!)
  have e18 := hiStepP 4076 100940687695669387874753204302816318606154450 979189303290658473243164654781729393314272795096 501158249947804341517410005688495205800068238552 1440381035349507004810067419164289151552303502592 (by decide!)
  have e19 := hiStepP 4075 501158249947804341517410005688495205800068238552 1440381035349507004810067419164289151552303502592 1260634858173817562024338825722858921616754355887 186171593340346345986916319230532322336327711663 (by decide!)
  have e20 := hiStepP 4074 1260634858173817562024338825722858921616754355887 186171593340346345986916319230532322336327711663 3644478132908120172089452481231032132678228044 184100108571143234052590159651413980674169316323 (by decide!)
  have e21 := hiStepP 4073 3644478132908120172089452481231032132678228044 184100108571143234052590159651413980674169316323 721960556779107520460555270304737873380236258576 538306637339191535066965979225370138941759147763 (by decide!)
  have e22 := hiStepP 4072 721960556779107520460555270304737873380236258576 538306637339191535066965979225370138941759147763 476914184994740268772221849981685030419459737229 78567223249113968733252527579223148300713314430 (by decide!)
  have e23 := hiStepP 4071 476914184994740268772221849981685030419459737229 78567223249113968733252527579223148300713314430 730206671846654101231012652188667018004605661273 651639882460320789895125719596680529130013636647 (by decide!)
  have e24 := hiStepP 4070 730206671846654101231012652188667018004605661273 651639882460320789895125719596680529130013636647 199353488052843223835506437387361840754941274936 461354610546961463482851297909148603916469932831 (by decide!)
  have e25 := hiStepP 4069 199353488052843223835506437387361840754941274936 461354610546961463482851297909148603916469932831 128714680716748322468366807919918796499978920215 401148516064127092776742663845625677173808017928 (by decide!)
  have e26 := hiStepP 4068 128714680716748322468366807919918796499978920215 401148516064127092776742663845625677173808017928 464807796871938655769500096703421864440420341723 132347688590914956887337325458899567347367028179 (by decide!)
  have e27 := hiStepP 4067 464807796871938655769500096703421864440420341723 132347688590914956887337325458899567347367028179 1275347892868353252114299603454681833083279179010 1143453909903183690989393356952520341890767050961 (by decide!)
  have e28 := hiStepP 4066 1275347892868353252114299603454681833083279179010 1143453909903183690989393356952520341890767050961 982779038050131379446089402666388441403370571447 573383625173190975683965095656113246757813608038 (by decide!)
  have e29 := hiStepP 4065 982779038050131379446089402666388441403370571447 573383625173190975683965095656113246757813608038 567666383579417876868324847419404271195260024903 39971584357062104624536089543924111533274080801 (by decide!)
  have e30 := hiStepP 4064 567666383579417876868324847419404271195260024903 39971584357062104624536089543924111533274080801 1053675722266616193489554894925583425168057129040 1093630580378813371887965568508967624297656221297 (by decide!)
  have e31 := hiStepP 4063 1053675722266616193489554894925583425168057129040 1093630580378813371887965568508967624297656221297 137669198944611453793968066163176216712245886253 956553853916758063511016463313815712817703469916 (by decide!)
  have e32 := hiStepP 4062 137669198944611453793968066163176216712245886253 956553853916758063511016463313815712817703469916 304114636051020426812616826042161184574427692738 838009342254634992370457062029779726924557729182 (by decide!)
  have e33 := hiStepP 4061 304114636051020426812616826042161184574427692738 838009342254634992370457062029779726924557729182 1443102925700989110936369240466466474358412955170 628331363784215536918252124324120149674008409020 (by decide!)
  have e34 := hiStepP 4060 1443102925700989110936369240466466474358412955170 628331363784215536918252124324120149674008409020 1190292460349009260034661955229170089465599299603 1087246786947616369455123810116629407302420489135 (by decide!)
  have e35 := hiStepP 4059 1190292460349009260034661955229170089465599299603 1087246786947616369455123810116629407302420489135 590830544865116679575979421798339560519279007035 1239120610964289473599213946991004714682422933140 (by decide!)
  have e36 := hiStepP 4058 590830544865116679575979421798339560519279007035 1239120610964289473599213946991004714682422933140 543982349704250943059146948781823554749969392565 766545266821981309029793662062308092444359447841 (by decide!)
  have e37 := hiStepP 4057 543982349704250943059146948781823554749969392565 766545266821981309029793662062308092444359447841 272630761038305810658215467622485931080095414832 967768341672127640936548790494694758916458180369 (by decide!)
  have e38 := hiStepP 4056 272630761038305810658215467622485931080095414832 967768341672127640936548790494694758916458180369 389570866566328913750527455675326371553338280642 1357152051507059395152994604808546648548596196819 (by decide!)
  have e39 := hiStepP 4055 389570866566328913750527455675326371553338280642 1357152051507059395152994604808546648548596196819 18021986150551541732763504688427656315845796617 1361971996324608227969834818013126834705060054746 (by decide!)
  have e40 := hiStepP 4054 18021986150551541732763504688427656315845796617 1361971996324608227969834818013126834705060054746 815897286993241207096800562297617667381146773832 550805257807068714063920132320296987521232056210 (by decide!)
  have e41 := hiStepP 4053 815897286993241207096800562297617667381146773832 550805257807068714063920132320296987521232056210 1401951360721611324652286947059305243097852986187 855888150204508092623398031069646423189412408537 (by decide!)
  have e42 := hiStepP 4052 1401951360721611324652286947059305243097852986187 855888150204508092623398031069646423189412408537 242499411705956805072663602693678465546505869320 1093658392947271141297289843553446373603390174417 (by decide!)
  have e43 := hiStepP 4051 242499411705956805072663602693678465546505869320 1093658392947271141297289843553446373603390174417 639325505699307908059205375404029374672664151027 1189902104332703468730590955206073147866407827234 (by decide!)
  have e44 := hiStepP 4050 639325505699307908059205375404029374672664151027 1189902104332703468730590955206073147866407827234 724032883401515157736294388052345434136559089330 997641925421626785552634184211289585687822401936 (by decide!)
  have e45 := hiStepP 4049 724032883401515157736294388052345434136559089330 997641925421626785552634184211289585687822401936 108272692922105197564143759868141021592667960696 1074914226275013177990651001562684187169751250152 (by decide!)
  have e46 := hiStepP 4048 108272692922105197564143759868141021592667960696 1074914226275013177990651001562684187169751250152 1431171948534509652498511181599130535592764874829 404784492609071593768083389079810963261413168293 (by decide!)
  have e47 := hiStepP 4047 1431171948534509652498511181599130535592764874829 404784492609071593768083389079810963261413168293 134002680730951243782288362452044492962769134981 465991603498561603374107329565371577025698165024 (by decide!)
  have e48 := hiStepP 4046 134002680730951243782288362452044492962769134981 465991603498561603374107329565371577025698165024 335276880469476055630505400249274383402501862123 611700780941308078867811715039770829571108471755 (by decide!)
  have e49 := hiStepP 4045 335276880469476055630505400249274383402501862123 611700780941308078867811715039770829571108471755 709162102135450789664066657738283835827348496892 131718058027731525318500000016267041709495378487 (by decide!)
  have e50 := hiStepP 4044 709162102135450789664066657738283835827348496892 131718058027731525318500000016267041709495378487 711020400630610428807738056491469784766993143713 614278278128840395196815530485583103368538060182 (by decide!)
  have e51 := hiStepP 4043 711020400630610428807738056491469784766993143713 614278278128840395196815530485583103368538060182 727464493000152093256400110815711767157637499711 119656225470399844400608894736829063866588511913 (by decide!)
  have e52 := hiStepP 4042 727464493000152093256400110815711767157637499711 119656225470399844400608894736829063866588511913 1269840264624768694205867745843879097928189139049 1156606659353161067959520680913601369918227637952 (by decide!)
  have e53 := hiStepP 4041 1269840264624768694205867745843879097928189139049 1156606659353161067959520680913601369918227637952 1330597136013612509184526629363447347342976175542 202892465984819299419267610133204694386701446006 (by decide!)
  have e54 := hiStepP 4040 1330597136013612509184526629363447347342976175542 202892465984819299419267610133204694386701446006 504658214283067008178318586001414514645671010868 707550674184672840878578277478970329423874738498 (by decide!)
  have e55 := hiStepP 4039 504658214283067008178318586001414514645671010868 707550674184672840878578277478970329423874738498 781788064280977459250189469163654740244678815666 1387981459528693345331676910448972085154111973104 (by decide!)
  have e56 := hiStepP 4038 781788064280977459250189469163654740244678815666 1387981459528693345331676910448972085154111973104 764052743820875843056899802329860271164649188383 678175670537801693314051312753868839440168209135 (by decide!)
  have e57 := hiStepP 4037 764052743820875843056899802329860271164649188383 678175670537801693314051312753868839440168209135 1365835994966013599638666374424668723839540733626 878923126620988255547484691213907837574790933589 (by decide!)
  have e58 := hiStepP 4036 1365835994966013599638666374424668723839540733626 878923126620988255547484691213907837574790933589 604626213082709472386000810327208550708105144144 1370785529050518627082284890921001846404007660293 (by decide!)
  have e59 := hiStepP 4035 604626213082709472386000810327208550708105144144 1370785529050518627082284890921001846404007660293 741695258019916144963727906677586023031385170787 650621640535070579911550379905829754527815575654 (by decide!)
  have e60 := hiStepP 4034 741695258019916144963727906677586023031385170787 650621640535070579911550379905829754527815575654 940841409731859957203232392081489480734732345955 1217312272251841594159012601652459562362937952773 (by decide!)
  have e61 := hiStepP 4033 940841409731859957203232392081489480734732345955 1217312272251841594159012601652459562362937952773 856877593459773344682334582902372481044887597398 383518790845534969139215574081629829939034405715 (by decide!)
  have e62 := hiStepP 4032 856877593459773344682334582902372481044887597398 383518790845534969139215574081629829939034405715 672926691754658288409528112921552452322883406187 313693464192538731995675510125376406521536262712 (by decide!)
  have e63 := hiStepP 4031 672926691754658288409528112921552452322883406187 313693464192538731995675510125376406521536262712 623067879042499254910822942349070678809151838466 524197496081051823330696714737319794625151216442 (by decide!)
  have e64 := hiStepP 4030 623067879042499254910822942349070678809151838466 524197496081051823330696714737319794625151216442 894520138004512643140121923093582920211351542683 1138910181172824953857647614167342198641721782433 (by decide!)
  have e65 := hiStepP 4029 894520138004512643140121923093582920211351542683 1138910181172824953857647614167342198641721782433 567296983964056510225982232539915148555235176681 936988659328878398224318790087746671681684602952 (by decide!)
  have e66 := hiStepP 4028 567296983964056510225982232539915148555235176681 936988659328878398224318790087746671681684602952 1216328653597910237408260344257161584974807128279 646143740878618229830302689160479804684925458591 (by decide!)
  have e67 := hiStepP 4027 1216328653597910237408260344257161584974807128279 646143740878618229830302689160479804684925458591 1183739496200818470331043901883304247067996169142 1087353726668866978008780903997766564463082044201 (by decide!)
  have e68 := hiStepP 4026 1183739496200818470331043901883304247067996169142 1087353726668866978008780903997766564463082044201 649078754443033297866186922217159956088231628707 1186200522608234846389880374385370120765033968778 (by decide!)
  have e69 := hiStepP 4025 649078754443033297866186922217159956088231628707 1186200522608234846389880374385370120765033968778 369132142041569144589097900628481536578977465686 818870045073992517487138016625943641487281713628 (by decide!)
  have e70 := hiStepP 4024 369132142041569144589097900628481536578977465686 818870045073992517487138016625943641487281713628 1251043804128558516873491117133699553640056529629 481291335494571361240116201243132143261992997633 (by decide!)
  have e71 := hiStepP 4023 1251043804128558516873491117133699553640056529629 481291335494571361240116201243132143261992997633 1144799625572103359115106244041881964108189353715 895136461187854370609337550251525926940075660786 (by decide!)
  have e72 := hiStepP 4022 1144799625572103359115106244041881964108189353715 895136461187854370609337550251525926940075660786 1429554000623455263208199101201274519784635582858 586156074107132596114255961075976671693287054456 (by decide!)
  have e73 := hiStepP 4021 1429554000623455263208199101201274519784635582858 586156074107132596114255961075976671693287054456 1356664339573883282441105019535495642434789113693 793879647903240030903079606867225850556172673829 (by decide!)
  have e74 := hiStepP 4020 1356664339573883282441105019535495642434789113693 793879647903240030903079606867225850556172673829 1167111613137848385722222618803124704938598235773 407519911770929885312451289280927349981011336536 (by decide!)
  have e75 := hiStepP 4019 1167111613137848385722222618803124704938598235773 407519911770929885312451289280927349981011336536 1223291913043223592951761100044187108910210508785 828687095254016465085799080366073087357641112233 (by decide!)
  have e76 := hiStepP 4018 1223291913043223592951761100044187108910210508785 828687095254016465085799080366073087357641112233 615662358194372152885113652818420290550725142624 1432619043573449620875857352181949978758844371657 (by decide!)
  have e77 := hiStepP 4017 615662358194372152885113652818420290550725142624 1432619043573449620875857352181949978758844371657 623213568176415730578227929375002011065949573129 866896950576547250017049953711461830078071997120 (by decide!)
  have e78 := hiStepP 4016 623213568176415730578227929375002011065949573129 866896950576547250017049953711461830078071997120 110833263296682281153763737484790092913651142904 757532578133228851343199275921425579235762000440 (by decide!)
  have e79 := hiStepP 4015 110833263296682281153763737484790092913651142904 757532578133228851343199275921425579235762000440 1233319464416281380036265235731871138208958496007 529310504128252695188322094393424874827772981055 (by decide!)
  have e80 := hiStepP 4014 1233319464416281380036265235731871138208958496007 529310504128252695188322094393424874827772981055 931722151078057277206546122897869356102260637546 1458753710311205081323638908215666478743289450581 (by decide!)
  have e81 := hiStepP 4013 931722151078057277206546122897869356102260637546 1458753710311205081323638908215666478743289450581 577678731515059064776197577360027644053325820892 883215941318542015151040772166204833980726567817 (by decide!)
  have e82 := hiStepP 4012 577678731515059064776197577360027644053325820892 883215941318542015151040772166204833980726567817 27769294247946722369498310699903422978609845267 904383209622971472725021930681600585610053679002 (by decide!)
  have e83 := hiStepP 4011 27769294247946722369498310699903422978609845267 904383209622971472725021930681600585610053679002 257307722798129919240929532493427026663405714867 1024672012328046698001655620310751610441308768809 (by decide!)
  have e84 := hiStepP 4010 257307722798129919240929532493427026663405714867 1024672012328046698001655620310751610441308768809 932662475204935575241059711764753843675174453440 92189359340204023526813667425881060509504359145 (by decide!)
  have e85 := hiStepP 4009 932662475204935575241059711764753843675174453440 92189359340204023526813667425881060509504359145 258223234672361026890054862232972502972995837210 348934940962766072887749529304971977812035000307 (by decide!)
  have e86 := hiStepP 4008 258223234672361026890054862232972502972995837210 348934940962766072887749529304971977812035000307 284908120812609139726608535277366909041098944039 74070572735391708068082706098777268712839887316 (by decide!)
  have e87 := hiStepP 4007 284908120812609139726608535277366909041098944039 74070572735391708068082706098777268712839887316 445740340161825929804584679546133174759767699497 382028518356779616372232969387674591213780519421 (by decide!)
  have e88 := hiStepP 4006 445740340161825929804584679546133174759767699497 382028518356779616372232969387674591213780519421 963360569360581510864947248952426270581132922395 1337784478691595170766977531075154512459134945254 (by decide!)
  have e89 := hiStepP 4005 963360569360581510864947248952426270581132922395 1337784478691595170766977531075154512459134945254 1071852779070806368650628661650814703005851495259 467688338469411001901476258609481142391217384637 (by decide!)
  have e90 := hiStepP 4004 1071852779070806368650628661650814703005851495259 467688338469411001901476258609481142391217384637 932585092412138590025750300859580456880927990367 1385530056896627932697477634000981590104184721122 (by decide!)
  have e91 := hiStepP 4003 932585092412138590025750300859580456880927990367 1385530056896627932697477634000981590104184721122 634717721996670398312981884728344412615001448156 899810948057437528442654527649101386734002442302 (by decide!)
  have e92 := hiStepP 4002 634717721996670398312981884728344412615001448156 899810948057437528442654527649101386734002442302 849817396438291051307961430376845253542584549040 52981897924981304172742304954037816941656108686 (by decide!)
  have e93 := hiStepP 4001 849817396438291051307961430376845253542584549040 52981897924981304172742304954037816941656108686 1175294081471890259234344105949590734970358182621 1122391649018815044061619643644430759286691519571 (by decide!)
  have e94 := hiStepP 4000 1175294081471890259234344105949590734970358182621 1122391649018815044061619643644430759286691519571 950387198099463384276920127729866445896837432380 564501355888815032485182475703028773153104582767 (by decide!)
  have e95 := hiStepP 3999 950387198099463384276920127729866445896837432380 564501355888815032485182475703028773153104582767 516923777859450087124719896312297734260704676495 322083058873107400351128924303629443525525754592 (by decide!)
  have e96 := hiStepP 3998 516923777859450087124719896312297734260704676495 322083058873107400351128924303629443525525754592 937140939096854628341452433836676960933594776020 892307027505702839735425836759245281397434618676 (by decide!)
  have e97 := hiStepP 3997 937140939096854628341452433836676960933594776020 892307027505702839735425836759245281397434618676 884785699993988070468807089954894640389063760703 38341245935531239498744336409388809200034039819 (by decide!)
  have e98 := hiStepP 3996 884785699993988070468807089954894640389063760703 38341245935531239498744336409388809200034039819 562308471584156688426825648243280830402723228832 575394007205424228764615723114523945817422455979 (by decide!)
  have e99 := hiStepP 3995 562308471584156688426825648243280830402723228832 575394007205424228764615723114523945817422455979 1383749017385733962377184693769599206937786849338 860117176931083403429861279559794856449962441873 (by decide!)
  have t0 := e0
  have t1 := t0.trans e1
  have t2 := t1.trans e2
  have t3 := t2.trans e3
  have t4 := t3.trans e4
  have t5 := t4.trans e5
  have t6 := t5.trans e6
  have t7 := t6.trans e7
  have t8 := t7.trans e8
  have t9 := t8.trans e9
  have t10 := t9.trans e10
  have t11 := t10.trans e11
  have t12 := t11.trans e12
  have t13 := t12.trans e13
  have t14 := t13.trans e14
  have t15 := t14.trans e15
  have t16 := t15.trans e16
  have t17 := t16.trans e17
  have t18 := t17.trans e18
  have t19 := t18.trans e19
  have t20 := t19.trans e20
  have t21 := t20.trans e21
  have t22 := t21.trans e22
  have t23 := t22.trans e23
  have t24 := t23.trans e24
  have t25 := t24.trans e25
  have t26 := t25.trans e26
  have t27 := t26.trans e27
  have t28 := t27.trans e28
  have t29 := t28.trans e29
  have t30 := t29.trans e30
  have t31 := t30.trans e31
  have t32 := t31.trans e32
  have t33 := t32.trans e33
  have t34 := t33.trans e34
  have t35 := t34.trans e35
  have t36 := t35.trans e36
  have t37 := t36.trans e37
  have t38 := t37.trans e38
  have t39 := t38.trans e39
  have t40 := t39.trans e40
  have t41 := t40.trans e41
  have t42 := t41.trans e42
  have t43 := t42.trans e43
  have t44 := t43.trans e44
  have t45 := t44.trans e45
  have t46 := t45.trans e46
  have t47 := t46.trans e47
  have t48 := t47.trans e48
  have t49 := t48.trans e49
  have t50 := t49.trans e50
  have t51 := t50.trans e51
  have t52 := t51.trans e52
  have t53 := t52.trans e53
  have t54 := t53.trans e54
  have t55 := t54.trans e55
  have t56 := t55.trans e56
  have t57 := t56.trans e57
  have t58 := t57.trans e58
  have t59 := t58.trans e59
  have t60 := t59.trans e60
  have t61 := t60.trans e61
  have t62 := t61.trans e62
  have t63 := t62.trans e63
  have t64 := t63.trans e64
  have t65 := t64.trans e65
  have t66 := t65.trans e66
  have t67 := t66.trans e67
  have t68 := t67.trans e68
  have t69 := t68.trans e69
  have t70 := t69.trans e70
  have t71 := t70.trans e71
  have t72 := t71.trans e72
  have t73 := t72.trans e73
  have t74 := t73.trans e74
  have t75 := t74.trans e75
  have t76 := t75.trans e76
  have t77 := t76.trans e77
  have t78 := t77.trans e78
  have t79 := t78.trans e79
  have t80 := t79.trans e80
  have t81 := t80.trans e81
  have t82 := t81.trans e82
  have t83 := t82.trans e83
  have t84 := t83.trans e84
  have t85 := t84.trans e85
  have t86 := t85.trans e86
  have t87 := t86.trans e87
  have t88 := t87.trans e88
  have t89 := t88.trans e89
  have t90 := t89.trans e90
  have t91 := t90.trans e91
  have t92 := t91.trans e92
  have t93 := t92.trans e93
  have t94 := t93.trans e94
  have t95 := t94.trans e95
  have t96 := t95.trans e96
  have t97 := t96.trans e97
  have t98 := t97.trans e98
  have t99 := t98.trans e99
  exact t99

theorem hiChainSeg1 : hiLoop SHA_1 (strBytes "pencil") 3995
    (unpackBytes 20 1383749017385733962377184693769599206937786849338)
    (unpackBytes 20 860117176931083403429861279559794856449962441873) =
    hiLoop SHA_1 (strBytes "pencil") 3895
      (unpackBytes 20 326824206908101397721079175587621537348697243486)
      (unpackBytes 20 771202995602474380359550751345962466722189288949) := by
  have e0 := hiStepP 3994 1383749017385733962377184693769599206937786849338 860117176931083403429861279559794856449962441873 410228153843204428247886658835713290145768325738 1195759747790196634769486073279962037545984245499 (by decide!)
  have e1 := hiStepP 3993 410228153843204428247886658835713290145768325738 1195759747790196634769486073279962037545984245499 610007473176714315444596441888897957838184091058 1071374396788259637725730897801291535093030662985 (by decide!)
  have e2 := hiStepP 3992 610007473176714315444596441888897957838184091058 1071374396788259637725730897801291535093030662985 484601525666314491287146889155648022441455408542 1366062666408755727490011158229353989271540819671 (by decide!)
  have e3 := hiStepP 3991 484601525666314491287146889155648022441455408542 1366062666408755727490011158229353989271540819671 939641264095072289086183162986403242102551572866 433139614977871455177780682035505443056717928277 (by decide!)
  have e4 := hiStepP 3990 939641264095072289086183162986403242102551572866 433139614977871455177780682035505443056717928277 709941732344599070704065548281770449346565230085 316944248205759296914613514417647523788906027344 (by decide!)
  have e5 := hiStepP 3989 709941732344599070704065548281770449346565230085 316944248205759296914613514417647523788906027344 1030004262546143544753116587810550218100236405355 753201442901785845829537807656447764848772846395 (by decide!)
  have e6 := hiStepP 3988 1030004262546143544753116587810550218100236405355 753201442901785845829537807656447764848772846395 522643182546294701272563411954829578927502473059 1235340892635940000102745854759706446092133737560 (by decide!)
  have e7 := hiStepP 3987 522643182546294701272563411954829578927502473059 1235340892635940000102745854759706446092133737560 560534628903509681492180013080428708683365579933 1063603727805305108284144727623130926624997202117 (by decide!)
  have e8 := hiStepP 3986 560534628903509681492180013080428708683365579933 1063603727805305108284144727623130926624997202117 902431011745225622764658971957201343875514004527 207659309520501564310359133554095563956486614250 (by decide!)
  have e9 := hiStepP 3985 902431011745225622764658971957201343875514004527 207659309520501564310359133554095563956486614250 1017691675979640537775359267004468123343293333102 856997822971545453963437633876784521825356747396 (by decide!)
  have e10 := hiStepP 3984 1017691675979640537775359267004468123343293333102 856997822971545453963437633876784521825356747396 702665930890816519163799473711425374870591558716 1353248050433510443223426797954896429437260580536 (by decide!)
  have e11 := hiStepP 3983 702665930890816519163799473711425374870591558716 1353248050433510443223426797954896429437260580536 779769233220821341257149689838429668563255184237 580169395432888805587566301846035880833239518677 (by decide!)
  have e12 := hiStepP 3982 779769233220821341257149689838429668563255184237 580169395432888805587566301846035880833239518677 332242510670426390170260984088378786461760872497 546233663731949869254065608331200853205419257316 (by decide!)
  have e13 := hiStepP 3981 332242510670426390170260984088378786461760872497 546233663731949869254065608331200853205419257316 647365257803667091124400051932352711513699705348 267099707257017733414928920659246858393310040032 (by decide!)
  have e14 := hiStepP 3980 647365257803667091124400051932352711513699705348 267099707257017733414928920659246858393310040032 1420074545478710338194131088353937730987021129982 1224387748034811147385065159751546994274849838878 (by decide!)
  have e15 := hiStepP 3979 1420074545478710338194131088353937730987021129982 1224387748034811147385065159751546994274849838878 1355474659561406347226596746674509983044846235231 337430481817600744430495395717991349298665945409 (by decide!)
  have e16 := hiStepP 3978 1355474659561406347226596746674509983044846235231 337430481817600744430495395717991349298665945409 118987832794866182435204905479737160871502206286 272905250873157226276611481376308126764590443535 (by decide!)
  have e17 := hiStepP 3977 118987832794866182435204905479737160871502206286 272905250873157226276611481376308126764590443535 1046846239707309718388508819207199776082782028827 871051414190976034499328704482086031284947626004 (by decide!)
  have e18 := hiStepP 3976 1046846239707309718388508819207199776082782028827 871051414190976034499328704482086031284947626004 979955716055797680871547589014797588528201295922 292361393820813144032683983560210546741029814310 (by decide!)
  have e19 := hiStepP 3975 979955716055797680871547589014797588528201295922 292361393820813144032683983560210546741029814310 515269091579191211255134891610936699534244718633 602042688709837956503097913608343386986681526287 (by decide!)
  have e20 := hiStepP 3974 515269091579191211255134891610936699534244718633 602042688709837956503097913608343386986681526287 676175614898500508781967738088983565615097825585 177073863105887144391336368009667182738466480446 (by decide!)
  have e21 := hiStepP 3973 676175614898500508781967738088983565615097825585 177073863105887144391336368009667182738466480446 462062297699831072233572735156611576757084552947 456269351818871941630907686185848273847007961037 (by decide!)
  have e22 := hiStepP 3972 462062297699831072233572735156611576757084552947 456269351818871941630907686185848273847007961037 751860768238973539570188745583770031061996603576 1166625253622305037556331917562243577487921698677 (by decide!)
  have e23 := hiStepP 3971 751860768238973539570188745583770031061996603576 1166625253622305037556331917562243577487921698677 158495008957141796847587515864501743611750968328 1230875728250037634410217553814109545500717759357 (by decide!)
  have e24 := hiStepP 3970 158495008957141796847587515864501743611750968328 1230875728250037634410217553814109545500717759357 774109602470601853344178136696439058900794538403 456767177256063189938924208821998831181031457502 (by decide!)
  have e25 := hiStepP 3969 774109602470601853344178136696439058900794538403 456767177256063189938924208821998831181031457502 121436108986900802602019807851819613396805042065 395509651126160296499521835699089479467419696463 (by decide!)
  have e26 := hiStepP 3968 121436108986900802602019807851819613396805042065 395509651126160296499521835699089479467419696463 1038115220466559741622230402507526496754766288340 1373412859290654169298946265377703902541032482971 (by decide!)
  have e27 := hiStepP 3967 1038115220466559741622230402507526496754766288340 1373412859290654169298946265377703902541032482971 1152207510775657011751575604645768406486481134072 326911144901751361906791542130196416203292150115 (by decide!)
  have e28 := hiStepP 3966 1152207510775657011751575604645768406486481134072 326911144901751361906791542130196416203292150115 556920615446522294593725235543505034249951978964 506987648343230500620637073260461475273321426103 (by decide!)
  have e29 := hiStepP 3965 556920615446522294593725235543505034249951978964 506987648343230500620637073260461475273321426103 44639871653985452005205143999306637019465902146 543059765083744050956163590457318028090413729013 (by decide!)
  have e30 := hiStepP 3964 44639871653985452005205143999306637019465902146 543059765083744050956163590457318028090413729013 58851748575068450490203024772854149175964774174 487062621438459507926718596596725411169624026091 (by decide!)
  have e31 := hiStepP 3963 58851748575068450490203024772854149175964774174 487062621438459507926718596596725411169624026091 954990700255241633353402607722683672634132340748 1382108825298356362921537532424504577571120172007 (by decide!)
  have e32 := hiStepP 3962 954990700255241633353402607722683672634132340748 1382108825298356362921537532424504577571120172007 762462564708352527997955941277892696475664084307 682802107828315685016159136828393569632178939572 (by decide!)
  have e33 := hiStepP 3961 762462564708352527997955941277892696475664084307 682802107828315685016159136828393569632178939572 1305211899656384607158930895565885663366304972604 839363638924403314988685159644711478374939957640 (by decide!)
  have e34 := hiStepP 3960 1305211899656384607158930895565885663366304972604 839363638924403314988685159644711478374939957640 45967216901708088128967051829714294088854836999 885147568104128543211067069678815801668525198991 (by decide!)
  have e35 := hiStepP 3959 45967216901708088128967051829714294088854836999 885147568104128543211067069678815801668525198991 1339471474450619029688032594767893182070499648272 648429854316877949141798068814387881666333420959 (by decide!)
  have e36 := hiStepP 3958 1339471474450619029688032594767893182070499648272 648429854316877949141798068814387881666333420959 164106347633295651267895632555936781618739056972 623223754855607083285093420438828294557167402195 (by decide!)
  have e37 := hiStepP 3957 164106347633295651267895632555936781618739056972 623223754855607083285093420438828294557167402195 519512388585825199728671311083500291040541758243 318765145429691784682022539260243366666501320688 (by decide!)
  have e38 := hiStepP 3956 519512388585825199728671311083500291040541758243 318765145429691784682022539260243366666501320688 1096110921745897073506129130854873754481723476562 777375765422802108522781228800767733952697591202 (by decide!)
  have e39 := hiStepP 3955 1096110921745897073506129130854873754481723476562 777375765422802108522781228800767733952697591202 1028758334694473907675036053768807671479555243470 343111131921156406788126035735802906800972453996 (by decide!)
  have e40 := hiStepP 3954 1028758334694473907675036053768807671479555243470 343111131921156406788126035735802906800972453996 1069761965053053893118532801618844717036854011657 773399228363474395109030166441323372790132129637 (by decide!)
  have e41 := hiStepP 3953 1069761965053053893118532801618844717036854011657 773399228363474395109030166441323372790132129637 6452483809595283203724852883279510117387253302 766994874097342156986354884821782654381186124115 (by decide!)
  have e42 := hiStepP 3952 6452483809595283203724852883279510117387253302 766994874097342156986354884821782654381186124115 1213400960244918518901020687985038497881160702578 472864542881392513930888406900871686713197515553 (by decide!)
  have e43 := hiStepP 3951 1213400960244918518901020687985038497881160702578 472864542881392513930888406900871686713197515553 1043311822010993133377807660214747788426673912888 1304064204388767324978862409891679799546038398745 (by decide!)
  have e44 := hiStepP 3950 1043311822010993133377807660214747788426673912888 1304064204388767324978862409891679799546038398745 1231948450895857445973231313062583621755119383595 294865353165234995177910223525164049479173643058 (by decide!)
  have e45 := hiStepP 3949 1231948450895857445973231313062583621755119383595 294865353165234995177910223525164049479173643058 1009543624720836025357822029496712772558760875625 750458423484068882238354014389826745265194339675 (by decide!)
  have e46 := hiStepP 3948 1009543624720836025357822029496712772558760875625 750458423484068882238354014389826745265194339675 920356984793078480881884437400326162969114383018 195655958138572801842075348757396641064449351665 (by decide!)
  have e47 := hiStepP 3947 920356984793078480881884437400326162969114383018 195655958138572801842075348757396641064449351665 120941021698324627044346622501120580677899923087 316373259682557758920929556370584769628739613054 (by decide!)
  have e48 := hiStepP 3946 120941021698324627044346622501120580677899923087 316373259682557758920929556370584769628739613054 9553131901267565847562899466522305137683007117 312718687946839110197380889760163015560024766451 (by decide!)
  have e49 := hiStepP 3945 9553131901267565847562899466522305137683007117 312718687946839110197380889760163015560024766451 256778575271380954291844375612833174154750689962 149784610315268879331850824272285058689377809753 (by decide!)
  have e50 := hiStepP 3944 256778575271380954291844375612833174154750689962 149784610315268879331850824272285058689377809753 489420943023971861374368133906307316766561885964 454020165098876947792155162634662114559990032981 (by decide!)
  have e51 := hiStepP 3943 489420943023971861374368133906307316766561885964 454020165098876947792155162634662114559990032981 592740011255699375226165462783787171736933028499 230268284415815154624369116236513313014591731910 (by decide!)
  have e52 := hiStepP 3942 592740011255699375226165462783787171736933028499 230268284415815154624369116236513313014591731910 1218421906484699608495273847330423580556769845063 1445768095865474132394600398705305569709303555969 (by decide!)
  have e53 := hiStepP 3941 1218421906484699608495273847330423580556769845063 1445768095865474132394600398705305569709303555969 777016814603267062592599224173659046209836166123 668773594273692902924805451148398199956394101866 (by decide!)
  have e54 := hiStepP 3940 777016814603267062592599224173659046209836166123 668773594273692902924805451148398199956394101866 199646648965887379494906219669220766689063468244 501603646853909535060351339998577304867651694782 (by decide!)
  have e55 := hiStepP 3939 199646648965887379494906219669220766689063468244 501603646853909535060351339998577304867651694782 1339851541716643716032408405020223636988441407482 1081444855018970120973719658005334916436757552964 (by decide!)
  have e56 := hiStepP 3938 1339851541716643716032408405020223636988441407482 1081444855018970120973719658005334916436757552964 318899574426720904829733676510134158836249863117 791907263329039281593521298395933553273078594697 (by decide!)
  have e57 := hiStepP 3937 318899574426720904829733676510134158836249863117 791907263329039281593521298395933553273078594697 1135219355122240080682078167254753547847690731949 436350893323612387460338069703503651307202903332 (by decide!)
  have e58 := hiStepP 3936 1135219355122240080682078167254753547847690731949 436350893323612387460338069703503651307202903332 358238572440425321910318944000017984659094725767 655494142008845997216965349323067209301327485347 (by decide!)
  have e59 := hiStepP 3935 358238572440425321910318944000017984659094725767 655494142008845997216965349323067209301327485347 451162925297037280281576957007991977190816635286 353054931798741726694749104689451081386214572085 (by decide!)
  have e60 := hiStepP 3934 451162925297037280281576957007991977190816635286 353054931798741726694749104689451081386214572085 179884768550695930244097690249997147569003308272 196018673951193910565338946322410503357364593861 (by decide!)
  have e61 := hiStepP 3933 179884768550695930244097690249997147569003308272 196018673951193910565338946322410503357364593861 1339430507766538175428022798404519192340400251300 1146345775606857883448921680261907664193399768417 (by decide!)
  have e62 := hiStepP 3932 1339430507766538175428022798404519192340400251300 1146345775606857883448921680261907664193399768417 1196726616571545526418861282949784856084505082571 144620327653069233095296968953920317570430140330 (by decide!)
  have e63 := hiStepP 3931 1196726616571545526418861282949784856084505082571 144620327653069233095296968953920317570430140330 460644327583642986553174707094608883316413505831 421863065365205587495085333495411225609450872461 (by decide!)
  have e64 := hiStepP 3930 460644327583642986553174707094608883316413505831 421863065365205587495085333495411225609450872461 467577184561350224594027125024181893404256107808 137062877307328618488899028640851439172235502509 (by decide!)
  have e65 := hiStepP 3929 467577184561350224594027125024181893404256107808 137062877307328618488899028640851439172235502509 239793050380969821385224296119355140703561822303 285509260411766303613798066323701557030362977266 (by decide!)
  have e66 := hiStepP 3928 239793050380969821385224296119355140703561822303 285509260411766303613798066323701557030362977266 345296779392499929848153328582693328461890147181 82625062358259763510825513319694634272998277279 (by decide!)
  have e67 := hiStepP 3927 345296779392499929848153328582693328461890147181 82625062358259763510825513319694634272998277279 783419328888320962275469174250990108057734901187 772156849232615583427098182563709790336687123804 (by decide!)
  have e68 := hiStepP 3926 783419328888320962275469174250990108057734901187 772156849232615583427098182563709790336687123804 54153433767031684411942598456632457460842591439 812034858851667042496070419731054384564238080403 (by decide!)
  have e69 := hiStepP 3925 54153433767031684411942598456632457460842591439 812034858851667042496070419731054384564238080403 152391762983431188244629822290400567521080266248 848088683159011715472392255911221781619085711259 (by decide!)
  have e70 := hiStepP 3924 152391762983431188244629822290400567521080266248 848088683159011715472392255911221781619085711259 1059081261793163614577946043578801012692783620962 257245021074865632667660566040316510498784212217 (by decide!)
  have e71 := hiStepP 3923 1059081261793163614577946043578801012692783620962 257245021074865632667660566040316510498784212217 1227291824157845450411048396517237632619836704342 1438463505652538697559517567631544228392051897007 (by decide!)
  have e72 := hiStepP 3922 1227291824157845450411048396517237632619836704342 1438463505652538697559517567631544228392051897007 1109603937492758785827435731611905749950585259573 329219254816311454518764217470668752734275581082 (by decide!)
  have e73 := hiStepP 3921 1109603937492758785827435731611905749950585259573 329219254816311454518764217470668752734275581082 792976266013087636439981614792111441500509295859 1023626040231370460742758832099750976412601737321 (by decide!)
  have e74 := hiStepP 3920 792976266013087636439981614792111441500509295859 1023626040231370460742758832099750976412601737321 714456624952397545407861885928064420896047918674 1178408790087758538647234887882152377915649723963 (by decide!)
  have e75 := hiStepP 3919 714456624952397545407861885928064420896047918674 1178408790087758538647234887882152377915649723963 64168871062938061552766416946192738714686657798 1126561518055553408748390128427457462452048337725 (by decide!)
  have e76 := hiStepP 3918 64168871062938061552766416946192738714686657798 1126561518055553408748390128427457462452048337725 530539131175564307036897787709015092055503743389 877644560127551358756592925797211236370877035168 (by decide!)
  have e77 := hiStepP 3917 530539131175564307036897787709015092055503743389 877644560127551358756592925797211236370877035168 25453640004208802522404667825224890404713863828 900940349852282643457687810784950728778281756724 (by decide!)
  have e78 := hiStepP 3916 25453640004208802522404667825224890404713863828 900940349852282643457687810784950728778281756724 1058241461234888138750111191192754192901809154273 208793532733746136810798860534725899419388805333 (by decide!)
  have e79 := hiStepP 3915 1058241461234888138750111191192754192901809154273 208793532733746136810798860534725899419388805333 592351613959607133107548195655914929276832177987 384360943465182074388135035561508517031897915286 (by decide!)
  have e80 := hiStepP 3914 592351613959607133107548195655914929276832177987 384360943465182074388135035561508517031897915286 265164284976747813116295500373665727298474993593 623020757383941005025195013605585218511435937839 (by decide!)
  have e81 := hiStepP 3913 265164284976747813116295500373665727298474993593 623020757383941005025195013605585218511435937839 405059675336551121312888570075805595858319767295 250185658859443261693614093966009214428594818768 (by decide!)
  have e82 := hiStepP 3912 405059675336551121312888570075805595858319767295 250185658859443261693614093966009214428594818768 1014740463354791184303346189982851793031185555531 881598611941066188257621815505018725390287646363 (by decide!)
  have e83 := hiStepP 3911 1014740463354791184303346189982851793031185555531 881598611941066188257621815505018725390287646363 316614928666241926911636320061208781935656497330 988229526411302001141507656783986857583162089001 (by decide!)
  have e84 := hiStepP 3910 316614928666241926911636320061208781935656497330 988229526411302001141507656783986857583162089001 61613230177770404628321276748818733881887953679 958116296190240661895383360364016083699693047078 (by decide!)
  have e85 := hiStepP 3909 61613230177770404628321276748818733881887953679 958116296190240661895383360364016083699693047078 727474275003287176664851963667538124828671106316 1237389661991837304951981792889061673273061707818 (by decide!)
  have e86 := hiStepP 3908 727474275003287176664851963667538124828671106316 1237389661991837304951981792889061673273061707818 100643511763791945338951592711910207230824968357 1148209132241497622421570212663821532595928359055 (by decide!)
  have e87 := hiStepP 3907 100643511763791945338951592711910207230824968357 1148209132241497622421570212663821532595928359055 452713633139832531996151475370531206832046911766 766858145562977969066249162258720158440832913817 (by decide!)
  have e88 := hiStepP 3906 452713633139832531996151475370531206832046911766 766858145562977969066249162258720158440832913817 1191511139744879008804169625557805139392369355042 496106460646690029235800064698043810473346676923 (by decide!)
  have e89 := hiStepP 3905 1191511139744879008804169625557805139392369355042 496106460646690029235800064698043810473346676923 1326703910203534788654090869932915991546739467114 1087682185579736448882014808514245680963918470097 (by decide!)
  have e90 := hiStepP 3904 1326703910203534788654090869932915991546739467114 1087682185579736448882014808514245680963918470097 321357526668204513042474768900192615728934177726 769630804540130045738603109425882908826099896431 (by decide!)
  have e91 := hiStepP 3903 321357526668204513042474768900192615728934177726 769630804540130045738603109425882908826099896431 420888315477792109864017279520762603288707674897 1184397516200961063615664219699796401633405363070 (by decide!)
  have e92 := hiStepP 3902 420888315477792109864017279520762603288707674897 1184397516200961063615664219699796401633405363070 193551980236593795261864499431012031314099073583 1361975106769111904029748564516415363974537449809 (by decide!)
  have e93 := hiStepP 3901 193551980236593795261864499431012031314099073583 1361975106769111904029748564516415363974537449809 675263007525324251587481277366431640857740504569 872556063061006945568273876397271036755070319784 (by decide!)
  have e94 := hiStepP 3900 675263007525324251587481277366431640857740504569 872556063061006945568273876397271036755070319784 416384121574424739207281299782740906862055220884 1188753338209793993487980062605588098315598502460 (by decide!)
  have e95 := hiStepP 3899 416384121574424739207281299782740906862055220884 1188753338209793993487980062605588098315598502460 524483370532744983232152996062637897186723503104 798705262487669685125154275931144433581689734716 (by decide!)
  have e96 := hiStepP 3898 524483370532744983232152996062637897186723503104 798705262487669685125154275931144433581689734716 1431187757614431889626199055762570926409765178364 647067574492573318283251662110389796529599958464 (by decide!)
  have e97 := hiStepP 3897 1431187757614431889626199055762570926409765178364 647067574492573318283251662110389796529599958464 231231117127682587982992631057308698389266122324 512900453396448868095340666698923963549489367956 (by decide!)
  have e98 := hiStepP 3896 231231117127682587982992631057308698389266122324 512900453396448868095340666698923963549489367956 1324441051212901127755923693471615938413991530815 1085661413435865397715185972938987696328636013227 (by decide!)
  have e99 := hiStepP 3895 1324441051212901127755923693471615938413991530815 1085661413435865397715185972938987696328636013227 326824206908101397721079175587621537348697243486 771202995602474380359550751345962466722189288949 (by decide!)
  have t0 := e0
  have t1 := t0.trans e1
  have t2 := t1.trans e2
  have t3 := t2.trans e3
  have t4 := t3.trans e4
  have t5 := t4.trans e5
  have t6 := t5.trans e6
  have t7 := t6.trans e7
  have t8 := t7.trans e8
  have t9 := t8.trans e9
  have t10 := t9.trans e10
  have t11 := t10.trans e11
  have t12 := t11.trans e12
  have t13 := t12.trans e13
  have t14 := t13.trans e14
  have t15 := t14.trans e15
  have t16 := t15.trans e16
  have t17 := t16.trans e17
  have t18 := t17.trans e18
  have t19 := t18.trans e19
  have t20 := t19.trans e20
  have t21 := t20.trans e21
  have t22 := t21.trans e22
  have t23 := t22.trans e23
  have t24 := t23.trans e24
  have t25 := t24.trans e25
  have t26 := t25.trans e26
  have t27 := t26.trans e27
  have t28 := t27.trans e28
  have t29 := t28.trans e29
  have t30 := t29.trans e30
  have t31 := t30.trans e31
  have t32 := t31.trans e32
  have t33 := t32.trans e33
  have t34 := t33.trans e34
  have t35 := t34.trans e35
  have t36 := t35.trans e36
  have t37 := t36.trans e37
  have t38 := t37.trans e38
  have t39 := t38.trans e39
  have t40 := t39.trans e40
  have t41 := t40.trans e41
  have t42 := t41.trans e42
  have t43 := t42.trans e43
  have t44 := t43.trans e44
  have t45 := t44.trans e45
  have t46 := t45.trans e46
  have t47 := t46.trans e47
  have t48 := t47.trans e48
  have t49 := t48.trans e49
  have t50 := t49.trans e50
  have t51 := t50.trans e51
  have t52 := t51.trans e52
  have t53 := t52.trans e53
  have t54 := t53.trans e54
  have t55 := t54.trans e55
  have t56 := t55.trans e56
  have t57 := t56.trans e57
  have t58 := t57.trans e58
  have t59 := t58.trans e59
  have t60 := t59.trans e60
  have t61 := t60.trans e61
  have t62 := t61.trans e62
  have t63 := t62.trans e63
  have t64 := t63.trans e64
  have t65 := t64.trans e65
  have t66 := t65.trans e66
  have t67 := t66.trans e67
  have t68 := t67.trans e68
  have t69 := t68.trans e69
  have t70 := t69.trans e70
  have t71 := t70.trans e71
  have t72 := t71.trans e72
  have t73 := t72.trans e73
  have t74 := t73.trans e74
  have t75 := t74.trans e75
  have t76 := t75.trans e76
  have t77 := t76.trans e77
  have t78 := t77.trans e78
  have t79 := t78.trans e79
  have t80 := t79.trans e80
  have t81 := t80.trans e81
  have t82 := t81.trans e82
  have t83 := t82.trans e83
  have t84 := t83.trans e84
  have t85 := t84.trans e85
  have t86 := t85.trans e86
  have t87 := t86.trans e87
  have t88 := t87.trans e88
  have t89 := t88.trans e89
  have t90 := t89.trans e90
  have t91 := t90.trans e91
  have t92 := t91.trans e92
  have t93 := t92.trans e93
  have t94 := t93.trans e94
  have t95 := t94.trans e95
  have t96 := t95.trans e96
  have t97 := t96.trans e97
  have t98 := t97.trans e98
  have t99 := t98.trans e99
  exact t99

theorem hiChainSeg2 : hiLoop SHA_1 (strBytes "pencil") 3895
    (unpackBytes 20 326824206908101397721079175587621537348697243486)
    (unpackBytes 20 771202995602474380359550751345962466722189288949) =
    hiLoop SHA_1 (strBytes "pencil") 3795
      (unpackBytes 20 1264126211054318281557181839349357192856443063496)
      (unpackBytes 20 925929607414799671865873454044177184066222896530) := by
  have e0 := hiStepP 3894 326824206908101397721079175587621537348697243486 771202995602474380359550751345962466722189288949 583975296157636120657642696642879654329567954571 1286656441316360837991605365852181866714925785982 (by decide!)
  have e1 := hiStepP 3893 583975296157636120657642696642879654329567954571 1286656441316360837991605365852181866714925785982 1301887271863561435629476540521195069521365331203 30441857993144903069319554867821799530551971453 (by decide!)
  have e2 := hiStepP 3892 1301887271863561435629476540521195069521365331203 30441857993144903069319554867821799530551971453 1351976582242511694516526929680035460541908021098 1333176649750938915976769706751350524706863603991 (by decide!)
  have e3 := hiStepP 3891 1351976582242511694516526929680035460541908021098 1333176649750938915976769706751350524706863603991 543378270956039783007378617232662864509298778648 1042790664056453713970933666918294032704820331279 (by decide!)
  have e4 := hiStepP 3890 543378270956039783007378617232662864509298778648 1042790664056453713970933666918294032704820331279 768757060556823429117556247338744490196955717918 274033953312609031327962012565399793500125897233 (by decide!)
  have e5 := hiStepP 3889 768757060556823429117556247338744490196955717918 274033953312609031327962012565399793500125897233 340004012746893960362619255481602767979242862009 65973021341280347176018541610956222451925882792 (by decide!)
  have e6 := hiStepP 3888 340004012746893960362619255481602767979242862009 65973021341280347176018541610956222451925882792 422169499166414088357575164559696621068535717021 379578983798729662102921805782085531401653340981 (by decide!)
  have e7 := hiStepP 3887 422169499166414088357575164559696621068535717021 379578983798729662102921805782085531401653340981 1217446017080361402016659545553426783344853357847 863412717320182802842634941172523875539083451938 (by decide!)
  have e8 := hiStepP 3886 1217446017080361402016659545553426783344853357847 863412717320182802842634941172523875539083451938 221666008449647911037260307691836703399622441047 1015823602984034015924340390703482836215639746165 (by decide!)
  have e9 := hiStepP 3885 221666008449647911037260307691836703399622441047 1015823602984034015924340390703482836215639746165 415185382886097162887813913550597453105949293576 1423469580642895398964304912157873226683383093885 (by decide!)
  have e10 := hiStepP 3884 415185382886097162887813913550597453105949293576 1423469580642895398964304912157873226683383093885 1343822286863494553769658832755483505861372421301 103955460116461036868278817720233443356883893960 (by decide!)
  have e11 := hiStepP 3883 1343822286863494553769658832755483505861372421301 103955460116461036868278817720233443356883893960 1436743414109808006992988908874982854586849335721 1333680354200181514343746465937591799193992800097 (by decide!)
  have e12 := hiStepP 3882 1436743414109808006992988908874982854586849335721 1333680354200181514343746465937591799193992800097 106114758207482866814728623470112171093097917213 1433181263860241311508057270536705062891659889788 (by decide!)
  have e13 := hiStepP 3881 106114758207482866814728623470112171093097917213 1433181263860241311508057270536705062891659889788 1105878739323876324856047692703055087586931554988 335386773682212195611708346448051931264111883984 (by decide!)
  have e14 := hiStepP 3880 1105878739323876324856047692703055087586931554988 335386773682212195611708346448051931264111883984 317158569795781226726760344068037019227483969800 75346076861673047654900667943479440999613902808 (by decide!)
  have e15 := hiStepP 3879 317158569795781226726760344068037019227483969800 75346076861673047654900667943479440999613902808 1313575783099767283812765992110066289760143155827 1342424451635490807870728309842217865219033959851 (by decide!)
  have e16 := hiStepP 3878 1313575783099767283812765992110066289760143155827 1342424451635490807870728309842217865219033959851 852204594927576532561829267704446750746844267663 721524586308637726278855286656369687439358134564 (by decide!)
  have e17 := hiStepP 3877 852204594927576532561829267704446750746844267663 721524586308637726278855286656369687439358134564 299373143596714418009832279128438867337966507107 422868401326637237120660229181320352667159911751 (by decide!)
  have e18 := hiStepP 3876 299373143596714418009832279128438867337966507107 422868401326637237120660229181320352667159911751 1081186225296804696680344584906282413798058120913 1412618578184728157769554954711256563785843477398 (by decide!)
  have e19 := hiStepP 3875 1081186225296804696680344584906282413798058120913 1412618578184728157769554954711256563785843477398 114410408623384201096727477928626200938541160825 1298669007508563467299970529058461911157620413167 (by decide!)
  have e20 := hiStepP 3874 114410408623384201096727477928626200938541160825 1298669007508563467299970529058461911157620413167 673244122350012771603774999291278329249122002355 859718343627564384648534518067870564863580944220 (by decide!)
  have e21 := hiStepP 3873 673244122350012771603774999291278329249122002355 859718343627564384648534518067870564863580944220 512731080550882786149154394229595731497078280502 1183739121406080537557867482493856049999953618538 (by decide!)
  have e22 := hiStepP 3872 512731080550882786149154394229595731497078280502 1183739121406080537557867482493856049999953618538 1356274444709702607376165426026457482814796582580 198605003422781255816740307402967403318241568990 (by decide!)
  have e23 := hiStepP 3871 1356274444709702607376165426026457482814796582580 198605003422781255816740307402967403318241568990 302225198572998177495721696400420044244174386711 126891109879333530325686408467890717289410764489 (by decide!)
  have e24 := hiStepP 3870 302225198572998177495721696400420044244174386711 126891109879333530325686408467890717289410764489 1255234707223148474292119570649881584235992517355 1175502008240615966158935529779360150700177986594 (by decide!)
  have e25 := hiStepP 3869 1255234707223148474292119570649881584235992517355 1175502008240615966158935529779360150700177986594 455895413889116737965682839041863651832134557292 743514855785158456244134137971563706215353633358 (by decide!)
  have e26 := hiStepP 3868 455895413889116737965682839041863651832134557292 743514855785158456244134137971563706215353633358 312348241369808818469545316707870383918052402732 1030706121810602861858470030491432791806214188130 (by decide!)
  have e27 := hiStepP 3867 312348241369808818469545316707870383918052402732 1030706121810602861858470030491432791806214188130 856479932675275497574002306843449365994919478132 197307710948825331774464364009819286637181955862 (by decide!)
  have e28 := hiStepP 3866 856479932675275497574002306843449365994919478132 197307710948825331774464364009819286637181955862 212410777582297396730082244530623043592709228623 44138865711342982833666745146826956084782311257 (by decide!)
  have e29 := hiStepP 3865 212410777582297396730082244530623043592709228623 44138865711342982833666745146826956084782311257 800399348311385702181696837280896331932668944847 796591394001243508321183315018779170514328241814 (by decide!)
  have e30 := hiStepP 3864 800399348311385702181696837280896331932668944847 796591394001243508321183315018779170514328241814 1326957618029462778495076433545360978919162966471 570334838397077783192948503364204424932312397649 (by decide!)
  have e31 := hiStepP 3863 1326957618029462778495076433545360978919162966471 570334838397077783192948503364204424932312397649 1357949584854363184156751902431605864410252842553 811973129788314884672507997379821496632794325352 (by decide!)
  have e32 := hiStepP 3862 1357949584854363184156751902431605864410252842553 811973129788314884672507997379821496632794325352 211010087364343005114134293440331753369889861885 975081215018670159486160066242626158626768441749 (by decide!)
  have e33 := hiStepP 3861 211010087364343005114134293440331753369889861885 975081215018670159486160066242626158626768441749 861977790476946058061517613020017151616062657757 343616559560450308931369081493549245553968235848 (by decide!)
  have e34 := hiStepP 3860 861977790476946058061517613020017151616062657757 343616559560450308931369081493549245553968235848 1155055324198178873788350109347280520312122120388 1406601775604887423643782992895651874898824879500 (by decide!)
  have e35 := hiStepP 3859 1155055324198178873788350109347280520312122120388 1406601775604887423643782992895651874898824879500 1066133887111276864908974184140262838517377025472 438815656611140220359463778666818934877755480140 (by decide!)
  have e36 := hiStepP 3858 1066133887111276864908974184140262838517377025472 438815656611140220359463778666818934877755480140 11867467396402826249384158277685637762659242646 449784723972419726598770531762226884287950146266 (by decide!)
  have e37 := hiStepP 3857 11867467396402826249384158277685637762659242646 449784723972419726598770531762226884287950146266 991360062102616234122820571050553785425533951348 1298418034319359657018762529485410208274705258414 (by decide!)
  have e38 := hiStepP 3856 991360062102616234122820571050553785425533951348 1298418034319359657018762529485410208274705258414 759509469078267843045253516049744366754430170364 584602978032540910189613951493648469837735797586 (by decide!)
  have e39 := hiStepP 3855 759509469078267843045253516049744366754430170364 584602978032540910189613951493648469837735797586 247968060067957605115451044888341179550406871575 439810128294990186518719220499235430588659870021 (by decide!)
  have e40 := hiStepP 3854 247968060067957605115451044888341179550406871575 439810128294990186518719220499235430588659870021 99586080587006248332504197821800910416091160891 527911301284207956082203146982891138882320664702 (by decide!)
  have e41 := hiStepP 3853 99586080587006248332504197821800910416091160891 527911301284207956082203146982891138882320664702 1435256480729618983504855040626675604070397930916 954103662802489729822757673327381050297920218586 (by decide!)
  have e42 := hiStepP 3852 1435256480729618983504855040626675604070397930916 954103662802489729822757673327381050297920218586 1084073158650573688343908080171088983703478909193 154075273120798555507012908288272778572279045331 (by decide!)
  have e43 := hiStepP 3851 1084073158650573688343908080171088983703478909193 154075273120798555507012908288272778572279045331 446024251121910370741861251577998883063353359241 484474120756671652238290420874880795929084913498 (by decide!)
  have e44 := hiStepP 3850 446024251121910370741861251577998883063353359241 484474120756671652238290420874880795929084913498 442367004107101223167811023956974775261785041664 146315015671167525581540587871607603301892639834 (by decide!)
  have e45 := hiStepP 3849 442367004107101223167811023956974775261785041664 146315015671167525581540587871607603301892639834 254649461773112457297533653563756863547704523524 303872607093422311154321019313111870834037552990 (by decide!)
  have e46 := hiStepP 3848 254649461773112457297533653563756863547704523524 303872607093422311154321019313111870834037552990 917437897092716133419425606352306004324680152304 853701184670681707087860716021299528262046172078 (by decide!)
  have e47 := hiStepP 3847 917437897092716133419425606352306004324680152304 853701184670681707087860716021299528262046172078 304722394946878620780105952162943171477301704195 918644479187877079504969091286282266647370069421 (by decide!)
  have e48 := hiStepP 3846 304722394946878620780105952162943171477301704195 918644479187877079504969091286282266647370069421 1055135635908028720483176431427340881728801010223 138278070009104482028054401613042552054009038722 (by decide!)
  have e49 := hiStepP 3845 1055135635908028720483176431427340881728801010223 138278070009104482028054401613042552054009038722 925938607017226113657249995801099189009703705208 1062053436515416872643584776975889060486843932154 (by decide!)
  have e50 := hiStepP 3844 925938607017226113657249995801099189009703705208 1062053436515416872643584776975889060486843932154 1085964892543059551833508050866594839910672933145 23912507533474794982588374073197242334443322595 (by decide!)
  have e51 := hiStepP 3843 1085964892543059551833508050866594839910672933145 23912507533474794982588374073197242334443322595 1019732024683347548430087158192820190386184740593 1042919051720464139091059374234020159096651964946 (by decide!)
  have e52 := hiStepP 3842 1019732024683347548430087158192820190386184740593 1042919051720464139091059374234020159096651964946 1045200018958267669666217367141835686893660669797 9867412901345082325215020601652588667022796151 (by decide!)
  have e53 := hiStepP 3841 1045200018958267669666217367141835686893660669797 9867412901345082325215020601652588667022796151 742521354750673372595263801138739187198734008284 751930208540146263444894245562762938450111666859 (by decide!)
  have e54 := hiStepP 3840 742521354750673372595263801138739187198734008284 751930208540146263444894245562762938450111666859 827224437036598986747961567464821049859825910130 110337263770237472173103517511384282481960311769 (by decide!)
  have e55 := hiStepP 3839 827224437036598986747961567464821049859825910130 110337263770237472173103517511384282481960311769 1060496399778995218757294105694149507923052563894 973783994828603305268170509351342307924640650863 (by decide!)
  have e56 := hiStepP 3838 1060496399778995218757294105694149507923052563894 973783994828603305268170509351342307924640650863 102445018109363498809544530532990853691082950032 1069726950552865086367896151953792086233658135551 (by decide!)
  have e57 := hiStepP 3837 102445018109363498809544530532990853691082950032 1069726950552865086367896151953792086233658135551 646961675352216316097220207317934569429025271532 1154352506733004283153085304470392531614089231635 (by decide!)
  have e58 := hiStepP 3836 646961675352216316097220207317934569429025271532 1154352506733004283153085304470392531614089231635 572124266500312340892390806720783382474696901611 993453998073022890025061345422951322767548317432 (by decide!)
  have e59 := hiStepP 3835 572124266500312340892390806720783382474696901611 993453998073022890025061345422951322767548317432 174292610639961539710414825286499876661990748489 1007715757235058893413857917038388620711547768753 (by decide!)
  have e60 := hiStepP 3834 174292610639961539710414825286499876661990748489 1007715757235058893413857917038388620711547768753 930731881987068736469785040748176218969612074513 111436787063633372630657988307015632270032351648 (by decide!)
  have e61 := hiStepP 3833 930731881987068736469785040748176218969612074513 111436787063633372630657988307015632270032351648 627307594046713330780097388830125112428736965594 721597544469028321371477253978932754267197004410 (by decide!)
  have e62 := hiStepP 3832 627307594046713330780097388830125112428736965594 721597544469028321371477253978932754267197004410 545426628688590457840525876926169412269724319891 193666221992994346921771914280901008352492067561 (by decide!)
  have e63 := hiStepP 3831 545426628688590457840525876926169412269724319891 193666221992994346921771914280901008352492067561 1430147769188874240577690271864310318655428989434 1252727640201945298452970325215656713117154839315 (by decide!)
  have e64 := hiStepP 3830 1430147769188874240577690271864310318655428989434 1252727640201945298452970325215656713117154839315 272709040757198104915567611209360797012670883933 1396805982611311396626139834294173408102516237134 (by decide!)
  have e65 := hiStepP 3829 272709040757198104915567611209360797012670883933 1396805982611311396626139834294173408102516237134 262083356934164460856775871168604153546672539868 1240340545792548504025194141928439814820383566738 (by decide!)
  have e66 := hiStepP 3828 262083356934164460856775871168604153546672539868 1240340545792548504025194141928439814820383566738 168810674569873485881381780785508725855613990011 1123677463558719428244739368826573652228275150825 (by decide!)
  have e67 := hiStepP 3827 168810674569873485881381780785508725855613990011 1123677463558719428244739368826573652228275150825 716629008285484936332170286345408796652787092774 1058074295674280731687925165369530473028129510095 (by decide!)
  have e68 := hiStepP 3826 716629008285484936332170286345408796652787092774 1058074295674280731687925165369530473028129510095 1258532036430068603238923781837253987279736498581 577482501883695263374991575671652102812790471514 (by decide!)
  have e69 := hiStepP 3825 1258532036430068603238923781837253987279736498581 577482501883695263374991575671652102812790471514 1155377125883011001069212409084806184551453334582 1000674939492398675101802145044256730984467933036 (by decide!)
  have e70 := hiStepP 3824 1155377125883011001069212409084806184551453334582 1000674939492398675101802145044256730984467933036 1048746975431163127149035104109833571654134204877 142471113037508928716813808808831941270483578529 (by decide!)
  have e71 := hiStepP 3823 1048746975431163127149035104109833571654134204877 142471113037508928716813808808831941270483578529 882842831069126573430985516711664415729762326861 743967714558717319546008179416921893338579171308 (by decide!)
  have e72 := hiStepP 3822 882842831069126573430985516711664415729762326861 743967714558717319546008179416921893338579171308 74799069368402868761005931594671921382945619412 818051415025055387462669787456599534543106542136 (by decide!)
  have e73 := hiStepP 3821 74799069368402868761005931594671921382945619412 818051415025055387462669787456599534543106542136 557504094578673708439632656173793919565744150450 1364045341421648268210768648788885597693798030730 (by decide!)
  have e74 := hiStepP 3820 557504094578673708439632656173793919565744150450 1364045341421648268210768648788885597693798030730 941172774600762744904287141662380304025142969948 423676265605654195027209614216540742074227022806 (by decide!)
  have e75 := hiStepP 3819 941172774600762744904287141662380304025142969948 423676265605654195027209614216540742074227022806 610125711475386959375300381351330631307019644448 187877390577703730263756155838032601229004879350 (by decide!)
  have e76 := hiStepP 3818 610125711475386959375300381351330631307019644448 187877390577703730263756155838032601229004879350 250760901860842928936106223186782875660462059709 62892922221348312473159520846708345167394391371 (by decide!)
  have e77 := hiStepP 3817 250760901860842928936106223186782875660462059709 62892922221348312473159520846708345167394391371 854637891082325812628750554414863540054761580494 906112602836897134541350392235402677071810060933 (by decide!)
  have e78 := hiStepP 3816 854637891082325812628750554414863540054761580494 906112602836897134541350392235402677071810060933 936625096620203127591910395670845300217440992290 335242071944246033579873260935855503923862544039 (by decide!)
  have e79 := hiStepP 3815 936625096620203127591910395670845300217440992290 335242071944246033579873260935855503923862544039 1051041047914418433178224455576690089922969492742 745793521861041192898411125830254125519685534625 (by decide!)
  have e80 := hiStepP 3814 1051041047914418433178224455576690089922969492742 745793521861041192898411125830254125519685534625 1442565811578164949177958150827766953111844403524 719609735410874219058353091673186343802571750117 (by decide!)
  have e81 := hiStepP 3813 1442565811578164949177958150827766953111844403524 719609735410874219058353091673186343802571750117 1052584388238725783773756072967629634107184025728 1132251917463043063755344927108975394421631543909 (by decide!)
  have e82 := hiStepP 3812 1052584388238725783773756072967629634107184025728 1132251917463043063755344927108975394421631543909 576701030405066269223230629888240282487591500052 932522885511905463107440669795115683220741264241 (by decide!)
  have e83 := hiStepP 3811 576701030405066269223230629888240282487591500052 932522885511905463107440669795115683220741264241 1058821344224250364485786199068011259381892697904 149168755149474185588714101717590043768799059009 (by decide!)
  have e84 := hiStepP 3810 1058821344224250364485786199068011259381892697904 149168755149474185588714101717590043768799059009 258444654305997058186427592675766762797194751024 316268685770803278153097718480015351268584484977 (by decide!)
  have e85 := hiStepP 3809 258444654305997058186427592675766762797194751024 316268685770803278153097718480015351268584484977 1429538898041803617492739753629924061974170185944 1170416264298198663996971039575480238014973886633 (by decide!)
  have e86 := hiStepP 3808 1429538898041803617492739753629924061974170185944 1170416264298198663996971039575480238014973886633 368448787429020678557688561841964310239739730875 808058392402202368926362299684225751055154879250 (by decide!)
  have e87 := hiStepP 3807 368448787429020678557688561841964310239739730875 808058392402202368926362299684225751055154879250 1207494387426789494062426748211862493244648600484 536901300147676020626677582586554681249662576822 (by decide!)
  have e88 := hiStepP 3806 1207494387426789494062426748211862493244648600484 536901300147676020626677582586554681249662576822 1419596348079372839087592691778610037604974887004 951340944921716227862021077340749947869116344554 (by decide!)
  have e89 := hiStepP 3805 1419596348079372839087592691778610037604974887004 951340944921716227862021077340749947869116344554 675985962091807777758737065000433868605279299246 1192015964545081512815730092885292701184888426052 (by decide!)
  have e90 := hiStepP 3804 675985962091807777758737065000433868605279299246 1192015964545081512815730092885292701184888426052 996659469951070622136079210171189872235196726821 721297539214229594826089175232452775007084900449 (by decide!)
  have e91 := hiStepP 3803 996659469951070622136079210171189872235196726821 721297539214229594826089175232452775007084900449 427694644112700582779885237006831939664982411990 300845771976388425587940386620448915893914041015 (by decide!)
  have e92 := hiStepP 3802 427694644112700582779885237006831939664982411990 300845771976388425587940386620448915893914041015 708478951635378255683315640424052859602405221409 414864908543163422844869089737830088779954724502 (by decide!)
  have e93 := hiStepP 3801 708478951635378255683315640424052859602405221409 414864908543163422844869089737830088779954724502 669408669086320314280009126636050043041655881690 353477721742032793522478552997765716978934341964 (by decide!)
  have e94 := hiStepP 3800 669408669086320314280009126636050043041655881690 353477721742032793522478552997765716978934341964 17968694225217346027205718242542313069240545008 358590691058129657866901973813289122814999891900 (by decide!)
  have e95 := hiStepP 3799 17968694225217346027205718242542313069240545008 358590691058129657866901973813289122814999891900 518162355924305370265699370675161597287306853629 571188235941189296075257365525242691177525343041 (by decide!)
  have e96 := hiStepP 3798 518162355924305370265699370675161597287306853629 571188235941189296075257365525242691177525343041 829844471768864048753658976188660970750094225456 1400653027790969746047012151896384471653140317041 (by decide!)
  have e97 := hiStepP 3797 829844471768864048753658976188660970750094225456 1400653027790969746047012151896384471653140317041 784084374514342667672640405313690427677019237873 707936724197146891299760964988938771268726599296 (by decide!)
  have e98 := hiStepP 3796 784084374514342667672640405313690427677019237873 707936724197146891299760964988938771268726599296 19212500125623907524490212265585406986568407002 727126916771673071466546128801311172741424986458 (by decide!)
  have e99 := hiStepP 3795 19212500125623907524490212265585406986568407002 727126916771673071466546128801311172741424986458 1264126211054318281557181839349357192856443063496 925929607414799671865873454044177184066222896530 (by decide!)
  have t0 := e0
  have t1 := t0.trans e1
  have t2 := t1.trans e2
  have t3 := t2.trans e3
  have t4 := t3.trans e4
  have t5 := t4.trans e5
  have t6 := t5.trans e6
  have t7 := t6.trans e7
  have t8 := t7.trans e8
  have t9 := t8.trans e9
  have t10 := t9.trans e10
  have t11 := t10.trans e11
  have t12 := t11.trans e12
  have t13 := t12.trans e13
  have t14 := t13.trans e14
  have t15 := t14.trans e15
  have t16 := t15.trans e16
  have t17 := t16.trans e17
  have t18 := t17.trans e18
  have t19 := t18.trans e19
  have t20 := t19.trans e20
  have t21 := t20.trans e21
  have t22 := t21.trans e22
  have t23 := t22.trans e23
  have t24 := t23.trans e24
  have t25 := t24.trans e25
  have t26 := t25.trans e26
  have t27 := t26.trans e27
  have t28 := t27.trans e28
  have t29 := t28.trans e29
  have t30 := t29.trans e30
  have t31 := t30.trans e31
  have t32 := t31.trans e32
  have t33 := t32.trans e33
  have t34 := t33.trans e34
  have t35 := t34.trans e35
  have t36 := t35.trans e36
  have t37 := t36.trans e37
  have t38 := t37.trans e38
  have t39 := t38.trans e39
  have t40 := t39.trans e40
  have t41 := t40.trans e41
  have t42 := t41.trans e42
  have t43 := t42.trans e43
  have t44 := t43.trans e44
  have t45 := t44.trans e45
  have t46 := t45.trans e46
  have t47 := t46.trans e47
  have t48 := t47.trans e48
  have t49 := t48.trans e49
  have t50 := t49.trans e50
  have t51 := t50.trans e51
  have t52 := t51.trans e52
  have t53 := t52.trans e53
  have t54 := t53.trans e54
  have t55 := t54.trans e55
  have t56 := t55.trans e56
  have t57 := t56.trans e57
  have t58 := t57.trans e58
  have t59 := t58.trans e59
  have t60 := t59.trans e60
  have t61 := t60.trans e61
  have t62 := t61.trans e62
  have t63 := t62.trans e63
  have t64 := t63.trans e64
  have t65 := t64.trans e65
  have t66 := t65.trans e66
  have t67 := t66.trans e67
  have t68 := t67.trans e68
  have t69 := t68.trans e69
  have t70 := t69.trans e70
  have t71 := t70.trans e71
  have t72 := t71.trans e72
  have t73 := t72.trans e73
  have t74 := t73.trans e74
  have t75 := t74.trans e75
  have t76 := t75.trans e76
  have t77 := t76.trans e77
  have t78 := t77.trans e78
  have t79 := t78.trans e79
  have t80 := t79.trans e80
  have t81 := t80.trans e81
  have t82 := t81.trans e82
  have t83 := t82.trans e83
  have t84 := t83.trans e84
  have t85 := t84.trans e85
  have t86 := t85.trans e86
  have t87 := t86.trans e87
  have t88 := t87.trans e88
  have t89 := t88.trans e89
  have t90 := t89.trans e90
  have t91 := t90.trans e91
  have t92 := t91.trans e92
  have t93 := t92.trans e93
  have t94 := t93.trans e94
  have t95 := t94.trans e95
  have t96 := t95.trans e96
  have t97 := t96.trans e97
  have t98 := t97.trans e98
  have t99 := t98.trans e99
  exact t99

theorem hiChainSeg3 : hiLoop SHA_1 (strBytes "pencil") 3795
    (unpackBytes 20 1264126211054318281557181839349357192856443063496)
    (unpackBytes 20 925929607414799671865873454044177184066222896530) =
    hiLoop SHA_1 (strBytes "pencil") 3695
      (unpackBytes 20 503303765336508712369832458303120594029175575549)
      (unpackBytes 20 1218668921869098101694357130946183506876391850341) := by
  have e0 := hiStepP 3794 1264126211054318281557181839349357192856443063496 925929607414799671865873454044177184066222896530 1010761007553281831567815449919936056339804882709 109809721752577099625941254977017278418215875207 (by decide!)
  have e1 := hiStepP 3793 1010761007553281831567815449919936056339804882709 109809721752577099625941254977017278418215875207 549743162902269397893600889244709331970672590731 659196072081230106106693011115997873026593574156 (by decide!)
  have e2 := hiStepP 3792 549743162902269397893600889244709331970672590731 659196072081230106106693011115997873026593574156 429761635078889157388023119601029465714797302195 320783878528281678257678165659568268316580912319 (by decide!)
  have e3 := hiStepP 3791 429761635078889157388023119601029465714797302195 320783878528281678257678165659568268316580912319 715969449165402100328993528958570844860998288151 395913179143896383488245972004571827331493470120 (by decide!)
  have e4 := hiStepP 3790 715969449165402100328993528958570844860998288151 395913179143896383488245972004571827331493470120 1397054779524939500876157482571187065713430991926 1015827363307721159601221399447445439384357604254 (by decide!)
  have e5 := hiStepP 3789 1397054779524939500876157482571187065713430991926 1015827363307721159601221399447445439384357604254 664602220921657197670610019636183401726527913685 1127671801256379178877224021999572047611704980811 (by decide!)
  have e6 := hiStepP 3788 664602220921657197670610019636183401726527913685 1127671801256379178877224021999572047611704980811 74906202007653373630162806728924580645296641327 1145196615634139249673715483159716829507878821988 (by decide!)
  have e7 := hiStepP 3787 74906202007653373630162806728924580645296641327 1145196615634139249673715483159716829507878821988 392257351150510297323228848382007607849333843223 800263102524415637276484540829215659525494457715 (by decide!)
  have e8 := hiStepP 3786 392257351150510297323228848382007607849333843223 800263102524415637276484540829215659525494457715 1294096606483083443791661669155262829755793638775 630849545243994739906761319717307452349872947204 (by decide!)
  have e9 := hiStepP 3785 1294096606483083443791661669155262829755793638775 630849545243994739906761319717307452349872947204 589519719264334719790661927423601584324471155825 55723977061214849725558981496343714859910343797 (by decide!)
  have e10 := hiStepP 3784 589519719264334719790661927423601584324471155825 55723977061214849725558981496343714859910343797 522386343207781000799724486632226350996328819044 469612120539386756750098271829960746894107247889 (by decide!)
  have e11 := hiStepP 3783 522386343207781000799724486632226350996328819044 469612120539386756750098271829960746894107247889 660069980381871762373350883748588882579677935099 193317931968742049061954299161483831178368184554 (by decide!)
  have e12 := hiStepP 3782 660069980381871762373350883748588882579677935099 193317931968742049061954299161483831178368184554 291450758173095096604292341263205387195601933387 107438683289891393620768288008047305887318582433 (by decide!)
  have e13 := hiStepP 3781 291450758173095096604292341263205387195601933387 107438683289891393620768288008047305887318582433 1049860442976560193379143729841110165850941985986 943163439140685074456102503440650999752843997283 (by decide!)
  have e14 := hiStepP 3780 1049860442976560193379143729841110165850941985986 943163439140685074456102503440650999752843997283 327215826129700318227034960408304428375029919273 892837184787615781447697655100516775335925587530 (by decide!)
  have e15 := hiStepP 3779 327215826129700318227034960408304428375029919273 892837184787615781447697655100516775335925587530 1270718462377301674897878767456993874595136239515 382163053526328935789415866117610307909227801041 (by decide!)
  have e16 := hiStepP 3778 1270718462377301674897878767456993874595136239515 382163053526328935789415866117610307909227801041 1298356652255483095121943587947817552306188142103 922640008803113348972396597731052868944267784134 (by decide!)
  have e17 := hiStepP 3777 1298356652255483095121943587947817552306188142103 922640008803113348972396597731052868944267784134 767788135359259739513832263455049353483496381004 227653353047086189134571093376864592539816162698 (by decide!)
  have e18 := hiStepP 3776 767788135359259739513832263455049353483496381004 227653353047086189134571093376864592539816162698 289047377119083513936618862761219203592104287972 121338484419902639125145769484796168435580037998 (by decide!)
  have e19 := hiStepP 3775 289047377119083513936618862761219203592104287972 121338484419902639125145769484796168435580037998 575040522102649526563359985648092392290440124178 650662225014791412427910888770218249317229755516 (by decide!)
  have e20 := hiStepP 3774 575040522102649526563359985648092392290440124178 650662225014791412427910888770218249317229755516 905849269858731784891160243552332915148074615674 1366302166967074142004692718546867155158564798214 (by decide!)
  have e21 := hiStepP 3773 905849269858731784891160243552332915148074615674 1366302166967074142004692718546867155158564798214 303652765746758548916758513724742190838162893462 1246775547529394302415098226795494138869360711056 (by decide!)
  have e22 := hiStepP 3772 303652765746758548916758513724742190838162893462 1246775547529394302415098226795494138869360711056 580469878656498154049817978823914207140752353243 1095021124894237303082319288173127176281674625611 (by decide!)
  have e23 := hiStepP 3771 580469878656498154049817978823914207140752353243 1095021124894237303082319288173127176281674625611 439235984103175798514597909321239500275225244621 1388677843766345975745627482412511878969148735878 (by decide!)
  have e24 := hiStepP 3770 439235984103175798514597909321239500275225244621 1388677843766345975745627482412511878969148735878 450120879691798897413445677461202258552972438356 1084137623913529955220906389532285357914769746642 (by decide!)
  have e25 := hiStepP 3769 450120879691798897413445677461202258552972438356 1084137623913529955220906389532285357914769746642 459642784528000540701180390105903373271572520653 1355293115531787155141183066858391905327050126367 (by decide!)
  have e26 := hiStepP 3768 459642784528000540701180390105903373271572520653 1355293115531787155141183066858391905327050126367 625801500182963074798493947917446554299342636379 736294741877483331107491349261359995081749049668 (by decide!)
  have e27 := hiStepP 3767 625801500182963074798493947917446554299342636379 736294741877483331107491349261359995081749049668 989021497810622587181307496702154201701465734354 261316724225176438922269655467609183475235949974 (by decide!)
  have e28 := hiStepP 3766 989021497810622587181307496702154201701465734354 261316724225176438922269655467609183475235949974 1442428371271858135657980591648275481038257411402 1195618325524659672895022633046540228102259628252 (by decide!)
  have e29 := hiStepP 3765 1442428371271858135657980591648275481038257411402 1195618325524659672895022633046540228102259628252 1018083701173210163477758994957469942143107405366 566462883250973023817223069977818473610632580842 (by decide!)
  have e30 := hiStepP 3764 1018083701173210163477758994957469942143107405366 566462883250973023817223069977818473610632580842 606493899642781198680424262295644997684349188969 51496817153853310049018822195560287105426683267 (by decide!)
  have e31 := hiStepP 3763 606493899642781198680424262295644997684349188969 51496817153853310049018822195560287105426683267 1327961408798862192060668293513273018091704441662 1288066924641596411923226392436032306451749547709 (by decide!)
  have e32 := hiStepP 3762 1327961408798862192060668293513273018091704441662 1288066924641596411923226392436032306451749547709 247818264310836504669043103459255778586754105667 1158710921172864813414455437456548500693502226430 (by decide!)
  have e33 := hiStepP 3761 247818264310836504669043103459255778586754105667 1158710921172864813414455437456548500693502226430 885173855171499523469662053158737856912364150951 468024742688263606571453970166882479831278243673 (by decide!)
  have e34 := hiStepP 3760 885173855171499523469662053158737856912364150951 468024742688263606571453970166882479831278243673 794832817705484997052519712185541000108639706025 1248919591497041759149432007934546257031382144240 (by decide!)
  have e35 := hiStepP 3759 794832817705484997052519712185541000108639706025 1248919591497041759149432007934546257031382144240 1075163390640398331265322709485408267669480819080 585539834408793392570909240162329159830650871160 (by decide!)
  have e36 := hiStepP 3758 1075163390640398331265322709485408267669480819080 585539834408793392570909240162329159830650871160 229029527900301367852136166231470123903834947606 448479978972750956635434134721447109744382795118 (by decide!)
  have e37 := hiStepP 3757 229029527900301367852136166231470123903834947606 448479978972750956635434134721447109744382795118 585539013156439833110430221642496244541850672432 229049872253372143333913901757633617349785747550 (by decide!)
  have e38 := hiStepP 3756 585539013156439833110430221642496244541850672432 229049872253372143333913901757633617349785747550 749667097651792666937402398661490807136066043348 977994971578002160487377276210744272721930124682 (by decide!)
  have e39 := hiStepP 3755 749667097651792666937402398661490807136066043348 977994971578002160487377276210744272721930124682 747644069285870812245994477223301189645384322647 238245366862056362551959726123182989897660429277 (by decide!)
  have e40 := hiStepP 3754 747644069285870812245994477223301189645384322647 238245366862056362551959726123182989897660429277 848901187233697199545691029884766162695517570362 1079205633491226223457585066159621801159658829543 (by decide!)
  have e41 := hiStepP 3753 848901187233697199545691029884766162695517570362 1079205633491226223457585066159621801159658829543 1245774542856778908829713800731213615994808948262 589435830410458879145993633964818525582099095745 (by decide!)
  have e42 := hiStepP 3752 1245774542856778908829713800731213615994808948262 589435830410458879145993633964818525582099095745 1008945699711101627464509101021631958717849561674 1230410852476977439988179983863842752180144589451 (by decide!)
  have e43 := hiStepP 3751 1008945699711101627464509101021631958717849561674 1230410852476977439988179983863842752180144589451 1257785815889993810814242746360045907876379594785 67539804120590324934365967637364797003441101482 (by decide!)
  have e44 := hiStepP 3750 1257785815889993810814242746360045907876379594785 67539804120590324934365967637364797003441101482 1081849641346743929069846729892604630324130428510 1042855867320554700234368024298020616392252255476 (by decide!)
  have e45 := hiStepP 3749 1081849641346743929069846729892604630324130428510 1042855867320554700234368024298020616392252255476 899308740474660163435105615460288692044911406784 246492941895882949594564775303843133866412474932 (by decide!)
  have e46 := hiStepP 3748 899308740474660163435105615460288692044911406784 246492941895882949594564775303843133866412474932 1081949380530381338791389862088456427093769826717 860126672214922077626722365364184883464278487977 (by decide!)
  have e47 := hiStepP 3747 1081949380530381338791389862088456427093769826717 860126672214922077626722365364184883464278487977 1713214053060140123906465550383382084411790271 861471802782997830890385701307396343843410190358 (by decide!)
  have e48 := hiStepP 3746 1713214053060140123906465550383382084411790271 861471802782997830890385701307396343843410190358 292420661742635558825437882093606684988330994373 946915065736017123677685111278292612162789001939 (by decide!)
  have e49 := hiStepP 3745 292420661742635558825437882093606684988330994373 946915065736017123677685111278292612162789001939 195226252879733536112718274818192835626653332875 776046127551209474443942752183286061056068779864 (by decide!)
  have e50 := hiStepP 3744 195226252879733536112718274818192835626653332875 776046127551209474443942752183286061056068779864 88104340799180117720338483434647349541019748138 779313532847148528587588369707303498266742618226 (by decide!)
  have e51 := hiStepP 3743 88104340799180117720338483434647349541019748138 779313532847148528587588369707303498266742618226 1375181048094797698081342155354745162752347397699 687239333347543767579384605589545547008015803953 (by decide!)
  have e52 := hiStepP 3742 1375181048094797698081342155354745162752347397699 687239333347543767579384605589545547008015803953 1001138810816855907635730747659340264250976961540 1228781974074689913488935541691796859904756032053 (by decide!)
  have e53 := hiStepP 3741 1001138810816855907635730747659340264250976961540 1228781974074689913488935541691796859904756032053 832722393895438452854112047400281792973074121442 404645371549719216454987066259259714402040996055 (by decide!)
  have e54 := hiStepP 3740 832722393895438452854112047400281792973074121442 404645371549719216454987066259259714402040996055 728697158224508609958819000296352666645317095128 326906987533505056798449502062560122132773334543 (by decide!)
  have e55 := hiStepP 3739 728697158224508609958819000296352666645317095128 326906987533505056798449502062560122132773334543 1041018158694305381102816495565526435916151348381 817006817759998554645567623500151556001145336466 (by decide!)
  have e56 := hiStepP 3738 1041018158694305381102816495565526435916151348381 817006817759998554645567623500151556001145336466 296902737976772207754591924323154360252179316409 1068167890723472925173898968201996261812129680427 (by decide!)
  have e57 := hiStepP 3737 296902737976772207754591924323154360252179316409 1068167890723472925173898968201996261812129680427 443156347283127305911171378150420306895820689211 1407391614923441301633824759210726993833803432720 (by decide!)
  have e58 := hiStepP 3736 443156347283127305911171378150420306895820689211 1407391614923441301633824759210726993833803432720 1298048404238811804706457082337386658140554255897 124775413559441926841359234772615133983893298441 (by decide!)
  have e59 := hiStepP 3735 1298048404238811804706457082337386658140554255897 124775413559441926841359234772615133983893298441 278440443652941165268386545043499665225445841281 211916667257568154491100490376903746247688946824 (by decide!)
  have e60 := hiStepP 3734 278440443652941165268386545043499665225445841281 211916667257568154491100490376903746247688946824 516831198445973399242457680454661177468507994572 728457955335394609692659782979572312517629099332 (by decide!)
  have e61 := hiStepP 3733 516831198445973399242457680454661177468507994572 728457955335394609692659782979572312517629099332 769262202454820812596141653328806656595204521601 1422425698779221310867735364112675606513793008581 (by decide!)
  have e62 := hiStepP 3732 769262202454820812596141653328806656595204521601 1422425698779221310867735364112675606513793008581 1231576796335261759810721727831580420787830009850 266139052480946166601844356781388352061918850111 (by decide!)
  have e63 := hiStepP 3731 1231576796335261759810721727831580420787830009850 266139052480946166601844356781388352061918850111 551996694000343111152902067559531117338166756473 446337324708068995265810760326304699737945516102 (by decide!)
  have e64 := hiStepP 3730 551996694000343111152902067559531117338166756473 446337324708068995265810760326304699737945516102 707799998631364985845634879590979066217374486782 307319313614371108438386027157174388549343295672 (by decide!)
  have e65 := hiStepP 3729 707799998631364985845634879590979066217374486782 307319313614371108438386027157174388549343295672 793821248150428599690519106021090564161842334123 1089536505232457100125326215137330406914781540627 (by decide!)
  have e66 := hiStepP 3728 793821248150428599690519106021090564161842334123 1089536505232457100125326215137330406914781540627 310435302814440046064218597451507786162402601796 780546221448055758805463019906514067980014279255 (by decide!)
  have e67 := hiStepP 3727 310435302814440046064218597451507786162402601796 780546221448055758805463019906514067980014279255 793179651961460886245984117598131497430114743287 13369377223310653293750162735851430080631466400 (by decide!)
  have e68 := hiStepP 3726 793179651961460886245984117598131497430114743287 13369377223310653293750162735851430080631466400 23135373028001196640508399614583448235993834541 36281734292246600856105086095176051234341604749 (by decide!)
  have e69 := hiStepP 3725 23135373028001196640508399614583448235993834541 36281734292246600856105086095176051234341604749 1263598044997076945398123011414860343313481908905 1250611836176081355358889479243379329545231372068 (by decide!)
  have e70 := hiStepP 3724 1263598044997076945398123011414860343313481908905 1250611836176081355358889479243379329545231372068 370909725298940480394323973013467216635350705736 890412055163532917206135803651771067830870534508 (by decide!)
  have e71 := hiStepP 3723 370909725298940480394323973013467216635350705736 890412055163532917206135803651771067830870534508 1303838345604761245872501936105108907473796686475 728372236673058018472175622057928360319661214695 (by decide!)
  have e72 := hiStepP 3722 1303838345604761245872501936105108907473796686475 728372236673058018472175622057928360319661214695 512678331207378127144982350119058464703187988559 218906699161542404525044574395777344272630201256 (by decide!)
  have e73 := hiStepP 3721 512678331207378127144982350119058464703187988559 218906699161542404525044574395777344272630201256 776309315205293738053345336699753786693056907669 922781517025807266224623371671591056132991644221 (by decide!)
  have e74 := hiStepP 3720 776309315205293738053345336699753786693056907669 922781517025807266224623371671591056132991644221 559320681585254204153913426908573299870713815619 1098138415300800331824915802738614379650785792126 (by decide!)
  have e75 := hiStepP 3719 559320681585254204153913426908573299870713815619 1098138415300800331824915802738614379650785792126 389446586650270635830717032110332792329771614861 756025345709878413419638471734657864739733099251 (by decide!)
  have e76 := hiStepP 3718 389446586650270635830717032110332792329771614861 756025345709878413419638471734657864739733099251 74564134445598767475765625373540044937660609413 784334902783532882631998888633806238386778136950 (by decide!)
  have e77 := hiStepP 3717 74564134445598767475765625373540044937660609413 784334902783532882631998888633806238386778136950 325399891969137012720582245827414146175654851547 1014006918343310853472215319883662577614142280365 (by decide!)
  have e78 := hiStepP 3716 325399891969137012720582245827414146175654851547 1014006918343310853472215319883662577614142280365 1205953834685177371200465444175206911004491885094 563081584658069482537322323553765304747287918731 (by decide!)
  have e79 := hiStepP 3715 1205953834685177371200465444175206911004491885094 563081584658069482537322323553765304747287918731 208618389245924715893872883605936316089457090110 400604162082938481731699161392565314238402176693 (by decide!)
  have e80 := hiStepP 3714 208618389245924715893872883605936316089457090110 400604162082938481731699161392565314238402176693 257629983176311030587349574561165830797604940094 611111596340115513800285821498425704629292322699 (by decide!)
  have e81 := hiStepP 3713 257629983176311030587349574561165830797604940094 611111596340115513800285821498425704629292322699 1018204408358653159487733326179021137420402474341 1240700256360240329165237451826592038899826553582 (by decide!)
  have e82 := hiStepP 3712 1018204408358653159487733326179021137420402474341 1240700256360240329165237451826592038899826553582 1040345105607094259714673268543555377453239475918 636025303574415265220215833984136023562079333408 (by decide!)
  have e83 := hiStepP 3711 1040345105607094259714673268543555377453239475918 636025303574415265220215833984136023562079333408 1070788738687836313622655740405097805661665904730 1215470019386942207846763777162126139648477504634 (by decide!)
  have e84 := hiStepP 3710 1070788738687836313622655740405097805661665904730 1215470019386942207846763777162126139648477504634 465497325495099629154888870905052511659117970271 761750309004953411169657852331493067927877265189 (by decide!)
  have e85 := hiStepP 3709 465497325495099629154888870905052511659117970271 761750309004953411169657852331493067927877265189 1346167843169344012998908116060881338788909373547 631608700076584325863961609826793516682577477454 (by decide!)
  have e86 := hiStepP 3708 1346167843169344012998908116060881338788909373547 631608700076584325863961609826793516682577477454 335624858964219493634946498521100560283478489602 481955355182427711602066004127739553202114856268 (by decide!)
  have e87 := hiStepP 3707 335624858964219493634946498521100560283478489602 481955355182427711602066004127739553202114856268 32400267330763767650222518850180743253261567335 466871758071952530464131076154622769500356296747 (by decide!)
  have e88 := hiStepP 3706 32400267330763767650222518850180743253261567335 466871758071952530464131076154622769500356296747 635831387217050290859527383276934887992313437505 357367583930443167107007623256115802496738893162 (by decide!)
  have e89 := hiStepP 3705 635831387217050290859527383276934887992313437505 357367583930443167107007623256115802496738893162 245531129864173168047585667248617611737259002834 123302695995265688873059061192956073783013594808 (by decide!)
  have e90 := hiStepP 3704 245531129864173168047585667248617611737259002834 123302695995265688873059061192956073783013594808 806093585929298773019048485687631130458244266119 871589173183117791726583772630006135939312053823 (by decide!)
  have e91 := hiStepP 3703 806093585929298773019048485687631130458244266119 871589173183117791726583772630006135939312053823 525243407765176851345935825714834245475713447843 1122794052243586851713686656367987826705818360220 (by decide!)
  have e92 := hiStepP 3702 525243407765176851345935825714834245475713447843 1122794052243586851713686656367987826705818360220 732933685602234105274254632238099143121787943468 392720440021725667926578719463228164779309884336 (by decide!)
  have e93 := hiStepP 3701 732933685602234105274254632238099143121787943468 392720440021725667926578719463228164779309884336 134899673599248546734313075266590311486126504084 476236399151221643308418530122126741459746839332 (by decide!)
  have e94 := hiStepP 3700 134899673599248546734313075266590311486126504084 476236399151221643308418530122126741459746839332 227836287273710394157295609189133762822746177503 665178749443316979082266009427795707082398377211 (by decide!)
  have e95 := hiStepP 3699 227836287273710394157295609189133762822746177503 665178749443316979082266009427795707082398377211 419170157228004016129226624364721841996624152366 353591633785126325551463087357668183636026319829 (by decide!)
  have e96 := hiStepP 3698 419170157228004016129226624364721841996624152366 353591633785126325551463087357668183636026319829 866775312958488377730363204240120645069774366336 971868259361238809702452066843199348592263972181 (by decide!)
  have e97 := hiStepP 3697 866775312958488377730363204240120645069774366336 971868259361238809702452066843199348592263972181 959337977758954434747705319914907585089641049432 12625672575392311483455610227641328204423931917 (by decide!)
  have e98 := hiStepP 3696 959337977758954434747705319914907585089641049432 12625672575392311483455610227641328204423931917 818745148578998873531799676679608801027141024405 807106720008298415069960367628666109970376463000 (by decide!)
  have e99 := hiStepP 3695 818745148578998873531799676679608801027141024405 807106720008298415069960367628666109970376463000 503303765336508712369832458303120594029175575549 1218668921869098101694357130946183506876391850341 (by decide!)
  have t0 := e0
  have t1 := t0.trans e1
  have t2 := t1.trans e2
  have t3 := t2.trans e3
  have t4 := t3.trans e4
  have t5 := t4.trans e5
  have t6 := t5.trans e6
  have t7 := t6.trans e7
  have t8 := t7.trans e8
  have t9 := t8.trans e9
  have t10 := t9.trans e10
  have t11 := t10.trans e11
  have t12 := t11.trans e12
  have t13 := t12.trans e13
  have t14 := t13.trans e14
  have t15 := t14.trans e15
  have t16 := t15.trans e16
  have t17 := t16.trans e17
  have t18 := t17.trans e18
  have t19 := t18.trans e19
  have t20 := t19.trans e20
  have t21 := t20.trans e21
  have t22 := t21.trans e22
  have t23 := t22.trans e23
  have t24 := t23.trans e24
  have t25 := t24.trans e25
  have t26 := t25.trans e26
  have t27 := t26.trans e27
  have t28 := t27.trans e28
  have t29 := t28.trans e29
  have t30 := t29.trans e30
  have t31 := t30.trans e31
  have t32 := t31.trans e32
  have t33 := t32.trans e33
  have t34 := t33.trans e34
  have t35 := t34.trans e35
  have t36 := t35.trans e36
  have t37 := t36.trans e37
  have t38 := t37.trans e38
  have t39 := t38.trans e39
  have t40 := t39.trans e40
  have t41 := t40.trans e41
  have t42 := t41.trans e42
  have t43 := t42.trans e43
  have t44 := t43.trans e44
  have t45 := t44.trans e45
  have t46 := t45.trans e46
  have t47 := t46.trans e47
  have t48 := t47.trans e48
  have t49 := t48.trans e49
  have t50 := t49.trans e50
  have t51 := t50.trans e51
  have t52 := t51.trans e52
  have t53 := t52.trans e53
  have t54 := t53.trans e54
  have t55 := t54.trans e55
  have t56 := t55.trans e56
  have t57 := t56.trans e57
  have t58 := t57.trans e58
  have t59 := t58.trans e59
  have t60 := t59.trans e60
  have t61 := t60.trans e61
  have t62 := t61.trans e62
  have t63 := t62.trans e63
  have t64 := t63.trans e64
  have t65 := t64.trans e65
  have t66 := t65.trans e66
  have t67 := t66.trans e67
  have t68 := t67.trans e68
  have t69 := t68.trans e69
  have t70 := t69.trans e70
  have t71 := t70.trans e71
  have t72 := t71.trans e72
  have t73 := t72.trans e73
  have t74 := t73.trans e74
  have t75 := t74.trans e75
  have t76 := t75.trans e76
  have t77 := t76.trans e77
  have t78 := t77.trans e78
  have t79 := t78.trans e79
  have t80 := t79.trans e80
  have t81 := t80.trans e81
  have t82 := t81.trans e82
  have t83 := t82.trans e83
  have t84 := t83.trans e84
  have t85 := t84.trans e85
  have t86 := t85.trans e86
  have t87 := t86.trans e87
  have t88 := t87.trans e88
  have t89 := t88.trans e89
  have t90 := t89.trans e90
  have t91 := t90.trans e91
  have t92 := t91.trans e92
  have t93 := t92.trans e93
  have t94 := t93.trans e94
  have t95 := t94.trans e95
  have t96 := t95.trans e96
  have t97 := t96.trans e97
  have t98 := t97.trans e98
  have t99 := t98.trans e99
  exact t99

theorem hiChainSeg4 : hiLoop SHA_1 (strBytes "pencil") 3695
    (unpackBytes 20 503303765336508712369832458303120594029175575549)
    (unpackBytes 20 1218668921869098101694357130946183506876391850341) =
    hiLoop SHA_1 (strBytes "pencil") 3595
      (unpackBytes 20 864330359682320078689659072496843382779436378591)
      (unpackBytes 20 1360327213261791450218237400514130480813477740429) := by
  have e0 := hiStepP 3694 503303765336508712369832458303120594029175575549 1218668921869098101694357130946183506876391850341 1191095718197941043026344745094679788122642034138 33308028680310826436923266234175793607978921151 (by decide!)
  have e1 := hiStepP 3693 1191095718197941043026344745094679788122642034138 33308028680310826436923266234175793607978921151 645918981054456233923329075591913511920404278002 667630577143381478263035869522965093015657514573 (by decide!)
  have e2 := hiStepP 3692 645918981054456233923329075591913511920404278002 667630577143381478263035869522965093015657514573 1159201965576253400365058891461314674100227631618 1096081527599435746539902354773931978275127258191 (by decide!)
  have e3 := hiStepP 3691 1159201965576253400365058891461314674100227631618 1096081527599435746539902354773931978275127258191 1199527209903454363656347910818453697726376041491 627305312059621071449596864812242103443784249436 (by decide!)
  have e4 := hiStepP 3690 1199527209903454363656347910818453697726376041491 627305312059621071449596864812242103443784249436 837429986864975613031329211287078849483090889111 1457554326664630858511740230950261658452667382219 (by decide!)
  have e5 := hiStepP 3689 837429986864975613031329211287078849483090889111 1457554326664630858511740230950261658452667382219 532407607106315192125934624832234891829838009832 925191408309874203205622507319148824294190836771 (by decide!)
  have e6 := hiStepP 3688 532407607106315192125934624832234891829838009832 925191408309874203205622507319148824294190836771 636697933779551048188818347527691138864407222650 1173409576315508271885342720620695809476639126873 (by decide!)
  have e7 := hiStepP 3687 636697933779551048188818347527691138864407222650 1173409576315508271885342720620695809476639126873 259177435447350348790132191029018498775008556175 1284086172533610515191391042383936626261372355030 (by decide!)
  have e8 := hiStepP 3686 259177435447350348790132191029018498775008556175 1284086172533610515191391042383936626261372355030 1006002303708514080704397299732768381140505669511 461600189668044587869724318881900588923093118545 (by decide!)
  have e9 := hiStepP 3685 1006002303708514080704397299732768381140505669511 461600189668044587869724318881900588923093118545 177771449857507415424694662471978167613177154396 456570334928660714460322057764675271911493772557 (by decide!)
  have e10 := hiStepP 3684 177771449857507415424694662471978167613177154396 456570334928660714460322057764675271911493772557 171848038029423389576457806237955744283258106612 467440071807965143438863020096724788428809115641 (by decide!)
  have e11 := hiStepP 3683 171848038029423389576457806237955744283258106612 467440071807965143438863020096724788428809115641 1089004286018942519532847867040310595024561979435 1365164574424185660112861843836244026457306585042 (by decide!)
  have e12 := hiStepP 3682 1089004286018942519532847867040310595024561979435 1365164574424185660112861843836244026457306585042 945006847497487060807500654270913710721741194912 426201592333913783080762067661886360524468244850 (by decide!)
  have e13 := hiStepP 3681 945006847497487060807500654270913710721741194912 426201592333913783080762067661886360524468244850 1054571158328135596998981858513564319519774404717 1382268605892084532951090678447068711725613392159 (by decide!)
  have e14 := hiStepP 3680 1054571158328135596998981858513564319519774404717 1382268605892084532951090678447068711725613392159 1296478370552412645874464424788666565267593325731 97209703240285568740972287703308259696629009852 (by decide!)
  have e15 := hiStepP 3679 1296478370552412645874464424788666565267593325731 97209703240285568740972287703308259696629009852 1056314918116012473096074122049689441715884661268 959149843930429120380811086825750068600301442984 (by decide!)
  have e16 := hiStepP 3678 1056314918116012473096074122049689441715884661268 959149843930429120380811086825750068600301442984 457675246215870996209195758357236519978878413599 1416790914864979202492128754915180371340681084087 (by decide!)
  have e17 := hiStepP 3677 457675246215870996209195758357236519978878413599 1416790914864979202492128754915180371340681084087 469874934136331872188499790247582033968565022813 972824157385529032597135030632290477867152936170 (by decide!)
  have e18 := hiStepP 3676 469874934136331872188499790247582033968565022813 972824157385529032597135030632290477867152936170 1282356514110979352670870198251836442720778285389 427999686579327781071094630581292310415753936295 (by decide!)
  have e19 := hiStepP 3675 1282356514110979352670870198251836442720778285389 427999686579327781071094630581292310415753936295 502699681552812840979981424657728152244268061036 108247656497868827907541277556846200100885146827 (by decide!)
  have e20 := hiStepP 3674 502699681552812840979981424657728152244268061036 108247656497868827907541277556846200100885146827 291132071247704861868921681641138704601427526012 182937053202728874785894124808817186369050275255 (by decide!)
  have e21 := hiStepP 3673 291132071247704861868921681641138704601427526012 182937053202728874785894124808817186369050275255 1279075133442897101898154101744588861725260817471 1096139474983902642173994609612502119910506678664 (by decide!)
  have e22 := hiStepP 3672 1279075133442897101898154101744588861725260817471 1096139474983902642173994609612502119910506678664 183469294175329320774637570144029038160802959047 1279607363707984496807019181361115333684359169871 (by decide!)
  have e23 := hiStepP 3671 183469294175329320774637570144029038160802959047 1279607363707984496807019181361115333684359169871 1130743790613660973554042358980632210820847448811 218097979643697987367115917087243011047122318756 (by decide!)
  have e24 := hiStepP 3670 1130743790613660973554042358980632210820847448811 218097979643697987367115917087243011047122318756 1219545027251740250752998487340651961069192924200 1391155357699752627622644499961901240340625783180 (by decide!)
  have e25 := hiStepP 3669 1219545027251740250752998487340651961069192924200 1391155357699752627622644499961901240340625783180 302012564662400497579243257574422282585586700851 1137765064646755884558459725574927359328657009599 (by decide!)
  have e26 := hiStepP 3668 302012564662400497579243257574422282585586700851 1137765064646755884558459725574927359328657009599 389021381279619806094175252717461092195437427532 750363285941682181420845374439073616032484708595 (by decide!)
  have e27 := hiStepP 3667 389021381279619806094175252717461092195437427532 750363285941682181420845374439073616032484708595 1436161095743038898478413968766551650227915301856 690091403000895951433240421112590501610182800147 (by decide!)
  have e28 := hiStepP 3666 1436161095743038898478413968766551650227915301856 690091403000895951433240421112590501610182800147 1205662076692992033129786518057925770722244407736 980854126622529135216041649748374546245549834923 (by decide!)
  have e29 := hiStepP 3665 1205662076692992033129786518057925770722244407736 980854126622529135216041649748374546245549834923 987587043031602468940386551413485425698187656282 41120695450918617708354196815708730393949798129 (by decide!)
  have e30 := hiStepP 3664 987587043031602468940386551413485425698187656282 41120695450918617708354196815708730393949798129 916885589501489751576541832944998531993848811185 957180742913915325950643348381975451591365029952 (by decide!)
  have e31 := hiStepP 3663 916885589501489751576541832944998531993848811185 957180742913915325950643348381975451591365029952 853736014272901484914802200067153882886519711952 286244068149820316822516843637678103600158087312 (by decide!)
  have e32 := hiStepP 3662 853736014272901484914802200067153882886519711952 286244068149820316822516843637678103600158087312 989782034376365583710090316828123607946536578319 910516801179272759455607842884949878881644475807 (by decide!)
  have e33 := hiStepP 3661 989782034376365583710090316828123607946536578319 910516801179272759455607842884949878881644475807 1347240573513893777597831967679179298784248860587 665111980082202503288883984789156460348547299892 (by decide!)
  have e34 := hiStepP 3660 1347240573513893777597831967679179298784248860587 665111980082202503288883984789156460348547299892 1029907522124869471037074238138258858980637985370 1101255540762463236926630357174817818430793363566 (by decide!)
  have e35 := hiStepP 3659 1029907522124869471037074238138258858980637985370 1101255540762463236926630357174817818430793363566 466923348032487651547351696388810935292391252747 828864402813755408622247611669904651165812020069 (by decide!)
  have e36 := hiStepP 3658 466923348032487651547351696388810935292391252747 828864402813755408622247611669904651165812020069 560311553358372077041781994698311486713877847271 1387522880760891205890701023046661784773352689538 (by decide!)
  have e37 := hiStepP 3657 560311553358372077041781994698311486713877847271 1387522880760891205890701023046661784773352689538 739693865693693431009720634230672911768182278772 654296252959317408625417467221068069139915752950 (by decide!)
  have e38 := hiStepP 3656 739693865693693431009720634230672911768182278772 654296252959317408625417467221068069139915752950 894465482365794548268501882071056683875197403531 1359956635201889911848345313779661770427997488253 (by decide!)
  have e39 := hiStepP 3655 894465482365794548268501882071056683875197403531 1359956635201889911848345313779661770427997488253 505008677129707106678052242684054750793790446117 1040548570070003837602807713898427777033545113176 (by decide!)
  have e40 := hiStepP 3654 505008677129707106678052242684054750793790446117 1040548570070003837602807713898427777033545113176 379976247649422196366928782802978805516477693114 1397575735151013893076642663230049387248526205666 (by decide!)
  have e41 := hiStepP 3653 379976247649422196366928782802978805516477693114 1397575735151013893076642663230049387248526205666 1135628684112168705880806327498086034235948158530 286301089988272437689542358027780252527164976288 (by decide!)
  have e42 := hiStepP 3652 1135628684112168705880806327498086034235948158530 286301089988272437689542358027780252527164976288 711607909591635101443430002653331162734149955295 448238486787685769525646636776623969452192301695 (by decide!)
  have e43 := hiStepP 3651 711607909591635101443430002653331162734149955295 448238486787685769525646636776623969452192301695 1355208855862728355720309737914490707539256979370 935608235054554243791873755839918375019434126805 (by decide!)
  have e44 := hiStepP 3650 1355208855862728355720309737914490707539256979370 935608235054554243791873755839918375019434126805 1458739903590308662444868426019188794918396074436 527506625843846383118997197475180542124500399121 (by decide!)
  have e45 := hiStepP 3649 1458739903590308662444868426019188794918396074436 527506625843846383118997197475180542124500399121 1374235925913395717167592307151603001105353186890 986605337487917344952051598978976895338102237787 (by decide!)
  have e46 := hiStepP 3648 1374235925913395717167592307151603001105353186890 986605337487917344952051598978976895338102237787 1442069494075757954714055343653000903685137609976 458331207385121146826053943097188846494282161827 (by decide!)
  have e47 := hiStepP 3647 1442069494075757954714055343653000903685137609976 458331207385121146826053943097188846494282161827 695137159518052982716370519947119380032906941961 237175308612087929775696008078836633618712185002 (by decide!)
  have e48 := hiStepP 3646 695137159518052982716370519947119380032906941961 237175308612087929775696008078836633618712185002 352323282429348991226323084152766535551682583566 115561757559106308122339168375917591274875180196 (by decide!)
  have e49 := hiStepP 3645 352323282429348991226323084152766535551682583566 115561757559106308122339168375917591274875180196 836064649155032762030892659321319250048120848990 766779814598999111541045876199312365732894070522 (by decide!)
  have e50 := hiStepP 3644 836064649155032762030892659321319250048120848990 766779814598999111541045876199312365732894070522 145649682351800350044666155248879073963214923170 912294286426824321241348053285527027114464490328 (by decide!)
  have e51 := hiStepP 3643 145649682351800350044666155248879073963214923170 912294286426824321241348053285527027114464490328 238052134900670835412633010085875061073800736315 1041847668048861429809368516682588119093926534499 (by decide!)
  have e52 := hiStepP 3642 238052134900670835412633010085875061073800736315 1041847668048861429809368516682588119093926534499 694200112739273641379262373350653500315106866089 1186914198348089781398689771952070300573578129098 (by decide!)
  have e53 := hiStepP 3641 694200112739273641379262373350653500315106866089 1186914198348089781398689771952070300573578129098 832330656469793180286238541028048624029863910580 537669360627258649004866655407946722785851044478 (by decide!)
  have e54 := hiStepP 3640 832330656469793180286238541028048624029863910580 537669360627258649004866655407946722785851044478 1431467328136014801105639677794384728045246175321 939504836636626397289492804632482471995656120871 (by decide!)
  have e55 := hiStepP 3639 1431467328136014801105639677794384728045246175321 939504836636626397289492804632482471995656120871 408231408428562733640570000481913246953933358930 1296328392675571275890020822976055804931852201333 (by decide!)
  have e56 := hiStepP 3638 408231408428562733640570000481913246953933358930 1296328392675571275890020822976055804931852201333 335769240852762513540427364867389513947001356436 1243155911705975618482520386212784579933378473441 (by decide!)
  have e57 := hiStepP 3637 335769240852762513540427364867389513947001356436 1243155911705975618482520386212784579933378473441 659122839687510957668953952085904070509629324454 974567555131924584288610965715263957515664937287 (by decide!)
  have e58 := hiStepP 3636 659122839687510957668953952085904070509629324454 974567555131924584288610965715263957515664937287 866838861708760151775049582735376083738636698015 350466729740239274093331876941731084140566352088 (by decide!)
  have e59 := hiStepP 3635 866838861708760151775049582735376083738636698015 350466729740239274093331876941731084140566352088 574945652052418212260746830654712336262447487870 512873640396277250544210642684663768278950398886 (by decide!)
  have e60 := hiStepP 3634 574945652052418212260746830654712336262447487870 512873640396277250544210642684663768278950398886 1369667130518967821850449602494544073364637251422 1040462454400281826314587669664008619266716646648 (by decide!)
  have e61 := hiStepP 3633 1369667130518967821850449602494544073364637251422 1040462454400281826314587669664008619266716646648 453634767013025986000104425761935803116282633064 1423197018920860580712602327518602874073043199888 (by decide!)
  have e62 := hiStepP 3632 453634767013025986000104425761935803116282633064 1423197018920860580712602327518602874073043199888 1390848986653936684697717402994744870824290736379 61852495369881411653889068006378980300418891627 (by decide!)
  have e63 := hiStepP 3631 1390848986653936684697717402994744870824290736379 61852495369881411653889068006378980300418891627 244934060242171530547900108512762402535483308044 183818666250656218064793994991095219972218570599 (by decide!)
  have e64 := hiStepP 3630 244934060242171530547900108512762402535483308044 183818666250656218064793994991095219972218570599 1406358099379446368280905511632359007954961556823 1223997478587871770260856392685889771137031578160 (by decide!)
  have e65 := hiStepP 3629 1406358099379446368280905511632359007954961556823 1223997478587871770260856392685889771137031578160 1146788809747246748164375182445645594385451284063 175422550010486120578811888363711848697261118575 (by decide!)
  have e66 := hiStepP 3628 1146788809747246748164375182445645594385451284063 175422550010486120578811888363711848697261118575 1190130187214282613453584674192267688273715884076 1180633560817842447028707721587860550352319390787 (by decide!)
  have e67 := hiStepP 3627 1190130187214282613453584674192267688273715884076 1180633560817842447028707721587860550352319390787 1425143061745538927335290396179124138481913873876 316421146562765318469413330461563559813481980311 (by decide!)
  have e68 := hiStepP 3626 1425143061745538927335290396179124138481913873876 316421146562765318469413330461563559813481980311 341714115426649523614373616420655642002480134471 72570562999237744609280205824794062943509289168 (by decide!)
  have e69 := hiStepP 3625 341714115426649523614373616420655642002480134471 72570562999237744609280205824794062943509289168 1252361444951058003763624573131648450124042759140 1232695414575055908039673500662251099841858925364 (by decide!)
  have e70 := hiStepP 3624 1252361444951058003763624573131648450124042759140 1232695414575055908039673500662251099841858925364 1412805044040401287803927947078878727686468409006 185980540397073699352987231778973986044683773338 (by decide!)
  have e71 := hiStepP 3623 1412805044040401287803927947078878727686468409006 185980540397073699352987231778973986044683773338 1079063321284573575759606839566202087438734025496 899555659379394690969491283979580314357700953730 (by decide!)
  have e72 := hiStepP 3622 1079063321284573575759606839566202087438734025496 899555659379394690969491283979580314357700953730 170363251941380896947643725893156833497891544903 732314892957961653635990261490142420980951554501 (by decide!)
  have e73 := hiStepP 3621 170363251941380896947643725893156833497891544903 732314892957961653635990261490142420980951554501 1446176411773386069184155221807292773814212775154 714134822830782912245220373554581302072393225527 (by decide!)
  have e74 := hiStepP 3620 1446176411773386069184155221807292773814212775154 714134822830782912245220373554581302072393225527 1169666038118437577407420620593330134274435710725 1016006109926127175945855476208872042070711577138 (by decide!)
  have e75 := hiStepP 3619 1169666038118437577407420620593330134274435710725 1016006109926127175945855476208872042070711577138 473482212124691869127538919103314088703021482617 1296496255805022233118821996208843396331700398155 (by decide!)
  have e76 := hiStepP 3618 473482212124691869127538919103314088703021482617 1296496255805022233118821996208843396331700398155 1024562900174499224322257930268968649884129825651 459174637284576232362600188477503631135005391672 (by decide!)
  have e77 := hiStepP 3617 1024562900174499224322257930268968649884129825651 459174637284576232362600188477503631135005391672 704461071331864918483194975021650271934525778664 245737036042846325289742729592240450725189128656 (by decide!)
  have e78 := hiStepP 3616 704461071331864918483194975021650271934525778664 245737036042846325289742729592240450725189128656 874432426653672809670553901130924077631374906714 1016955548723271884735687142310392812310844818570 (by decide!)
  have e79 := hiStepP 3615 874432426653672809670553901130924077631374906714 1016955548723271884735687142310392812310844818570 956342189185088334705113843626675678600999717055 123501593092733213046975823973645921608761969717 (by decide!)
  have e80 := hiStepP 3614 956342189185088334705113843626675678600999717055 123501593092733213046975823973645921608761969717 862921130001225588135873534924094820379518498405 745128527812241661051048635638625229681034492496 (by decide!)
  have e81 := hiStepP 3613 862921130001225588135873534924094820379518498405 745128527812241661051048635638625229681034492496 119819652300390130555788401931762585620785286384 859032906978005424484445156790998120303463839392 (by decide!)
  have e82 := hiStepP 3612 119819652300390130555788401931762585620785286384 859032906978005424484445156790998120303463839392 831074871131663535542180484157390994042687064162 45202348450834995806347616116441745698313289410 (by decide!)
  have e83 := hiStepP 3611 831074871131663535542180484157390994042687064162 45202348450834995806347616116441745698313289410 85255613442090628812982766272911178242489538 45162073148100911198500566139595760503964385792 (by decide!)
  have e84 := hiStepP 3610 85255613442090628812982766272911178242489538 45162073148100911198500566139595760503964385792 407231902838950749004411554007512238915356895333 369608007305384838446523397252328202995322579557 (by decide!)
  have e85 := hiStepP 3609 407231902838950749004411554007512238915356895333 369608007305384838446523397252328202995322579557 80796213794854715129091468188132679128377688891 448753440555584769327623854932086701570451073374 (by decide!)
  have e86 := hiStepP 3608 80796213794854715129091468188132679128377688891 448753440555584769327623854932086701570451073374 1225213951671120963505989785635818296259344751074 867915972763652178973453676630520692800675524796 (by decide!)
  have e87 := hiStepP 3607 1225213951671120963505989785635818296259344751074 867915972763652178973453676630520692800675524796 1373019506592633431590649635036864047588868166040 596742879213800523002271433932331501606901326116 (by decide!)
  have e88 := hiStepP 3606 1373019506592633431590649635036864047588868166040 596742879213800523002271433932331501606901326116 369405829993900341192866197687031489952529468217 229482571254553457387097763693222017191173188125 (by decide!)
  have e89 := hiStepP 3605 369405829993900341192866197687031489952529468217 229482571254553457387097763693222017191173188125 734729583920023040875812845324939415488948569946 961969411256319338107143706894295368510682688839 (by decide!)
  have e90 := hiStepP 3604 734729583920023040875812845324939415488948569946 961969411256319338107143706894295368510682688839 1052327744129718072932223812429800618548092121572 96075907876114506516394498497439801597620739235 (by decide!)
  have e91 := hiStepP 3603 1052327744129718072932223812429800618548092121572 96075907876114506516394498497439801597620739235 707505995198868229404300619227468905335996445689 612146730253343081533453406404831287688367648602 (by decide!)
  have e92 := hiStepP 3602 707505995198868229404300619227468905335996445689 612146730253343081533453406404831287688367648602 1412029400112384202071148448939556796794893847751 893012197571137675707793555726366557058081907613 (by decide!)
  have e93 := hiStepP 3601 1412029400112384202071148448939556796794893847751 893012197571137675707793555726366557058081907613 440537987888453088285229565563639341767858763828 1194748949361432043923290786933700191712451550121 (by decide!)
  have e94 := hiStepP 3600 440537987888453088285229565563639341767858763828 1194748949361432043923290786933700191712451550121 911556248161411319585246312126268722918306229934 450608671003092941261563297869183048215065457927 (by decide!)
  have e95 := hiStepP 3599 911556248161411319585246312126268722918306229934 450608671003092941261563297869183048215065457927 324921814161042303693903383552481861633590158894 673750319296270326577311595785341356773117072169 (by decide!)
  have e96 := hiStepP 3598 324921814161042303693903383552481861633590158894 673750319296270326577311595785341356773117072169 1378797620363476838136112189644626543792886260108 773733951081893480656716934683710000701172298405 (by decide!)
  have e97 := hiStepP 3597 1378797620363476838136112189644626543792886260108 773733951081893480656716934683710000701172298405 1253360657385904215385894693361738587778400359232 525534881732096273514133214072313975766464373221 (by decide!)
  have e98 := hiStepP 3596 1253360657385904215385894693361738587778400359232 525534881732096273514133214072313975766464373221 212281832111277549460482399647117114663710242743 691563487344904829374244399531113339791727171154 (by decide!)
  have e99 := hiStepP 3595 212281832111277549460482399647117114663710242743 691563487344904829374244399531113339791727171154 864330359682320078689659072496843382779436378591 1360327213261791450218237400514130480813477740429 (by decide!)
  have t0 := e0
  have t1 := t0.trans e1
  have t2 := t1.trans e2
  have t3 := t2.trans e3
  have t4 := t3.trans e4
  have t5 := t4.trans e5
  have t6 := t5.trans e6
  have t7 := t6.trans e7
  have t8 := t7.trans e8
  have t9 := t8.trans e9
  have t10 := t9.trans e10
  have t11 := t10.trans e11
  have t12 := t11.trans e12
  have t13 := t12.trans e13
  have t14 := t13.trans e14
  have t15 := t14.trans e15
  have t16 := t15.trans e16
  have t17 := t16.trans e17
  have t18 := t17.trans e18
  have t19 := t18.trans e19
  have t20 := t19.trans e20
  have t21 := t20.trans e21
  have t22 := t21.trans e22
  have t23 := t22.trans e23
  have t24 := t23.trans e24
  have t25 := t24.trans e25
  have t26 := t25.trans e26
  have t27 := t26.trans e27
  have t28 := t27.trans e28
  have t29 := t28.trans e29
  have t30 := t29.trans e30
  have t31 := t30.trans e31
  have t32 := t31.trans e32
  have t33 := t32.trans e33
  have t34 := t33.trans e34
  have t35 := t34.trans e35
  have t36 := t35.trans e36
  have t37 := t36.trans e37
  have t38 := t37.trans e38
  have t39 := t38.trans e39
  have t40 := t39.trans e40
  have t41 := t40.trans e41
  have t42 := t41.trans e42
  have t43 := t42.trans e43
  have t44 := t43.trans e44
  have t45 := t44.trans e45
  have t46 := t45.trans e46
  have t47 := t46.trans e47
  have t48 := t47.trans e48
  have t49 := t48.trans e49
  have t50 := t49.trans e50
  have t51 := t50.trans e51
  have t52 := t51.trans e52
  have t53 := t52.trans e53
  have t54 := t53.trans e54
  have t55 := t54.trans e55
  have t56 := t55.trans e56
  have t57 := t56.trans e57
  have t58 := t57.trans e58
  have t59 := t58.trans e59
  have t60 := t59.trans e60
  have t61 := t60.trans e61
  have t62 := t61.trans e62
  have t63 := t62.trans e63
  have t64 := t63.trans e64
  have t65 := t64.trans e65
  have t66 := t65.trans e66
  have t67 := t66.trans e67
  have t68 := t67.trans e68
  have t69 := t68.trans e69
  have t70 := t69.trans e70
  have t71 := t70.trans e71
  have t72 := t71.trans e72
  have t73 := t72.trans e73
  have t74 := t73.trans e74
  have t75 := t74.trans e75
  have t76 := t75.trans e76
  have t77 := t76.trans e77
  have t78 := t77.trans e78
  have t79 := t78.trans e79
  have t80 := t79.trans e80
  have t81 := t80.trans e81
  have t82 := t81.trans e82
  have t83 := t82.trans e83
  have t84 := t83.trans e84
  have t85 := t84.trans e85
  have t86 := t85.trans e86
  have t87 := t86.trans e87
  have t88 := t87.trans e88
  have t89 := t88.trans e89
  have t90 := t89.trans e90
  have t91 := t90.trans e91
  have t92 := t91.trans e92
  have t93 := t92.trans e93
  have t94 := t93.trans e94
  have t95 := t94.trans e95
  have t96 := t95.trans e96
  have t97 := t96.trans e97
  have t98 := t97.trans e98
  have t99 := t98.trans e99
  exact t99

theorem hiChainSeg5 : hiLoop SHA_1 (strBytes "pencil") 3595
    (unpackBytes 20 864330359682320078689659072496843382779436378591)
    (unpackBytes 20 1360327213261791450218237400514130480813477740429) =
    hiLoop SHA_1 (strBytes "pencil") 3495
      (unpackBytes 20 1412220218523421850838626863284369886652661508528)
      (unpackBytes 20 156329823924633527980308362880300374417056791189) := by
  have e0 := hiStepP 3594 864330359682320078689659072496843382779436378591 1360327213261791450218237400514130480813477740429 1113031902257948423693638154812475634704669631101 255148144212924712753849053288827780973086006768 (by decide!)
  have e1 := hiStepP 3593 1113031902257948423693638154812475634704669631101 255148144212924712753849053288827780973086006768 744806871120777478727886738106538875471718400957 997812575090917020695321484381400272626742730317 (by decide!)
  have e2 := hiStepP 3592 744806871120777478727886738106538875471718400957 997812575090917020695321484381400272626742730317 1065429687547631342079648696058431426045760093804 116163396102305335016053179108048255606043025441 (by decide!)
  have e3 := hiStepP 3591 1065429687547631342079648696058431426045760093804 116163396102305335016053179108048255606043025441 1085039809300926632642767006784768247844207559978 972450151241039999791239061095646745485488563467 (by decide!)
  have e4 := hiStepP 3590 1085039809300926632642767006784768247844207559978 972450151241039999791239061095646745485488563467 1337174224676161724620418361246313904830546279594 367847574328698868591976150201097569281740855713 (by decide!)
  have e5 := hiStepP 3589 1337174224676161724620418361246313904830546279594 367847574328698868591976150201097569281740855713 976225112407846737297861594546074858250976995188 1339152235096184410943587473543556892366547648213 (by decide!)
  have e6 := hiStepP 3588 976225112407846737297861594546074858250976995188 1339152235096184410943587473543556892366547648213 1176011934925226391053194160484004273332544198220 225139552107648244791852970926474215521848076441 (by decide!)
  have e7 := hiStepP 3587 1176011934925226391053194160484004273332544198220 225139552107648244791852970926474215521848076441 983993220135114432644706373249237818903015725518 794716629033130148653155973026217167958431969623 (by decide!)
  have e8 := hiStepP 3586 983993220135114432644706373249237818903015725518 794716629033130148653155973026217167958431969623 61708039070462883681524407295249679458976110577 742063476525507571780108967558332170946423596710 (by decide!)
  have e9 := hiStepP 3585 61708039070462883681524407295249679458976110577 742063476525507571780108967558332170946423596710 1323812081404264138307024149802806439778591694200 582909388010647715149905740072526323947895749598 (by decide!)
  have e10 := hiStepP 3584 1323812081404264138307024149802806439778591694200 582909388010647715149905740072526323947895749598 1423178496624689154185432048404133945118455861635 909581229723636554528882592796545441549296527965 (by decide!)
  have e11 := hiStepP 3583 1423178496624689154185432048404133945118455861635 909581229723636554528882592796545441549296527965 387636144220562397836624212871923665421427290443 1260019698108791823732322592858112461020301024022 (by decide!)
  have e12 := hiStepP 3582 387636144220562397836624212871923665421427290443 1260019698108791823732322592858112461020301024022 890591759541156234928992808030900287489429075113 407004696319055612823310684267591901848132071359 (by decide!)
  have e13 := hiStepP 3581 890591759541156234928992808030900287489429075113 407004696319055612823310684267591901848132071359 846550768121425111558147675662094880879061189136 1204644353664675142910186680771115473511338503599 (by decide!)
  have e14 := hiStepP 3580 846550768121425111558147675662094880879061189136 1204644353664675142910186680771115473511338503599 709211342742081945841166269464261398716824651245 1000327457573782311078305773414437353847564003394 (by decide!)
  have e15 := hiStepP 3579 709211342742081945841166269464261398716824651245 1000327457573782311078305773414437353847564003394 552148719760322597757411528282966835227096491578 1184950833976587895801364998202210879634402725496 (by decide!)
  have e16 := hiStepP 3578 552148719760322597757411528282966835227096491578 1184950833976587895801364998202210879634402725496 1027760919353523508145942087047994913506908402508 705270542714427449788972060158157902255283977524 (by decide!)
  have e17 := hiStepP 3577 1027760919353523508145942087047994913506908402508 705270542714427449788972060158157902255283977524 1417187334773824656159355924977603445409708398459 751926424240998757510906253372196339338405046863 (by decide!)
  have e18 := hiStepP 3576 1417187334773824656159355924977603445409708398459 751926424240998757510906253372196339338405046863 1223958469490897559713406000450931719804040951055 489941638087759166893405307043502426415013814080 (by decide!)
  have e19 := hiStepP 3575 1223958469490897559713406000450931719804040951055 489941638087759166893405307043502426415013814080 495649307441692753412722274156288086425584869624 17128469454476314496197080218193338321935990712 (by decide!)
  have e20 := hiStepP 3574 495649307441692753412722274156288086425584869624 17128469454476314496197080218193338321935990712 532758181927326693503397267166836839650538542713 538465676024426072645983585994620214235350247873 (by decide!)
  have e21 := hiStepP 3573 532758181927326693503397267166836839650538542713 538465676024426072645983585994620214235350247873 35714339932991702881086973599786314488645750382 502767367484938907683461386182491943355189831599 (by decide!)
  have e22 := hiStepP 3572 35714339932991702881086973599786314488645750382 502767367484938907683461386182491943355189831599 813541983423745541431644979049614481941820757288 1224949761100763434002756520141068781564331979399 (by decide!)
  have e23 := hiStepP 3571 813541983423745541431644979049614481941820757288 1224949761100763434002756520141068781564331979399 178156154216854285764366120618715151969166041506 1151173698525123049569355004468372371443839030053 (by decide!)
  have e24 := hiStepP 3570 178156154216854285764366120618715151969166041506 1151173698525123049569355004468372371443839030053 1142526863284206891064686373342426776585430348618 8669835016754375267863442478047172916306108527 (by decide!)
  have e25 := hiStepP 3569 1142526863284206891064686373342426776585430348618 8669835016754375267863442478047172916306108527 1058423824545222499963386806240036249367622627347 1055485336266399493924673833683008720800385814652 (by decide!)
  have e26 := hiStepP 3568 1058423824545222499963386806240036249367622627347 1055485336266399493924673833683008720800385814652 1199524241663973167857858808721370225458237315969 610797858708982298349479700766755019898870418429 (by decide!)
  have e27 := hiStepP 3567 1199524241663973167857858808721370225458237315969 610797858708982298349479700766755019898870418429 827518653599594530608473675675685422578574775326 1427563369000080132992531246814995743717652602851 (by decide!)
  have e28 := hiStepP 3566 827518653599594530608473675675685422578574775326 1427563369000080132992531246814995743717652602851 141622636892521072369173478055311299558522112356 1294529331129162567802206542988936988266801190535 (by decide!)
  have e29 := hiStepP 3565 141622636892521072369173478055311299558522112356 1294529331129162567802206542988936988266801190535 592644772907014983160203595333839737937390135648 759645590012467418613418613478723920998964805607 (by decide!)
  have e30 := hiStepP 3564 592644772907014983160203595333839737937390135648 759645590012467418613418613478723920998964805607 1435135153163199285464800401948746206766492168137 721785934814805755567326126059952208907161833518 (by decide!)
  have e31 := hiStepP 3563 1435135153163199285464800401948746206766492168137 721785934814805755567326126059952208907161833518 595363003674628169615158091683630044322720891203 126467544041178098073851543716164989829334421869 (by decide!)
  have e32 := hiStepP 3562 595363003674628169615158091683630044322720891203 126467544041178098073851543716164989829334421869 748787319115304177652517456340877245311795568624 850991638118025356350980495651225876076208344733 (by decide!)
  have e33 := hiStepP 3561 748787319115304177652517456340877245311795568624 850991638118025356350980495651225876076208344733 531806357163213607422036902400716117984130353156 1142708085358829451596409261403972723985236330137 (by decide!)
  have e34 := hiStepP 3560 531806357163213607422036902400716117984130353156 1142708085358829451596409261403972723985236330137 1341417325261557367504421323293541663178097253466 199100251655515009148429747094237202629063531203 (by decide!)
  have e35 := hiStepP 3559 1341417325261557367504421323293541663178097253466 199100251655515009148429747094237202629063531203 272387864347233061002569629285990327954884591997 76574974813933965437552794294481505576165301182 (by decide!)
  have e36 := hiStepP 3558 272387864347233061002569629285990327954884591997 76574974813933965437552794294481505576165301182 954135173695679681755161030814613062174641555667 972164332826149222487600199658867829766744888173 (by decide!)
  have e37 := hiStepP 3557 954135173695679681755161030814613062174641555667 972164332826149222487600199658867829766744888173 469850214636198246065245883130499653612479682280 1415954176185646080545863308629277148211411240325 (by decide!)
  have e38 := hiStepP 3556 469850214636198246065245883130499653612479682280 1415954176185646080545863308629277148211411240325 74308078261275285754589118827585292245824949206 1398736379964542961464271511373556413073903488595 (by decide!)
  have e39 := hiStepP 3555 74308078261275285754589118827585292245824949206 1398736379964542961464271511373556413073903488595 1193998250805394164511604983148737702735868148461 206353811957225717787752381448809465387919586494 (by decide!)
  have e40 := hiStepP 3554 1193998250805394164511604983148737702735868148461 206353811957225717787752381448809465387919586494 563479602731330039264725760704691778831434765025 402984661312277418466222370404556580086933251679 (by decide!)
  have e41 := hiStepP 3553 563479602731330039264725760704691778831434765025 402984661312277418466222370404556580086933251679 526332491096349907752194865348149400570850986274 152177989266818504364397971107194111687865544573 (by decide!)
  have e42 := hiStepP 3552 526332491096349907752194865348149400570850986274 152177989266818504364397971107194111687865544573 865232619040615330971152142328858151822050068268 805898319007333071663762589707734218366819248209 (by decide!)
  have e43 := hiStepP 3551 865232619040615330971152142328858151822050068268 805898319007333071663762589707734218366819248209 606295338271975979568907096038689909434099142827 1319368173316540141794513114475212834401658583290 (by decide!)
  have e44 := hiStepP 3550 606295338271975979568907096038689909434099142827 1319368173316540141794513114475212834401658583290 755010110783405145509841923526227488374217767985 566022258369407888507050581586447568010399728843 (by decide!)
  have e45 := hiStepP 3549 755010110783405145509841923526227488374217767985 566022258369407888507050581586447568010399728843 404163874268976238221368921565786479776116421087 216540704244450694763947542127267864660904965396 (by decide!)
  have e46 := hiStepP 3548 404163874268976238221368921565786479776116421087 216540704244450694763947542127267864660904965396 1256559252437600942893719431731680922776077674518 1426981971882874493197469443583183332588031565058 (by decide!)
  have e47 := hiStepP 3547 1256559252437600942893719431731680922776077674518 1426981971882874493197469443583183332588031565058 1041233961366060436480472980827972536503463277978 454369147101644257227866956807082031013255751832 (by decide!)
  have e48 := hiStepP 3546 1041233961366060436480472980827972536503463277978 454369147101644257227866956807082031013255751832 252108161192745798608836688752236981123341001183 569437485437233589360230393499165189636196534599 (by decide!)
  have e49 := hiStepP 3545 252108161192745798608836688752236981123341001183 569437485437233589360230393499165189636196534599 921318486305227431430282325588891197814909496711 1112521133786771962202464903738039697060066157760 (by decide!)
  have e50 := hiStepP 3544 921318486305227431430282325588891197814909496711 1112521133786771962202464903738039697060066157760 49371129764949960659751940419449172545034159034 1155954646361768255370392539121733631938852054906 (by decide!)
  have e51 := hiStepP 3543 49371129764949960659751940419449172545034159034 1155954646361768255370392539121733631938852054906 1330800159368042805549877881709917629766556138192 201998065445849070281620090249325625606541893034 (by decide!)
  have e52 := hiStepP 3542 1330800159368042805549877881709917629766556138192 201998065445849070281620090249325625606541893034 785935972225149219810650028216549174177463064357 975066495426614616806326377674940183463044024975 (by decide!)
  have e53 := hiStepP 3541 785935972225149219810650028216549174177463064357 975066495426614616806326377674940183463044024975 1016346373341740144482332273195876795985299968940 141608535060616177705461146623406697396419205411 (by decide!)
  have e54 := hiStepP 3540 1016346373341740144482332273195876795985299968940 141608535060616177705461146623406697396419205411 314414447000044230694453583264947586143793917078 273298993657693064072411603345161853207864653237 (by decide!)
  have e55 := hiStepP 3539 314414447000044230694453583264947586143793917078 273298993657693064072411603345161853207864653237 867820133876187297665563781592488962615319258112 1049679353514536991247850197997468602447954399669 (by decide!)
  have e56 := hiStepP 3538 867820133876187297665563781592488962615319258112 1049679353514536991247850197997468602447954399669 1248625642662563544514334953169226623817301344749 624667516692713021185264423022429450070841659480 (by decide!)
  have e57 := hiStepP 3537 1248625642662563544514334953169226623817301344749 624667516692713021185264423022429450070841659480 192418876706059598359638984633198123098430146237 438863598802589707617963708207818717691503318757 (by decide!)
  have e58 := hiStepP 3536 192418876706059598359638984633198123098430146237 438863598802589707617963708207818717691503318757 420645277004476996881518962333925359862752992565 31069292957194086109752308478931191093807664080 (by decide!)
  have e59 := hiStepP 3535 420645277004476996881518962333925359862752992565 31069292957194086109752308478931191093807664080 722516967181312519070333423902938369196617467643 707914330483835192017016340794423009734530714923 (by decide!)
  have e60 := hiStepP 3534 722516967181312519070333423902938369196617467643 707914330483835192017016340794423009734530714923 247414629091054755981751454512018221790411659615 460500403055190993604483581289420251014445716596 (by decide!)
  have e61 := hiStepP 3533 247414629091054755981751454512018221790411659615 460500403055190993604483581289420251014445716596 179401473703391255429114648404487853412709915561 455407586434718767599201206044326066114371358685 (by decide!)
  have e62 := hiStepP 3532 179401473703391255429114648404487853412709915561 455407586434718767599201206044326066114371358685 148522753740355929104739899912727057203222204690 489698158746978982697020491426189201944596668111 (by decide!)
  have e63 := hiStepP 3531 148522753740355929104739899912727057203222204690 489698158746978982697020491426189201944596668111 1022949929279724798762472735768676379563842531844 1318252312437908604851924746180519729624335101131 (by decide!)
  have e64 := hiStepP 3530 1022949929279724798762472735768676379563842531844 1318252312437908604851924746180519729624335101131 410811152515259529090514430689402293638019953052 919795859889054404887558878938031100334580276567 (by decide!)
  have e65 := hiStepP 3529 410811152515259529090514430689402293638019953052 919795859889054404887558878938031100334580276567 1203057681257860683048111160259755005051407572901 660278571551131758516498768998348206134541124338 (by decide!)
  have e66 := hiStepP 3528 1203057681257860683048111160259755005051407572901 660278571551131758516498768998348206134541124338 32827764948669626896895777405022564221861129160 675977925430922870068788635262061175679751940410 (by decide!)
  have e67 := hiStepP 3527 32827764948669626896895777405022564221861129160 675977925430922870068788635262061175679751940410 841655224222937335369309462303409785448660967302 1307599155143020683980772358087555065341015127740 (by decide!)
  have e68 := hiStepP 3526 841655224222937335369309462303409785448660967302 1307599155143020683980772358087555065341015127740 1366062612992887969092610424364012855078427303035 58575312759225675970656453551230866807913605831 (by decide!)
  have e69 := hiStepP 3525 1366062612992887969092610424364012855078427303035 58575312759225675970656453551230866807913605831 1147096916224424420453487323666681235307201318568 1111446955377958912053941042202455648475122115695 (by decide!)
  have e70 := hiStepP 3524 1147096916224424420453487323666681235307201318568 1111446955377958912053941042202455648475122115695 992106566317664305078708254168695547312559897888 636030628703861029423817143221966144775781226831 (by decide!)
  have e71 := hiStepP 3523 992106566317664305078708254168695547312559897888 636030628703861029423817143221966144775781226831 730217439239168409358951121922561912804047986880 94210593040120052627474570564151227323857779087 (by decide!)
  have e72 := hiStepP 3522 730217439239168409358951121922561912804047986880 94210593040120052627474570564151227323857779087 219895755351444969259548190935662302841800674652 308396648972073009447474479521068329735019230419 (by decide!)
  have e73 := hiStepP 3521 219895755351444969259548190935662302841800674652 308396648972073009447474479521068329735019230419 455487394434992348887170585492696335998021231285 695342218087670107404074299821474561728828249702 (by decide!)
  have e74 := hiStepP 3520 455487394434992348887170585492696335998021231285 695342218087670107404074299821474561728828249702 5216620925907680992002677418604236784510331764 691631384795654123227661779646616025706627333394 (by decide!)
  have e75 := hiStepP 3519 5216620925907680992002677418604236784510331764 691631384795654123227661779646616025706627333394 632720194109067438421065822355957979259996258397 136702648840367224087870291790726651054516026703 (by decide!)
  have e76 := hiStepP 3518 632720194109067438421065822355957979259996258397 136702648840367224087870291790726651054516026703 1121108522561683475191918962388070696066805478583 1207848420695722218554020509880643242181878483448 (by decide!)
  have e77 := hiStepP 3517 1121108522561683475191918962388070696066805478583 1207848420695722218554020509880643242181878483448 1429617638471045142617714569397768190573423450088 239678520559698106985434839497618461933135158800 (by decide!)
  have e78 := hiStepP 3516 1429617638471045142617714569397768190573423450088 239678520559698106985434839497618461933135158800 718545054339763174647382669942888641657470979487 480427984084977301270865982653215566952994919311 (by decide!)
  have e79 := hiStepP 3515 718545054339763174647382669942888641657470979487 480427984084977301270865982653215566952994919311 155022545300050617949593964827783335616978891472 451017349635285316329738246454507644301296230751 (by decide!)
  have e80 := hiStepP 3514 155022545300050617949593964827783335616978891472 451017349635285316329738246454507644301296230751 84701248980759388124077713695203572996616790567 375866855661044466225116841005952404017398924152 (by decide!)
  have e81 := hiStepP 3513 84701248980759388124077713695203572996616790567 375866855661044466225116841005952404017398924152 842064226983931133601408846246915956969962231220 1202657293137497210639081926343784602218169603788 (by decide!)
  have e82 := hiStepP 3512 842064226983931133601408846246915956969962231220 1202657293137497210639081926343784602218169603788 976504802190830180145011147551883168372717711185 694422362823944296168746562562889565160777283997 (by decide!)
  have e83 := hiStepP 3511 976504802190830180145011147551883168372717711185 694422362823944296168746562562889565160777283997 1258249390009694903701144025811504837432750403757 946424409716892314679127330086191438953035139376 (by decide!)
  have e84 := hiStepP 3510 1258249390009694903701144025811504837432750403757 946424409716892314679127330086191438953035139376 918187827230727703050439516105866558096349134454 28987152836458795737401124086475900713238656838 (by decide!)
  have e85 := hiStepP 3509 918187827230727703050439516105866558096349134454 28987152836458795737401124086475900713238656838 77707058974416908355014380664786354375723014814 48868378140651730660666318832495204355463622104 (by decide!)
  have e86 := hiStepP 3508 77707058974416908355014380664786354375723014814 48868378140651730660666318832495204355463622104 899036121798051979030992739350330185164783686038 856113930358581804046415335915234053434586152014 (by decide!)
  have e87 := hiStepP 3507 899036121798051979030992739350330185164783686038 856113930358581804046415335915234053434586152014 553919901908790752160210430030668369338325064923 1398431760174065266935192942380910086010059841685 (by decide!)
  have e88 := hiStepP 3506 553919901908790752160210430030668369338325064923 1398431760174065266935192942380910086010059841685 1091371491480045056005219755441877695605377262368 433015234193959871053096632278643500560220259253 (by decide!)
  have e89 := hiStepP 3505 1091371491480045056005219755441877695605377262368 433015234193959871053096632278643500560220259253 419337984656427309247028592911001059724812771581 15227303834482455990340672813112487658543375176 (by decide!)
  have e90 := hiStepP 3504 419337984656427309247028592911001059724812771581 15227303834482455990340672813112487658543375176 561577530553514278406111924872941092448277647742 553522703954011272385229623941563732998390526518 (by decide!)
  have e91 := hiStepP 3503 561577530553514278406111924872941092448277647742 553522703954011272385229623941563732998390526518 1177741775847238732802068593810942499043568053735 997625714231472203825221762793863492684103245777 (by decide!)
  have e92 := hiStepP 3502 1177741775847238732802068593810942499043568053735 997625714231472203825221762793863492684103245777 255990402853711475900999816610498860966335544224 744489840122334054960799114905214350286316348529 (by decide!)
  have e93 := hiStepP 3501 255990402853711475900999816610498860966335544224 744489840122334054960799114905214350286316348529 1198996664256567170291208274878082862460939479790 459145386125467785302826079743641305350632410783 (by decide!)
  have e94 := hiStepP 3500 1198996664256567170291208274878082862460939479790 459145386125467785302826079743641305350632410783 1198313133180696150179621881692967955130178958549 739558452848763568903022368182355628146164365898 (by decide!)
  have e95 := hiStepP 3499 1198313133180696150179621881692967955130178958549 739558452848763568903022368182355628146164365898 1339152842437079859213085811878773776928240144454 611469890345395071752231820275393696417471293964 (by decide!)
  have e96 := hiStepP 3498 1339152842437079859213085811878773776928240144454 611469890345395071752231820275393696417471293964 1014209319201074853759485538940958439329159800262 1248796615568846367037895587514283594833094315978 (by decide!)
  have e97 := hiStepP 3497 1014209319201074853759485538940958439329159800262 1248796615568846367037895587514283594833094315978 703285142596586327986154177093124551069669142582 922305822103173805155096030004471580072563392508 (by decide!)
  have e98 := hiStepP 3496 703285142596586327986154177093124551069669142582 922305822103173805155096030004471580072563392508 443554224613868461934119320828010808581639105753 1348664685113659614547619395547412420343031452453 (by decide!)
  have e99 := hiStepP 3495 443554224613868461934119320828010808581639105753 1348664685113659614547619395547412420343031452453 1412220218523421850838626863284369886652661508528 156329823924633527980308362880300374417056791189 (by decide!)
  have t0 := e0
  have t1 := t0.trans e1
  have t2 := t1.trans e2
  have t3 := t2.trans e3
  have t4 := t3.trans e4
  have t5 := t4.trans e5
  have t6 := t5.trans e6
  have t7 := t6.trans e7
  have t8 := t7.trans e8
  have t9 := t8.trans e9
  have t10 := t9.trans e10
  have t11 := t10.trans e11
  have t12 := t11.trans e12
  have t13 := t12.trans e13
  have t14 := t13.trans e14
  have t15 := t14.trans e15
  have t16 := t15.trans e16
  have t17 := t16.trans e17
  have t18 := t17.trans e18
  have t19 := t18.trans e19
  have t20 := t19.trans e20
  have t21 := t20.trans e21
  have t22 := t21.trans e22
  have t23 := t22.trans e23
  have t24 := t23.trans e24
  have t25 := t24.trans e25
  have t26 := t25.trans e26
  have t27 := t26.trans e27
  have t28 := t27.trans e28
  have t29 := t28.trans e29
  have t30 := t29.trans e30
  have t31 := t30.trans e31
  have t32 := t31.trans e32
  have t33 := t32.trans e33
  have t34 := t33.trans e34
  have t35 := t34.trans e35
  have t36 := t35.trans e36
  have t37 := t36.trans e37
  have t38 := t37.trans e38
  have t39 := t38.trans e39
  have t40 := t39.trans e40
  have t41 := t40.trans e41
  have t42 := t41.trans e42
  have t43 := t42.trans e43
  have t44 := t43.trans e44
  have t45 := t44.trans e45
  have t46 := t45.trans e46
  have t47 := t46.trans e47
  have t48 := t47.trans e48
  have t49 := t48.trans e49
  have t50 := t49.trans e50
  have t51 := t50.trans e51
  have t52 := t51.trans e52
  have t53 := t52.trans e53
  have t54 := t53.trans e54
  have t55 := t54.trans e55
  have t56 := t55.trans e56
  have t57 := t56.trans e57
  have t58 := t57.trans e58
  have t59 := t58.trans e59
  have t60 := t59.trans e60
  have t61 := t60.trans e61
  have t62 := t61.trans e62
  have t63 := t62.trans e63
  have t64 := t63.trans e64
  have t65 := t64.trans e65
  have t66 := t65.trans e66
  have t67 := t66.trans e67
  have t68 := t67.trans e68
  have t69 := t68.trans e69
  have t70 := t69.trans e70
  have t71 := t70.trans e71
  have t72 := t71.trans e72
  have t73 := t72.trans e73
  have t74 := t73.trans e74
  have t75 := t74.trans e75
  have t76 := t75.trans e76
  have t77 := t76.trans e77
  have t78 := t77.trans e78
  have t79 := t78.trans e79
  have t80 := t79.trans e80
  have t81 := t80.trans e81
  have t82 := t81.trans e82
  have t83 := t82.trans e83
  have t84 := t83.trans e84
  have t85 := t84.trans e85
  have t86 := t85.trans e86
  have t87 := t86.trans e87
  have t88 := t87.trans e88
  have t89 := t88.trans e89
  have t90 := t89.trans e90
  have t91 := t90.trans e91
  have t92 := t91.trans e92
  have t93 := t92.trans e93
  have t94 := t93.trans e94
  have t95 := t94.trans e95
  have t96 := t95.trans e96
  have t97 := t96.trans e97
  have t98 := t97.trans e98
  have t99 := t98.trans e99
  exact t99

theorem hiChainSeg6 : hiLoop SHA_1 (strBytes "pencil") 3495
    (unpackBytes 20 1412220218523421850838626863284369886652661508528)
    (unpackBytes 20 156329823924633527980308362880300374417056791189) =
    hiLoop SHA_1 (strBytes "pencil") 3395
      (unpackBytes 20 1049042516174980372040344613002494343853930794758)
      (unpackBytes 20 1237117720396441307703131815048277631633289273529) := by
  have e0 := hiStepP 3494 1412220218523421850838626863284369886652661508528 156329823924633527980308362880300374417056791189 5897244187654000765820991757414906834398806539 150806292127889736574810848929633385416545925278 (by decide!)
  have e1 := hiStepP 3493 5897244187654000765820991757414906834398806539 150806292127889736574810848929633385416545925278 1457373621110105117466957806788509635318002123660 1308351958253284130717518186237459228160681278226 (by decide!)
  have e2 := hiStepP 3492 1457373621110105117466957806788509635318002123660 1308351958253284130717518186237459228160681278226 693204753834043161216736640825460927986616477747 892049993390455912260205258627936080050985947937 (by decide!)
  have e3 := hiStepP 3491 693204753834043161216736640825460927986616477747 892049993390455912260205258627936080050985947937 991683550695267687355896616540975575988925369412 285188150865785800044126123760785766948976254821 (by decide!)
  have e4 := hiStepP 3490 991683550695267687355896616540975575988925369412 285188150865785800044126123760785766948976254821 285301076782747076595148440955220037920200174802 291375862870082377242377160315382762681496503 (by decide!)
  have e5 := hiStepP 3489 285301076782747076595148440955220037920200174802 291375862870082377242377160315382762681496503 1333993606405917336454508444309265513630768133489 1333925281603018693853921281947996839845090559686 (by decide!)
  have e6 := hiStepP 3488 1333993606405917336454508444309265513630768133489 1333925281603018693853921281947996839845090559686 1440965129951124414541084021620883024929540285821 124178495075337204876559840124748708681277776827 (by decide!)
  have e7 := hiStepP 3487 1440965129951124414541084021620883024929540285821 124178495075337204876559840124748708681277776827 992786230141111905012481205305118386920619562353 1051308020738928712036343555599691323728931124938 (by decide!)
  have e8 := hiStepP 3486 992786230141111905012481205305118386920619562353 1051308020738928712036343555599691323728931124938 1398650019085063402367333392525585830094305323142 438787630752327713440713409876849089655736999500 (by decide!)
  have e9 := hiStepP 3485 1398650019085063402367333392525585830094305323142 438787630752327713440713409876849089655736999500 958874349712265820314241345745394919562335574135 1342650103654187845884332724368235699792770549307 (by decide!)
  have e10 := hiStepP 3484 958874349712265820314241345745394919562335574135 1342650103654187845884332724368235699792770549307 1086715803933827351524014769332529159562766331677 487862855613600684727989461759083997998305831206 (by decide!)
  have e11 := hiStepP 3483 1086715803933827351524014769332529159562766331677 487862855613600684727989461759083997998305831206 174167146126471791957700015605433324290716393048 433647236605681893500364474132403580826543863678 (by decide!)
  have e12 := hiStepP 3482 174167146126471791957700015605433324290716393048 433647236605681893500364474132403580826543863678 962434297607269325684055124425993388973536791120 1298090292971578809078259304516355112166478150958 (by decide!)
  have e13 := hiStepP 3481 962434297607269325684055124425993388973536791120 1298090292971578809078259304516355112166478150958 850546092420697682091938242488918247564042741660 682841810714231081106420124020109808070793353906 (by decide!)
  have e14 := hiStepP 3480 850546092420697682091938242488918247564042741660 682841810714231081106420124020109808070793353906 785305667603699012354560380385310679616108882483 1450574053265735552454535960559918254382192799873 (by decide!)
  have e15 := hiStepP 3479 785305667603699012354560380385310679616108882483 1450574053265735552454535960559918254382192799873 834614937125806402967227408156364966001116418870 617386453162094756797821924048523070717076153271 (by decide!)
  have e16 := hiStepP 3478 834614937125806402967227408156364966001116418870 617386453162094756797821924048523070717076153271 609935057773594234237999351717067392342062557277 39673021324947509151223796575687704630347156458 (by decide!)
  have e17 := hiStepP 3477 609935057773594234237999351717067392342062557277 39673021324947509151223796575687704630347156458 288210165848532490518477501097783937213097377659 299927383230688967700467768957400824259181491345 (by decide!)
  have e18 := hiStepP 3476 288210165848532490518477501097783937213097377659 299927383230688967700467768957400824259181491345 202860451033161331223041406505850885462467643693 131343572550779683911689308974381220296873131452 (by decide!)
  have e19 := hiStepP 3475 202860451033161331223041406505850885462467643693 131343572550779683911689308974381220296873131452 623283497243704443706084099187689143955322319004 697508237489559254011942932849614984347700858144 (by decide!)
  have e20 := hiStepP 3474 623283497243704443706084099187689143955322319004 697508237489559254011942932849614984347700858144 1455927868880265374599699504983773276488083741770 760261119782169811314830277605129671804451164522 (by decide!)
  have e21 := hiStepP 3473 1455927868880265374599699504983773276488083741770 760261119782169811314830277605129671804451164522 1342001107228465396740079110516942948043518862419 629285266134837938318387494858009283763168703801 (by decide!)
  have e22 := hiStepP 3472 1342001107228465396740079110516942948043518862419 629285266134837938318387494858009283763168703801 131073518184009718971979080583775168524464431605 689710012358857357078615100965182142955883943116 (by decide!)
  have e23 := hiStepP 3471 131073518184009718971979080583775168524464431605 689710012358857357078615100965182142955883943116 1313134192908598768488245601618280685259700661706 906599501784308535772225752598316435442336807174 (by decide!)
  have e24 := hiStepP 3470 1313134192908598768488245601618280685259700661706 906599501784308535772225752598316435442336807174 945196218431224510729006087133536461912669192570 338910313014509726960084579660193075642051115132 (by decide!)
  have e25 := hiStepP 3469 945196218431224510729006087133536461912669192570 338910313014509726960084579660193075642051115132 1390230081969112627017617506897240470970168627260 1146644492654919826034700651938053861294695082048 (by decide!)
  have e26 := hiStepP 3468 1390230081969112627017617506897240470970168627260 1146644492654919826034700651938053861294695082048 1083551003223516996796469642518000193984084334713 668426704946243325549654152192326674548385722425 (by decide!)
  have e27 := hiStepP 3467 1083551003223516996796469642518000193984084334713 668426704946243325549654152192326674548385722425 669869163424561621498313032655557931742278368421 1442806929499175099213447033027796248311598236 (by decide!)
  have e28 := hiStepP 3466 669869163424561621498313032655557931742278368421 1442806929499175099213447033027796248311598236 877688681338561319414788484298181453076802221141 879103165725923127616226599875977451185999001801 (by decide!)
  have e29 := hiStepP 3465 877688681338561319414788484298181453076802221141 879103165725923127616226599875977451185999001801 382029770859938666755570951856895057358488743327 1250772824524834314532288451775509066399837263190 (by decide!)
  have e30 := hiStepP 3464 382029770859938666755570951856895057358488743327 1250772824524834314532288451775509066399837263190 182144925044202854673909704316140485318049486822 1124342153121989837618973200491627560836915020464 (by decide!)
  have e31 := hiStepP 3463 182144925044202854673909704316140485318049486822 1124342153121989837618973200491627560836915020464 550173884133330012734269396283539322423257185081 940190411184722541161273608931688609710545697161 (by decide!)
  have e32 := hiStepP 3462 550173884133330012734269396283539322423257185081 940190411184722541161273608931688609710545697161 994858862574990920683909240285653840887295443007 62366403868933025417389745402360073061433276854 (by decide!)
  have e33 := hiStepP 3461 994858862574990920683909240285653840887295443007 62366403868933025417389745402360073061433276854 232897588011393860629796967344252967955047845390 194995452801969487528475960569942536682752309176 (by decide!)
  have e34 := hiStepP 3460 232897588011393860629796967344252967955047845390 194995452801969487528475960569942536682752309176 1129760083815380661696467633177859505568005920942 1323144307771417625276152324031891809607455567638 (by decide!)
  have e35 := hiStepP 3459 1129760083815380661696467633177859505568005920942 1323144307771417625276152324031891809607455567638 88935616849085766821252862261700950603712344827 1326444616775159026750425900374701147289615195629 (by decide!)
  have e36 := hiStepP 3458 88935616849085766821252862261700950603712344827 1326444616775159026750425900374701147289615195629 1308862334847284469720029629368801924762316623698 74679603369046460578899707898529495319522906815 (by decide!)
  have e37 := hiStepP 3457 1308862334847284469720029629368801924762316623698 74679603369046460578899707898529495319522906815 733958111601414965086077142239224502362695663753 808433909949687477717750580641092221793329943094 (by decide!)
  have e38 := hiStepP 3456 733958111601414965086077142239224502362695663753 808433909949687477717750580641092221793329943094 931246279353699921828595242787101507947455083490 265599884289381967584126702059381198215375446484 (by decide!)
  have e39 := hiStepP 3455 931246279353699921828595242787101507947455083490 265599884289381967584126702059381198215375446484 165166752980586306151842761870394743626524922108 287852134276924971964106376427739128063690371368 (by decide!)
  have e40 := hiStepP 3454 165166752980586306151842761870394743626524922108 287852134276924971964106376427739128063690371368 1250342697366227117495507892207627406424222699849 1332535234504139254688678695992329615010030870625 (by decide!)
  have e41 := hiStepP 3453 1250342697366227117495507892207627406424222699849 1332535234504139254688678695992329615010030870625 855175829395439394792458437925770289836027876387 711563411478948749860903028427351764758255367234 (by decide!)
  have e42 := hiStepP 3452 855175829395439394792458437925770289836027876387 711563411478948749860903028427351764758255367234 506148941111102580448273751589010289571060960111 205771391437922380414664664085922156041393749805 (by decide!)
  have e43 := hiStepP 3451 506148941111102580448273751589010289571060960111 205771391437922380414664664085922156041393749805 1373272397736430315600433479977602673196752788404 1213176021072604228534317394806162282130986001561 (by decide!)
  have e44 := hiStepP 3450 1373272397736430315600433479977602673196752788404 1213176021072604228534317394806162282130986001561 1129403985519338838232391545620587988557972235106 98937980747421012303744445563721299075471345659 (by decide!)
  have e45 := hiStepP 3449 1129403985519338838232391545620587988557972235106 98937980747421012303744445563721299075471345659 915585628807332065687302122311685404933185079518 1011669113063334200811088447126925319041311412005 (by decide!)
  have e46 := hiStepP 3448 915585628807332065687302122311685404933185079518 1011669113063334200811088447126925319041311412005 82537856900118149039715855025217064655308793190 1091887692291002284010992523914091804185151449667 (by decide!)
  have e47 := hiStepP 3447 82537856900118149039715855025217064655308793190 1091887692291002284010992523914091804185151449667 353710693824270808345281000701370491297906506497 746205266743854316574341621929168926560507105602 (by decide!)
  have e48 := hiStepP 3446 353710693824270808345281000701370491297906506497 746205266743854316574341621929168926560507105602 356237337735785215275754786173130579299201628972 1078000973433894451957585558151121559157889116782 (by decide!)
  have e49 := hiStepP 3445 356237337735785215275754786173130579299201628972 1078000973433894451957585558151121559157889116782 1263798619302782339312986151042406601456117139334 556928787159859589067787513804400518027905723880 (by decide!)
  have e50 := hiStepP 3444 1263798619302782339312986151042406601456117139334 556928787159859589067787513804400518027905723880 1338655367942429552838140002245205947501935493195 799056352545364595485443454495259485301477174691 (by decide!)
  have e51 := hiStepP 3443 1338655367942429552838140002245205947501935493195 799056352545364595485443454495259485301477174691 1305405635127773053824452775765678971633295537942 635805816928140818316768391247976148701878868661 (by decide!)
  have e52 := hiStepP 3442 1305405635127773053824452775765678971633295537942 635805816928140818316768391247976148701878868661 636767772683556385317179825517476168126353200702 4797741809518758044757646329567910183925419147 (by decide!)
  have e53 := hiStepP 3441 636767772683556385317179825517476168126353200702 4797741809518758044757646329567910183925419147 316246468992458585725575114686525090762789175735 318005159595541991114264959606330315762278649148 (by decide!)
  have e54 := hiStepP 3440 316246468992458585725575114686525090762789175735 318005159595541991114264959606330315762278649148 766070305020322757749317810607848111240213012109 1013973060117077400506152152492353138934629880753 (by decide!)
  have e55 := hiStepP 3439 766070305020322757749317810607848111240213012109 1013973060117077400506152152492353138934629880753 1182044926988539588578176716934031031651868610784 722558575501762151364841486162853317647249785681 (by decide!)
  have e56 := hiStepP 3438 1182044926988539588578176716934031031651868610784 722558575501762151364841486162853317647249785681 908768697182053218671615543305536628033109262731 1288765351399105955529811758042633340454347719386 (by decide!)
  have e57 := hiStepP 3437 908768697182053218671615543305536628033109262731 1288765351399105955529811758042633340454347719386 443232322684593431589429143014303817527860557449 982593583290806884047511946861774449190315603027 (by decide!)
  have e58 := hiStepP 3436 443232322684593431589429143014303817527860557449 982593583290806884047511946861774449190315603027 59081526276366598431470285539714522409473700467 949215500787246014735700386490551104607529322016 (by decide!)
  have e59 := hiStepP 3435 59081526276366598431470285539714522409473700467 949215500787246014735700386490551104607529322016 935154135179666130789769480128973818345979495109 31612128645372949312202929222085785825119306981 (by decide!)
  have e60 := hiStepP 3434 935154135179666130789769480128973818345979495109 31612128645372949312202929222085785825119306981 1227906291683491932088694663442977332028710593502 1202382441088804117973564629922965564836117227323 (by decide!)
  have e61 := hiStepP 3433 1227906291683491932088694663442977332028710593502 1202382441088804117973564629922965564836117227323 1103937603721789477105113208058931856929147225489 112818747039252430755208111623238045326519476906 (by decide!)
  have e62 := hiStepP 3432 1103937603721789477105113208058931856929147225489 112818747039252430755208111623238045326519476906 1412166053326120983875247818262541572476616996585 1305067568917327470880350584901238713783729574979 (by decide!)
  have e63 := hiStepP 3431 1412166053326120983875247818262541572476616996585 1305067568917327470880350584901238713783729574979 1232370031444263093832323459233953934120168979292 292678018011823617343039695507276273747879472927 (by decide!)
  have e64 := hiStepP 3430 1232370031444263093832323459233953934120168979292 292678018011823617343039695507276273747879472927 896288281632368876169262295830481467712932164107 1003239986837959333079946856535579254769126415636 (by decide!)
  have e65 := hiStepP 3429 896288281632368876169262295830481467712932164107 1003239986837959333079946856535579254769126415636 1173013728482281356883604395182150224557041068103 564054754171848114993145757504662371986269680979 (by decide!)
  have e66 := hiStepP 3428 1173013728482281356883604395182150224557041068103 564054754171848114993145757504662371986269680979 702048123498979262855050944985329000884756258425 138219512835452645663777896805820868960860875562 (by decide!)
  have e67 := hiStepP 3427 702048123498979262855050944985329000884756258425 138219512835452645663777896805820868960860875562 544597926850693439752149498918150942554597539313 407153735996952387583303933286342807812844492507 (by decide!)
  have e68 := hiStepP 3426 544597926850693439752149498918150942554597539313 407153735996952387583303933286342807812844492507 223808338355099551990318295331644148000333343475 550260963419514306097028978398981334615073668136 (by decide!)
  have e69 := hiStepP 3425 223808338355099551990318295331644148000333343475 550260963419514306097028978398981334615073668136 339805234572444674072323128151781163401522238244 524690090398113250412267500766988301712542560012 (by decide!)
  have e70 := hiStepP 3424 339805234572444674072323128151781163401522238244 524690090398113250412267500766988301712542560012 948408088559724242902311575708406504980157933880 1448834482981538273540805303543155421635990242868 (by decide!)
  have e71 := hiStepP 3423 948408088559724242902311575708406504980157933880 1448834482981538273540805303543155421635990242868 995561773610157334557141924916492233999732570728 477536016028092089923264059721888026330323893340 (by decide!)
  have e72 := hiStepP 3422 995561773610157334557141924916492233999732570728 477536016028092089923264059721888026330323893340 754398995656038320424679425596962505522885116526 1230312543906967824926153845044931467658231119410 (by decide!)
  have e73 := hiStepP 3421 754398995656038320424679425596962505522885116526 1230312543906967824926153845044931467658231119410 150206558955596643839418091425245202330355588038 1174945590028062849185189257251587927097922037236 (by decide!)
  have e74 := hiStepP 3420 150206558955596643839418091425245202330355588038 1174945590028062849185189257251587927097922037236 914127290073970444658278154295245316876639757521 626929982691723313083957443269821177942031810853 (by decide!)
  have e75 := hiStepP 3419 914127290073970444658278154295245316876639757521 626929982691723313083957443269821177942031810853 1042425283132647791562244446846538129721831514123 1251862448389878468885661941331787003978155663662 (by decide!)
  have e76 := hiStepP 3418 1042425283132647791562244446846538129721831514123 1251862448389878468885661941331787003978155663662 1058413450328664650616232030403098269733961564779 560274397531980914659664438834905376521913508677 (by decide!)
  have e77 := hiStepP 3417 1058413450328664650616232030403098269733961564779 560274397531980914659664438834905376521913508677 1262775163207911596988703545461920923509840717892 1090848736286069288961637595165311072754745379585 (by decide!)
  have e78 := hiStepP 3416 1262775163207911596988703545461920923509840717892 1090848736286069288961637595165311072754745379585 1407528515247068845740645862859477852971599560196 420159600642742664947053451052539168154953250053 (by decide!)
  have e79 := hiStepP 3415 1407528515247068845740645862859477852971599560196 420159600642742664947053451052539168154953250053 978164977828007774769833162839459551450914298563 1294847204264614234741799329808111672373532422086 (by decide!)
  have e80 := hiStepP 3414 978164977828007774769833162839459551450914298563 1294847204264614234741799329808111672373532422086 480669187213889820077379759558703062189216785886 1044723644282413175367085687010097260203375430168 (by decide!)
  have e81 := hiStepP 3413 480669187213889820077379759558703062189216785886 1044723644282413175367085687010097260203375430168 149577690824779324372388229064342143101233455003 986502464550242711840476655256773899551699326339 (by decide!)
  have e82 := hiStepP 3412 149577690824779324372388229064342143101233455003 986502464550242711840476655256773899551699326339 1368769703278891220758803797647465842134944396695 382804613323387147135994562050268978569761677332 (by decide!)
  have e83 := hiStepP 3411 1368769703278891220758803797647465842134944396695 382804613323387147135994562050268978569761677332 1242802984925039533076788669646330120227752392150 883393486718589151732524868990006562374955062722 (by decide!)
  have e84 := hiStepP 3410 1242802984925039533076788669646330120227752392150 883393486718589151732524868990006562374955062722 287675205137565969683189712542253861048306049770 964093839415162356426688972954412081291842516776 (by decide!)
  have e85 := hiStepP 3409 287675205137565969683189712542253861048306049770 964093839415162356426688972954412081291842516776 30301634798580682832722720295559582947705538678 990904623535028596991210340924898896558280785758 (by decide!)
  have e86 := hiStepP 3408 30301634798580682832722720295559582947705538678 990904623535028596991210340924898896558280785758 1121970481416150459832244508290780244974767159531 599964466040801967856847077311273282612317783989 (by decide!)
  have e87 := hiStepP 3407 1121970481416150459832244508290780244974767159531 599964466040801967856847077311273282612317783989 178709905362543554264771264067270160318301817228 675689524419325061538464076204276918741097205305 (by decide!)
  have e88 := hiStepP 3406 178709905362543554264771264067270160318301817228 675689524419325061538464076204276918741097205305 1167210240998449130851598164628914171155423185285 1062796644217781913693284945471028435460594010044 (by decide!)
  have e89 := hiStepP 3405 1167210240998449130851598164628914171155423185285 1062796644217781913693284945471028435460594010044 75499345918992722721670942156853189715851942341 1045123277970902220710781843831363874316583706233 (by decide!)
  have e90 := hiStepP 3404 75499345918992722721670942156853189715851942341 1045123277970902220710781843831363874316583706233 550074407238811571311149290933660484849058869039 1229100201771321105666386130397105106805979771222 (by decide!)
  have e91 := hiStepP 3403 550074407238811571311149290933660484849058869039 1229100201771321105666386130397105106805979771222 1124343396422209711142693293462439515764876831275 112653558575180603545283939946907352562419669885 (by decide!)
  have e92 := hiStepP 3402 1124343396422209711142693293462439515764876831275 112653558575180603545283939946907352562419669885 902778416938838715389802093297933361569073163629 808412169047083240458948659479708962407779399184 (by decide!)
  have e93 := hiStepP 3401 902778416938838715389802093297933361569073163629 808412169047083240458948659479708962407779399184 320996105975155977652017216432690467697912991479 1036973676145517913599567488582458566018825173223 (by decide!)
  have e94 := hiStepP 3400 320996105975155977652017216432690467697912991479 1036973676145517913599567488582458566018825173223 81097216823540158461990846697366990554204144226 1070949069568282784894904253222419624424030124677 (by decide!)
  have e95 := hiStepP 3399 81097216823540158461990846697366990554204144226 1070949069568282784894904253222419624424030124677 814255664377022969473715031367354050282020402592 303813590806221886213506623161235659213551914789 (by decide!)
  have e96 := hiStepP 3398 814255664377022969473715031367354050282020402592 303813590806221886213506623161235659213551914789 400438157092200767257364931515834558281475192361 656962912873313121395013033142708062922354931980 (by decide!)
  have e97 := hiStepP 3397 400438157092200767257364931515834558281475192361 656962912873313121395013033142708062922354931980 684400193546658263014533877095250436306359056646 28247774031989421763401916546875861619811762186 (by decide!)
  have e98 := hiStepP 3396 684400193546658263014533877095250436306359056646 28247774031989421763401916546875861619811762186 613724435501244363912870380808784654951690825653 636261824809970061939824403913765745710697230271 (by decide!)
  have e99 := hiStepP 3395 613724435501244363912870380808784654951690825653 636261824809970061939824403913765745710697230271 1049042516174980372040344613002494343853930794758 1237117720396441307703131815048277631633289273529 (by decide!)
  have t0 := e0
  have t1 := t0.trans e1
  have t2 := t1.trans e2
  have t3 := t2.trans e3
  have t4 := t3.trans e4
  have t5 := t4.trans e5
  have t6 := t5.trans e6
  have t7 := t6.trans e7
  have t8 := t7.trans e8
  have t9 := t8.trans e9
  have t10 := t9.trans e10
  have t11 := t10.trans e11
  have t12 := t11.trans e12
  have t13 := t12.trans e13
  have t14 := t13.trans e14
  have t15 := t14.trans e15
  have t16 := t15.trans e16
  have t17 := t16.trans e17
  have t18 := t17.trans e18
  have t19 := t18.trans e19
  have t20 := t19.trans e20
  have t21 := t20.trans e21
  have t22 := t21.trans e22
  have t23 := t22.trans e23
  have t24 := t23.trans e24
  have t25 := t24.trans e25
  have t26 := t25.trans e26
  have t27 := t26.trans e27
  have t28 := t27.trans e28
  have t29 := t28.trans e29
  have t30 := t29.trans e30
  have t31 := t30.trans e31
  have t32 := t31.trans e32
  have t33 := t32.trans e33
  have t34 := t33.trans e34
  have t35 := t34.trans e35
  have t36 := t35.trans e36
  have t37 := t36.trans e37
  have t38 := t37.trans e38
  have t39 := t38.trans e39
  have t40 := t39.trans e40
  have t41 := t40.trans e41
  have t42 := t41.trans e42
  have t43 := t42.trans e43
  have t44 := t43.trans e44
  have t45 := t44.trans e45
  have t46 := t45.trans e46
  have t47 := t46.trans e47
  have t48 := t47.trans e48
  have t49 := t48.trans e49
  have t50 := t49.trans e50
  have t51 := t50.trans e51
  have t52 := t51.trans e52
  have t53 := t52.trans e53
  have t54 := t53.trans e54
  have t55 := t54.trans e55
  have t56 := t55.trans e56
  have t57 := t56.trans e57
  have t58 := t57.trans e58
  have t59 := t58.trans e59
  have t60 := t59.trans e60
  have t61 := t60.trans e61
  have t62 := t61.trans e62
  have t63 := t62.trans e63
  have t64 := t63.trans e64
  have t65 := t64.trans e65
  have t66 := t65.trans e66
  have t67 := t66.trans e67
  have t68 := t67.trans e68
  have t69 := t68.trans e69
  have t70 := t69.trans e70
  have t71 := t70.trans e71
  have t72 := t71.trans e72
  have t73 := t72.trans e73
  have t74 := t73.trans e74
  have t75 := t74.trans e75
  have t76 := t75.trans e76
  have t77 := t76.trans e77
  have t78 := t77.trans e78
  have t79 := t78.trans e79
  have t80 := t79.trans e80
  have t81 := t80.trans e81
  have t82 := t81.trans e82
  have t83 := t82.trans e83
  have t84 := t83.trans e84
  have t85 := t84.trans e85
  have t86 := t85.trans e86
  have t87 := t86.trans e87
  have t88 := t87.trans e88
  have t89 := t88.trans e89
  have t90 := t89.trans e90
  have t91 := t90.trans e91
  have t92 := t91.trans e92
  have t93 := t92.trans e93
  have t94 := t93.trans e94
  have t95 := t94.trans e95
  have t96 := t95.trans e96
  have t97 := t96.trans e97
  have t98 := t97.trans e98
  have t99 := t98.trans e99
  exact t99

theorem hiChainSeg7 : hiLoop SHA_1 (strBytes "pencil") 3395
    (unpackBytes 20 1049042516174980372040344613002494343853930794758)
    (unpackBytes 20 1237117720396441307703131815048277631633289273529) =
    hiLoop SHA_1 (strBytes "pencil") 3295
      (unpackBytes 20 1311161088540843086139897484385568441690065721745)
      (unpackBytes 20 368929036617747916358624628187898160613302161639) := by
  have e0 := hiStepP 3394 1049042516174980372040344613002494343853930794758 1237117720396441307703131815048277631633289273529 40690419787663256692225690722561525766724865216 1276379833484799755234718196176424987492397821049 (by decide!)
  have e1 := hiStepP 3393 40690419787663256692225690722561525766724865216 1276379833484799755234718196176424987492397821049 243674059889546994828718394419817522924725618900 1400049227824152513637393468277916797279686452397 (by decide!)
  have e2 := hiStepP 3392 243674059889546994828718394419817522924725618900 1400049227824152513637393468277916797279686452397 1089970482916128633365538329824563947857258245480 432982158863718024768815797621304119142256544197 (by decide!)
  have e3 := hiStepP 3391 1089970482916128633365538329824563947857258245480 432982158863718024768815797621304119142256544197 1428606233917239543357380950409155328372525352615 1015742856301283571107126487670436973623484927842 (by decide!)
  have e4 := hiStepP 3390 1428606233917239543357380950409155328372525352615 1015742856301283571107126487670436973623484927842 571488656985628445407483702137017592458643544391 1221390574844898465700912990764449447489571935781 (by decide!)
  have e5 := hiStepP 3389 571488656985628445407483702137017592458643544391 1221390574844898465700912990764449447489571935781 1248618413583991784926873236938421808989650298328 87172251492247637576381670624609254013669766141 (by decide!)
  have e6 := hiStepP 3388 1248618413583991784926873236938421808989650298328 87172251492247637576381670624609254013669766141 1017486013041205286884365197427495672789207917312 1081794407225477056878266431415985770961342877949 (by decide!)
  have e7 := hiStepP 3387 1017486013041205286884365197427495672789207917312 1081794407225477056878266431415985770961342877949 334274579824308772320257680602781114683285033627 776070569119118008609431299670868266372788060774 (by decide!)
  have e8 := hiStepP 3386 334274579824308772320257680602781114683285033627 776070569119118008609431299670868266372788060774 428045900969652889761732668640875654554557510632 1170566882696170766708479564033954575337624007054 (by decide!)
  have e9 := hiStepP 3385 428045900969652889761732668640875654554557510632 1170566882696170766708479564033954575337624007054 1432627500505483954995587410882980998788583581942 319596674184400143087207321597609541219292387704 (by decide!)
  have e10 := hiStepP 3384 1432627500505483954995587410882980998788583581942 319596674184400143087207321597609541219292387704 1349720575450564412051750814572457952961825930516 1253494720746374559387448757353645038051564282988 (by decide!)
  have e11 := hiStepP 3383 1349720575450564412051750814572457952961825930516 1253494720746374559387448757353645038051564282988 340150102571169715700160612995315895512425036585 1278914121847971367825065063495207598933814189893 (by decide!)
  have e12 := hiStepP 3382 340150102571169715700160612995315895512425036585 1278914121847971367825065063495207598933814189893 1049057982029535779822174251621220707299713572558 501077977410065286213408348068002135332367483275 (by decide!)
  have e13 := hiStepP 3381 1049057982029535779822174251621220707299713572558 501077977410065286213408348068002135332367483275 424095891850241098683891604903448297356349626041 168683098651134263379982039480923823022553339698 (by decide!)
  have e14 := hiStepP 3380 424095891850241098683891604903448297356349626041 168683098651134263379982039480923823022553339698 767891924581217704651361819938518476496199891849 885193757623064270011682509314002932677003750587 (by decide!)
  have e15 := hiStepP 3379 767891924581217704651361819938518476496199891849 885193757623064270011682509314002932677003750587 979306304462281626163660188480003700251680752481 276995549169270520048692411290668457775158685658 (by decide!)
  have e16 := hiStepP 3378 979306304462281626163660188480003700251680752481 276995549169270520048692411290668457775158685658 1234148723046107836574648219455231565621917800442 1328272497925713175279267463584006140474769291296 (by decide!)
  have e17 := hiStepP 3377 1234148723046107836574648219455231565621917800442 1328272497925713175279267463584006140474769291296 1313650875388342766554375126623501889661750502096 83937914664152454010473268436132658301375634160 (by decide!)
  have e18 := hiStepP 3376 1313650875388342766554375126623501889661750502096 83937914664152454010473268436132658301375634160 1002150474431166195770114959383246049386260616249 920442634298935002436159667027842623126694268617 (by decide!)
  have e19 := hiStepP 3375 1002150474431166195770114959383246049386260616249 920442634298935002436159667027842623126694268617 460571892259512976046848892418268044669396961800 1379230118368217344794471980831697095140706337985 (by decide!)
  have e20 := hiStepP 3374 460571892259512976046848892418268044669396961800 1379230118368217344794471980831697095140706337985 956075850350727848188146416152198433283575092606 495996254861837033400703419478667519178686353855 (by decide!)
  have e21 := hiStepP 3373 956075850350727848188146416152198433283575092606 495996254861837033400703419478667519178686353855 1346498075598790589896382996393283484990071428524 1080297064786087639934428911282797835369110078483 (by decide!)
  have e22 := hiStepP 3372 1346498075598790589896382996393283484990071428524 1080297064786087639934428911282797835369110078483 599139080969207150004617299918357126926206784313 1220483657187992730108211573525927810175591569194 (by decide!)
  have e23 := hiStepP 3371 599139080969207150004617299918357126926206784313 1220483657187992730108211573525927810175591569194 762593814223143765162234932542931476266541627142 458760035668660445558934144059623391059546431532 (by decide!)
  have e24 := hiStepP 3370 762593814223143765162234932542931476266541627142 458760035668660445558934144059623391059546431532 1112810719096288136490280375543278091903766590151 837608541327681920655472772993619534448730051307 (by decide!)
  have e25 := hiStepP 3369 1112810719096288136490280375543278091903766590151 837608541327681920655472772993619534448730051307 855301217272872049338785804902683323569390286949 42251727573836516810345136331612334146630773390 (by decide!)
  have e26 := hiStepP 3368 855301217272872049338785804902683323569390286949 42251727573836516810345136331612334146630773390 345846492202704868784694301358524676174647863435 342247537455208276746808160545493372680515600901 (by decide!)
  have e27 := hiStepP 3367 345846492202704868784694301358524676174647863435 342247537455208276746808160545493372680515600901 1274528371166125456339369020649348996888618381888 1306226875820790355173544598385587669203181334597 (by decide!)
  have e28 := hiStepP 3366 1274528371166125456339369020649348996888618381888 1306226875820790355173544598385587669203181334597 913893773399438715266409379432918635088376341283 393058225218114837725444136251980036565569295206 (by decide!)
  have e29 := hiStepP 3365 913893773399438715266409379432918635088376341283 393058225218114837725444136251980036565569295206 923473975964745272607404940186441922682301380596 1307968540673406680178911984584067403884116059282 (by decide!)
  have e30 := hiStepP 3364 923473975964745272607404940186441922682301380596 1307968540673406680178911984584067403884116059282 1251726360754544759784749915397036151950365313352 355965850568574945278257936989729312279599672794 (by decide!)
  have e31 := hiStepP 3363 1251726360754544759784749915397036151950365313352 355965850568574945278257936989729312279599672794 405296102888446217318545538566618844574721219625 688738002705260392954023878553304509329005998579 (by decide!)
  have e32 := hiStepP 3362 405296102888446217318545538566618844574721219625 688738002705260392954023878553304509329005998579 1359363633754188866737104393863214929589192470869 860628768237032599236777140779862741668164812966 (by decide!)
  have e33 := hiStepP 3361 1359363633754188866737104393863214929589192470869 860628768237032599236777140779862741668164812966 1140089606751306242425988449920624375705005634070 462708353953621247785495465550906600086347641520 (by decide!)
  have e34 := hiStepP 3360 1140089606751306242425988449920624375705005634070 462708353953621247785495465550906600086347641520 1043076362543861289108007506585880528236460512914 1322916967068856616302587246288121237206885786658 (by decide!)
  have e35 := hiStepP 3359 1043076362543861289108007506585880528236460512914 1322916967068856616302587246288121237206885786658 126182601109227918136248069271624323834226515582 1379515667673115651263428373732089006002331023964 (by decide!)
  have e36 := hiStepP 3358 126182601109227918136248069271624323834226515582 1379515667673115651263428373732089006002331023964 823628907994879060239476951424022610429067259548 558930814295569294977563819653683263088584070336 (by decide!)
  have e37 := hiStepP 3357 823628907994879060239476951424022610429067259548 558930814295569294977563819653683263088584070336 1062484213175325120897616090683941573799114291584 1255891862089842136978779381517204464441958411584 (by decide!)
  have e38 := hiStepP 3356 1062484213175325120897616090683941573799114291584 1255891862089842136978779381517204464441958411584 381118456415104490472226393753368367547192773749 874854301012625830303099727463177288275609788725 (by decide!)
  have e39 := hiStepP 3355 381118456415104490472226393753368367547192773749 874854301012625830303099727463177288275609788725 3251734918150849652824276503121852308570886801 877311560948828760297621080641692724197012665252 (by decide!)
  have e40 := hiStepP 3354 3251734918150849652824276503121852308570886801 877311560948828760297621080641692724197012665252 1193967517616156699049337917784004596674013480881 414244020038289228806171827178429158235800679445 (by decide!)
  have e41 := hiStepP 3353 1193967517616156699049337917784004596674013480881 414244020038289228806171827178429158235800679445 831952259849711687754626460115221458826317621605 1240041272850539751501353329176732302583597129072 (by decide!)
  have e42 := hiStepP 3352 831952259849711687754626460115221458826317621605 1240041272850539751501353329176732302583597129072 626543430527072306934921946472084626446069331932 1030705807898669461747123448542394305382236859052 (by decide!)
  have e43 := hiStepP 3351 626543430527072306934921946472084626446069331932 1030705807898669461747123448542394305382236859052 1018179428822382596304855321366338638085288874038 38954940289660715277553962027101093577577429658 (by decide!)
  have e44 := hiStepP 3350 1018179428822382596304855321366338638085288874038 38954940289660715277553962027101093577577429658 163830360812500230994939172745635745383927099051 150588964119834857465020186978380141639370462257 (by decide!)
  have e45 := hiStepP 3349 163830360812500230994939172745635745383927099051 150588964119834857465020186978380141639370462257 719028237311863486473315172421004580982985028649 591303200691369836670399779660265689976547942424 (by decide!)
  have e46 := hiStepP 3348 719028237311863486473315172421004580982985028649 591303200691369836670399779660265689976547942424 810105695636758000136664263452963333852334849029 1338503844678975749394094615008587807214719425565 (by decide!)
  have e47 := hiStepP 3347 810105695636758000136664263452963333852334849029 1338503844678975749394094615008587807214719425565 1358433108611964672309567118917671966212188020889 42966024334591429435038158512480169486528248964 (by decide!)
  have e48 := hiStepP 3346 1358433108611964672309567118917671966212188020889 42966024334591429435038158512480169486528248964 70196344734864845974403892153332540322145469972 67373274015753131049396699444822692107426921104 (by decide!)
  have e49 := hiStepP 3345 70196344734864845974403892153332540322145469972 67373274015753131049396699444822692107426921104 620178695869818937507687602957359256088433540777 590453435366140907453779489677585863616620184633 (by decide!)
  have e50 := hiStepP 3344 620178695869818937507687602957359256088433540777 590453435366140907453779489677585863616620184633 1871665620038148943595181602349861191775549264 589435584993647076542901706869442873196293206889 (by decide!)
  have e51 := hiStepP 3343 1871665620038148943595181602349861191775549264 589435584993647076542901706869442873196293206889 654988732386512596057007410713326830567890950308 122866068044226129790801235934364017299204615117 (by decide!)
  have e52 := hiStepP 3342 654988732386512596057007410713326830567890950308 122866068044226129790801235934364017299204615117 1197711687926251908179387599482071501409275386714 1120718258249031183333565933262502310612536438935 (by decide!)
  have e53 := hiStepP 3341 1197711687926251908179387599482071501409275386714 1120718258249031183333565933262502310612536438935 47676758640183091628816950492305781115217278203 1165154782117866809260261750591690834036482163820 (by decide!)
  have e54 := hiStepP 3340 47676758640183091628816950492305781115217278203 1165154782117866809260261750591690834036482163820 124046636995323184050982556513647177246145319525 1242712640700070371473078758699673340852049663497 (by decide!)
  have e55 := hiStepP 3339 124046636995323184050982556513647177246145319525 1242712640700070371473078758699673340852049663497 1008095213755529372593184852870455023671228119517 600729544981186931368900440939931966481022316500 (by decide!)
  have e56 := hiStepP 3338 1008095213755529372593184852870455023671228119517 600729544981186931368900440939931966481022316500 1277335339409886883818698943345361027165217939084 1041981972826185975592726582228242180374266589528 (by decide!)
  have e57 := hiStepP 3337 1277335339409886883818698943345361027165217939084 1041981972826185975592726582228242180374266589528 1187671279134474290706694612059635970743695048218 585463187203298911263560311235536989263974158146 (by decide!)
  have e58 := hiStepP 3336 1187671279134474290706694612059635970743695048218 585463187203298911263560311235536989263974158146 779653196032432854526474430978659328884419955493 1359403951003215964677380811792664454266127467623 (by decide!)
  have e59 := hiStepP 3335 779653196032432854526474430978659328884419955493 1359403951003215964677380811792664454266127467623 482046033377687778984542435997437467669700454390 1064425119318455326052990802784965096671124906897 (by decide!)
  have e60 := hiStepP 3334 482046033377687778984542435997437467669700454390 1064425119318455326052990802784965096671124906897 1221642333577376691047664931616886804911739496836 636868787920128646846440381447815908547522333205 (by decide!)
  have e61 := hiStepP 3333 1221642333577376691047664931616886804911739496836 636868787920128646846440381447815908547522333205 1429699370219712826899161438720368787905681232658 855718686483196964832733093895430555693579835655 (by decide!)
  have e62 := hiStepP 3332 1429699370219712826899161438720368787905681232658 855718686483196964832733093895430555693579835655 434845830782617900628099280752618166251271420231 1243331494952314108257407461138229275479989280832 (by decide!)
  have e63 := hiStepP 3331 434845830782617900628099280752618166251271420231 1243331494952314108257407461138229275479989280832 686827577908384276163173919178550191472690322611 922147006450919791567497627846511597016641977587 (by decide!)
  have e64 := hiStepP 3330 686827577908384276163173919178550191472690322611 922147006450919791567497627846511597016641977587 905913555753679704835876765336865337750482445055 360560005516820472031794974755415132328000609804 (by decide!)
  have e65 := hiStepP 3329 905913555753679704835876765336865337750482445055 360560005516820472031794974755415132328000609804 227267635251855050481037907386786213510776869599 142169461587663902697908462536851152946536254675 (by decide!)
  have e66 := hiStepP 3328 227267635251855050481037907386786213510776869599 142169461587663902697908462536851152946536254675 715223469201965284307434691436388602685417646855 580190442340061107730009698930759507578189178836 (by decide!)
  have e67 := hiStepP 3327 715223469201965284307434691436388602685417646855 580190442340061107730009698930759507578189178836 710797235502123101226486903352083535064395824842 143480532714680385225692470973396493785845520670 (by decide!)
  have e68 := hiStepP 3326 710797235502123101226486903352083535064395824842 143480532714680385225692470973396493785845520670 595892476262075921461062475467254893559940683925 646573660065213143832070318575996093309761372555 (by decide!)
  have e69 := hiStepP 3325 595892476262075921461062475467254893559940683925 646573660065213143832070318575996093309761372555 71101107551563703597148283035844091993643516177 714807633017070638805849951849328367518059839642 (by decide!)
  have e70 := hiStepP 3324 71101107551563703597148283035844091993643516177 714807633017070638805849951849328367518059839642 901823098949832992032046625423325681392461305009 1283144481744827862127408529113222512737253823531 (by decide!)
  have e71 := hiStepP 3323 901823098949832992032046625423325681392461305009 1283144481744827862127408529113222512737253823531 647063113698656967651741547395953724957949749629 831134835925165829473526759608576992706184052054 (by decide!)
  have e72 := hiStepP 3322 647063113698656967651741547395953724957949749629 831134835925165829473526759608576992706184052054 1428409242681752523881253788053672200328320484479 614462706801585401826622910022081381527668848937 (by decide!)
  have e73 := hiStepP 3321 1428409242681752523881253788053672200328320484479 614462706801585401826622910022081381527668848937 1320989674795049105200502875010597424374692941231 803591691772195486824274627305772499445694428294 (by decide!)
  have e74 := hiStepP 3320 1320989674795049105200502875010597424374692941231 803591691772195486824274627305772499445694428294 1367784071412760093654683325192308912430234505121 567147253571257321720369296707596637664480459559 (by decide!)
  have e75 := hiStepP 3319 1367784071412760093654683325192308912430234505121 567147253571257321720369296707596637664480459559 1438936778414009032565611056915629015952646356370 909779388837793934180600539092244229895268583093 (by decide!)
  have e76 := hiStepP 3318 1438936778414009032565611056915629015952646356370 909779388837793934180600539092244229895268583093 37755494505848229484172213112372007177090635565 877911421902927870306832445388758991737126506904 (by decide!)
  have e77 := hiStepP 3317 37755494505848229484172213112372007177090635565 877911421902927870306832445388758991737126506904 531346240751794865744838190914654417148364554118 1123702086502684522712547628421321979022302293534 (by decide!)
  have e78 := hiStepP 3316 531346240751794865744838190914654417148364554118 1123702086502684522712547628421321979022302293534 973708704138509321408398381145541123036797755167 629997525320253431377682811045712542385616515329 (by decide!)
  have e79 := hiStepP 3315 973708704138509321408398381145541123036797755167 629997525320253431377682811045712542385616515329 1131637980380974626484854402464749602024556933956 961306204103398835371342266788941871586185167429 (by decide!)
  have e80 := hiStepP 3314 1131637980380974626484854402464749602024556933956 961306204103398835371342266788941871586185167429 302023936220399853414775793756545534202728803652 893575422105604389622717981765868108955565174529 (by decide!)
  have e81 := hiStepP 3313 302023936220399853414775793756545534202728803652 893575422105604389622717981765868108955565174529 23453671943631829813721212389026360231501111909 871312085232934558994342763316695539030883175780 (by decide!)
  have e82 := hiStepP 3312 23453671943631829813721212389026360231501111909 871312085232934558994342763316695539030883175780 1028867980979890670484823689044903665178627801335 254918861673633980277955821045511486336937627027 (by decide!)
  have e83 := hiStepP 3311 1028867980979890670484823689044903665178627801335 254918861673633980277955821045511486336937627027 914580852989271899787976480966459764805055349936 802599314925561486517055831382313195342652442915 (by decide!)
  have e84 := hiStepP 3310 914580852989271899787976480966459764805055349936 802599314925561486517055831382313195342652442915 450352981027466930971762283808473971180504867335 1110204523137132412333153300437426791513540586276 (by decide!)
  have e85 := hiStepP 3309 450352981027466930971762283808473971180504867335 1110204523137132412333153300437426791513540586276 1247406714452541708974736732117597965827552435634 137214761348732970436837867800724272250258798230 (by decide!)
  have e86 := hiStepP 3308 1247406714452541708974736732117597965827552435634 137214761348732970436837867800724272250258798230 13426935420583217547861418314524296971828810223 150284166168437898661552541450647610671932008313 (by decide!)
  have e87 := hiStepP 3307 13426935420583217547861418314524296971828810223 150284166168437898661552541450647610671932008313 110112862871296519465913855456396975025314248913 51990720115603341391653668533592535108136787880 (by decide!)
  have e88 := hiStepP 3306 110112862871296519465913855456396975025314248913 51990720115603341391653668533592535108136787880 511155413053097213086479454625881137923543019340 459982873582275248928057907024931137460340584676 (by decide!)
  have e89 := hiStepP 3305 511155413053097213086479454625881137923543019340 459982873582275248928057907024931137460340584676 912310410760243493093487410463614939551933579083 1183883975966541323175148193233894959191854567343 (by decide!)
  have e90 := hiStepP 3304 912310410760243493093487410463614939551933579083 1183883975966541323175148193233894959191854567343 652586939291090574788285762443264648767415420924 1079360521592959606332886001585339942470809339987 (by decide!)
  have e91 := hiStepP 3303 652586939291090574788285762443264648767415420924 1079360521592959606332886001585339942470809339987 928767637600801353337721633005053777996106679664 181245363076554163402199266038287042571419192611 (by decide!)
  have e92 := hiStepP 3302 928767637600801353337721633005053777996106679664 181245363076554163402199266038287042571419192611 1208611408883250106182275397913929386942886072642 1164886413380060049708575269626566353993923255393 (by decide!)
  have e93 := hiStepP 3301 1208611408883250106182275397913929386942886072642 1164886413380060049708575269626566353993923255393 422386530622569840683693132497032950802807416664 764807509842563023460851718526821458912587889465 (by decide!)
  have e94 := hiStepP 3300 422386530622569840683693132497032950802807416664 764807509842563023460851718526821458912587889465 892336198957144196695974798144536988060829074875 146886174363545873245461473620303532377890553474 (by decide!)
  have e95 := hiStepP 3299 892336198957144196695974798144536988060829074875 146886174363545873245461473620303532377890553474 403576232476348075308264103154207342388192778652 542585615944432982220470175181923850532082575134 (by decide!)
  have e96 := hiStepP 3298 403576232476348075308264103154207342388192778652 542585615944432982220470175181923850532082575134 1116670420339350426889451375030546199532864095599 893888666016252683021874696373423017838994203249 (by decide!)
  have e97 := hiStepP 3297 1116670420339350426889451375030546199532864095599 893888666016252683021874696373423017838994203249 1154993140524374465016281614914529104899550621924 495900769621854461153874988918724409671990448789 (by decide!)
  have e98 := hiStepP 3296 1154993140524374465016281614914529104899550621924 495900769621854461153874988918724409671990448789 1392499225122955519817966149906834183264776592355 943168770676706981996682644397640373631261116790 (by decide!)
  have e99 := hiStepP 3295 1392499225122955519817966149906834183264776592355 943168770676706981996682644397640373631261116790 1311161088540843086139897484385568441690065721745 368929036617747916358624628187898160613302161639 (by decide!)
  have t0 := e0
  have t1 := t0.trans e1
  have t2 := t1.trans e2
  have t3 := t2.trans e3
  have t4 := t3.trans e4
  have t5 := t4.trans e5
  have t6 := t5.trans e6
  have t7 := t6.trans e7
  have t8 := t7.trans e8
  have t9 := t8.trans e9
  have t10 := t9.trans e10
  have t11 := t10.trans e11
  have t12 := t11.trans e12
  have t13 := t12.trans e13
  have t14 := t13.trans e14
  have t15 := t14.trans e15
  have t16 := t15.trans e16
  have t17 := t16.trans e17
  have t18 := t17.trans e18
  have t19 := t18.trans e19
  have t20 := t19.trans e20
  have t21 := t20.trans e21
  have t22 := t21.trans e22
  have t23 := t22.trans e23
  have t24 := t23.trans e24
  have t25 := t24.trans e25
  have t26 := t25.trans e26
  have t27 := t26.trans e27
  have t28 := t27.trans e28
  have t29 := t28.trans e29
  have t30 := t29.trans e30
  have t31 := t30.trans e31
  have t32 := t31.trans e32
  have t33 := t32.trans e33
  have t34 := t33.trans e34
  have t35 := t34.trans e35
  have t36 := t35.trans e36
  have t37 := t36.trans e37
  have t38 := t37.trans e38
  have t39 := t38.trans e39
  have t40 := t39.trans e40
  have t41 := t40.trans e41
  have t42 := t41.trans e42
  have t43 := t42.trans e43
  have t44 := t43.trans e44
  have t45 := t44.trans e45
  have t46 := t45.trans e46
  have t47 := t46.trans e47
  have t48 := t47.trans e48
  have t49 := t48.trans e49
  have t50 := t49.trans e50
  have t51 := t50.trans e51
  have t52 := t51.trans e52
  have t53 := t52.trans e53
  have t54 := t53.trans e54
  have t55 := t54.trans e55
  have t56 := t55.trans e56
  have t57 := t56.trans e57
  have t58 := t57.trans e58
  have t59 := t58.trans e59
  have t60 := t59.trans e60
  have t61 := t60.trans e61
  have t62 := t61.trans e62
  have t63 := t62.trans e63
  have t64 := t63.trans e64
  have t65 := t64.trans e65
  have t66 := t65.trans e66
  have t67 := t66.trans e67
  have t68 := t67.trans e68
  have t69 := t68.trans e69
  have t70 := t69.trans e70
  have t71 := t70.trans e71
  have t72 := t71.trans e72
  have t73 := t72.trans e73
  have t74 := t73.trans e74
  have t75 := t74.trans e75
  have t76 := t75.trans e76
  have t77 := t76.trans e77
  have t78 := t77.trans e78
  have t79 := t78.trans e79
  have t80 := t79.trans e80
  have t81 := t80.trans e81
  have t82 := t81.trans e82
  have t83 := t82.trans e83
  have t84 := t83.trans e84
  have t85 := t84.trans e85
  have t86 := t85.trans e86
  have t87 := t86.trans e87
  have t88 := t87.trans e88
  have t89 := t88.trans e89
  have t90 := t89.trans e90
  have t91 := t90.trans e91
  have t92 := t91.trans e92
  have t93 := t92.trans e93
  have t94 := t93.trans e94
  have t95 := t94.trans e95
  have t96 := t95.trans e96
  have t97 := t96.trans e97
  have t98 := t97.trans e98
  have t99 := t98.trans e99
  exact t99

theorem hiChainSeg8 : hiLoop SHA_1 (strBytes "pencil") 3295
    (unpackBytes 20 1311161088540843086139897484385568441690065721745)
    (unpackBytes 20 368929036617747916358624628187898160613302161639) =
    hiLoop SHA_1 (strBytes "pencil") 3195
      (unpackBytes 20 121166038524034624066044394660940723667174328742)
      (unpackBytes 20 646645436595663233591835979640897024864962477383) := by
  have e0 := hiStepP 3294 1311161088540843086139897484385568441690065721745 368929036617747916358624628187898160613302161639 474069323611585530231119387394261898291223662262 111801416743332708649033325697792529394923232849 (by decide!)
  have e1 := hiStepP 3293 474069323611585530231119387394261898291223662262 111801416743332708649033325697792529394923232849 222535837810448029002659914952147605795314498208 305063343727196321765037405370478837457019872497 (by decide!)
  have e2 := hiStepP 3292 222535837810448029002659914952147605795314498208 305063343727196321765037405370478837457019872497 493144135464109749885878315136613693022605260748 565521329267349196206305222851725173297092989757 (by decide!)
  have e3 := hiStepP 3291 493144135464109749885878315136613693022605260748 565521329267349196206305222851725173297092989757 1048586995206184743837766978505709729223924185471 1213932540309103336672475931464086571089654016578 (by decide!)
  have e4 := hiStepP 3290 1048586995206184743837766978505709729223924185471 1213932540309103336672475931464086571089654016578 1269892572295236835035762320691916930619163724054 61671135591441857189805893575975069773394322260 (by decide!)
  have e5 := hiStepP 3289 1269892572295236835035762320691916930619163724054 61671135591441857189805893575975069773394322260 192193862531691452267281840994610200517950561557 247787128905325087421898851208089913925373820481 (by decide!)
  have e6 := hiStepP 3288 192193862531691452267281840994610200517950561557 247787128905325087421898851208089913925373820481 1232694587910216694437526543154512792374463443923 1441805146384741358592474879489378050952859241874 (by decide!)
  have e7 := hiStepP 3287 1232694587910216694437526543154512792374463443923 1441805146384741358592474879489378050952859241874 111351300485489216672507835338242569559368701553 1364759383158443795336407198375789058552650718179 (by decide!)
  have e8 := hiStepP 3286 111351300485489216672507835338242569559368701553 1364759383158443795336407198375789058552650718179 424735138143406503957451958405825218249404666562 944305990903828537797215933904197317469102508321 (by decide!)
  have e9 := hiStepP 3285 424735138143406503957451958405825218249404666562 944305990903828537797215933904197317469102508321 575430823922114389374614258127437707660970005913 1105471699842098104720353598186753717460615306424 (by decide!)
  have e10 := hiStepP 3284 575430823922114389374614258127437707660970005913 1105471699842098104720353598186753717460615306424 1448746993700350379494003816313564608826415698160 344839133796224819103742678572337052941666405448 (by decide!)
  have e11 := hiStepP 3283 1448746993700350379494003816313564608826415698160 344839133796224819103742678572337052941666405448 624641132451000154769695702365883781270902430305 462762727028144125708281452712950780832753817129 (by decide!)
  have e12 := hiStepP 3282 624641132451000154769695702365883781270902430305 462762727028144125708281452712950780832753817129 109911081214856516260704069498507521603412773446 378542148871405617897470549603156971087963872367 (by decide!)
  have e13 := hiStepP 3281 109911081214856516260704069498507521603412773446 378542148871405617897470549603156971087963872367 553296731382333972795267721546725305809309577655 197780102492627658812131153004369331658469895640 (by decide!)
  have e14 := hiStepP 3280 553296731382333972795267721546725305809309577655 197780102492627658812131153004369331658469895640 223581162863481977051593729149753779855699126543 31700322245250329221289510811058070916512203991 (by decide!)
  have e15 := hiStepP 3279 223581162863481977051593729149753779855699126543 31700322245250329221289510811058070916512203991 323399832872012282539796073829707680893039998631 349157004962575326612155217151708926726248018544 (by decide!)
  have e16 := hiStepP 3278 323399832872012282539796073829707680893039998631 349157004962575326612155217151708926726248018544 51887359190077105359082192593065800059394729531 298250903061647733137970924114223577956477244491 (by decide!)
  have e17 := hiStepP 3277 51887359190077105359082192593065800059394729531 298250903061647733137970924114223577956477244491 1254919823440209738195839109113522417408515608920 1369767992495360193197585869175792156798326572307 (by decide!)
  have e18 := hiStepP 3276 1254919823440209738195839109113522417408515608920 1369767992495360193197585869175792156798326572307 247248002662325116530845086122342229676802911968 1122541349495472458229512145899956614738364967923 (by decide!)
  have e19 := hiStepP 3275 247248002662325116530845086122342229676802911968 1122541349495472458229512145899956614738364967923 473894060990668129394590442521832691009518608442 865678319596172168884159764668105667086911081417 (by decide!)
  have e20 := hiStepP 3274 473894060990668129394590442521832691009518608442 865678319596172168884159764668105667086911081417 409501189343817404002971469888228574119748620584 1188026260666691446579720486229171617082974919393 (by decide!)
  have e21 := hiStepP 3273 409501189343817404002971469888228574119748620584 1188026260666691446579720486229171617082974919393 358057824756657261266574134624117842825209515777 1362646494358609969058254074481706911315399726560 (by decide!)
  have e22 := hiStepP 3272 358057824756657261266574134624117842825209515777 1362646494358609969058254074481706911315399726560 1170697230788827198319776457917770298363419257210 203400893105714475646472901775714168013613808794 (by decide!)
  have e23 := hiStepP 3271 1170697230788827198319776457917770298363419257210 203400893105714475646472901775714168013613808794 1353366671650654119527877551778547718236363135969 1179971521863285766642178132260110605491463530363 (by decide!)
  have e24 := hiStepP 3270 1353366671650654119527877551778547718236363135969 1179971521863285766642178132260110605491463530363 236963834688318211065692368960190723414778177514 1319804417240393268422061748058574296332032786577 (by decide!)
  have e25 := hiStepP 3269 236963834688318211065692368960190723414778177514 1319804417240393268422061748058574296332032786577 1243802060799465693099174091225734539287813953753 359311067006930212594432780268256238949197666376 (by decide!)
  have e26 := hiStepP 3268 1243802060799465693099174091225734539287813953753 359311067006930212594432780268256238949197666376 1405520687335213007863459085675957374603102818316 1146117090937729419508867926203436051036373207108 (by decide!)
  have e27 := hiStepP 3267 1405520687335213007863459085675957374603102818316 1146117090937729419508867926203436051036373207108 90620823144574373009977734330543958546100457281 1136763673266820428512152182986320453372410349317 (by decide!)
  have e28 := hiStepP 3266 90620823144574373009977734330543958546100457281 1136763673266820428512152182986320453372410349317 320418089674538348410477654240352082657524246024 1457179972862679627210577078655265608776553505037 (by decide!)
  have e29 := hiStepP 3265 320418089674538348410477654240352082657524246024 1457179972862679627210577078655265608776553505037 549210265288573084485168177206629683536536096389 908025463612499365452873625255453127413962370952 (by decide!)
  have e30 := hiStepP 3264 549210265288573084485168177206629683536536096389 908025463612499365452873625255453127413962370952 187837041545231084671985792814264064847643159478 1095672057958569092207376911434587467411460179006 (by decide!)
  have e31 := hiStepP 3263 187837041545231084671985792814264064847643159478 1095672057958569092207376911434587467411460179006 229449328076223720320883688080024625456294460046 866952575845235382150598675143976440045697973936 (by decide!)
  have e32 := hiStepP 3262 229449328076223720320883688080024625456294460046 866952575845235382150598675143976440045697973936 282297066049264214162072094911612728593296349302 951480468693801500401721886129254552205835658950 (by decide!)
  have e33 := hiStepP 3261 282297066049264214162072094911612728593296349302 951480468693801500401721886129254552205835658950 967363706708932137236324010900931933469992393613 90536376815755810620537301952734934968723438923 (by decide!)
  have e34 := hiStepP 3260 967363706708932137236324010900931933469992393613 90536376815755810620537301952734934968723438923 107792135669364733248705620576980211102324781227 166862160940541321942912863775717344404529450464 (by decide!)
  have e35 := hiStepP 3259 107792135669364733248705620576980211102324781227 166862160940541321942912863775717344404529450464 1085484201388734122099114523171859835728892259399 931113272830332050987563158968956937002373636519 (by decide!)
  have e36 := hiStepP 3258 1085484201388734122099114523171859835728892259399 931113272830332050987563158968956937002373636519 786184642151929114824277096229199737700475355355 243639580947535924421572739602239832679166124412 (by decide!)
  have e37 := hiStepP 3257 786184642151929114824277096229199737700475355355 243639580947535924421572739602239832679166124412 745036917474588993094532462626021798388381735944 960129436792386950726545749602684334243155377524 (by decide!)
  have e38 := hiStepP 3256 745036917474588993094532462626021798388381735944 960129436792386950726545749602684334243155377524 801428826873776461400221550784980285625218035938 207240724730940216426091286180850344322907475350 (by decide!)
  have e39 := hiStepP 3255 801428826873776461400221550784980285625218035938 207240724730940216426091286180850344322907475350 3508852904725673017367722877708998763854708707 210199288729795385096165494726436711083187090037 (by decide!)
  have e40 := hiStepP 3254 3508852904725673017367722877708998763854708707 210199288729795385096165494726436711083187090037 734801477361184257084771243586915694141661777950 938505450805073563919886991675043764586470679147 (by decide!)
  have e41 := hiStepP 3253 734801477361184257084771243586915694141661777950 938505450805073563919886991675043764586470679147 107756572041517064157301873703882973449173999524 1043227727641650389019145009505052370857890266575 (by decide!)
  have e42 := hiStepP 3252 107756572041517064157301873703882973449173999524 1043227727641650389019145009505052370857890266575 944207957343740005020659587400157712521132873004 113294512498034674547070687539570044906466715875 (by decide!)
  have e43 := hiStepP 3251 944207957343740005020659587400157712521132873004 113294512498034674547070687539570044906466715875 755439559445935318189505650871069184114793870536 865165239458652425813602537424771927887337708587 (by decide!)
  have e44 := hiStepP 3250 755439559445935318189505650871069184114793870536 865165239458652425813602537424771927887337708587 133518919938427032207410912352916285910083749397 735933991701325008674532698739310504303051381310 (by decide!)
  have e45 := hiStepP 3249 133518919938427032207410912352916285910083749397 735933991701325008674532698739310504303051381310 54594050626753485303004676370239989471761727966 784818899110331983784195214334984843232095935456 (by decide!)
  have e46 := hiStepP 3248 54594050626753485303004676370239989471761727966 784818899110331983784195214334984843232095935456 1098693520355785495627411080415914414913757072504 417010001977403738336170202312307887808900880280 (by decide!)
  have e47 := hiStepP 3247 1098693520355785495627411080415914414913757072504 417010001977403738336170202312307887808900880280 1199490656717725431818411674020867848178092836623 885259222936384912589686707986929355469524062359 (by decide!)
  have e48 := hiStepP 3246 1199490656717725431818411674020867848178092836623 885259222936384912589686707986929355469524062359 621200794194138024351420811694836288402302147928 1415115922005849339543350758114340848621800639951 (by decide!)
  have e49 := hiStepP 3245 621200794194138024351420811694836288402302147928 1415115922005849339543350758114340848621800639951 760373351617550019414097543999073848565225950803 656169818280392079138658057042106672953020171164 (by decide!)
  have e50 := hiStepP 3244 760373351617550019414097543999073848565225950803 656169818280392079138658057042106672953020171164 466358360656698714497583237456141576366805898891 201946441345687519414111491691029073071846626583 (by decide!)
  have e51 := hiStepP 3243 466358360656698714497583237456141576366805898891 201946441345687519414111491691029073071846626583 1443572110993429424455851824275392784535917065025 1276039261350324653730618766583972206524417762902 (by decide!)
  have e52 := hiStepP 3242 1443572110993429424455851824275392784535917065025 1276039261350324653730618766583972206524417762902 138630808994476870433732161390701316045433152365 1140638510589393702629951170019657590125869909307 (by decide!)
  have e53 := hiStepP 3241 138630808994476870433732161390701316045433152365 1140638510589393702629951170019657590125869909307 451271194755436949002320931160760544016643795664 780711169563512971214773719001856435748726239211 (by decide!)
  have e54 := hiStepP 3240 451271194755436949002320931160760544016643795664 780711169563512971214773719001856435748726239211 512804019290700390869498811561059293738239213364 1193594575946339427063996195612146058106033590495 (by decide!)
  have e55 := hiStepP 3239 512804019290700390869498811561059293738239213364 1193594575946339427063996195612146058106033590495 199827990153099756648352647748581011372934597039 1381982151171576749856061045654476267143136041328 (by decide!)
  have e56 := hiStepP 3238 199827990153099756648352647748581011372934597039 1381982151171576749856061045654476267143136041328 75594912933044229125050143968882697922079371718 1456861872236865965288501925080242986487087130806 (by decide!)
  have e57 := hiStepP 3237 75594912933044229125050143968882697922079371718 1456861872236865965288501925080242986487087130806 257947482079398562889533116024651356494364373416 1198914697859130312474731163472607855757772658974 (by decide!)
  have e58 := hiStepP 3236 257947482079398562889533116024651356494364373416 1198914697859130312474731163472607855757772658974 1391993401788885699677966996404267121199098295023 193081709305667826534902655234321441661046877169 (by decide!)
  have e59 := hiStepP 3235 1391993401788885699677966996404267121199098295023 193081709305667826534902655234321441661046877169 1095463589714407715318871831711000173147918239594 903099001179844625806884410835482971267546016923 (by decide!)
  have e60 := hiStepP 3234 1095463589714407715318871831711000173147918239594 903099001179844625806884410835482971267546016923 105943853361904048445011541557112951171347453920 803517089110783588626920060510124097780031814523 (by decide!)
  have e61 := hiStepP 3233 105943853361904048445011541557112951171347453920 803517089110783588626920060510124097780031814523 709782110846934023794562791002102356040932376402 1375449408409173250598802219238809968827588559913 (by decide!)
  have e62 := hiStepP 3232 709782110846934023794562791002102356040932376402 1375449408409173250598802219238809968827588559913 1085055137323490817402429996189488744279640774978 450358564557001033894299908919238367897808297323 (by decide!)
  have e63 := hiStepP 3231 1085055137323490817402429996189488744279640774978 450358564557001033894299908919238367897808297323 326388334047404679288100700063057705710008476627 683852750384927138967099562453338182358411083448 (by decide!)
  have e64 := hiStepP 3230 326388334047404679288100700063057705710008476627 683852750384927138967099562453338182358411083448 242374467538015178962188226770049785308872362547 535161347277833380548452081444899642947475059851 (by decide!)
  have e65 := hiStepP 3229 242374467538015178962188226770049785308872362547 535161347277833380548452081444899642947475059851 511750113220197914962840838302045770849735188987 23524306178871120629854391664656059693893883248 (by decide!)
  have e66 := hiStepP 3228 511750113220197914962840838302045770849735188987 23524306178871120629854391664656059693893883248 991303679172974820281881314339855454752344060160 969040372684542960230498158143995038698042303600 (by decide!)
  have e67 := hiStepP 3227 991303679172974820281881314339855454752344060160 969040372684542960230498158143995038698042303600 52247896107768968602964245911333048736973066045 916909557043952079205041028199500673857537715021 (by decide!)
  have e68 := hiStepP 3226 52247896107768968602964245911333048736973066045 916909557043952079205041028199500673857537715021 511341352470904039316899383268512249719286295039 1421782908512418250745691570242907786945187955378 (by decide!)
  have e69 := hiStepP 3225 511341352470904039316899383268512249719286295039 1421782908512418250745691570242907786945187955378 1083457571758564774207897910164925392861293274415 392785262799217684261143909395036633530614622109 (by decide!)
  have e70 := hiStepP 3224 1083457571758564774207897910164925392861293274415 392785262799217684261143909395036633530614622109 10830999278987209136351617843606522016221446526 394828109252350117370821713656809259781997094627 (by decide!)
  have e71 := hiStepP 3223 10830999278987209136351617843606522016221446526 394828109252350117370821713656809259781997094627 827242105422337846260805082007545327009184551833 1220617856764374154957799199803566201908125857146 (by decide!)
  have e72 := hiStepP 3222 827242105422337846260805082007545327009184551833 1220617856764374154957799199803566201908125857146 743438319412512432883319584267959925760236254148 502180077496949776110690090605705875527936870078 (by decide!)
  have e73 := hiStepP 3221 743438319412512432883319584267959925760236254148 502180077496949776110690090605705875527936870078 226100010359470061291136874047168422522049072621 641818606768001675648442153813128100298155395923 (by decide!)
  have e74 := hiStepP 3220 226100010359470061291136874047168422522049072621 641818606768001675648442153813128100298155395923 893516986351725449757575139274775730046439810106 1352641572800982661101277299978222078980856278889 (by decide!)
  have e75 := hiStepP 3219 893516986351725449757575139274775730046439810106 1352641572800982661101277299978222078980856278889 68380359903805499316782118791184219102469337340 1319239931843111687514425469262737503495169925013 (by decide!)
  have e76 := hiStepP 3218 68380359903805499316782118791184219102469337340 1319239931843111687514425469262737503495169925013 779013693875715318461274437410636425223189704915 635859499794259263560201446560049217171644247878 (by decide!)
  have e77 := hiStepP 3217 779013693875715318461274437410636425223189704915 635859499794259263560201446560049217171644247878 378015549434858079990773812793880639474213430180 258825292846775234300238514387619938964481625314 (by decide!)
  have e78 := hiStepP 3216 378015549434858079990773812793880639474213430180 258825292846775234300238514387619938964481625314 535764557203382283270630124643129764195951821370 642587944979313728428636277686954221477494525656 (by decide!)
  have e79 := hiStepP 3215 535764557203382283270630124643129764195951821370 642587944979313728428636277686954221477494525656 132567968801576170557047889321225591535536576072 592088835064653401882724050449967686554712676496 (by decide!)
  have e80 := hiStepP 3214 132567968801576170557047889321225591535536576072 592088835064653401882724050449967686554712676496 635531308380652451043965193923109258608269601654 50758923960087116964248764920479688304919983078 (by decide!)
  have e81 := hiStepP 3213 635531308380652451043965193923109258608269601654 50758923960087116964248764920479688304919983078 245175385958812085175639353801038838925989709326 194597759031209247831098378765885496698871821800 (by decide!)
  have e82 := hiStepP 3212 245175385958812085175639353801038838925989709326 194597759031209247831098378765885496698871821800 923912050358772596542145128969185752734129350413 752242337576882924412660940246767410799696106213 (by decide!)
  have e83 := hiStepP 3211 923912050358772596542145128969185752734129350413 752242337576882924412660940246767410799696106213 77058922133576764268578974858964106582779556164 814886609373064563993273284612877984821451662241 (by decide!)
  have e84 := hiStepP 3210 77058922133576764268578974858964106582779556164 814886609373064563993273284612877984821451662241 1277289954913301187009319378224571495248125567224 462593947270788214876846110141389747431915553625 (by decide!)
  have e85 := hiStepP 3209 1277289954913301187009319378224571495248125567224 462593947270788214876846110141389747431915553625 446291139644580515667606689350178233264180546172 177938784850836222753163727138593373175559309605 (by decide!)
  have e86 := hiStepP 3208 446291139644580515667606689350178233264180546172 177938784850836222753163727138593373175559309605 770085759373310715532869866850831456785265404303 877954894722964696514270681275810299674993123498 (by decide!)
  have e87 := hiStepP 3207 770085759373310715532869866850831456785265404303 877954894722964696514270681275810299674993123498 1263418793903348886613075594935198562164145146764 391187439436522108723139938388202566094039296806 (by decide!)
  have e88 := hiStepP 3206 1263418793903348886613075594935198562164145146764 391187439436522108723139938388202566094039296806 1387167999283158783482076631806945798810887281421 1041883867135692020828837030018617751238559952939 (by decide!)
  have e89 := hiStepP 3205 1387167999283158783482076631806945798810887281421 1041883867135692020828837030018617751238559952939 1128045404693333498400427257954705301375414133527 661729844064350956921389505164508839569121809212 (by decide!)
  have e90 := hiStepP 3204 1128045404693333498400427257954705301375414133527 661729844064350956921389505164508839569121809212 545837934012806620489728177549096099885765966024 253799749719069449830545704072148306392227654644 (by decide!)
  have e91 := hiStepP 3203 545837934012806620489728177549096099885765966024 253799749719069449830545704072148306392227654644 997767364297344727267958166794980891814043848056 746130808693773682233422643434345373383080945292 (by decide!)
  have e92 := hiStepP 3202 997767364297344727267958166794980891814043848056 746130808693773682233422643434345373383080945292 611124051897234881241376626805792445570699410513 1334351995176327480821140372218915224928169007837 (by decide!)
  have e93 := hiStepP 3201 611124051897234881241376626805792445570699410513 1334351995176327480821140372218915224928169007837 1275664957202295248784844856775816169899279026084 312759781927929431004321509951740539681061739897 (by decide!)
  have e94 := hiStepP 3200 1275664957202295248784844856775816169899279026084 312759781927929431004321509951740539681061739897 676524680638225320325710866514212638435670247300 366998512233087782829374308514728546426188487421 (by decide!)
  have e95 := hiStepP 3199 676524680638225320325710866514212638435670247300 366998512233087782829374308514728546426188487421 1085155729946326990898779133257131068046627790896 1452154191453032878880464484408601768376236980941 (by decide!)
  have e96 := hiStepP 3198 1085155729946326990898779133257131068046627790896 1452154191453032878880464484408601768376236980941 1323766938615939203197213502071236203944330120037 145648575471894734752835133656146945286092681640 (by decide!)
  have e97 := hiStepP 3197 1323766938615939203197213502071236203944330120037 145648575471894734752835133656146945286092681640 559112233064028848456049003522941085198387166290 687496959656109489904736079578183259512431857146 (by decide!)
  have e98 := hiStepP 3196 559112233064028848456049003522941085198387166290 687496959656109489904736079578183259512431857146 160247445242639958062486884886302590005469722907 573704830506354097969150530016767933886115968225 (by decide!)
  have e99 := hiStepP 3195 160247445242639958062486884886302590005469722907 573704830506354097969150530016767933886115968225 121166038524034624066044394660940723667174328742 646645436595663233591835979640897024864962477383 (by decide!)
  have t0 := e0
  have t1 := t0.trans e1
  have t2 := t1.trans e2
  have t3 := t2.trans e3
  have t4 := t3.trans e4
  have t5 := t4.trans e5
  have t6 := t5.trans e6
  have t7 := t6.trans e7
  have t8 := t7.trans e8
  have t9 := t8.trans e9
  have t10 := t9.trans e10
  have t11 := t10.trans e11
  have t12 := t11.trans e12
  have t13 := t12.trans e13
  have t14 := t13.trans e14
  have t15 := t14.trans e15
  have t16 := t15.trans e16
  have t17 := t16.trans e17
  have t18 := t17.trans e18
  have t19 := t18.trans e19
  have t20 := t19.trans e20
  have t21 := t20.trans e21
  have t22 := t21.trans e22
  have t23 := t22.trans e23
  have t24 := t23.trans e24
  have t25 := t24.trans e25
  have t26 := t25.trans e26
  have t27 := t26.trans e27
  have t28 := t27.trans e28
  have t29 := t28.trans e29
  have t30 := t29.trans e30
  have t31 := t30.trans e31
  have t32 := t31.trans e32
  have t33 := t32.trans e33
  have t34 := t33.trans e34
  have t35 := t34.trans e35
  have t36 := t35.trans e36
  have t37 := t36.trans e37
  have t38 := t37.trans e38
  have t39 := t38.trans e39
  have t40 := t39.trans e40
  have t41 := t40.trans e41
  have t42 := t41.trans e42
  have t43 := t42.trans e43
  have t44 := t43.trans e44
  have t45 := t44.trans e45
  have t46 := t45.trans e46
  have t47 := t46.trans e47
  have t48 := t47.trans e48
  have t49 := t48.trans e49
  have t50 := t49.trans e50
  have t51 := t50.trans e51
  have t52 := t51.trans e52
  have t53 := t52.trans e53
  have t54 := t53.trans e54
  have t55 := t54.trans e55
  have t56 := t55.trans e56
  have t57 := t56.trans e57
  have t58 := t57.trans e58
  have t59 := t58.trans e59
  have t60 := t59.trans e60
  have t61 := t60.trans e61
  have t62 := t61.trans e62
  have t63 := t62.trans e63
  have t64 := t63.trans e64
  have t65 := t64.trans e65
  have t66 := t65.trans e66
  have t67 := t66.trans e67
  have t68 := t67.trans e68
  have t69 := t68.trans e69
  have t70 := t69.trans e70
  have t71 := t70.trans e71
  have t72 := t71.trans e72
  have t73 := t72.trans e73
  have t74 := t73.trans e74
  have t75 := t74.trans e75
  have t76 := t75.trans e76
  have t77 := t76.trans e77
  have t78 := t77.trans e78
  have t79 := t78.trans e79
  have t80 := t79.trans e80
  have t81 := t80.trans e81
  have t82 := t81.trans e82
  have t83 := t82.trans e83
  have t84 := t83.trans e84
  have t85 := t84.trans e85
  have t86 := t85.trans e86
  have t87 := t86.trans e87
  have t88 := t87.trans e88
  have t89 := t88.trans e89
  have t90 := t89.trans e90
  have t91 := t90.trans e91
  have t92 := t91.trans e92
  have t93 := t92.trans e93
  have t94 := t93.trans e94
  have t95 := t94.trans e95
  have t96 := t95.trans e96
  have t97 := t96.trans e97
  have t98 := t97.trans e98
  have t99 := t98.trans e99
  exact t99

theorem hiChainSeg9 : hiLoop SHA_1 (strBytes "pencil") 3195
    (unpackBytes 20 121166038524034624066044394660940723667174328742)
    (unpackBytes 20 646645436595663233591835979640897024864962477383) =
    hiLoop SHA_1 (strBytes "pencil") 3095
      (unpackBytes 20 1229741648348264357408945899845439067866364480948)
      (unpackBytes 20 1019525435300448323547744529339485363640333148701) := by
  have e0 := hiStepP 3194 121166038524034624066044394660940723667174328742 646645436595663233591835979640897024864962477383 362813588368366785009315836855467790758555644490 449795766568812577972192102734136362557228748557 (by decide!)
  have e1 := hiStepP 3193 362813588368366785009315836855467790758555644490 449795766568812577972192102734136362557228748557 503683483174674510407344297660142725568300663303 130960515796655896064798150749946149039991803146 (by decide!)
  have e2 := hiStepP 3192 503683483174674510407344297660142725568300663303 130960515796655896064798150749946149039991803146 1412666857098398411325776479160765886599763962425 1287429406298858440767824061839981818698345506611 (by decide!)
  have e3 := hiStepP 3191 1412666857098398411325776479160765886599763962425 1287429406298858440767824061839981818698345506611 127200969851573846060077711827899699321926937495 1414529934869850524451968246282034803340042112164 (by decide!)
  have e4 := hiStepP 3190 127200969851573846060077711827899699321926937495 1414529934869850524451968246282034803340042112164 1050202832180989731868775741505267770597168233947 366469368770192405770216528111607233894908735871 (by decide!)
  have e5 := hiStepP 3189 1050202832180989731868775741505267770597168233947 366469368770192405770216528111607233894908735871 1148013975221394509487110894945936621168760479184 783017159000117561179327403679961483293036178607 (by decide!)
  have e6 := hiStepP 3188 1148013975221394509487110894945936621168760479184 783017159000117561179327403679961483293036178607 1036967941242928855133987456703550545715986585633 345504401982617445803627703237895823046758544526 (by decide!)
  have e7 := hiStepP 3187 1036967941242928855133987456703550545715986585633 345504401982617445803627703237895823046758544526 1400594509574422244263202081706837879839903493829 1152148526905952840380929864486860268557830855243 (by decide!)
  have e8 := hiStepP 3186 1400594509574422244263202081706837879839903493829 1152148526905952840380929864486860268557830855243 69454258279312043576662949662753549565265992306 1130253313710485993057760882254415704358253903929 (by decide!)
  have e9 := hiStepP 3185 69454258279312043576662949662753549565265992306 1130253313710485993057760882254415704358253903929 554684317262384874587852139702017018218285993641 940972284828711953234188701849317212473523949200 (by decide!)
  have e10 := hiStepP 3184 554684317262384874587852139702017018218285993641 940972284828711953234188701849317212473523949200 689253264151349760275357257985630509156465094826 1258331349841117410086511903769302268175081307706 (by decide!)
  have e11 := hiStepP 3183 689253264151349760275357257985630509156465094826 1258331349841117410086511903769302268175081307706 49612974834674693634323460005916425926332827197 1215150748999517332768019952832710949536882669575 (by decide!)
  have e12 := hiStepP 3182 49612974834674693634323460005916425926332827197 1215150748999517332768019952832710949536882669575 1199968739532351069830380902012275878208807530638 39456632037738402526017126848921312759494264969 (by decide!)
  have e13 := hiStepP 3181 1199968739532351069830380902012275878208807530638 39456632037738402526017126848921312759494264969 657771928727574641613832995367017022327723116037 672920152302418336155919676909116298255973158540 (by decide!)
  have e14 := hiStepP 3180 657771928727574641613832995367017022327723116037 672920152302418336155919676909116298255973158540 650469979756175868388653498113203968541375213916 23881107538773098068988797921908286578551242704 (by decide!)
  have e15 := hiStepP 3179 650469979756175868388653498113203968541375213916 23881107538773098068988797921908286578551242704 424547382043705829382477715224675893257028880900 447877126655173835198586544959621167594656560596 (by decide!)
  have e16 := hiStepP 3178 424547382043705829382477715224675893257028880900 447877126655173835198586544959621167594656560596 416759931831651976502843744374460543768827359685 42542169343268314840459075675939104020130006033 (by decide!)
  have e17 := hiStepP 3177 416759931831651976502843744374460543768827359685 42542169343268314840459075675939104020130006033 309787656260994688720098299070403088038479790864 280832218838542001225714150231372036335576385281 (by decide!)
  have e18 := hiStepP 3176 309787656260994688720098299070403088038479790864 280832218838542001225714150231372036335576385281 1102186643151413957102175738987650262812071555261 1371567077903795713399085465546684346122274240444 (by decide!)
  have e19 := hiStepP 3175 1102186643151413957102175738987650262812071555261 1371567077903795713399085465546684346122274240444 135378376555999261782562079872970148420655155655 1321846220356685428692462170074435311418490551931 (by decide!)
  have e20 := hiStepP 3174 135378376555999261782562079872970148420655155655 1321846220356685428692462170074435311418490551931 738769415719296128249797289460669925660608649052 587629042445151688883464050412923531495380592935 (by decide!)
  have e21 := hiStepP 3173 738769415719296128249797289460669925660608649052 587629042445151688883464050412923531495380592935 706634022165560434282155219651361294450149860969 166466903462491803740695814311383589025394134862 (by decide!)
  have e22 := hiStepP 3172 706634022165560434282155219651361294450149860969 166466903462491803740695814311383589025394134862 323331275329539670366705391614125910616259403351 214311497795609190678258725805456630337859260697 (by decide!)
  have e23 := hiStepP 3171 323331275329539670366705391614125910616259403351 214311497795609190678258725805456630337859260697 945921215815574767274138880310863615409585283131 732057879552715544847623373992648307899856253218 (by decide!)
  have e24 := hiStepP 3170 945921215815574767274138880310863615409585283131 732057879552715544847623373992648307899856253218 349315927235948294562153934237193880775061087318 1079473363433370598377472493610879711553863406964 (by decide!)
  have e25 := hiStepP 3169 349315927235948294562153934237193880775061087318 1079473363433370598377472493610879711553863406964 1439204008112598886953485742008134708072158659075 371382822454843095987867747103093077798655940471 (by decide!)
  have e26 := hiStepP 3168 1439204008112598886953485742008134708072158659075 371382822454843095987867747103093077798655940471 210275999175082277238615714424414055152371755825 581435803054929023248840206677399862134380248134 (by decide!)
  have e27 := hiStepP 3167 210275999175082277238615714424414055152371755825 581435803054929023248840206677399862134380248134 501802065284432989176348624020861379194539681205 286830669395591203829671189874063408896639375859 (by decide!)
  have e28 := hiStepP 3166 501802065284432989176348624020861379194539681205 286830669395591203829671189874063408896639375859 800347305857354403478045327966789278378405304302 1085003635744299076584007742577904869198201654813 (by decide!)
  have e29 := hiStepP 3165 800347305857354403478045327966789278378405304302 1085003635744299076584007742577904869198201654813 578321655233762854704325735192828759935666688532 1251738901888600329458602512187892066366929869833 (by decide!)
  have e30 := hiStepP 3164 578321655233762854704325735192828759935666688532 1251738901888600329458602512187892066366929869833 748200479251324812929937787238711470334207621867 504165633860867339731411366223036916716959295202 (by decide!)
  have e31 := hiStepP 3163 748200479251324812929937787238711470334207621867 504165633860867339731411366223036916716959295202 1020146437975583584395199725270709316461221020423 1341599191634372074143910492577189280720841827813 (by decide!)
  have e32 := hiStepP 3162 1020146437975583584395199725270709316461221020423 1341599191634372074143910492577189280720841827813 1353307045480879002951667968960177284750984918404 45382153335840357683221097303181921049036181601 (by decide!)
  have e33 := hiStepP 3161 1353307045480879002951667968960177284750984918404 45382153335840357683221097303181921049036181601 597095839131087051759625934706944614945987866101 635966163856279136454973168611659274993127816596 (by decide!)
  have e34 := hiStepP 3160 597095839131087051759625934706944614945987866101 635966163856279136454973168611659274993127816596 1238592311306198209940261269221724840523195021608 1047997378782364478707913731912933531767493002428 (by decide!)
  have e35 := hiStepP 3159 1238592311306198209940261269221724840523195021608 1047997378782364478707913731912933531767493002428 183832900551449435014514108254617887131382729270 865682336422145033070715248026045865734594416266 (by decide!)
  have e36 := hiStepP 3158 183832900551449435014514108254617887131382729270 865682336422145033070715248026045865734594416266 874919055586589673793790130782966225603807613648 84970362921943494928190685317402424442088053850 (by decide!)
  have e37 := hiStepP 3157 874919055586589673793790130782966225603807613648 84970362921943494928190685317402424442088053850 688340501032493925972216647145978770035849207620 676168568779601598493913222804149208769329447710 (by decide!)
  have e38 := hiStepP 3156 688340501032493925972216647145978770035849207620 676168568779601598493913222804149208769329447710 136917195147384532628022613548127841821986549019 556892015491773166440983141629793018151915695621 (by decide!)
  have e39 := hiStepP 3155 136917195147384532628022613548127841821986549019 556892015491773166440983141629793018151915695621 1257520155780763787133286241863000841771575827855 1083610086005301628966970792287341488439934415754 (by decide!)
  have e40 := hiStepP 3154 1257520155780763787133286241863000841771575827855 1083610086005301628966970792287341488439934415754 1384111006622619747537949567784004707901951564621 455279348842813101303610001691913947337058724039 (by decide!)
  have e41 := hiStepP 3153 1384111006622619747537949567784004707901951564621 455279348842813101303610001691913947337058724039 1003171731082013934253461981679595135003027489283 1279006987266899653240204005454113962341031635652 (by decide!)
  have e42 := hiStepP 3152 1003171731082013934253461981679595135003027489283 1279006987266899653240204005454113962341031635652 90419766283539044137951616529652141909111520900 1369404452687893597933687327399495481712928805952 (by decide!)
  have e43 := hiStepP 3151 90419766283539044137951616529652141909111520900 1369404452687893597933687327399495481712928805952 1448781524182500146049075357821595719256118994880 103378275949980645376646531364060090105730691968 (by decide!)
  have e44 := hiStepP 3150 1448781524182500146049075357821595719256118994880 103378275949980645376646531364060090105730691968 132914775351520317307657848794242682501619712531 30412522372596168416616661309005781657658126739 (by decide!)
  have e45 := hiStepP 3149 132914775351520317307657848794242682501619712531 30412522372596168416616661309005781657658126739 1216424921513885683463968680820795392073782981045 1188939132397831809515198877223236610948869259302 (by decide!)
  have e46 := hiStepP 3148 1216424921513885683463968680820795392073782981045 1188939132397831809515198877223236610948869259302 270237693399147680063805134495686608747049997354 1456244187968163177934646499247851728775520539660 (by decide!)
  have e47 := hiStepP 3147 270237693399147680063805134495686608747049997354 1456244187968163177934646499247851728775520539660 806414305293960739083375202691403773794571916895 652717836025594791691705724910261552898365407827 (by decide!)
  have e48 := hiStepP 3146 806414305293960739083375202691403773794571916895 652717836025594791691705724910261552898365407827 654422093441589254119862097857175821814898956894 5478709079423484044448200525358747182182062093 (by decide!)
  have e49 := hiStepP 3145 654422093441589254119862097857175821814898956894 5478709079423484044448200525358747182182062093 35605936828866271112766846390961420344633637192 38737474147416872753311718598644373750389596485 (by decide!)
  have e50 := hiStepP 3144 35605936828866271112766846390961420344633637192 38737474147416872753311718598644373750389596485 68045570469411147082149518756276044982368550299 74981438063902811149294693978658109138112732382 (by decide!)
  have e51 := hiStepP 3143 68045570469411147082149518756276044982368550299 74981438063902811149294693978658109138112732382 1236516738051330700996740862326532496812969554881 1220053970341422465268782791487552432859676815135 (by decide!)
  have e52 := hiStepP 3142 1236516738051330700996740862326532496812969554881 1220053970341422465268782791487552432859676815135 120111851924109571301992072988483708592721046340 1100388176878098997398372054783931833685289403483 (by decide!)
  have e53 := hiStepP 3141 120111851924109571301992072988483708592721046340 1100388176878098997398372054783931833685289403483 391669402237105738171012589142819747691970694820 754390739112166181328219446558964017561815157503 (by decide!)
  have e54 := hiStepP 3140 391669402237105738171012589142819747691970694820 754390739112166181328219446558964017561815157503 946929993636506785032847497204765063047108928131 193966634248990142854482439935020895087556536444 (by decide!)
  have e55 := hiStepP 3139 946929993636506785032847497204765063047108928131 193966634248990142854482439935020895087556536444 1009252394934677203361564779209384171361095144568 828911952925264962626325584711450267975926414340 (by decide!)
  have e56 := hiStepP 3138 1009252394934677203361564779209384171361095144568 828911952925264962626325584711450267975926414340 1402270762121576614456846127120174438784757060723 574786063698050436744688828960115414803235809399 (by decide!)
  have e57 := hiStepP 3137 1402270762121576614456846127120174438784757060723 574786063698050436744688828960115414803235809399 1132986578346802260519844204623295109273369173367 929733091824391569376434117327487786599139439872 (by decide!)
  have e58 := hiStepP 3136 1132986578346802260519844204623295109273369173367 929733091824391569376434117327487786599139439872 368179607149131029264090166649175193852771021152 1293957784852020755980684493116823970321975559264 (by decide!)
  have e59 := hiStepP 3135 368179607149131029264090166649175193852771021152 1293957784852020755980684493116823970321975559264 648865373848208176925122068025074455079726719358 839560669436236129376213398361693075451825153310 (by decide!)
  have e60 := hiStepP 3134 648865373848208176925122068025074455079726719358 839560669436236129376213398361693075451825153310 297660045735871229372447982307906459236963795600 954398931042120159596571759851689882381486761870 (by decide!)
  have e61 := hiStepP 3133 297660045735871229372447982307906459236963795600 954398931042120159596571759851689882381486761870 822862475992539402288540408052783513110583971938 314325482236148934514832683158285257046763091948 (by decide!)
  have e62 := hiStepP 3132 822862475992539402288540408052783513110583971938 314325482236148934514832683158285257046763091948 11409419364665681289924427941809669615359717529 313666440369034246874787838992062624120632821621 (by decide!)
  have e63 := hiStepP 3131 11409419364665681289924427941809669615359717529 313666440369034246874787838992062624120632821621 217608918305548170285744116428407653397438706612 96620938638322663637025903392465537909193209025 (by decide!)
  have e64 := hiStepP 3130 217608918305548170285744116428407653397438706612 96620938638322663637025903392465537909193209025 748095359656603661716678776256208954767132539344 844336912885808423242887862140411641870856178961 (by decide!)
  have e65 := hiStepP 3129 748095359656603661716678776256208954767132539344 844336912885808423242887862140411641870856178961 335337303808943460574362003281412837346029311481 966791237630730049752243117328809451613600405736 (by decide!)
  have e66 := hiStepP 3128 335337303808943460574362003281412837346029311481 966791237630730049752243117328809451613600405736 68458278599862323831757304528756655196445371636 928551231180532536120384060826490342807729910812 (by decide!)
  have e67 := hiStepP 3127 68458278599862323831757304528756655196445371636 928551231180532536120384060826490342807729910812 525817317022336379911687595454416157033209359531 1454362232389317115421379089060768133818309793975 (by decide!)
  have e68 := hiStepP 3126 525817317022336379911687595454416157033209359531 1454362232389317115421379089060768133818309793975 663750718447446393604926950011625152486943366588 793466717925627082785711329277911165497965266187 (by decide!)
  have e69 := hiStepP 3125 663750718447446393604926950011625152486943366588 793466717925627082785711329277911165497965266187 614073464213574093505036718634841792656799477526 1286937556000132761105931993815977287887502404125 (by decide!)
  have e70 := hiStepP 3124 614073464213574093505036718634841792656799477526 1286937556000132761105931993815977287887502404125 313201704665404900040604920356653584065265381975 1231362618650921437083882617946590055936231266378 (by decide!)
  have e71 := hiStepP 3123 313201704665404900040604920356653584065265381975 1231362618650921437083882617946590055936231266378 48441219067303978374745990281826295860730757465 1277656410978985331885544943273230445592254830867 (by decide!)
  have e72 := hiStepP 3122 48441219067303978374745990281826295860730757465 1277656410978985331885544943273230445592254830867 1139216982687945488345780332264866728643081246145 138450852591491699620846388289115561727292394706 (by decide!)
  have e73 := hiStepP 3121 1139216982687945488345780332264866728643081246145 138450852591491699620846388289115561727292394706 193353608106805359480238704802015784417218420586 328938716194543864867142885911253329807614317496 (by decide!)
  have e74 := hiStepP 3120 193353608106805359480238704802015784417218420586 328938716194543864867142885911253329807614317496 170331262038946860275986357391441577170594249819 207217628802591538895594013677712025253420969955 (by decide!)
  have e75 := hiStepP 3119 170331262038946860275986357391441577170594249819 207217628802591538895594013677712025253420969955 976638896201234371015212337238848462206277539727 818391792866165683012185830995338211852940998764 (by decide!)
  have e76 := hiStepP 3118 976638896201234371015212337238848462206277539727 818391792866165683012185830995338211852940998764 762356802555794798878103635028304964818589898765 61744485211567089815027542301720128493920002145 (by decide!)
  have e77 := hiStepP 3117 762356802555794798878103635028304964818589898765 61744485211567089815027542301720128493920002145 1438642444825213407002787617906527837601658866666 1376898423168629929547308525031409144461211577227 (by decide!)
  have e78 := hiStepP 3116 1438642444825213407002787617906527837601658866666 1376898423168629929547308525031409144461211577227 283768771808803506448287531413619345521614957429 1099580319197029476348629579964013801856743178494 (by decide!)
  have e79 := hiStepP 3115 283768771808803506448287531413619345521614957429 1099580319197029476348629579964013801856743178494 1182648189760540645945596513944200599982572409458 89852875396581866429414783719303758351053525644 (by decide!)
  have e80 := hiStepP 3114 1182648189760540645945596513944200599982572409458 89852875396581866429414783719303758351053525644 1220954711426352998870031800274939902919164148234 1246715220237836796140914962038853290738113783942 (by decide!)
  have e81 := hiStepP 3113 1220954711426352998870031800274939902919164148234 1246715220237836796140914962038853290738113783942 614138830287719370012070547687171922711621893470 1015895539110617185965614070674209474340351137240 (by decide!)
  have e82 := hiStepP 3112 614138830287719370012070547687171922711621893470 1015895539110617185965614070674209474340351137240 276144145238976034062939925528968304065564838634 740316406099532047091819317854979757925178236722 (by decide!)
  have e83 := hiStepP 3111 276144145238976034062939925528968304065564838634 740316406099532047091819317854979757925178236722 1402232030446987224972698911030441527256391534668 663373105559583665188049246934615803594180499326 (by decide!)
  have e84 := hiStepP 3110 1402232030446987224972698911030441527256391534668 663373105559583665188049246934615803594180499326 148263906431853898555467430931159449887000738977 626802854446624294477670613797971573401963342815 (by decide!)
  have e85 := hiStepP 3109 148263906431853898555467430931159449887000738977 626802854446624294477670613797971573401963342815 665996444087015039715911048247387973632057749554 144924166674293662866702613244718464303782632429 (by decide!)
  have e86 := hiStepP 3108 665996444087015039715911048247387973632057749554 144924166674293662866702613244718464303782632429 459804476018565788374991365041708000128242961759 421947466516413989973728305380127933798607050418 (by decide!)
  have e87 := hiStepP 3107 459804476018565788374991365041708000128242961759 421947466516413989973728305380127933798607050418 1155392666533786778835465226525929259926835478378 750941184070107131790501779851172287628589525464 (by decide!)
  have e88 := hiStepP 3106 1155392666533786778835465226525929259926835478378 750941184070107131790501779851172287628589525464 368773312856684312827396940499130688865449881485 1113632314278197223371570433186305279688378467925 (by decide!)
  have e89 := hiStepP 3105 368773312856684312827396940499130688865449881485 1113632314278197223371570433186305279688378467925 1143972419597469880333838839739123486822228595278 65307673790932805901971806993847026861881971739 (by decide!)
  have e90 := hiStepP 3104 1143972419597469880333838839739123486822228595278 65307673790932805901971806993847026861881971739 143653485901428728905129355882794141685622768377 104765629092857200222092880679920398723784136418 (by decide!)
  have e91 := hiStepP 3103 143653485901428728905129355882794141685622768377 104765629092857200222092880679920398723784136418 182030923653839921248080300025126483502046268257 78394695067174152411594374516391634022371040643 (by decide!)
  have e92 := hiStepP 3102 182030923653839921248080300025126483502046268257 78394695067174152411594374516391634022371040643 576880021834697731241423394145718776893711745257 597825056624423026729332091340643602811471568234 (by decide!)
  have e93 := hiStepP 3101 576880021834697731241423394145718776893711745257 597825056624423026729332091340643602811471568234 823268341823129797000445474495750877586179097562 1418768357897437334538747147108966509644449750704 (by decide!)
  have e94 := hiStepP 3100 823268341823129797000445474495750877586179097562 1418768357897437334538747147108966509644449750704 550712392745153769631159001267037317273676151469 873231170229227337522571874660446282009419277341 (by decide!)
  have e95 := hiStepP 3099 550712392745153769631159001267037317273676151469 873231170229227337522571874660446282009419277341 443767713396778985818043716341581747940404746268 1217758824991233847202505093376451817511553514497 (by decide!)
  have e96 := hiStepP 3098 443767713396778985818043716341581747940404746268 1217758824991233847202505093376451817511553514497 414808044441500714869216745234199722945136196453 901453565629866976901366263586162049954081458020 (by decide!)
  have e97 := hiStepP 3097 414808044441500714869216745234199722945136196453 901453565629866976901366263586162049954081458020 468713800775371577024329346988610545269680008759 1187454215251009993052592361234092895833231894867 (by decide!)
  have e98 := hiStepP 3096 468713800775371577024329346988610545269680008759 1187454215251009993052592361234092895833231894867 970836997542391088759304408130384154850992948986 582018768392452968301455391067624672844773535657 (by decide!)
  have e99 := hiStepP 3095 970836997542391088759304408130384154850992948986 582018768392452968301455391067624672844773535657 1229741648348264357408945899845439067866364480948 1019525435300448323547744529339485363640333148701 (by decide!)
  have t0 := e0
  have t1 := t0.trans e1
  have t2 := t1.trans e2
  have t3 := t2.trans e3
  have t4 := t3.trans e4
  have t5 := t4.trans e5
  have t6 := t5.trans e6
  have t7 := t6.trans e7
  have t8 := t7.trans e8
  have t9 := t8.trans e9
  have t10 := t9.trans e10
  have t11 := t10.trans e11
  have t12 := t11.trans e12
  have t13 := t12.trans e13
  have t14 := t13.trans e14
  have t15 := t14.trans e15
  have t16 := t15.trans e16
  have t17 := t16.trans e17
  have t18 := t17.trans e18
  have t19 := t18.trans e19
  have t20 := t19.trans e20
  have t21 := t20.trans e21
  have t22 := t21.trans e22
  have t23 := t22.trans e23
  have t24 := t23.trans e24
  have t25 := t24.trans e25
  have t26 := t25.trans e26
  have t27 := t26.trans e27
  have t28 := t27.trans e28
  have t29 := t28.trans e29
  have t30 := t29.trans e30
  have t31 := t30.trans e31
  have t32 := t31.trans e32
  have t33 := t32.trans e33
  have t34 := t33.trans e34
  have t35 := t34.trans e35
  have t36 := t35.trans e36
  have t37 := t36.trans e37
  have t38 := t37.trans e38
  have t39 := t38.trans e39
  have t40 := t39.trans e40
  have t41 := t40.trans e41
  have t42 := t41.trans e42
  have t43 := t42.trans e43
  have t44 := t43.trans e44
  have t45 := t44.trans e45
  have t46 := t45.trans e46
  have t47 := t46.trans e47
  have t48 := t47.trans e48
  have t49 := t48.trans e49
  have t50 := t49.trans e50
  have t51 := t50.trans e51
  have t52 := t51.trans e52
  have t53 := t52.trans e53
  have t54 := t53.trans e54
  have t55 := t54.trans e55
  have t56 := t55.trans e56
  have t57 := t56.trans e57
  have t58 := t57.trans e58
  have t59 := t58.trans e59
  have t60 := t59.trans e60
  have t61 := t60.trans e61
  have t62 := t61.trans e62
  have t63 := t62.trans e63
  have t64 := t63.trans e64
  have t65 := t64.trans e65
  have t66 := t65.trans e66
  have t67 := t66.trans e67
  have t68 := t67.trans e68
  have t69 := t68.trans e69
  have t70 := t69.trans e70
  have t71 := t70.trans e71
  have t72 := t71.trans e72
  have t73 := t72.trans e73
  have t74 := t73.trans e74
  have t75 := t74.trans e75
  have t76 := t75.trans e76
  have t77 := t76.trans e77
  have t78 := t77.trans e78
  have t79 := t78.trans e79
  have t80 := t79.trans e80
  have t81 := t80.trans e81
  have t82 := t81.trans e82
  have t83 := t82.trans e83
  have t84 := t83.trans e84
  have t85 := t84.trans e85
  have t86 := t85.trans e86
  have t87 := t86.trans e87
  have t88 := t87.trans e88
  have t89 := t88.trans e89
  have t90 := t89.trans e90
  have t91 := t90.trans e91
  have t92 := t91.trans e92
  have t93 := t92.trans e93
  have t94 := t93.trans e94
  have t95 := t94.trans e95
  have t96 := t95.trans e96
  have t97 := t96.trans e97
  have t98 := t97.trans e98
  have t99 := t98.trans e99
  exact t99

theorem hiChainSeg10 : hiLoop SHA_1 (strBytes "pencil") 3095
    (unpackBytes 20 1229741648348264357408945899845439067866364480948)
    (unpackBytes 20 1019525435300448323547744529339485363640333148701) =
    hiLoop SHA_1 (strBytes "pencil") 2995
      (unpackBytes 20 373354450811665291194709837313413617220322203516)
      (unpackBytes 20 1346704070188980962249569052422572961793722413786) := by
  have e0 := hiStepP 3094 1229741648348264357408945899845439067866364480948 1019525435300448323547744529339485363640333148701 1083231244427617963098659203949359807244358157903 86546306324838297602310602619441088221393855570 (by decide!)
  have e1 := hiStepP 3093 1083231244427617963098659203949359807244358157903 86546306324838297602310602619441088221393855570 878531615852456095343639846840808351357350924313 860862297138579699560589061343508274567824897099 (by decide!)
  have e2 := hiStepP 3092 878531615852456095343639846840808351357350924313 860862297138579699560589061343508274567824897099 1395165557808258867766192714835689858307760890074 563295013964771580458227399066006890689724535953 (by decide!)
  have e3 := hiStepP 3091 1395165557808258867766192714835689858307760890074 563295013964771580458227399066006890689724535953 1182305197901434039896805906214718152898858310245 991655919500198985822946402086693270712502980340 (by decide!)
  have e4 := hiStepP 3090 1182305197901434039896805906214718152898858310245 991655919500198985822946402086693270712502980340 1321076106620581764774205485361847839509577015375 427203733534279360468257090467422016534648794811 (by decide!)
  have e5 := hiStepP 3089 1321076106620581764774205485361847839509577015375 427203733534279360468257090467422016534648794811 824397610776077639468356126250546013088114621642 1248557236411931927864592771639689226913645073009 (by decide!)
  have e6 := hiStepP 3088 824397610776077639468356126250546013088114621642 1248557236411931927864592771639689226913645073009 1057402464557618619000774566070243970434687166095 568149015087292828567831446274921511158196335870 (by decide!)
  have e7 := hiStepP 3087 1057402464557618619000774566070243970434687166095 568149015087292828567831446274921511158196335870 184689020399874365984245148127434689902686047354 387432516607822498683765431405319185889164327044 (by decide!)
  have e8 := hiStepP 3086 184689020399874365984245148127434689902686047354 387432516607822498683765431405319185889164327044 1238893270168637542613909055003569128652924572147 884112207871604010200729306072185485974245222775 (by decide!)
  have e9 := hiStepP 3085 1238893270168637542613909055003569128652924572147 884112207871604010200729306072185485974245222775 898195780966639578819954685772038532077338433047 43007993916423793628389109710810567851507924832 (by decide!)
  have e10 := hiStepP 3084 898195780966639578819954685772038532077338433047 43007993916423793628389109710810567851507924832 793202258075843740423783283537053815394140503327 807663373116451656342572687125740522024605188735 (by decide!)
  have e11 := hiStepP 3083 793202258075843740423783283537053815394140503327 807663373116451656342572687125740522024605188735 1106312051547648238460371281592891697415062468827 437816534737334005448309280697183518598690814628 (by decide!)
  have e12 := hiStepP 3082 1106312051547648238460371281592891697415062468827 437816534737334005448309280697183518598690814628 323288181475097667768467954994912271845786907826 662619344224324891254363329007191842210830568982 (by decide!)
  have e13 := hiStepP 3081 323288181475097667768467954994912271845786907826 662619344224324891254363329007191842210830568982 992493387087934796838569223744057521386115474033 1243312568630591341141867455095440848118871092327 (by decide!)
  have e14 := hiStepP 3080 992493387087934796838569223744057521386115474033 1243312568630591341141867455095440848118871092327 974332136980386968989841366642747463198878790153 658730580008570521114456296104442962216194481774 (by decide!)
  have e15 := hiStepP 3079 974332136980386968989841366642747463198878790153 658730580008570521114456296104442962216194481774 1226900603624466040294561100733846672112861590092 945074918578211731635579724213558016633428847650 (by decide!)
  have e16 := hiStepP 3078 1226900603624466040294561100733846672112861590092 945074918578211731635579724213558016633428847650 1225321908118043808025267967483123946485025268197 657514272384898903458391263495121489760025038279 (by decide!)
  have e17 := hiStepP 3077 1225321908118043808025267967483123946485025268197 657514272384898903458391263495121489760025038279 462282230299589372113583523386720211846279369504 204509512789133756820431579527576313812131077863 (by decide!)
  have e18 := hiStepP 3076 462282230299589372113583523386720211846279369504 204509512789133756820431579527576313812131077863 1434806331807615717641076639955161376898422971975 1236006866041995405509573491631935678226233671840 (by decide!)
  have e19 := hiStepP 3075 1434806331807615717641076639955161376898422971975 1236006866041995405509573491631935678226233671840 1013402422834356153584057939450778576680028095390 599510906086067307686322322492355996825008177982 (by decide!)
  have e20 := hiStepP 3074 1013402422834356153584057939450778576680028095390 599510906086067307686322322492355996825008177982 390158354552867500568026068808289079633145708992 258815649304155886579935040010011399055749726974 (by decide!)
  have e21 := hiStepP 3073 390158354552867500568026068808289079633145708992 258815649304155886579935040010011399055749726974 1135996118338451370226933039844462714092031640947 1345501705658689634841602516263074596223567120269 (by decide!)
  have e22 := hiStepP 3072 1135996118338451370226933039844462714092031640947 1345501705658689634841602516263074596223567120269 1031596910941957277938298533882346400980987010073 542979051740958484152931620024599435540660624276 (by decide!)
  have e23 := hiStepP 3071 1031596910941957277938298533882346400980987010073 542979051740958484152931620024599435540660624276 282921435844550439406142681976293402645225696992 631259451614696216367848064894465056704594998644 (by decide!)
  have e24 := hiStepP 3070 282921435844550439406142681976293402645225696992 631259451614696216367848064894465056704594998644 901758414261293294117807409300436534360349481880 1389572843973458381777675161300350863450117140204 (by decide!)
  have e25 := hiStepP 3069 901758414261293294117807409300436534360349481880 1389572843973458381777675161300350863450117140204 611686996743438721559713338667212490394352527311 869247476259649619885961822568850473881344592163 (by decide!)
  have e26 := hiStepP 3068 611686996743438721559713338667212490394352527311 869247476259649619885961822568850473881344592163 61357160097183141825428800429248292513708432630 839160147214754148073201135339874152584550028757 (by decide!)
  have e27 := hiStepP 3067 61357160097183141825428800429248292513708432630 839160147214754148073201135339874152584550028757 102589523713573357647312209286942954619715556345 748000093486852371235169394354205723929776588332 (by decide!)
  have e28 := hiStepP 3066 102589523713573357647312209286942954619715556345 748000093486852371235169394354205723929776588332 1442501261104991225299634546878386513110371470209 728933794684778663564630797990595429169156885933 (by decide!)
  have e29 := hiStepP 3065 1442501261104991225299634546878386513110371470209 728933794684778663564630797990595429169156885933 1325584325399720192274025683775673449599501153099 865620526596954366086487747239803342157705232102 (by decide!)
  have e30 := hiStepP 3064 1325584325399720192274025683775673449599501153099 865620526596954366086487747239803342157705232102 841665355022189398878565235354704961811479495594 28239733558103623685941434891236573080346312012 (by decide!)
  have e31 := hiStepP 3063 841665355022189398878565235354704961811479495594 28239733558103623685941434891236573080346312012 873130233146379453756359881758558390912104814643 890665606179905779464542608314857322147346015615 (by decide!)
  have e32 := hiStepP 3062 873130233146379453756359881758558390912104814643 890665606179905779464542608314857322147346015615 975619098653804093187643085660072311231048515200 313427763290892473425781384798984005746076720127 (by decide!)
  have e33 := hiStepP 3061 975619098653804093187643085660072311231048515200 313427763290892473425781384798984005746076720127 228408795142547002969809165165155603494810603629 176368417537656938353147636448810129346990853010 (by decide!)
  have e34 := hiStepP 3060 228408795142547002969809165165155603494810603629 176368417537656938353147636448810129346990853010 801585905879993777934363156265659023682534114657 836656428798483447786591363138256942619823853299 (by decide!)
  have e35 := hiStepP 3059 801585905879993777934363156265659023682534114657 836656428798483447786591363138256942619823853299 767555773774396992189924498160089477794408954692 119857871155052176083147375203784485552884921783 (by decide!)
  have e36 := hiStepP 3058 767555773774396992189924498160089477794408954692 119857871155052176083147375203784485552884921783 138903882255893032884371396419929582842821061192 72303784016728135862984189767388502435651395583 (by decide!)
  have e37 := hiStepP 3057 138903882255893032884371396419929582842821061192 72303784016728135862984189767388502435651395583 349089150764967690656200410626872766280519569134 282941082940594284453748895647573324734652928273 (by decide!)
  have e38 := hiStepP 3056 349089150764967690656200410626872766280519569134 282941082940594284453748895647573324734652928273 542953803370651594135051864981930087102440649300 631320826253651897921065368700935656837064385349 (by decide!)
  have e39 := hiStepP 3055 542953803370651594135051864981930087102440649300 631320826253651897921065368700935656837064385349 38810457799112335198123389837014883985756647989 595724477446676162495975589615028309003914613104 (by decide!)
  have e40 := hiStepP 3054 38810457799112335198123389837014883985756647989 595724477446676162495975589615028309003914613104 440297319946476293735245520585047103252327905693 212808412250113345122813401219207587436774009069 (by decide!)
  have e41 := hiStepP 3053 440297319946476293735245520585047103252327905693 212808412250113345122813401219207587436774009069 154653613852079055188060841721226417227994436780 355747122333887725610107744596532506439386446913 (by decide!)
  have e42 := hiStepP 3052 154653613852079055188060841721226417227994436780 355747122333887725610107744596532506439386446913 590374261415934964890665596683554465148575179694 509372413181453753823268587722475726562743869423 (by decide!)
  have e43 := hiStepP 3051 590374261415934964890665596683554465148575179694 509372413181453753823268587722475726562743869423 1393257286591109596394229614173878468227407799277 988789763021685340960053525316755772890154482690 (by decide!)
  have e44 := hiStepP 3050 1393257286591109596394229614173878468227407799277 988789763021685340960053525316755772890154482690 172090629011837077131953805797716034889735580472 1022401556510533077740665633965783076414737258298 (by decide!)
  have e45 := hiStepP 3049 172090629011837077131953805797716034889735580472 1022401556510533077740665633965783076414737258298 159473542145918948071259070339271284637806109196 964665446630994468549354706583305023184214603062 (by decide!)
  have e46 := hiStepP 3048 159473542145918948071259070339271284637806109196 964665446630994468549354706583305023184214603062 374432328496812269056116045776424720725191625246 1332675146026521687435939539918545570507539988264 (by decide!)
  have e47 := hiStepP 3047 374432328496812269056116045776424720725191625246 1332675146026521687435939539918545570507539988264 84375721008304265859347137243774586614851756 1332624323426449070166448515118315818813407860612 (by decide!)
  have e48 := hiStepP 3046 84375721008304265859347137243774586614851756 1332624323426449070166448515118315818813407860612 392128711323506241535743952899839377076793253016 992011727308185788666627981224846018053592156956 (by decide!)
  have e49 := hiStepP 3045 392128711323506241535743952899839377076793253016 992011727308185788666627981224846018053592156956 361307765303749945167902359681231668642874800026 836607020131602134473259153347973782361485065350 (by decide!)
  have e50 := hiStepP 3044 361307765303749945167902359681231668642874800026 836607020131602134473259153347973782361485065350 914768104585896590141031660476984834691874213044 289405068286267609950056923075974808960490500146 (by decide!)
  have e51 := hiStepP 3043 914768104585896590141031660476984834691874213044 289405068286267609950056923075974808960490500146 1307317954614108625020847186154669101049262474756 1223496008245058474167295317236289272276418491958 (by decide!)
  have e52 := hiStepP 3042 1307317954614108625020847186154669101049262474756 1223496008245058474167295317236289272276418491958 512072018469815486080677369668482079541938005373 822037449984431781111333765163480923502892569419 (by decide!)
  have e53 := hiStepP 3041 512072018469815486080677369668482079541938005373 822037449984431781111333765163480923502892569419 378483907344593754239762129634125558996491621529 1174415874140497820132380895711322738308025190354 (by decide!)
  have e54 := hiStepP 3040 378483907344593754239762129634125558996491621529 1174415874140497820132380895711322738308025190354 144984637518055761709109722057435408155259428611 1215033021489240774316279164150660801782271400145 (by decide!)
  have e55 := hiStepP 3039 144984637518055761709109722057435408155259428611 1215033021489240774316279164150660801782271400145 1005200310967449055190614675558775218547895987792 575209623522930256835831925666475454563292362369 (by decide!)
  have e56 := hiStepP 3038 1005200310967449055190614675558775218547895987792 575209623522930256835831925666475454563292362369 1045131969228899268135041159445752794193530419411 1209238066954030061664326426753091658359845047890 (by decide!)
  have e57 := hiStepP 3037 1045131969228899268135041159445752794193530419411 1209238066954030061664326426753091658359845047890 8961646780995444697437759606153053217359982015 1200354908793392081844138607190461653506707596269 (by decide!)
  have e58 := hiStepP 3036 8961646780995444697437759606153053217359982015 1200354908793392081844138607190461653506707596269 347461243791549616817111961889115369586260487739 1362251290407427462435346489509193658373419175382 (by decide!)
  have e59 := hiStepP 3035 347461243791549616817111961889115369586260487739 1362251290407427462435346489509193658373419175382 1207838409796470507346909290071735295511382959128 348519971504580825829534999611647824112944261582 (by decide!)
  have e60 := hiStepP 3034 1207838409796470507346909290071735295511382959128 348519971504580825829534999611647824112944261582 758763424767360756083949496463806283927821889333 1061249072102799298319846813704334943977468823291 (by decide!)
  have e61 := hiStepP 3033 758763424767360756083949496463806283927821889333 1061249072102799298319846813704334943977468823291 396722969434037242363933799053449584416679974173 1442091774986757176968848175898092774407796249574 (by decide!)
  have e62 := hiStepP 3032 396722969434037242363933799053449584416679974173 1442091774986757176968848175898092774407796249574 199363942470459451435606250006362152665586639381 1269947330968990872613084589368348473990251147763 (by decide!)
  have e63 := hiStepP 3031 199363942470459451435606250006362152665586639381 1269947330968990872613084589368348473990251147763 337687374530245554263517054469580817500169683370 1309232548521247202354056234949959513793282453593 (by decide!)
  have e64 := hiStepP 3030 337687374530245554263517054469580817500169683370 1309232548521247202354056234949959513793282453593 1363556409288467397778689672359660131224785720628 65742551207719363812625561974383357831577281901 (by decide!)
  have e65 := hiStepP 3029 1363556409288467397778689672359660131224785720628 65742551207719363812625561974383357831577281901 1177279920777831084274970338100085580083979342831 1128706379940985401972318496744363299535725852290 (by decide!)
  have e66 := hiStepP 3028 1177279920777831084274970338100085580083979342831 1128706379940985401972318496744363299535725852290 1359340988212261234964516763082766244296829078911 249367329689343165922899426116313975864735988733 (by decide!)
  have e67 := hiStepP 3027 1359340988212261234964516763082766244296829078911 249367329689343165922899426116313975864735988733 818013269973560634288372800654262133299045271770 941425903499175532407781177666542905063138882343 (by decide!)
  have e68 := hiStepP 3026 818013269973560634288372800654262133299045271770 941425903499175532407781177666542905063138882343 1055237348840923868335426091442313002373719511234 160933845606766841830291906408647189996161246181 (by decide!)
  have e69 := hiStepP 3025 1055237348840923868335426091442313002373719511234 160933845606766841830291906408647189996161246181 456414228206752894792450017778678077066856792159 478191357646172760545329070674814203467560526778 (by decide!)
  have e70 := hiStepP 3024 456414228206752894792450017778678077066856792159 478191357646172760545329070674814203467560526778 1210022289443593291200623815802441600216381702264 731856205802522251695406836410070540191695430594 (by decide!)
  have e71 := hiStepP 3023 1210022289443593291200623815802441600216381702264 731856205802522251695406836410070540191695430594 1280072356817259108867119467660307960279643085111 548286053695923420573259730790886485581551024885 (by decide!)
  have e72 := hiStepP 3022 1280072356817259108867119467660307960279643085111 548286053695923420573259730790886485581551024885 574820140251270169962367092385840597194686258111 26541774810079562441869832399576670945872994634 (by decide!)
  have e73 := hiStepP 3021 574820140251270169962367092385840597194686258111 26541774810079562441869832399576670945872994634 264903737436828674321378162966708309024346695094 244073066381008272796274357848831018041687082236 (by decide!)
  have e74 := hiStepP 3020 264903737436828674321378162966708309024346695094 244073066381008272796274357848831018041687082236 827026030423893728064240736477387522152925237851 1062535414110047037760338077112041417474553091751 (by decide!)
  have e75 := hiStepP 3019 827026030423893728064240736477387522152925237851 1062535414110047037760338077112041417474553091751 115214799424807164185836725696387963335868995788 994520316550684885953360462434874514974284435051 (by decide!)
  have e76 := hiStepP 3018 115214799424807164185836725696387963335868995788 994520316550684885953360462434874514974284435051 503392828101376362713300945419800356109326424256 1405108547099692778402681277420812882155562653355 (by decide!)
  have e77 := hiStepP 3017 503392828101376362713300945419800356109326424256 1405108547099692778402681277420812882155562653355 1415364338730003816884314379450820085209403403696 11153060766479495213977468402458183428134304539 (by decide!)
  have e78 := hiStepP 3016 1415364338730003816884314379450820085209403403696 11153060766479495213977468402458183428134304539 221135961936539133053751312695949498128511109355 224257209369630908996954295383963905795274044400 (by decide!)
  have e79 := hiStepP 3015 221135961936539133053751312695949498128511109355 224257209369630908996954295383963905795274044400 195634340677559114035666594497289035279587720403 28824286682217565331737958143561330042926419747 (by decide!)
  have e80 := hiStepP 3014 195634340677559114035666594497289035279587720403 28824286682217565331737958143561330042926419747 726093903061988100168448876005320601707195001293 697292355677992501289354505802595815017734448878 (by decide!)
  have e81 := hiStepP 3013 726093903061988100168448876005320601707195001293 697292355677992501289354505802595815017734448878 144571659927867497736176490861081030910706794991 567720779110190581370724698296444909601406248705 (by decide!)
  have e82 := hiStepP 3012 144571659927867497736176490861081030910706794991 567720779110190581370724698296444909601406248705 478439095207486996447504395704336127574199716083 278236084449941147421565625171668299884082606066 (by decide!)
  have e83 := hiStepP 3011 478439095207486996447504395704336127574199716083 278236084449941147421565625171668299884082606066 637622170713020934332862619676654699074288311369 542788821274515302984114702704353163997986616251 (by decide!)
  have e84 := hiStepP 3010 637622170713020934332862619676654699074288311369 542788821274515302984114702704353163997986616251 781233064590557611159096313428812758095772992590 1231821892624582556359558811411190205809680037877 (by decide!)
  have e85 := hiStepP 3009 781233064590557611159096313428812758095772992590 1231821892624582556359558811411190205809680037877 362369888558369739126036659563805569723520202995 1328722261914122421958302875989277998679294906118 (by decide!)
  have e86 := hiStepP 3008 362369888558369739126036659563805569723520202995 1328722261914122421958302875989277998679294906118 151949085709400459046340348166212828826994430547 1382296920178182795119233256366814302392804564309 (by decide!)
  have e87 := hiStepP 3007 151949085709400459046340348166212828826994430547 1382296920178182795119233256366814302392804564309 315920155531951629124992195361561454120209797558 1127304060619410534458131789079751529087897242851 (by decide!)
  have e88 := hiStepP 3006 315920155531951629124992195361561454120209797558 1127304060619410534458131789079751529087897242851 1328091541178266341926933145922143887609923152949 261713249345016473649804211861690369991508861142 (by decide!)
  have e89 := hiStepP 3005 1328091541178266341926933145922143887609923152949 261713249345016473649804211861690369991508861142 883259875282983151172654502000694596980688311120 1046911172633609257990782119821746728400055300998 (by decide!)
  have e90 := hiStepP 3004 883259875282983151172654502000694596980688311120 1046911172633609257990782119821746728400055300998 112753317846487353111434233800052117795052101754 939866845813158834782807950436369491539152294908 (by decide!)
  have e91 := hiStepP 3003 112753317846487353111434233800052117795052101754 939866845813158834782807950436369491539152294908 89563963510701356047796166557429365922128425290 976621555577468264493573118563627382924737520310 (by decide!)
  have e92 := hiStepP 3002 89563963510701356047796166557429365922128425290 976621555577468264493573118563627382924737520310 762228720833833049636799883601867486491358143681 265885968813105854282920076647356881843162056311 (by decide!)
  have e93 := hiStepP 3001 762228720833833049636799883601867486491358143681 265885968813105854282920076647356881843162056311 1007785973396933537988944639546951912023547781518 902468181771058110938491648093608634191067949049 (by decide!)
  have e94 := hiStepP 3000 1007785973396933537988944639546951912023547781518 902468181771058110938491648093608634191067949049 237312213945111948018984437420627136037640994271 1047719692864626826987922397930815291011870808614 (by decide!)
  have e95 := hiStepP 2999 237312213945111948018984437420627136037640994271 1047719692864626826987922397930815291011870808614 1017657481308083234108984905470608991792602547538 32920673515280138697151080283926669275632557940 (by decide!)
  have e96 := hiStepP 2998 1017657481308083234108984905470608991792602547538 32920673515280138697151080283926669275632557940 1157175846949473496844059229391164736970617797672 1184386440550709074094000319780135976624280363868 (by decide!)
  have e97 := hiStepP 2997 1157175846949473496844059229391164736970617797672 1184386440550709074094000319780135976624280363868 526255029608295868783141611710808293065532818642 841266254020492364533879051804462523007807137678 (by decide!)
  have e98 := hiStepP 2996 526255029608295868783141611710808293065532818642 841266254020492364533879051804462523007807137678 330277571066250779850546394931925572708336517672 973416936162019002872316930226920988119835076006 (by decide!)
  have e99 := hiStepP 2995 330277571066250779850546394931925572708336517672 973416936162019002872316930226920988119835076006 373354450811665291194709837313413617220322203516 1346704070188980962249569052422572961793722413786 (by decide!)
  have t0 := e0
  have t1 := t0.trans e1
  have t2 := t1.trans e2
  have t3 := t2.trans e3
  have t4 := t3.trans e4
  have t5 := t4.trans e5
  have t6 := t5.trans e6
  have t7 := t6.trans e7
  have t8 := t7.trans e8
  have t9 := t8.trans e9
  have t10 := t9.trans e10
  have t11 := t10.trans e11
  have t12 := t11.trans e12
  have t13 := t12.trans e13
  have t14 := t13.trans e14
  have t15 := t14.trans e15
  have t16 := t15.trans e16
  have t17 := t16.trans e17
  have t18 := t17.trans e18
  have t19 := t18.trans e19
  have t20 := t19.trans e20
  have t21 := t20.trans e21
  have t22 := t21.trans e22
  have t23 := t22.trans e23
  have t24 := t23.trans e24
  have t25 := t24.trans e25
  have t26 := t25.trans e26
  have t27 := t26.trans e27
  have t28 := t27.trans e28
  have t29 := t28.trans e29
  have t30 := t29.trans e30
  have t31 := t30.trans e31
  have t32 := t31.trans e32
  have t33 := t32.trans e33
  have t34 := t33.trans e34
  have t35 := t34.trans e35
  have t36 := t35.trans e36
  have t37 := t36.trans e37
  have t38 := t37.trans e38
  have t39 := t38.trans e39
  have t40 := t39.trans e40
  have t41 := t40.trans e41
  have t42 := t41.trans e42
  have t43 := t42.trans e43
  have t44 := t43.trans e44
  have t45 := t44.trans e45
  have t46 := t45.trans e46
  have t47 := t46.trans e47
  have t48 := t47.trans e48
  have t49 := t48.trans e49
  have t50 := t49.trans e50
  have t51 := t50.trans e51
  have t52 := t51.trans e52
  have t53 := t52.trans e53
  have t54 := t53.trans e54
  have t55 := t54.trans e55
  have t56 := t55.trans e56
  have t57 := t56.trans e57
  have t58 := t57.trans e58
  have t59 := t58.trans e59
  have t60 := t59.trans e60
  have t61 := t60.trans e61
  have t62 := t61.trans e62
  have t63 := t62.trans e63
  have t64 := t63.trans e64
  have t65 := t64.trans e65
  have t66 := t65.trans e66
  have t67 := t66.trans e67
  have t68 := t67.trans e68
  have t69 := t68.trans e69
  have t70 := t69.trans e70
  have t71 := t70.trans e71
  have t72 := t71.trans e72
  have t73 := t72.trans e73
  have t74 := t73.trans e74
  have t75 := t74.trans e75
  have t76 := t75.trans e76
  have t77 := t76.trans e77
  have t78 := t77.trans e78
  have t79 := t78.trans e79
  have t80 := t79.trans e80
  have t81 := t80.trans e81
  have t82 := t81.trans e82
  have t83 := t82.trans e83
  have t84 := t83.trans e84
  have t85 := t84.trans e85
  have t86 := t85.trans e86
  have t87 := t86.trans e87
  have t88 := t87.trans e88
  have t89 := t88.trans e89
  have t90 := t89.trans e90
  have t91 := t90.trans e91
  have t92 := t91.trans e92
  have t93 := t92.trans e93
  have t94 := t93.trans e94
  have t95 := t94.trans e95
  have t96 := t95.trans e96
  have t97 := t96.trans e97
  have t98 := t97.trans e98
  have t99 := t98.trans e99
  exact t99

theorem hiChainSeg11 : hiLoop SHA_1 (strBytes "pencil") 2995
    (unpackBytes 20 373354450811665291194709837313413617220322203516)
    (unpackBytes 20 1346704070188980962249569052422572961793722413786) =
    hiLoop SHA_1 (strBytes "pencil") 2895
      (unpackBytes 20 1310566222559036290231611898730878985548423250990)
      (unpackBytes 20 525952649404977991534194361756035897466708760855) := by
  have e0 := hiStepP 2994 373354450811665291194709837313413617220322203516 1346704070188980962249569052422572961793722413786 1362715235522102269276539221734549153623700368004 30464143003019250329918775980768349048567928926 (by decide!)
  have e1 := hiStepP 2993 1362715235522102269276539221734549153623700368004 30464143003019250329918775980768349048567928926 772899869286220325293564916797411203983361602873 743329171669784179915341236403939706743457901927 (by decide!)
  have e2 := hiStepP 2992 772899869286220325293564916797411203983361602873 743329171669784179915341236403939706743457901927 457294143747533257509765211877412065309948361838 1199909647948344502074812556298200261317200924937 (by decide!)
  have e3 := hiStepP 2991 457294143747533257509765211877412065309948361838 1199909647948344502074812556298200261317200924937 724674844290784425619060927393680659576696515203 986278683416655986580945581248056055145933437834 (by decide!)
  have e4 := hiStepP 2990 724674844290784425619060927393680659576696515203 986278683416655986580945581248056055145933437834 1177755292251753972276362954436987154974070307817 562650214642579617029936182049456074758452510819 (by decide!)
  have e5 := hiStepP 2989 1177755292251753972276362954436987154974070307817 562650214642579617029936182049456074758452510819 501680362961152987220843729514261220395839718124 305034783304095222868770277560780279802914177679 (by decide!)
  have e6 := hiStepP 2988 501680362961152987220843729514261220395839718124 305034783304095222868770277560780279802914177679 1332118401590238292880739828101348949041480609 304483261767517570077705853813726816761802031406 (by decide!)
  have e7 := hiStepP 2987 1332118401590238292880739828101348949041480609 304483261767517570077705853813726816761802031406 298345242419434649348557205173672057781779142410 6238897172391881917213335032380751501871093284 (by decide!)
  have e8 := hiStepP 2986 298345242419434649348557205173672057781779142410 6238897172391881917213335032380751501871093284 1412285505788094751805260097500843003075932954838 1407061468416671666567861273536044122695903917810 (by decide!)
  have e9 := hiStepP 2985 1412285505788094751805260097500843003075932954838 1407061468416671666567861273536044122695903917810 1236662646352572512833398328738096097196127614824 267855597018165185620737244102341276739485974938 (by decide!)
  have e10 := hiStepP 2984 1236662646352572512833398328738096097196127614824 267855597018165185620737244102341276739485974938 1394010394480795353226050753211307388669630111630 1248988946771001857781218073903308189288463998484 (by decide!)
  have e11 := hiStepP 2983 1394010394480795353226050753211307388669630111630 1248988946771001857781218073903308189288463998484 979312013843486474364499745679086038145307893439 646883935662663639150788179798374673409116717227 (by decide!)
  have e12 := hiStepP 2982 979312013843486474364499745679086038145307893439 646883935662663639150788179798374673409116717227 904088662154316523214841401076521050723348350589 1364894438061941911381649163578464086734419543766 (by decide!)
  have e13 := hiStepP 2981 904088662154316523214841401076521050723348350589 1364894438061941911381649163578464086734419543766 1179737134170628232441097088526255777234505223136 192472645321342997869958478688671621700806020406 (by decide!)
  have e14 := hiStepP 2980 1179737134170628232441097088526255777234505223136 192472645321342997869958478688671621700806020406 1079366994640663750431756828111652312541709610329 894320595472592337945429914696960410814846771311 (by decide!)
  have e15 := hiStepP 2979 1079366994640663750431756828111652312541709610329 894320595472592337945429914696960410814846771311 804000339020239972994695097372893199758820467880 93889595555279847674525385370651037702673646791 (by decide!)
  have e16 := hiStepP 2978 804000339020239972994695097372893199758820467880 93889595555279847674525385370651037702673646791 1126496023906784034041601163479512615988849475489 1216816780998987194491347822626204176294356007782 (by decide!)
  have e17 := hiStepP 2977 1126496023906784034041601163479512615988849475489 1216816780998987194491347822626204176294356007782 1367477684828029864630351038196359136846461367704 334781786629203561024468025071834896044338466558 (by decide!)
  have e18 := hiStepP 2976 1367477684828029864630351038196359136846461367704 334781786629203561024468025071834896044338466558 1419783879560717542376060854653874584310618730290 1108022091161587793533374039459681614225910489548 (by decide!)
  have e19 := hiStepP 2975 1419783879560717542376060854653874584310618730290 1108022091161587793533374039459681614225910489548 971386701940532257897776798530878495329799802380 594873921905795009284221047369445219779921964992 (by decide!)
  have e20 := hiStepP 2974 971386701940532257897776798530878495329799802380 594873921905795009284221047369445219779921964992 393587049162722949636291794661263786978838680472 255524379924791188743718044747162435969083014232 (by decide!)
  have e21 := hiStepP 2973 393587049162722949636291794661263786978838680472 255524379924791188743718044747162435969083014232 497920139199376475724836993900035185465118803756 707683389484287301340012399953700371666479463284 (by decide!)
  have e22 := hiStepP 2972 497920139199376475724836993900035185465118803756 707683389484287301340012399953700371666479463284 78271030711505252532312855715993882731384348023 675095625912654544897824611060362808969184323075 (by decide!)
  have e23 := hiStepP 2971 78271030711505252532312855715993882731384348023 675095625912654544897824611060362808969184323075 830009006246354825321192698254376628401067704043 1319550568332380961101211513851445700380511443176 (by decide!)
  have e24 := hiStepP 2970 830009006246354825321192698254376628401067704043 1319550568332380961101211513851445700380511443176 650375707044291556093476143613079429762084466631 860840414799615681044876483135173134519399577391 (by decide!)
  have e25 := hiStepP 2969 650375707044291556093476143613079429762084466631 860840414799615681044876483135173134519399577391 200777876315914588369690807708705223747608874865 1038375284731964632837345813652416904220541909086 (by decide!)
  have e26 := hiStepP 2968 200777876315914588369690807708705223747608874865 1038375284731964632837345813652416904220541909086 1403845775797165390085240958998439676564930983933 365481731290396254551707480701865411304879853475 (by decide!)
  have e27 := hiStepP 2967 1403845775797165390085240958998439676564930983933 365481731290396254551707480701865411304879853475 494428680258385100024885277360524957260012381034 129126051925669265570451545058603076097356623049 (by decide!)
  have e28 := hiStepP 2966 494428680258385100024885277360524957260012381034 129126051925669265570451545058603076097356623049 224824644597060153118535657765299387194952214685 285433703303812091102699305935253242032162931796 (by decide!)
  have e29 := hiStepP 2965 224824644597060153118535657765299387194952214685 285433703303812091102699305935253242032162931796 496793266873702309166760627470371962330085038471 587929985210460710576893408312995294234984750547 (by decide!)
  have e30 := hiStepP 2964 496793266873702309166760627470371962330085038471 587929985210460710576893408312995294234984750547 1271940526961441282806461920560548961851902405661 1051535196748640838504251653700022092733878415822 (by decide!)
  have e31 := hiStepP 2963 1271940526961441282806461920560548961851902405661 1051535196748640838504251653700022092733878415822 617040260020546323483856519096122184244223864292 1211141177024230326722596652881883683208923208746 (by decide!)
  have e32 := hiStepP 2962 617040260020546323483856519096122184244223864292 1211141177024230326722596652881883683208923208746 582188606038681234533383742726736602374947524061 1015471375351898915606531071750697097817056383479 (by decide!)
  have e33 := hiStepP 2961 582188606038681234533383742726736602374947524061 1015471375351898915606531071750697097817056383479 200786378797478665104566329906600437477810881487 838973298478841029820023557651045118619558564408 (by decide!)
  have e34 := hiStepP 2960 200786378797478665104566329906600437477810881487 838973298478841029820023557651045118619558564408 1370281653935558499863252876278079187640948469414 564862617009798535824452571936412115310353251486 (by decide!)
  have e35 := hiStepP 2959 1370281653935558499863252876278079187640948469414 564862617009798535824452571936412115310353251486 593808290507908546333627809044064131448467875780 62488781929274748349798671608307109372168837978 (by decide!)
  have e36 := hiStepP 2958 593808290507908546333627809044064131448467875780 62488781929274748349798671608307109372168837978 1143249377888526823342770291726793825785384508738 1111537018315893764910838691344782680556330190360 (by decide!)
  have e37 := hiStepP 2957 1143249377888526823342770291726793825785384508738 1111537018315893764910838691344782680556330190360 588905654264452012880775729734106860292751806340 945294651932391187200281561016551510251080403356 (by decide!)
  have e38 := hiStepP 2956 588905654264452012880775729734106860292751806340 945294651932391187200281561016551510251080403356 750475340030218602578200642310703657027695817397 221937019813234915155871877463839792321018100521 (by decide!)
  have e39 := hiStepP 2955 750475340030218602578200642310703657027695817397 221937019813234915155871877463839792321018100521 1316802229017568677315060862797943218517084994438 1097719711779208258275489575990361803432489222319 (by decide!)
  have e40 := hiStepP 2954 1316802229017568677315060862797943218517084994438 1097719711779208258275489575990361803432489222319 40170830601954519214901367944952138203421404284 1137832002199590455860073871688127964201827396819 (by decide!)
  have e41 := hiStepP 2953 40170830601954519214901367944952138203421404284 1137832002199590455860073871688127964201827396819 380600291598884301206175825154173182163884357434 764393223239957098084642863219760278845405125609 (by decide!)
  have e42 := hiStepP 2952 380600291598884301206175825154173182163884357434 764393223239957098084642863219760278845405125609 253244201615363337111089619829175832408129084367 969085765028030428731550187677922892433344217126 (by decide!)
  have e43 := hiStepP 2951 253244201615363337111089619829175832408129084367 969085765028030428731550187677922892433344217126 929600920972967712658730850227778884996248267817 65206004367839762679285601657357848156376312847 (by decide!)
  have e44 := hiStepP 2950 929600920972967712658730850227778884996248267817 65206004367839762679285601657357848156376312847 182830362898720925192392642082949123094425273360 247930416744072496736498502794888745197420947487 (by decide!)
  have e45 := hiStepP 2949 182830362898720925192392642082949123094425273360 247930416744072496736498502794888745197420947487 929367878854963935431466949976121152343877804959 785874913143486903002853210692813559870226615168 (by decide!)
  have e46 := hiStepP 2948 929367878854963935431466949976121152343877804959 785874913143486903002853210692813559870226615168 613339428044523277420370175611429389591098922499 1294710075114857768913616297433618537452869344643 (by decide!)
  have e47 := hiStepP 2947 613339428044523277420370175611429389591098922499 1294710075114857768913616297433618537452869344643 630655714408346296197132512046878736619868792613 803526015578256212453942030906358997686240246438 (by decide!)
  have e48 := hiStepP 2946 630655714408346296197132512046878736619868792613 803526015578256212453942030906358997686240246438 626925565387103643397153474286090030299739955043 1286999242991943176271591322690724663880890246597 (by decide!)
  have e49 := hiStepP 2945 626925565387103643397153474286090030299739955043 1286999242991943176271591322690724663880890246597 1018056128363345548383341072616677777126390285325 475189675686445709712823231457489848888369881544 (by decide!)
  have e50 := hiStepP 2944 1018056128363345548383341072616677777126390285325 475189675686445709712823231457489848888369881544 1019700202859941640781838184149345819063123767138 1288108962496054099376061888527817204586525806250 (by decide!)
  have e51 := hiStepP 2943 1019700202859941640781838184149345819063123767138 1288108962496054099376061888527817204586525806250 1084185133260391849516998733168891804228537945434 526839011957813914867147253223601868616337638384 (by decide!)
  have e52 := hiStepP 2942 1084185133260391849516998733168891804228537945434 526839011957813914867147253223601868616337638384 976746013776238756583792618795182273701198232703 1412228933220609903219569455161256546539908775823 (by decide!)
  have e53 := hiStepP 2941 976746013776238756583792618795182273701198232703 1412228933220609903219569455161256546539908775823 1389509148676220177219621487792219378779177393918 24201173937126825147047539824593678281845416305 (by decide!)
  have e54 := hiStepP 2940 1389509148676220177219621487792219378779177393918 24201173937126825147047539824593678281845416305 1041256061234247284438143164514971848417322169595 1018313241973065710775188093567275348890435048842 (by decide!)
  have e55 := hiStepP 2939 1041256061234247284438143164514971848417322169595 1018313241973065710775188093567275348890435048842 1301495620552457757209874250585586187641519932977 466167436961414025876623233950554391579528844219 (by decide!)
  have e56 := hiStepP 2938 1301495620552457757209874250585586187641519932977 466167436961414025876623233950554391579528844219 419992004999266810382080139188223787761035131702 138236438933619545847825289895558319411701278861 (by decide!)
  have e57 := hiStepP 2937 419992004999266810382080139188223787761035131702 138236438933619545847825289895558319411701278861 371391744977364221202970674848968341497953919458 509426058885348612798005421388585178650564151663 (by decide!)
  have e58 := hiStepP 2936 371391744977364221202970674848968341497953919458 509426058885348612798005421388585178650564151663 764243230536307788293936116858316722408533364947 1261122326986273816190525844189956217029284682172 (by decide!)
  have e59 := hiStepP 2935 764243230536307788293936116858316722408533364947 1261122326986273816190525844189956217029284682172 1416511314251109048979063144715736827594668685369 211059672866670338727432205561801029666226561413 (by decide!)
  have e60 := hiStepP 2934 1416511314251109048979063144715736827594668685369 211059672866670338727432205561801029666226561413 1410090123524608376290691493549466515540994743125 1199035715571186662039204710391372693596249209552 (by decide!)
  have e61 := hiStepP 2933 1410090123524608376290691493549466515540994743125 1199035715571186662039204710391372693596249209552 1225356290786489907806848650314250450114402178260 26504318209071714256468305333162110136767409668 (by decide!)
  have e62 := hiStepP 2932 1225356290786489907806848650314250450114402178260 26504318209071714256468305333162110136767409668 1146112664954713724050177373421064932199671458496 1166887059241580303192109370241209218275235071172 (by decide!)
  have e63 := hiStepP 2931 1146112664954713724050177373421064932199671458496 1166887059241580303192109370241209218275235071172 1234408584598007562752773231566689099362614656122 116271652255706755442678212924623392202871814334 (by decide!)
  have e64 := hiStepP 2930 1234408584598007562752773231566689099362614656122 116271652255706755442678212924623392202871814334 248256440702507423369620565242475209313844638082 360424052816569852727680619422381191199309334844 (by decide!)
  have e65 := hiStepP 2929 248256440702507423369620565242475209313844638082 360424052816569852727680619422381191199309334844 1427959279061516871601467004675829001401649333554 1126055367041475244998376468901138009079784311822 (by decide!)
  have e66 := hiStepP 2928 1427959279061516871601467004675829001401649333554 1126055367041475244998376468901138009079784311822 629066181257378286294111006283551976778826591516 976557663346508305504355022759182262390287999250 (by decide!)
  have e67 := hiStepP 2927 629066181257378286294111006283551976778826591516 976557663346508305504355022759182262390287999250 283563227678240816350815689159254166251833518467 882868908404132400606345436511029254634011773073 (by decide!)
  have e68 := hiStepP 2926 283563227678240816350815689159254166251833518467 882868908404132400606345436511029254634011773073 985148514232478033789321166647642579380488969219 309236099767317102288496572421814143201974375570 (by decide!)
  have e69 := hiStepP 2925 985148514232478033789321166647642579380488969219 309236099767317102288496572421814143201974375570 1324436369686160524291361040460748535811524987128 1197982763993768452183000249047375916363550055530 (by decide!)
  have e70 := hiStepP 2924 1324436369686160524291361040460748535811524987128 1197982763993768452183000249047375916363550055530 181918645873980904900319860312164660001547528338 1176294974628936169500399020137803579595473089784 (by decide!)
  have e71 := hiStepP 2923 181918645873980904900319860312164660001547528338 1176294974628936169500399020137803579595473089784 1241631390627571476977685732200076176250630025005 133944660133197918187394780273637595704015674325 (by decide!)
  have e72 := hiStepP 2922 1241631390627571476977685732200076176250630025005 133944660133197918187394780273637595704015674325 618977538303570300981064135135667616920487987716 702866600825779392021565801529201642453077676497 (by decide!)
  have e73 := hiStepP 2921 618977538303570300981064135135667616920487987716 702866600825779392021565801529201642453077676497 645594907151545669794074748518542917808292184192 57287386859797711807554024823548920164386607441 (by decide!)
  have e74 := hiStepP 2920 645594907151545669794074748518542917808292184192 57287386859797711807554024823548920164386607441 1065529023858872783779784230014845360317925195523 1008598906942483677480416048427937859618028416594 (by decide!)
  have e75 := hiStepP 2919 1065529023858872783779784230014845360317925195523 1008598906942483677480416048427937859618028416594 820111624010967234852640134780703951581138309477 359938219038639198092524355503148820166731808567 (by decide!)
  have e76 := hiStepP 2918 820111624010967234852640134780703951581138309477 359938219038639198092524355503148820166731808567 729551846974535752791808937262640771942522351414 369792037341937270990073460412512745804770725889 (by decide!)
  have e77 := hiStepP 2917 729551846974535752791808937262640771942522351414 369792037341937270990073460412512745804770725889 516955412003006671621850211277252001281441458011 150108537029819109235592019416412614116984272730 (by decide!)
  have e78 := hiStepP 2916 516955412003006671621850211277252001281441458011 150108537029819109235592019416412614116984272730 207946690823364349929646977964805296134498991480 354843844278018931457228172916151178976455690786 (by decide!)
  have e79 := hiStepP 2915 207946690823364349929646977964805296134498991480 354843844278018931457228172916151178976455690786 407334834126648232101283092974421250531312947136 693602752405772026520607185067393322751367595490 (by decide!)
  have e80 := hiStepP 2914 407334834126648232101283092974421250531312947136 693602752405772026520607185067393322751367595490 1239980334636924392678928998057067773657110926072 915147074576053091009103151109967712883844945690 (by decide!)
  have e81 := hiStepP 2913 1239980334636924392678928998057067773657110926072 915147074576053091009103151109967712883844945690 553489331539466118690983724313220091433397545213 1100403515077987775645899069144552233948566126567 (by decide!)
  have e82 := hiStepP 2912 553489331539466118690983724313220091433397545213 1100403515077987775645899069144552233948566126567 646496432501464446418796553275101543844807914637 1013394278700874915279048867953551132209243671402 (by decide!)
  have e83 := hiStepP 2911 646496432501464446418796553275101543844807914637 1013394278700874915279048867953551132209243671402 48611320067591672945584117023230942641541953801 1056205572765731264646200408200801430859855426147 (by decide!)
  have e84 := hiStepP 2910 48611320067591672945584117023230942641541953801 1056205572765731264646200408200801430859855426147 823520085338456902369210109167819294829994776664 235452633860415393697358461961597191420634262075 (by decide!)
  have e85 := hiStepP 2909 823520085338456902369210109167819294829994776664 235452633860415393697358461961597191420634262075 935410324538955809893614887736358142165249287481 792996403730201191072865671999684042228268863234 (by decide!)
  have e86 := hiStepP 2908 935410324538955809893614887736358142165249287481 792996403730201191072865671999684042228268863234 972568619394728544769323984838253496384555936162 186886903645792918081798222865343522366417036960 (by decide!)
  have e87 := hiStepP 2907 972568619394728544769323984838253496384555936162 186886903645792918081798222865343522366417036960 1318919852486609254651306036805229563322605060849 1140240331201775384996775995913750925705492636753 (by decide!)
  have e88 := hiStepP 2906 1318919852486609254651306036805229563322605060849 1140240331201775384996775995913750925705492636753 200686273081096938844240642501343420770838093679 1305155337510198173193083974304968364216381782846 (by decide!)
  have e89 := hiStepP 2905 200686273081096938844240642501343420770838093679 1305155337510198173193083974304968364216381782846 45742879795516825889055208541206346138938779369 1350848039627901927327356723563240308242048261591 (by decide!)
  have e90 := hiStepP 2904 45742879795516825889055208541206346138938779369 1350848039627901927327356723563240308242048261591 944519647076570425630610305749533227998631828878 422100769802959022051479411477970121430922985561 (by decide!)
  have e91 := hiStepP 2903 944519647076570425630610305749533227998631828878 422100769802959022051479411477970121430922985561 893973311244798615595752807922168650751926162855 1218702394124520834954463291065737674694662673918 (by decide!)
  have e92 := hiStepP 2902 893973311244798615595752807922168650751926162855 1218702394124520834954463291065737674694662673918 33914753262143378305067850712938203717128025114 1190509528451921526417393322804492997990932292068 (by decide!)
  have e93 := hiStepP 2901 33914753262143378305067850712938203717128025114 1190509528451921526417393322804492997990932292068 388427107878939703196228776238079561528603476328 847827608518907453225859706911907582393984917644 (by decide!)
  have e94 := hiStepP 2900 388427107878939703196228776238079561528603476328 847827608518907453225859706911907582393984917644 57475685853418496908838102598513577739441677321 905246758449821411811859000817584102549553316997 (by decide!)
  have e95 := hiStepP 2899 57475685853418496908838102598513577739441677321 905246758449821411811859000817584102549553316997 295705796046814515482646818747686607004025696926 989690621725984762150718588008685438208854570523 (by decide!)
  have e96 := hiStepP 2898 295705796046814515482646818747686607004025696926 989690621725984762150718588008685438208854570523 330953775695304233772891359437978159527267830137 848570549841336882800514528596664313728331366242 (by decide!)
  have e97 := hiStepP 2897 330953775695304233772891359437978159527267830137 848570549841336882800514528596664313728331366242 25566473355370417338902792571260239235627479085 826940256333225635558029644826775272071468863311 (by decide!)
  have e98 := hiStepP 2896 25566473355370417338902792571260239235627479085 826940256333225635558029644826775272071468863311 236701736930075449751626144902438996041131201142 1060073782531966422857698665511572948464805567801 (by decide!)
  have e99 := hiStepP 2895 236701736930075449751626144902438996041131201142 1060073782531966422857698665511572948464805567801 1310566222559036290231611898730878985548423250990 525952649404977991534194361756035897466708760855 (by decide!)
  have t0 := e0
  have t1 := t0.trans e1
  have t2 := t1.trans e2
  have t3 := t2.trans e3
  have t4 := t3.trans e4
  have t5 := t4.trans e5
  have t6 := t5.trans e6
  have t7 := t6.trans e7
  have t8 := t7.trans e8
  have t9 := t8.trans e9
  have t10 := t9.trans e10
  have t11 := t10.trans e11
  have t12 := t11.trans e12
  have t13 := t12.trans e13
  have t14 := t13.trans e14
  have t15 := t14.trans e15
  have t16 := t15.trans e16
  have t17 := t16.trans e17
  have t18 := t17.trans e18
  have t19 := t18.trans e19
  have t20 := t19.trans e20
  have t21 := t20.trans e21
  have t22 := t21.trans e22
  have t23 := t22.trans e23
  have t24 := t23.trans e24
  have t25 := t24.trans e25
  have t26 := t25.trans e26
  have t27 := t26.trans e27
  have t28 := t27.trans e28
  have t29 := t28.trans e29
  have t30 := t29.trans e30
  have t31 := t30.trans e31
  have t32 := t31.trans e32
  have t33 := t32.trans e33
  have t34 := t33.trans e34
  have t35 := t34.trans e35
  have t36 := t35.trans e36
  have t37 := t36.trans e37
  have t38 := t37.trans e38
  have t39 := t38.trans e39
  have t40 := t39.trans e40
  have t41 := t40.trans e41
  have t42 := t41.trans e42
  have t43 := t42.trans e43
  have t44 := t43.trans e44
  have t45 := t44.trans e45
  have t46 := t45.trans e46
  have t47 := t46.trans e47
  have t48 := t47.trans e48
  have t49 := t48.trans e49
  have t50 := t49.trans e50
  have t51 := t50.trans e51
  have t52 := t51.trans e52
  have t53 := t52.trans e53
  have t54 := t53.trans e54
  have t55 := t54.trans e55
  have t56 := t55.trans e56
  have t57 := t56.trans e57
  have t58 := t57.trans e58
  have t59 := t58.trans e59
  have t60 := t59.trans e60
  have t61 := t60.trans e61
  have t62 := t61.trans e62
  have t63 := t62.trans e63
  have t64 := t63.trans e64
  have t65 := t64.trans e65
  have t66 := t65.trans e66
  have t67 := t66.trans e67
  have t68 := t67.trans e68
  have t69 := t68.trans e69
  have t70 := t69.trans e70
  have t71 := t70.trans e71
  have t72 := t71.trans e72
  have t73 := t72.trans e73
  have t74 := t73.trans e74
  have t75 := t74.trans e75
  have t76 := t75.trans e76
  have t77 := t76.trans e77
  have t78 := t77.trans e78
  have t79 := t78.trans e79
  have t80 := t79.trans e80
  have t81 := t80.trans e81
  have t82 := t81.trans e82
  have t83 := t82.trans e83
  have t84 := t83.trans e84
  have t85 := t84.trans e85
  have t86 := t85.trans e86
  have t87 := t86.trans e87
  have t88 := t87.trans e88
  have t89 := t88.trans e89
  have t90 := t89.trans e90
  have t91 := t90.trans e91
  have t92 := t91.trans e92
  have t93 := t92.trans e93
  have t94 := t93.trans e94
  have t95 := t94.trans e95
  have t96 := t95.trans e96
  have t97 := t96.trans e97
  have t98 := t97.trans e98
  have t99 := t98.trans e99
  exact t99

theorem hiChainSeg12 : hiLoop SHA_1 (strBytes "pencil") 2895
    (unpackBytes 20 1310566222559036290231611898730878985548423250990)
    (unpackBytes 20 525952649404977991534194361756035897466708760855) =
    hiLoop SHA_1 (strBytes "pencil") 2795
      (unpackBytes 20 461567834843227088358295971350732320116125099059)
      (unpackBytes 20 274827173111228249197189598542255977226168381901) := by
  have e0 := hiStepP 2894 1310566222559036290231611898730878985548423250990 525952649404977991534194361756035897466708760855 866522377495850864458957312830288171183546207912 1164115396067160663588587981100182481937093203903 (by decide!)
  have e1 := hiStepP 2893 866522377495850864458957312830288171183546207912 1164115396067160663588587981100182481937093203903 748297016682218106040569635215008739753337654596 416632378730008989626480887730322885452827466491 (by decide!)
  have e2 := hiStepP 2892 748297016682218106040569635215008739753337654596 416632378730008989626480887730322885452827466491 546705858657145493523074609280119987374314742914 132585106041239209737469661756169929146876296825 (by decide!)
  have e3 := hiStepP 2891 546705858657145493523074609280119987374314742914 132585106041239209737469661756169929146876296825 584229812572134530652307639601252181153508444344 647537594692973714820261454839125511611899754177 (by decide!)
  have e4 := hiStepP 2890 584229812572134530652307639601252181153508444344 647537594692973714820261454839125511611899754177 675638851974934877579968698789314126096877458446 41125944131194640360645344862570603128915698383 (by decide!)
  have e5 := hiStepP 2889 675638851974934877579968698789314126096877458446 41125944131194640360645344862570603128915698383 810196989653340985336835446171692548817865561788 792799505974668127783652462901408294454257611891 (by decide!)
  have e6 := hiStepP 2888 810196989653340985336835446171692548817865561788 792799505974668127783652462901408294454257611891 1255455723402475555094756368146612454454870919191 463650533066017482240573681582448643672596200548 (by decide!)
  have e7 := hiStepP 2887 1255455723402475555094756368146612454454870919191 463650533066017482240573681582448643672596200548 892881913304641402550897586357102093697035270605 1172149002690065003066687707129708679631216919977 (by decide!)
  have e8 := hiStepP 2886 892881913304641402550897586357102093697035270605 1172149002690065003066687707129708679631216919977 226391371693109347225004224686327312919402701224 1341418383321841917062448050726191361949559530497 (by decide!)
  have e9 := hiStepP 2885 226391371693109347225004224686327312919402701224 1341418383321841917062448050726191361949559530497 332592079989989323429890790547706678674285920892 1191544674755904273417791910679092901842619311741 (by decide!)
  have e10 := hiStepP 2884 332592079989989323429890790547706678674285920892 1191544674755904273417791910679092901842619311741 389470751504103940134586587078901891498794482928 848115370212821591389975297314439544102445341325 (by decide!)
  have e11 := hiStepP 2883 389470751504103940134586587078901891498794482928 848115370212821591389975297314439544102445341325 418364326377484127199421300988503883092160098355 1266120983118740466346642412604468877830715894462 (by decide!)
  have e12 := hiStepP 2882 418364326377484127199421300988503883092160098355 1266120983118740466346642412604468877830715894462 779045354401899855950144582686808636502936958757 489262844047884726669789607929948298263174110619 (by decide!)
  have e13 := hiStepP 2881 779045354401899855950144582686808636502936958757 489262844047884726669789607929948298263174110619 1099070528283195060395498357097251825457825563623 851872517544379904318293150364644552864408739452 (by decide!)
  have e14 := hiStepP 2880 1099070528283195060395498357097251825457825563623 851872517544379904318293150364644552864408739452 1117781647400568102793728886475932611402512542654 496600740293203041819386919568278089022972245442 (by decide!)
  have e15 := hiStepP 2879 1117781647400568102793728886475932611402512542654 496600740293203041819386919568278089022972245442 595114136552899411772336056280329040182603013177 358273987228430936512149042546825533386569017851 (by decide!)
  have e16 := hiStepP 2878 595114136552899411772336056280329040182603013177 358273987228430936512149042546825533386569017851 652615019315457919104687781524823303644996662894 437134562951904432700306887181975212766020804501 (by decide!)
  have e17 := hiStepP 2877 652615019315457919104687781524823303644996662894 437134562951904432700306887181975212766020804501 672990625900322187010414094561505025414456299704 327915312844640474303633823902673121223969787693 (by decide!)
  have e18 := hiStepP 2876 672990625900322187010414094561505025414456299704 327915312844640474303633823902673121223969787693 1150766008620674740106299886708649301950998843275 1375200085664304548547302127088703337163871731878 (by decide!)
  have e19 := hiStepP 2875 1150766008620674740106299886708649301950998843275 1375200085664304548547302127088703337163871731878 1285869249759810786490392160912483719041179187427 102009691648821818498224723914635637277284644933 (by decide!)
  have e20 := hiStepP 2874 1285869249759810786490392160912483719041179187427 102009691648821818498224723914635637277284644933 348447295842248096158593147302053496104795885213 255983207962950676848476576055802072475778807512 (by decide!)
  have e21 := hiStepP 2873 348447295842248096158593147302053496104795885213 255983207962950676848476576055802072475778807512 903450184408045890365874513395283587681074351542 1019561182938254709374293237494229332332569754478 (by decide!)
  have e22 := hiStepP 2872 903450184408045890365874513395283587681074351542 1019561182938254709374293237494229332332569754478 257374458911862757319402017434768488986851547888 910665349682626495578663174581004268777719914910 (by decide!)
  have e23 := hiStepP 2871 257374458911862757319402017434768488986851547888 910665349682626495578663174581004268777719914910 1178090798254855321380792381665581372956435070940 467263210370846734854999929595001713420787146306 (by decide!)
  have e24 := hiStepP 2870 1178090798254855321380792381665581372956435070940 467263210370846734854999929595001713420787146306 751719559435434932324693998301622207912473965539 1201487127219260010365647701518447420121732148641 (by decide!)
  have e25 := hiStepP 2869 751719559435434932324693998301622207912473965539 1201487127219260010365647701518447420121732148641 399411455773242203352293033092921855771072133762 864972157658812558235145889942269178181745973027 (by decide!)
  have e26 := hiStepP 2868 399411455773242203352293033092921855771072133762 864972157658812558235145889942269178181745973027 76117440878370088709053940367785928593901022820 883991104651459329498234811912236861503697844551 (by decide!)
  have e27 := hiStepP 2867 76117440878370088709053940367785928593901022820 883991104651459329498234811912236861503697844551 1121658537599349315324623280855582506121998589440 540556189623715944079864173279467571914415580999 (by decide!)
  have e28 := hiStepP 2866 1121658537599349315324623280855582506121998589440 540556189623715944079864173279467571914415580999 947673992530114497566277246152016259692802991572 1434747305643907601811744966814156462877103440531 (by decide!)
  have e29 := hiStepP 2865 947673992530114497566277246152016259692802991572 1434747305643907601811744966814156462877103440531 869610482926267559395129552696403584402451548277 565254685739286606210997197257813349904492399334 (by decide!)
  have e30 := hiStepP 2864 869610482926267559395129552696403584402451548277 565254685739286606210997197257813349904492399334 525742236506544650462379410734205644114820981338 360156813143610681379253778279099331798318442684 (by decide!)
  have e31 := hiStepP 2863 525742236506544650462379410734205644114820981338 360156813143610681379253778279099331798318442684 771354442264532500488202467481264147675478007248 1050661262011161971355086624882188843933101421932 (by decide!)
  have e32 := hiStepP 2862 771354442264532500488202467481264147675478007248 1050661262011161971355086624882188843933101421932 557962557358415936232764401142668624711655073200 1242835839923470973621363890805384426959727022300 (by decide!)
  have e33 := hiStepP 2861 557962557358415936232764401142668624711655073200 1242835839923470973621363890805384426959727022300 1442364089331734146676443398392654723008263939580 211756070322411625798128733720604816395070879008 (by decide!)
  have e34 := hiStepP 2860 1442364089331734146676443398392654723008263939580 211756070322411625798128733720604816395070879008 853520505228620691036876462705054026692111997574 1008135032034975158054382689906008035870836633510 (by decide!)
  have e35 := hiStepP 2859 853520505228620691036876462705054026692111997574 1008135032034975158054382689906008035870836633510 1265561161261550611621002447625096038291910545131 623616579170188927086631067900232595072605512013 (by decide!)
  have e36 := hiStepP 2858 1265561161261550611621002447625096038291910545131 623616579170188927086631067900232595072605512013 1024228286510525786230170066936127780432791650860 1269449287541725044255829169599693478265785328481 (by decide!)
  have e37 := hiStepP 2857 1024228286510525786230170066936127780432791650860 1269449287541725044255829169599693478265785328481 554823620141088121944661681156295696607681265236 1092986519019259086320609175010730845877169265973 (by decide!)
  have e38 := hiStepP 2856 554823620141088121944661681156295696607681265236 1092986519019259086320609175010730845877169265973 1146089934990164171323570944522215149364186271657 683367904731945415020952211536660113179843678876 (by decide!)
  have e39 := hiStepP 2855 1146089934990164171323570944522215149364186271657 683367904731945415020952211536660113179843678876 452386692482378284171197682540123512553064098548 322892345913842006492323228964244894835841775720 (by decide!)
  have e40 := hiStepP 2854 452386692482378284171197682540123512553064098548 322892345913842006492323228964244894835841775720 670767221420074826832006472496043097183287566863 444961219579407347801305802108280241453989485159 (by decide!)
  have e41 := hiStepP 2853 670767221420074826832006472496043097183287566863 444961219579407347801305802108280241453989485159 289618062560687822271529543251897680627323623089 726695917669722599830718998538010109132442045654 (by decide!)
  have e42 := hiStepP 2852 289618062560687822271529543251897680627323623089 726695917669722599830718998538010109132442045654 957627083777424823264021858124239859897228836974 1238657939801985871144273608103100249374156246200 (by decide!)
  have e43 := hiStepP 2851 957627083777424823264021858124239859897228836974 1238657939801985871144273608103100249374156246200 67835512601515921821712438348862168194028362171 1205100099391306248796613098652538785285924099331 (by decide!)
  have e44 := hiStepP 2850 67835512601515921821712438348862168194028362171 1205100099391306248796613098652538785285924099331 1443308121877316134984659841581061907517146576193 272752236493746678394294653259055336292897267778 (by decide!)
  have e45 := hiStepP 2849 1443308121877316134984659841581061907517146576193 272752236493746678394294653259055336292897267778 732753738163049133215614613510832653426190306728 1002629176903405580871114370698362523395287805418 (by decide!)
  have e46 := hiStepP 2848 732753738163049133215614613510832653426190306728 1002629176903405580871114370698362523395287805418 1453825163401893353792994407918689017537942161851 463692783624527330310653519792354021807085020241 (by decide!)
  have e47 := hiStepP 2847 1453825163401893353792994407918689017537942161851 463692783624527330310653519792354021807085020241 723250179424005567753064221374855004624151230771 271692502786771415694307989647744062924913302882 (by decide!)
  have e48 := hiStepP 2846 723250179424005567753064221374855004624151230771 271692502786771415694307989647744062924913302882 504260200060061640358694188534535746854271518654 683759297980305866244933932001167134075360762588 (by decide!)
  have e49 := hiStepP 2845 504260200060061640358694188534535746854271518654 683759297980305866244933932001167134075360762588 422365610547617458667982489659674917701584691 684145334896466449672607207613786534470343155183 (by decide!)
  have e50 := hiStepP 2844 422365610547617458667982489659674917701584691 684145334896466449672607207613786534470343155183 532509148952042634617156154360976216381135432466 243003768293837673598607657056683305445731202813 (by decide!)
  have e51 := hiStepP 2843 532509148952042634617156154360976216381135432466 243003768293837673598607657056683305445731202813 893547026035863493764584860353944809403761673478 1039496511052158738438751354302086328200639034363 (by decide!)
  have e52 := hiStepP 2842 893547026035863493764584860353944809403761673478 1039496511052158738438751354302086328200639034363 353838494984814285970189606024930426414077622509 798857995822872360912246820654968787242509962006 (by decide!)
  have e53 := hiStepP 2841 353838494984814285970189606024930426414077622509 798857995822872360912246820654968787242509962006 451335190426719595901133330624387681750210215112 1123970965237627380425757071317631665690119960542 (by decide!)
  have e54 := hiStepP 2840 451335190426719595901133330624387681750210215112 1123970965237627380425757071317631665690119960542 754414610525278576783515390235968804067506232128 369780408958409677289022289444067687241419287710 (by decide!)
  have e55 := hiStepP 2839 754414610525278576783515390235968804067506232128 369780408958409677289022289444067687241419287710 882334091324208956755778425011541856667923345957 1246182044592582691234657489091883193056517955259 (by decide!)
  have e56 := hiStepP 2838 882334091324208956755778425011541856667923345957 1246182044592582691234657489091883193056517955259 809414870686291823906121503129323762949830270720 499889958673116881506700695777458101129095201211 (by decide!)
  have e57 := hiStepP 2837 809414870686291823906121503129323762949830270720 499889958673116881506700695777458101129095201211 1065473795440602449035102641843211716690134993550 1354071290198115633268266671453006434529401916213 (by decide!)
  have e58 := hiStepP 2836 1065473795440602449035102641843211716690134993550 1354071290198115633268266671453006434529401916213 661097489445401117231884675455269765709471715694 907061459909675935195937145182555094167188462171 (by decide!)
  have e59 := hiStepP 2835 661097489445401117231884675455269765709471715694 907061459909675935195937145182555094167188462171 1007807467307352227520032402634607855625096752861 264880999276467727273088688800786242888242934918 (by decide!)
  have e60 := hiStepP 2834 1007807467307352227520032402634607855625096752861 264880999276467727273088688800786242888242934918 6858217975625338849899624700881679834873992050 270243633243300252345419269369195923790949754868 (by decide!)
  have e61 := hiStepP 2833 6858217975625338849899624700881679834873992050 270243633243300252345419269369195923790949754868 52117527143214506527793139920637547359730013271 219598495864263999019245188625990442323354170275 (by decide!)
  have e62 := hiStepP 2832 52117527143214506527793139920637547359730013271 219598495864263999019245188625990442323354170275 316109344052912395084439958652575650608094764586 97988631917500790983012430871720372924976491913 (by decide!)
  have e63 := hiStepP 2831 316109344052912395084439958652575650608094764586 97988631917500790983012430871720372924976491913 384251790756176589459799402626334433711978351415 470445756717864173305626566686240971382307350206 (by decide!)
  have e64 := hiStepP 2830 384251790756176589459799402626334433711978351415 470445756717864173305626566686240971382307350206 1295546015794258918937392106898192825959371574127 1007855570362858294754283601593734557178852273617 (by decide!)
  have e65 := hiStepP 2829 1295546015794258918937392106898192825959371574127 1007855570362858294754283601593734557178852273617 915300399553306146186058070451561021518355859621 96221073889008438964258785163659053371912381812 (by decide!)
  have e66 := hiStepP 2828 915300399553306146186058070451561021518355859621 96221073889008438964258785163659053371912381812 108578473033075184581005854984312017155820650853 22086144032675707313585828240133316542179632145 (by decide!)
  have e67 := hiStepP 2827 108578473033075184581005854984312017155820650853 22086144032675707313585828240133316542179632145 1058568201269495675817309394928679407789365031441 1065924616495250832154119387117790568212895667712 (by decide!)
  have e68 := hiStepP 2826 1058568201269495675817309394928679407789365031441 1065924616495250832154119387117790568212895667712 1099036233127796645114716775344859951614640933268 697741161689389433977947965223397777819524325268 (by decide!)
  have e69 := hiStepP 2825 1099036233127796645114716775344859951614640933268 697741161689389433977947965223397777819524325268 591341284895903048966101789861326814309250774980 169204351144732495318844623765655428266763151440 (by decide!)
  have e70 := hiStepP 2824 591341284895903048966101789861326814309250774980 169204351144732495318844623765655428266763151440 994238408932584672545404341197620015577142421371 1024860321556917613843580004782813897591124823851 (by decide!)
  have e71 := hiStepP 2823 994238408932584672545404341197620015577142421371 1024860321556917613843580004782813897591124823851 674133713365419454555658959731275658812931249323 1127913153547254977688422570303120627463159782272 (by decide!)
  have e72 := hiStepP 2822 674133713365419454555658959731275658812931249323 1127913153547254977688422570303120627463159782272 1282455002658231532515383820530353098445995355289 212350956213517863896098362065445886173287560985 (by decide!)
  have e73 := hiStepP 2821 1282455002658231532515383820530353098445995355289 212350956213517863896098362065445886173287560985 1400604040117502137771914398926496370496739128673 1189775829464106706832860335147310895970744697464 (by decide!)
  have e74 := hiStepP 2820 1400604040117502137771914398926496370496739128673 1189775829464106706832860335147310895970744697464 690609117580163668947734171456623588300674350693 962335644891988391464457864992577395033325059101 (by decide!)
  have e75 := hiStepP 2819 690609117580163668947734171456623588300674350693 962335644891988391464457864992577395033325059101 1359465926286177376610303672096656847865882487032 403555686522544917125351662427993780488747357413 (by decide!)
  have e76 := hiStepP 2818 1359465926286177376610303672096656847865882487032 403555686522544917125351662427993780488747357413 702937849901087023783780996072679426296546389960 351476715071694056047769917692082488437041068845 (by decide!)
  have e77 := hiStepP 2817 702937849901087023783780996072679426296546389960 351476715071694056047769917692082488437041068845 1298299695908492117240527220757341021176811474679 1272949470642707745890569986483070675527967127002 (by decide!)
  have e78 := hiStepP 2816 1298299695908492117240527220757341021176811474679 1272949470642707745890569986483070675527967127002 663111497653887676919783133789067410004341164076 975522919922118665959344421169437336517110611446 (by decide!)
  have e79 := hiStepP 2815 663111497653887676919783133789067410004341164076 975522919922118665959344421169437336517110611446 1455399376362973188191859877292048889293576211947 480662645608999097632633128384594958498124345373 (by decide!)
  have e80 := hiStepP 2814 1455399376362973188191859877292048889293576211947 480662645608999097632633128384594958498124345373 974050959279187386617197530271671425437167490541 1453927416483060296502907616268984268513600251376 (by decide!)
  have e81 := hiStepP 2813 974050959279187386617197530271671425437167490541 1453927416483060296502907616268984268513600251376 1266932203177897337882726032959382157362557729395 201407120258316696704408877335414793948885360515 (by decide!)
  have e82 := hiStepP 2812 1266932203177897337882726032959382157362557729395 201407120258316696704408877335414793948885360515 529923053276998543003056320249412767176052314506 728386420590838900231567980647172223769825054217 (by decide!)
  have e83 := hiStepP 2811 529923053276998543003056320249412767176052314506 728386420590838900231567980647172223769825054217 1133848492163462019462037551639124996417146077366 1056486332728990586431626425036789807294135488191 (by decide!)
  have e84 := hiStepP 2810 1133848492163462019462037551639124996417146077366 1056486332728990586431626425036789807294135488191 844739471893855020770320238919994607593052513295 245332044615877812798103497899484287604047506096 (by decide!)
  have e85 := hiStepP 2809 844739471893855020770320238919994607593052513295 245332044615877812798103497899484287604047506096 349971583860494404589618625137824816275755204506 135328326490076343638817933764084849938571269418 (by decide!)
  have e86 := hiStepP 2808 349971583860494404589618625137824816275755204506 135328326490076343638817933764084849938571269418 295044500535261964928232215751850577105260776266 206105382901744359717240442677578041919481781856 (by decide!)
  have e87 := hiStepP 2807 295044500535261964928232215751850577105260776266 206105382901744359717240442677578041919481781856 894987010349629490988000662094972649931259247525 1055417505224526158410397352453019867879555261893 (by decide!)
  have e88 := hiStepP 2806 894987010349629490988000662094972649931259247525 1055417505224526158410397352453019867879555261893 568601214629610612687639103283998345362138043800 1251840752180874640614936076829757281169711919197 (by decide!)
  have e89 := hiStepP 2805 568601214629610612687639103283998345362138043800 1251840752180874640614936076829757281169711919197 412475040713175000052333955082416349375932892465 839366451923794191711264606446380167316309472620 (by decide!)
  have e90 := hiStepP 2804 412475040713175000052333955082416349375932892465 839366451923794191711264606446380167316309472620 1119756451485581712391516607905335933317657726363 497527184800170622796391636506630927899887663351 (by decide!)
  have e91 := hiStepP 2803 1119756451485581712391516607905335933317657726363 497527184800170622796391636506630927899887663351 417324367532926799440606176364724844506724149843 172621286900751560179242925822661320543128015524 (by decide!)
  have e92 := hiStepP 2802 417324367532926799440606176364724844506724149843 172621286900751560179242925822661320543128015524 788399296043253200463497718654043648513775020309 845768926603816793510159837878568543518301158321 (by decide!)
  have e93 := hiStepP 2801 788399296043253200463497718654043648513775020309 845768926603816793510159837878568543518301158321 887794827291457592573369487060355097992851272671 89371624100095285183673253363529176895572822126 (by decide!)
  have e94 := hiStepP 2800 887794827291457592573369487060355097992851272671 89371624100095285183673253363529176895572822126 608395074621449457460438689004073047666205526456 577833138506865682299813165112869551115644453334 (by decide!)
  have e95 := hiStepP 2799 608395074621449457460438689004073047666205526456 577833138506865682299813165112869551115644453334 1118142420659590520340555513050990020280475629293 952996070928798647586400319842383673539279386427 (by decide!)
  have e96 := hiStepP 2798 1118142420659590520340555513050990020280475629293 952996070928798647586400319842383673539279386427 191594710607263878967444010342290409505253818588 772914997730240018471497486880857936313848690663 (by decide!)
  have e97 := hiStepP 2797 191594710607263878967444010342290409505253818588 772914997730240018471497486880857936313848690663 611962176652095348620040000161956639788174185065 1349192322209423293374397841114787126171643372942 (by decide!)
  have e98 := hiStepP 2796 611962176652095348620040000161956639788174185065 1349192322209423293374397841114787126171643372942 803030980315385283880619654950099700390886256752 553655709971744398357868071003957912619216098814 (by decide!)
  have e99 := hiStepP 2795 803030980315385283880619654950099700390886256752 553655709971744398357868071003957912619216098814 461567834843227088358295971350732320116125099059 274827173111228249197189598542255977226168381901 (by decide!)
  have t0 := e0
  have t1 := t0.trans e1
  have t2 := t1.trans e2
  have t3 := t2.trans e3
  have t4 := t3.trans e4
  have t5 := t4.trans e5
  have t6 := t5.trans e6
  have t7 := t6.trans e7
  have t8 := t7.trans e8
  have t9 := t8.trans e9
  have t10 := t9.trans e10
  have t11 := t10.trans e11
  have t12 := t11.trans e12
  have t13 := t12.trans e13
  have t14 := t13.trans e14
  have t15 := t14.trans e15
  have t16 := t15.trans e16
  have t17 := t16.trans e17
  have t18 := t17.trans e18
  have t19 := t18.trans e19
  have t20 := t19.trans e20
  have t21 := t20.trans e21
  have t22 := t21.trans e22
  have t23 := t22.trans e23
  have t24 := t23.trans e24
  have t25 := t24.trans e25
  have t26 := t25.trans e26
  have t27 := t26.trans e27
  have t28 := t27.trans e28
  have t29 := t28.trans e29
  have t30 := t29.trans e30
  have t31 := t30.trans e31
  have t32 := t31.trans e32
  have t33 := t32.trans e33
  have t34 := t33.trans e34
  have t35 := t34.trans e35
  have t36 := t35.trans e36
  have t37 := t36.trans e37
  have t38 := t37.trans e38
  have t39 := t38.trans e39
  have t40 := t39.trans e40
  have t41 := t40.trans e41
  have t42 := t41.trans e42
  have t43 := t42.trans e43
  have t44 := t43.trans e44
  have t45 := t44.trans e45
  have t46 := t45.trans e46
  have t47 := t46.trans e47
  have t48 := t47.trans e48
  have t49 := t48.trans e49
  have t50 := t49.trans e50
  have t51 := t50.trans e51
  have t52 := t51.trans e52
  have t53 := t52.trans e53
  have t54 := t53.trans e54
  have t55 := t54.trans e55
  have t56 := t55.trans e56
  have t57 := t56.trans e57
  have t58 := t57.trans e58
  have t59 := t58.trans e59
  have t60 := t59.trans e60
  have t61 := t60.trans e61
  have t62 := t61.trans e62
  have t63 := t62.trans e63
  have t64 := t63.trans e64
  have t65 := t64.trans e65
  have t66 := t65.trans e66
  have t67 := t66.trans e67
  have t68 := t67.trans e68
  have t69 := t68.trans e69
  have t70 := t69.trans e70
  have t71 := t70.trans e71
  have t72 := t71.trans e72
  have t73 := t72.trans e73
  have t74 := t73.trans e74
  have t75 := t74.trans e75
  have t76 := t75.trans e76
  have t77 := t76.trans e77
  have t78 := t77.trans e78
  have t79 := t78.trans e79
  have t80 := t79.trans e80
  have t81 := t80.trans e81
  have t82 := t81.trans e82
  have t83 := t82.trans e83
  have t84 := t83.trans e84
  have t85 := t84.trans e85
  have t86 := t85.trans e86
  have t87 := t86.trans e87
  have t88 := t87.trans e88
  have t89 := t88.trans e89
  have t90 := t89.trans e90
  have t91 := t90.trans e91
  have t92 := t91.trans e92
  have t93 := t92.trans e93
  have t94 := t93.trans e94
  have t95 := t94.trans e95
  have t96 := t95.trans e96
  have t97 := t96.trans e97
  have t98 := t97.trans e98
  have t99 := t98.trans e99
  exact t99

theorem hiChainSeg13 : hiLoop SHA_1 (strBytes "pencil") 2795
    (unpackBytes 20 461567834843227088358295971350732320116125099059)
    (unpackBytes 20 274827173111228249197189598542255977226168381901) =
    hiLoop SHA_1 (strBytes "pencil") 2695
      (unpackBytes 20 618822108495110030763235336957034062926386571335)
      (unpackBytes 20 805302886489618872626676041241283975487504974399) := by
  have e0 := hiStepP 2794 461567834843227088358295971350732320116125099059 274827173111228249197189598542255977226168381901 1394605339920616869312263534649524824754375450018 1121368674571342926935946962321753592211506097263 (by decide!)
  have e1 := hiStepP 2793 1394605339920616869312263534649524824754375450018 1121368674571342926935946962321753592211506097263 1107137299180897463741993636479247175139179274924 31536909262459842327152208963784634124443373251 (by decide!)
  have e2 := hiStepP 2792 1107137299180897463741993636479247175139179274924 31536909262459842327152208963784634124443373251 89950411060605374713118898231749038188450731719 58688408138955532938874307262184842852538652676 (by decide!)
  have e3 := hiStepP 2791 89950411060605374713118898231749038188450731719 58688408138955532938874307262184842852538652676 625384634438449682512691398381805022516733550006 592588850990426887926740963945744733480551581106 (by decide!)
  have e4 := hiStepP 2790 625384634438449682512691398381805022516733550006 592588850990426887926740963945744733480551581106 247371620224644592773059283701166217364365364153 437275498613063906949472377893134817963505995275 (by decide!)
  have e5 := hiStepP 2789 247371620224644592773059283701166217364365364153 437275498613063906949472377893134817963505995275 157977565958234905211642797558484552013069222570 497839837407483584201367886266918516280224435361 (by decide!)
  have e6 := hiStepP 2788 157977565958234905211642797558484552013069222570 497839837407483584201367886266918516280224435361 101478550742669069130249408586829196429059277131 405106772675356099370420031372120134017208618474 (by decide!)
  have e7 := hiStepP 2787 101478550742669069130249408586829196429059277131 405106772675356099370420031372120134017208618474 274096807431240189368932469382277606625800542110 679179008486771860988024402485120627686567565940 (by decide!)
  have e8 := hiStepP 2786 274096807431240189368932469382277606625800542110 679179008486771860988024402485120627686567565940 690483331949621648879966757626366511280770136356 80040797488441753049252103265969891246772183888 (by decide!)
  have e9 := hiStepP 2785 690483331949621648879966757626366511280770136356 80040797488441753049252103265969891246772183888 1027305644222176734122236732953021974372770890191 1084459909179683625938517414721330318232920138399 (by decide!)
  have e10 := hiStepP 2784 1027305644222176734122236732953021974372770890191 1084459909179683625938517414721330318232920138399 13568809566608952085283410942106545646194636405 1093733030680861638248609539474259911554053805290 (by decide!)
  have e11 := hiStepP 2783 13568809566608952085283410942106545646194636405 1093733030680861638248609539474259911554053805290 643614000024434810771970212720947945154391487748 1182653909490974213295669175982402169952677339630 (by decide!)
  have e12 := hiStepP 2782 643614000024434810771970212720947945154391487748 1182653909490974213295669175982402169952677339630 935328367780448700813356376013455501721292116988 622226509393629773204715325977774418274600432146 (by decide!)
  have e13 := hiStepP 2781 935328367780448700813356376013455501721292116988 622226509393629773204715325977774418274600432146 479441912968540571732367384389534905611934467798 359832386636315827465730344951164765697704113348 (by decide!)
  have e14 := hiStepP 2780 479441912968540571732367384389534905611934467798 359832386636315827465730344951164765697704113348 1101137853922589879216039003798374753874682968461 1460961855831243580740396294949277232344020503881 (by decide!)
  have e15 := hiStepP 2779 1101137853922589879216039003798374753874682968461 1460961855831243580740396294949277232344020503881 190758194045255234062771593124288173451184917775 1270566767577825701513983155889639275615585042502 (by decide!)
  have e16 := hiStepP 2778 190758194045255234062771593124288173451184917775 1270566767577825701513983155889639275615585042502 1228399326700647714106334075127463099182609977079 55071299850510144617427524674810429439556570801 (by decide!)
  have e17 := hiStepP 2777 1228399326700647714106334075127463099182609977079 55071299850510144617427524674810429439556570801 865017649710992998815182871930910699851825033060 902773204817230628679478252257319102368001941973 (by decide!)
  have e18 := hiStepP 2776 865017649710992998815182871930910699851825033060 902773204817230628679478252257319102368001941973 1298664373275968669055744663967511187926488515560 715672708208129427667476465377087412916913496637 (by decide!)
  have e19 := hiStepP 2775 1298664373275968669055744663967511187926488515560 715672708208129427667476465377087412916913496637 1012327839609267553371369078487488652784873778407 1164846533173956464027066878247367145933742067418 (by decide!)
  have e20 := hiStepP 2774 1012327839609267553371369078487488652784873778407 1164846533173956464027066878247367145933742067418 287332841518398236735656908311006857725901144128 1452178981314619157544317660399883449448947437210 (by decide!)
  have e21 := hiStepP 2773 287332841518398236735656908311006857725901144128 1452178981314619157544317660399883449448947437210 552324333618732181489988164947617023352030837859 907080137248378229906109110294000725217108161273 (by decide!)
  have e22 := hiStepP 2772 552324333618732181489988164947617023352030837859 907080137248378229906109110294000725217108161273 1450822412569767630471321890451596435493691207316 552428641992271971991453002840240956645067709549 (by decide!)
  have e23 := hiStepP 2771 1450822412569767630471321890451596435493691207316 552428641992271971991453002840240956645067709549 406870637010926447224677043781569864757535201271 225671353836706417739441201501706521952317705114 (by decide!)
  have e24 := hiStepP 2770 406870637010926447224677043781569864757535201271 225671353836706417739441201501706521952317705114 1447557444667569336160959761223820383749263659932 1244778515780508762321350914625808429507118667782 (by decide!)
  have e25 := hiStepP 2769 1447557444667569336160959761223820383749263659932 1244778515780508762321350914625808429507118667782 1075338968336107779855014779404353656537254590214 584147235158085190483516983698967411622372011776 (by decide!)
  have e26 := hiStepP 2768 1075338968336107779855014779404353656537254590214 584147235158085190483516983698967411622372011776 316337114739962648379167355935137472500111235621 463746313435966349262666273564178056133772490021 (by decide!)
  have e27 := hiStepP 2767 316337114739962648379167355935137472500111235621 463746313435966349262666273564178056133772490021 950241126601630032826655176093012269064171585796 1411755966273969994803265037816239323085095187489 (by decide!)
  have e28 := hiStepP 2766 950241126601630032826655176093012269064171585796 1411755966273969994803265037816239323085095187489 1330090346760272584212179333933517490350843061673 180948588869448457430000557155860919334146888072 (by decide!)
  have e29 := hiStepP 2765 1330090346760272584212179333933517490350843061673 180948588869448457430000557155860919334146888072 594132715771738617236405854038400020861908296674 683023650148042520035296533546294563498186863210 (by decide!)
  have e30 := hiStepP 2764 594132715771738617236405854038400020861908296674 683023650148042520035296533546294563498186863210 561486700762489730767151892887893016158635230968 125469023759086508935949441335272536962051765394 (by decide!)
  have e31 := hiStepP 2763 561486700762489730767151892887893016158635230968 125469023759086508935949441335272536962051765394 1348926576179182694070939531057855737460625899215 1425771350938230714355014787341079934400278530653 (by decide!)
  have e32 := hiStepP 2762 1348926576179182694070939531057855737460625899215 1425771350938230714355014787341079934400278530653 93599836528929092052623251736576083800596680509 1335031759548540553382750914517982976536969446752 (by decide!)
  have e33 := hiStepP 2761 93599836528929092052623251736576083800596680509 1335031759548540553382750914517982976536969446752 1363844882528157782551364119719395128226770528235 41302237724100115797404781759334858786809619083 (by decide!)
  have e34 := hiStepP 2760 1363844882528157782551364119719395128226770528235 41302237724100115797404781759334858786809619083 1358933821856823187479297085607541238047035414075 1331370982211747169594420671190300355213956248752 (by decide!)
  have e35 := hiStepP 2759 1358933821856823187479297085607541238047035414075 1331370982211747169594420671190300355213956248752 1153726538829513885198880341356914394886144345454 200581130641631385439819546250709817008459166174 (by decide!)
  have e36 := hiStepP 2758 1153726538829513885198880341356914394886144345454 200581130641631385439819546250709817008459166174 1046790563085428114173689660016692369340130835954 847649246338965964130324364540678699890071276588 (by decide!)
  have e37 := hiStepP 2757 1046790563085428114173689660016692369340130835954 847649246338965964130324364540678699890071276588 733837895024741416421494343309618623175320020604 119610549614614202709556246136355572221877529168 (by decide!)
  have e38 := hiStepP 2756 733837895024741416421494343309618623175320020604 119610549614614202709556246136355572221877529168 221530096561031585217125646768113991060388585869 286838200916851790795915890722229600465826974685 (by decide!)
  have e39 := hiStepP 2755 221530096561031585217125646768113991060388585869 286838200916851790795915890722229600465826974685 858616117514956110965144471716160223621699063520 938324122415106750299177883153741195692751603005 (by decide!)
  have e40 := hiStepP 2754 858616117514956110965144471716160223621699063520 938324122415106750299177883153741195692751603005 1102681644099078038069769224774311343203297197241 579420473932001390826965479789213534936322849156 (by decide!)
  have e41 := hiStepP 2753 1102681644099078038069769224774311343203297197241 579420473932001390826965479789213534936322849156 288400947297684973650321135251172366254723249398 502263335721310592506561195544964476047823965554 (by decide!)
  have e42 := hiStepP 2752 288400947297684973650321135251172366254723249398 502263335721310592506561195544964476047823965554 140579134577200017145008276646175753435829657289 453274931099310790986873863343702705248228201403 (by decide!)
  have e43 := hiStepP 2751 140579134577200017145008276646175753435829657289 453274931099310790986873863343702705248228201403 1274865832080951190815134241541509916523865944297 823064318228447560847516580745670725013511627602 (by decide!)
  have e44 := hiStepP 2750 1274865832080951190815134241541509916523865944297 823064318228447560847516580745670725013511627602 347562600604184356754994811258362682827030991386 986457259250669843938484677411572554817062662472 (by decide!)
  have e45 := hiStepP 2749 347562600604184356754994811258362682827030991386 986457259250669843938484677411572554817062662472 637603075486155248084425848480952319489751694269 1115513384271386597695838242758045303160597498613 (by decide!)
  have e46 := hiStepP 2748 637603075486155248084425848480952319489751694269 1115513384271386597695838242758045303160597498613 1253993126139159990037858041187301073841864098223 141378949420921972962941513981494472419189001050 (by decide!)
  have e47 := hiStepP 2747 1253993126139159990037858041187301073841864098223 141378949420921972962941513981494472419189001050 388160487886697042773311411114426088491357086125 520902320309588738529046078689668030865305873143 (by decide!)
  have e48 := hiStepP 2746 388160487886697042773311411114426088491357086125 520902320309588738529046078689668030865305873143 1031631118665714441488050595886790417535017273656 1367612806856073691269911477550294042213197833167 (by decide!)
  have e49 := hiStepP 2745 1031631118665714441488050595886790417535017273656 1367612806856073691269911477550294042213197833167 908539416662411040495602126589695813910188335915 643191131555029215906708983846841174076803334372 (by decide!)
  have e50 := hiStepP 2744 908539416662411040495602126589695813910188335915 643191131555029215906708983846841174076803334372 1384485093089989502546930226015401416183268662355 743144934318072414886023097005699638784538647735 (by decide!)
  have e51 := hiStepP 2743 1384485093089989502546930226015401416183268662355 743144934318072414886023097005699638784538647735 1211097938544782984964017455358173350013389589292 491157882619781795942835057084730445325186783131 (by decide!)
  have e52 := hiStepP 2742 1211097938544782984964017455358173350013389589292 491157882619781795942835057084730445325186783131 502968826108859051827317002791831809243736598253 80319012844248878830891417896995466229233758582 (by decide!)
  have e53 := hiStepP 2741 502968826108859051827317002791831809243736598253 80319012844248878830891417896995466229233758582 957078606141228690179265553244211590588937269682 968861676837156001843850375921652863971085762756 (by decide!)
  have e54 := hiStepP 2740 957078606141228690179265553244211590588937269682 968861676837156001843850375921652863971085762756 91354156759741429207320177346100782787547613771 1060204328224240817797591676708637763598701824655 (by decide!)
  have e55 := hiStepP 2739 91354156759741429207320177346100782787547613771 1060204328224240817797591676708637763598701824655 663420728704703225981420000034860071859538858140 1173239823378244192734191297018966099000481782291 (by decide!)
  have e56 := hiStepP 2738 663420728704703225981420000034860071859538858140 1173239823378244192734191297018966099000481782291 653254523678595630039762673368062333091649086475 1095704474141538892992755922431056707738549976600 (by decide!)
  have e57 := hiStepP 2737 653254523678595630039762673368062333091649086475 1095704474141538892992755922431056707738549976600 304428972506987048816034876043891905497230497991 792078540118660913464740040540223884204669478623 (by decide!)
  have e58 := hiStepP 2736 304428972506987048816034876043891905497230497991 792078540118660913464740040540223884204669478623 503915630817523426189425863489624197670166968975 1204471265225206930528180447853146686834988063824 (by decide!)
  have e59 := hiStepP 2735 503915630817523426189425863489624197670166968975 1204471265225206930528180447853146686834988063824 1115398826928605925673390880505658728927232999222 100496445504602635441514502773021162735103615846 (by decide!)
  have e60 := hiStepP 2734 1115398826928605925673390880505658728927232999222 100496445504602635441514502773021162735103615846 1036515415275072306790365124551255443253109225388 936734433870510733710400071205823412089193223370 (by decide!)
  have e61 := hiStepP 2733 1036515415275072306790365124551255443253109225388 936734433870510733710400071205823412089193223370 112845749692158483399253052368530838234716042379 1049399403747340072638308934107144235824388907073 (by decide!)
  have e62 := hiStepP 2732 112845749692158483399253052368530838234716042379 1049399403747340072638308934107144235824388907073 654920295096533387377165767951143991967061917470 1126970084234851220089679578300549568656590905183 (by decide!)
  have e63 := hiStepP 2731 654920295096533387377165767951143991967061917470 1126970084234851220089679578300549568656590905183 1335234456530837211570875319959840795762939080982 254204605857945318109468517073653096701065768521 (by decide!)
  have e64 := hiStepP 2730 1335234456530837211570875319959840795762939080982 254204605857945318109468517073653096701065768521 1371427508732378161105807652626975445760130955381 1260215325517106683116008663558923832544729830972 (by decide!)
  have e65 := hiStepP 2729 1371427508732378161105807652626975445760130955381 1260215325517106683116008663558923832544729830972 891772822060944508773424823155818450859575405241 368463673161591501300771438236774548744564636805 (by decide!)
  have e66 := hiStepP 2728 891772822060944508773424823155818450859575405241 368463673161591501300771438236774548744564636805 933397938597554141614655279901429394600807355343 1301415160144772645239682373246226679888685051722 (by decide!)
  have e67 := hiStepP 2727 933397938597554141614655279901429394600807355343 1301415160144772645239682373246226679888685051722 183802799378300988724025156345370950654478705758 1117701673190812483067778684772933587963795655444 (by decide!)
  have e68 := hiStepP 2726 183802799378300988724025156345370950654478705758 1117701673190812483067778684772933587963795655444 93103674204785936371852036013268710783054594242 1207664817091727135832166427330560399418443664342 (by decide!)
  have e69 := hiStepP 2725 93103674204785936371852036013268710783054594242 1207664817091727135832166427330560399418443664342 196982982318791905926580436931699393087240606719 1376058207820572149117079748041491620940546611241 (by decide!)
  have e70 := hiStepP 2724 196982982318791905926580436931699393087240606719 1376058207820572149117079748041491620940546611241 122819631953500699364446036453757129083684136573 1304771451170065742041489768745585654364167519828 (by decide!)
  have e71 := hiStepP 2723 122819631953500699364446036453757129083684136573 1304771451170065742041489768745585654364167519828 1229652544804537092264198094628960371608239592230 296343388368335064468397158467580326268046765426 (by decide!)
  have e72 := hiStepP 2722 1229652544804537092264198094628960371608239592230 296343388368335064468397158467580326268046765426 180577407220515358529560965877962827817091199653 252826486479542644174697503051586832910441029591 (by decide!)
  have e73 := hiStepP 2721 180577407220515358529560965877962827817091199653 252826486479542644174697503051586832910441029591 654633178292348761983669967866382091071480320133 541727431029844306328501790067819869289632124754 (by decide!)
  have e74 := hiStepP 2720 654633178292348761983669967866382091071480320133 541727431029844306328501790067819869289632124754 1045236168962538511084745888552589925171029661066 1335678668936163407174259464193249959527870798552 (by decide!)
  have e75 := hiStepP 2719 1045236168962538511084745888552589925171029661066 1335678668936163407174259464193249959527870798552 212910726485112788969677532521560307587480949466 1168890112550907005973695857912226437676536727554 (by decide!)
  have e76 := hiStepP 2718 212910726485112788969677532521560307587480949466 1168890112550907005973695857912226437676536727554 276240890239949557344056265706221317193153973432 1443611695057396414710188350548122955071897306298 (by decide!)
  have e77 := hiStepP 2717 276240890239949557344056265706221317193153973432 1443611695057396414710188350548122955071897306298 1305426103714932767118841721629226948169991034783 139616359639140729508244830553460250347118531365 (by decide!)
  have e78 := hiStepP 2716 1305426103714932767118841721629226948169991034783 139616359639140729508244830553460250347118531365 1039339799252823434067860530477109754521056398559 996063389181894390540177236880595752829913096186 (by decide!)
  have e79 := hiStepP 2715 1039339799252823434067860530477109754521056398559 996063389181894390540177236880595752829913096186 1267411492246148921093688584040171316432471658043 642121088050059106126782116109136350923153363393 (by decide!)
  have e80 := hiStepP 2714 1267411492246148921093688584040171316432471658043 642121088050059106126782116109136350923153363393 1170472114829761319547998809750701577932568124086 1081775391587281925357487833699462803324728740727 (by decide!)
  have e81 := hiStepP 2713 1170472114829761319547998809750701577932568124086 1081775391587281925357487833699462803324728740727 72181068551396994505843309880208306798772287413 1015325966923769696844556289384763536157742038210 (by decide!)
  have e82 := hiStepP 2712 72181068551396994505843309880208306798772287413 1015325966923769696844556289384763536157742038210 1431505817600832364612214229674590804093007777978 430454089932400637156314568474018841176758168696 (by decide!)
  have e83 := hiStepP 2711 1431505817600832364612214229674590804093007777978 430454089932400637156314568474018841176758168696 927990028617043742905204265807550330318899760438 1335429387103589150801937505306316116599299105102 (by decide!)
  have e84 := hiStepP 2710 927990028617043742905204265807550330318899760438 1335429387103589150801937505306316116599299105102 1266385602592583430896586246284603815820653828548 298117085809163031755656589721873813066682923146 (by decide!)
  have e85 := hiStepP 2709 1266385602592583430896586246284603815820653828548 298117085809163031755656589721873813066682923146 463024958441635872529358367052525918334382153212 577383854133140270086244541804837740147920889206 (by decide!)
  have e86 := hiStepP 2708 463024958441635872529358367052525918334382153212 577383854133140270086244541804837740147920889206 414294732221726506696001126386538939302042446707 260904072974176318572367125533155291619032616453 (by decide!)
  have e87 := hiStepP 2707 414294732221726506696001126386538939302042446707 260904072974176318572367125533155291619032616453 241187349962922695415150682446634267913281876817 43093501128448824087996160130218078057632955732 (by decide!)
  have e88 := hiStepP 2706 241187349962922695415150682446634267913281876817 43093501128448824087996160130218078057632955732 1044482065039037827881933283921660476488735457851 1013174704104313876090975750022735226269266083695 (by decide!)
  have e89 := hiStepP 2705 1044482065039037827881933283921660476488735457851 1013174704104313876090975750022735226269266083695 1120010212086916421556466080485843736872321907973 669884899701939763548992985946489699744729956970 (by decide!)
  have e90 := hiStepP 2704 1120010212086916421556466080485843736872321907973 669884899701939763548992985946489699744729956970 341555989554250212432826196762062500606184297465 448273898671779137663871199994463876427800777107 (by decide!)
  have e91 := hiStepP 2703 341555989554250212432826196762062500606184297465 448273898671779137663871199994463876427800777107 163567207505735620280422109175855498671760211098 468935935529482617865428572258780491942918089993 (by decide!)
  have e92 := hiStepP 2702 163567207505735620280422109175855498671760211098 468935935529482617865428572258780491942918089993 537694569777748642809520557759793445580583016185 68794878928465396086509614881269350470416792560 (by decide!)
  have e93 := hiStepP 2701 537694569777748642809520557759793445580583016185 68794878928465396086509614881269350470416792560 176886933471873334623614272938499222825271090081 108275351245221459493957655677224647117686841425 (by decide!)
  have e94 := hiStepP 2700 176886933471873334623614272938499222825271090081 108275351245221459493957655677224647117686841425 958977854167669741193345050211900631050105095138 1033621590086536073507073038890816611617039557555 (by decide!)
  have e95 := hiStepP 2699 958977854167669741193345050211900631050105095138 1033621590086536073507073038890816611617039557555 72871426281028147488558202811814483235231467282 1060770748779750899735795868923314195058146026657 (by decide!)
  have e96 := hiStepP 2698 72871426281028147488558202811814483235231467282 1060770748779750899735795868923314195058146026657 1281029713235446130140103798486166649060889572886 511975012400852232560286374745204638763644850871 (by decide!)
  have e97 := hiStepP 2697 1281029713235446130140103798486166649060889572886 511975012400852232560286374745204638763644850871 10929138516079678222854126650963035440611550473 503993069264461179304385744089967943381294053310 (by decide!)
  have e98 := hiStepP 2696 10929138516079678222854126650963035440611550473 503993069264461179304385744089967943381294053310 1057147497328026956774823635342178391531157446086 1286930592624631240728639161844101081838216751736 (by decide!)
  have e99 := hiStepP 2695 1057147497328026956774823635342178391531157446086 1286930592624631240728639161844101081838216751736 618822108495110030763235336957034062926386571335 805302886489618872626676041241283975487504974399 (by decide!)
  have t0 := e0
  have t1 := t0.trans e1
  have t2 := t1.trans e2
  have t3 := t2.trans e3
  have t4 := t3.trans e4
  have t5 := t4.trans e5
  have t6 := t5.trans e6
  have t7 := t6.trans e7
  have t8 := t7.trans e8
  have t9 := t8.trans e9
  have t10 := t9.trans e10
  have t11 := t10.trans e11
  have t12 := t11.trans e12
  have t13 := t12.trans e13
  have t14 := t13.trans e14
  have t15 := t14.trans e15
  have t16 := t15.trans e16
  have t17 := t16.trans e17
  have t18 := t17.trans e18
  have t19 := t18.trans e19
  have t20 := t19.trans e20
  have t21 := t20.trans e21
  have t22 := t21.trans e22
  have t23 := t22.trans e23
  have t24 := t23.trans e24
  have t25 := t24.trans e25
  have t26 := t25.trans e26
  have t27 := t26.trans e27
  have t28 := t27.trans e28
  have t29 := t28.trans e29
  have t30 := t29.trans e30
  have t31 := t30.trans e31
  have t32 := t31.trans e32
  have t33 := t32.trans e33
  have t34 := t33.trans e34
  have t35 := t34.trans e35
  have t36 := t35.trans e36
  have t37 := t36.trans e37
  have t38 := t37.trans e38
  have t39 := t38.trans e39
  have t40 := t39.trans e40
  have t41 := t40.trans e41
  have t42 := t41.trans e42
  have t43 := t42.trans e43
  have t44 := t43.trans e44
  have t45 := t44.trans e45
  have t46 := t45.trans e46
  have t47 := t46.trans e47
  have t48 := t47.trans e48
  have t49 := t48.trans e49
  have t50 := t49.trans e50
  have t51 := t50.trans e51
  have t52 := t51.trans e52
  have t53 := t52.trans e53
  have t54 := t53.trans e54
  have t55 := t54.trans e55
  have t56 := t55.trans e56
  have t57 := t56.trans e57
  have t58 := t57.trans e58
  have t59 := t58.trans e59
  have t60 := t59.trans e60
  have t61 := t60.trans e61
  have t62 := t61.trans e62
  have t63 := t62.trans e63
  have t64 := t63.trans e64
  have t65 := t64.trans e65
  have t66 := t65.trans e66
  have t67 := t66.trans e67
  have t68 := t67.trans e68
  have t69 := t68.trans e69
  have t70 := t69.trans e70
  have t71 := t70.trans e71
  have t72 := t71.trans e72
  have t73 := t72.trans e73
  have t74 := t73.trans e74
  have t75 := t74.trans e75
  have t76 := t75.trans e76
  have t77 := t76.trans e77
  have t78 := t77.trans e78
  have t79 := t78.trans e79
  have t80 := t79.trans e80
  have t81 := t80.trans e81
  have t82 := t81.trans e82
  have t83 := t82.trans e83
  have t84 := t83.trans e84
  have t85 := t84.trans e85
  have t86 := t85.trans e86
  have t87 := t86.trans e87
  have t88 := t87.trans e88
  have t89 := t88.trans e89
  have t90 := t89.trans e90
  have t91 := t90.trans e91
  have t92 := t91.trans e92
  have t93 := t92.trans e93
  have t94 := t93.trans e94
  have t95 := t94.trans e95
  have t96 := t95.trans e96
  have t97 := t96.trans e97
  have t98 := t97.trans e98
  have t99 := t98.trans e99
  exact t99

theorem hiChainSeg14 : hiLoop SHA_1 (strBytes "pencil") 2695
    (unpackBytes 20 618822108495110030763235336957034062926386571335)
    (unpackBytes 20 805302886489618872626676041241283975487504974399) =
    hiLoop SHA_1 (strBytes "pencil") 2595
      (unpackBytes 20 1266365796963980818233316994268963118241220492061)
      (unpackBytes 20 248246085843370350949607141594913245528855666632) := by
  have e0 := hiStepP 2694 618822108495110030763235336957034062926386571335 805302886489618872626676041241283975487504974399 1260729221848896643502372470584057113224016113121 467290726532515784945232348984516232208938053598 (by decide!)
  have e1 := hiStepP 2693 1260729221848896643502372470584057113224016113121 467290726532515784945232348984516232208938053598 656195336578922841168895292913143346714653496065 200770429048569192759514577768398940183670963423 (by decide!)
  have e2 := hiStepP 2692 656195336578922841168895292913143346714653496065 200770429048569192759514577768398940183670963423 1321381224655144894618334327873319501973702236783 1121060198884273068715613843863328796816135481008 (by decide!)
  have e3 := hiStepP 2691 1321381224655144894618334327873319501973702236783 1121060198884273068715613843863328796816135481008 1254907018270983253654502493098811240427806634786 180232697454878251160842563933631683699832870290 (by decide!)
  have e4 := hiStepP 2690 1254907018270983253654502493098811240427806634786 180232697454878251160842563933631683699832870290 334724018075746680187778508467851214683632695715 212311690820117948934235169412839684743147858993 (by decide!)
  have e5 := hiStepP 2689 334724018075746680187778508467851214683632695715 212311690820117948934235169412839684743147858993 117426925010380546659049171654909607778374588937 283352600044593992051833127324462515979810747960 (by decide!)
  have e6 := hiStepP 2688 117426925010380546659049171654909607778374588937 283352600044593992051833127324462515979810747960 1106740567368168613706461284426884442585622875598 1372879777302399630123807700306331719230737628150 (by decide!)
  have e7 := hiStepP 2687 1106740567368168613706461284426884442585622875598 1372879777302399630123807700306331719230737628150 1142545277227235738577984146002586639494870375436 321745263512911315094220851058634481451028883450 (by decide!)
  have e8 := hiStepP 2686 1142545277227235738577984146002586639494870375436 321745263512911315094220851058634481451028883450 524711013529744363961236136026330221621980977050 569189364277041441154103296584114659249685196896 (by decide!)
  have e9 := hiStepP 2685 524711013529744363961236136026330221621980977050 569189364277041441154103296584114659249685196896 621309726330727325660858134292621517658784089529 87935380715183997491285038171119253267003454937 (by decide!)
  have e10 := hiStepP 2684 621309726330727325660858134292621517658784089529 87935380715183997491285038171119253267003454937 1146198184823068175271958756296671614592359153322 1139710722566763242771704538529483417187400977267 (by decide!)
  have e11 := hiStepP 2683 1146198184823068175271958756296671614592359153322 1139710722566763242771704538529483417187400977267 109977779119702344408398738603795305285147712235 1215345274419928440997427638278890390011078431128 (by decide!)
  have e12 := hiStepP 2682 109977779119702344408398738603795305285147712235 1215345274419928440997427638278890390011078431128 885331976735173240978598728796409311837844766877 456415339087043677784743794780526269296989655301 (by decide!)
  have e13 := hiStepP 2681 885331976735173240978598728796409311837844766877 456415339087043677784743794780526269296989655301 1135015974982425116133010699648376785068833391355 783508743121817572721025393413627547261749629950 (by decide!)
  have e14 := hiStepP 2680 1135015974982425116133010699648376785068833391355 783508743121817572721025393413627547261749629950 635874176424514052748506787019041768702334863498 1315123273613588764518522720425845066891712600948 (by decide!)
  have e15 := hiStepP 2679 635874176424514052748506787019041768702334863498 1315123273613588764518522720425845066891712600948 397137645100511269200178211301743570772548011658 935124462388399156282651121903689097736927796734 (by decide!)
  have e16 := hiStepP 2678 397137645100511269200178211301743570772548011658 935124462388399156282651121903689097736927796734 307426701899468509112020495996580977069501552597 856818600461165566799045241671732698924079565355 (by decide!)
  have e17 := hiStepP 2677 307426701899468509112020495996580977069501552597 856818600461165566799045241671732698924079565355 575024467290828512669637620525883848421901562251 1385454528687440627575387609571124260945514314656 (by decide!)
  have e18 := hiStepP 2676 575024467290828512669637620525883848421901562251 1385454528687440627575387609571124260945514314656 706617223929165607419785257703391096865930872251 784453967506535007522999927309200199545324158491 (by decide!)
  have e19 := hiStepP 2675 706617223929165607419785257703391096865930872251 784453967506535007522999927309200199545324158491 297847202968770031416754647248913570737290288077 1080511513755392173255004797776722036987098342870 (by decide!)
  have e20 := hiStepP 2674 297847202968770031416754647248913570737290288077 1080511513755392173255004797776722036987098342870 427781407212580937332884326681929208539176058846 1413993942201140007553350216296634021085893728776 (by decide!)
  have e21 := hiStepP 2673 427781407212580937332884326681929208539176058846 1413993942201140007553350216296634021085893728776 282819085535140455597287028370747156909462714881 1131264320983838396298468884485087892095208087561 (by decide!)
  have e22 := hiStepP 2672 282819085535140455597287028370747156909462714881 1131264320983838396298468884485087892095208087561 477235342996639131671712636664203563558590968186 854572621637543573760508384499953755722155692403 (by decide!)
  have e23 := hiStepP 2671 477235342996639131671712636664203563558590968186 854572621637543573760508384499953755722155692403 623728747130055627126761149524683429226507660263 1421196723766418571566056793036917551154961447572 (by decide!)
  have e24 := hiStepP 2670 623728747130055627126761149524683429226507660263 1421196723766418571566056793036917551154961447572 209564842093842466612669670484167298923328261452 1257530321569564511215763896840662560385707063256 (by decide!)
  have e25 := hiStepP 2669 209564842093842466612669670484167298923328261452 1257530321569564511215763896840662560385707063256 280584281264794542617070063528809682759313779200 1355178105224108772267045428369919768073296371160 (by decide!)
  have e26 := hiStepP 2668 280584281264794542617070063528809682759313779200 1355178105224108772267045428369919768073296371160 234930404676307077607318636543343919154753591004 1120543931490823627994567354332646462877286337284 (by decide!)
  have e27 := hiStepP 2667 234930404676307077607318636543343919154753591004 1120543931490823627994567354332646462877286337284 342516228094974274415323919876094924468153171325 1459898078013547297999379488962207572045737375353 (by decide!)
  have e28 := hiStepP 2666 342516228094974274415323919876094924468153171325 1459898078013547297999379488962207572045737375353 123408731139223138413835096594778452856053153439 1336746982172433628019200060229493460432523200742 (by decide!)
  have e29 := hiStepP 2665 123408731139223138413835096594778452856053153439 1336746982172433628019200060229493460432523200742 230895706121299007287771549662062098523422352341 1109427793710919299055114018251427041151490190131 (by decide!)
  have e30 := hiStepP 2664 230895706121299007287771549662062098523422352341 1109427793710919299055114018251427041151490190131 844482268192103410384568055489813176738935202593 466700543644892348847426189936395362047613470738 (by decide!)
  have e31 := hiStepP 2663 844482268192103410384568055489813176738935202593 466700543644892348847426189936395362047613470738 1314412750787822314791566803235492577679661036657 1047685970211895989683986195092414833580330155107 (by decide!)
  have e32 := hiStepP 2662 1314412750787822314791566803235492577679661036657 1047685970211895989683986195092414833580330155107 1067139086526607745972388937039498709744639607732 76713775366302956547576959493777587007507824599 (by decide!)
  have e33 := hiStepP 2661 1067139086526607745972388937039498709744639607732 76713775366302956547576959493777587007507824599 900779318187123296871742292968476594113660395092 825832964172008435491582792836060490863725207939 (by decide!)
  have e34 := hiStepP 2660 900779318187123296871742292968476594113660395092 825832964172008435491582792836060490863725207939 348969204020318268333638053354763591011789748448 990686954315436205789150829198661736350917581155 (by decide!)
  have e35 := hiStepP 2659 348969204020318268333638053354763591011789748448 990686954315436205789150829198661736350917581155 560033203595860153354598662746601854142155693149 1185311229691702967920854353794673203214222771518 (by decide!)
  have e36 := hiStepP 2658 560033203595860153354598662746601854142155693149 1185311229691702967920854353794673203214222771518 1275312023811261947433026313649241028367700096285 97003500454765893398090686445525559953827049507 (by decide!)
  have e37 := hiStepP 2657 1275312023811261947433026313649241028367700096285 97003500454765893398090686445525559953827049507 321193408724628731394222300828653946499508516349 232619602408489948818470519754584690821131175390 (by decide!)
  have e38 := hiStepP 2656 321193408724628731394222300828653946499508516349 232619602408489948818470519754584690821131175390 101896915699099443522610963716327378619399005608 327691432955063245019477952375623302224931283062 (by decide!)
  have e39 := hiStepP 2655 101896915699099443522610963716327378619399005608 327691432955063245019477952375623302224931283062 1451525317056425023046056641481486195056233081232 1136949516678902494622590170080337095934321068518 (by decide!)
  have e40 := hiStepP 2654 1451525317056425023046056641481486195056233081232 1136949516678902494622590170080337095934321068518 112083488563621039227805974145548106852131536027 1213325967074776699772507573651537636862775162237 (by decide!)
  have e41 := hiStepP 2653 112083488563621039227805974145548106852131536027 1213325967074776699772507573651537636862775162237 1011145733095069024551604781955460819016830385371 580047676310438552123216302049655061158448400806 (by decide!)
  have e42 := hiStepP 2652 1011145733095069024551604781955460819016830385371 580047676310438552123216302049655061158448400806 1037149367911321108926439421729890205315940236534 1188571015479193812163149523772804971398610105680 (by decide!)
  have e43 := hiStepP 2651 1037149367911321108926439421729890205315940236534 1188571015479193812163149523772804971398610105680 995111363918881546435047086805115336324685563033 722165742037617859615374972484906844899828576713 (by decide!)
  have e44 := hiStepP 2650 995111363918881546435047086805115336324685563033 722165742037617859615374972484906844899828576713 1269178970005976272100995577523157054301290370828 914530925946953206812051422655656213850761471685 (by decide!)
  have e45 := hiStepP 2649 1269178970005976272100995577523157054301290370828 914530925946953206812051422655656213850761471685 1217207375770398761418989044708146137070638401730 668075555063293015531126252456753269184333032967 (by decide!)
  have e46 := hiStepP 2648 1217207375770398761418989044708146137070638401730 668075555063293015531126252456753269184333032967 1446541711149899990789251966193269366816467413530 778667386852222862454914897212750672966547555357 (by decide!)
  have e47 := hiStepP 2647 1446541711149899990789251966193269366816467413530 778667386852222862454914897212750672966547555357 197993351574346757309616446130162865229059868996 975054355206506866946324643996107045530666143065 (by decide!)
  have e48 := hiStepP 2646 197993351574346757309616446130162865229059868996 975054355206506866946324643996107045530666143065 1411870737440041893575100482678991991220773893007 533891881402760112299462605656546643179472338646 (by decide!)
  have e49 := hiStepP 2645 1411870737440041893575100482678991991220773893007 533891881402760112299462605656546643179472338646 968504051364284218725178739180627739477800433266 1393745306788671262187140240574362323280164948132 (by decide!)
  have e50 := hiStepP 2644 968504051364284218725178739180627739477800433266 1393745306788671262187140240574362323280164948132 1150495388944989037600160455775002294148899846516 351912391815376962181804723614777357247492567504 (by decide!)
  have e51 := hiStepP 2643 1150495388944989037600160455775002294148899846516 351912391815376962181804723614777357247492567504 605463777571923805644335827121485758299792864966 500465259733970023855436502791526696341878818582 (by decide!)
  have e52 := hiStepP 2642 605463777571923805644335827121485758299792864966 500465259733970023855436502791526696341878818582 1283984355398678433878393277954616525738477702860 1046495474737844483790155253856287919367583828442 (by decide!)
  have e53 := hiStepP 2641 1283984355398678433878393277954616525738477702860 1046495474737844483790155253856287919367583828442 634821146303523734215326848678976422592005494545 1235910759890915468515257946826915325881068379851 (by decide!)
  have e54 := hiStepP 2640 634821146303523734215326848678976422592005494545 1235910759890915468515257946826915325881068379851 784728048323276993920955491129924189793784918313 462613240725836683500741224229310631894473125858 (by decide!)
  have e55 := hiStepP 2639 784728048323276993920955491129924189793784918313 462613240725836683500741224229310631894473125858 492009806766093006259920710454787175955968229070 40814553516287821745782537571645009646653067564 (by decide!)
  have e56 := hiStepP 2638 492009806766093006259920710454787175955968229070 40814553516287821745782537571645009646653067564 985000417388748351976308585188664390329047421079 980134681809447149070476230891604513389854015931 (by decide!)
  have e57 := hiStepP 2637 985000417388748351976308585188664390329047421079 980134681809447149070476230891604513389854015931 78486569155547795962540551985226680327572690443 948087607035807976313578737908391018013951612848 (by decide!)
  have e58 := hiStepP 2636 78486569155547795962540551985226680327572690443 948087607035807976313578737908391018013951612848 465171517001768472304818437403729668803729132263 1412500353304393569754375359929967526235081596247 (by decide!)
  have e59 := hiStepP 2635 465171517001768472304818437403729668803729132263 1412500353304393569754375359929967526235081596247 935684092495433831784905556753513828395159690894 482748610290641806397377771268811922521463473113 (by decide!)
  have e60 := hiStepP 2634 935684092495433831784905556753513828395159690894 482748610290641806397377771268811922521463473113 711785925948463536383076733525196089881689984649 229132486257601880933638450297969488623989050704 (by decide!)
  have e61 := hiStepP 2633 711785925948463536383076733525196089881689984649 229132486257601880933638450297969488623989050704 283672925461341847223437868114833426463270286908 146001806395507507217920409946723358503897987948 (by decide!)
  have e62 := hiStepP 2632 283672925461341847223437868114833426463270286908 146001806395507507217920409946723358503897987948 995269824988443469262530502121604209191323661948 1049194640687867926135152652352297773502409444624 (by decide!)
  have e63 := hiStepP 2631 995269824988443469262530502121604209191323661948 1049194640687867926135152652352297773502409444624 1356696218122898810598373314992729486606170497651 516036371544027047268163179560219674546774552419 (by decide!)
  have e64 := hiStepP 2630 1356696218122898810598373314992729486606170497651 516036371544027047268163179560219674546774552419 1354185304838531680660571056132443809011352176886 1046531803502443335229171537775311118568335255445 (by decide!)
  have e65 := hiStepP 2629 1354185304838531680660571056132443809011352176886 1046531803502443335229171537775311118568335255445 1106026406652836099021621030525105890819861551942 678922108972434018161089346050020504811419745491 (by decide!)
  have e66 := hiStepP 2628 1106026406652836099021621030525105890819861551942 678922108972434018161089346050020504811419745491 1044060242627208472298606760229063341354656092525 1096364249917768459643522590445199642833880247742 (by decide!)
  have e67 := hiStepP 2627 1044060242627208472298606760229063341354656092525 1096364249917768459643522590445199642833880247742 31589833957975391169565085363578428090666100243 1127573576036247467305434638936976417661187050413 (by decide!)
  have e68 := hiStepP 2626 31589833957975391169565085363578428090666100243 1127573576036247467305434638936976417661187050413 1376228456211884245454211827564362223969770521187 300125016854083061643581212746504426959191476686 (by decide!)
  have e69 := hiStepP 2625 1376228456211884245454211827564362223969770521187 300125016854083061643581212746504426959191476686 509536637586931330522047672677409378847779350655 626973911320085374153652435971818169826996871601 (by decide!)
  have e70 := hiStepP 2624 509536637586931330522047672677409378847779350655 626973911320085374153652435971818169826996871601 568550318226245744119039415779485069419113623179 81460970716771222884228385478087678295700885306 (by decide!)
  have e71 := hiStepP 2623 568550318226245744119039415779485069419113623179 81460970716771222884228385478087678295700885306 694964500605758895721751251242301017179749478185 685070454193294974506748862111556332972833677331 (by decide!)
  have e72 := hiStepP 2622 694964500605758895721751251242301017179749478185 685070454193294974506748862111556332972833677331 282138172258942122918992274107475755125180907038 402932326220242078424961734285349557911327874573 (by decide!)
  have e73 := hiStepP 2621 282138172258942122918992274107475755125180907038 402932326220242078424961734285349557911327874573 805957927692620223317207462515045226938724540308 1163039180647642086997415657301352755729504944537 (by decide!)
  have e74 := hiStepP 2620 805957927692620223317207462515045226938724540308 1163039180647642086997415657301352755729504944537 377284249230335844217635425437360555880847614749 786022671731320656123737210662928112926867448452 (by decide!)
  have e75 := hiStepP 2619 377284249230335844217635425437360555880847614749 786022671731320656123737210662928112926867448452 332707786825943698555781059101152059353768033948 1027113421009421628917185502060773801754308090904 (by decide!)
  have e76 := hiStepP 2618 332707786825943698555781059101152059353768033948 1027113421009421628917185502060773801754308090904 254543198005742397068680118045112226188016530970 910567936712856730297986995616524381205979146754 (by decide!)
  have e77 := hiStepP 2617 254543198005742397068680118045112226188016530970 910567936712856730297986995616524381205979146754 1148388820572366495180776150617556303243365830334 492953653683553832495863976376888372141766796476 (by decide!)
  have e78 := hiStepP 2616 1148388820572366495180776150617556303243365830334 492953653683553832495863976376888372141766796476 902828295578246670200494303603464493067142508143 1144584954041070933302786932191138934675355585235 (by decide!)
  have e79 := hiStepP 2615 902828295578246670200494303603464493067142508143 1144584954041070933302786932191138934675355585235 1309755108794381332773444836217814040408755289926 257429146493483030637201760973566387598642509205 (by decide!)
  have e80 := hiStepP 2614 1309755108794381332773444836217814040408755289926 257429146493483030637201760973566387598642509205 1093206004715709375748350114662998473474701174694 835888452148635352018758057615307247212603855411 (by decide!)
  have e81 := hiStepP 2613 1093206004715709375748350114662998473474701174694 835888452148635352018758057615307247212603855411 1452569156732879311244841784409099107106796314667 616704541364245402203689947405409411887935058456 (by decide!)
  have e82 := hiStepP 2612 1452569156732879311244841784409099107106796314667 616704541364245402203689947405409411887935058456 1212905671051758947158855688550577976796299990623 1052983929047279528322425114827890068937389237319 (by decide!)
  have e83 := hiStepP 2611 1212905671051758947158855688550577976796299990623 1052983929047279528322425114827890068937389237319 940648603181201463193833564516569439011192087445 163894696146432809022379478128708847121429120978 (by decide!)
  have e84 := hiStepP 2610 940648603181201463193833564516569439011192087445 163894696146432809022379478128708847121429120978 581207728744416742368492164220348717210153042424 693531861711178699620150016980229144182150366762 (by decide!)
  have e85 := hiStepP 2609 581207728744416742368492164220348717210153042424 693531861711178699620150016980229144182150366762 344645087298031655419914087851444718246596036011 394753919213934176019434649096962796301539492737 (by decide!)
  have e86 := hiStepP 2608 344645087298031655419914087851444718246596036011 394753919213934176019434649096962796301539492737 882960139501891260908403500131654791713318920997 1276231014921836335676942449736363109023667986596 (by decide!)
  have e87 := hiStepP 2607 882960139501891260908403500131654791713318920997 1276231014921836335676942449736363109023667986596 71175996924653050930283799048951756730488950472 1210206545288129097244028639687713237055527562860 (by decide!)
  have e88 := hiStepP 2606 71175996924653050930283799048951756730488950472 1210206545288129097244028639687713237055527562860 1012875534108160818968952132043073201527687064012 562723171981737717019738346405572403367122044832 (by decide!)
  have e89 := hiStepP 2605 1012875534108160818968952132043073201527687064012 562723171981737717019738346405572403367122044832 373476834709602556724827364937102655100482899214 205393259024626241944288220847329440867097135790 (by decide!)
  have e90 := hiStepP 2604 373476834709602556724827364937102655100482899214 205393259024626241944288220847329440867097135790 316600809366206634703494925382083043503784783582 117368295907315741882780643755613694458620060784 (by decide!)
  have e91 := hiStepP 2603 316600809366206634703494925382083043503784783582 117368295907315741882780643755613694458620060784 1163997542474470519252111061035919720874356814473 1275548053885763303730317499107074959446521157369 (by decide!)
  have e92 := hiStepP 2602 1163997542474470519252111061035919720874356814473 1275548053885763303730317499107074959446521157369 654947293118746826048438358988296665613176132275 992413105845954779198458855258452730450903286858 (by decide!)
  have e93 := hiStepP 2601 654947293118746826048438358988296665613176132275 992413105845954779198458855258452730450903286858 335377146352714211175013658548214718896495990238 864455234365026781822313412674093290208471208340 (by decide!)
  have e94 := hiStepP 2600 335377146352714211175013658548214718896495990238 864455234365026781822313412674093290208471208340 238337569219259314265283091881008822574703147483 1089456777599793113993826944453467702692795754575 (by decide!)
  have e95 := hiStepP 2599 238337569219259314265283091881008822574703147483 1089456777599793113993826944453467702692795754575 402796506775528728857178902019411018295735764930 1417857279320548313902469452249102079610781822861 (by decide!)
  have e96 := hiStepP 2598 402796506775528728857178902019411018295735764930 1417857279320548313902469452249102079610781822861 1310241091322137985152879804233129838561474899035 170463172887501344618065449616871598775849059286 (by decide!)
  have e97 := hiStepP 2597 1310241091322137985152879804233129838561474899035 170463172887501344618065449616871598775849059286 820615310471853193066414422002831919329547137500 835798176673365063945150821103389897748335440394 (by decide!)
  have e98 := hiStepP 2596 820615310471853193066414422002831919329547137500 835798176673365063945150821103389897748335440394 575449790244803610245348317170385122398317090527 1408212887763894726731849403582759807132351767765 (by decide!)
  have e99 := hiStepP 2595 575449790244803610245348317170385122398317090527 1408212887763894726731849403582759807132351767765 1266365796963980818233316994268963118241220492061 248246085843370350949607141594913245528855666632 (by decide!)
  have t0 := e0
  have t1 := t0.trans e1
  have t2 := t1.trans e2
  have t3 := t2.trans e3
  have t4 := t3.trans e4
  have t5 := t4.trans e5
  have t6 := t5.trans e6
  have t7 := t6.trans e7
  have t8 := t7.trans e8
  have t9 := t8.trans e9
  have t10 := t9.trans e10
  have t11 := t10.trans e11
  have t12 := t11.trans e12
  have t13 := t12.trans e13
  have t14 := t13.trans e14
  have t15 := t14.trans e15
  have t16 := t15.trans e16
  have t17 := t16.trans e17
  have t18 := t17.trans e18
  have t19 := t18.trans e19
  have t20 := t19.trans e20
  have t21 := t20.trans e21
  have t22 := t21.trans e22
  have t23 := t22.trans e23
  have t24 := t23.trans e24
  have t25 := t24.trans e25
  have t26 := t25.trans e26
  have t27 := t26.trans e27
  have t28 := t27.trans e28
  have t29 := t28.trans e29
  have t30 := t29.trans e30
  have t31 := t30.trans e31
  have t32 := t31.trans e32
  have t33 := t32.trans e33
  have t34 := t33.trans e34
  have t35 := t34.trans e35
  have t36 := t35.trans e36
  have t37 := t36.trans e37
  have t38 := t37.trans e38
  have t39 := t38.trans e39
  have t40 := t39.trans e40
  have t41 := t40.trans e41
  have t42 := t41.trans e42
  have t43 := t42.trans e43
  have t44 := t43.trans e44
  have t45 := t44.trans e45
  have t46 := t45.trans e46
  have t47 := t46.trans e47
  have t48 := t47.trans e48
  have t49 := t48.trans e49
  have t50 := t49.trans e50
  have t51 := t50.trans e51
  have t52 := t51.trans e52
  have t53 := t52.trans e53
  have t54 := t53.trans e54
  have t55 := t54.trans e55
  have t56 := t55.trans e56
  have t57 := t56.trans e57
  have t58 := t57.trans e58
  have t59 := t58.trans e59
  have t60 := t59.trans e60
  have t61 := t60.trans e61
  have t62 := t61.trans e62
  have t63 := t62.trans e63
  have t64 := t63.trans e64
  have t65 := t64.trans e65
  have t66 := t65.trans e66
  have t67 := t66.trans e67
  have t68 := t67.trans e68
  have t69 := t68.trans e69
  have t70 := t69.trans e70
  have t71 := t70.trans e71
  have t72 := t71.trans e72
  have t73 := t72.trans e73
  have t74 := t73.trans e74
  have t75 := t74.trans e75
  have t76 := t75.trans e76
  have t77 := t76.trans e77
  have t78 := t77.trans e78
  have t79 := t78.trans e79
  have t80 := t79.trans e80
  have t81 := t80.trans e81
  have t82 := t81.trans e82
  have t83 := t82.trans e83
  have t84 := t83.trans e84
  have t85 := t84.trans e85
  have t86 := t85.trans e86
  have t87 := t86.trans e87
  have t88 := t87.trans e88
  have t89 := t88.trans e89
  have t90 := t89.trans e90
  have t91 := t90.trans e91
  have t92 := t91.trans e92
  have t93 := t92.trans e93
  have t94 := t93.trans e94
  have t95 := t94.trans e95
  have t96 := t95.trans e96
  have t97 := t96.trans e97
  have t98 := t97.trans e98
  have t99 := t98.trans e99
  exact t99

theorem hiChainSeg15 : hiLoop SHA_1 (strBytes "pencil") 2595
    (unpackBytes 20 1266365796963980818233316994268963118241220492061)
    (unpackBytes 20 248246085843370350949607141594913245528855666632) =
    hiLoop SHA_1 (strBytes "pencil") 2495
      (unpackBytes 20 420048389038160207346928549543647943506001427623)
      (unpackBytes 20 491457204029638868623507308063661093973261043428) := by
  have e0 := hiStepP 2594 1266365796963980818233316994268963118241220492061 248246085843370350949607141594913245528855666632 156666504369558670279960538154439818337566438288 274267635316454025233551268770458231256292158552 (by decide!)
  have e1 := hiStepP 2593 156666504369558670279960538154439818337566438288 274267635316454025233551268770458231256292158552 1410155840425243449093884183402893122703363865314 1136334919294431173069386282934567069299816568506 (by decide!)
  have e2 := hiStepP 2592 1410155840425243449093884183402893122703363865314 1136334919294431173069386282934567069299816568506 895364381649253502541498108081175404738008141771 524480262699463530738780013983910178656714611057 (by decide!)
  have e3 := hiStepP 2591 895364381649253502541498108081175404738008141771 524480262699463530738780013983910178656714611057 938078863857140544866606141600290878064334828533 1458968681715080966656338433415605248329971706500 (by decide!)
  have e4 := hiStepP 2590 938078863857140544866606141600290878064334828533 1458968681715080966656338433415605248329971706500 982844688397406780471773139463165224292015764679 477552048864754657738246851391990310542069849667 (by decide!)
  have e5 := hiStepP 2589 982844688397406780471773139463165224292015764679 477552048864754657738246851391990310542069849667 757976492704481782893749907500494952026918166667 1229640420032722116341169164298551405734761922248 (by decide!)
  have e6 := hiStepP 2588 757976492704481782893749907500494952026918166667 1229640420032722116341169164298551405734761922248 240945421346778020458372385416069483342951623502 1446306992517220857311569963317223039738940806534 (by decide!)
  have e7 := hiStepP 2587 240945421346778020458372385416069483342951623502 1446306992517220857311569963317223039738940806534 326601352440298910085868234049533138224761189155 1121190321840458802869281382856381613649758152357 (by decide!)
  have e8 := hiStepP 2586 326601352440298910085868234049533138224761189155 1121190321840458802869281382856381613649758152357 383751065945410825516834693836632219303631716441 772589074205782861227737642306046478458655827708 (by decide!)
  have e9 := hiStepP 2585 383751065945410825516834693836632219303631716441 772589074205782861227737642306046478458655827708 520261197350067775393201164798986430249103592497 1258593273857153729937172201246756606354677721805 (by decide!)
  have e10 := hiStepP 2584 520261197350067775393201164798986430249103592497 1258593273857153729937172201246756606354677721805 26532559765623964310894094193791178593167822087 1237792137153440584843865419693389358758981478346 (by decide!)
  have e11 := hiStepP 2583 26532559765623964310894094193791178593167822087 1237792137153440584843865419693389358758981478346 182431412707992537368819096010763285872716336876 1136892428645920546638164187746855223074237180198 (by decide!)
  have e12 := hiStepP 2582 182431412707992537368819096010763285872716336876 1136892428645920546638164187746855223074237180198 827337102078675301314117112974536051359003404254 501299943166744504483078185976858230272418418424 (by decide!)
  have e13 := hiStepP 2581 827337102078675301314117112974536051359003404254 501299943166744504483078185976858230272418418424 881535988112303669486510973174595466042274711227 1174053567035101415227381909712196912703757027395 (by decide!)
  have e14 := hiStepP 2580 881535988112303669486510973174595466042274711227 1174053567035101415227381909712196912703757027395 21990579119577781155576496991329849485050355243 1178827718371896993200919276446762734215817762408 (by decide!)
  have e15 := hiStepP 2579 21990579119577781155576496991329849485050355243 1178827718371896993200919276446762734215817762408 435041507942276496311723837940691429693678657840 743943896696540873186968136955024154457427228504 (by decide!)
  have e16 := hiStepP 2578 435041507942276496311723837940691429693678657840 743943896696540873186968136955024154457427228504 917075925068426716751403399386544483842485908572 199380011606451491544778302732307708355451470596 (by decide!)
  have e17 := hiStepP 2577 917075925068426716751403399386544483842485908572 199380011606451491544778302732307708355451470596 1127942651927811597249328933672151056734585139167 1321591023393637412919306358079654357264902024411 (by decide!)
  have e18 := hiStepP 2576 1127942651927811597249328933672151056734585139167 1321591023393637412919306358079654357264902024411 624899821456524254151101635015507338370568851235 788092551611714615544659725724900754423124386808 (by decide!)
  have e19 := hiStepP 2575 624899821456524254151101635015507338370568851235 788092551611714615544659725724900754423124386808 25440711557464262350969483858100154539389081792 813520710980664361740911500498897756762940980024 (by decide!)
  have e20 := hiStepP 2574 25440711557464262350969483858100154539389081792 813520710980664361740911500498897756762940980024 826831524284636692873619404577925483483146521394 175104029136717505746874549742321422233531166730 (by decide!)
  have e21 := hiStepP 2573 826831524284636692873619404577925483483146521394 175104029136717505746874549742321422233531166730 444776556727755427563206635449864868014954963192 475353610048795392344336229803023490124120936690 (by decide!)
  have e22 := hiStepP 2572 444776556727755427563206635449864868014954963192 475353610048795392344336229803023490124120936690 911565458318768859830251228840636323061467624835 1169977024259965961538389180384690812932057720177 (by decide!)
  have e23 := hiStepP 2571 911565458318768859830251228840636323061467624835 1169977024259965961538389180384690812932057720177 81581425525774898255888060775815251009673179984 1111238578503695318355278906961415170688748017185 (by decide!)
  have e24 := hiStepP 2570 81581425525774898255888060775815251009673179984 1111238578503695318355278906961415170688748017185 1312878100464823973114628975245364115778775507184 224497790271779670101762901183369760923481126609 (by decide!)
  have e25 := hiStepP 2569 1312878100464823973114628975245364115778775507184 224497790271779670101762901183369760923481126609 570525828876549932649786435277710019662339244833 392439404150509504199721423471517880971924846064 (by decide!)
  have e26 := hiStepP 2568 570525828876549932649786435277710019662339244833 392439404150509504199721423471517880971924846064 615392480525774319225962706847633842126779983912 270969414659617197094001689638863667431682711000 (by decide!)
  have e27 := hiStepP 2567 615392480525774319225962706847633842126779983912 270969414659617197094001689638863667431682711000 889621083457762318262223410170756250120614591786 1031304704231858394994987293972092411782996533490 (by decide!)
  have e28 := hiStepP 2566 889621083457762318262223410170756250120614591786 1031304704231858394994987293972092411782996533490 705690791426493598235992059556412901739009621981 1183033067897736662421535520628105104847198396207 (by decide!)
  have e29 := hiStepP 2565 705690791426493598235992059556412901739009621981 1183033067897736662421535520628105104847198396207 1272365709595718560508696339438212769447514265243 102222750331741975070138177759525969945893685684 (by decide!)
  have e30 := hiStepP 2564 1272365709595718560508696339438212769447514265243 102222750331741975070138177759525969945893685684 16179812121747291155922885939134804198035496830 109593243826877246336809284327967867333876995786 (by decide!)
  have e31 := hiStepP 2563 16179812121747291155922885939134804198035496830 109593243826877246336809284327967867333876995786 1349695841562914841600651543127831760679960672686 1457757972278518766615646043071340468924449828708 (by decide!)
  have e32 := hiStepP 2562 1349695841562914841600651543127831760679960672686 1457757972278518766615646043071340468924449828708 59382611135647574736192333344351585466133357731 1400106130330958452766981673066604663879861636039 (by decide!)
  have e33 := hiStepP 2561 59382611135647574736192333344351585466133357731 1400106130330958452766981673066604663879861636039 166715710151552470736236101060233289482015585247 1324778935297184711195371175278825137752860669976 (by decide!)
  have e34 := hiStepP 2560 166715710151552470736236101060233289482015585247 1324778935297184711195371175278825137752860669976 653792143245165557969237513993965757432535836051 882221128283214120334788800365767210870188793227 (by decide!)
  have e35 := hiStepP 2559 653792143245165557969237513993965757432535836051 882221128283214120334788800365767210870188793227 119672302258641463370254251756876209533347756028 813495232326959610121457520026356080364888205943 (by decide!)
  have e36 := hiStepP 2558 119672302258641463370254251756876209533347756028 813495232326959610121457520026356080364888205943 162107890296637417994008789671232792876827088833 834121052963469714043382944860163475693913390518 (by decide!)
  have e37 := hiStepP 2557 162107890296637417994008789671232792876827088833 834121052963469714043382944860163475693913390518 1450135470159816503494263867927328317785119404707 617130859142076085229434518998942630527379050261 (by decide!)
  have e38 := hiStepP 2556 1450135470159816503494263867927328317785119404707 617130859142076085229434518998942630527379050261 303055871053448752370483429787450513257189067447 508376508851475575147779461819398358225302701474 (by decide!)
  have e39 := hiStepP 2555 303055871053448752370483429787450513257189067447 508376508851475575147779461819398358225302701474 256152241594635611605737670692494890509882464277 672638527058868103695544398359683380257633623479 (by decide!)
  have e40 := hiStepP 2554 256152241594635611605737670692494890509882464277 672638527058868103695544398359683380257633623479 1291636304971610304022430648406912930078325310921 867339923324659611907687032886298109998609324158 (by decide!)
  have e41 := hiStepP 2553 1291636304971610304022430648406912930078325310921 867339923324659611907687032886298109998609324158 661743796647869024286930265491287749247475007733 1301766994702454637347151015595352278182884513931 (by decide!)
  have e42 := hiStepP 2552 661743796647869024286930265491287749247475007733 1301766994702454637347151015595352278182884513931 938920656525219250990969412235040335532433574878 367960265624901927503570372271866766615970059093 (by decide!)
  have e43 := hiStepP 2551 938920656525219250990969412235040335532433574878 367960265624901927503570372271866766615970059093 1035138749998775704657589883862156435378471862368 1399479314837890366657985695583582549920422990645 (by decide!)
  have e44 := hiStepP 2550 1035138749998775704657589883862156435378471862368 1399479314837890366657985695583582549920422990645 1456305433229923533103513694661903305615884827454 58253392717172061060498791949272605791039825931 (by decide!)
  have e45 := hiStepP 2549 1456305433229923533103513694661903305615884827454 58253392717172061060498791949272605791039825931 1001867499161152354922501173982721610048474455472 943620403114196893670501050128166203960244090299 (by decide!)
  have e46 := hiStepP 2548 1001867499161152354922501173982721610048474455472 943620403114196893670501050128166203960244090299 1205180890183913768336081666687016531386541088007 675518219977841142258543335904821141458535164092 (by decide!)
  have e47 := hiStepP 2547 1205180890183913768336081666687016531386541088007 675518219977841142258543335904821141458535164092 1308384618659633450299609110319637638062474852372 842047396896028947046621664920489194403022590120 (by decide!)
  have e48 := hiStepP 2546 1308384618659633450299609110319637638062474852372 842047396896028947046621664920489194403022590120 220431867204832857236923844491715710800177892425 1038372150330603026833225463620479368843443756257 (by decide!)
  have e49 := hiStepP 2545 220431867204832857236923844491715710800177892425 1038372150330603026833225463620479368843443756257 558231635983353986896869066435158166716256412504 1211149234438253741640062487255329774554979909561 (by decide!)
  have e50 := hiStepP 2544 558231635983353986896869066435158166716256412504 1211149234438253741640062487255329774554979909561 360128653420810480180402937441930858747406672318 1342715795737516188667477163938712107912215879175 (by decide!)
  have e51 := hiStepP 2543 360128653420810480180402937441930858747406672318 1342715795737516188667477163938712107912215879175 1178979658000528820147506140020654418850600596700 215206705638095827467220898393986046959305714395 (by decide!)
  have e52 := hiStepP 2542 1178979658000528820147506140020654418850600596700 215206705638095827467220898393986046959305714395 14300795610300337443488018986215723529134538540 223798325360291169971773639399686383750193649143 (by decide!)
  have e53 := hiStepP 2541 14300795610300337443488018986215723529134538540 223798325360291169971773639399686383750193649143 810834294513350124844906082321217493775146963279 965988133364625056233048493132802374333033006264 (by decide!)
  have e54 := hiStepP 2540 810834294513350124844906082321217493775146963279 965988133364625056233048493132802374333033006264 813539674349847279371181965914543848303211171379 226665341873483008052771982729969107608172432011 (by decide!)
  have e55 := hiStepP 2539 813539674349847279371181965914543848303211171379 226665341873483008052771982729969107608172432011 620636511262618991938631157561513556493720319601 428225462627144404553292535129393140689451908346 (by decide!)
  have e56 := hiStepP 2538 620636511262618991938631157561513556493720319601 428225462627144404553292535129393140689451908346 415006775725231564345972414459205859097378116992 21136151753840017964392770815041128716325431674 (by decide!)
  have e57 := hiStepP 2537 415006775725231564345972414459205859097378116992 21136151753840017964392770815041128716325431674 171194731644236668023076525969813618808282321707 173040213873167151488768266128082911311174023761 (by decide!)
  have e58 := hiStepP 2536 171194731644236668023076525969813618808282321707 173040213873167151488768266128082911311174023761 1094132682439412739219377826258225981503629698702 924365802911879576310988590314434073180490669279 (by decide!)
  have e59 := hiStepP 2535 1094132682439412739219377826258225981503629698702 924365802911879576310988590314434073180490669279 293969481694646155496175365142226431635273303612 836901244952172360409544947839810382591412656867 (by decide!)
  have e60 := hiStepP 2534 293969481694646155496175365142226431635273303612 836901244952172360409544947839810382591412656867 835367722457327440939164023913447127448723253138 4390114360015507916268164533139584031735037297 (by decide!)
  have e61 := hiStepP 2533 835367722457327440939164023913447127448723253138 4390114360015507916268164533139584031735037297 967680670532448635258286767450092618519460686643 966348553046451868205396559339731474961325200962 (by decide!)
  have e62 := hiStepP 2532 967680670532448635258286767450092618519460686643 966348553046451868205396559339731474961325200962 173566483303345592923824885090074791231277770021 1045513018405055352706414737413610593294875997031 (by decide!)
  have e63 := hiStepP 2531 173566483303345592923824885090074791231277770021 1045513018405055352706414737413610593294875997031 1215423496104543184418411762127820084383117458615 569629818680442944531893199688185712723777949648 (by decide!)
  have e64 := hiStepP 2530 1215423496104543184418411762127820084383117458615 569629818680442944531893199688185712723777949648 917169262010558813130549585817589881160132762925 1115402382680779533102728745625664469943600714493 (by decide!)
  have e65 := hiStepP 2529 917169262010558813130549585817589881160132762925 1115402382680779533102728745625664469943600714493 1091521666126885582697342685042523582723876254765 709740151809967899277490629688339098997821433552 (by decide!)
  have e66 := hiStepP 2528 1091521666126885582697342685042523582723876254765 709740151809967899277490629688339098997821433552 379384691183771414193154984132011657026069393841 354803110009757378020769008940432589306691229537 (by decide!)
  have e67 := hiStepP 2527 379384691183771414193154984132011657026069393841 354803110009757378020769008940432589306691229537 778291666192959985074527043257511306006351172440 1041671107234342083710386264682474870334866539577 (by decide!)
  have e68 := hiStepP 2526 778291666192959985074527043257511306006351172440 1041671107234342083710386264682474870334866539577 1455603079526695801319494451165102506110422841647 413931992964529821876753326180015476163099770134 (by decide!)
  have e69 := hiStepP 2525 1455603079526695801319494451165102506110422841647 413931992964529821876753326180015476163099770134 28452236382732302783775725685389306128007427324 436616324634227593597875542369660659169464404458 (by decide!)
  have e70 := hiStepP 2524 28452236382732302783775725685389306128007427324 436616324634227593597875542369660659169464404458 410666714924695355480654787487403877108140381620 66108046874352354778967324315366630622254685278 (by decide!)
  have e71 := hiStepP 2523 410666714924695355480654787487403877108140381620 66108046874352354778967324315366630622254685278 1294074173693129262236020495615360416638087066186 1331447333993646347643995170206347951185862635028 (by decide!)
  have e72 := hiStepP 2522 1294074173693129262236020495615360416638087066186 1331447333993646347643995170206347951185862635028 1420337299124513333141140178413635939049314962687 102450430129401918845556365319551498176242868971 (by decide!)
  have e73 := hiStepP 2521 1420337299124513333141140178413635939049314962687 102450430129401918845556365319551498176242868971 1146523687820156401715326052278791923766726421546 1239607760048692893610639835646895491251174739649 (by decide!)
  have e74 := hiStepP 2520 1146523687820156401715326052278791923766726421546 1239607760048692893610639835646895491251174739649 645831961052294713222924023183663487759471036783 959154040882974861611998847795223588883036293038 (by decide!)
  have e75 := hiStepP 2519 645831961052294713222924023183663487759471036783 959154040882974861611998847795223588883036293038 1323669879433000635538206884138686704908658572410 455885543837425561776157711206271930051588176852 (by decide!)
  have e76 := hiStepP 2518 1323669879433000635538206884138686704908658572410 455885543837425561776157711206271930051588176852 1305881732386207879057089760372419404862077847339 978542628516189154978994514260599183215432465663 (by decide!)
  have e77 := hiStepP 2517 1305881732386207879057089760372419404862077847339 978542628516189154978994514260599183215432465663 716293069173582845765635214257928896156213702227 1222101685804332162738491142980752771032105980588 (by decide!)
  have e78 := hiStepP 2516 716293069173582845765635214257928896156213702227 1222101685804332162738491142980752771032105980588 866690972718701316492390445280112106215947044574 376061232063559683577936175738807812133066282098 (by decide!)
  have e79 := hiStepP 2515 866690972718701316492390445280112106215947044574 376061232063559683577936175738807812133066282098 662449906621008726059787021846723098555678707428 307358344452420613021948806202497405411277757078 (by decide!)
  have e80 := hiStepP 2514 662449906621008726059787021846723098555678707428 307358344452420613021948806202497405411277757078 546647382764188449614382883887385883504145431600 605663930552922385470879449628835174716907464358 (by decide!)
  have e81 := hiStepP 2513 546647382764188449614382883887385883504145431600 605663930552922385470879449628835174716907464358 421891222186297928902262271487525699701213923737 205181601278328631587399264851935496843460783935 (by decide!)
  have e82 := hiStepP 2512 421891222186297928902262271487525699701213923737 205181601278328631587399264851935496843460783935 1164004732108465523727965195720337460268150156848 1324919179738380656485617564159033231573583610127 (by decide!)
  have e83 := hiStepP 2511 1164004732108465523727965195720337460268150156848 1324919179738380656485617564159033231573583610127 307138386592536904786390384393918403926179938125 1266679671825677055723827874299540600377169165890 (by decide!)
  have e84 := hiStepP 2510 307138386592536904786390384393918403926179938125 1266679671825677055723827874299540600377169165890 1044612670702509906698867533339680761034358567478 611707772500176435196371993096914813405953690740 (by decide!)
  have e85 := hiStepP 2509 1044612670702509906698867533339680761034358567478 611707772500176435196371993096914813405953690740 108389116165802200365431262355930849289676988091 695643418995468782462426585800891205569093407439 (by decide!)
  have e86 := hiStepP 2508 108389116165802200365431262355930849289676988091 695643418995468782462426585800891205569093407439 1238816746388817303606404302253033526784941796229 920035014326901170978373127416954926458337704266 (by decide!)
  have e87 := hiStepP 2507 1238816746388817303606404302253033526784941796229 920035014326901170978373127416954926458337704266 1122402930424052814860559036079347979894314756643 580834560168287439346129891063162990866724868969 (by decide!)
  have e88 := hiStepP 2506 1122402930424052814860559036079347979894314756643 580834560168287439346129891063162990866724868969 8890779395538140841911431799635289101644219597 572039977498030380098606206492845699725347428260 (by decide!)
  have e89 := hiStepP 2505 8890779395538140841911431799635289101644219597 572039977498030380098606206492845699725347428260 475382839053643827156125188130811515365209234885 316666376117034134815654522835775227551634672225 (by decide!)
  have e90 := hiStepP 2504 475382839053643827156125188130811515365209234885 316666376117034134815654522835775227551634672225 117336192259917718933691090240156296063537024085 205396033728172876611014732786280862329435932212 (by decide!)
  have e91 := hiStepP 2503 117336192259917718933691090240156296063537024085 205396033728172876611014732786280862329435932212 196641856310929841317221600576008954564103245164 8831017259311296527254303535486751287087156056 (by decide!)
  have e92 := hiStepP 2502 196641856310929841317221600576008954564103245164 8831017259311296527254303535486751287087156056 1078929102797675470004754165267179744790060545054 1081656328919769968762846569794874030419183042374 (by decide!)
  have e93 := hiStepP 2501 1078929102797675470004754165267179744790060545054 1081656328919769968762846569794874030419183042374 586601799212336288336943295417583416378073157265 1254350700027731019865857566247569040109138637271 (by decide!)
  have e94 := hiStepP 2500 586601799212336288336943295417583416378073157265 1254350700027731019865857566247569040109138637271 51505312727320263990912735593337083726547777117 1202870498975018128108367524124973308926506403722 (by decide!)
  have e95 := hiStepP 2499 51505312727320263990912735593337083726547777117 1202870498975018128108367524124973308926506403722 551216904573705395336354223473869971990599560308 1017627571988444485170490419150946516959499152382 (by decide!)
  have e96 := hiStepP 2498 551216904573705395336354223473869971990599560308 1017627571988444485170490419150946516959499152382 334483730532552621186706482160335016006532839862 780196750035104868848152083257558810663879037512 (by decide!)
  have e97 := hiStepP 2497 334483730532552621186706482160335016006532839862 780196750035104868848152083257558810663879037512 683169878659841230808041332196179662083635610354 1455867817985611049254564586140306597373705769146 (by decide!)
  have e98 := hiStepP 2496 683169878659841230808041332196179662083635610354 1455867817985611049254564586140306597373705769146 1281790205417177074519708003186215379049737939705 179970760755079176375336713665645462890318412355 (by decide!)
  have e99 := hiStepP 2495 1281790205417177074519708003186215379049737939705 179970760755079176375336713665645462890318412355 420048389038160207346928549543647943506001427623 491457204029638868623507308063661093973261043428 (by decide!)
  have t0 := e0
  have t1 := t0.trans e1
  have t2 := t1.trans e2
  have t3 := t2.trans e3
  have t4 := t3.trans e4
  have t5 := t4.trans e5
  have t6 := t5.trans e6
  have t7 := t6.trans e7
  have t8 := t7.trans e8
  have t9 := t8.trans e9
  have t10 := t9.trans e10
  have t11 := t10.trans e11
  have t12 := t11.trans e12
  have t13 := t12.trans e13
  have t14 := t13.trans e14
  have t15 := t14.trans e15
  have t16 := t15.trans e16
  have t17 := t16.trans e17
  have t18 := t17.trans e18
  have t19 := t18.trans e19
  have t20 := t19.trans e20
  have t21 := t20.trans e21
  have t22 := t21.trans e22
  have t23 := t22.trans e23
  have t24 := t23.trans e24
  have t25 := t24.trans e25
  have t26 := t25.trans e26
  have t27 := t26.trans e27
  have t28 := t27.trans e28
  have t29 := t28.trans e29
  have t30 := t29.trans e30
  have t31 := t30.trans e31
  have t32 := t31.trans e32
  have t33 := t32.trans e33
  have t34 := t33.trans e34
  have t35 := t34.trans e35
  have t36 := t35.trans e36
  have t37 := t36.trans e37
  have t38 := t37.trans e38
  have t39 := t38.trans e39
  have t40 := t39.trans e40
  have t41 := t40.trans e41
  have t42 := t41.trans e42
  have t43 := t42.trans e43
  have t44 := t43.trans e44
  have t45 := t44.trans e45
  have t46 := t45.trans e46
  have t47 := t46.trans e47
  have t48 := t47.trans e48
  have t49 := t48.trans e49
  have t50 := t49.trans e50
  have t51 := t50.trans e51
  have t52 := t51.trans e52
  have t53 := t52.trans e53
  have t54 := t53.trans e54
  have t55 := t54.trans e55
  have t56 := t55.trans e56
  have t57 := t56.trans e57
  have t58 := t57.trans e58
  have t59 := t58.trans e59
  have t60 := t59.trans e60
  have t61 := t60.trans e61
  have t62 := t61.trans e62
  have t63 := t62.trans e63
  have t64 := t63.trans e64
  have t65 := t64.trans e65
  have t66 := t65.trans e66
  have t67 := t66.trans e67
  have t68 := t67.trans e68
  have t69 := t68.trans e69
  have t70 := t69.trans e70
  have t71 := t70.trans e71
  have t72 := t71.trans e72
  have t73 := t72.trans e73
  have t74 := t73.trans e74
  have t75 := t74.trans e75
  have t76 := t75.trans e76
  have t77 := t76.trans e77
  have t78 := t77.trans e78
  have t79 := t78.trans e79
  have t80 := t79.trans e80
  have t81 := t80.trans e81
  have t82 := t81.trans e82
  have t83 := t82.trans e83
  have t84 := t83.trans e84
  have t85 := t84.trans e85
  have t86 := t85.trans e86
  have t87 := t86.trans e87
  have t88 := t87.trans e88
  have t89 := t88.trans e89
  have t90 := t89.trans e90
  have t91 := t90.trans e91
  have t92 := t91.trans e92
  have t93 := t92.trans e93
  have t94 := t93.trans e94
  have t95 := t94.trans e95
  have t96 := t95.trans e96
  have t97 := t96.trans e97
  have t98 := t97.trans e98
  have t99 := t98.trans e99
  exact t99

theorem hiChainSeg16 : hiLoop SHA_1 (strBytes "pencil") 2495
    (unpackBytes 20 420048389038160207346928549543647943506001427623)
    (unpackBytes 20 491457204029638868623507308063661093973261043428) =
    hiLoop SHA_1 (strBytes "pencil") 2395
      (unpackBytes 20 248235491034572536124714241865761641291109288670)
      (unpackBytes 20 1309454240212185519901337029376768261164696274209) := by
  have e0 := hiStepP 2494 420048389038160207346928549543647943506001427623 491457204029638868623507308063661093973261043428 497481965818117114071706165293819519709081730922 6922367135483752887857664704826761765318506894 (by decide!)
  have e1 := hiStepP 2493 497481965818117114071706165293819519709081730922 6922367135483752887857664704826761765318506894 302874321764262320028096452781099145175101587980 298187647987308513459414624419138516701199268738 (by decide!)
  have e2 := hiStepP 2492 302874321764262320028096452781099145175101587980 298187647987308513459414624419138516701199268738 578794996691762790435048101884228418134164286668 464416058503416651422058009093357715064756524878 (by decide!)
  have e3 := hiStepP 2491 578794996691762790435048101884228418134164286668 464416058503416651422058009093357715064756524878 1378187997948483773619591462142290962453092407239 914535852264372450493745214621266593893645205641 (by decide!)
  have e4 := hiStepP 2490 1378187997948483773619591462142290962453092407239 914535852264372450493745214621266593893645205641 184451328078314292272411858663655710518939271926 733563658219907686250230476779913952844225315455 (by decide!)
  have e5 := hiStepP 2489 184451328078314292272411858663655710518939271926 733563658219907686250230476779913952844225315455 1356907755814442334413217914627796009514796521022 627007125667223522966807397768452215044510127169 (by decide!)
  have e6 := hiStepP 2488 1356907755814442334413217914627796009514796521022 627007125667223522966807397768452215044510127169 1288314465482687587055146779757640495821162085552 801979054457124474918606003255195908898688985329 (by decide!)
  have e7 := hiStepP 2487 1288314465482687587055146779757640495821162085552 801979054457124474918606003255195908898688985329 1210937798863967954839115348405458245569751557485 504658217566959567581154787160895411901241609628 (by decide!)
  have e8 := hiStepP 2486 1210937798863967954839115348405458245569751557485 504658217566959567581154787160895411901241609628 650410064279059678435841251712437273008032613383 237119416077769924590944037286458898609469344155 (by decide!)
  have e9 := hiStepP 2485 650410064279059678435841251712437273008032613383 237119416077769924590944037286458898609469344155 1413933404860910680342362506988143872195539800453 1268159239708762097314538286690504043448647800862 (by decide!)
  have e10 := hiStepP 2484 1413933404860910680342362506988143872195539800453 1268159239708762097314538286690504043448647800862 285533227186932697144574698425651039672675098256 1348079583571455897500817331831915228130183972494 (by decide!)
  have e11 := hiStepP 2483 285533227186932697144574698425651039672675098256 1348079583571455897500817331831915228130183972494 1222596093887034842300435249072604024346505704809 331274820824306641428113876221055635320520012775 (by decide!)
  have e12 := hiStepP 2482 1222596093887034842300435249072604024346505704809 331274820824306641428113876221055635320520012775 1248384075923907962180341399124695563710595074113 1282685382783157156880956715560528468760885951398 (by decide!)
  have e13 := hiStepP 2481 1248384075923907962180341399124695563710595074113 1282685382783157156880956715560528468760885951398 750501676944145894540493100153161504868957606356 570011460927610604003442683362155937298437745266 (by decide!)
  have e14 := hiStepP 2480 750501676944145894540493100153161504868957606356 570011460927610604003442683362155937298437745266 1407907470604604759892988588286991879393933755387 852177290769859302109966579126414993469828114825 (by decide!)
  have e15 := hiStepP 2479 1407907470604604759892988588286991879393933755387 852177290769859302109966579126414993469828114825 401081690322679649154788287663873792655042812805 1204726983686673368783899614282409796751241654796 (by decide!)
  have e16 := hiStepP 2478 401081690322679649154788287663873792655042812805 1204726983686673368783899614282409796751241654796 460122375250034638816896764750558826760903559636 751385485248767735384174070440777345032804744152 (by decide!)
  have e17 := hiStepP 2477 460122375250034638816896764750558826760903559636 751385485248767735384174070440777345032804744152 1458227223604107510033025363806652171974680012058 713275552410249771980909539647798471636394565314 (by decide!)
  have e18 := hiStepP 2476 1458227223604107510033025363806652171974680012058 713275552410249771980909539647798471636394565314 636613504188401947934143097470908590912564101499 111032396988755322366272827368716812911665864633 (by decide!)
  have e19 := hiStepP 2475 636613504188401947934143097470908590912564101499 111032396988755322366272827368716812911665864633 442747357327715574694188717532847880184038134974 542346375669395565738006036025619591806668655367 (by decide!)
  have e20 := hiStepP 2474 442747357327715574694188717532847880184038134974 542346375669395565738006036025619591806668655367 1170172016563326575090124956446056226929265842604 833690097754812308825804077117669776089492607659 (by decide!)
  have e21 := hiStepP 2473 1170172016563326575090124956446056226929265842604 833690097754812308825804077117669776089492607659 654638313239250238422781890347942922580833578470 1282672980052630100371310664732687007474239569741 (by decide!)
  have e22 := hiStepP 2472 654638313239250238422781890347942922580833578470 1282672980052630100371310664732687007474239569741 1251156755859904119715284060222095049607374549781 339925086522781939674203870100492740415444208728 (by decide!)
  have e23 := hiStepP 2471 1251156755859904119715284060222095049607374549781 339925086522781939674203870100492740415444208728 618024134925667917824881002280333213729625650005 501229958421413042482579652107245703838632083213 (by decide!)
  have e24 := hiStepP 2470 618024134925667917824881002280333213729625650005 501229958421413042482579652107245703838632083213 1382232565144969451375676359037071896336442662455 946769606130622019288889505575677358013032456506 (by decide!)
  have e25 := hiStepP 2469 1382232565144969451375676359037071896336442662455 946769606130622019288889505575677358013032456506 839084624103354386084271901593982291255288587388 315048641031238123697766493193791548327756203334 (by decide!)
  have e26 := hiStepP 2468 839084624103354386084271901593982291255288587388 315048641031238123697766493193791548327756203334 905660764198993560140358436857522283157431299292 967952584840353162971217547885482477743918164378 (by decide!)
  have e27 := hiStepP 2467 905660764198993560140358436857522283157431299292 967952584840353162971217547885482477743918164378 1183421688379239616952508285934610207203503394876 586733303423362227550529372887322584311682988454 (by decide!)
  have e28 := hiStepP 2466 1183421688379239616952508285934610207203503394876 586733303423362227550529372887322584311682988454 136823245676956179429899442068077143941219777925 646216170953702343287902778801153984172620776483 (by decide!)
  have e29 := hiStepP 2465 136823245676956179429899442068077143941219777925 646216170953702343287902778801153984172620776483 860707880730113361338769919343921009496859362392 1324177502157882344844603266655697620831394873467 (by decide!)
  have e30 := hiStepP 2464 860707880730113361338769919343921009496859362392 1324177502157882344844603266655697620831394873467 694687473634417144812589251575478035611466057311 904093217747125314898583101308914756093635692068 (by decide!)
  have e31 := hiStepP 2463 694687473634417144812589251575478035611466057311 904093217747125314898583101308914756093635692068 366619698480371508341427797247370513409386844282 1269787235810965077084776465316227527808497620574 (by decide!)
  have e32 := hiStepP 2462 366619698480371508341427797247370513409386844282 1269787235810965077084776465316227527808497620574 674651631194975757759596818165161709615609425116 960701333198882192983522028346619439003290057346 (by decide!)
  have e33 := hiStepP 2461 674651631194975757759596818165161709615609425116 960701333198882192983522028346619439003290057346 551097721005264206324126133665062238093825594026 1146420497937183440520686692676198694323741845544 (by decide!)
  have e34 := hiStepP 2460 551097721005264206324126133665062238093825594026 1146420497937183440520686692676198694323741845544 1325576841099361295670649766623872551895961642567 188389572563567291860159848747231429244165541487 (by decide!)
  have e35 := hiStepP 2459 1325576841099361295670649766623872551895961642567 188389572563567291860159848747231429244165541487 1029487642910666110983014606378837550638256218745 848777225755333608943526097462046193771496483862 (by decide!)
  have e36 := hiStepP 2458 1029487642910666110983014606378837550638256218745 848777225755333608943526097462046193771496483862 718250808264622118115275326111115259420125397835 1332403178053862351248084849712189020109070249821 (by decide!)
  have e37 := hiStepP 2457 718250808264622118115275326111115259420125397835 1332403178053862351248084849712189020109070249821 331073817720800638175039201089735368218996755887 1191012704284012725858688799968421755322705928946 (by decide!)
  have e38 := hiStepP 2456 331073817720800638175039201089735368218996755887 1191012704284012725858688799968421755322705928946 131129937788235143610742269198778585341423437170 1132672491806475598652396281535654678646693734272 (by decide!)
  have e39 := hiStepP 2455 131129937788235143610742269198778585341423437170 1132672491806475598652396281535654678646693734272 135272235011687295544312986239446998667955984284 1197976133228147220153220156468124283955461517340 (by decide!)
  have e40 := hiStepP 2454 135272235011687295544312986239446998667955984284 1197976133228147220153220156468124283955461517340 779868527615936599189101014934377861026260920386 509830596084470296212160625088252169627238881374 (by decide!)
  have e41 := hiStepP 2453 779868527615936599189101014934377861026260920386 509830596084470296212160625088252169627238881374 1235127667143129763636845554734076741133982432358 736918582124801229729369780491302440989384352824 (by decide!)
  have e42 := hiStepP 2452 1235127667143129763636845554734076741133982432358 736918582124801229729369780491302440989384352824 260279821985660487833741406754312322869820515342 984885548850324055975212563284650424625236820022 (by decide!)
  have e43 := hiStepP 2451 260279821985660487833741406754312322869820515342 984885548850324055975212563284650424625236820022 527335831968658779991890656986327606626497230392 1375092334481558541777392466881453710046460261902 (by decide!)
  have e44 := hiStepP 2450 527335831968658779991890656986327606626497230392 1375092334481558541777392466881453710046460261902 1143686106127213762899523714732504980116624485545 322779372278842650906492271066821174422410861223 (by decide!)
  have e45 := hiStepP 2449 1143686106127213762899523714732504980116624485545 322779372278842650906492271066821174422410861223 795850524828422265917370438597527907453005086340 1027234218365338854395777300700961067964232999971 (by decide!)
  have e46 := hiStepP 2448 795850524828422265917370438597527907453005086340 1027234218365338854395777300700961067964232999971 639279242004674233179868129151877085708152935553 1256435420793219649420351053709463793035656474786 (by decide!)
  have e47 := hiStepP 2447 639279242004674233179868129151877085708152935553 1256435420793219649420351053709463793035656474786 350377547372404723779031922884018470082144764212 1286217405998449052894690938315511075972533760406 (by decide!)
  have e48 := hiStepP 2446 350377547372404723779031922884018470082144764212 1286217405998449052894690938315511075972533760406 1053032629591781963397395308728777108860037831697 509357945591566876019785870281129129662190300551 (by decide!)
  have e49 := hiStepP 2445 1053032629591781963397395308728777108860037831697 509357945591566876019785870281129129662190300551 1457637210374968095822284685629251471861319399939 950074551082862388688823014999913700706376439684 (by decide!)
  have e50 := hiStepP 2444 1457637210374968095822284685629251471861319399939 950074551082862388688823014999913700706376439684 1193197279474273814918051307078173132426209431033 681733953834715522493327241380128389585040038525 (by decide!)
  have e51 := hiStepP 2443 1193197279474273814918051307078173132426209431033 681733953834715522493327241380128389585040038525 1130381058226503935028302959358361452988908898056 1012856276546684562269215154464790953956461829493 (by decide!)
  have e52 := hiStepP 2442 1130381058226503935028302959358361452988908898056 1012856276546684562269215154464790953956461829493 853644850365931194371037420528622614110777341509 210804205664690129820954977428797303518494960432 (by decide!)
  have e53 := hiStepP 2441 853644850365931194371037420528622614110777341509 210804205664690129820954977428797303518494960432 1003425183678290362336293197224630904064715699283 794618555309448180080803293194826688457137790819 (by decide!)
  have e54 := hiStepP 2440 1003425183678290362336293197224630904064715699283 794618555309448180080803293194826688457137790819 1410621695941086444839923647622933895197616367879 709199523558581894277904252863403703136412563044 (by decide!)
  have e55 := hiStepP 2439 1410621695941086444839923647622933895197616367879 709199523558581894277904252863403703136412563044 664260875830795134397695606052521864293600936205 47899877441542907154402510517815736753883690857 (by decide!)
  have e56 := hiStepP 2438 664260875830795134397695606052521864293600936205 47899877441542907154402510517815736753883690857 942798816160015846267649452449581693176946705601 989247816531151482942350550637045330090194039720 (by decide!)
  have e57 := hiStepP 2437 942798816160015846267649452449581693176946705601 989247816531151482942350550637045330090194039720 496195418208907255289107096032626828916285655719 1436820640189874179543043500526922559948823771407 (by decide!)
  have e58 := hiStepP 2436 496195418208907255289107096032626828916285655719 1436820640189874179543043500526922559948823771407 880697616325003540426797610532724926890642116194 559093347131774537433534066583095061835664504685 (by decide!)
  have e59 := hiStepP 2435 880697616325003540426797610532724926890642116194 559093347131774537433534066583095061835664504685 849295922195003398743006256958571420837236194113 1399709392472648010663301989538292182313054145580 (by decide!)
  have e60 := hiStepP 2434 849295922195003398743006256958571420837236194113 1399709392472648010663301989538292182313054145580 1078612901438104220500154861320252168531029553232 421117434070916408851229078198879250570732567676 (by decide!)
  have e61 := hiStepP 2433 1078612901438104220500154861320252168531029553232 421117434070916408851229078198879250570732567676 945658824352939882633580893999472888845322144749 1349624539023024201670122633552634028426280122257 (by decide!)
  have e62 := hiStepP 2432 945658824352939882633580893999472888845322144749 1349624539023024201670122633552634028426280122257 573102409914492876530028235270878610138168131645 776546520628356293590676154503156621390131804076 (by decide!)
  have e63 := hiStepP 2431 573102409914492876530028235270878610138168131645 776546520628356293590676154503156621390131804076 1030535552853526515400367425869436054724548454177 345555892092925797889133178832786810755305427085 (by decide!)
  have e64 := hiStepP 2430 1030535552853526515400367425869436054724548454177 345555892092925797889133178832786810755305427085 573584152982142711189200511599421642478116951732 508081030741801894431681692175704362284272027193 (by decide!)
  have e65 := hiStepP 2429 573584152982142711189200511599421642478116951732 508081030741801894431681692175704362284272027193 218207250454776559043031378738713225771513312548 723790575248989843405415877470875955971505517341 (by decide!)
  have e66 := hiStepP 2428 218207250454776559043031378738713225771513312548 723790575248989843405415877470875955971505517341 127567751577338431965162497196669342381139466368 597296335594595633439716432388176866726835743645 (by decide!)
  have e67 := hiStepP 2427 127567751577338431965162497196669342381139466368 597296335594595633439716432388176866726835743645 595947562437836318867595718156293125937646513857 5631561625342785809813835055118763096786519388 (by decide!)
  have e68 := hiStepP 2426 595947562437836318867595718156293125937646513857 5631561625342785809813835055118763096786519388 672727432882792388605506351413857103830159412189 668902759739947583037306793217700912033656311425 (by decide!)
  have e69 := hiStepP 2425 672727432882792388605506351413857103830159412189 668902759739947583037306793217700912033656311425 1219699593267753633216046784642050843217599812718 916641093455203136251962323335409213163763915503 (by decide!)
  have e70 := hiStepP 2424 1219699593267753633216046784642050843217599812718 916641093455203136251962323335409213163763915503 488554453314015013358922133368124876512173513489 1399328695200440679845155286372060455801944244734 (by decide!)
  have e71 := hiStepP 2423 488554453314015013358922133368124876512173513489 1399328695200440679845155286372060455801944244734 73791196119055071599625035627999237855026901299 1426912551010235324480215110326517941145132331213 (by decide!)
  have e72 := hiStepP 2422 73791196119055071599625035627999237855026901299 1426912551010235324480215110326517941145132331213 86769635226862836238985505872129655821746925859 1408740367364197969081208630873967574916860117486 (by decide!)
  have e73 := hiStepP 2421 86769635226862836238985505872129655821746925859 1408740367364197969081208630873967574916860117486 567567668926429018946086324268473247911228725374 854397919843070216701344916386144078474176977296 (by decide!)
  have e74 := hiStepP 2420 567567668926429018946086324268473247911228725374 854397919843070216701344916386144078474176977296 95600027078330306828761513432953789768806909808 759794523447950949446461011382133037277408009952 (by decide!)
  have e75 := hiStepP 2419 95600027078330306828761513432953789768806909808 759794523447950949446461011382133037277408009952 1422269397850772294519332133773601131278846635738 709132912459723385433565380770824070242709909562 (by decide!)
  have e76 := hiStepP 2418 1422269397850772294519332133773601131278846635738 709132912459723385433565380770824070242709909562 1143481373948047362974622478213170922996365348584 1030425875571148533980433194483544145513642786514 (by decide!)
  have e77 := hiStepP 2417 1143481373948047362974622478213170922996365348584 1030425875571148533980433194483544145513642786514 1040248040413251037061931308327930859144086613301 13105971376629577901212289669114630136033448935 (by decide!)
  have e78 := hiStepP 2416 1040248040413251037061931308327930859144086613301 13105971376629577901212289669114630136033448935 1444017335494589128308838525373645886797971715246 1453747523207262881081504842528716530399790229321 (by decide!)
  have e79 := hiStepP 2415 1444017335494589128308838525373645886797971715246 1453747523207262881081504842528716530399790229321 113533521379803306987128805822164008196822779308 1354621116254735051307044957502490001652701209317 (by decide!)
  have e80 := hiStepP 2414 113533521379803306987128805822164008196822779308 1354621116254735051307044957502490001652701209317 659453985127368448238546540591298997774150751999 906430489477080439883200247119811962836141962266 (by decide!)
  have e81 := hiStepP 2413 659453985127368448238546540591298997774150751999 906430489477080439883200247119811962836141962266 581578712295597907530406097549058160632732553896 1433566775855300397022259587105570837339325392562 (by decide!)
  have e82 := hiStepP 2412 581578712295597907530406097549058160632732553896 1433566775855300397022259587105570837339325392562 702471841312386500342179274996336975010361532791 731123552724630587975492554616698809146955302853 (by decide!)
  have e83 := hiStepP 2411 702471841312386500342179274996336975010361532791 731123552724630587975492554616698809146955302853 387725554395068408753641926566957477559434530213 1118839696178177687416478431221522562979652455008 (by decide!)
  have e84 := hiStepP 2410 387725554395068408753641926566957477559434530213 1118839696178177687416478431221522562979652455008 310166160322198493409287731179918124128512251206 1402601641461314949828099474202701767201520901926 (by decide!)
  have e85 := hiStepP 2409 310166160322198493409287731179918124128512251206 1402601641461314949828099474202701767201520901926 966898006718504363090791995878421322343995254486 530665914344333077456811537467200868095386843632 (by decide!)
  have e86 := hiStepP 2408 966898006718504363090791995878421322343995254486 530665914344333077456811537467200868095386843632 650691607596362931320049053105192475024321809253 257125209166400097626562555526764971575053906581 (by decide!)
  have e87 := hiStepP 2407 650691607596362931320049053105192475024321809253 257125209166400097626562555526764971575053906581 357251186661820458978281512041409637722205462602 111912705350063336799311696312953020819775148767 (by decide!)
  have e88 := hiStepP 2406 357251186661820458978281512041409637722205462602 111912705350063336799311696312953020819775148767 408285245906861125606819207026277805094486222423 480234188273170907342599814112054263708388619400 (by decide!)
  have e89 := hiStepP 2405 408285245906861125606819207026277805094486222423 480234188273170907342599814112054263708388619400 727699239497250057786710235836142028951021045527 247836155109045276346436871275181782654606160799 (by decide!)
  have e90 := hiStepP 2404 727699239497250057786710235836142028951021045527 247836155109045276346436871275181782654606160799 253116876193409648576636629146820666207524620981 41378746047827327589429423745236871195659909418 (by decide!)
  have e91 := hiStepP 2403 253116876193409648576636629146820666207524620981 41378746047827327589429423745236871195659909418 1212824014348253115398895105918575386862897615436 1206371733413009597442507078716850357027747195750 (by decide!)
  have e92 := hiStepP 2402 1212824014348253115398895105918575386862897615436 1206371733413009597442507078716850357027747195750 538676351733928119317388655817365409574147273600 805424958898444329213660565530473477880569911526 (by decide!)
  have e93 := hiStepP 2401 538676351733928119317388655817365409574147273600 805424958898444329213660565530473477880569911526 938484258715402525252581610468012763949326910377 236735643138082662569491978334507448960686758735 (by decide!)
  have e94 := hiStepP 2400 938484258715402525252581610468012763949326910377 236735643138082662569491978334507448960686758735 1217473950731607545237005132697964482921814283601 1439891904124283294098089314021144773351934774814 (by decide!)
  have e95 := hiStepP 2399 1217473950731607545237005132697964482921814283601 1439891904124283294098089314021144773351934774814 1154230100278182752834426804206258314223188063961 308899802380468412638937621830511791930201995463 (by decide!)
  have e96 := hiStepP 2398 1154230100278182752834426804206258314223188063961 308899802380468412638937621830511791930201995463 1133568704010571582400385490373929940487135452293 1373490469748679433236075013245297459299373261890 (by decide!)
  have e97 := hiStepP 2397 1133568704010571582400385490373929940487135452293 1373490469748679433236075013245297459299373261890 352786170288868772804736348187202395920482619007 1172440404252901797417524225941324031864455653949 (by decide!)
  have e98 := hiStepP 2396 352786170288868772804736348187202395920482619007 1172440404252901797417524225941324031864455653949 19819532707090241558131600149200251500895708610 1176915453817737108609943401764316994107813253119 (by decide!)
  have e99 := hiStepP 2395 19819532707090241558131600149200251500895708610 1176915453817737108609943401764316994107813253119 248235491034572536124714241865761641291109288670 1309454240212185519901337029376768261164696274209 (by decide!)
  have t0 := e0
  have t1 := t0.trans e1
  have t2 := t1.trans e2
  have t3 := t2.trans e3
  have t4 := t3.trans e4
  have t5 := t4.trans e5
  have t6 := t5.trans e6
  have t7 := t6.trans e7
  have t8 := t7.trans e8
  have t9 := t8.trans e9
  have t10 := t9.trans e10
  have t11 := t10.trans e11
  have t12 := t11.trans e12
  have t13 := t12.trans e13
  have t14 := t13.trans e14
  have t15 := t14.trans e15
  have t16 := t15.trans e16
  have t17 := t16.trans e17
  have t18 := t17.trans e18
  have t19 := t18.trans e19
  have t20 := t19.trans e20
  have t21 := t20.trans e21
  have t22 := t21.trans e22
  have t23 := t22.trans e23
  have t24 := t23.trans e24
  have t25 := t24.trans e25
  have t26 := t25.trans e26
  have t27 := t26.trans e27
  have t28 := t27.trans e28
  have t29 := t28.trans e29
  have t30 := t29.trans e30
  have t31 := t30.trans e31
  have t32 := t31.trans e32
  have t33 := t32.trans e33
  have t34 := t33.trans e34
  have t35 := t34.trans e35
  have t36 := t35.trans e36
  have t37 := t36.trans e37
  have t38 := t37.trans e38
  have t39 := t38.trans e39
  have t40 := t39.trans e40
  have t41 := t40.trans e41
  have t42 := t41.trans e42
  have t43 := t42.trans e43
  have t44 := t43.trans e44
  have t45 := t44.trans e45
  have t46 := t45.trans e46
  have t47 := t46.trans e47
  have t48 := t47.trans e48
  have t49 := t48.trans e49
  have t50 := t49.trans e50
  have t51 := t50.trans e51
  have t52 := t51.trans e52
  have t53 := t52.trans e53
  have t54 := t53.trans e54
  have t55 := t54.trans e55
  have t56 := t55.trans e56
  have t57 := t56.trans e57
  have t58 := t57.trans e58
  have t59 := t58.trans e59
  have t60 := t59.trans e60
  have t61 := t60.trans e61
  have t62 := t61.trans e62
  have t63 := t62.trans e63
  have t64 := t63.trans e64
  have t65 := t64.trans e65
  have t66 := t65.trans e66
  have t67 := t66.trans e67
  have t68 := t67.trans e68
  have t69 := t68.trans e69
  have t70 := t69.trans e70
  have t71 := t70.trans e71
  have t72 := t71.trans e72
  have t73 := t72.trans e73
  have t74 := t73.trans e74
  have t75 := t74.trans e75
  have t76 := t75.trans e76
  have t77 := t76.trans e77
  have t78 := t77.trans e78
  have t79 := t78.trans e79
  have t80 := t79.trans e80
  have t81 := t80.trans e81
  have t82 := t81.trans e82
  have t83 := t82.trans e83
  have t84 := t83.trans e84
  have t85 := t84.trans e85
  have t86 := t85.trans e86
  have t87 := t86.trans e87
  have t88 := t87.trans e88
  have t89 := t88.trans e89
  have t90 := t89.trans e90
  have t91 := t90.trans e91
  have t92 := t91.trans e92
  have t93 := t92.trans e93
  have t94 := t93.trans e94
  have t95 := t94.trans e95
  have t96 := t95.trans e96
  have t97 := t96.trans e97
  have t98 := t97.trans e98
  have t99 := t98.trans e99
  exact t99

theorem hiChainSeg17 : hiLoop SHA_1 (strBytes "pencil") 2395
    (unpackBytes 20 248235491034572536124714241865761641291109288670)
    (unpackBytes 20 1309454240212185519901337029376768261164696274209) =
    hiLoop SHA_1 (strBytes "pencil") 2295
      (unpackBytes 20 1088270856741412042727091211613355687906168377037)
      (unpackBytes 20 725604408352642023574854940093298161835554945957) := by
  have e0 := hiStepP 2394 248235491034572536124714241865761641291109288670 1309454240212185519901337029376768261164696274209 950806254503780752478336134939289763436831707148 387282232495437692351763250231588050592069522733 (by decide!)
  have e1 := hiStepP 2393 950806254503780752478336134939289763436831707148 387282232495437692351763250231588050592069522733 441788576557741781189385757796787787776071881533 83943651115089316067801504990732368593728030224 (by decide!)
  have e2 := hiStepP 2392 441788576557741781189385757796787787776071881533 83943651115089316067801504990732368593728030224 1061341919905958013725832670812581268512702902313 1046799626663632674469222340194836526702370321977 (by decide!)
  have e3 := hiStepP 2391 1061341919905958013725832670812581268512702902313 1046799626663632674469222340194836526702370321977 1153314981053607013604371953066229284592484212510 715596140190738694435083611585814867258826336551 (by decide!)
  have e4 := hiStepP 2390 1153314981053607013604371953066229284592484212510 715596140190738694435083611585814867258826336551 377729267588254165257727623702414915557516547844 362198208122357092273979945831458421853022993955 (by decide!)
  have e5 := hiStepP 2389 377729267588254165257727623702414915557516547844 362198208122357092273979945831458421853022993955 200501924625100742831373060064856685648004011430 162334677037398288156712540697219472488822893445 (by decide!)
  have e6 := hiStepP 2388 200501924625100742831373060064856685648004011430 162334677037398288156712540697219472488822893445 16879623953559986969812483312407248421253712978 174742903237011149028359882231620595946990921687 (by decide!)
  have e7 := hiStepP 2387 16879623953559986969812483312407248421253712978 174742903237011149028359882231620595946990921687 998418953359433404641169301284162711597248218754 1007482974119333822528137794574063064485339193685 (by decide!)
  have e8 := hiStepP 2386 998418953359433404641169301284162711597248218754 1007482974119333822528137794574063064485339193685 423424229925454172731164225872718270584642915831 1429118744194901276266811507322427531029467966626 (by decide!)
  have e9 := hiStepP 2385 423424229925454172731164225872718270584642915831 1429118744194901276266811507322427531029467966626 380372447729204674990388867578878854660843661637 1055886891075236436852238712414065146081079805415 (by decide!)
  have e10 := hiStepP 2384 380372447729204674990388867578878854660843661637 1055886891075236436852238712414065146081079805415 569218416921425249920188475525985135970311173667 1251857375845259885907117551710763098933445145540 (by decide!)
  have e11 := hiStepP 2383 569218416921425249920188475525985135970311173667 1251857375845259885907117551710763098933445145540 1235289296802747020763796125472544963764457504196 18006482564319809316583052233459241459602476544 (by decide!)
  have e12 := hiStepP 2382 1235289296802747020763796125472544963764457504196 18006482564319809316583052233459241459602476544 875687865069379289398413522880116457655523677966 880706951136741749697092362352369619614845229326 (by decide!)
  have e13 := hiStepP 2381 875687865069379289398413522880116457655523677966 880706951136741749697092362352369619614845229326 1183044259630952518041923677144632922798289569616 488069398405451697126205038876494524638580579934 (by decide!)
  have e14 := hiStepP 2380 1183044259630952518041923677144632922798289569616 488069398405451697126205038876494524638580579934 442479815320255646696000254818078078732056422309 142651140229290042538719450737484343255544003067 (by decide!)
  have e15 := hiStepP 2379 442479815320255646696000254818078078732056422309 142651140229290042538719450737484343255544003067 420029097028874273333904815174032673473780061667 464891382065924821427182752848938042462363413528 (by decide!)
  have e16 := hiStepP 2378 420029097028874273333904815174032673473780061667 464891382065924821427182752848938042462363413528 1003871795705940451242950666172205361325650139399 1454216989955684683525707424139039128031939376415 (by decide!)
  have e17 := hiStepP 2377 1003871795705940451242950666172205361325650139399 1454216989955684683525707424139039128031939376415 1431117969274557127441870414437482427176992546604 23300511789489890804210202999508549424186599987 (by decide!)
  have e18 := hiStepP 2376 1431117969274557127441870414437482427176992546604 23300511789489890804210202999508549424186599987 730440720702733440450886619250015294620477551111 707352893564664225240356973408695030871711471668 (by decide!)
  have e19 := hiStepP 2375 730440720702733440450886619250015294620477551111 707352893564664225240356973408695030871711471668 1319198185005555146918980466935570599098325589376 896047471898059414674788838699905106336076793268 (by decide!)
  have e20 := hiStepP 2374 1319198185005555146918980466935570599098325589376 896047471898059414674788838699905106336076793268 61495204676160883437365138914479327896709556281 857455535460367451968221328439740626013944212877 (by decide!)
  have e21 := hiStepP 2373 61495204676160883437365138914479327896709556281 857455535460367451968221328439740626013944212877 938094256510949696431242646938168014336377878129 287595571018920926437841271615597021052648758268 (by decide!)
  have e22 := hiStepP 2372 938094256510949696431242646938168014336377878129 287595571018920926437841271615597021052648758268 511447578049841532032921909232502653343449580456 616350912861698633823297243751849218352304265300 (by decide!)
  have e23 := hiStepP 2371 511447578049841532032921909232502653343449580456 616350912861698633823297243751849218352304265300 1177068874702088784865061977139898773793366267772 946883499588283135504722078834720314709904477992 (by decide!)
  have e24 := hiStepP 2370 1177068874702088784865061977139898773793366267772 946883499588283135504722078834720314709904477992 867850213087725505074501445943706895491954190459 353065976034257128043111727098360339952274597715 (by decide!)
  have e25 := hiStepP 2369 867850213087725505074501445943706895491954190459 353065976034257128043111727098360339952274597715 1450827134122964294796124011671842896707625066753 1118813061928305213972403425043525492272131982930 (by decide!)
  have e26 := hiStepP 2368 1450827134122964294796124011671842896707625066753 1118813061928305213972403425043525492272131982930 1152150005372196193158142264248236721449716095901 58012729081621302292782306337492015091181477327 (by decide!)
  have e27 := hiStepP 2367 1152150005372196193158142264248236721449716095901 58012729081621302292782306337492015091181477327 1360918429655739079387971115425675597271427657506 1303273679219852774756684826544223887185620497133 (by decide!)
  have e28 := hiStepP 2366 1360918429655739079387971115425675597271427657506 1303273679219852774756684826544223887185620497133 937132251213887098327575538735175664851525935927 367843014065308449309905457087517486918345314778 (by decide!)
  have e29 := hiStepP 2365 937132251213887098327575538735175664851525935927 367843014065308449309905457087517486918345314778 131289404381825510408861887982403681791695387187 494220644911417527945487930667471405737326783465 (by decide!)
  have e30 := hiStepP 2364 131289404381825510408861887982403681791695387187 494220644911417527945487930667471405737326783465 1252554095776643200785247990249201632920953512198 810496290578216167636418975813670089223999638255 (by decide!)
  have e31 := hiStepP 2363 1252554095776643200785247990249201632920953512198 810496290578216167636418975813670089223999638255 1385069566025820208766389949835954461468196470531 727433911766749020135861051572307795032610780652 (by decide!)
  have e32 := hiStepP 2362 1385069566025820208766389949835954461468196470531 727433911766749020135861051572307795032610780652 1141092025945385586764529397786739037157436554876 1053556004563069513043667933568621668356517055376 (by decide!)
  have e33 := hiStepP 2361 1141092025945385586764529397786739037157436554876 1053556004563069513043667933568621668356517055376 1241659086370142056251221490849074706216509106492 559280259921391642050548352377248021532559614636 (by decide!)
  have e34 := hiStepP 2360 1241659086370142056251221490849074706216509106492 559280259921391642050548352377248021532559614636 1385277577593246487323904015165056974901125559209 841072622129808840188961392678060575342532661509 (by decide!)
  have e35 := hiStepP 2359 1385277577593246487323904015165056974901125559209 841072622129808840188961392678060575342532661509 722583479076905661043954487420414987532684837339 1357374208118893599036080850321806685445882630366 (by decide!)
  have e36 := hiStepP 2358 722583479076905661043954487420414987532684837339 1357374208118893599036080850321806685445882630366 597146652498966487771674238652297647915349345116 761307791529049868624394483856041762612597969794 (by decide!)
  have e37 := hiStepP 2357 597146652498966487771674238652297647915349345116 761307791529049868624394483856041762612597969794 1391035029106267779847608599524831855196742038967 679059420679792398880675276281910270308674463285 (by decide!)
  have e38 := hiStepP 2356 1391035029106267779847608599524831855196742038967 679059420679792398880675276281910270308674463285 864470542081134300545179627655935975293318135099 1288049315413793077757463414208101207707295718158 (by decide!)
  have e39 := hiStepP 2355 864470542081134300545179627655935975293318135099 1288049315413793077757463414208101207707295718158 189476308211957019865014795308857319966367084918 1100012973459145790495739964425215048328960305784 (by decide!)
  have e40 := hiStepP 2354 189476308211957019865014795308857319966367084918 1100012973459145790495739964425215048328960305784 846604885875627277690238200028964448279025345573 484670006801191050034291419319352018541597855325 (by decide!)
  have e41 := hiStepP 2353 846604885875627277690238200028964448279025345573 484670006801191050034291419319352018541597855325 1407571397285025055171290607709661571736151615446 927197202889828837325340453147857713613258353035 (by decide!)
  have e42 := hiStepP 2352 1407571397285025055171290607709661571736151615446 927197202889828837325340453147857713613258353035 163750343838247511348963955841230660403799220726 1089126943464873781689661346509087714833129048189 (by decide!)
  have e43 := hiStepP 2351 163750343838247511348963955841230660403799220726 1089126943464873781689661346509087714833129048189 1166726333760908489019053164405810139341106382144 654302933398394118607453158522075821678194036029 (by decide!)
  have e44 := hiStepP 2350 1166726333760908489019053164405810139341106382144 654302933398394118607453158522075821678194036029 432412827814517366765040676035596754736429592174 326259423853422726100376844394807098903157629779 (by decide!)
  have e45 := hiStepP 2349 432412827814517366765040676035596754736429592174 326259423853422726100376844394807098903157629779 347725822495153580937521161462139443910441880001 33125856827760517738422343133714830937989819026 (by decide!)
  have e46 := hiStepP 2348 347725822495153580937521161462139443910441880001 33125856827760517738422343133714830937989819026 1088606197691872513575967811188494678625412998646 1069803020867831718320895528535098125619114004324 (by decide!)
  have e47 := hiStepP 2347 1088606197691872513575967811188494678625412998646 1069803020867831718320895528535098125619114004324 794302375709726217332161957844995480119254580076 275511811991866639623064514674388555283486094344 (by decide!)
  have e48 := hiStepP 2346 794302375709726217332161957844995480119254580076 275511811991866639623064514674388555283486094344 1195134505588594632681473172503551476023634070649 1285009290063183769275034490431418132872745498737 (by decide!)
  have e49 := hiStepP 2345 1195134505588594632681473172503551476023634070649 1285009290063183769275034490431418132872745498737 498338307501172599973797735708916633218668191799 1041167086852713314112775784233173911338831763526 (by decide!)
  have e50 := hiStepP 2344 498338307501172599973797735708916633218668191799 1041167086852713314112775784233173911338831763526 1164397163438124410695709474183652774158922913463 717433432486726890061182244154961970892403199729 (by decide!)
  have e51 := hiStepP 2343 1164397163438124410695709474183652774158922913463 717433432486726890061182244154961970892403199729 657516607324943004504487521685279141851927327608 82931210891149187562486203292479011886951300489 (by decide!)
  have e52 := hiStepP 2342 657516607324943004504487521685279141851927327608 82931210891149187562486203292479011886951300489 933391008903993695618360038237892619650229874490 993195816167810989986439470504911480616555106995 (by decide!)
  have e53 := hiStepP 2341 933391008903993695618360038237892619650229874490 993195816167810989986439470504911480616555106995 697049828125019855903521383719403376570333650679 1232444698479049434445388147363473408852083608644 (by decide!)
  have e54 := hiStepP 2340 697049828125019855903521383719403376570333650679 1232444698479049434445388147363473408852083608644 1386901958096507165765111127214177724886663487258 211554529526949698466129596902774594713752097630 (by decide!)
  have e55 := hiStepP 2339 1386901958096507165765111127214177724886663487258 211554529526949698466129596902774594713752097630 687995435846667289049650027428418516523432251701 534072762222766367655569810287015632307672400491 (by decide!)
  have e56 := hiStepP 2338 687995435846667289049650027428418516523432251701 534072762222766367655569810287015632307672400491 1324364600934670092582327841434763204766977274692 1064508531299859697045213867311519329357432221999 (by decide!)
  have e57 := hiStepP 2337 1324364600934670092582327841434763204766977274692 1064508531299859697045213867311519329357432221999 1274728033884762147240413782659577740322459498090 578012887862986570624764811077468672052682803013 (by decide!)
  have e58 := hiStepP 2336 1274728033884762147240413782659577740322459498090 578012887862986570624764811077468672052682803013 154184695153681542949031225289178950592826801300 720740568136565243653604579115558056097953528785 (by decide!)
  have e59 := hiStepP 2335 154184695153681542949031225289178950592826801300 720740568136565243653604579115558056097953528785 774208131650360686751846419271633137108680022288 1425188927702403929207094250838387028065145791169 (by decide!)
  have e60 := hiStepP 2334 774208131650360686751846419271633137108680022288 1425188927702403929207094250838387028065145791169 1081095608638080780886460220482659813860022931521 393868660272275618732727773373520662231291064960 (by decide!)
  have e61 := hiStepP 2333 1081095608638080780886460220482659813860022931521 393868660272275618732727773373520662231291064960 397313771763426029055960416125660906970109773094 7972870745683999848770613732431161858240149414 (by decide!)
  have e62 := hiStepP 2332 397313771763426029055960416125660906970109773094 7972870745683999848770613732431161858240149414 483384753911218240324391612612633573765862073732 489863463803509466429044206914470049282329072162 (by decide!)
  have e63 := hiStepP 2331 483384753911218240324391612612633573765862073732 489863463803509466429044206914470049282329072162 1106359980694732932808133237521930537026596221707 845038783906343417102939656978773290655222292777 (by decide!)
  have e64 := hiStepP 2330 1106359980694732932808133237521930537026596221707 845038783906343417102939656978773290655222292777 332105231010727757989611360285747337269578678934 994273534201524362802805439608858621689858532287 (by decide!)
  have e65 := hiStepP 2329 332105231010727757989611360285747337269578678934 994273534201524362802805439608858621689858532287 633667935233073977433891685908788113038929241067 1100907238118863912960295704631813142298549387348 (by decide!)
  have e66 := hiStepP 2328 633667935233073977433891685908788113038929241067 1100907238118863912960295704631813142298549387348 224566132984616959802134963342902391305061908426 1321710072881829304031214311745463266064967679902 (by decide!)
  have e67 := hiStepP 2327 224566132984616959802134963342902391305061908426 1321710072881829304031214311745463266064967679902 490598537673271702429732250206229320993900205137 1018624564808492929687139505106521071566719429583 (by decide!)
  have e68 := hiStepP 2326 490598537673271702429732250206229320993900205137 1018624564808492929687139505106521071566719429583 320779448462510063812700169467228516070162390053 789904585223377959473532927017083355826079234026 (by decide!)
  have e69 := hiStepP 2325 320779448462510063812700169467228516070162390053 789904585223377959473532927017083355826079234026 560535464679852931402917120893196890221758164429 1327068248231718667289990997226948923532667902503 (by decide!)
  have e70 := hiStepP 2324 560535464679852931402917120893196890221758164429 1327068248231718667289990997226948923532667902503 897574044248633250099112590995181689695873065793 669631517971242987334178416796906034510362917222 (by decide!)
  have e71 := hiStepP 2323 897574044248633250099112590995181689695873065793 669631517971242987334178416796906034510362917222 329421043485905850578530302917239153216401110426 439426496089174720715093535595537233554080779516 (by decide!)
  have e72 := hiStepP 2322 329421043485905850578530302917239153216401110426 439426496089174720715093535595537233554080779516 716899006626033506017998599264710677375177579332 282111066220047999355746528624679997387433711544 (by decide!)
  have e73 := hiStepP 2321 716899006626033506017998599264710677375177579332 282111066220047999355746528624679997387433711544 1370723967010467870449477460444954568163458147579 1104403922214886987987056537898475643537439322947 (by decide!)
  have e74 := hiStepP 2320 1370723967010467870449477460444954568163458147579 1104403922214886987987056537898475643537439322947 472515029440564565446285007863381790049656484788 843311195437915426023439143616549699262223892727 (by decide!)
  have e75 := hiStepP 2319 472515029440564565446285007863381790049656484788 843311195437915426023439143616549699262223892727 1262976745617358026445149253164149653880133851432 448483994087460194192197242009359034327925873119 (by decide!)
  have e76 := hiStepP 2318 1262976745617358026445149253164149653880133851432 448483994087460194192197242009359034327925873119 636975525178801730563871608716046258455089938913 189028057749318584337567609529813811947883976766 (by decide!)
  have e77 := hiStepP 2317 636975525178801730563871608716046258455089938913 189028057749318584337567609529813811947883976766 1372099820937510674315594395195408420235917093895 1194859539794835811247993355135107742328735708217 (by decide!)
  have e78 := hiStepP 2316 1372099820937510674315594395195408420235917093895 1194859539794835811247993355135107742328735708217 754939813318818223142982740780421554583829971896 487939509972257758552089041638639121885175166849 (by decide!)
  have e79 := hiStepP 2315 754939813318818223142982740780421554583829971896 487939509972257758552089041638639121885175166849 374413105402594760403354466778691550127205175258 119235591444516311648411385703543386989508950107 (by decide!)
  have e80 := hiStepP 2314 374413105402594760403354466778691550127205175258 119235591444516311648411385703543386989508950107 1406700017616902433344153443998882647500253251709 1293179201999692669744214475163518971777976414246 (by decide!)
  have e81 := hiStepP 2313 1406700017616902433344153443998882647500253251709 1293179201999692669744214475163518971777976414246 1228371135835817567462130331118744541117184328923 306461730833884900202695223460256648259858167037 (by decide!)
  have e82 := hiStepP 2312 1228371135835817567462130331118744541117184328923 306461730833884900202695223460256648259858167037 1313668011904825034809272403202506680742237353120 1208629400893797520247485022324079953368066277469 (by decide!)
  have e83 := hiStepP 2311 1313668011904825034809272403202506680742237353120 1208629400893797520247485022324079953368066277469 283134372244026704358685288566588599173007866278 1291235287048656930269382408831236788789258959355 (by decide!)
  have e84 := hiStepP 2310 283134372244026704358685288566588599173007866278 1291235287048656930269382408831236788789258959355 857686393829549535424014538145181065927227359291 662756093953844507997062930014405002634246977984 (by decide!)
  have e85 := hiStepP 2309 857686393829549535424014538145181065927227359291 662756093953844507997062930014405002634246977984 637576826076655827564794724942618339559920148290 158311406534942042142482798124372910356577642114 (by decide!)
  have e86 := hiStepP 2308 637576826076655827564794724942618339559920148290 158311406534942042142482798124372910356577642114 336314838862677994138420061959406721930348694967 190226472948858132878322466138558995424113879861 (by decide!)
  have e87 := hiStepP 2307 336314838862677994138420061959406721930348694967 190226472948858132878322466138558995424113879861 219415420230241291727100341400190312834357160245 41320640169974402556119967634538902043488551424 (by decide!)
  have e88 := hiStepP 2306 219415420230241291727100341400190312834357160245 41320640169974402556119967634538902043488551424 52416069813799358530427168355449332593494502602 80339422544487169203637516829657253305650032330 (by decide!)
  have e89 := hiStepP 2305 52416069813799358530427168355449332593494502602 80339422544487169203637516829657253305650032330 1249777833628005523113730942582176200351921443088 1215913524328703711173154171799877158903130570714 (by decide!)
  have e90 := hiStepP 2304 1249777833628005523113730942582176200351921443088 1215913524328703711173154171799877158903130570714 751473355400080671391890664685782764799096782434 498695685765437721812657619705968322775280828856 (by decide!)
  have e91 := hiStepP 2303 751473355400080671391890664685782764799096782434 498695685765437721812657619705968322775280828856 657102051363514004420738223293189467717412543022 207022013454508272297896053995344574678331530134 (by decide!)
  have e92 := hiStepP 2302 657102051363514004420738223293189467717412543022 207022013454508272297896053995344574678331530134 803958077104531777769671382810357126177325974951 962356097617664159106346378428983907002995285553 (by decide!)
  have e93 := hiStepP 2301 803958077104531777769671382810357126177325974951 962356097617664159106346378428983907002995285553 493820609649046791666947105569277227777921744806 1455394423959968104513732530151887058244574962071 (by decide!)
  have e94 := hiStepP 2300 493820609649046791666947105569277227777921744806 1455394423959968104513732530151887058244574962071 766134070023574201593175389689446924597776270926 689996854292361738263107332066013372147538208729 (by decide!)
  have e95 := hiStepP 2299 766134070023574201593175389689446924597776270926 689996854292361738263107332066013372147538208729 140675025923688644829699723588712152107325213619 550751875351779382284742539020293168049985711210 (by decide!)
  have e96 := hiStepP 2298 140675025923688644829699723588712152107325213619 550751875351779382284742539020293168049985711210 491787935629768746052983244656614774426876650079 310339420519447750673952492871498682291362614837 (by decide!)
  have e97 := hiStepP 2297 491787935629768746052983244656614774426876650079 310339420519447750673952492871498682291362614837 1404141896357408521604417913386896209705360809679 1117178099617783678134784835647772567509386891514 (by decide!)
  have e98 := hiStepP 2296 1404141896357408521604417913386896209705360809679 1117178099617783678134784835647772567509386891514 12332789724359800387289886540919417416564516242 1104845370805296908315945924660435110618999895400 (by decide!)
  have e99 := hiStepP 2295 12332789724359800387289886540919417416564516242 1104845370805296908315945924660435110618999895400 1088270856741412042727091211613355687906168377037 725604408352642023574854940093298161835554945957 (by decide!)
  have t0 := e0
  have t1 := t0.trans e1
  have t2 := t1.trans e2
  have t3 := t2.trans e3
  have t4 := t3.trans e4
  have t5 := t4.trans e5
  have t6 := t5.trans e6
  have t7 := t6.trans e7
  have t8 := t7.trans e8
  have t9 := t8.trans e9
  have t10 := t9.trans e10
  have t11 := t10.trans e11
  have t12 := t11.trans e12
  have t13 := t12.trans e13
  have t14 := t13.trans e14
  have t15 := t14.trans e15
  have t16 := t15.trans e16
  have t17 := t16.trans e17
  have t18 := t17.trans e18
  have t19 := t18.trans e19
  have t20 := t19.trans e20
  have t21 := t20.trans e21
  have t22 := t21.trans e22
  have t23 := t22.trans e23
  have t24 := t23.trans e24
  have t25 := t24.trans e25
  have t26 := t25.trans e26
  have t27 := t26.trans e27
  have t28 := t27.trans e28
  have t29 := t28.trans e29
  have t30 := t29.trans e30
  have t31 := t30.trans e31
  have t32 := t31.trans e32
  have t33 := t32.trans e33
  have t34 := t33.trans e34
  have t35 := t34.trans e35
  have t36 := t35.trans e36
  have t37 := t36.trans e37
  have t38 := t37.trans e38
  have t39 := t38.trans e39
  have t40 := t39.trans e40
  have t41 := t40.trans e41
  have t42 := t41.trans e42
  have t43 := t42.trans e43
  have t44 := t43.trans e44
  have t45 := t44.trans e45
  have t46 := t45.trans e46
  have t47 := t46.trans e47
  have t48 := t47.trans e48
  have t49 := t48.trans e49
  have t50 := t49.trans e50
  have t51 := t50.trans e51
  have t52 := t51.trans e52
  have t53 := t52.trans e53
  have t54 := t53.trans e54
  have t55 := t54.trans e55
  have t56 := t55.trans e56
  have t57 := t56.trans e57
  have t58 := t57.trans e58
  have t59 := t58.trans e59
  have t60 := t59.trans e60
  have t61 := t60.trans e61
  have t62 := t61.trans e62
  have t63 := t62.trans e63
  have t64 := t63.trans e64
  have t65 := t64.trans e65
  have t66 := t65.trans e66
  have t67 := t66.trans e67
  have t68 := t67.trans e68
  have t69 := t68.trans e69
  have t70 := t69.trans e70
  have t71 := t70.trans e71
  have t72 := t71.trans e72
  have t73 := t72.trans e73
  have t74 := t73.trans e74
  have t75 := t74.trans e75
  have t76 := t75.trans e76
  have t77 := t76.trans e77
  have t78 := t77.trans e78
  have t79 := t78.trans e79
  have t80 := t79.trans e80
  have t81 := t80.trans e81
  have t82 := t81.trans e82
  have t83 := t82.trans e83
  have t84 := t83.trans e84
  have t85 := t84.trans e85
  have t86 := t85.trans e86
  have t87 := t86.trans e87
  have t88 := t87.trans e88
  have t89 := t88.trans e89
  have t90 := t89.trans e90
  have t91 := t90.trans e91
  have t92 := t91.trans e92
  have t93 := t92.trans e93
  have t94 := t93.trans e94
  have t95 := t94.trans e95
  have t96 := t95.trans e96
  have t97 := t96.trans e97
  have t98 := t97.trans e98
  have t99 := t98.trans e99
  exact t99

theorem hiChainSeg18 : hiLoop SHA_1 (strBytes "pencil") 2295
    (unpackBytes 20 1088270856741412042727091211613355687906168377037)
    (unpackBytes 20 725604408352642023574854940093298161835554945957) =
    hiLoop SHA_1 (strBytes "pencil") 2195
      (unpackBytes 20 321092675082308551443083137486543109351256201007)
      (unpackBytes 20 607740842173454148271004541188708463889571491283) := by
  have e0 := hiStepP 2294 1088270856741412042727091211613355687906168377037 725604408352642023574854940093298161835554945957 1013776188317693630343198078306536480920605788339 1179139531249791712799485127396059217153892234006 (by decide!)
  have e1 := hiStepP 2293 1013776188317693630343198078306536480920605788339 1179139531249791712799485127396059217153892234006 500566995225729935573261605376454914308134653102 874284226515792728385912187981710955137666711480 (by decide!)
  have e2 := hiStepP 2292 500566995225729935573261605376454914308134653102 874284226515792728385912187981710955137666711480 260037065524324652395207570182650490783866899220 1031369539047393570742956960038753356318504236204 (by decide!)
  have e3 := hiStepP 2291 260037065524324652395207570182650490783866899220 1031369539047393570742956960038753356318504236204 834401432140779476343800274788189043627663373702 220151484741869905205069442517177607156423754026 (by decide!)
  have e4 := hiStepP 2290 834401432140779476343800274788189043627663373702 220151484741869905205069442517177607156423754026 1223481213158534464493790321934099798941774652578 1374465014749485791436944154073950060720135644552 (by decide!)
  have e5 := hiStepP 2289 1223481213158534464493790321934099798941774652578 1374465014749485791436944154073950060720135644552 605516043768227218459065986180946781788904500398 883854133238346937845058665695928667620149463334 (by decide!)
  have e6 := hiStepP 2288 605516043768227218459065986180946781788904500398 883854133238346937845058665695928667620149463334 58874701197860132658355458455170382938032527263 824980850680418019166718061292296707171717340857 (by decide!)
  have e7 := hiStepP 2287 58874701197860132658355458455170382938032527263 824980850680418019166718061292296707171717340857 1094847132187627527687023713551997761915135300761 269923952921678025201816596137572476122019154464 (by decide!)
  have e8 := hiStepP 2286 1094847132187627527687023713551997761915135300761 269923952921678025201816596137572476122019154464 870491618316433630576456431934985377570997377871 1046127843581093191568908223407899350041328603503 (by decide!)
  have e9 := hiStepP 2285 870491618316433630576456431934985377570997377871 1046127843581093191568908223407899350041328603503 682856232810380983209332956221650791016977391318 1099731604002001641252809812758399478363387072441 (by decide!)
  have e10 := hiStepP 2284 682856232810380983209332956221650791016977391318 1099731604002001641252809812758399478363387072441 812913754499589493140235753523627819428458879733 449716441321173262296391345999529885972781159756 (by decide!)
  have e11 := hiStepP 2283 812913754499589493140235753523627819428458879733 449716441321173262296391345999529885972781159756 21278020495857227631087108927805410255147037025 442443312037096126257076594944270079760622396461 (by decide!)
  have e12 := hiStepP 2282 21278020495857227631087108927805410255147037025 442443312037096126257076594944270079760622396461 1285903521721139212760133301390282883965179230179 983422475506964209646382870939273759806173402062 (by decide!)
  have e13 := hiStepP 2281 1285903521721139212760133301390282883965179230179 983422475506964209646382870939273759806173402062 572719800473264987354060543693232752128566369268 1142234825667134965086906524823646627813553129530 (by decide!)
  have e14 := hiStepP 2280 572719800473264987354060543693232752128566369268 1142234825667134965086906524823646627813553129530 244220063345631256674540474504298437321986416902 1294973645619277133496417111200536536230279309628 (by decide!)
  have e15 := hiStepP 2279 244220063345631256674540474504298437321986416902 1294973645619277133496417111200536536230279309628 615915926275752808230127138753914255121478157583 783336018701865890026399049370630591847141043251 (by decide!)
  have e16 := hiStepP 2278 615915926275752808230127138753914255121478157583 783336018701865890026399049370630591847141043251 367550628678908032863560606256269234649357472440 1149459349916286108324894993741552960424322580107 (by decide!)
  have e17 := hiStepP 2277 367550628678908032863560606256269234649357472440 1149459349916286108324894993741552960424322580107 1294589838859732291170124293480751047005351055014 248806687613761465048418198217321693680121065517 (by decide!)
  have e18 := hiStepP 2276 1294589838859732291170124293480751047005351055014 248806687613761465048418198217321693680121065517 728237546688069100020308614084650179273593388423 480172480011394444994216134576173938768417672618 (by decide!)
  have e19 := hiStepP 2275 728237546688069100020308614084650179273593388423 480172480011394444994216134576173938768417672618 207444153822537953796938610844445849148026206156 641139773806124188095710975767679419479591713382 (by decide!)
  have e20 := hiStepP 2274 207444153822537953796938610844445849148026206156 641139773806124188095710975767679419479591713382 1201250343480964783551832431158551964596075196924 925667525289643727415499160530793040181991050138 (by decide!)
  have e21 := hiStepP 2273 1201250343480964783551832431158551964596075196924 925667525289643727415499160530793040181991050138 951313118325251958727424944564563302834261767808 25824701874386505019546898107036374162071141658 (by decide!)
  have e22 := hiStepP 2272 951313118325251958727424944564563302834261767808 25824701874386505019546898107036374162071141658 1290596571318024048518422394286710695287363637695 1316421267126941601594673712520113976010495372453 (by decide!)
  have e23 := hiStepP 2271 1290596571318024048518422394286710695287363637695 1316421267126941601594673712520113976010495372453 1208796357134372594009385606938375298660688306419 303514765221407513595028331882809839450720799830 (by decide!)
  have e24 := hiStepP 2270 1208796357134372594009385606938375298660688306419 303514765221407513595028331882809839450720799830 524749752345743478310701210850430901034528942168 632282322804925879702810453754870535013603845134 (by decide!)
  have e25 := hiStepP 2269 524749752345743478310701210850430901034528942168 632282322804925879702810453754870535013603845134 1103263762059830230729758188692757049855706562845 1001940055965211957858085129283294031005961889043 (by decide!)
  have e26 := hiStepP 2268 1103263762059830230729758188692757049855706562845 1001940055965211957858085129283294031005961889043 1412050913497010786064180935048563444743225936011 507164092659140703239941649087047034312657481112 (by decide!)
  have e27 := hiStepP 2267 1412050913497010786064180935048563444743225936011 507164092659140703239941649087047034312657481112 1198955945418145770158275552610459876599517895445 792591918041717040028161351959827030761824810637 (by decide!)
  have e28 := hiStepP 2266 1198955945418145770158275552610459876599517895445 792591918041717040028161351959827030761824810637 198606625256729213789398507805578331228376781647 959753794989659070571429757519819675658216449474 (by decide!)
  have e29 := hiStepP 2265 198606625256729213789398507805578331228376781647 959753794989659070571429757519819675658216449474 950551672768634313828917296182229838817015413462 83425623801637125182113618482640438808927411988 (by decide!)
  have e30 := hiStepP 2264 950551672768634313828917296182229838817015413462 83425623801637125182113618482640438808927411988 1024207065147180935854099236290177594167725040157 1084616892330926694313482716451752129690789264649 (by decide!)
  have e31 := hiStepP 2263 1024207065147180935854099236290177594167725040157 1084616892330926694313482716451752129690789264649 948612462129268080456272325390397368288265270303 158840394393904018435442675001081662787032631574 (by decide!)
  have e32 := hiStepP 2262 948612462129268080456272325390397368288265270303 158840394393904018435442675001081662787032631574 245181340053466639297189257330128523694090795387 280474517053507157212577105335175372866169237613 (by decide!)
  have e33 := hiStepP 2261 245181340053466639297189257330128523694090795387 280474517053507157212577105335175372866169237613 394301938179759352220684704214956015797559454693 663357077095520991897363355620882287887371410312 (by decide!)
  have e34 := hiStepP 2260 394301938179759352220684704214956015797559454693 663357077095520991897363355620882287887371410312 662687870112131585269621659781337770537631552395 758781680157622339571054976280442117831264259 (by decide!)
  have e35 := hiStepP 2259 662687870112131585269621659781337770537631552395 758781680157622339571054976280442117831264259 307285189669566562661852434096687609947476846590 307954004557297349694167089430314857280123039741 (by decide!)
  have e36 := hiStepP 2258 307285189669566562661852434096687609947476846590 307954004557297349694167089430314857280123039741 816661963257639964103907249162919422190668701550 1067520038108277712245883268662826527058732429459 (by decide!)
  have e37 := hiStepP 2257 816661963257639964103907249162919422190668701550 1067520038108277712245883268662826527058732429459 237275850270120009930010961541319741972105980538 841776485539645093338224471079152209289997343465 (by decide!)
  have e38 := hiStepP 2256 237275850270120009930010961541319741972105980538 841776485539645093338224471079152209289997343465 216643621302382120418832418401471388812337415439 1041895250554896620385244298900241848813860511718 (by decide!)
  have e39 := hiStepP 2255 216643621302382120418832418401471388812337415439 1041895250554896620385244298900241848813860511718 608902761333969295913204982670298806111260103610 1256871920855209425942997492124401042452642171996 (by decide!)
  have e40 := hiStepP 2254 608902761333969295913204982670298806111260103610 1256871920855209425942997492124401042452642171996 901031408509176303770318677745975311063793276379 376697502074006754059518137282597325622439745927 (by decide!)
  have e41 := hiStepP 2253 901031408509176303770318677745975311063793276379 376697502074006754059518137282597325622439745927 140110691985953948281929075684124182305479894868 510630321398810299391895937599370394541930462931 (by decide!)
  have e42 := hiStepP 2252 140110691985953948281929075684124182305479894868 510630321398810299391895937599370394541930462931 164508657693807971931634100376678994527319566957 397525274805219853438402837716325840149522879678 (by decide!)
  have e43 := hiStepP 2251 164508657693807971931634100376678994527319566957 397525274805219853438402837716325840149522879678 305973134702550173086788708600116921301574119718 640698411169584534248443517937754378498045076888 (by decide!)
  have e44 := hiStepP 2250 305973134702550173086788708600116921301574119718 640698411169584534248443517937754378498045076888 925851708164645176829642621874691513636057523141 1199362764233023861959837147894284001047889004125 (by decide!)
  have e45 := hiStepP 2249 925851708164645176829642621874691513636057523141 1199362764233023861959837147894284001047889004125 1365920172562035600101306130980721952101225683911 350137360972523501698949461405669198598719151514 (by decide!)
  have e46 := hiStepP 2248 1365920172562035600101306130980721952101225683911 350137360972523501698949461405669198598719151514 644814456066362619431349515616909249215062184765 443311741852436244721601046150691287309263408807 (by decide!)
  have e47 := hiStepP 2247 644814456066362619431349515616909249215062184765 443311741852436244721601046150691287309263408807 15229843645953915623087797865663910428296508904 451281298799171508851136386365262120881854348111 (by decide!)
  have e48 := hiStepP 2246 15229843645953915623087797865663910428296508904 451281298799171508851136386365262120881854348111 395974102861742803064830316851367003205005073075 58878233478813408655311588335186755968145433084 (by decide!)
  have e49 := hiStepP 2245 395974102861742803064830316851367003205005073075 58878233478813408655311588335186755968145433084 339795435702589963399228155989313347529722058476 284485441298928808751712078618113279030671341328 (by decide!)
  have e50 := hiStepP 2244 339795435702589963399228155989313347529722058476 284485441298928808751712078618113279030671341328 1312102069184273128956569906300792294750200597641 1210316291967836209438606685246052200672378452889 (by decide!)
  have e51 := hiStepP 2243 1312102069184273128956569906300792294750200597641 1210316291967836209438606685246052200672378452889 616580689158626677760792528772885600272832579090 1050456617664428815452862272415638661676438633867 (by decide!)
  have e52 := hiStepP 2242 616580689158626677760792528772885600272832579090 1050456617664428815452862272415638661676438633867 301844177593819681061971138934597344178665542327 804236275487096441134245522972823128411198877500 (by decide!)
  have e53 := hiStepP 2241 301844177593819681061971138934597344178665542327 804236275487096441134245522972823128411198877500 1319946989756655243394200460939763497103725925446 616109306425973308511964707990118280096979745658 (by decide!)
  have e54 := hiStepP 2240 1319946989756655243394200460939763497103725925446 616109306425973308511964707990118280096979745658 355072626102795754546292361051049698830775996429 490109935684717208924668669459252177557300325239 (by decide!)
  have e55 := hiStepP 2239 355072626102795754546292361051049698830775996429 490109935684717208924668669459252177557300325239 143086405904408394260937250267629346503026997259 438376659604549669792695551608259791713132401532 (by decide!)
  have e56 := hiStepP 2238 143086405904408394260937250267629346503026997259 438376659604549669792695551608259791713132401532 853394663662548920923295470680358061804397582362 1242842050172483407336033347719062594210282081126 (by decide!)
  have e57 := hiStepP 2237 853394663662548920923295470680358061804397582362 1242842050172483407336033347719062594210282081126 90787226955965474270811794207719052679213853885 1223641653337135967246715062873993091340451817435 (by decide!)
  have e58 := hiStepP 2236 90787226955965474270811794207719052679213853885 1223641653337135967246715062873993091340451817435 938892414155315329125604359146639521141794192769 651551909935876039699008130635213603235121011290 (by decide!)
  have e59 := hiStepP 2235 938892414155315329125604359146639521141794192769 651551909935876039699008130635213603235121011290 1234269461412758432842952771109195740032258748706 970931897476974846276718864647266900127300725624 (by decide!)
  have e60 := hiStepP 2234 1234269461412758432842952771109195740032258748706 970931897476974846276718864647266900127300725624 884472513974964217451160668509554087076502061329 279719037965810665753881550377272331491497372265 (by decide!)
  have e61 := hiStepP 2233 884472513974964217451160668509554087076502061329 279719037965810665753881550377272331491497372265 1311764203391846666295122495723254240886073029713 1217319941821839724289535122561349685005010411064 (by decide!)
  have e62 := hiStepP 2232 1311764203391846666295122495723254240886073029713 1217319941821839724289535122561349685005010411064 10081957833154532809815159612813919024387898493 1215983383101402914437132883753812938853941748293 (by decide!)
  have e63 := hiStepP 2231 10081957833154532809815159612813919024387898493 1215983383101402914437132883753812938853941748293 658547097012859034279246048856087288839505885751 957077011028488313576616929059161093753132357746 (by decide!)
  have e64 := hiStepP 2230 658547097012859034279246048856087288839505885751 957077011028488313576616929059161093753132357746 715818557411045618188636797502533451276877088086 1248991850525929646681078494488171713138700180772 (by decide!)
  have e65 := hiStepP 2229 715818557411045618188636797502533451276877088086 1248991850525929646681078494488171713138700180772 1412115295351162483818398273641946471638401237506 260468158329601450284802078261169338298022928166 (by decide!)
  have e66 := hiStepP 2228 1412115295351162483818398273641946471638401237506 260468158329601450284802078261169338298022928166 316927961562954369480881338955160916925521000808 149063865878120887429032541812711393972816733774 (by decide!)
  have e67 := hiStepP 2227 316927961562954369480881338955160916925521000808 149063865878120887429032541812711393972816733774 1454177250541566845444830057743426188605299967101 1305481566186567603348739840591666096410996843059 (by decide!)
  have e68 := hiStepP 2226 1454177250541566845444830057743426188605299967101 1305481566186567603348739840591666096410996843059 116621195597015553202723305940335479432596739722 1374588033050362939440096046242688788551776990393 (by decide!)
  have e69 := hiStepP 2225 116621195597015553202723305940335479432596739722 1374588033050362939440096046242688788551776990393 974378578542626842422610500092954007379761807642 516174204810177317845789486177899217754363278755 (by decide!)
  have e70 := hiStepP 2224 974378578542626842422610500092954007379761807642 516174204810177317845789486177899217754363278755 725584914435521473605569777265217487326949054891 213782529593187739296600055375687468662399609864 (by decide!)
  have e71 := hiStepP 2223 725584914435521473605569777265217487326949054891 213782529593187739296600055375687468662399609864 1118097217004582988925988170746195180481767669662 1316889798250959726702323380689942018184352060310 (by decide!)
  have e72 := hiStepP 2222 1118097217004582988925988170746195180481767669662 1316889798250959726702323380689942018184352060310 416785322527388131004739627508070807759201992230 1002868463076024410803871861113951349823129267632 (by decide!)
  have e73 := hiStepP 2221 416785322527388131004739627508070807759201992230 1002868463076024410803871861113951349823129267632 176325271338608199672294451613317312842394585983 1012110916034765182911176212659957616573793527503 (by decide!)
  have e74 := hiStepP 2220 176325271338608199672294451613317312842394585983 1012110916034765182911176212659957616573793527503 46359594001503379894147251634105196064489559462 1058087564421164621406052471842581784810047026025 (by decide!)
  have e75 := hiStepP 2219 46359594001503379894147251634105196064489559462 1058087564421164621406052471842581784810047026025 731256724076721519145589991881952838131992141061 326859761794593669909992413924800709737660329580 (by decide!)
  have e76 := hiStepP 2218 731256724076721519145589991881952838131992141061 326859761794593669909992413924800709737660329580 1121809048811752570279440501095167283460138279752 1445786438777967646739318012909050798598278843684 (by decide!)
  have e77 := hiStepP 2217 1121809048811752570279440501095167283460138279752 1445786438777967646739318012909050798598278843684 25168718414881786222022969927091291310153709240 1423497414192119230830146243113813070504223128476 (by decide!)
  have e78 := hiStepP 2216 25168718414881786222022969927091291310153709240 1423497414192119230830146243113813070504223128476 267063412582376744440112261856522034195470879183 1230652449652180790589627577679594180450387702355 (by decide!)
  have e79 := hiStepP 2215 267063412582376744440112261856522034195470879183 1230652449652180790589627577679594180450387702355 207651584874572571535715546092842264115026276179 1391905716862280207889033455252754323378361343232 (by decide!)
  have e80 := hiStepP 2214 207651584874572571535715546092842264115026276179 1391905716862280207889033455252754323378361343232 1449549303087527476702762311467166835144917736255 80801168601937837498677321171838715329072809535 (by decide!)
  have e81 := hiStepP 2213 1449549303087527476702762311467166835144917736255 80801168601937837498677321171838715329072809535 1007000835644245762813052331393068389168086681241 1086230732030939377314382626326360221820399239334 (by decide!)
  have e82 := hiStepP 2212 1007000835644245762813052331393068389168086681241 1086230732030939377314382626326360221820399239334 631885132898789048819369590814696923122095366269 1192709432691077227473007498820331369565678067931 (by decide!)
  have e83 := hiStepP 2211 631885132898789048819369590814696923122095366269 1192709432691077227473007498820331369565678067931 1207948355338985589730191851590661884961724829204 19908272183945723186833972802024738012462444239 (by decide!)
  have e84 := hiStepP 2210 1207948355338985589730191851590661884961724829204 19908272183945723186833972802024738012462444239 1049132955194355653042054531773722307830700322081 1031722410381233648023096084104481821767889437678 (by decide!)
  have e85 := hiStepP 2209 1049132955194355653042054531773722307830700322081 1031722410381233648023096084104481821767889437678 942298643355385893281431038966946121973482193631 101115194120770170996855837456616654075345813809 (by decide!)
  have e86 := hiStepP 2208 942298643355385893281431038966946121973482193631 101115194120770170996855837456616654075345813809 931110151708510254875037460602459343771841859576 1020086771455661727125969372794560510301384265417 (by decide!)
  have e87 := hiStepP 2207 931110151708510254875037460602459343771841859576 1020086771455661727125969372794560510301384265417 568113264068205765449811050571121769350603299898 1194189723223117928201685922220457562775127167731 (by decide!)
  have e88 := hiStepP 2206 568113264068205765449811050571121769350603299898 1194189723223117928201685922220457562775127167731 1280849883344622448620146743945667520762231798619 282374313866432982516440942207456032300644411816 (by decide!)
  have e89 := hiStepP 2205 1280849883344622448620146743945667520762231798619 282374313866432982516440942207456032300644411816 1367444945200903106081361628128018553670138122676 1272753707442230877097286475976927405684639889436 (by decide!)
  have e90 := hiStepP 2204 1367444945200903106081361628128018553670138122676 1272753707442230877097286475976927405684639889436 1041795020184668916463574387484281400492303819880 596856128045607212671476893635589710049390419060 (by decide!)
  have e91 := hiStepP 2203 1041795020184668916463574387484281400492303819880 596856128045607212671476893635589710049390419060 300811810386488236675178887944731739290191592523 526546591541821874433883051560500086286250418239 (by decide!)
  have e92 := hiStepP 2202 300811810386488236675178887944731739290191592523 526546591541821874433883051560500086286250418239 934204822983487805960552316025459410103812502578 1459184712649800090505009535718765002427220104205 (by decide!)
  have e93 := hiStepP 2201 934204822983487805960552316025459410103812502578 1459184712649800090505009535718765002427220104205 601608701922110363155054312768809677353829398538 861902390709544475840485217959847658895583603719 (by decide!)
  have e94 := hiStepP 2200 601608701922110363155054312768809677353829398538 861902390709544475840485217959847658895583603719 212045853739365545078707706190404850438193119912 1026848719375301351574093904950880537720285851311 (by decide!)
  have e95 := hiStepP 2199 212045853739365545078707706190404850438193119912 1026848719375301351574093904950880537720285851311 265110415487196635993259643359851407033218200315 900293225854439170482838897452869180820929715284 (by decide!)
  have e96 := hiStepP 2198 265110415487196635993259643359851407033218200315 900293225854439170482838897452869180820929715284 364895402998154081521953457310922412029210739200 926840111037461690603251164807150097130904247892 (by decide!)
  have e97 := hiStepP 2197 364895402998154081521953457310922412029210739200 926840111037461690603251164807150097130904247892 790005990200421111415419669228566701319854496913 229651216416077876179367228712872857884569518789 (by decide!)
  have e98 := hiStepP 2196 790005990200421111415419669228566701319854496913 229651216416077876179367228712872857884569518789 699076372319451103768468769703887987265998846009 469793213999609195601184712519868130100600912636 (by decide!)
  have e99 := hiStepP 2195 699076372319451103768468769703887987265998846009 469793213999609195601184712519868130100600912636 321092675082308551443083137486543109351256201007 607740842173454148271004541188708463889571491283 (by decide!)
  have t0 := e0
  have t1 := t0.trans e1
  have t2 := t1.trans e2
  have t3 := t2.trans e3
  have t4 := t3.trans e4
  have t5 := t4.trans e5
  have t6 := t5.trans e6
  have t7 := t6.trans e7
  have t8 := t7.trans e8
  have t9 := t8.trans e9
  have t10 := t9.trans e10
  have t11 := t10.trans e11
  have t12 := t11.trans e12
  have t13 := t12.trans e13
  have t14 := t13.trans e14
  have t15 := t14.trans e15
  have t16 := t15.trans e16
  have t17 := t16.trans e17
  have t18 := t17.trans e18
  have t19 := t18.trans e19
  have t20 := t19.trans e20
  have t21 := t20.trans e21
  have t22 := t21.trans e22
  have t23 := t22.trans e23
  have t24 := t23.trans e24
  have t25 := t24.trans e25
  have t26 := t25.trans e26
  have t27 := t26.trans e27
  have t28 := t27.trans e28
  have t29 := t28.trans e29
  have t30 := t29.trans e30
  have t31 := t30.trans e31
  have t32 := t31.trans e32
  have t33 := t32.trans e33
  have t34 := t33.trans e34
  have t35 := t34.trans e35
  have t36 := t35.trans e36
  have t37 := t36.trans e37
  have t38 := t37.trans e38
  have t39 := t38.trans e39
  have t40 := t39.trans e40
  have t41 := t40.trans e41
  have t42 := t41.trans e42
  have t43 := t42.trans e43
  have t44 := t43.trans e44
  have t45 := t44.trans e45
  have t46 := t45.trans e46
  have t47 := t46.trans e47
  have t48 := t47.trans e48
  have t49 := t48.trans e49
  have t50 := t49.trans e50
  have t51 := t50.trans e51
  have t52 := t51.trans e52
  have t53 := t52.trans e53
  have t54 := t53.trans e54
  have t55 := t54.trans e55
  have t56 := t55.trans e56
  have t57 := t56.trans e57
  have t58 := t57.trans e58
  have t59 := t58.trans e59
  have t60 := t59.trans e60
  have t61 := t60.trans e61
  have t62 := t61.trans e62
  have t63 := t62.trans e63
  have t64 := t63.trans e64
  have t65 := t64.trans e65
  have t66 := t65.trans e66
  have t67 := t66.trans e67
  have t68 := t67.trans e68
  have t69 := t68.trans e69
  have t70 := t69.trans e70
  have t71 := t70.trans e71
  have t72 := t71.trans e72
  have t73 := t72.trans e73
  have t74 := t73.trans e74
  have t75 := t74.trans e75
  have t76 := t75.trans e76
  have t77 := t76.trans e77
  have t78 := t77.trans e78
  have t79 := t78.trans e79
  have t80 := t79.trans e80
  have t81 := t80.trans e81
  have t82 := t81.trans e82
  have t83 := t82.trans e83
  have t84 := t83.trans e84
  have t85 := t84.trans e85
  have t86 := t85.trans e86
  have t87 := t86.trans e87
  have t88 := t87.trans e88
  have t89 := t88.trans e89
  have t90 := t89.trans e90
  have t91 := t90.trans e91
  have t92 := t91.trans e92
  have t93 := t92.trans e93
  have t94 := t93.trans e94
  have t95 := t94.trans e95
  have t96 := t95.trans e96
  have t97 := t96.trans e97
  have t98 := t97.trans e98
  have t99 := t98.trans e99
  exact t99

theorem hiChainSeg19 : hiLoop SHA_1 (strBytes "pencil") 2195
    (unpackBytes 20 321092675082308551443083137486543109351256201007)
    (unpackBytes 20 607740842173454148271004541188708463889571491283) =
    hiLoop SHA_1 (strBytes "pencil") 2095
      (unpackBytes 20 1181008356745959431819566308212440587542950363104)
      (unpackBytes 20 164915092470842158541710176464567563825417832713) := by
  have e0 := hiStepP 2194 321092675082308551443083137486543109351256201007 607740842173454148271004541188708463889571491283 15168339446840002068538379861578441419573071481 598644103159648369951060147460870947927508591530 (by decide!)
  have e1 := hiStepP 2193 15168339446840002068538379861578441419573071481 598644103159648369951060147460870947927508591530 513090371356286683851719882497280860843730260145 279827474244801581684158014113495706327470371611 (by decide!)
  have e2 := hiStepP 2192 513090371356286683851719882497280860843730260145 279827474244801581684158014113495706327470371611 544485154464399254505611429857486540730535805993 630049959391175731692830380899392061822311888690 (by decide!)
  have e3 := hiStepP 2191 544485154464399254505611429857486540730535805993 630049959391175731692830380899392061822311888690 393612294569428434197441642191796684583939209321 243663985352428942003006398037659976512787812187 (by decide!)
  have e4 := hiStepP 2190 393612294569428434197441642191796684583939209321 243663985352428942003006398037659976512787812187 1265199685997723331524838295723402216387297056891 1411274893977774738661417427540458576946556507936 (by decide!)
  have e5 := hiStepP 2189 1265199685997723331524838295723402216387297056891 1411274893977774738661417427540458576946556507936 434239769415702763545719883421292697595391110731 1068924662291850068762380351163067572673227192683 (by decide!)
  have e6 := hiStepP 2188 434239769415702763545719883421292697595391110731 1068924662291850068762380351163067572673227192683 53677923002124222133862505098158423560992109491 1018235039150338197203896251544007421229350931160 (by decide!)
  have e7 := hiStepP 2187 53677923002124222133862505098158423560992109491 1018235039150338197203896251544007421229350931160 723706477313199043001691500989232596024590349036 1168183065488406487417726388304195304919687133236 (by decide!)
  have e8 := hiStepP 2186 723706477313199043001691500989232596024590349036 1168183065488406487417726388304195304919687133236 201334682730608026418797310394245677033842384098 1369333627542041486261917072984016943158302336214 (by decide!)
  have e9 := hiStepP 2185 201334682730608026418797310394245677033842384098 1369333627542041486261917072984016943158302336214 382475937394944959311744412304682874864787142625 988499634972337472942120065333099283535608795959 (by decide!)
  have e10 := hiStepP 2184 382475937394944959311744412304682874864787142625 988499634972337472942120065333099283535608795959 1221135257712711896751683788082367815173994718457 689366386747842461945356499787818096133065537486 (by decide!)
  have e11 := hiStepP 2183 1221135257712711896751683788082367815173994718457 689366386747842461945356499787818096133065537486 802859677556715757913032536785388284212026914965 1395162070710958902692170815094639510187758341979 (by decide!)
  have e12 := hiStepP 2182 802859677556715757913032536785388284212026914965 1395162070710958902692170815094639510187758341979 876777021033009044261726178207811354727380838231 627747991504381421523057015238531502168746633228 (by decide!)
  have e13 := hiStepP 2181 876777021033009044261726178207811354727380838231 627747991504381421523057015238531502168746633228 144243621680901877904818864401392657475037312078 666193829032916471332161696226908257163668495426 (by decide!)
  have e14 := hiStepP 2180 144243621680901877904818864401392657475037312078 666193829032916471332161696226908257163668495426 1251097678804472449528865328741070897047275771235 1002374164714613712857948464266914780540225784097 (by decide!)
  have e15 := hiStepP 2179 1251097678804472449528865328741070897047275771235 1002374164714613712857948464266914780540225784097 1007439618444440504680266239914754858160599741227 182044183969553740256092338616458988481593686538 (by decide!)
  have e16 := hiStepP 2178 1007439618444440504680266239914754858160599741227 182044183969553740256092338616458988481593686538 836749486723713488312484156752716729309985271297 807510132717294255241973433140451694546715890699 (by decide!)
  have e17 := hiStepP 2177 836749486723713488312484156752716729309985271297 807510132717294255241973433140451694546715890699 902552602843066888225665341971856186055879990442 110742230198878998606440696220299400034289567905 (by decide!)
  have e18 := hiStepP 2176 902552602843066888225665341971856186055879990442 110742230198878998606440696220299400034289567905 2479938916410323937664664143982645739778258881 108714584402423547308589900492881350099881787232 (by decide!)
  have e19 := hiStepP 2175 2479938916410323937664664143982645739778258881 108714584402423547308589900492881350099881787232 1354135793128435833164055910439084322828317094317 1451407998054792030374002037998176144646880792269 (by decide!)
  have e20 := hiStepP 2174 1354135793128435833164055910439084322828317094317 1451407998054792030374002037998176144646880792269 1420614241440959558091208502308314063099806476305 39559519386523287186637594967972611110190147292 (by decide!)
  have e21 := hiStepP 2173 1420614241440959558091208502308314063099806476305 39559519386523287186637594967972611110190147292 1417079795589887963749502780228118072473930579788 1454853859600951511188111913728364894735980386704 (by decide!)
  have e22 := hiStepP 2172 1417079795589887963749502780228118072473930579788 1454853859600951511188111913728364894735980386704 1212324951484323008177610316039255680983210308041 242975040425098264230190592038112501460544251993 (by decide!)
  have e23 := hiStepP 2171 1212324951484323008177610316039255680983210308041 242975040425098264230190592038112501460544251993 322404375964174935584392617310039020754887883369 108258626633138620577911210439971435813926228528 (by decide!)
  have e24 := hiStepP 2170 322404375964174935584392617310039020754887883369 108258626633138620577911210439971435813926228528 1262382593402055567692575271980232144222143662083 1186963908900857092417342459657183262092912630323 (by decide!)
  have e25 := hiStepP 2169 1262382593402055567692575271980232144222143662083 1186963908900857092417342459657183262092912630323 892594829035230221169262367647683726861807724512 477773555311120860314111501282452557036304678355 (by decide!)
  have e26 := hiStepP 2168 892594829035230221169262367647683726861807724512 477773555311120860314111501282452557036304678355 434573065475903798038177978216232252843426512326 180880414205532625515710426361135125475724738581 (by decide!)
  have e27 := hiStepP 2167 434573065475903798038177978216232252843426512326 180880414205532625515710426361135125475724738581 730947879011237474210388665619401660547755785560 911434545645478255962652108586405144372654931277 (by decide!)
  have e28 := hiStepP 2166 730947879011237474210388665619401660547755785560 911434545645478255962652108586405144372654931277 404812393243536578396033536520407466682502424485 1240596828670641417101947914853131689036003236584 (by decide!)
  have e29 := hiStepP 2165 404812393243536578396033536520407466682502424485 1240596828670641417101947914853131689036003236584 680554654347447598133289838860230280711104119714 996116566057453605102938256706330176088137865546 (by decide!)
  have e30 := hiStepP 2164 680554654347447598133289838860230280711104119714 996116566057453605102938256706330176088137865546 493145086659257278157242965947463418396780296115 1416410452244015653593309926877411709531920363257 (by decide!)
  have e31 := hiStepP 2163 493145086659257278157242965947463418396780296115 1416410452244015653593309926877411709531920363257 1008589701802504140551347161761013850570227649805 414987892865953213245532126008654679711813362676 (by decide!)
  have e32 := hiStepP 2162 1008589701802504140551347161761013850570227649805 414987892865953213245532126008654679711813362676 778092659241178847097745754565918563184229552629 1101708626983786276490481436719031722512656331265 (by decide!)
  have e33 := hiStepP 2161 778092659241178847097745754565918563184229552629 1101708626983786276490481436719031722512656331265 64013567277083392167272611471670206769708763992 1163477743479552110479380312831804524582657259865 (by decide!)
  have e34 := hiStepP 2160 64013567277083392167272611471670206769708763992 1163477743479552110479380312831804524582657259865 729382828392227333093717768040057115755213059312 1027942856190407221019741866284113179753559330217 (by decide!)
  have e35 := hiStepP 2159 729382828392227333093717768040057115755213059312 1027942856190407221019741866284113179753559330217 1313373722526963948792876711239200135311351302894 468209342686803618375909572030011631478678275911 (by decide!)
  have e36 := hiStepP 2158 1313373722526963948792876711239200135311351302894 468209342686803618375909572030011631478678275911 1449640267872742578278875588424639466897685831068 1004406530162235753555122364724924786719502605019 (by decide!)
  have e37 := hiStepP 2157 1449640267872742578278875588424639466897685831068 1004406530162235753555122364724924786719502605019 844711961305170308781281717357751773144283190509 343098729967941678746276754062007546644850150966 (by decide!)
  have e38 := hiStepP 2156 844711961305170308781281717357751773144283190509 343098729967941678746276754062007546644850150966 867641139601138686896797340190614229973848620247 981306274238360155281963606745247488939497812705 (by decide!)
  have e39 := hiStepP 2155 867641139601138686896797340190614229973848620247 981306274238360155281963606745247488939497812705 1001152292646962925436719421978096207500538780247 27083134397614214680191948617644041695328823478 (by decide!)
  have e40 := hiStepP 2154 1001152292646962925436719421978096207500538780247 27083134397614214680191948617644041695328823478 1282353310056759441378068672872558934221562941079 1302380696331069741827856773236943968433706427937 (by decide!)
  have e41 := hiStepP 2153 1282353310056759441378068672872558934221562941079 1302380696331069741827856773236943968433706427937 72310025427458989827554323498114105314819180712 1327579677562018259240755849359835402436226379401 (by decide!)
  have e42 := hiStepP 2152 72310025427458989827554323498114105314819180712 1327579677562018259240755849359835402436226379401 985711600320860191830463726644764594389555301269 388979131211214579398617356254951013323953644828 (by decide!)
  have e43 := hiStepP 2151 985711600320860191830463726644764594389555301269 388979131211214579398617356254951013323953644828 843940578608855322979011609181641599872870379860 1232829080162871081189843369225169978982237492296 (by decide!)
  have e44 := hiStepP 2150 843940578608855322979011609181641599872870379860 1232829080162871081189843369225169978982237492296 771314500367162635276930237668921367913204955508 461960629132077013751935673498101468158423887164 (by decide!)
  have e45 := hiStepP 2149 771314500367162635276930237668921367913204955508 461960629132077013751935673498101468158423887164 688213843546458514533334102471754958032430679055 230669547681203648880170128425183165975222135091 (by decide!)
  have e46 := hiStepP 2148 688213843546458514533334102471754958032430679055 230669547681203648880170128425183165975222135091 597601228928148138919539036121042117127231454243 369897680359187619181866501470989202791489770768 (by decide!)
  have e47 := hiStepP 2147 597601228928148138919539036121042117127231454243 369897680359187619181866501470989202791489770768 1378678427575288419088679099146417476380433227839 1014524757179539566629853143007385948902850311471 (by decide!)
  have e48 := hiStepP 2146 1378678427575288419088679099146417476380433227839 1014524757179539566629853143007385948902850311471 862305487266665798523796407193586801592384268718 221217862946033388831138748298799977213676657793 (by decide!)
  have e49 := hiStepP 2145 862305487266665798523796407193586801592384268718 221217862946033388831138748298799977213676657793 1397390077578383608181450028660875630514503169538 1201628605291902833562639402302170888963929582211 (by decide!)
  have e50 := hiStepP 2144 1397390077578383608181450028660875630514503169538 1201628605291902833562639402302170888963929582211 41206535504459789336140156647647319831501942000 1217734995839541421113249887139947783047293666931 (by decide!)
  have e51 := hiStepP 2143 41206535504459789336140156647647319831501942000 1217734995839541421113249887139947783047293666931 70381790443075687433515228425361041375736382867 1239411947879713874474881411109960930688080266208 (by decide!)
  have e52 := hiStepP 2142 70381790443075687433515228425361041375736382867 1239411947879713874474881411109960930688080266208 780717911892758614134273943257054190255656537703 467284020611758226109346273548903237412427779463 (by decide!)
  have e53 := hiStepP 2141 780717911892758614134273943257054190255656537703 467284020611758226109346273548903237412427779463 657101548981554259536008392859947222134835108674 198405430555487780648878496183543560535813265093 (by decide!)
  have e54 := hiStepP 2140 657101548981554259536008392859947222134835108674 198405430555487780648878496183543560535813265093 1130739786141066857944866682843250559881188260875 1306309231745780490042145793572250253941892360910 (by decide!)
  have e55 := hiStepP 2139 1130739786141066857944866682843250559881188260875 1306309231745780490042145793572250253941892360910 1454556743782066754398848287955666983501163639680 148979607653714718671398153121519954983982799182 (by decide!)
  have e56 := hiStepP 2138 1454556743782066754398848287955666983501163639680 148979607653714718671398153121519954983982799182 49043779229423734242273028991615119831222705931 105957198411275382867919524814730813469977658949 (by decide!)
  have e57 := hiStepP 2137 49043779229423734242273028991615119831222705931 105957198411275382867919524814730813469977658949 1131576439512931673938828416226225868487644930797 1214474585451904749193250455389140928012574860456 (by decide!)
  have e58 := hiStepP 2136 1131576439512931673938828416226225868487644930797 1214474585451904749193250455389140928012574860456 932197211536083765414798657673533690620038496056 684806376007502140841667137627177619387406293904 (by decide!)
  have e59 := hiStepP 2135 932197211536083765414798657673533690620038496056 684806376007502140841667137627177619387406293904 45547621505383150618445539452910099106132074044 639622539099436815612692122922967771351959995820 (by decide!)
  have e60 := hiStepP 2134 45547621505383150618445539452910099106132074044 639622539099436815612692122922967771351959995820 1406337489129169134387342221215932424153893425063 767144243034252439058784340497035757448006453771 (by decide!)
  have e61 := hiStepP 2133 1406337489129169134387342221215932424153893425063 767144243034252439058784340497035757448006453771 96630140137258801044294096776169454970536881077 860340067305019498917630799145374970951718248894 (by decide!)
  have e62 := hiStepP 2132 96630140137258801044294096776169454970536881077 860340067305019498917630799145374970951718248894 125599608168637202593323720218314096147473886346 734741200042750428585974536939670930931922914612 (by decide!)
  have e63 := hiStepP 2131 125599608168637202593323720218314096147473886346 734741200042750428585974536939670930931922914612 850364464785528690703540838429583556735076187962 115635463702474946416460614036574125174562419214 (by decide!)
  have e64 := hiStepP 2130 850364464785528690703540838429583556735076187962 115635463702474946416460614036574125174562419214 911115509856303427649401983805765710572002339959 798334890677008701201321240958231857406563786361 (by decide!)
  have e65 := hiStepP 2129 911115509856303427649401983805765710572002339959 798334890677008701201321240958231857406563786361 174577072184177107609549298805688872376015468732 852130777730212347010818895151162447411748546245 (by decide!)
  have e66 := hiStepP 2128 174577072184177107609549298805688872376015468732 852130777730212347010818895151162447411748546245 433306510459595250479064657575641015947468597114 1271075515713150145770879845264951750996498170303 (by decide!)
  have e67 := hiStepP 2127 433306510459595250479064657575641015947468597114 1271075515713150145770879845264951750996498170303 898839672914500514002149999256055657198986511660 387266573993797421590411829242483340592464856211 (by decide!)
  have e68 := hiStepP 2126 898839672914500514002149999256055657198986511660 387266573993797421590411829242483340592464856211 259432171902416492841966201374051374120822121107 631667690944683959462249916310541343111664444928 (by decide!)
  have e69 := hiStepP 2125 259432171902416492841966201374051374120822121107 631667690944683959462249916310541343111664444928 1258947637148794262413782012928753087563553010111 1016955742331626975035815151334177417122350782399 (by decide!)
  have e70 := hiStepP 2124 1258947637148794262413782012928753087563553010111 1016955742331626975035815151334177417122350782399 1288335943374199926788775179985520491434604651511 476949192362195077784921244030134056607453033544 (by decide!)
  have e71 := hiStepP 2123 1288335943374199926788775179985520491434604651511 476949192362195077784921244030134056607453033544 853536278041341227979346315200300422066366549796 1130620582634689460928098005929770561122833251180 (by decide!)
  have e72 := hiStepP 2122 853536278041341227979346315200300422066366549796 1130620582634689460928098005929770561122833251180 980580554635813393448579768248321287848864182054 626740795645207250163260837868667365305050551370 (by decide!)
  have e73 := hiStepP 2121 980580554635813393448579768248321287848864182054 626740795645207250163260837868667365305050551370 685725807177697833555213521621279591246178589853 124639325878462616973806771481512617467954448599 (by decide!)
  have e74 := hiStepP 2120 685725807177697833555213521621279591246178589853 124639325878462616973806771481512617467954448599 950316236518563136483594535155160746277382547647 1025491593150319915727460073286703190064435798120 (by decide!)
  have e75 := hiStepP 2119 950316236518563136483594535155160746277382547647 1025491593150319915727460073286703190064435798120 1118787647709305200322496199791031992096605902427 641381845168086251542253912064254981663274251827 (by decide!)
  have e76 := hiStepP 2118 1118787647709305200322496199791031992096605902427 641381845168086251542253912064254981663274251827 1272208264006702265829786039803611237838918878567 996559399115636485802945984539234914108252271444 (by decide!)
  have e77 := hiStepP 2117 1272208264006702265829786039803611237838918878567 996559399115636485802945984539234914108252271444 847742217694728250105458117979502937215352456037 336503587869413604054103726066428975124927672369 (by decide!)
  have e78 := hiStepP 2116 847742217694728250105458117979502937215352456037 336503587869413604054103726066428975124927672369 303050063234562555418003373794368765901677566141 90728808013522869386517639350487568307382544524 (by decide!)
  have e79 := hiStepP 2115 303050063234562555418003373794368765901677566141 90728808013522869386517639350487568307382544524 208318715547182274003795299403916401124739274428 248904034472701765975549587633233513280530038320 (by decide!)
  have e80 := hiStepP 2114 208318715547182274003795299403916401124739274428 248904034472701765975549587633233513280530038320 853787593470366163928539623283479138813033042096 1085156251456072617192794183632568316314022833792 (by decide!)
  have e81 := hiStepP 2113 853787593470366163928539623283479138813033042096 1085156251456072617192794183632568316314022833792 610447885375840186553845171275505208133925137117 1215869455112493138080984754317799603235044525149 (by decide!)
  have e82 := hiStepP 2112 610447885375840186553845171275505208133925137117 1215869455112493138080984754317799603235044525149 739344426801186997066772336998744233317824349214 487943189523539280714724797071024751804387639363 (by decide!)
  have e83 := hiStepP 2111 739344426801186997066772336998744233317824349214 487943189523539280714724797071024751804387639363 49827727305795835318885801173654755594646279474 535273232674405260073853156589494816372024415601 (by decide!)
  have e84 := hiStepP 2110 49827727305795835318885801173654755594646279474 535273232674405260073853156589494816372024415601 1304915983411527969188738702591274918575023468402 1057948703859703739181382574962045617640099953155 (by decide!)
  have e85 := hiStepP 2109 1304915983411527969188738702591274918575023468402 1057948703859703739181382574962045617640099953155 820992861274156063619648291442307287373930202456 311822291790303400279582873950664201177276923739 (by decide!)
  have e86 := hiStepP 2108 820992861274156063619648291442307287373930202456 311822291790303400279582873950664201177276923739 167841970990117180153405098643904175554351590053 251035572035630472688702641629922756929523242494 (by decide!)
  have e87 := hiStepP 2107 167841970990117180153405098643904175554351590053 251035572035630472688702641629922756929523242494 793872115017973790682792320431176230931008581693 918939140078923952317240119229215563330017076675 (by decide!)
  have e88 := hiStepP 2106 793872115017973790682792320431176230931008581693 918939140078923952317240119229215563330017076675 290171402650253735040798179715725331292152924198 834340190908318317194780169748203456708086115813 (by decide!)
  have e89 := hiStepP 2105 290171402650253735040798179715725331292152924198 834340190908318317194780169748203456708086115813 89008402950174267268115473636264136443650989989 900289269384272818980362621504188131785881285184 (by decide!)
  have e90 := hiStepP 2104 89008402950174267268115473636264136443650989989 900289269384272818980362621504188131785881285184 69930681630215693257710757579023087284961193509 830960713321593840797570407338711160507132632165 (by decide!)
  have e91 := hiStepP 2103 69930681630215693257710757579023087284961193509 830960713321593840797570407338711160507132632165 915197857162799953677486596799835519523975951862 284099387214803182304822157981351692731228629395 (by decide!)
  have e92 := hiStepP 2102 915197857162799953677486596799835519523975951862 284099387214803182304822157981351692731228629395 194729762768738946094590112339090030026140798247 113299723381597506111586184145459610540126364852 (by decide!)
  have e93 := hiStepP 2101 194729762768738946094590112339090030026140798247 113299723381597506111586184145459610540126364852 1002813499843043568639264548551841666540009781205 1076127980309886576488789362393662433018798445409 (by decide!)
  have e94 := hiStepP 2100 1002813499843043568639264548551841666540009781205 1076127980309886576488789362393662433018798445409 1184715110903875039765626402375186690600963049238 662137861293945108674555940930642438853536126071 (by decide!)
  have e95 := hiStepP 2099 1184715110903875039765626402375186690600963049238 662137861293945108674555940930642438853536126071 620270697011166344471502594050650012634110104329 179090274279285183754397406654412382867430049662 (by decide!)
  have e96 := hiStepP 2098 620270697011166344471502594050650012634110104329 179090274279285183754397406654412382867430049662 741354006998193545794216962246933568765391700741 905005457782436708086748449629956143240726086779 (by decide!)
  have e97 := hiStepP 2097 741354006998193545794216962246933568765391700741 905005457782436708086748449629956143240726086779 77460375481048281257982065853207131381707870889 839682350180885703761023859422078554298534205138 (by decide!)
  have e98 := hiStepP 2096 77460375481048281257982065853207131381707870889 839682350180885703761023859422078554298534205138 372012298466417128831494520768800876102768582715 1200252885439537824569492388840354497608348137193 (by decide!)
  have e99 := hiStepP 2095 372012298466417128831494520768800876102768582715 1200252885439537824569492388840354497608348137193 1181008356745959431819566308212440587542950363104 164915092470842158541710176464567563825417832713 (by decide!)
  have t0 := e0
  have t1 := t0.trans e1
  have t2 := t1.trans e2
  have t3 := t2.trans e3
  have t4 := t3.trans e4
  have t5 := t4.trans e5
  have t6 := t5.trans e6
  have t7 := t6.trans e7
  have t8 := t7.trans e8
  have t9 := t8.trans e9
  have t10 := t9.trans e10
  have t11 := t10.trans e11
  have t12 := t11.trans e12
  have t13 := t12.trans e13
  have t14 := t13.trans e14
  have t15 := t14.trans e15
  have t16 := t15.trans e16
  have t17 := t16.trans e17
  have t18 := t17.trans e18
  have t19 := t18.trans e19
  have t20 := t19.trans e20
  have t21 := t20.trans e21
  have t22 := t21.trans e22
  have t23 := t22.trans e23
  have t24 := t23.trans e24
  have t25 := t24.trans e25
  have t26 := t25.trans e26
  have t27 := t26.trans e27
  have t28 := t27.trans e28
  have t29 := t28.trans e29
  have t30 := t29.trans e30
  have t31 := t30.trans e31
  have t32 := t31.trans e32
  have t33 := t32.trans e33
  have t34 := t33.trans e34
  have t35 := t34.trans e35
  have t36 := t35.trans e36
  have t37 := t36.trans e37
  have t38 := t37.trans e38
  have t39 := t38.trans e39
  have t40 := t39.trans e40
  have t41 := t40.trans e41
  have t42 := t41.trans e42
  have t43 := t42.trans e43
  have t44 := t43.trans e44
  have t45 := t44.trans e45
  have t46 := t45.trans e46
  have t47 := t46.trans e47
  have t48 := t47.trans e48
  have t49 := t48.trans e49
  have t50 := t49.trans e50
  have t51 := t50.trans e51
  have t52 := t51.trans e52
  have t53 := t52.trans e53
  have t54 := t53.trans e54
  have t55 := t54.trans e55
  have t56 := t55.trans e56
  have t57 := t56.trans e57
  have t58 := t57.trans e58
  have t59 := t58.trans e59
  have t60 := t59.trans e60
  have t61 := t60.trans e61
  have t62 := t61.trans e62
  have t63 := t62.trans e63
  have t64 := t63.trans e64
  have t65 := t64.trans e65
  have t66 := t65.trans e66
  have t67 := t66.trans e67
  have t68 := t67.trans e68
  have t69 := t68.trans e69
  have t70 := t69.trans e70
  have t71 := t70.trans e71
  have t72 := t71.trans e72
  have t73 := t72.trans e73
  have t74 := t73.trans e74
  have t75 := t74.trans e75
  have t76 := t75.trans e76
  have t77 := t76.trans e77
  have t78 := t77.trans e78
  have t79 := t78.trans e79
  have t80 := t79.trans e80
  have t81 := t80.trans e81
  have t82 := t81.trans e82
  have t83 := t82.trans e83
  have t84 := t83.trans e84
  have t85 := t84.trans e85
  have t86 := t85.trans e86
  have t87 := t86.trans e87
  have t88 := t87.trans e88
  have t89 := t88.trans e89
  have t90 := t89.trans e90
  have t91 := t90.trans e91
  have t92 := t91.trans e92
  have t93 := t92.trans e93
  have t94 := t93.trans e94
  have t95 := t94.trans e95
  have t96 := t95.trans e96
  have t97 := t96.trans e97
  have t98 := t97.trans e98
  have t99 := t98.trans e99
  exact t99

theorem hiChainSeg20 : hiLoop SHA_1 (strBytes "pencil") 2095
    (unpackBytes 20 1181008356745959431819566308212440587542950363104)
    (unpackBytes 20 164915092470842158541710176464567563825417832713) =
    hiLoop SHA_1 (strBytes "pencil") 1995
      (unpackBytes 20 662085308525070667361015763930742555916750168743)
      (unpackBytes 20 603411978145844300814663462982899797990390573965) := by
  have e0 := hiStepP 2094 1181008356745959431819566308212440587542950363104 164915092470842158541710176464567563825417832713 1393516081436029030807406770357799069507787772890 1329935646033236997645647803826267643010627476179 (by decide!)
  have e1 := hiStepP 2093 1393516081436029030807406770357799069507787772890 1329935646033236997645647803826267643010627476179 1323236775932408954346486259374776750418955901895 86785900157014715623884396154655280624620896532 (by decide!)
  have e2 := hiStepP 2092 1323236775932408954346486259374776750418955901895 86785900157014715623884396154655280624620896532 251668292690197830183070315153244146149215914563 200677357668472429132120972697555973634582825815 (by decide!)
  have e3 := hiStepP 2091 251668292690197830183070315153244146149215914563 200677357668472429132120972697555973634582825815 396353406261151517389761037427272412149237379958 584005545269428356045337635374469429690029946913 (by decide!)
  have e4 := hiStepP 2090 396353406261151517389761037427272412149237379958 584005545269428356045337635374469429690029946913 349790178332430053391866745446555666286088680836 519843324034474250697582446876048615163346570661 (by decide!)
  have e5 := hiStepP 2089 349790178332430053391866745446555666286088680836 519843324034474250697582446876048615163346570661 1048683115721477894562154808858832274274801955667 1351559613139623952357875623721119505295490711286 (by decide!)
  have e6 := hiStepP 2088 1048683115721477894562154808858832274274801955667 1351559613139623952357875623721119505295490711286 1452002754826951837973918585290347651114143879841 107936420776771813780844747530353703649879583831 (by decide!)
  have e7 := hiStepP 2087 1452002754826951837973918585290347651114143879841 107936420776771813780844747530353703649879583831 284145204923902877184901294130628086241808318358 200830374987548629882049272534037018858700641217 (by decide!)
  have e8 := hiStepP 2086 284145204923902877184901294130628086241808318358 200830374987548629882049272534037018858700641217 853911056241877226573436723973938266985321531034 1043300778692391707459024359613245681651023517019 (by decide!)
  have e9 := hiStepP 2085 853911056241877226573436723973938266985321531034 1043300778692391707459024359613245681651023517019 566789504978724685160201763234857496323782550309 1221556941510716612335332289596225211955419395710 (by decide!)
  have e10 := hiStepP 2084 566789504978724685160201763234857496323782550309 1221556941510716612335332289596225211955419395710 333879911962658417372724233603830018538243978189 1367374422934787529599157473960165431475950372275 (by decide!)
  have e11 := hiStepP 2083 333879911962658417372724233603830018538243978189 1367374422934787529599157473960165431475950372275 583758042742543875360237361704438190009860076312 786495472335615685900197040095139398704183998123 (by decide!)
  have e12 := hiStepP 2082 583758042742543875360237361704438190009860076312 786495472335615685900197040095139398704183998123 16889664159543015293141157234557303578999726180 794775467215269124907693651749947029514918319823 (by decide!)
  have e13 := hiStepP 2081 16889664159543015293141157234557303578999726180 794775467215269124907693651749947029514918319823 652119114724380315856496964752474343202237773164 1421828493619804082679067752392438578762160317347 (by decide!)
  have e14 := hiStepP 2080 652119114724380315856496964752474343202237773164 1421828493619804082679067752392438578762160317347 160876600521144194401576594233150761098250404286 1308095717795946325859975182318501060973761487389 (by decide!)
  have e15 := hiStepP 2079 160876600521144194401576594233150761098250404286 1308095717795946325859975182318501060973761487389 780164199504956496200302971436962421284977377301 625286381786232689216209825658790661838088397320 (by decide!)
  have e16 := hiStepP 2078 780164199504956496200302971436962421284977377301 625286381786232689216209825658790661838088397320 1197469862432782294038710576717529332778859477180 1074865994811054082640027916407159828398190680756 (by decide!)
  have e17 := hiStepP 2077 1197469862432782294038710576717529332778859477180 1074865994811054082640027916407159828398190680756 295084507497814994294967436859416892358760764705 821885991146352399523619669263980072012045766549 (by decide!)
  have e18 := hiStepP 2076 295084507497814994294967436859416892358760764705 821885991146352399523619669263980072012045766549 990623797080464823000200766172131943197207420734 196686911773749556589241223144049059771256770731 (by decide!)
  have e19 := hiStepP 2075 990623797080464823000200766172131943197207420734 196686911773749556589241223144049059771256770731 1018747124611512147396203398498471727277307200598 822129205770893474047209805052434139119346488573 (by decide!)
  have e20 := hiStepP 2074 1018747124611512147396203398498471727277307200598 822129205770893474047209805052434139119346488573 994804098433980538952540110639153268522320295759 355407198825173172327939530094610759097951052722 (by decide!)
  have e21 := hiStepP 2073 994804098433980538952540110639153268522320295759 355407198825173172327939530094610759097951052722 1028685508920607780883734657922212134459334010850 790312629155160031143744248952074916901956666448 (by decide!)
  have e22 := hiStepP 2072 1028685508920607780883734657922212134459334010850 790312629155160031143744248952074916901956666448 909530493655983729414359576822110672130952094881 121273720574773353142383707117610880825534685425 (by decide!)
  have e23 := hiStepP 2071 909530493655983729414359576822110672130952094881 121273720574773353142383707117610880825534685425 815735872707974098381785104869392633262688389270 889817034329747358123895192734630390297974335591 (by decide!)
  have e24 := hiStepP 2070 815735872707974098381785104869392633262688389270 889817034329747358123895192734630390297974335591 129839813724320393526194790630669580882094231907 807174202548884609177288179758589290726343997700 (by decide!)
  have e25 := hiStepP 2069 129839813724320393526194790630669580882094231907 807174202548884609177288179758589290726343997700 720180063031055308464466615739395388712350268293 1388869221319775329474536991273830427290629063297 (by decide!)
  have e26 := hiStepP 2068 720180063031055308464466615739395388712350268293 1388869221319775329474536991273830427290629063297 1396452114284113503151045581102190475625621975433 44871264191031268910138468179432428281369539336 (by decide!)
  have e27 := hiStepP 2067 1396452114284113503151045581102190475625621975433 44871264191031268910138468179432428281369539336 1201982377340976740782220964885808017776935548777 1217951727473178790789266171559041175480701846625 (by decide!)
  have e28 := hiStepP 2066 1201982377340976740782220964885808017776935548777 1217951727473178790789266171559041175480701846625 917061081008304444589723110867902221881293096711 673408005692717664133538377361589819956237157222 (by decide!)
  have e29 := hiStepP 2065 917061081008304444589723110867902221881293096711 673408005692717664133538377361589819956237157222 943244811805856839743205264825576882214140007226 1192022885352855578839813085609616954929340321884 (by decide!)
  have e30 := hiStepP 2064 943244811805856839743205264825576882214140007226 1192022885352855578839813085609616954929340321884 1308008645142713727122531279495408075310073458426 307237845568714175570384085055108505839859711654 (by decide!)
  have e31 := hiStepP 2063 1308008645142713727122531279495408075310073458426 307237845568714175570384085055108505839859711654 619936047174600503346507901443309107809815080136 509703191921675096222484538133891485527529427566 (by decide!)
  have e32 := hiStepP 2062 619936047174600503346507901443309107809815080136 509703191921675096222484538133891485527529427566 707531796348001146609698028279021761305057745934 197878955838020916760150084783331298526478192224 (by decide!)
  have e33 := hiStepP 2061 707531796348001146609698028279021761305057745934 197878955838020916760150084783331298526478192224 1019053762599751344733693822238062657950497666144 826883798938878949909834725335803655033417873920 (by decide!)
  have e34 := hiStepP 2060 1019053762599751344733693822238062657950497666144 826883798938878949909834725335803655033417873920 871482867425927252278941918772387646533790277201 48178391178224012477240935695327122710841304145 (by decide!)
  have e35 := hiStepP 2059 871482867425927252278941918772387646533790277201 48178391178224012477240935695327122710841304145 782715346993134143238807658123730732041997911837 738830595176269295904358228125609165172488840012 (by decide!)
  have e36 := hiStepP 2058 782715346993134143238807658123730732041997911837 738830595176269295904358228125609165172488840012 220301563655054615909656374819485892280892008327 959041338827683675994604769749060736842300163275 (by decide!)
  have e37 := hiStepP 2057 220301563655054615909656374819485892280892008327 959041338827683675994604769749060736842300163275 509273592659829913461612492429277500796919304465 1454554303224001036037037434158153403466820605402 (by decide!)
  have e38 := hiStepP 2056 509273592659829913461612492429277500796919304465 1454554303224001036037037434158153403466820605402 854304056969125468741356847999168371640339826775 613274073458139033745172670167482118370331942285 (by decide!)
  have e39 := hiStepP 2055 854304056969125468741356847999168371640339826775 613274073458139033745172670167482118370331942285 1185273801345833121553958917061367068326467651176 941663856091132393127556589208046682776387558373 (by decide!)
  have e40 := hiStepP 2054 1185273801345833121553958917061367068326467651176 941663856091132393127556589208046682776387558373 737313993732547618506252630751873318341669487639 216047474360561566752932646537750009776388087794 (by decide!)
  have e41 := hiStepP 2053 737313993732547618506252630751873318341669487639 216047474360561566752932646537750009776388087794 109508722386513518284147742454700342961096810888 313847891732146565575407093730214992148498251386 (by decide!)
  have e42 := hiStepP 2052 109508722386513518284147742454700342961096810888 313847891732146565575407093730214992148498251386 704693346044984334188501278645050657319371950154 442957608811342889931688004279729570851172922928 (by decide!)
  have e43 := hiStepP 2051 704693346044984334188501278645050657319371950154 442957608811342889931688004279729570851172922928 807403161513473173760892945135546964481550405435 1101742032096874833843083826034838941104081828107 (by decide!)
  have e44 := hiStepP 2050 807403161513473173760892945135546964481550405435 1101742032096874833843083826034838941104081828107 517590130567612976401058735216587725859154564461 881020996449555411504306303110843170361777155174 (by decide!)
  have e45 := hiStepP 2049 517590130567612976401058735216587725859154564461 881020996449555411504306303110843170361777155174 855661404679148648774756541942044287489462585846 89636995382918166274024872215029618815033157008 (by decide!)
  have e46 := hiStepP 2048 855661404679148648774756541942044287489462585846 89636995382918166274024872215029618815033157008 587262638469243904454084310729715433101844867139 601912642995218237278718834522886152823309651411 (by decide!)
  have e47 := hiStepP 2047 587262638469243904454084310729715433101844867139 601912642995218237278718834522886152823309651411 743405812142373655013457616600978447983051318927 1343615234141912059411015707603822267715337612124 (by decide!)
  have e48 := hiStepP 2046 743405812142373655013457616600978447983051318927 1343615234141912059411015707603822267715337612124 394564164405458736273723925659721168507624702564 994904891941819253116812098196417437903099210040 (by decide!)
  have e49 := hiStepP 2045 394564164405458736273723925659721168507624702564 994904891941819253116812098196417437903099210040 940104924174746007393183730975850728678320557398 62416239020089656969861100051354001173609178222 (by decide!)
  have e50 := hiStepP 2044 940104924174746007393183730975850728678320557398 62416239020089656969861100051354001173609178222 909171058964987532073387517504162921031911894371 854530114571373828293265678895141381911198009613 (by decide!)
  have e51 := hiStepP 2043 909171058964987532073387517504162921031911894371 854530114571373828293265678895141381911198009613 641374248554454228618640383120503947025076808804 1312850786475360067376112266455895732847374951785 (by decide!)
  have e52 := hiStepP 2042 641374248554454228618640383120503947025076808804 1312850786475360067376112266455895732847374951785 1144653062443765884021235755403889685046406931317 259542286874400244075402395260586065121491617308 (by decide!)
  have e53 := hiStepP 2041 1144653062443765884021235755403889685046406931317 259542286874400244075402395260586065121491617308 1316808405095892698229059393494435925909270142362 1163607973076118397626386617342056496531129146246 (by decide!)
  have e54 := hiStepP 2040 1316808405095892698229059393494435925909270142362 1163607973076118397626386617342056496531129146246 717391772008579146466174244579780566803340949093 1041735568992603887688494370260046956927940554211 (by decide!)
  have e55 := hiStepP 2039 717391772008579146466174244579780566803340949093 1041735568992603887688494370260046956927940554211 893283264814885851160353189530670262130060771736 239805238432125897303761254069114781648958827643 (by decide!)
  have e56 := hiStepP 2038 893283264814885851160353189530670262130060771736 239805238432125897303761254069114781648958827643 1313447143743722368225746478071495139580740064169 1164996232897401516393798946145305539679849545682 (by decide!)
  have e57 := hiStepP 2037 1313447143743722368225746478071495139580740064169 1164996232897401516393798946145305539679849545682 452916438718137905722247444544386016186060876924 749422583606144207201192637909159323697897427886 (by decide!)
  have e58 := hiStepP 2036 452916438718137905722247444544386016186060876924 749422583606144207201192637909159323697897427886 726351529964729015128030436838702624666130756874 1441520168934886978368296119746541538899144009380 (by decide!)
  have e59 := hiStepP 2035 726351529964729015128030436838702624666130756874 1441520168934886978368296119746541538899144009380 906233062069778668840152083596412353430029551575 563832060740497916035410333433830147747361300851 (by decide!)
  have e60 := hiStepP 2034 906233062069778668840152083596412353430029551575 563832060740497916035410333433830147747361300851 633254485150651729201598944987597567785488650130 69556578033076667341012329863546559699198619361 (by decide!)
  have e61 := hiStepP 2033 633254485150651729201598944987597567785488650130 69556578033076667341012329863546559699198619361 434736853318812363553140856439932828426312994606 365581694188654895568412916356048086729322848719 (by decide!)
  have e62 := hiStepP 2032 434736853318812363553140856439932828426312994606 365581694188654895568412916356048086729322848719 396179798980994865861724420801019027164925922086 30954917184136837913273840527771894763103513321 (by decide!)
  have e63 := hiStepP 2031 396179798980994865861724420801019027164925922086 30954917184136837913273840527771894763103513321 1041492377170513453528870998003325847105743770899 1021958404375254199463000523162777587833833963514 (by decide!)
  have e64 := hiStepP 2030 1041492377170513453528870998003325847105743770899 1021958404375254199463000523162777587833833963514 545891375523536572075054427227496866682128486152 1350815942643826055279638649696534182918083604722 (by decide!)
  have e65 := hiStepP 2029 545891375523536572075054427227496866682128486152 1350815942643826055279638649696534182918083604722 1026670708742296277099274021200714110172066524180 543986189693221191246479262710688418049729551590 (by decide!)
  have e66 := hiStepP 2028 1026670708742296277099274021200714110172066524180 543986189693221191246479262710688418049729551590 263092485419823605884959592817507770312170936050 647175175045214526226732172225627705584040331796 (by decide!)
  have e67 := hiStepP 2027 263092485419823605884959592817507770312170936050 647175175045214526226732172225627705584040331796 78113408877955679588512913217317213215856754619 713332487236972810472832846967572607229056234927 (by decide!)
  have e68 := hiStepP 2026 78113408877955679588512913217317213215856754619 713332487236972810472832846967572607229056234927 651959597342068026081035788922170170507245030377 84208876863100595610923009297816145855742033478 (by decide!)
  have e69 := hiStepP 2025 651959597342068026081035788922170170507245030377 84208876863100595610923009297816145855742033478 463134596637106514527328601738609740471176074138 547341307235970447364902943206263184903102541276 (by decide!)
  have e70 := hiStepP 2024 463134596637106514527328601738609740471176074138 547341307235970447364902943206263184903102541276 1201049855404684063624700472972458437355982886324 809234304862110954803185204665558467031294359656 (by decide!)
  have e71 := hiStepP 2023 1201049855404684063624700472972458437355982886324 809234304862110954803185204665558467031294359656 1058240859246548826857126733095093915864771538642 301918243810663288052740411490597740454470620858 (by decide!)
  have e72 := hiStepP 2022 1058240859246548826857126733095093915864771538642 301918243810663288052740411490597740454470620858 194449484719976386816362208348416469856185868008 130884634110008887648002270756468752152733403218 (by decide!)
  have e73 := hiStepP 2021 194449484719976386816362208348416469856185868008 130884634110008887648002270756468752152733403218 33065303177829399240170228530032770679507182184 109354751224090275896575939968977084073823775290 (by decide!)
  have e74 := hiStepP 2020 33065303177829399240170228530032770679507182184 109354751224090275896575939968977084073823775290 819485140801978473489427417619403548819122043687 894468861180363728541280892821230915309619974429 (by decide!)
  have e75 := hiStepP 2019 819485140801978473489427417619403548819122043687 894468861180363728541280892821230915309619974429 902220914656041550856050082281468042178319803092 15111792802038568708168849197130825064820241353 (by decide!)
  have e76 := hiStepP 2018 902220914656041550856050082281468042178319803092 15111792802038568708168849197130825064820241353 650002240147732373381692154081323365026438240313 659359956784323552173640820906326623964446665712 (by decide!)
  have e77 := hiStepP 2017 650002240147732373381692154081323365026438240313 659359956784323552173640820906326623964446665712 491042331253634740329736303326195898685492645597 214034243027756445662419508561558556815092376877 (by decide!)
  have e78 := hiStepP 2016 491042331253634740329736303326195898685492645597 214034243027756445662419508561558556815092376877 372155382702982028132697483604296728011161120567 572630769318819532051488053265024716627735923226 (by decide!)
  have e79 := hiStepP 2015 372155382702982028132697483604296728011161120567 572630769318819532051488053265024716627735923226 804772362606407356804397764654875547631760825746 1328647342293740160420123257717914377886615410568 (by decide!)
  have e80 := hiStepP 2014 804772362606407356804397764654875547631760825746 1328647342293740160420123257717914377886615410568 932801286513909725796155968966512386946201313122 433144140658980334266131124335315099220543490282 (by decide!)
  have e81 := hiStepP 2013 932801286513909725796155968966512386946201313122 433144140658980334266131124335315099220543490282 1189145661634516245091317920783516223338338126344 888238014629302426025480307735083907274835378914 (by decide!)
  have e82 := hiStepP 2012 1189145661634516245091317920783516223338338126344 888238014629302426025480307735083907274835378914 167396146198641037899969882357629023211619939008 769458453929612653071843499352352399534887186466 (by decide!)
  have e83 := hiStepP 2011 167396146198641037899969882357629023211619939008 769458453929612653071843499352352399534887186466 1149979537314785817376291117797562985687867334696 454788194740835111352321346004226037920118378506 (by decide!)
  have e84 := hiStepP 2010 1149979537314785817376291117797562985687867334696 454788194740835111352321346004226037920118378506 428445180791842663074756991848679983397833172194 26522296576331311790736424307726781881008452840 (by decide!)
  have e85 := hiStepP 2009 428445180791842663074756991848679983397833172194 26522296576331311790736424307726781881008452840 806368207000008376403200634725888101763604808491 785599503005278280720688097226630008764832085955 (by decide!)
  have e86 := hiStepP 2008 806368207000008376403200634725888101763604808491 785599503005278280720688097226630008764832085955 792048403133420138603449280201184350106496083946 18000689098648680433379846116149566993581723689 (by decide!)
  have e87 := hiStepP 2007 792048403133420138603449280201184350106496083946 18000689098648680433379846116149566993581723689 152317052645269266058137567596131690256134014668 145781345282614035198274277312522191346248734437 (by decide!)
  have e88 := hiStepP 2006 152317052645269266058137567596131690256134014668 145781345282614035198274277312522191346248734437 462919394041034946206744068542122613310466900637 414594004312214445212419920369699218317826659448 (by decide!)
  have e89 := hiStepP 2005 462919394041034946206744068542122613310466900637 414594004312214445212419920369699218317826659448 1382767210537648007460979145746864069241351350223 1065672195418330559096880780276288092241068274615 (by decide!)
  have e90 := hiStepP 2004 1382767210537648007460979145746864069241351350223 1065672195418330559096880780276288092241068274615 897931355788417270936005939933038550621405641890 227707915143527767037188174132192128521284308757 (by decide!)
  have e91 := hiStepP 2003 897931355788417270936005939933038550621405641890 227707915143527767037188174132192128521284308757 1236092667344267448442146059993420339714982938037 1458079281234630574383697960595454308069356292768 (by decide!)
  have e92 := hiStepP 2002 1236092667344267448442146059993420339714982938037 1458079281234630574383697960595454308069356292768 707285794913453262704375183398206620566865440757 756558702968341254656606005180196896475461625173 (by decide!)
  have e93 := hiStepP 2001 707285794913453262704375183398206620566865440757 756558702968341254656606005180196896475461625173 162015729140000542735883642455411212737725577492 872857667949734455258428659866632818073303850049 (by decide!)
  have e94 := hiStepP 2000 162015729140000542735883642455411212737725577492 872857667949734455258428659866632818073303850049 762854375555423007003242523926816370599340623371 168322573684019359931932794746239189651776363082 (by decide!)
  have e95 := hiStepP 1999 762854375555423007003242523926816370599340623371 168322573684019359931932794746239189651776363082 206464458918731864964644001586007305655176061533 327240406486668615438108608586780209413325764631 (by decide!)
  have e96 := hiStepP 1998 206464458918731864964644001586007305655176061533 327240406486668615438108608586780209413325764631 900479127317552119118029277921316428978723320600 941517148458897847145791210672172111151013808911 (by decide!)
  have e97 := hiStepP 1997 900479127317552119118029277921316428978723320600 941517148458897847145791210672172111151013808911 1388717194523405817082869071653884100123065224480 500499576417533195098514132615921543470809695791 (by decide!)
  have e98 := hiStepP 1996 1388717194523405817082869071653884100123065224480 500499576417533195098514132615921543470809695791 444636267884764223976584029841320547549792718597 150062004711140068864963046551981159976561609002 (by decide!)
  have e99 := hiStepP 1995 444636267884764223976584029841320547549792718597 150062004711140068864963046551981159976561609002 662085308525070667361015763930742555916750168743 603411978145844300814663462982899797990390573965 (by decide!)
  have t0 := e0
  have t1 := t0.trans e1
  have t2 := t1.trans e2
  have t3 := t2.trans e3
  have t4 := t3.trans e4
  have t5 := t4.trans e5
  have t6 := t5.trans e6
  have t7 := t6.trans e7
  have t8 := t7.trans e8
  have t9 := t8.trans e9
  have t10 := t9.trans e10
  have t11 := t10.trans e11
  have t12 := t11.trans e12
  have t13 := t12.trans e13
  have t14 := t13.trans e14
  have t15 := t14.trans e15
  have t16 := t15.trans e16
  have t17 := t16.trans e17
  have t18 := t17.trans e18
  have t19 := t18.trans e19
  have t20 := t19.trans e20
  have t21 := t20.trans e21
  have t22 := t21.trans e22
  have t23 := t22.trans e23
  have t24 := t23.trans e24
  have t25 := t24.trans e25
  have t26 := t25.trans e26
  have t27 := t26.trans e27
  have t28 := t27.trans e28
  have t29 := t28.trans e29
  have t30 := t29.trans e30
  have t31 := t30.trans e31
  have t32 := t31.trans e32
  have t33 := t32.trans e33
  have t34 := t33.trans e34
  have t35 := t34.trans e35
  have t36 := t35.trans e36
  have t37 := t36.trans e37
  have t38 := t37.trans e38
  have t39 := t38.trans e39
  have t40 := t39.trans e40
  have t41 := t40.trans e41
  have t42 := t41.trans e42
  have t43 := t42.trans e43
  have t44 := t43.trans e44
  have t45 := t44.trans e45
  have t46 := t45.trans e46
  have t47 := t46.trans e47
  have t48 := t47.trans e48
  have t49 := t48.trans e49
  have t50 := t49.trans e50
  have t51 := t50.trans e51
  have t52 := t51.trans e52
  have t53 := t52.trans e53
  have t54 := t53.trans e54
  have t55 := t54.trans e55
  have t56 := t55.trans e56
  have t57 := t56.trans e57
  have t58 := t57.trans e58
  have t59 := t58.trans e59
  have t60 := t59.trans e60
  have t61 := t60.trans e61
  have t62 := t61.trans e62
  have t63 := t62.trans e63
  have t64 := t63.trans e64
  have t65 := t64.trans e65
  have t66 := t65.trans e66
  have t67 := t66.trans e67
  have t68 := t67.trans e68
  have t69 := t68.trans e69
  have t70 := t69.trans e70
  have t71 := t70.trans e71
  have t72 := t71.trans e72
  have t73 := t72.trans e73
  have t74 := t73.trans e74
  have t75 := t74.trans e75
  have t76 := t75.trans e76
  have t77 := t76.trans e77
  have t78 := t77.trans e78
  have t79 := t78.trans e79
  have t80 := t79.trans e80
  have t81 := t80.trans e81
  have t82 := t81.trans e82
  have t83 := t82.trans e83
  have t84 := t83.trans e84
  have t85 := t84.trans e85
  have t86 := t85.trans e86
  have t87 := t86.trans e87
  have t88 := t87.trans e88
  have t89 := t88.trans e89
  have t90 := t89.trans e90
  have t91 := t90.trans e91
  have t92 := t91.trans e92
  have t93 := t92.trans e93
  have t94 := t93.trans e94
  have t95 := t94.trans e95
  have t96 := t95.trans e96
  have t97 := t96.trans e97
  have t98 := t97.trans e98
  have t99 := t98.trans e99
  exact t99

theorem hiChainSeg21 : hiLoop SHA_1 (strBytes "pencil") 1995
    (unpackBytes 20 662085308525070667361015763930742555916750168743)
    (unpackBytes 20 603411978145844300814663462982899797990390573965) =
    hiLoop SHA_1 (strBytes "pencil") 1895
      (unpackBytes 20 1029699065576961798344036486163868343330742434040)
      (unpackBytes 20 69702700311384591485775602000477287018841540504) := by
  have e0 := hiStepP 1994 662085308525070667361015763930742555916750168743 603411978145844300814663462982899797990390573965 684879559865908890053886554056539214563162448804 172850466356206891549248835783617697497184258089 (by decide!)
  have e1 := hiStepP 1993 684879559865908890053886554056539214563162448804 172850466356206891549248835783617697497184258089 1402264269831832914840840862167358166737457085120 1346459613101262079325438003784599337388402389737 (by decide!)
  have e2 := hiStepP 1992 1402264269831832914840840862167358166737457085120 1346459613101262079325438003784599337388402389737 188174233846869249555523085339791426378035976529 1159980235974594910505185742415637247064678919096 (by decide!)
  have e3 := hiStepP 1991 188174233846869249555523085339791426378035976529 1159980235974594910505185742415637247064678919096 414295456039072981514161786114059582367135928980 752136408634770050425489058239268283775797131564 (by decide!)
  have e4 := hiStepP 1990 414295456039072981514161786114059582367135928980 752136408634770050425489058239268283775797131564 1050707915430566238858812509547875784844537249004 340881688260640080615727515885039956153438782912 (by decide!)
  have e5 := hiStepP 1989 1050707915430566238858812509547875784844537249004 340881688260640080615727515885039956153438782912 1121739421855057728671288069727783733246077739252 1460277956303798225039230139831409025237181785396 (by decide!)
  have e6 := hiStepP 1988 1121739421855057728671288069727783733246077739252 1460277956303798225039230139831409025237181785396 1142881808838930268463617739548188680927636759285 319563355726732796229833871100221045094312167361 (by decide!)
  have e7 := hiStepP 1987 1142881808838930268463617739548188680927636759285 319563355726732796229833871100221045094312167361 99151705577145729819656278721650029503062832211 220680740000840681724863360056030911885588607890 (by decide!)
  have e8 := hiStepP 1986 99151705577145729819656278721650029503062832211 220680740000840681724863360056030911885588607890 1398932666148420172508228701932738175385653277149 1208475098200807874018949832867426453886494589519 (by decide!)
  have e9 := hiStepP 1985 1398932666148420172508228701932738175385653277149 1208475098200807874018949832867426453886494589519 485174817563129864417357089409592889951459276994 772633710406641739175126530367166753656784599693 (by decide!)
  have e10 := hiStepP 1984 485174817563129864417357089409592889951459276994 772633710406641739175126530367166753656784599693 1099031237715118521048725469713723300512432662164 410074107810062543528116118863593617187951909913 (by decide!)
  have e11 := hiStepP 1983 1099031237715118521048725469713723300512432662164 410074107810062543528116118863593617187951909913 124651364505962936315437271709837064173217667645 468178063522970398485898571284809607600840689188 (by decide!)
  have e12 := hiStepP 1982 124651364505962936315437271709837064173217667645 468178063522970398485898571284809607600840689188 1082791551656467237792068918917423878048706011542 1368281208085170292251851881336002089083910875058 (by decide!)
  have e13 := hiStepP 1981 1082791551656467237792068918917423878048706011542 1368281208085170292251851881336002089083910875058 807933403697903716938196695926427233248967544714 560532490345009655950342454408057854740383639608 (by decide!)
  have e14 := hiStepP 1980 807933403697903716938196695926427233248967544714 560532490345009655950342454408057854740383639608 1367620751680789794164370078206244079500611277468 808560308223686132645847122842544969478647085732 (by decide!)
  have e15 := hiStepP 1979 1367620751680789794164370078206244079500611277468 808560308223686132645847122842544969478647085732 1375532610389421405799007224411685451344323477995 715410245320317465552512683336505008127955663695 (by decide!)
  have e16 := hiStepP 1978 1375532610389421405799007224411685451344323477995 715410245320317465552512683336505008127955663695 159720298932924773967769777162064344914305455960 586108339956490024439588573262278481486665804823 (by decide!)
  have e17 := hiStepP 1977 159720298932924773967769777162064344914305455960 586108339956490024439588573262278481486665804823 1319675102678517084102993870364105305479724170778 739365089993270636564553698852735686361937908237 (by decide!)
  have e18 := hiStepP 1976 1319675102678517084102993870364105305479724170778 739365089993270636564553698852735686361937908237 1024285018847960827052891648614251712346951609509 290640178900768835108067393886921976757891497640 (by decide!)
  have e19 := hiStepP 1975 1024285018847960827052891648614251712346951609509 290640178900768835108067393886921976757891497640 503037909028954120167728646453714345560925654530 610599837086022709661083799860808190866311884970 (by decide!)
  have e20 := hiStepP 1974 503037909028954120167728646453714345560925654530 610599837086022709661083799860808190866311884970 510625786046628075187406800947244793114854470820 294135576350564363160816775663446666215170540558 (by decide!)
  have e21 := hiStepP 1973 510625786046628075187406800947244793114854470820 294135576350564363160816775663446666215170540558 777390857088626759528803328901032304869721615171 1071463667546941838259974255154617643491764547405 (by decide!)
  have e22 := hiStepP 1972 777390857088626759528803328901032304869721615171 1071463667546941838259974255154617643491764547405 1115821578489586385710633542632253128734996724616 690012603599492003875321804192503510539724477637 (by decide!)
  have e23 := hiStepP 1971 1115821578489586385710633542632253128734996724616 690012603599492003875321804192503510539724477637 599789767685078657075608619393224393170628395935 101752454690144944433493498448781930368315496282 (by decide!)
  have e24 := hiStepP 1970 599789767685078657075608619393224393170628395935 101752454690144944433493498448781930368315496282 1164378510076820847497282479290446269243751424129 1245412045266341629909123145199357598461686806491 (by decide!)
  have e25 := hiStepP 1969 1164378510076820847497282479290446269243751424129 1245412045266341629909123145199357598461686806491 155994070541793068531243022980143860058597809070 1104448693708717492548136481635817595287125077109 (by decide!)
  have e26 := hiStepP 1968 155994070541793068531243022980143860058597809070 1104448693708717492548136481635817595287125077109 487381806630882795250411138487467176400720787982 845906811776543050822120616934116220751930447483 (by decide!)
  have e27 := hiStepP 1967 487381806630882795250411138487467176400720787982 845906811776543050822120616934116220751930447483 706134562923993501586267322302132860856064193744 1367926209983981033569707888053139482907514331819 (by decide!)
  have e28 := hiStepP 1966 706134562923993501586267322302132860856064193744 1367926209983981033569707888053139482907514331819 118362700586891957500533625404753755140100053755 1433681451158044920728257345166593156076958169168 (by decide!)
  have e29 := hiStepP 1965 118362700586891957500533625404753755140100053755 1433681451158044920728257345166593156076958169168 77596344338481335858260049129137979392620700800 1408514170351329261665467670048457358496268262608 (by decide!)
  have e30 := hiStepP 1964 77596344338481335858260049129137979392620700800 1408514170351329261665467670048457358496268262608 634554470610278476367874924138064890883198754688 876722927566645420548360751460964030568115372880 (by decide!)
  have e31 := hiStepP 1963 634554470610278476367874924138064890883198754688 876722927566645420548360751460964030568115372880 242104748356084381064743563215493173915155116817 1027479619416519327008414962322155009204515614785 (by decide!)
  have e32 := hiStepP 1962 242104748356084381064743563215493173915155116817 1027479619416519327008414962322155009204515614785 1438059760265577030388506482050726934794822082268 411695790618029067564279142527402362401015492253 (by decide!)
  have e33 := hiStepP 1961 1438059760265577030388506482050726934794822082268 411695790618029067564279142527402362401015492253 1150024618670018192987216359480704211365004754296 738911565732365425886907475729530867647973610469 (by decide!)
  have e34 := hiStepP 1960 1150024618670018192987216359480704211365004754296 738911565732365425886907475729530867647973610469 660629305741196534793071968155071882862021992981 1386444671615167595527705227928938541169325158896 (by decide!)
  have e35 := hiStepP 1959 660629305741196534793071968155071882862021992981 1386444671615167595527705227928938541169325158896 715488403452158335920399363318445781453338037888 819458335679924226640333507992328996501973335920 (by decide!)
  have e36 := hiStepP 1958 715488403452158335920399363318445781453338037888 819458335679924226640333507992328996501973335920 1362563718952607226772557304368848550809215800333 554545683468564109882984022818838554492880481149 (by decide!)
  have e37 := hiStepP 1957 1362563718952607226772557304368848550809215800333 554545683468564109882984022818838554492880481149 132982138504088761123016131678919165329038340652 676015047691013755420077758364394531240065997137 (by decide!)
  have e38 := hiStepP 1956 132982138504088761123016131678919165329038340652 676015047691013755420077758364394531240065997137 1306812962735095886737953727206882562197718093383 836681204098780123466195595889012324302551865110 (by decide!)
  have e39 := hiStepP 1955 1306812962735095886737953727206882562197718093383 836681204098780123466195595889012324302551865110 1453593518288901256051570179764437201864306734721 617005001758107943838652676294732434188289270167 (by decide!)
  have e40 := hiStepP 1954 1453593518288901256051570179764437201864306734721 617005001758107943838652676294732434188289270167 582313753538226785281196530978601625551424558141 56658876718986608000101350747391893251097163178 (by decide!)
  have e41 := hiStepP 1953 582313753538226785281196530978601625551424558141 56658876718986608000101350747391893251097163178 653464679818018486129080544313373124545984930259 705661316291887947612093912699427067056109769849 (by decide!)
  have e42 := hiStepP 1952 653464679818018486129080544313373124545984930259 705661316291887947612093912699427067056109769849 1228053592561632036090439460348728386134338638004 984826125725355617499163771765523319403136861389 (by decide!)
  have e43 := hiStepP 1951 1228053592561632036090439460348728386134338638004 984826125725355617499163771765523319403136861389 611603629821016122918160118292121292080443224994 1139665658052280032963315759141031108765123622767 (by decide!)
  have e44 := hiStepP 1950 611603629821016122918160118292121292080443224994 1139665658052280032963315759141031108765123622767 1245536897348752375881307354673682149949764505705 168675735421820588469066423736251517301680744198 (by decide!)
  have e45 := hiStepP 1949 1245536897348752375881307354673682149949764505705 168675735421820588469066423736251517301680744198 92909273236610483113748793665496087285948807504 78802154235795877824976547560556678632546721366 (by decide!)
  have e46 := hiStepP 1948 92909273236610483113748793665496087285948807504 78802154235795877824976547560556678632546721366 723614245741615397692730664329346045621268491600 659084626120107307415509165607749684440767591174 (by decide!)
  have e47 := hiStepP 1947 723614245741615397692730664329346045621268491600 659084626120107307415509165607749684440767591174 562511017947407413500729452266949653459671433023 102533052987379866372226000771532033177889885241 (by decide!)
  have e48 := hiStepP 1946 562511017947407413500729452266949653459671433023 102533052987379866372226000771532033177889885241 1116790987522674385508889241753820939796584360676 1201276895579702394675458586550309095826835449565 (by decide!)
  have e49 := hiStepP 1945 1116790987522674385508889241753820939796584360676 1201276895579702394675458586550309095826835449565 1125759521304411843775087854514915865445415337081 133354618370939532120494117793867763467960457892 (by decide!)
  have e50 := hiStepP 1944 1125759521304411843775087854514915865445415337081 133354618370939532120494117793867763467960457892 99484537210789075622732961747146257139174373685 35477135815435686998529831355078469109631574929 (by decide!)
  have e51 := hiStepP 1943 99484537210789075622732961747146257139174373685 35477135815435686998529831355078469109631574929 1116879010417564701842130099394833379694765944949 1127978642718199411188750718873199359587867579364 (by decide!)
  have e52 := hiStepP 1942 1116879010417564701842130099394833379694765944949 1127978642718199411188750718873199359587867579364 921622900434527542099356929543437118893348417059 576503512511180605227194984024958266813654678983 (by decide!)
  have e53 := hiStepP 1941 921622900434527542099356929543437118893348417059 576503512511180605227194984024958266813654678983 326489154540526405049477673830136772393477960756 535463926820622572568766829665321329576573651443 (by decide!)
  have e54 := hiStepP 1940 326489154540526405049477673830136772393477960756 535463926820622572568766829665321329576573651443 1201243052530242377966092052727976579122473676316 820011085003387332591558499578323134575784814575 (by decide!)
  have e55 := hiStepP 1939 1201243052530242377966092052727976579122473676316 820011085003387332591558499578323134575784814575 249864474398805418142924781425227781539019371186 938568579028219934456699654446468811547666601309 (by decide!)
  have e56 := hiStepP 1938 249864474398805418142924781425227781539019371186 938568579028219934456699654446468811547666601309 398497487040560535863569671607526752860078586974 1288355878416310566755860580616603285609657624835 (by decide!)
  have e57 := hiStepP 1937 398497487040560535863569671607526752860078586974 1288355878416310566755860580616603285609657624835 533108858712769767385132156099133575933646043646 1077807361964477293105643902350058897058646987005 (by decide!)
  have e58 := hiStepP 1936 533108858712769767385132156099133575933646043646 1077807361964477293105643902350058897058646987005 1220074071504389598729534468327039364960739575519 602221763278281281396425999811338117715616781858 (by decide!)
  have e59 := hiStepP 1935 1220074071504389598729534468327039364960739575519 602221763278281281396425999811338117715616781858 377500023941198220485131430500676217063402017836 247697290506147610486220621938903004210548457998 (by decide!)
  have e60 := hiStepP 1934 377500023941198220485131430500676217063402017836 247697290506147610486220621938903004210548457998 63027499482271347448354517911963259229723791018 185037757212157158055520531169282471759127104676 (by decide!)
  have e61 := hiStepP 1933 63027499482271347448354517911963259229723791018 185037757212157158055520531169282471759127104676 943695998955715080878298179401308274200488279577 760135844805568966522795383564438612363709821629 (by decide!)
  have e62 := hiStepP 1932 943695998955715080878298179401308274200488279577 760135844805568966522795383564438612363709821629 1192181309054603826911591003118931704675831043306 490770566205073157730293319716896976255997863511 (by decide!)
  have e63 := hiStepP 1931 1192181309054603826911591003118931704675831043306 490770566205073157730293319716896976255997863511 805029462667724351571206404030908688298923389734 1238587290099731482363030432825649962770025649521 (by decide!)
  have e64 := hiStepP 1930 805029462667724351571206404030908688298923389734 1238587290099731482363030432825649962770025649521 1246381113034176873078031283535450758763995005508 15109252731287429400520024694236627257288464181 (by decide!)
  have e65 := hiStepP 1929 1246381113034176873078031283535450758763995005508 15109252731287429400520024694236627257288464181 190596566936807229809393225776423112407027043131 204255399424106910581661238123647370360010759182 (by decide!)
  have e66 := hiStepP 1928 190596566936807229809393225776423112407027043131 204255399424106910581661238123647370360010759182 65970666902537050508850713219081318597209438562 229989927723391034499472157071045908184749565292 (by decide!)
  have e67 := hiStepP 1927 65970666902537050508850713219081318597209438562 229989927723391034499472157071045908184749565292 71115476724981501465601754037058790929312310305 206905552117947814152880171252544198777615089997 (by decide!)
  have e68 := hiStepP 1926 71115476724981501465601754037058790929312310305 206905552117947814152880171252544198777615089997 332009340571876277847668138202571029642678769534 171852945850186984488803496111384677137134720563 (by decide!)
  have e69 := hiStepP 1925 332009340571876277847668138202571029642678769534 171852945850186984488803496111384677137134720563 1222101430416919461198586547581623753759051827827 1142038886068655941027151264169127093330085174336 (by decide!)
  have e70 := hiStepP 1924 1222101430416919461198586547581623753759051827827 1142038886068655941027151264169127093330085174336 582644776483857749692516051424965879233970293429 993464176909447368570136984518315086502295082741 (by decide!)
  have e71 := hiStepP 1923 582644776483857749692516051424965879233970293429 993464176909447368570136984518315086502295082741 659460336996743249694977670979563270693259593935 1264703143141529102983769885367745872633323183674 (by decide!)
  have e72 := hiStepP 1922 659460336996743249694977670979563270693259593935 1264703143141529102983769885367745872633323183674 10215463739006772462895888769985583198989780470 1257702428519074500125246179611593502511396346828 (by decide!)
  have e73 := hiStepP 1921 10215463739006772462895888769985583198989780470 1257702428519074500125246179611593502511396346828 182210183222806218711912996429348177387374904696 1116994630715757444866739537841829736898810273460 (by decide!)
  have e74 := hiStepP 1920 182210183222806218711912996429348177387374904696 1116994630715757444866739537841829736898810273460 492636186277140542164968986916059372965614224759 855932529640423335113205633499554699599838993347 (by decide!)
  have e75 := hiStepP 1919 492636186277140542164968986916059372965614224759 855932529640423335113205633499554699599838993347 1173695829215298407898602787905204769091710871163 505134248613515628843198777343862200754217139640 (by decide!)
  have e76 := hiStepP 1918 1173695829215298407898602787905204769091710871163 505134248613515628843198777343862200754217139640 549753697570637115717521408479320604527076288687 320791883708603912026875484090278222887442978071 (by decide!)
  have e77 := hiStepP 1917 549753697570637115717521408479320604527076288687 320791883708603912026875484090278222887442978071 1220861081446953314898397733674049392798248237412 1358238373329357696956601121553746625421885074547 (by decide!)
  have e78 := hiStepP 1916 1220861081446953314898397733674049392798248237412 1358238373329357696956601121553746625421885074547 740130168453097150343147481122031752778169889524 618290118936396168196580128084400474898843754119 (by decide!)
  have e79 := hiStepP 1915 740130168453097150343147481122031752778169889524 618290118936396168196580128084400474898843754119 313533802653004887966322537024596121812218601372 517516837197838156319463763034638792266228695323 (by decide!)
  have e80 := hiStepP 1914 313533802653004887966322537024596121812218601372 517516837197838156319463763034638792266228695323 501443752413272847289410130505372952356688251133 76798368903439713075395568310815191433938225638 (by decide!)
  have e81 := hiStepP 1913 501443752413272847289410130505372952356688251133 76798368903439713075395568310815191433938225638 1022290697082788313229335074948486160806751187285 1086912853460937287105356770161581890334030526643 (by decide!)
  have e82 := hiStepP 1912 1022290697082788313229335074948486160806751187285 1086912853460937287105356770161581890334030526643 81915635494584464777016910296460525400308194521 1006117874163163149350999895881645447735558104170 (by decide!)
  have e83 := hiStepP 1911 81915635494584464777016910296460525400308194521 1006117874163163149350999895881645447735558104170 1393663719810133221579880871625778217514078715350 389056721158139866188009614358516291371687696828 (by decide!)
  have e84 := hiStepP 1910 1393663719810133221579880871625778217514078715350 389056721158139866188009614358516291371687696828 1212037733178988637494656125044635994591296169770 824420825770686285138469743642538586342373490326 (by decide!)
  have e85 := hiStepP 1909 1212037733178988637494656125044635994591296169770 824420825770686285138469743642538586342373490326 916804637847845955379794952980618781399542754279 279712664700165983751398842446290877174353827185 (by decide!)
  have e86 := hiStepP 1908 916804637847845955379794952980618781399542754279 279712664700165983751398842446290877174353827185 771029911517682056954841008448125579116257904950 1050110264204136912798781281414240778321212972103 (by decide!)
  have e87 := hiStepP 1907 771029911517682056954841008448125579116257904950 1050110264204136912798781281414240778321212972103 493282069443105475308794927812726590722743148070 1287892673951322810318125515301899561689289359969 (by decide!)
  have e88 := hiStepP 1906 493282069443105475308794927812726590722743148070 1287892673951322810318125515301899561689289359969 130069986885685026189229072537536984009695398233 1412251916431270421555943454852636581352595065656 (by decide!)
  have e89 := hiStepP 1905 130069986885685026189229072537536984009695398233 1412251916431270421555943454852636581352595065656 1278629902742928338398727331849195531425857881545 232110304381258215582976622501996023607502982897 (by decide!)
  have e90 := hiStepP 1904 1278629902742928338398727331849195531425857881545 232110304381258215582976622501996023607502982897 1229413756923599857838083844350997384008441309611 1461166981146088870143217819269919119513002370906 (by decide!)
  have e91 := hiStepP 1903 1229413756923599857838083844350997384008441309611 1461166981146088870143217819269919119513002370906 662137582211877157268392282072614078653082996567 799520129748533052207250850549769551488919496717 (by decide!)
  have e92 := hiStepP 1902 662137582211877157268392282072614078653082996567 799520129748533052207250850549769551488919496717 351928950336242433450514727750660718236383039863 1014387267846116114599146191064336224188311058810 (by decide!)
  have e93 := hiStepP 1901 351928950336242433450514727750660718236383039863 1014387267846116114599146191064336224188311058810 703407301065445655158997316083690383037023156712 1156682251531134108356328201352407484608885080210 (by decide!)
  have e94 := hiStepP 1900 703407301065445655158997316083690383037023156712 1156682251531134108356328201352407484608885080210 448577523486159985150436838818040159939731510592 753799020972227936189252049592246125011187078610 (by decide!)
  have e95 := hiStepP 1899 448577523486159985150436838818040159939731510592 753799020972227936189252049592246125011187078610 567549818025054090318547612785841310588512364553 1320925059490986989901114770150236285160668855771 (by decide!)
  have e96 := hiStepP 1898 567549818025054090318547612785841310588512364553 1320925059490986989901114770150236285160668855771 785783363728546334735729782870265870073657742811 632358070758798007429905505963090679480835516416 (by decide!)
  have e97 := hiStepP 1897 785783363728546334735729782870265870073657742811 632358070758798007429905505963090679480835516416 51972866280913151295859296263722950739720617588 592873813880247122256282641858395281758939059828 (by decide!)
  have e98 := hiStepP 1896 51972866280913151295859296263722950739720617588 592873813880247122256282641858395281758939059828 1277068881615180533872007399189556272759322634516 1052792945722994936562278107261105154903499865952 (by decide!)
  have e99 := hiStepP 1895 1277068881615180533872007399189556272759322634516 1052792945722994936562278107261105154903499865952 1029699065576961798344036486163868343330742434040 69702700311384591485775602000477287018841540504 (by decide!)
  have t0 := e0
  have t1 := t0.trans e1
  have t2 := t1.trans e2
  have t3 := t2.trans e3
  have t4 := t3.trans e4
  have t5 := t4.trans e5
  have t6 := t5.trans e6
  have t7 := t6.trans e7
  have t8 := t7.trans e8
  have t9 := t8.trans e9
  have t10 := t9.trans e10
  have t11 := t10.trans e11
  have t12 := t11.trans e12
  have t13 := t12.trans e13
  have t14 := t13.trans e14
  have t15 := t14.trans e15
  have t16 := t15.trans e16
  have t17 := t16.trans e17
  have t18 := t17.trans e18
  have t19 := t18.trans e19
  have t20 := t19.trans e20
  have t21 := t20.trans e21
  have t22 := t21.trans e22
  have t23 := t22.trans e23
  have t24 := t23.trans e24
  have t25 := t24.trans e25
  have t26 := t25.trans e26
  have t27 := t26.trans e27
  have t28 := t27.trans e28
  have t29 := t28.trans e29
  have t30 := t29.trans e30
  have t31 := t30.trans e31
  have t32 := t31.trans e32
  have t33 := t32.trans e33
  have t34 := t33.trans e34
  have t35 := t34.trans e35
  have t36 := t35.trans e36
  have t37 := t36.trans e37
  have t38 := t37.trans e38
  have t39 := t38.trans e39
  have t40 := t39.trans e40
  have t41 := t40.trans e41
  have t42 := t41.trans e42
  have t43 := t42.trans e43
  have t44 := t43.trans e44
  have t45 := t44.trans e45
  have t46 := t45.trans e46
  have t47 := t46.trans e47
  have t48 := t47.trans e48
  have t49 := t48.trans e49
  have t50 := t49.trans e50
  have t51 := t50.trans e51
  have t52 := t51.trans e52
  have t53 := t52.trans e53
  have t54 := t53.trans e54
  have t55 := t54.trans e55
  have t56 := t55.trans e56
  have t57 := t56.trans e57
  have t58 := t57.trans e58
  have t59 := t58.trans e59
  have t60 := t59.trans e60
  have t61 := t60.trans e61
  have t62 := t61.trans e62
  have t63 := t62.trans e63
  have t64 := t63.trans e64
  have t65 := t64.trans e65
  have t66 := t65.trans e66
  have t67 := t66.trans e67
  have t68 := t67.trans e68
  have t69 := t68.trans e69
  have t70 := t69.trans e70
  have t71 := t70.trans e71
  have t72 := t71.trans e72
  have t73 := t72.trans e73
  have t74 := t73.trans e74
  have t75 := t74.trans e75
  have t76 := t75.trans e76
  have t77 := t76.trans e77
  have t78 := t77.trans e78
  have t79 := t78.trans e79
  have t80 := t79.trans e80
  have t81 := t80.trans e81
  have t82 := t81.trans e82
  have t83 := t82.trans e83
  have t84 := t83.trans e84
  have t85 := t84.trans e85
  have t86 := t85.trans e86
  have t87 := t86.trans e87
  have t88 := t87.trans e88
  have t89 := t88.trans e89
  have t90 := t89.trans e90
  have t91 := t90.trans e91
  have t92 := t91.trans e92
  have t93 := t92.trans e93
  have t94 := t93.trans e94
  have t95 := t94.trans e95
  have t96 := t95.trans e96
  have t97 := t96.trans e97
  have t98 := t97.trans e98
  have t99 := t98.trans e99
  exact t99

theorem hiChainSeg22 : hiLoop SHA_1 (strBytes "pencil") 1895
    (unpackBytes 20 1029699065576961798344036486163868343330742434040)
    (unpackBytes 20 69702700311384591485775602000477287018841540504) =
    hiLoop SHA_1 (strBytes "pencil") 1795
      (unpackBytes 20 391200229099527612035422875291883577351520393002)
      (unpackBytes 20 440598880597559640675266259162307197902380317597) := by
  have e0 := hiStepP 1894 1029699065576961798344036486163868343330742434040 69702700311384591485775602000477287018841540504 475386845792122060991436489359108140941319992423 544863531827048294176912173908341119683754030079 (by decide!)
  have e1 := hiStepP 1893 475386845792122060991436489359108140941319992423 544863531827048294176912173908341119683754030079 670091683457269370554969774376830576221917000913 240836015084257778055509178417952165331959203630 (by decide!)
  have e2 := hiStepP 1892 670091683457269370554969774376830576221917000913 240836015084257778055509178417952165331959203630 1006600478384630771028594829045717054462051527125 882015648271714541123685889247829658548509765371 (by decide!)
  have e3 := hiStepP 1891 1006600478384630771028594829045717054462051527125 882015648271714541123685889247829658548509765371 188524375465260131894237519309160503445927521718 1070330768028303598697138722247197934184960492365 (by decide!)
  have e4 := hiStepP 1890 188524375465260131894237519309160503445927521718 1070330768028303598697138722247197934184960492365 1436958496390463286476247982921242776135906768540 369840451458078758377000741114906573035206620625 (by decide!)
  have e5 := hiStepP 1889 1436958496390463286476247982921242776135906768540 369840451458078758377000741114906573035206620625 1433825589553050939447394690291230334441293886161 1072906853131433139485712609323540225111488464640 (by decide!)
  have e6 := hiStepP 1888 1433825589553050939447394690291230334441293886161 1072906853131433139485712609323540225111488464640 1384405346677661455452539171796060293780288430478 419971758697022104935307406935863947496253417102 (by decide!)
  have e7 := hiStepP 1887 1384405346677661455452539171796060293780288430478 419971758697022104935307406935863947496253417102 844370650729207583237674266423213257744437048082 1247209328024378081967134570260565685670231709084 (by decide!)
  have e8 := hiStepP 1886 844370650729207583237674266423213257744437048082 1247209328024378081967134570260565685670231709084 451331955004335784471206519618658173328924043898 853329668178041819021247198463576607106968584166 (by decide!)
  have e9 := hiStepP 1885 451331955004335784471206519618658173328924043898 853329668178041819021247198463576607106968584166 259492103811567712603553949938153801851681014316 1050736495823953119645483814402190572884406664650 (by decide!)
  have e10 := hiStepP 1884 259492103811567712603553949938153801851681014316 1050736495823953119645483814402190572884406664650 1112899699425329098834752221173059277034597458231 702127937373988598364749621045478763959292026109 (by decide!)
  have e11 := hiStepP 1883 1112899699425329098834752221173059277034597458231 702127937373988598364749621045478763959292026109 244320135109617012940933614064278716695841174236 457950067518022769603466954313379779221108633121 (by decide!)
  have e12 := hiStepP 1882 244320135109617012940933614064278716695841174236 457950067518022769603466954313379779221108633121 1393493883503165430611452390471532295487219678869 937018572583734398056159393351381981070767722676 (by decide!)
  have e13 := hiStepP 1881 1393493883503165430611452390471532295487219678869 937018572583734398056159393351381981070767722676 869404803560731228798342039542133346337923906728 344862218897544420044472845086725645322611141660 (by decide!)
  have e14 := hiStepP 1880 869404803560731228798342039542133346337923906728 344862218897544420044472845086725645322611141660 95211929070127409603327373286304653185193446854 255596792674624702803403860933075951338477363674 (by decide!)
  have e15 := hiStepP 1879 95211929070127409603327373286304653185193446854 255596792674624702803403860933075951338477363674 154164105353450972949958340699820224920259068732 318402933458760988315783618922683751760769557222 (by decide!)
  have e16 := hiStepP 1878 154164105353450972949958340699820224920259068732 318402933458760988315783618922683751760769557222 610208625555993321482437334034744918100984220497 531808405006643666286662105830163093176298760631 (by decide!)
  have e17 := hiStepP 1877 610208625555993321482437334034744918100984220497 531808405006643666286662105830163093176298760631 1293369558370948874461816772266319802300230960039 1094245949112317880527962874699328537947167091216 (by decide!)
  have e18 := hiStepP 1876 1293369558370948874461816772266319802300230960039 1094245949112317880527962874699328537947167091216 573923516437043513630837168802838649961888103546 1251254537452309390609898132576203333958034347626 (by decide!)
  have e19 := hiStepP 1875 573923516437043513630837168802838649961888103546 1251254537452309390609898132576203333958034347626 870619976583618781459795184204669900862735449157 384370295340101920113923621537311351448921680431 (by decide!)
  have e20 := hiStepP 1874 870619976583618781459795184204669900862735449157 384370295340101920113923621537311351448921680431 1236078641109379159081767089579251685498917036479 889541571227946685087940051463355897689436228496 (by decide!)
  have e21 := hiStepP 1873 1236078641109379159081767089579251685498917036479 889541571227946685087940051463355897689436228496 1432949106002716283802372750144987445780298219394 554837439810599627448445494971375946531528291346 (by decide!)
  have e22 := hiStepP 1872 1432949106002716283802372750144987445780298219394 554837439810599627448445494971375946531528291346 1105753266756066111242984555150713841551409547517 916303259342389067668311221042077771713788165359 (by decide!)
  have e23 := hiStepP 1871 1105753266756066111242984555150713841551409547517 916303259342389067668311221042077771713788165359 586678674488420361113539136015562397591558110052 1131893959390560816045115508203533535336722696075 (by decide!)
  have e24 := hiStepP 1870 586678674488420361113539136015562397591558110052 1131893959390560816045115508203533535336722696075 40332869976791813140250245597455856376122761145 1103696617587529619359714212776628016381700167730 (by decide!)
  have e25 := hiStepP 1869 40332869976791813140250245597455856376122761145 1103696617587529619359714212776628016381700167730 845991702895001526768805913315552093935705890314 488049344856020777815229212211003452883844515384 (by decide!)
  have e26 := hiStepP 1868 845991702895001526768805913315552093935705890314 488049344856020777815229212211003452883844515384 523062455838015763360223007213164400459352044108 84966989160100743874390144877753160566518985844 (by decide!)
  have e27 := hiStepP 1867 523062455838015763360223007213164400459352044108 84966989160100743874390144877753160566518985844 1117230773143226916492800029435541952436105479617 1172134264762668737247677280399598273370054177205 (by decide!)
  have e28 := hiStepP 1866 1117230773143226916492800029435541952436105479617 1172134264762668737247677280399598273370054177205 831639717433258923113971652535295629768107925812 530854145527874572077079035390307506240225611905 (by decide!)
  have e29 := hiStepP 1865 831639717433258923113971652535295629768107925812 530854145527874572077079035390307506240225611905 892072115704970210133204831258511958814996072047 1100357016393921400238569607360996729208077391598 (by decide!)
  have e30 := hiStepP 1864 892072115704970210133204831258511958814996072047 1100357016393921400238569607360996729208077391598 1395756456229479606751181705382418862156801120404 301290495369260758571307835742822019039980785274 (by decide!)
  have e31 := hiStepP 1863 1395756456229479606751181705382418862156801120404 301290495369260758571307835742822019039980785274 139778339036085260673970331517332224135166547550 255426280999967170922667782980140313747734157348 (by decide!)
  have e32 := hiStepP 1862 139778339036085260673970331517332224135166547550 255426280999967170922667782980140313747734157348 137742334773819160578349457283017348289257352726 300371661837669527203467236711922969531076408882 (by decide!)
  have e33 := hiStepP 1861 137742334773819160578349457283017348289257352726 300371661837669527203467236711922969531076408882 183048796397922647175166305362952598262750947403 117325674917639091065316772360337699185528266361 (by decide!)
  have e34 := hiStepP 1860 183048796397922647175166305362952598262750947403 117325674917639091065316772360337699185528266361 762699117840543529454634072018095451879787937963 828284243514712802541825565905231819541279317714 (by decide!)
  have e35 := hiStepP 1859 762699117840543529454634072018095451879787937963 828284243514712802541825565905231819541279317714 232085050902913766898196439095260135907761675760 1060144103328340603860559566814875240121424659234 (by decide!)
  have e36 := hiStepP 1858 232085050902913766898196439095260135907761675760 1060144103328340603860559566814875240121424659234 186282645334897017496331150940056722680080814292 873914857872634676614202188971474613711977255926 (by decide!)
  have e37 := hiStepP 1857 186282645334897017496331150940056722680080814292 873914857872634676614202188971474613711977255926 953312867049419556359654096991259342684053114712 365012115081604846895042606204424206070288358574 (by decide!)
  have e38 := hiStepP 1856 953312867049419556359654096991259342684053114712 365012115081604846895042606204424206070288358574 547010315659387335916842895684445862485867444266 549479200973868641431611947632980959459743835268 (by decide!)
  have e39 := hiStepP 1855 547010315659387335916842895684445862485867444266 549479200973868641431611947632980959459743835268 1016369316135529023224989485556466308288653140825 1200157498922605000653707044549407148630045525981 (by decide!)
  have e40 := hiStepP 1854 1016369316135529023224989485556466308288653140825 1200157498922605000653707044549407148630045525981 1040698840648573277995093745543522234135124806382 573449779274107369769802706304014835659624942899 (by decide!)
  have e41 := hiStepP 1853 1040698840648573277995093745543522234135124806382 573449779274107369769802706304014835659624942899 910149392739968779246925937651915711245653518862 1433645393855412261461006918778014115135214987069 (by decide!)
  have e42 := hiStepP 1852 910149392739968779246925937651915711245653518862 1433645393855412261461006918778014115135214987069 374066566770931586739142285755806220026183181884 1065336878430453196405324842056826274092582322433 (by decide!)
  have e43 := hiStepP 1851 374066566770931586739142285755806220026183181884 1065336878430453196405324842056826274092582322433 122336492454714273040595183342411908275403276703 1004572747680256123613733463628959481497453494430 (by decide!)
  have e44 := hiStepP 1850 122336492454714273040595183342411908275403276703 1004572747680256123613733463628959481497453494430 787932789804237576934275102172770229915765586337 216645576626635443077165402471269679028719630655 (by decide!)
  have e45 := hiStepP 1849 787932789804237576934275102172770229915765586337 216645576626635443077165402471269679028719630655 1111094885219245912933268049327352228256158394491 1321220063684421684572160660314520071217849405764 (by decide!)
  have e46 := hiStepP 1848 1111094885219245912933268049327352228256158394491 1321220063684421684572160660314520071217849405764 549938559389122802996625701690118250391598788957 771998098139776403335727422199347894153772687385 (by decide!)
  have e47 := hiStepP 1847 549938559389122802996625701690118250391598788957 771998098139776403335727422199347894153772687385 1313484354464418028587624534613716884956850682863 554736209254088352199982720459356226832494074870 (by decide!)
  have e48 := hiStepP 1846 1313484354464418028587624534613716884956850682863 554736209254088352199982720459356226832494074870 162740694915407857369085397643197378311657478196 717430386001395527572338666980397524276283982786 (by decide!)
  have e49 := hiStepP 1845 162740694915407857369085397643197378311657478196 717430386001395527572338666980397524276283982786 1065806642252384218650363550831391942051042685898 1136688220705484644980365354585129696971154239496 (by decide!)
  have e50 := hiStepP 1844 1065806642252384218650363550831391942051042685898 1136688220705484644980365354585129696971154239496 1419051310982829910280346682486121334341843708619 362758812753026291478470975229851582346188675779 (by decide!)
  have e51 := hiStepP 1843 1419051310982829910280346682486121334341843708619 362758812753026291478470975229851582346188675779 500348432691261820677376031116130073416772768969 594778701131912632303839329441482310418016996874 (by decide!)
  have e52 := hiStepP 1842 500348432691261820677376031116130073416772768969 594778701131912632303839329441482310418016996874 770712214635662439825322140873110952557343387677 1363403705373303851568868833401677396521387048471 (by decide!)
  have e53 := hiStepP 1841 770712214635662439825322140873110952557343387677 1363403705373303851568868833401677396521387048471 75475959523100288289638141057050094135818128927 1301144596168286603293832883576731983124219113480 (by decide!)
  have e54 := hiStepP 1840 75475959523100288289638141057050094135818128927 1301144596168286603293832883576731983124219113480 656164687774816266063057319289512302431800866806 827940799912206420469053090575940815204541663230 (by decide!)
  have e55 := hiStepP 1839 656164687774816266063057319289512302431800866806 827940799912206420469053090575940815204541663230 912419758738943528272040422264937028891209814222 84664028897318468465558547743133042639079528240 (by decide!)
  have e56 := hiStepP 1838 912419758738943528272040422264937028891209814222 84664028897318468465558547743133042639079528240 666675798202001604078917258610715531401610202987 696913768171068613024415053788718360827980798043 (by decide!)
  have e57 := hiStepP 1837 666675798202001604078917258610715531401610202987 696913768171068613024415053788718360827980798043 1107226684194129136401792444645396837821679600430 1072653586189081995425248245102612186822383688565 (by decide!)
  have e58 := hiStepP 1836 1107226684194129136401792444645396837821679600430 1072653586189081995425248245102612186822383688565 889952825865508298565698776507433607104430572819 182725174903003337416626592496167169062825451110 (by decide!)
  have e59 := hiStepP 1835 889952825865508298565698776507433607104430572819 182725174903003337416626592496167169062825451110 1334710933717822810465545913078447925739073947727 1152038048646850569630697644912548634030337988137 (by decide!)
  have e60 := hiStepP 1834 1334710933717822810465545913078447925739073947727 1152038048646850569630697644912548634030337988137 906012805125965519488885011955817309519476486058 499361843867050934721705410696848440000134543747 (by decide!)
  have e61 := hiStepP 1833 906012805125965519488885011955817309519476486058 499361843867050934721705410696848440000134543747 1348579668622915498166283695212343553758973674994 1069015450480774698339517521596676672539262467185 (by decide!)
  have e62 := hiStepP 1832 1348579668622915498166283695212343553758973674994 1069015450480774698339517521596676672539262467185 1061258171920799155745761827695037708918067946350 15080340550004116899686489092402168697701654303 (by decide!)
  have e63 := hiStepP 1831 1061258171920799155745761827695037708918067946350 15080340550004116899686489092402168697701654303 1445053730925011497243202630087605054377346680085 1459947084060011486488337592829214434551266187786 (by decide!)
  have e64 := hiStepP 1830 1445053730925011497243202630087605054377346680085 1459947084060011486488337592829214434551266187786 99608348502053418283581644928363147479788889052 1363219234896522203012816987812982350191919872470 (by decide!)
  have e65 := hiStepP 1829 99608348502053418283581644928363147479788889052 1363219234896522203012816987812982350191919872470 294922925123793305501769837082388599480929961697 1263829268187151825310579045783659091966115249975 (by decide!)
  have e66 := hiStepP 1828 294922925123793305501769837082388599480929961697 1263829268187151825310579045783659091966115249975 270635849753394677428023173165570862936461626934 1381746794387869006675844779762912189958915076353 (by decide!)
  have e67 := hiStepP 1827 270635849753394677428023173165570862936461626934 1381746794387869006675844779762912189958915076353 1339423824624721617969974983502022899687901822432 140460916173142824440965746191956846148451650785 (by decide!)
  have e68 := hiStepP 1826 1339423824624721617969974983502022899687901822432 140460916173142824440965746191956846148451650785 130439650236003098472958341097373256004020961621 81428514974282565775825891787863467306945531316 (by decide!)
  have e69 := hiStepP 1825 130439650236003098472958341097373256004020961621 81428514974282565775825891787863467306945531316 166516613628878993487699460499083725985138901010 110828908210768073055065923406102023555636678054 (by decide!)
  have e70 := hiStepP 1824 166516613628878993487699460499083725985138901010 110828908210768073055065923406102023555636678054 926930393323677523272042212926095643129091983139 1011679091628603968899049227311629880974112606853 (by decide!)
  have e71 := hiStepP 1823 926930393323677523272042212926095643129091983139 1011679091628603968899049227311629880974112606853 598312327345204094544454937385992545444888803066 1244381823230612452432624749846507981699556916351 (by decide!)
  have e72 := hiStepP 1822 598312327345204094544454937385992545444888803066 1244381823230612452432624749846507981699556916351 650884498807953176499479656648591406577419439244 981827360319362036283379285980078223825907446003 (by decide!)
  have e73 := hiStepP 1821 650884498807953176499479656648591406577419439244 981827360319362036283379285980078223825907446003 1046204806652035387293931757048990972302666818174 164041094199761759333797316134153978539882025613 (by decide!)
  have e74 := hiStepP 1820 1046204806652035387293931757048990972302666818174 164041094199761759333797316134153978539882025613 414848596546756609579214814930511082052186381685 479949603465201380631321969313629541097772814328 (by decide!)
  have e75 := hiStepP 1819 414848596546756609579214814930511082052186381685 479949603465201380631321969313629541097772814328 131978893682208624609982886923330329841155347295 382849119510268597953592286060056618006310329511 (by decide!)
  have e76 := hiStepP 1818 131978893682208624609982886923330329841155347295 382849119510268597953592286060056618006310329511 366840103789744706652229498574168891391080707566 18869350453205092606549723707714958744134625609 (by decide!)
  have e77 := hiStepP 1817 366840103789744706652229498574168891391080707566 18869350453205092606549723707714958744134625609 1454438463984307251652227192121019040510567042134 1447528062462097952736530820779640531653141783839 (by decide!)
  have e78 := hiStepP 1816 1454438463984307251652227192121019040510567042134 1447528062462097952736530820779640531653141783839 1141036861523103116664211359569363650581032199980 332921896057413276386210624180138182876662923827 (by decide!)
  have e79 := hiStepP 1815 1141036861523103116664211359569363650581032199980 332921896057413276386210624180138182876662923827 374898812178929418619267641926457824654776870864 707818748163379733790309814308902198288706774499 (by decide!)
  have e80 := hiStepP 1814 374898812178929418619267641926457824654776870864 707818748163379733790309814308902198288706774499 694688166922960243603836316127054856872673714129 13321010059932906157973627509479134778893908530 (by decide!)
  have e81 := hiStepP 1813 694688166922960243603836316127054856872673714129 13321010059932906157973627509479134778893908530 1321857818189456995498347691946477534845709932009 1312341894558492429438891615172547341362292649947 (by decide!)
  have e82 := hiStepP 1812 1321857818189456995498347691946477534845709932009 1312341894558492429438891615172547341362292649947 1107790616651419858547201033344639973653510270810 227389438819013039065423737431107347295987974273 (by decide!)
  have e83 := hiStepP 1811 1107790616651419858547201033344639973653510270810 227389438819013039065423737431107347295987974273 1110511230730397202465524496169911527291101040341 1309175441214583987841794568367758133982825844308 (by decide!)
  have e84 := hiStepP 1810 1110511230730397202465524496169911527291101040341 1309175441214583987841794568367758133982825844308 1006257587578591284431810061468532731231918587172 485695213199712158223207885003653795944501867376 (by decide!)
  have e85 := hiStepP 1809 1006257587578591284431810061468532731231918587172 485695213199712158223207885003653795944501867376 791728918489516150657174280873055382600916488533 1277320642272148941595910089427152350570049348133 (by decide!)
  have e86 := hiStepP 1808 791728918489516150657174280873055382600916488533 1277320642272148941595910089427152350570049348133 1011108860449752607929550863173005380716881382804 631707080799817363427640692025201776829118328753 (by decide!)
  have e87 := hiStepP 1807 1011108860449752607929550863173005380716881382804 631707080799817363427640692025201776829118328753 585474611681224655455225478029821713797495761810 46634977095701693108629076656249120524336956451 (by decide!)
  have e88 := hiStepP 1806 585474611681224655455225478029821713797495761810 46634977095701693108629076656249120524336956451 1325562023716539575418379503178639371333091258905 1279425682790032163169768596462880321348483020346 (by decide!)
  have e89 := hiStepP 1805 1325562023716539575418379503178639371333091258905 1279425682790032163169768596462880321348483020346 499275979205173758100276241798396642829370065883 1047223624521943016529412076093340000665391003105 (by decide!)
  have e90 := hiStepP 1804 499275979205173758100276241798396642829370065883 1047223624521943016529412076093340000665391003105 239579246532360660008657388264567687958931984029 905415436710199878992731975382369543330762767228 (by decide!)
  have e91 := hiStepP 1803 239579246532360660008657388264567687958931984029 905415436710199878992731975382369543330762767228 836483988015499484092056639655046108688722691482 69155153156383336960556655006696569753633210086 (by decide!)
  have e92 := hiStepP 1802 836483988015499484092056639655046108688722691482 69155153156383336960556655006696569753633210086 592007771967868217887572681540854655595895671652 614776998992120455914365591339895049025435989378 (by decide!)
  have e93 := hiStepP 1801 592007771967868217887572681540854655595895671652 614776998992120455914365591339895049025435989378 1252610904754955168269611804058254173619878257195 1009210307653822834263133896514517282281231587241 (by decide!)
  have e94 := hiStepP 1800 1252610904754955168269611804058254173619878257195 1009210307653822834263133896514517282281231587241 1214146529632857519493802055520095422723686840262 573279046062310097639829442305806076576633921647 (by decide!)
  have e95 := hiStepP 1799 1214146529632857519493802055520095422723686840262 573279046062310097639829442305806076576633921647 913367004291813318117965223319214347662088975702 1436311874532121758070878246135207653218091832633 (by decide!)
  have e96 := hiStepP 1798 913367004291813318117965223319214347662088975702 1436311874532121758070878246135207653218091832633 860848679141540487217140041722611930771286698013 624414726290549050222073957251131505573171051812 (by decide!)
  have e97 := hiStepP 1797 860848679141540487217140041722611930771286698013 624414726290549050222073957251131505573171051812 861672392922633455765243612830933263146866188741 1436903953858711169775690736257727387789183425761 (by decide!)
  have e98 := hiStepP 1796 861672392922633455765243612830933263146866188741 1436903953858711169775690736257727387789183425761 1382158813329305061363313105814122481342994690134 55197610252263797365160820492703844684087667895 (by decide!)
  have e99 := hiStepP 1795 1382158813329305061363313105814122481342994690134 55197610252263797365160820492703844684087667895 391200229099527612035422875291883577351520393002 440598880597559640675266259162307197902380317597 (by decide!)
  have t0 := e0
  have t1 := t0.trans e1
  have t2 := t1.trans e2
  have t3 := t2.trans e3
  have t4 := t3.trans e4
  have t5 := t4.trans e5
  have t6 := t5.trans e6
  have t7 := t6.trans e7
  have t8 := t7.trans e8
  have t9 := t8.trans e9
  have t10 := t9.trans e10
  have t11 := t10.trans e11
  have t12 := t11.trans e12
  have t13 := t12.trans e13
  have t14 := t13.trans e14
  have t15 := t14.trans e15
  have t16 := t15.trans e16
  have t17 := t16.trans e17
  have t18 := t17.trans e18
  have t19 := t18.trans e19
  have t20 := t19.trans e20
  have t21 := t20.trans e21
  have t22 := t21.trans e22
  have t23 := t22.trans e23
  have t24 := t23.trans e24
  have t25 := t24.trans e25
  have t26 := t25.trans e26
  have t27 := t26.trans e27
  have t28 := t27.trans e28
  have t29 := t28.trans e29
  have t30 := t29.trans e30
  have t31 := t30.trans e31
  have t32 := t31.trans e32
  have t33 := t32.trans e33
  have t34 := t33.trans e34
  have t35 := t34.trans e35
  have t36 := t35.trans e36
  have t37 := t36.trans e37
  have t38 := t37.trans e38
  have t39 := t38.trans e39
  have t40 := t39.trans e40
  have t41 := t40.trans e41
  have t42 := t41.trans e42
  have t43 := t42.trans e43
  have t44 := t43.trans e44
  have t45 := t44.trans e45
  have t46 := t45.trans e46
  have t47 := t46.trans e47
  have t48 := t47.trans e48
  have t49 := t48.trans e49
  have t50 := t49.trans e50
  have t51 := t50.trans e51
  have t52 := t51.trans e52
  have t53 := t52.trans e53
  have t54 := t53.trans e54
  have t55 := t54.trans e55
  have t56 := t55.trans e56
  have t57 := t56.trans e57
  have t58 := t57.trans e58
  have t59 := t58.trans e59
  have t60 := t59.trans e60
  have t61 := t60.trans e61
  have t62 := t61.trans e62
  have t63 := t62.trans e63
  have t64 := t63.trans e64
  have t65 := t64.trans e65
  have t66 := t65.trans e66
  have t67 := t66.trans e67
  have t68 := t67.trans e68
  have t69 := t68.trans e69
  have t70 := t69.trans e70
  have t71 := t70.trans e71
  have t72 := t71.trans e72
  have t73 := t72.trans e73
  have t74 := t73.trans e74
  have t75 := t74.trans e75
  have t76 := t75.trans e76
  have t77 := t76.trans e77
  have t78 := t77.trans e78
  have t79 := t78.trans e79
  have t80 := t79.trans e80
  have t81 := t80.trans e81
  have t82 := t81.trans e82
  have t83 := t82.trans e83
  have t84 := t83.trans e84
  have t85 := t84.trans e85
  have t86 := t85.trans e86
  have t87 := t86.trans e87
  have t88 := t87.trans e88
  have t89 := t88.trans e89
  have t90 := t89.trans e90
  have t91 := t90.trans e91
  have t92 := t91.trans e92
  have t93 := t92.trans e93
  have t94 := t93.trans e94
  have t95 := t94.trans e95
  have t96 := t95.trans e96
  have t97 := t96.trans e97
  have t98 := t97.trans e98
  have t99 := t98.trans e99
  exact t99

theorem hiChainSeg23 : hiLoop SHA_1 (strBytes "pencil") 1795
    (unpackBytes 20 391200229099527612035422875291883577351520393002)
    (unpackBytes 20 440598880597559640675266259162307197902380317597) =
    hiLoop SHA_1 (strBytes "pencil") 1695
      (unpackBytes 20 1403543377623674369073616866194161247711541727054)
      (unpackBytes 20 475188224782272006452119370398208308736471921087) := by
  have e0 := hiStepP 1794 391200229099527612035422875291883577351520393002 440598880597559640675266259162307197902380317597 1442694622989850314902451230631074887808401609860 1013915318229615809732829596900542021537934520089 (by decide!)
  have e1 := hiStepP 1793 1442694622989850314902451230631074887808401609860 1013915318229615809732829596900542021537934520089 141120223587900408191810179934778381667128104223 965567011348304129277284885637119486325632956934 (by decide!)
  have e2 := hiStepP 1792 141120223587900408191810179934778381667128104223 965567011348304129277284885637119486325632956934 700678852510079754053893281457561943536350549293 1208031668162217222058611527637487340943666720555 (by decide!)
  have e3 := hiStepP 1791 700678852510079754053893281457561943536350549293 1208031668162217222058611527637487340943666720555 603159774713846070074119069275884236119895008656 1063224077647959096462283966818567155061297990331 (by decide!)
  have e4 := hiStepP 1790 603159774713846070074119069275884236119895008656 1063224077647959096462283966818567155061297990331 647102383633680265134604094002456883336109740075 1161189945439089497585363898419859833811070524048 (by decide!)
  have e5 := hiStepP 1789 647102383633680265134604094002456883336109740075 1161189945439089497585363898419859833811070524048 1086285771836017041270209166273589249172222574695 668736955287522935340710805982337806266650303223 (by decide!)
  have e6 := hiStepP 1788 1086285771836017041270209166273589249172222574695 668736955287522935340710805982337806266650303223 1049901064980120227966894966679597078400539941894 1111915408031244854800278796231601406498718500593 (by decide!)
  have e7 := hiStepP 1787 1049901064980120227966894966679597078400539941894 1111915408031244854800278796231601406498718500593 520029776287168599026539345049836199454595811253 878179996214335446347537712568205786838617899332 (by decide!)
  have e8 := hiStepP 1786 520029776287168599026539345049836199454595811253 878179996214335446347537712568205786838617899332 902209209090597567564000609848740045639111506353 44836192075401808719568494730344236420819073269 (by decide!)
  have e9 := hiStepP 1785 902209209090597567564000609848740045639111506353 44836192075401808719568494730344236420819073269 1431368757871745629209065497204002597346361842322 1446566909736091741270593916877482945308212437607 (by decide!)
  have e10 := hiStepP 1784 1431368757871745629209065497204002597346361842322 1446566909736091741270593916877482945308212437607 119132471841622572058480215171967123124269684607 1334395058702037213960471826003263732615589442840 (by decide!)
  have e11 := hiStepP 1783 119132471841622572058480215171967123124269684607 1334395058702037213960471826003263732615589442840 207760042510842947837897315173674569602794230345 1175161493938992245790382488066939470611532425041 (by decide!)
  have e12 := hiStepP 1782 207760042510842947837897315173674569602794230345 1175161493938992245790382488066939470611532425041 300469383116903520933425747022419843257485275749 1424249900180849304885666828900978183883300246836 (by decide!)
  have e13 := hiStepP 1781 300469383116903520933425747022419843257485275749 1424249900180849304885666828900978183883300246836 1348264925637687536911712432036492689610367675604 121758696993315505103198524042558210782936578528 (by decide!)
  have e14 := hiStepP 1780 1348264925637687536911712432036492689610367675604 121758696993315505103198524042558210782936578528 1181135843771311775148454028003806329445292515354 1254198073988445443775982885465927982311874697722 (by decide!)
  have e15 := hiStepP 1779 1181135843771311775148454028003806329445292515354 1254198073988445443775982885465927982311874697722 1251777268853929855643394668495798365060605806273 5431417986659070919552874264814809178183638843 (by decide!)
  have e16 := hiStepP 1778 1251777268853929855643394668495798365060605806273 5431417986659070919552874264814809178183638843 395926171437626428494132392577170753325600974854 397722298022589382042182029976716731264254654269 (by decide!)
  have e17 := hiStepP 1777 395926171437626428494132392577170753325600974854 397722298022589382042182029976716731264254654269 333581932601068963998197755344633382013216152357 729416332978013664865388788368693142844322245656 (by decide!)
  have e18 := hiStepP 1776 333581932601068963998197755344633382013216152357 729416332978013664865388788368693142844322245656 835313389714120905362713790125426016312627202301 1356344534767798287633336701151988282792950686949 (by decide!)
  have e19 := hiStepP 1775 835313389714120905362713790125426016312627202301 1356344534767798287633336701151988282792950686949 410208312016628160107269703155749424696614656045 972289477506418458757560449827103802777933708488 (by decide!)
  have e20 := hiStepP 1774 410208312016628160107269703155749424696614656045 972289477506418458757560449827103802777933708488 757545542539445408139135372416641388282935880439 268310330424222446501735628966680815843789919807 (by decide!)
  have e21 := hiStepP 1773 757545542539445408139135372416641388282935880439 268310330424222446501735628966680815843789919807 1266192985015999360474279019842865118097306359287 1388477600266308623574641346980365580471071622088 (by decide!)
  have e22 := hiStepP 1772 1266192985015999360474279019842865118097306359287 1388477600266308623574641346980365580471071622088 1075171456518181883049847656776490315721028406560 453176769489437571949263971739612806048469700328 (by decide!)
  have e23 := hiStepP 1771 1075171456518181883049847656776490315721028406560 453176769489437571949263971739612806048469700328 972525807808609088754161064203192493026469134780 1308623663631291426868239209502048316570807144276 (by decide!)
  have e24 := hiStepP 1770 972525807808609088754161064203192493026469134780 1308623663631291426868239209502048316570807144276 1244002582340071995752717872708390600403584170738 347528510548889436505395514065802961912479331750 (by decide!)
  have e25 := hiStepP 1769 1244002582340071995752717872708390600403584170738 347528510548889436505395514065802961912479331750 318941652478886916324152900541730365803476710435 62851969911683596763608616579656125818352288133 (by decide!)
  have e26 := hiStepP 1768 318941652478886916324152900541730365803476710435 62851969911683596763608616579656125818352288133 261602034689811439419860532716296257901751648141 221597381138703699029485388171636400261030411784 (by decide!)
  have e27 := hiStepP 1767 261602034689811439419860532716296257901751648141 221597381138703699029485388171636400261030411784 91998146190971364893485049934895073813099980859 312870026213067953277637406611175417582169019955 (by decide!)
  have e28 := hiStepP 1766 91998146190971364893485049934895073813099980859 312870026213067953277637406611175417582169019955 1371858763504473268630772247608656663083462725699 1133275568740910883545223584555023741937390601840 (by decide!)
  have e29 := hiStepP 1765 1371858763504473268630772247608656663083462725699 1133275568740910883545223584555023741937390601840 1369591991114431826971465202986801777638933480430 236375748732739826475408891191784103630371358110 (by decide!)
  have e30 := hiStepP 1764 1369591991114431826971465202986801777638933480430 236375748732739826475408891191784103630371358110 1013412291019326081236566230480044283454212411453 872885844771212223911509252392267599291285968291 (by decide!)
  have e31 := hiStepP 1763 1013412291019326081236566230480044283454212411453 872885844771212223911509252392267599291285968291 1196308603021750424348448139916154759858620739244 419117011754473202485758574713520990421708913423 (by decide!)
  have e32 := hiStepP 1762 1196308603021750424348448139916154759858620739244 419117011754473202485758574713520990421708913423 446788617200412921530945625082423307190637018478 40931155089151972662558549461896330577374250593 (by decide!)
  have e33 := hiStepP 1761 446788617200412921530945625082423307190637018478 40931155089151972662558549461896330577374250593 609701246610916582096394900462271785777333479059 627288738890793622976827865331582995732749459698 (by decide!)
  have e34 := hiStepP 1760 609701246610916582096394900462271785777333479059 627288738890793622976827865331582995732749459698 215815953969960930207318621766650477661217691791 412053326049516341669883757204629101183104497789 (by decide!)
  have e35 := hiStepP 1759 215815953969960930207318621766650477661217691791 412053326049516341669883757204629101183104497789 1248615954732432104534776542184806545473613990548 836924318898092461762512892505818302276914033385 (by decide!)
  have e36 := hiStepP 1758 1248615954732432104534776542184806545473613990548 836924318898092461762512892505818302276914033385 36217311614861685169525855134119605972504702825 849233837855573199329311626689341802385676098944 (by decide!)
  have e37 := hiStepP 1757 36217311614861685169525855134119605972504702825 849233837855573199329311626689341802385676098944 264370258867421826754574159837474046223175267340 1065043510820602863165397573754141127858831026572 (by decide!)
  have e38 := hiStepP 1756 264370258867421826754574159837474046223175267340 1065043510820602863165397573754141127858831026572 294187139803538826404796950403808669066302558042 782354512195415419327895534849821935192467269334 (by decide!)
  have e39 := hiStepP 1755 294187139803538826404796950403808669066302558042 782354512195415419327895534849821935192467269334 1271719055290515148178574604700819414266644965052 501145794100155997868327767718057555499593351274 (by decide!)
  have e40 := hiStepP 1754 1271719055290515148178574604700819414266644965052 501145794100155997868327767718057555499593351274 597729163568431585770276984563537324826377218773 362414799438389333015750705037717773413582088895 (by decide!)
  have e41 := hiStepP 1753 597729163568431585770276984563537324826377218773 362414799438389333015750705037717773413582088895 1228203016057255224781655451808848053778689442431 1326486912051834924119538278627339957969569573056 (by decide!)
  have e42 := hiStepP 1752 1228203016057255224781655451808848053778689442431 1326486912051834924119538278627339957969569573056 890905636736707031344054651734080018258855644907 664120183986866761867377955323342358672955614763 (by decide!)
  have e43 := hiStepP 1751 890905636736707031344054651734080018258855644907 664120183986866761867377955323342358672955614763 893499695617616211129881199674102807767186218479 1329253049071140025182335841193236453409255996356 (by decide!)
  have e44 := hiStepP 1750 893499695617616211129881199674102807767186218479 1329253049071140025182335841193236453409255996356 753971878421452845253972702818313838845843615207 620953108385883857829659593195564498358209091107 (by decide!)
  have e45 := hiStepP 1749 753971878421452845253972702818313838845843615207 620953108385883857829659593195564498358209091107 1297069664299250080169735908091183997166465279483 821874242910209742634066049385347893122187097048 (by decide!)
  have e46 := hiStepP 1748 1297069664299250080169735908091183997166465279483 821874242910209742634066049385347893122187097048 1083249278576774176771068608672383137301612621039 287067584831215958346879948428656676061998030647 (by decide!)
  have e47 := hiStepP 1747 1083249278576774176771068608672383137301612621039 287067584831215958346879948428656676061998030647 891568915392673763468345368270189228693691425643 995591285012967676458253806872715411007600917596 (by decide!)
  have e48 := hiStepP 1746 891568915392673763468345368270189228693691425643 995591285012967676458253806872715411007600917596 261554597901984881716615458671878886925545400588 751877376190897777241105953625095273163736913232 (by decide!)
  have e49 := hiStepP 1745 261554597901984881716615458671878886925545400588 751877376190897777241105953625095273163736913232 1058153913678545759428572150781298563694360766310 336342259552521074759892027633060788789706306102 (by decide!)
  have e50 := hiStepP 1744 1058153913678545759428572150781298563694360766310 336342259552521074759892027633060788789706306102 1295226661938283124480493414406208691858958623883 1234343735888941350281274408378471466683582092989 (by decide!)
  have e51 := hiStepP 1743 1295226661938283124480493414406208691858958623883 1234343735888941350281274408378471466683582092989 803060577396508190608574961650109554512713302289 483114327678764437856293577258693104159045375916 (by decide!)
  have e52 := hiStepP 1742 803060577396508190608574961650109554512713302289 483114327678764437856293577258693104159045375916 487628531638765220432215576510961945005485404215 11186392128888326400073671748594789329020512155 (by decide!)
  have e53 := hiStepP 1741 487628531638765220432215576510961945005485404215 11186392128888326400073671748594789329020512155 956468278339597683096607992910244712792979565845 950459864392122189830949761614137459269012261518 (by decide!)
  have e54 := hiStepP 1740 956468278339597683096607992910244712792979565845 950459864392122189830949761614137459269012261518 1279960948055041512903963807935920551477266863853 401401495682598630367414200058014455426319932515 (by decide!)
  have e55 := hiStepP 1739 1279960948055041512903963807935920551477266863853 401401495682598630367414200058014455426319932515 22819879875110436562246318577536790326828791027 397849513765591456119116545044675338815557773456 (by decide!)
  have e56 := hiStepP 1738 22819879875110436562246318577536790326828791027 397849513765591456119116545044675338815557773456 397332457694373047815115542014223503560624779105 918556623833925609843600427860364882465622001 (by decide!)
  have e57 := hiStepP 1737 397332457694373047815115542014223503560624779105 918556623833925609843600427860364882465622001 123677575318791710524538841557119094419464744192 122761806309885439252316659930551187876245203697 (by decide!)
  have e58 := hiStepP 1736 123677575318791710524538841557119094419464744192 122761806309885439252316659930551187876245203697 803469031142885434703737558805669188456144092123 874815750359106468345445201780652833501307359530 (by decide!)
  have e59 := hiStepP 1735 803469031142885434703737558805669188456144092123 874815750359106468345445201780652833501307359530 1433094355237205569034240824064658833240871305508 560779083432346807322014721398502002961767256078 (by decide!)
  have e60 := hiStepP 1734 1433094355237205569034240824064658833240871305508 560779083432346807322014721398502002961767256078 436409870068950766733217107120183809429858041198 264297256475853699497298872844963344079934123360 (by decide!)
  have e61 := hiStepP 1733 436409870068950766733217107120183809429858041198 264297256475853699497298872844963344079934123360 227254459070152614829935909797509663536600406853 54348219254845313050302435918797034240526497317 (by decide!)
  have e62 := hiStepP 1732 227254459070152614829935909797509663536600406853 54348219254845313050302435918797034240526497317 1031504833940514000606544617828155687568665571306 1079964477205797133719441106530547975856786954703 (by decide!)
  have e63 := hiStepP 1731 1031504833940514000606544617828155687568665571306 1079964477205797133719441106530547975856786954703 550389393932771994933002912971184520212148722962 1263183228646238005428267203634843217044420412637 (by decide!)
  have e64 := hiStepP 1730 550389393932771994933002912971184520212148722962 1263183228646238005428267203634843217044420412637 46878568876701207231945486755157281311103647856 1218624549884824462756625127521262949451309499565 (by decide!)
  have e65 := hiStepP 1729 46878568876701207231945486755157281311103647856 1218624549884824462756625127521262949451309499565 918736575154547376734007567138580352963911303180 671354298617408400262311267890461518560973587617 (by decide!)
  have e66 := hiStepP 1728 918736575154547376734007567138580352963911303180 671354298617408400262311267890461518560973587617 799533783511171313029435592217527967365295960633 1424856358741580066148701498626624971470147057304 (by decide!)
  have e67 := hiStepP 1727 799533783511171313029435592217527967365295960633 1424856358741580066148701498626624971470147057304 234779451527803530582505059428540417452192996119 1190572255155416769667566341237375452886406065551 (by decide!)
  have e68 := hiStepP 1726 234779451527803530582505059428540417452192996119 1190572255155416769667566341237375452886406065551 275997448205014789243802497532284583673780007690 1283524653208138275589543076445400919712228744837 (by decide!)
  have e69 := hiStepP 1725 275997448205014789243802497532284583673780007690 1283524653208138275589543076445400919712228744837 430441647610478796867492186689844813911366251905 980309367102832116412673524800585670210921671428 (by decide!)
  have e70 := hiStepP 1724 430441647610478796867492186689844813911366251905 980309367102832116412673524800585670210921671428 188540688872323704146436426609799193940840270769 791785460968855283834027248889674271957063983285 (by decide!)
  have e71 := hiStepP 1723 188540688872323704146436426609799193940840270769 791785460968855283834027248889674271957063983285 50377690974796295838496267755777164802036248677 744396158862248677006696547554584838399458857168 (by decide!)
  have e72 := hiStepP 1722 50377690974796295838496267755777164802036248677 744396158862248677006696547554584838399458857168 1426676991272686684969682141030416791064892604229 705183752691369745055459194502804191474769080213 (by decide!)
  have e73 := hiStepP 1721 1426676991272686684969682141030416791064892604229 705183752691369745055459194502804191474769080213 426506443623944463930190971358898202564154349047 280827503014276510601734032761779161586263521890 (by decide!)
  have e74 := hiStepP 1720 426506443623944463930190971358898202564154349047 280827503014276510601734032761779161586263521890 8156443994073832356160658690527732660837427937 276105766126368820507018410093039687466066366595 (by decide!)
  have e75 := hiStepP 1719 8156443994073832356160658690527732660837427937 276105766126368820507018410093039687466066366595 591609480856236490154810029872210361662581140795 502339358189270030527670651352610452195092839864 (by decide!)
  have e76 := hiStepP 1718 591609480856236490154810029872210361662581140795 502339358189270030527670651352610452195092839864 381452000622769970002432077142913138305328332923 120898890078243836280380377937308257006225751491 (by decide!)
  have e77 := hiStepP 1717 381452000622769970002432077142913138305328332923 120898890078243836280380377937308257006225751491 1058522343866941574957010752813306233618443706562 983474331221374615162962751942937104147497016577 (by decide!)
  have e78 := hiStepP 1716 1058522343866941574957010752813306233618443706562 983474331221374615162962751942937104147497016577 1423961226399637601388174516638166891596519522640 486159257119796450695755298973567565367990131793 (by decide!)
  have e79 := hiStepP 1715 1423961226399637601388174516638166891596519522640 486159257119796450695755298973567565367990131793 33630075987045591225682546187102792019734554384 461271816431667786360898301153176512416006044481 (by decide!)
  have e80 := hiStepP 1714 33630075987045591225682546187102792019734554384 461271816431667786360898301153176512416006044481 925900780374291007764169264734921429866666288708 1386637291805667860277570586089326070996897897733 (by decide!)
  have e81 := hiStepP 1713 925900780374291007764169264734921429866666288708 1386637291805667860277570586089326070996897897733 801118271105842574313576032281140711963006299648 723293117136353957317241067318323778081899901701 (by decide!)
  have e82 := hiStepP 1712 801118271105842574313576032281140711963006299648 723293117136353957317241067318323778081899901701 1325630382026086015173582903812638018286414866115 859265108952602870112831007441981013026937853382 (by decide!)
  have e83 := hiStepP 1711 1325630382026086015173582903812638018286414866115 859265108952602870112831007441981013026937853382 581668227612992963371942102055965774412130754951 1389428458152675557819566313426949929321927439425 (by decide!)
  have e84 := hiStepP 1710 581668227612992963371942102055965774412130754951 1389428458152675557819566313426949929321927439425 439196194264518730248357480383457384550862257697 1093586510036804966941554299907647409603127216736 (by decide!)
  have e85 := hiStepP 1709 439196194264518730248357480383457384550862257697 1093586510036804966941554299907647409603127216736 62626787702637359070263924021739553208152915446 1035966239807694394630239950360903327455605389206 (by decide!)
  have e86 := hiStepP 1708 62626787702637359070263924021739553208152915446 1035966239807694394630239950360903327455605389206 788538745712948671197882357563062748949811801757 362010254303149240162489194557837394711172405515 (by decide!)
  have e87 := hiStepP 1707 788538745712948671197882357563062748949811801757 362010254303149240162489194557837394711172405515 862179592723028739583229283806145473049975708043 961527445109346189897495292086530224064146243712 (by decide!)
  have e88 := hiStepP 1706 862179592723028739583229283806145473049975708043 961527445109346189897495292086530224064146243712 330519668648138355281490223806024920901836753371 830867403549885313372109482934444785434844940635 (by decide!)
  have e89 := hiStepP 1705 330519668648138355281490223806024920901836753371 830867403549885313372109482934444785434844940635 1361685415028421315070086669499785179536207559478 725342186137109969299363106196606852464456626797 (by decide!)
  have e90 := hiStepP 1704 1361685415028421315070086669499785179536207559478 725342186137109969299363106196606852464456626797 298136171971822588581358628579486102587113574867 429369192107606997528225579654358287821029532606 (by decide!)
  have e91 := hiStepP 1703 298136171971822588581358628579486102587113574867 429369192107606997528225579654358287821029532606 76983873279011212230717210478043774593088524648 401269079071512734393622743570241414943471235798 (by decide!)
  have e92 := hiStepP 1702 76983873279011212230717210478043774593088524648 401269079071512734393622743570241414943471235798 117875375950943685910594220921511384405409131412 473404567650884305753200850528012140138297760066 (by decide!)
  have e93 := hiStepP 1701 117875375950943685910594220921511384405409131412 473404567650884305753200850528012140138297760066 961811994276681378120614192845383513257381457222 1430572408558068932614849901948694189184402912260 (by decide!)
  have e94 := hiStepP 1700 961811994276681378120614192845383513257381457222 1430572408558068932614849901948694189184402912260 732763322288365143927536374952643969110435174348 701116935832980671539067710662890943878174663624 (by decide!)
  have e95 := hiStepP 1699 732763322288365143927536374952643969110435174348 701116935832980671539067710662890943878174663624 14536816869203775948929569271969807504308616351 686616406690165380438826878270634157557834211159 (by decide!)
  have e96 := hiStepP 1698 14536816869203775948929569271969807504308616351 686616406690165380438826878270634157557834211159 981624399946269867995917112590119373175104420109 1208644525593341836772670132183754378363267540570 (by decide!)
  have e97 := hiStepP 1697 981624399946269867995917112590119373175104420109 1208644525593341836772670132183754378363267540570 450717068501195197775440429986021266305254533095 897909236085723524357199077869056344585417048509 (by decide!)
  have e98 := hiStepP 1696 450717068501195197775440429986021266305254533095 897909236085723524357199077869056344585417048509 340454850686600313806145921887982980369319083852 952802344776258060432146588362713358392626183921 (by decide!)
  have e99 := hiStepP 1695 340454850686600313806145921887982980369319083852 952802344776258060432146588362713358392626183921 1403543377623674369073616866194161247711541727054 475188224782272006452119370398208308736471921087 (by decide!)
  have t0 := e0
  have t1 := t0.trans e1
  have t2 := t1.trans e2
  have t3 := t2.trans e3
  have t4 := t3.trans e4
  have t5 := t4.trans e5
  have t6 := t5.trans e6
  have t7 := t6.trans e7
  have t8 := t7.trans e8
  have t9 := t8.trans e9
  have t10 := t9.trans e10
  have t11 := t10.trans e11
  have t12 := t11.trans e12
  have t13 := t12.trans e13
  have t14 := t13.trans e14
  have t15 := t14.trans e15
  have t16 := t15.trans e16
  have t17 := t16.trans e17
  have t18 := t17.trans e18
  have t19 := t18.trans e19
  have t20 := t19.trans e20
  have t21 := t20.trans e21
  have t22 := t21.trans e22
  have t23 := t22.trans e23
  have t24 := t23.trans e24
  have t25 := t24.trans e25
  have t26 := t25.trans e26
  have t27 := t26.trans e27
  have t28 := t27.trans e28
  have t29 := t28.trans e29
  have t30 := t29.trans e30
  have t31 := t30.trans e31
  have t32 := t31.trans e32
  have t33 := t32.trans e33
  have t34 := t33.trans e34
  have t35 := t34.trans e35
  have t36 := t35.trans e36
  have t37 := t36.trans e37
  have t38 := t37.trans e38
  have t39 := t38.trans e39
  have t40 := t39.trans e40
  have t41 := t40.trans e41
  have t42 := t41.trans e42
  have t43 := t42.trans e43
  have t44 := t43.trans e44
  have t45 := t44.trans e45
  have t46 := t45.trans e46
  have t47 := t46.trans e47
  have t48 := t47.trans e48
  have t49 := t48.trans e49
  have t50 := t49.trans e50
  have t51 := t50.trans e51
  have t52 := t51.trans e52
  have t53 := t52.trans e53
  have t54 := t53.trans e54
  have t55 := t54.trans e55
  have t56 := t55.trans e56
  have t57 := t56.trans e57
  have t58 := t57.trans e58
  have t59 := t58.trans e59
  have t60 := t59.trans e60
  have t61 := t60.trans e61
  have t62 := t61.trans e62
  have t63 := t62.trans e63
  have t64 := t63.trans e64
  have t65 := t64.trans e65
  have t66 := t65.trans e66
  have t67 := t66.trans e67
  have t68 := t67.trans e68
  have t69 := t68.trans e69
  have t70 := t69.trans e70
  have t71 := t70.trans e71
  have t72 := t71.trans e72
  have t73 := t72.trans e73
  have t74 := t73.trans e74
  have t75 := t74.trans e75
  have t76 := t75.trans e76
  have t77 := t76.trans e77
  have t78 := t77.trans e78
  have t79 := t78.trans e79
  have t80 := t79.trans e80
  have t81 := t80.trans e81
  have t82 := t81.trans e82
  have t83 := t82.trans e83
  have t84 := t83.trans e84
  have t85 := t84.trans e85
  have t86 := t85.trans e86
  have t87 := t86.trans e87
  have t88 := t87.trans e88
  have t89 := t88.trans e89
  have t90 := t89.trans e90
  have t91 := t90.trans e91
  have t92 := t91.trans e92
  have t93 := t92.trans e93
  have t94 := t93.trans e94
  have t95 := t94.trans e95
  have t96 := t95.trans e96
  have t97 := t96.trans e97
  have t98 := t97.trans e98
  have t99 := t98.trans e99
  exact t99

theorem hiChainSeg24 : hiLoop SHA_1 (strBytes "pencil") 1695
    (unpackBytes 20 1403543377623674369073616866194161247711541727054)
    (unpackBytes 20 475188224782272006452119370398208308736471921087) =
    hiLoop SHA_1 (strBytes "pencil") 1595
      (unpackBytes 20 833977976690822854575933306558390626627612469730)
      (unpackBytes 20 487908429178756331856475906048572375208709444395) := by
  have e0 := hiStepP 1694 1403543377623674369073616866194161247711541727054 475188224782272006452119370398208308736471921087 93118112926973705235472321082696676675979424378 385081150235682712548823496020036477419208131525 (by decide!)
  have e1 := hiStepP 1693 93118112926973705235472321082696676675979424378 385081150235682712548823496020036477419208131525 1416969683301899075465045318044825667683018276723 1069024981554739655527613702218595557918039063734 (by decide!)
  have e2 := hiStepP 1692 1416969683301899075465045318044825667683018276723 1069024981554739655527613702218595557918039063734 350073990799678331780425825959650706717231428899 765392295438582058507404937203027173651705072021 (by decide!)
  have e3 := hiStepP 1691 350073990799678331780425825959650706717231428899 765392295438582058507404937203027173651705072021 1128418271641255549004014944232882535360979338170 386636980356700338087210387442505900658910595631 (by decide!)
  have e4 := hiStepP 1690 1128418271641255549004014944232882535360979338170 386636980356700338087210387442505900658910595631 1016164081188118127723712481297057691314811388175 1383164112006216139791226741658982123848628030240 (by decide!)
  have e5 := hiStepP 1689 1016164081188118127723712481297057691314811388175 1383164112006216139791226741658982123848628030240 807063396734196952884811277167553783991071471783 725638383978843128021979486165616292094947177351 (by decide!)
  have e6 := hiStepP 1688 807063396734196952884811277167553783991071471783 725638383978843128021979486165616292094947177351 1232256090492948269372311396397137024020626919665 963448471917636360551114477953304335703363347318 (by decide!)
  have e7 := hiStepP 1687 1232256090492948269372311396397137024020626919665 963448471917636360551114477953304335703363347318 480222745434374980979975426686688237221696726083 1443647869822756041523559914013292375307038459701 (by decide!)
  have e8 := hiStepP 1686 480222745434374980979975426686688237221696726083 1443647869822756041523559914013292375307038459701 1381036393664612961704268134691877811099263846444 75481794466931435860459006844928391268253552409 (by decide!)
  have e9 := hiStepP 1685 1381036393664612961704268134691877811099263846444 75481794466931435860459006844928391268253552409 877764616254145014993891848331413136965174954990 850481701193378375611553769697855542828896208119 (by decide!)
  have e10 := hiStepP 1684 877764616254145014993891848331413136965174954990 850481701193378375611553769697855542828896208119 415878649152162501491255357591604580153848633696 1256698552478969712829625427304804603093552717207 (by decide!)
  have e11 := hiStepP 1683 415878649152162501491255357591604580153848633696 1256698552478969712829625427304804603093552717207 1092399268222246539941498561436673625182509081016 567881462336225518681738222813000685909159836719 (by decide!)
  have e12 := hiStepP 1682 1092399268222246539941498561436673625182509081016 567881462336225518681738222813000685909159836719 374427464533243636782836571508228936848327148514 199397149207631608975655091200941501037250641869 (by decide!)
  have e13 := hiStepP 1681 374427464533243636782836571508228936848327148514 199397149207631608975655091200941501037250641869 334186088226106690606610505945493330913073383512 139249610839591566187524804442226766846787663765 (by decide!)
  have e14 := hiStepP 1680 334186088226106690606610505945493330913073383512 139249610839591566187524804442226766846787663765 472160634825165988740076753871666916883327015027 427109569207556330064671081337955593351455829990 (by decide!)
  have e15 := hiStepP 1679 472160634825165988740076753871666916883327015027 427109569207556330064671081337955593351455829990 234210978222388471647532413094778862366142069892 569965520222504406941278918584823628646480253794 (by decide!)
  have e16 := hiStepP 1678 234210978222388471647532413094778862366142069892 569965520222504406941278918584823628646480253794 190757109092453827989325711131594282972314214298 381074737435062568237809437429802262075007601912 (by decide!)
  have e17 := hiStepP 1677 190757109092453827989325711131594282972314214298 381074737435062568237809437429802262075007601912 1341467822397404841355261537505419877937361609449 960683006998794268231118214897757465683506425361 (by decide!)
  have e18 := hiStepP 1676 1341467822397404841355261537505419877937361609449 960683006998794268231118214897757465683506425361 4623288921622352119631855187071851269843185342 962184190901070698798508678097021949683775504559 (by decide!)
  have e19 := hiStepP 1675 4623288921622352119631855187071851269843185342 962184190901070698798508678097021949683775504559 576218778176044633274188563655210674141008008499 1166939456217451304824718128176875059291363710364 (by decide!)
  have e20 := hiStepP 1674 576218778176044633274188563655210674141008008499 1166939456217451304824718128176875059291363710364 1325325467132234979170804490743874054450045173532 207017275053944226060050783123087371495364962944 (by decide!)
  have e21 := hiStepP 1673 1325325467132234979170804490743874054450045173532 207017275053944226060050783123087371495364962944 583672462877675819262374936156671834501421458591 379608730059061083333742123563276200892839677471 (by decide!)
  have e22 := hiStepP 1672 583672462877675819262374936156671834501421458591 379608730059061083333742123563276200892839677471 540610551077318640021886401556518389962403289016 164488752962020518591065519610861540665894623655 (by decide!)
  have e23 := hiStepP 1671 540610551077318640021886401556518389962403289016 164488752962020518591065519610861540665894623655 614779646711266820659200913688499092401851928502 681516564859322678570362692702458379188639421969 (by decide!)
  have e24 := hiStepP 1670 614779646711266820659200913688499092401851928502 681516564859322678570362692702458379188639421969 264584532405832580151212442278689679909331971411 509352069967075218911529674737645274966222732098 (by decide!)
  have e25 := hiStepP 1669 264584532405832580151212442278689679909331971411 509352069967075218911529674737645274966222732098 345739963094151774843611843624043526094335492005 580703664138254378307546028896328542104328324327 (by decide!)
  have e26 := hiStepP 1668 345739963094151774843611843624043526094335492005 580703664138254378307546028896328542104328324327 342209793381789182031360158732019351617760076144 538218807384869247055182963584551286977960666519 (by decide!)
  have e27 := hiStepP 1667 342209793381789182031360158732019351617760076144 538218807384869247055182963584551286977960666519 1046621074991261067402100394413366914623490530464 1330608486029553884411641412490944005128092678455 (by decide!)
  have e28 := hiStepP 1666 1046621074991261067402100394413366914623490530464 1330608486029553884411641412490944005128092678455 702233232354001810638117793271747796827995098107 833952262585039358501046661304530782898676019916 (by decide!)
  have e29 := hiStepP 1665 702233232354001810638117793271747796827995098107 833952262585039358501046661304530782898676019916 823525010418598227730577647659930196381819386851 13281924498710459950381415394803449366829926703 (by decide!)
  have e30 := hiStepP 1664 823525010418598227730577647659930196381819386851 13281924498710459950381415394803449366829926703 56917026055861163987230671609406475892402619490 66627172584853625418514750524544258054425546061 (by decide!)
  have e31 := hiStepP 1663 56917026055861163987230671609406475892402619490 66627172584853625418514750524544258054425546061 1144046022474815585752676038913194152648918490948 1117878355430778614689880067609048689667393638921 (by decide!)
  have e32 := hiStepP 1662 1144046022474815585752676038913194152648918490948 1117878355430778614689880067609048689667393638921 1252600839947301519479905099780009548086738574201 140761464793983741584950102434750810919676709232 (by decide!)
  have e33 := hiStepP 1661 1252600839947301519479905099780009548086738574201 140761464793983741584950102434750810919676709232 948780077136989587787276407738319085485199911302 1088080143451590353103901823357178982090997391606 (by decide!)
  have e34 := hiStepP 1660 948780077136989587787276407738319085485199911302 1088080143451590353103901823357178982090997391606 844099763505126431141537900032174792292208526347 258634060459136769118593081609134608212030563581 (by decide!)
  have e35 := hiStepP 1659 844099763505126431141537900032174792292208526347 258634060459136769118593081609134608212030563581 575465164638165657461664441443476125300523019433 419639869921708980521710103895988445483412392020 (by decide!)
  have e36 := hiStepP 1658 575465164638165657461664441443476125300523019433 419639869921708980521710103895988445483412392020 463439196018418358106429589688154325323567932724 140853631740995889918022572335649536965750271328 (by decide!)
  have e37 := hiStepP 1657 463439196018418358106429589688154325323567932724 140853631740995889918022572335649536965750271328 397174557846482172112585625072073747857965402000 532317761461921731561598970022148175410830699248 (by decide!)
  have e38 := hiStepP 1656 397174557846482172112585625072073747857965402000 532317761461921731561598970022148175410830699248 208615542446148070652307641734927116061566648650 694875958215912121682234108623366854148847807418 (by decide!)
  have e39 := hiStepP 1655 208615542446148070652307641734927116061566648650 694875958215912121682234108623366854148847807418 1235546596269289557753518003046914603266455238349 924065142404149875362722078628369987791725944183 (by decide!)
  have e40 := hiStepP 1654 1235546596269289557753518003046914603266455238349 924065142404149875362722078628369987791725944183 605409979194973554796178358722470517089218938066 1163720320438665582640750142832164909866030406053 (by decide!)
  have e41 := hiStepP 1653 605409979194973554796178358722470517089218938066 1163720320438665582640750142832164909866030406053 1165095404152276273633684645947170368821154823352 44326341106018039493600125941992950425492071709 (by decide!)
  have e42 := hiStepP 1652 1165095404152276273633684645947170368821154823352 44326341106018039493600125941992950425492071709 346077363659453994427504670916214732343183406258 338905490624208669843176583895475287167404659119 (by decide!)
  have e43 := hiStepP 1651 346077363659453994427504670916214732343183406258 338905490624208669843176583895475287167404659119 434601892715802854831995141793111806383000865783 682162128979664034122526686895087372352179640920 (by decide!)
  have e44 := hiStepP 1650 434601892715802854831995141793111806383000865783 682162128979664034122526686895087372352179640920 1217195952009456327390346051744819642536576054370 926501312764037251646146969145721441620575776314 (by decide!)
  have e45 := hiStepP 1649 1217195952009456327390346051744819642536576054370 926501312764037251646146969145721441620575776314 46452240534555997168882022148643410230197205469 972919915822777874255873719141914575444439226343 (by decide!)
  have e46 := hiStepP 1648 46452240534555997168882022148643410230197205469 972919915822777874255873719141914575444439226343 855096489960890758824748271698008553950238149522 363522240841951434330386861898692095470151097461 (by decide!)
  have e47 := hiStepP 1647 855096489960890758824748271698008553950238149522 363522240841951434330386861898692095470151097461 588763717556383897435194576246791480969973055501 505556731460589536095502228871295573543284808824 (by decide!)
  have e48 := hiStepP 1646 588763717556383897435194576246791480969973055501 505556731460589536095502228871295573543284808824 1459209788878424092374503824131665039457345667812 953864936277956005016604307706591618586539433628 (by decide!)
  have e49 := hiStepP 1645 1459209788878424092374503824131665039457345667812 953864936277956005016604307706591618586539433628 724568079105070303131519450455739229595864708839 1244516243875288640352099574089272787826467874939 (by decide!)
  have e50 := hiStepP 1644 724568079105070303131519450455739229595864708839 1244516243875288640352099574089272787826467874939 846897670594958953787263076072693170083161430073 443299586691519392799025618229994073442713661506 (by decide!)
  have e51 := hiStepP 1643 846897670594958953787263076072693170083161430073 443299586691519392799025618229994073442713661506 17989959596611868814613879900013345467863092551 448168250262236472571638080722837617158564592901 (by decide!)
  have e52 := hiStepP 1642 17989959596611868814613879900013345467863092551 448168250262236472571638080722837617158564592901 1217374034138635506503719186321416552229891671714 889097236101163307275586449095862473655562845095 (by decide!)
  have e53 := hiStepP 1641 1217374034138635506503719186321416552229891671714 889097236101163307275586449095862473655562845095 1368418796207737518648238700627026439753887882283 662565841956260453701404319455096817174081906572 (by decide!)
  have e54 := hiStepP 1640 1368418796207737518648238700627026439753887882283 662565841956260453701404319455096817174081906572 1352710212716210362292672630407231560809227411240 873473272640595795863706321933173264231095204004 (by decide!)
  have e55 := hiStepP 1639 1352710212716210362292672630407231560809227411240 873473272640595795863706321933173264231095204004 1112683639555219909623105087314082405866519001029 514379289568012692767658661314763907892200607585 (by decide!)
  have e56 := hiStepP 1638 1112683639555219909623105087314082405866519001029 514379289568012692767658661314763907892200607585 1012507340377458244788925523045496985120697701945 1343128461856126159908906447921791020926998894936 (by decide!)
  have e57 := hiStepP 1637 1012507340377458244788925523045496985120697701945 1343128461856126159908906447921791020926998894936 249648063847718341099896250504367275697570334491 1101688668516702072934576528121963128147895328323 (by decide!)
  have e58 := hiStepP 1636 249648063847718341099896250504367275697570334491 1101688668516702072934576528121963128147895328323 205237867908370245780255468048420110496590673449 1296169706167948874973577324463824716295737976938 (by decide!)
  have e59 := hiStepP 1635 205237867908370245780255468048420110496590673449 1296169706167948874973577324463824716295737976938 414161089206019636908079730032538923527712869521 979133960441625609275344900224687898139480368379 (by decide!)
  have e60 := hiStepP 1634 414161089206019636908079730032538923527712869521 979133960441625609275344900224687898139480368379 879309722746928604596468663218419311044915523035 282695240225948171456007117643726390905043634464 (by decide!)
  have e61 := hiStepP 1633 879309722746928604596468663218419311044915523035 282695240225948171456007117643726390905043634464 1050038577763435584658185775090454079615196481816 767349612497206663118443738323804866403260891192 (by decide!)
  have e62 := hiStepP 1632 1050038577763435584658185775090454079615196481816 767349612497206663118443738323804866403260891192 757810562064611592748474046749928646014892139817 16151582424220676872473762918785379328103376145 (by decide!)
  have e63 := hiStepP 1631 757810562064611592748474046749928646014892139817 16151582424220676872473762918785379328103376145 488671071878092723456481547839331905570053471051 498388887946708790451056461838270309346096176730 (by decide!)
  have e64 := hiStepP 1630 488671071878092723456481547839331905570053471051 498388887946708790451056461838270309346096176730 159006913529015209338630113284906836751020286930 437241825910914702525992219409633980876093832584 (by decide!)
  have e65 := hiStepP 1629 159006913529015209338630113284906836751020286930 437241825910914702525992219409633980876093832584 924528278350558291246068538995768546009714444832 1355346095334784641972828346476565363039821658024 (by decide!)
  have e66 := hiStepP 1628 924528278350558291246068538995768546009714444832 1355346095334784641972828346476565363039821658024 326203977103879029573420217537143740539606217854 1211837490652309649443943382276750282563742155734 (by decide!)
  have e67 := hiStepP 1627 326203977103879029573420217537143740539606217854 1211837490652309649443943382276750282563742155734 1181543306466202251225105846044364825439857905085 152416522845501984053439480894466848047677886059 (by decide!)
  have e68 := hiStepP 1626 1181543306466202251225105846044364825439857905085 152416522845501984053439480894466848047677886059 1058281644037707877871285842838878385666256229780 935837761450734670453083710046388812509198130175 (by decide!)
  have e69 := hiStepP 1625 1058281644037707877871285842838878385666256229780 935837761450734670453083710046388812509198130175 596789744767438833343028855613963146064240583138 1161167826382171239815293728591428915622691977757 (by decide!)
  have e70 := hiStepP 1624 596789744767438833343028855613963146064240583138 1161167826382171239815293728591428915622691977757 736439166570092612869189051128020763840389274738 431642413543862506910837462024249883599700289135 (by decide!)
  have e71 := hiStepP 1623 736439166570092612869189051128020763840389274738 431642413543862506910837462024249883599700289135 1312532721417393338259140277498343400780603057240 995940418924221212874841012523802050321207984695 (by decide!)
  have e72 := hiStepP 1622 1312532721417393338259140277498343400780603057240 995940418924221212874841012523802050321207984695 402441442063555900997398694095331731832025009515 1324789216717688483557279898728129042879382638428 (by decide!)
  have e73 := hiStepP 1621 402441442063555900997398694095331731832025009515 1324789216717688483557279898728129042879382638428 5311125688749935132366621615980520773333710362 1329563708563080297421118345684415417601904818502 (by decide!)
  have e74 := hiStepP 1620 5311125688749935132366621615980520773333710362 1329563708563080297421118345684415417601904818502 1356235410232987295224578734280623268513195799246 30953446212855183230935583844415781302504229768 (by decide!)
  have e75 := hiStepP 1619 1356235410232987295224578734280623268513195799246 30953446212855183230935583844415781302504229768 943588538798868922069227243672156120439995737950 914419154079868149540622906817351314372242975958 (by decide!)
  have e76 := hiStepP 1618 943588538798868922069227243672156120439995737950 914419154079868149540622906817351314372242975958 905277948248106004839803958062157123478892046360 358103289308708922679292305265626986266172048590 (by decide!)
  have e77 := hiStepP 1617 905277948248106004839803958062157123478892046360 358103289308708922679292305265626986266172048590 624018058444750032367744213578207039707193781310 479289720011873313464874160704713362539530447088 (by decide!)
  have e78 := hiStepP 1616 624018058444750032367744213578207039707193781310 479289720011873313464874160704713362539530447088 532704660705156383423771007876335749416815286104 84103579333711692570613909346424335746093137832 (by decide!)
  have e79 := hiStepP 1615 532704660705156383423771007876335749416815286104 84103579333711692570613909346424335746093137832 829628644309928413017742360539897238167479017473 912959098251128081666801803576943644468174118825 (by decide!)
  have e80 := hiStepP 1614 829628644309928413017742360539897238167479017473 912959098251128081666801803576943644468174118825 321674251040974715906216908048448167890951878128 957390435813115984576273733551053366436964330073 (by decide!)
  have e81 := hiStepP 1613 321674251040974715906216908048448167890951878128 957390435813115984576273733551053366436964330073 962475954956689480999282783656825952460754840675 86442320888017293764632755360804700970000647738 (by decide!)
  have e82 := hiStepP 1612 962475954956689480999282783656825952460754840675 86442320888017293764632755360804700970000647738 336617057656155223189193653446598194478961226337 307267637302328690611688293974472277035055084635 (by decide!)
  have e83 := hiStepP 1611 336617057656155223189193653446598194478961226337 307267637302328690611688293974472277035055084635 1168975938301720150178044777450674166663364974686 1421915970555460217819997841117832136890684271621 (by decide!)
  have e84 := hiStepP 1610 1168975938301720150178044777450674166663364974686 1421915970555460217819997841117832136890684271621 1145162221612946759979878248853573458097600267100 282733316692899147120443486060033802160395448153 (by decide!)
  have e85 := hiStepP 1609 1145162221612946759979878248853573458097600267100 282733316692899147120443486060033802160395448153 1376879402923108583945461624499044385302815427061 1099947598585653712882851034688530220890358097580 (by decide!)
  have e86 := hiStepP 1608 1376879402923108583945461624499044385302815427061 1099947598585653712882851034688530220890358097580 948724205423593974957637388009344220070428987469 585285229141824777494308145258484409964971947745 (by decide!)
  have e87 := hiStepP 1607 948724205423593974957637388009344220070428987469 585285229141824777494308145258484409964971947745 1010995301405247982305992165321295176227668924112 1230722380735714512655142980952485812288248045617 (by decide!)
  have e88 := hiStepP 1606 1010995301405247982305992165321295176227668924112 1230722380735714512655142980952485812288248045617 188811419932419086727019424124218423069247995370 1407290682875589751068304724236999649055593045467 (by decide!)
  have e89 := hiStepP 1605 188811419932419086727019424124218423069247995370 1407290682875589751068304724236999649055593045467 163251339687491191111553892351427335732156497292 1336470569718946605656579078703551158172411322455 (by decide!)
  have e90 := hiStepP 1604 163251339687491191111553892351427335732156497292 1336470569718946605656579078703551158172411322455 1349125414783836421125802718475591185745862790285 35893877237711851978647557715636267351927975130 (by decide!)
  have e91 := hiStepP 1603 1349125414783836421125802718475591185745862790285 35893877237711851978647557715636267351927975130 1214361728113537793868393140834238791888495737137 1204515296040032753713447339314433733951606756843 (by decide!)
  have e92 := hiStepP 1602 1214361728113537793868393140834238791888495737137 1204515296040032753713447339314433733951606756843 1297811097609802298907490300362145707339608099424 283655175431395556649505660878537003975841816459 (by decide!)
  have e93 := hiStepP 1601 1297811097609802298907490300362145707339608099424 283655175431395556649505660878537003975841816459 459450658662754224813707904132600807643644518668 558543363973812093382077564444645299434736549511 (by decide!)
  have e94 := hiStepP 1600 459450658662754224813707904132600807643644518668 558543363973812093382077564444645299434736549511 539278199895109742482649611223836970606418592103 363321083561307406864725803525983955209266233312 (by decide!)
  have e95 := hiStepP 1599 539278199895109742482649611223836970606418592103 363321083561307406864725803525983955209266233312 896707584696007645856166359221981009956955915329 928829108727700329874734008084973120447941442465 (by decide!)
  have e96 := hiStepP 1598 896707584696007645856166359221981009956955915329 928829108727700329874734008084973120447941442465 677206039435852655831551085848820689820227536206 1211306382813037060484963732443662197831528546031 (by decide!)
  have e97 := hiStepP 1597 677206039435852655831551085848820689820227536206 1211306382813037060484963732443662197831528546031 1001660891088202249365788060871298357593123869822 704187519612852557023290503065740164000653159057 (by decide!)
  have e98 := hiStepP 1596 1001660891088202249365788060871298357593123869822 704187519612852557023290503065740164000653159057 1074596597100166483525705793335682099849792655448 1138281582709992400212188216262221726304551811785 (by decide!)
  have e99 := hiStepP 1595 1074596597100166483525705793335682099849792655448 1138281582709992400212188216262221726304551811785 833977976690822854575933306558390626627612469730 487908429178756331856475906048572375208709444395 (by decide!)
  have t0 := e0
  have t1 := t0.trans e1
  have t2 := t1.trans e2
  have t3 := t2.trans e3
  have t4 := t3.trans e4
  have t5 := t4.trans e5
  have t6 := t5.trans e6
  have t7 := t6.trans e7
  have t8 := t7.trans e8
  have t9 := t8.trans e9
  have t10 := t9.trans e10
  have t11 := t10.trans e11
  have t12 := t11.trans e12
  have t13 := t12.trans e13
  have t14 := t13.trans e14
  have t15 := t14.trans e15
  have t16 := t15.trans e16
  have t17 := t16.trans e17
  have t18 := t17.trans e18
  have t19 := t18.trans e19
  have t20 := t19.trans e20
  have t21 := t20.trans e21
  have t22 := t21.trans e22
  have t23 := t22.trans e23
  have t24 := t23.trans e24
  have t25 := t24.trans e25
  have t26 := t25.trans e26
  have t27 := t26.trans e27
  have t28 := t27.trans e28
  have t29 := t28.trans e29
  have t30 := t29.trans e30
  have t31 := t30.trans e31
  have t32 := t31.trans e32
  have t33 := t32.trans e33
  have t34 := t33.trans e34
  have t35 := t34.trans e35
  have t36 := t35.trans e36
  have t37 := t36.trans e37
  have t38 := t37.trans e38
  have t39 := t38.trans e39
  have t40 := t39.trans e40
  have t41 := t40.trans e41
  have t42 := t41.trans e42
  have t43 := t42.trans e43
  have t44 := t43.trans e44
  have t45 := t44.trans e45
  have t46 := t45.trans e46
  have t47 := t46.trans e47
  have t48 := t47.trans e48
  have t49 := t48.trans e49
  have t50 := t49.trans e50
  have t51 := t50.trans e51
  have t52 := t51.trans e52
  have t53 := t52.trans e53
  have t54 := t53.trans e54
  have t55 := t54.trans e55
  have t56 := t55.trans e56
  have t57 := t56.trans e57
  have t58 := t57.trans e58
  have t59 := t58.trans e59
  have t60 := t59.trans e60
  have t61 := t60.trans e61
  have t62 := t61.trans e62
  have t63 := t62.trans e63
  have t64 := t63.trans e64
  have t65 := t64.trans e65
  have t66 := t65.trans e66
  have t67 := t66.trans e67
  have t68 := t67.trans e68
  have t69 := t68.trans e69
  have t70 := t69.trans e70
  have t71 := t70.trans e71
  have t72 := t71.trans e72
  have t73 := t72.trans e73
  have t74 := t73.trans e74
  have t75 := t74.trans e75
  have t76 := t75.trans e76
  have t77 := t76.trans e77
  have t78 := t77.trans e78
  have t79 := t78.trans e79
  have t80 := t79.trans e80
  have t81 := t80.trans e81
  have t82 := t81.trans e82
  have t83 := t82.trans e83
  have t84 := t83.trans e84
  have t85 := t84.trans e85
  have t86 := t85.trans e86
  have t87 := t86.trans e87
  have t88 := t87.trans e88
  have t89 := t88.trans e89
  have t90 := t89.trans e90
  have t91 := t90.trans e91
  have t92 := t91.trans e92
  have t93 := t92.trans e93
  have t94 := t93.trans e94
  have t95 := t94.trans e95
  have t96 := t95.trans e96
  have t97 := t96.trans e97
  have t98 := t97.trans e98
  have t99 := t98.trans e99
  exact t99

theorem hiChainSeg25 : hiLoop SHA_1 (strBytes "pencil") 1595
    (unpackBytes 20 833977976690822854575933306558390626627612469730)
    (unpackBytes 20 487908429178756331856475906048572375208709444395) =
    hiLoop SHA_1 (strBytes "pencil") 1495
      (unpackBytes 20 146858481107479096672638159180805607503124549362)
      (unpackBytes 20 435564392894625916800711944155928959334060413225) := by
  have e0 := hiStepP 1594 833977976690822854575933306558390626627612469730 487908429178756331856475906048572375208709444395 1454694794210849535641645254039028819409204587111 980348365049493565288267777545376914691854399820 (by decide!)
  have e1 := hiStepP 1593 1454694794210849535641645254039028819409204587111 980348365049493565288267777545376914691854399820 307571250349741376660459702429031961087174180225 904332816371522520189433059366057294604253103309 (by decide!)
  have e2 := hiStepP 1592 307571250349741376660459702429031961087174180225 904332816371522520189433059366057294604253103309 164980171559611350284914967483706931306461762941 745075639675376655854912572724020374131628839344 (by decide!)
  have e3 := hiStepP 1591 164980171559611350284914967483706931306461762941 745075639675376655854912572724020374131628839344 1385393380313761217680209101735022353555351630498 640330438230128541119097202681640535150010262290 (by decide!)
  have e4 := hiStepP 1590 1385393380313761217680209101735022353555351630498 640330438230128541119097202681640535150010262290 518465630872618260461453519771391404003519175671 245344904644876835832538645492001604469874653413 (by decide!)
  have e5 := hiStepP 1589 518465630872618260461453519771391404003519175671 245344904644876835832538645492001604469874653413 1225887451867531003209071184070341965616054878213 1440161625462318929283736456976788425952983988448 (by decide!)
  have e6 := hiStepP 1588 1225887451867531003209071184070341965616054878213 1440161625462318929283736456976788425952983988448 907740584269459504879093418431487782142495924273 566693509460880991416733683837545325559341684945 (by decide!)
  have e7 := hiStepP 1587 907740584269459504879093418431487782142495924273 566693509460880991416733683837545325559341684945 761467699674869281611355072432864811399316513876 1313827405159267990508638765562624412112755932293 (by decide!)
  have e8 := hiStepP 1586 761467699674869281611355072432864811399316513876 1313827405159267990508638765562624412112755932293 437920335396886095393387967504848906233052794654 973896549694318542669585734166842372258029548443 (by decide!)
  have e9 := hiStepP 1585 437920335396886095393387967504848906233052794654 973896549694318542669585734166842372258029548443 581517575641943341381793207319089237675168670497 1183437693978230262058343468486253710182479040698 (by decide!)
  have e10 := hiStepP 1584 581517575641943341381793207319089237675168670497 1183437693978230262058343468486253710182479040698 1450542174847691924312997863940275983026825758618 281873226635991751481256598358068544045622531872 (by decide!)
  have e11 := hiStepP 1583 1450542174847691924312997863940275983026825758618 281873226635991751481256598358068544045622531872 910838277996844602703772077000653695968444556162 998109516835894383197988135249333834662224245922 (by decide!)
  have e12 := hiStepP 1582 910838277996844602703772077000653695968444556162 998109516835894383197988135249333834662224245922 633600139762944533754089451579909427814432124523 1097182350203286573929082585367398877577774406345 (by decide!)
  have e13 := hiStepP 1581 633600139762944533754089451579909427814432124523 1097182350203286573929082585367398877577774406345 744295418894935802276593749545165709286270293261 379291755779344208003658318863208113955499888580 (by decide!)
  have e14 := hiStepP 1580 744295418894935802276593749545165709286270293261 379291755779344208003658318863208113955499888580 1390805147489222898924752279474570295132941998060 1015795789544449436547439703380727548953092364328 (by decide!)
  have e15 := hiStepP 1579 1390805147489222898924752279474570295132941998060 1015795789544449436547439703380727548953092364328 724669628440588369055201043712514217245604869361 1181818634843857221901173574429998237878694407385 (by decide!)
  have e16 := hiStepP 1578 724669628440588369055201043712514217245604869361 1181818634843857221901173574429998237878694407385 1071565071608467446176407080357808132992900036236 666172681322069444782460119950686902590033566293 (by decide!)
  have e17 := hiStepP 1577 1071565071608467446176407080357808132992900036236 666172681322069444782460119950686902590033566293 1242798524708283940011843120850583711350651114428 987682251090935369259871551289240102034227808745 (by decide!)
  have e18 := hiStepP 1576 1242798524708283940011843120850583711350651114428 987682251090935369259871551289240102034227808745 874734747135564888196260073716412724445589376631 298144434505720558492866116076209505921231669150 (by decide!)
  have e19 := hiStepP 1575 874734747135564888196260073716412724445589376631 298144434505720558492866116076209505921231669150 751488518794027732237291166401157329160855316607 1048149952297591493957002813291427957555585986529 (by decide!)
  have e20 := hiStepP 1574 751488518794027732237291166401157329160855316607 1048149952297591493957002813291427957555585986529 1133607857025031724335574871648463893455160757543 645295812213328254444205143573921044185251439302 (by decide!)
  have e21 := hiStepP 1573 1133607857025031724335574871648463893455160757543 645295812213328254444205143573921044185251439302 706320092806803206113467908826795218845434248429 61024391185950577087518095147237593730220826155 (by decide!)
  have e22 := hiStepP 1572 706320092806803206113467908826795218845434248429 61024391185950577087518095147237593730220826155 1184470533645471999018499263945624613023215909568 1129155309669078866854396393052701365491191112939 (by decide!)
  have e23 := hiStepP 1571 1184470533645471999018499263945624613023215909568 1129155309669078866854396393052701365491191112939 1226150470206574132840472982486639840469568366503 108814948880401164261272877506929034639533884236 (by decide!)
  have e24 := hiStepP 1570 1226150470206574132840472982486639840469568366503 108814948880401164261272877506929034639533884236 1335307683328709600644881070069042563729203781999 1432469740042277211049618383377073794223990284835 (by decide!)
  have e25 := hiStepP 1569 1335307683328709600644881070069042563729203781999 1432469740042277211049618383377073794223990284835 258667487380603931946080172034565863509879376595 1231116039040556795671777646364421190474083199216 (by decide!)
  have e26 := hiStepP 1568 258667487380603931946080172034565863509879376595 1231116039040556795671777646364421190474083199216 535748568982348520198374302403863707850159086773 790403655577804028621774732210263311459610997829 (by decide!)
  have e27 := hiStepP 1567 535748568982348520198374302403863707850159086773 790403655577804028621774732210263311459610997829 45272916702259477044752453128968712293069075223 808468165895088123917951787921926414382307247954 (by decide!)
  have e28 := hiStepP 1566 45272916702259477044752453128968712293069075223 808468165895088123917951787921926414382307247954 966725233971909852564157727608201272999474854487 210017449201607132157600119820062512963241901317 (by decide!)
  have e29 := hiStepP 1565 966725233971909852564157727608201272999474854487 210017449201607132157600119820062512963241901317 1018413840369879249775431872027976526130831873324 860156783186164020641529124527545800290471585833 (by decide!)
  have e30 := hiStepP 1564 1018413840369879249775431872027976526130831873324 860156783186164020641529124527545800290471585833 81050572226450675064905629178541691440261075688 871171418570293242742173438350557838218871487169 (by decide!)
  have e31 := hiStepP 1563 81050572226450675064905629178541691440261075688 871171418570293242742173438350557838218871487169 666920972576180637243136705058346939777200427523 1348958848098488090351483533452736950122084346050 (by decide!)
  have e32 := hiStepP 1562 666920972576180637243136705058346939777200427523 1348958848098488090351483533452736950122084346050 38183289402193928207739082794910147278218894540 1341464612965723114923084103713372348656234673166 (by decide!)
  have e33 := hiStepP 1561 38183289402193928207739082794910147278218894540 1341464612965723114923084103713372348656234673166 1049151047085452641230658207101764955644964015327 532292814615784945812839742933522647295772637393 (by decide!)
  have e34 := hiStepP 1560 1049151047085452641230658207101764955644964015327 532292814615784945812839742933522647295772637393 161101109380657214189620534352592644279916883006 371192059512615311936560579179290956590629278959 (by decide!)
  have e35 := hiStepP 1559 161101109380657214189620534352592644279916883006 371192059512615311936560579179290956590629278959 1060734204972639630333393169083231833941705525695 1420293028484369511508343919269863283013170290000 (by decide!)
  have e36 := hiStepP 1558 1060734204972639630333393169083231833941705525695 1420293028484369511508343919269863283013170290000 719007758577178580171765106072700155168316050027 760573194819434827173315938081580112531313727291 (by decide!)
  have e37 := hiStepP 1557 719007758577178580171765106072700155168316050027 760573194819434827173315938081580112531313727291 23269524196362844217579940330128908730466327671 737401416735715212484173909017386170602271099724 (by decide!)
  have e38 := hiStepP 1556 23269524196362844217579940330128908730466327671 737401416735715212484173909017386170602271099724 594677760443554327549399350655441486307878688846 1330205736851517082107534796241754795116658135810 (by decide!)
  have e39 := hiStepP 1555 594677760443554327549399350655441486307878688846 1330205736851517082107534796241754795116658135810 642087860007076701309667949080679097741513261139 876158285872732000485761879604029841016007988049 (by decide!)
  have e40 := hiStepP 1554 642087860007076701309667949080679097741513261139 876158285872732000485761879604029841016007988049 1121826821643515631037055389002467092236453179921 536472259561493274236429822166149822956336767296 (by decide!)
  have e41 := hiStepP 1553 1121826821643515631037055389002467092236453179921 536472259561493274236429822166149822956336767296 940261515214768142464052498583001247582598176539 1423210505339085647937859551492817138773507538523 (by decide!)
  have e42 := hiStepP 1552 940261515214768142464052498583001247582598176539 1423210505339085647937859551492817138773507538523 394578987429958561345011091201696126333686131709 1075241579467313578792561630853581371868933346726 (by decide!)
  have e43 := hiStepP 1551 394578987429958561345011091201696126333686131709 1075241579467313578792561630853581371868933346726 1255724315283808392172239940203617621307588073091 591680567363195900860562371403741887172363060005 (by decide!)
  have e44 := hiStepP 1550 1255724315283808392172239940203617621307588073091 591680567363195900860562371403741887172363060005 1298436692021482959041984935487052423933457784120 758140834425838707098807217761982227548192136733 (by decide!)
  have e45 := hiStepP 1549 1298436692021482959041984935487052423933457784120 758140834425838707098807217761982227548192136733 911153912053875496709390728843077366939254125024 156054345244131117993396409420969901671551971325 (by decide!)
  have e46 := hiStepP 1548 911153912053875496709390728843077366939254125024 156054345244131117993396409420969901671551971325 101000943776060950130619523591079812206019379776 62189982990227219725747304160823240236985953725 (by decide!)
  have e47 := hiStepP 1547 101000943776060950130619523591079812206019379776 62189982990227219725747304160823240236985953725 943215859838939287270317186466154876769991303334 1003800005367022212727179117831887861034269642011 (by decide!)
  have e48 := hiStepP 1546 943215859838939287270317186466154876769991303334 1003800005367022212727179117831887861034269642011 953563513191755461442413754534713095600023290712 50415602023105722180248689012160885372326891075 (by decide!)
  have e49 := hiStepP 1545 953563513191755461442413754534713095600023290712 50415602023105722180248689012160885372326891075 400306847603999535014169412121419713541246946549 449824804903444045735737224887271888862536778422 (by decide!)
  have e50 := hiStepP 1544 400306847603999535014169412121419713541246946549 449824804903444045735737224887271888862536778422 784124350339789005654657292844301694711481602512 1139379709159646630600887785066053422481763881830 (by decide!)
  have e51 := hiStepP 1543 784124350339789005654657292844301694711481602512 1139379709159646630600887785066053422481763881830 899332751627718751513380953150976602589198933119 514276456853566484393497975989697534463376068377 (by decide!)
  have e52 := hiStepP 1542 899332751627718751513380953150976602589198933119 514276456853566484393497975989697534463376068377 385809484614783698780793239574753101768882493142 145595956312078344171160126209132200522285980111 (by decide!)
  have e53 := hiStepP 1541 385809484614783698780793239574753101768882493142 145595956312078344171160126209132200522285980111 1377350296408949445848510214339344700194892390589 1328817290975725621735601083283852646508740721010 (by decide!)
  have e54 := hiStepP 1540 1377350296408949445848510214339344700194892390589 1328817290975725621735601083283852646508740721010 623460410636319993013760554089047361353218543972 764800301105089888722641111808016132976749570070 (by decide!)
  have e55 := hiStepP 1539 623460410636319993013760554089047361353218543972 764800301105089888722641111808016132976749570070 582822076957306507895574761341435298126032775968 1300946175773754605834457178301096688294244401974 (by decide!)
  have e56 := hiStepP 1538 582822076957306507895574761341435298126032775968 1300946175773754605834457178301096688294244401974 475704006965550500957332241018858449321519001083 1008779741022792237302607786034537046150621228749 (by decide!)
  have e57 := hiStepP 1537 475704006965550500957332241018858449321519001083 1008779741022792237302607786034537046150621228749 752603369586943585386667139554728615926877861322 293318346274505823549974395258557282231616527111 (by decide!)
  have e58 := hiStepP 1536 752603369586943585386667139554728615926877861322 293318346274505823549974395258557282231616527111 757542966613040271749517038326664618567217300250 1049422869904745877570563441170210972227539441693 (by decide!)
  have e59 := hiStepP 1535 757542966613040271749517038326664618567217300250 1049422869904745877570563441170210972227539441693 118716492985433407914988038108928404927061804761 931163542201368333678611609702101398582421872324 (by decide!)
  have e60 := hiStepP 1534 118716492985433407914988038108928404927061804761 931163542201368333678611609702101398582421872324 1283917089731072687802415661871861613865514122467 388167152762882150114705624054927257535840969255 (by decide!)
  have e61 := hiStepP 1533 1283917089731072687802415661871861613865514122467 388167152762882150114705624054927257535840969255 1223028765060710426613945584073726578789147974082 855022226455309895384297268979049187113828449253 (by decide!)
  have e62 := hiStepP 1532 1223028765060710426613945584073726578789147974082 855022226455309895384297268979049187113828449253 1103315157014177538876987494989681595768896585689 482562435816428812265393168218061485703711163452 (by decide!)
  have e63 := hiStepP 1531 1103315157014177538876987494989681595768896585689 482562435816428812265393168218061485703711163452 39894451829937193016878581905751796042717447730 470862534716454396960866679696886843536370811406 (by decide!)
  have e64 := hiStepP 1530 39894451829937193016878581905751796042717447730 470862534716454396960866679696886843536370811406 1416169445311270117235440916019550596160023962372 973138944994394816007744484313693800770883019018 (by decide!)
  have e65 := hiStepP 1529 1416169445311270117235440916019550596160023962372 973138944994394816007744484313693800770883019018 1056333134998894890954448715405532382524768999554 111025875273062262100385042403634684270723512712 (by decide!)
  have e66 := hiStepP 1528 1056333134998894890954448715405532382524768999554 111025875273062262100385042403634684270723512712 628133548998229097692109979704493814483438034308 716231035051843389489112176332751997273362719756 (by decide!)
  have e67 := hiStepP 1527 628133548998229097692109979704493814483438034308 716231035051843389489112176332751997273362719756 469522597115571617469977017395007637946245952451 269994260455756237363960714806029754526996715471 (by decide!)
  have e68 := hiStepP 1526 469522597115571617469977017395007637946245952451 269994260455756237363960714806029754526996715471 266853738947500019965935661757480111004212878134 11168898717981016676927028292866959042011991289 (by decide!)
  have e69 := hiStepP 1525 266853738947500019965935661757480111004212878134 11168898717981016676927028292866959042011991289 624701557028248433092084365505413703768875312506 619966511285678984851681145402455762589151504771 (by decide!)
  have e70 := hiStepP 1524 624701557028248433092084365505413703768875312506 619966511285678984851681145402455762589151504771 133705746421560750327182020982639189241005885073 707643083183394302811558669071189513119760248594 (by decide!)
  have e71 := hiStepP 1523 133705746421560750327182020982639189241005885073 707643083183394302811558669071189513119760248594 1005510124818784862800730935757574552564826737587 1163640520724488530270259580645337096436149150881 (by decide!)
  have e72 := hiStepP 1522 1005510124818784862800730935757574552564826737587 1163640520724488530270259580645337096436149150881 385968210658688535532882191352521220454039550728 778030823401477036987340252713367435105590419369 (by decide!)
  have e73 := hiStepP 1521 385968210658688535532882191352521220454039550728 778030823401477036987340252713367435105590419369 773573076118036897699088740452887635516737506162 90098908324727564365538708783131321057338021083 (by decide!)
  have e74 := hiStepP 1520 773573076118036897699088740452887635516737506162 90098908324727564365538708783131321057338021083 974930737804820199620310783082243593342436396055 942279375402238348070831388266371921698210388172 (by decide!)
  have e75 := hiStepP 1519 974930737804820199620310783082243593342436396055 942279375402238348070831388266371921698210388172 661519398009200448177430360552044773248094320435 1226424863530004843008527853698746196310079385599 (by decide!)
  have e76 := hiStepP 1518 661519398009200448177430360552044773248094320435 1226424863530004843008527853698746196310079385599 398536669581521827506221022130894873395054954685 839885995547741451821941002711480281110044206914 (by decide!)
  have e77 := hiStepP 1517 398536669581521827506221022130894873395054954685 839885995547741451821941002711480281110044206914 224733997800603503021114766201456425293892706299 1029059667965759504864099825154793367215284533433 (by decide!)
  have e78 := hiStepP 1516 224733997800603503021114766201456425293892706299 1029059667965759504864099825154793367215284533433 382289353189974425057466159662353438585835709145 1408488859641563293500897503218155969279699114592 (by decide!)
  have e79 := hiStepP 1515 382289353189974425057466159662353438585835709145 1408488859641563293500897503218155969279699114592 285763854661631957294910578591265315884398652182 1123083213454676748680887816569840319970895688054 (by decide!)
  have e80 := hiStepP 1514 285763854661631957294910578591265315884398652182 1123083213454676748680887816569840319970895688054 1438087160010396620561914300065853238406819483029 361779936578611324461051156142238619535438347491 (by decide!)
  have e81 := hiStepP 1513 1438087160010396620561914300065853238406819483029 361779936578611324461051156142238619535438347491 631530768626445545450724110430555301352623602902 466711764986924379877432795820095126688922927157 (by decide!)
  have e82 := hiStepP 1512 631530768626445545450724110430555301352623602902 466711764986924379877432795820095126688922927157 960494327227887468437014273956808393177649188593 1427205395311040679078560516100106737702876483268 (by decide!)
  have e83 := hiStepP 1511 960494327227887468437014273956808393177649188593 1427205395311040679078560516100106737702876483268 403531153767307755839264720708424745994452331446 1092221856774509020372462403876414916057685419378 (by decide!)
  have e84 := hiStepP 1510 403531153767307755839264720708424745994452331446 1092221856774509020372462403876414916057685419378 1351239225891154277117249339369873058823361723798 479538984998760230713935744775969467895103297764 (by decide!)
  have e85 := hiStepP 1509 1351239225891154277117249339369873058823361723798 479538984998760230713935744775969467895103297764 9772592990464041087311959039253044191789083140 469775154965127028699520142695957561231310549728 (by decide!)
  have e86 := hiStepP 1508 9772592990464041087311959039253044191789083140 469775154965127028699520142695957561231310549728 680368760899399331671583374076452225449369061346 213501071043355481456824484775711533811298186498 (by decide!)
  have e87 := hiStepP 1507 680368760899399331671583374076452225449369061346 213501071043355481456824484775711533811298186498 1065253992492047103104992604103083327523051594006 913128753630277166854977172147161010311019582484 (by decide!)
  have e88 := hiStepP 1506 1065253992492047103104992604103083327523051594006 913128753630277166854977172147161010311019582484 634997992643473228341282531720653986620253626797 1374625551764499140283273243143436409111263589817 (by decide!)
  have e89 := hiStepP 1505 634997992643473228341282531720653986620253626797 1374625551764499140283273243143436409111263589817 466316351515426454493529270141416902861935758224 921423432225212185441967735710066611298116992553 (by decide!)
  have e90 := hiStepP 1504 466316351515426454493529270141416902861935758224 921423432225212185441967735710066611298116992553 1070765258380786054669289574627431622537672371475 153624964413024678164170841954015297504847713082 (by decide!)
  have e91 := hiStepP 1503 1070765258380786054669289574627431622537672371475 153624964413024678164170841954015297504847713082 1385999466430969854286732452904654337453900860306 1325524721539146153637271452057207611144937887912 (by decide!)
  have e92 := hiStepP 1502 1385999466430969854286732452904654337453900860306 1325524721539146153637271452057207611144937887912 57395333626896537450194227313744437089487745923 1291015887016699293356237282106925240518935685931 (by decide!)
  have e93 := hiStepP 1501 57395333626896537450194227313744437089487745923 1291015887016699293356237282106925240518935685931 780103850235622287280502293415232106208502279752 608146076502362019359274774065440844283571684707 (by decide!)
  have e94 := hiStepP 1500 780103850235622287280502293415232106208502279752 608146076502362019359274774065440844283571684707 1106523922046571992869772773106373621605103397509 978111487830094064321535301812391767963490856934 (by decide!)
  have e95 := hiStepP 1499 1106523922046571992869772773106373621605103397509 978111487830094064321535301812391767963490856934 1394658517449203281345352858948777936782172136997 543038446194529348497746057824675188586784786883 (by decide!)
  have e96 := hiStepP 1498 1394658517449203281345352858948777936782172136997 543038446194529348497746057824675188586784786883 521104657250662000050214770367177724365031200799 24832899101422435499697985521095076051745067484 (by decide!)
  have e97 := hiStepP 1497 521104657250662000050214770367177724365031200799 24832899101422435499697985521095076051745067484 1178462272060442307413661057106696022128193308116 1154411391530745092335441641495135136302634325000 (by decide!)
  have e98 := hiStepP 1496 1178462272060442307413661057106696022128193308116 1154411391530745092335441641495135136302634325000 912181881735052316297000759117871658197776059347 490666455153055648743759190523570974944301981659 (by decide!)
  have e99 := hiStepP 1495 912181881735052316297000759117871658197776059347 490666455153055648743759190523570974944301981659 146858481107479096672638159180805607503124549362 435564392894625916800711944155928959334060413225 (by decide!)
  have t0 := e0
  have t1 := t0.trans e1
  have t2 := t1.trans e2
  have t3 := t2.trans e3
  have t4 := t3.trans e4
  have t5 := t4.trans e5
  have t6 := t5.trans e6
  have t7 := t6.trans e7
  have t8 := t7.trans e8
  have t9 := t8.trans e9
  have t10 := t9.trans e10
  have t11 := t10.trans e11
  have t12 := t11.trans e12
  have t13 := t12.trans e13
  have t14 := t13.trans e14
  have t15 := t14.trans e15
  have t16 := t15.trans e16
  have t17 := t16.trans e17
  have t18 := t17.trans e18
  have t19 := t18.trans e19
  have t20 := t19.trans e20
  have t21 := t20.trans e21
  have t22 := t21.trans e22
  have t23 := t22.trans e23
  have t24 := t23.trans e24
  have t25 := t24.trans e25
  have t26 := t25.trans e26
  have t27 := t26.trans e27
  have t28 := t27.trans e28
  have t29 := t28.trans e29
  have t30 := t29.trans e30
  have t31 := t30.trans e31
  have t32 := t31.trans e32
  have t33 := t32.trans e33
  have t34 := t33.trans e34
  have t35 := t34.trans e35
  have t36 := t35.trans e36
  have t37 := t36.trans e37
  have t38 := t37.trans e38
  have t39 := t38.trans e39
  have t40 := t39.trans e40
  have t41 := t40.trans e41
  have t42 := t41.trans e42
  have t43 := t42.trans e43
  have t44 := t43.trans e44
  have t45 := t44.trans e45
  have t46 := t45.trans e46
  have t47 := t46.trans e47
  have t48 := t47.trans e48
  have t49 := t48.trans e49
  have t50 := t49.trans e50
  have t51 := t50.trans e51
  have t52 := t51.trans e52
  have t53 := t52.trans e53
  have t54 := t53.trans e54
  have t55 := t54.trans e55
  have t56 := t55.trans e56
  have t57 := t56.trans e57
  have t58 := t57.trans e58
  have t59 := t58.trans e59
  have t60 := t59.trans e60
  have t61 := t60.trans e61
  have t62 := t61.trans e62
  have t63 := t62.trans e63
  have t64 := t63.trans e64
  have t65 := t64.trans e65
  have t66 := t65.trans e66
  have t67 := t66.trans e67
  have t68 := t67.trans e68
  have t69 := t68.trans e69
  have t70 := t69.trans e70
  have t71 := t70.trans e71
  have t72 := t71.trans e72
  have t73 := t72.trans e73
  have t74 := t73.trans e74
  have t75 := t74.trans e75
  have t76 := t75.trans e76
  have t77 := t76.trans e77
  have t78 := t77.trans e78
  have t79 := t78.trans e79
  have t80 := t79.trans e80
  have t81 := t80.trans e81
  have t82 := t81.trans e82
  have t83 := t82.trans e83
  have t84 := t83.trans e84
  have t85 := t84.trans e85
  have t86 := t85.trans e86
  have t87 := t86.trans e87
  have t88 := t87.trans e88
  have t89 := t88.trans e89
  have t90 := t89.trans e90
  have t91 := t90.trans e91
  have t92 := t91.trans e92
  have t93 := t92.trans e93
  have t94 := t93.trans e94
  have t95 := t94.trans e95
  have t96 := t95.trans e96
  have t97 := t96.trans e97
  have t98 := t97.trans e98
  have t99 := t98.trans e99
  exact t99

theorem hiChainSeg26 : hiLoop SHA_1 (strBytes "pencil") 1495
    (unpackBytes 20 146858481107479096672638159180805607503124549362)
    (unpackBytes 20 435564392894625916800711944155928959334060413225) =
    hiLoop SHA_1 (strBytes "pencil") 1395
      (unpackBytes 20 796554633814706774459552432844239753722462949024)
      (unpackBytes 20 1208214844336112973810100021555332775973390886843) := by
  have e0 := hiStepP 1494 146858481107479096672638159180805607503124549362 435564392894625916800711944155928959334060413225 1227774203562336152415498387724892645514505575940 886414082022709634327257334419802999644357857069 (by decide!)
  have e1 := hiStepP 1493 1227774203562336152415498387724892645514505575940 886414082022709634327257334419802999644357857069 999781584085236422407448273654584805702758085859 298917716785032939594363425961429813347370384334 (by decide!)
  have e2 := hiStepP 1492 999781584085236422407448273654584805702758085859 298917716785032939594363425961429813347370384334 1246130766858581390614689065430219098095367351080 1359397736195050677684665529844872014957707940070 (by decide!)
  have e3 := hiStepP 1491 1246130766858581390614689065430219098095367351080 1359397736195050677684665529844872014957707940070 349199239070522875460643209714999262153570642659 1205826565852218213763727570149840552532208499205 (by decide!)
  have e4 := hiStepP 1490 349199239070522875460643209714999262153570642659 1205826565852218213763727570149840552532208499205 1307348475094141672843235380495123065283793687383 318469484893591513306159049991885278831162632530 (by decide!)
  have e5 := hiStepP 1489 1307348475094141672843235380495123065283793687383 318469484893591513306159049991885278831162632530 62002152580800965695243429396978830073445650644 348715330033220578994699522516367271413176449414 (by decide!)
  have e6 := hiStepP 1488 62002152580800965695243429396978830073445650644 348715330033220578994699522516367271413176449414 1368986287796410710259057545176854875943042622528 1203874408627715727121989147982384338234629725638 (by decide!)
  have e7 := hiStepP 1487 1368986287796410710259057545176854875943042622528 1203874408627715727121989147982384338234629725638 1229999597840249066156088007735415259762514664772 32393106063891813406679334767178732453239160962 (by decide!)
  have e8 := hiStepP 1486 1229999597840249066156088007735415259762514664772 32393106063891813406679334767178732453239160962 181081794653958331731107219029026351383206976159 149045947187019741427850474708115661460566956573 (by decide!)
  have e9 := hiStepP 1485 181081794653958331731107219029026351383206976159 149045947187019741427850474708115661460566956573 256221207885774431353382946887830990760996751473 313864229678138668838578570530256211718227628652 (by decide!)
  have e10 := hiStepP 1484 256221207885774431353382946887830990760996751473 313864229678138668838578570530256211718227628652 373160024587800480138412315635440565877932955817 683099323101692967937114513576790683674901088965 (by decide!)
  have e11 := hiStepP 1483 373160024587800480138412315635440565877932955817 683099323101692967937114513576790683674901088965 69902469553525083842437695271305263129358557078 705633501636477534381243395396461113037790827859 (by decide!)
  have e12 := hiStepP 1482 69902469553525083842437695271305263129358557078 705633501636477534381243395396461113037790827859 648692618918475076980792460255064339164295392233 58379280868676834077888359719758404862684315322 (by decide!)
  have e13 := hiStepP 1481 648692618918475076980792460255064339164295392233 58379280868676834077888359719758404862684315322 741087705267664964781434483331740677760874355370 799043095705096162043895645424885046061216343056 (by decide!)
  have e14 := hiStepP 1480 741087705267664964781434483331740677760874355370 799043095705096162043895645424885046061216343056 974860749544140269921492482333616873446569370539 189557768637301062536739479533995662764104730555 (by decide!)
  have e15 := hiStepP 1479 974860749544140269921492482333616873446569370539 189557768637301062536739479533995662764104730555 1077048425006301210152445545221752472020071541387 899803531598833666198680566131512677170711571760 (by decide!)
  have e16 := hiStepP 1478 1077048425006301210152445545221752472020071541387 899803531598833666198680566131512677170711571760 180723823939695223249814373936374293879812243222 743495191561826552475733516471244669243926286886 (by decide!)
  have e17 := hiStepP 1477 180723823939695223249814373936374293879812243222 743495191561826552475733516471244669243926286886 115399972869535025794015993215217019422803479638 856656340337012917531186066253617525409934958192 (by decide!)
  have e18 := hiStepP 1476 115399972869535025794015993215217019422803479638 856656340337012917531186066253617525409934958192 918717271552504814301360795248355305060344949609 313313758689848049563801728326800115365017105689 (by decide!)
  have e19 := hiStepP 1475 918717271552504814301360795248355305060344949609 313313758689848049563801728326800115365017105689 1234350562751457035793973560229739209864140564271 1363540737439505809304454953175860371104211210806 (by decide!)
  have e20 := hiStepP 1474 1234350562751457035793973560229739209864140564271 1363540737439505809304454953175860371104211210806 502788970868664023048090448235576511290187829541 1043465661428716889396722919231266250929405477651 (by decide!)
  have e21 := hiStepP 1473 502788970868664023048090448235576511290187829541 1043465661428716889396722919231266250929405477651 494344558888371826388958993423807703012887411448 1280635923346481614486868472256108447580642769387 (by decide!)
  have e22 := hiStepP 1472 494344558888371826388958993423807703012887411448 1280635923346481614486868472256108447580642769387 28305049780936735176735507017337173056974646456 1305319534876095820223664645852760500041238713683 (by decide!)
  have e23 := hiStepP 1471 28305049780936735176735507017337173056974646456 1305319534876095820223664645852760500041238713683 1060185450479015890019276637934831067397847401435 531311203483191901922694356882965387067694405256 (by decide!)
  have e24 := hiStepP 1470 1060185450479015890019276637934831067397847401435 531311203483191901922694356882965387067694405256 907488375279252312119359034684577386186359235089 1118382271662582200743172784407868495253168108697 (by decide!)
  have e25 := hiStepP 1469 907488375279252312119359034684577386186359235089 1118382271662582200743172784407868495253168108697 413129022610478141091957091887872467756565920040 797667537154908443585742204002407104238847872433 (by decide!)
  have e26 := hiStepP 1468 413129022610478141091957091887872467756565920040 797667537154908443585742204002407104238847872433 583311993087361022326387530841906658507241683544 1356336465656828004840532929899277614420632582121 (by decide!)
  have e27 := hiStepP 1467 583311993087361022326387530841906658507241683544 1356336465656828004840532929899277614420632582121 1435704631063548006336218661201369102242326215670 130928016987552934502656530090010938792261438495 (by decide!)
  have e28 := hiStepP 1466 1435704631063548006336218661201369102242326215670 130928016987552934502656530090010938792261438495 1389987197438511115832665567567773231961136213394 1310707967724112906099708118134631092066614469005 (by decide!)
  have e29 := hiStepP 1465 1389987197438511115832665567567773231961136213394 1310707967724112906099708118134631092066614469005 823424890366513984929778386297310260680453115976 671822121163515247148959310057549212568997245381 (by decide!)
  have e30 := hiStepP 1464 823424890366513984929778386297310260680453115976 671822121163515247148959310057549212568997245381 310904213398980930721026790902798277959601971281 387339458837256579791951710418358886155400237460 (by decide!)
  have e31 := hiStepP 1463 310904213398980930721026790902798277959601971281 387339458837256579791951710418358886155400237460 38520891958440593804682124262144315322074219052 396232740949646216555765457836450732961749177272 (by decide!)
  have e32 := hiStepP 1462 38520891958440593804682124262144315322074219052 396232740949646216555765457836450732961749177272 1044894343503243239999707061783967173968689359616 1383741554066949283330003855170410696826429208760 (by decide!)
  have e33 := hiStepP 1461 1044894343503243239999707061783967173968689359616 1383741554066949283330003855170410696826429208760 1285658740080847974176859688295682829459368777782 110342741301044451667227358538692061970488385678 (by decide!)
  have e34 := hiStepP 1460 1285658740080847974176859688295682829459368777782 110342741301044451667227358538692061970488385678 1265927603599549838138596693707782089247174557572 1181356256594061186219239261541871550938655072010 (by decide!)
  have e35 := hiStepP 1459 1265927603599549838138596693707782089247174557572 1181356256594061186219239261541871550938655072010 165743920423771361339592295984359567702257481563 1209724687170428410914415626450060662486853953617 (by decide!)
  have e36 := hiStepP 1458 165743920423771361339592295984359567702257481563 1209724687170428410914415626450060662486853953617 433697100772573293750335179373977939997434573184 868174355606796534749314328598393368986966874577 (by decide!)
  have e37 := hiStepP 1457 433697100772573293750335179373977939997434573184 868174355606796534749314328598393368986966874577 96031188923856138443090849282261467228682274838 780713474906302389352704365013602362635759882695 (by decide!)
  have e38 := hiStepP 1456 96031188923856138443090849282261467228682274838 780713474906302389352704365013602362635759882695 241030061610660878271145918299669859289279062242 930393907550133791077370953089273195771690676517 (by decide!)
  have e39 := hiStepP 1455 241030061610660878271145918299669859289279062242 930393907550133791077370953089273195771690676517 1235460317539484083784620317954778102980224155519 700058951300442008338739805702186634134573551194 (by decide!)
  have e40 := hiStepP 1454 1235460317539484083784620317954778102980224155519 700058951300442008338739805702186634134573551194 757314416327596788926855105551100948253431962547 1451346218136963554654207069131552452471306458601 (by decide!)
  have e41 := hiStepP 1453 757314416327596788926855105551100948253431962547 1451346218136963554654207069131552452471306458601 297616371787941352729215606488189445552055402274 1153774515968543437722219370053082444897536191179 (by decide!)
  have e42 := hiStepP 1452 297616371787941352729215606488189445552055402274 1153774515968543437722219370053082444897536191179 30557501077632459717218028757641644478599756820 1183260034962119858998525009560692273383932384991 (by decide!)
  have e43 := hiStepP 1451 30557501077632459717218028757641644478599756820 1183260034962119858998525009560692273383932384991 359323298247749018633524383698294450569683373427 1379873429355820081851815388078731495602805595052 (by decide!)
  have e44 := hiStepP 1450 359323298247749018633524383698294450569683373427 1379873429355820081851815388078731495602805595052 1168803051120110072953489316134164457293895921492 348457082914932226212849982854281176782960833784 (by decide!)
  have e45 := hiStepP 1449 1168803051120110072953489316134164457293895921492 348457082914932226212849982854281176782960833784 228706923211686327534654215878950027075397970211 120040173226426144995848431628784713246800010715 (by decide!)
  have e46 := hiStepP 1448 228706923211686327534654215878950027075397970211 120040173226426144995848431628784713246800010715 1020543641427709688365292443672500464161420883025 957773444207837093303463383942020515680637479306 (by decide!)
  have e47 := hiStepP 1447 1020543641427709688365292443672500464161420883025 957773444207837093303463383942020515680637479306 50423921873200371928995361775157591492488468277 999455095555876900947996589108237326327265558207 (by decide!)
  have e48 := hiStepP 1446 50423921873200371928995361775157591492488468277 999455095555876900947996589108237326327265558207 282714751225659814223957340985360155948641034734 905326974596646682279660907418085723093362335569 (by decide!)
  have e49 := hiStepP 1445 282714751225659814223957340985360155948641034734 905326974596646682279660907418085723093362335569 941966624239941378104871326856006414011853329089 333518573317042443692141169990415472915779325328 (by decide!)
  have e50 := hiStepP 1444 941966624239941378104871326856006414011853329089 333518573317042443692141169990415472915779325328 68206731019309723022758754013912756610265821066 283152881165923439681828343277066034554688905754 (by decide!)
  have e51 := hiStepP 1443 68206731019309723022758754013912756610265821066 283152881165923439681828343277066034554688905754 786404546106816965022872851401451567295158549858 1051315221351923191487275012402018594798539759480 (by decide!)
  have e52 := hiStepP 1442 786404546106816965022872851401451567295158549858 1051315221351923191487275012402018594798539759480 427961344503901160705468793886496675883252893443 1386234668388191991459337535166194506718799140987 (by decide!)
  have e53 := hiStepP 1441 427961344503901160705468793886496675883252893443 1386234668388191991459337535166194506718799140987 4909839494159876035366348001502716057713592545 1381860418005851215508918831822143601385079328922 (by decide!)
  have e54 := hiStepP 1440 4909839494159876035366348001502716057713592545 1381860418005851215508918831822143601385079328922 226628637081772546533306486034307703548814675312 1220266334908386323122872194443602799160656502250 (by decide!)
  have e55 := hiStepP 1439 226628637081772546533306486034307703548814675312 1220266334908386323122872194443602799160656502250 159774454397486188140438629519900623664680711624 1177527628693680203239983203010691756529192216610 (by decide!)
  have e56 := hiStepP 1438 159774454397486188140438629519900623664680711624 1177527628693680203239983203010691756529192216610 1252977036974486025606776026003659642182807247541 121210537429647769723573584467456685970866696855 (by decide!)
  have e57 := hiStepP 1437 1252977036974486025606776026003659642182807247541 121210537429647769723573584467456685970866696855 873869226047548885030525162702752835929203291936 800215028447672448448153458368761597055937136055 (by decide!)
  have e58 := hiStepP 1436 873869226047548885030525162702752835929203291936 800215028447672448448153458368761597055937136055 1362657012444639164724117574123638225012343571388 562453138028282003856283344722148654159414674955 (by decide!)
  have e59 := hiStepP 1435 1362657012444639164724117574123638225012343571388 562453138028282003856283344722148654159414674955 636901648517704741748758616642148415966701986738 74460534197418093393713920466259424083955377593 (by decide!)
  have e60 := hiStepP 1434 636901648517704741748758616642148415966701986738 74460534197418093393713920466259424083955377593 573681760948415828530997474647579028064582346766 602079234641829732685617447163373541725650472375 (by decide!)
  have e61 := hiStepP 1433 573681760948415828530997474647579028064582346766 602079234641829732685617447163373541725650472375 720167978434454903536429283542137751768807441728 133165444076466676791202708819123842672598567159 (by decide!)
  have e62 := hiStepP 1432 720167978434454903536429283542137751768807441728 133165444076466676791202708819123842672598567159 149537859631315382718390086744908518888556562340 76421356125351784975287205866008355908162441043 (by decide!)
  have e63 := hiStepP 1431 149537859631315382718390086744908518888556562340 76421356125351784975287205866008355908162441043 1112794248914698290992860234376398838749981497448 1184831741181924250103062741036313046253701863227 (by decide!)
  have e64 := hiStepP 1430 1112794248914698290992860234376398838749981497448 1184831741181924250103062741036313046253701863227 231107964551163998348820300130962706526348395923 1324185847164528631307594973841705623400663274152 (by decide!)
  have e65 := hiStepP 1429 231107964551163998348820300130962706526348395923 1324185847164528631307594973841705623400663274152 1386525037121486676580313782063764636975194422733 120945554425340585534145068721009741475293130597 (by decide!)
  have e66 := hiStepP 1428 1386525037121486676580313782063764636975194422733 120945554425340585534145068721009741475293130597 1387520814453211167530070704624040071579155086708 1313914527867312507552861215885732082213169910289 (by decide!)
  have e67 := hiStepP 1427 1387520814453211167530070704624040071579155086708 1313914527867312507552861215885732082213169910289 545931521814568038488674367700281420538259831199 1059143020065451695580491789232071333018114599822 (by decide!)
  have e68 := hiStepP 1426 545931521814568038488674367700281420538259831199 1059143020065451695580491789232071333018114599822 1119240772017489931722796088560496019166501010179 716698595696304203612871986237252848483249541261 (by decide!)
  have e69 := hiStepP 1425 1119240772017489931722796088560496019166501010179 716698595696304203612871986237252848483249541261 1049156776537925770635232760629056372147443099618 1154915285316547603620415152599823874230603200367 (by decide!)
  have e70 := hiStepP 1424 1049156776537925770635232760629056372147443099618 1154915285316547603620415152599823874230603200367 1370914592291557524209589580150757359027492998156 333571671746068326779333744498754797399926930275 (by decide!)
  have e71 := hiStepP 1423 1370914592291557524209589580150757359027492998156 333571671746068326779333744498754797399926930275 332425568179992233974113888461201016586617163147 1954506028807143643250169208503340628016068328 (by decide!)
  have e72 := hiStepP 1422 332425568179992233974113888461201016586617163147 1954506028807143643250169208503340628016068328 1425709693812968344244208340811194871556301811123 1426816662311868386933870312962364220465095187291 (by decide!)
  have e73 := hiStepP 1421 1425709693812968344244208340811194871556301811123 1426816662311868386933870312962364220465095187291 794667318742868068758232984451505898057073834965 655791169078789059031833904903063327472190431374 (by decide!)
  have e74 := hiStepP 1420 794667318742868068758232984451505898057073834965 655791169078789059031833904903063327472190431374 276671430605453575459539553268470978282529595328 380558138586363877639758165413452148388575493966 (by decide!)
  have e75 := hiStepP 1419 276671430605453575459539553268470978282529595328 380558138586363877639758165413452148388575493966 639565426752811187067159376081740756126864013807 289369778725560768300545880788459667284424836769 (by decide!)
  have e76 := hiStepP 1418 639565426752811187067159376081740756126864013807 289369778725560768300545880788459667284424836769 700720891446962156091978527550179421628897836558 411462986676193237438628010391118101020330227887 (by decide!)
  have e77 := hiStepP 1417 700720891446962156091978527550179421628897836558 411462986676193237438628010391118101020330227887 1315726533696931415831083673484803778982315633713 995629711686253096390548385419022383963592840350 (by decide!)
  have e78 := hiStepP 1416 1315726533696931415831083673484803778982315633713 995629711686253096390548385419022383963592840350 175643890437935231422208509211662189395000607209 1008388164012382876164252660837802210249842562423 (by decide!)
  have e79 := hiStepP 1415 175643890437935231422208509211662189395000607209 1008388164012382876164252660837802210249842562423 492063662798719328359340784945297138694207342819 1316308952581465470188036001559905504138838646164 (by decide!)
  have e80 := hiStepP 1414 492063662798719328359340784945297138694207342819 1316308952581465470188036001559905504138838646164 1212387190552143183345658375487776638072266849292 289999575889717843459423889840174075601328923032 (by decide!)
  have e81 := hiStepP 1413 1212387190552143183345658375487776638072266849292 289999575889717843459423889840174075601328923032 1329285316368479797193567293937461119714707099726 1245166360309385544488672559386934960890564981206 (by decide!)
  have e82 := hiStepP 1412 1329285316368479797193567293937461119714707099726 1245166360309385544488672559386934960890564981206 144210539081590252907614699808620384199943400004 1115253212301363699507777653994236258454403423122 (by decide!)
  have e83 := hiStepP 1411 144210539081590252907614699808620384199943400004 1115253212301363699507777653994236258454403423122 682778246271259313856228133594858781423430275106 1031933087384527645427249976138332496464745466800 (by decide!)
  have e84 := hiStepP 1410 682778246271259313856228133594858781423430275106 1031933087384527645427249976138332496464745466800 6900893322756395203465120032838817858535681999 1038769472331523364688134301355835511289309291647 (by decide!)
  have e85 := hiStepP 1409 6900893322756395203465120032838817858535681999 1038769472331523364688134301355835511289309291647 9045912666981651180395091013817943907983358284 1029796254889177658079440732272920308426676444467 (by decide!)
  have e86 := hiStepP 1408 9045912666981651180395091013817943907983358284 1029796254889177658079440732272920308426676444467 861932648083433300481676787516353222107757420996 197580142308458685887702462427998050019933109495 (by decide!)
  have e87 := hiStepP 1407 861932648083433300481676787516353222107757420996 197580142308458685887702462427998050019933109495 327961850609791864108810904122911987689436515820 159352557042040383651083203765057713422250520859 (by decide!)
  have e88 := hiStepP 1406 327961850609791864108810904122911987689436515820 159352557042040383651083203765057713422250520859 401061771368390724983921751585080108053504767256 534719514044301029673589595753409407558504350723 (by decide!)
  have e89 := hiStepP 1405 401061771368390724983921751585080108053504767256 534719514044301029673589595753409407558504350723 445367042052086173530357209371867339907994724235 112291576645546539606142561336747640633781429128 (by decide!)
  have e90 := hiStepP 1404 445367042052086173530357209371867339907994724235 112291576645546539606142561336747640633781429128 866848205501835283185499279002539961622829690756 756386000819110208618557246899265223814519442444 (by decide!)
  have e91 := hiStepP 1403 866848205501835283185499279002539961622829690756 756386000819110208618557246899265223814519442444 56892687277754575812467668356597283524283100537 808060310310938809266586760917978618578897052021 (by decide!)
  have e92 := hiStepP 1402 56892687277754575812467668356597283524283100537 808060310310938809266586760917978618578897052021 246834304014500620366350332257301661680736648200 951768247764993227011884979930671686654021737853 (by decide!)
  have e93 := hiStepP 1401 246834304014500620366350332257301661680736648200 951768247764993227011884979930671686654021737853 125871524537856619497875115317916008442559341087 1008941951022774385686926095745178986517520465762 (by decide!)
  have e94 := hiStepP 1400 125871524537856619497875115317916008442559341087 1008941951022774385686926095745178986517520465762 367867854181142269114360493303170895300014122778 1374913966189916402785460429899469259728137492600 (by decide!)
  have e95 := hiStepP 1399 367867854181142269114360493303170895300014122778 1374913966189916402785460429899469259728137492600 816677479895028427852474397771060507360458938001 729866104386156880342328256712652715475486871273 (by decide!)
  have e96 := hiStepP 1398 816677479895028427852474397771060507360458938001 729866104386156880342328256712652715475486871273 1386031235876035260605394829090341599537767267492 805672414618997578333821014610447606047234175565 (by decide!)
  have e97 := hiStepP 1397 1386031235876035260605394829090341599537767267492 805672414618997578333821014610447606047234175565 611466840656070267613518282216007869895483341786 1313168811752985233589414997278420230697097202071 (by decide!)
  have e98 := hiStepP 1396 611466840656070267613518282216007869895483341786 1313168811752985233589414997278420230697097202071 1085422076485173971912885429701188381641603113100 503205597298471523751690766635081069574098053403 (by decide!)
  have e99 := hiStepP 1395 1085422076485173971912885429701188381641603113100 503205597298471523751690766635081069574098053403 796554633814706774459552432844239753722462949024 1208214844336112973810100021555332775973390886843 (by decide!)
  have t0 := e0
  have t1 := t0.trans e1
  have t2 := t1.trans e2
  have t3 := t2.trans e3
  have t4 := t3.trans e4
  have t5 := t4.trans e5
  have t6 := t5.trans e6
  have t7 := t6.trans e7
  have t8 := t7.trans e8
  have t9 := t8.trans e9
  have t10 := t9.trans e10
  have t11 := t10.trans e11
  have t12 := t11.trans e12
  have t13 := t12.trans e13
  have t14 := t13.trans e14
  have t15 := t14.trans e15
  have t16 := t15.trans e16
  have t17 := t16.trans e17
  have t18 := t17.trans e18
  have t19 := t18.trans e19
  have t20 := t19.trans e20
  have t21 := t20.trans e21
  have t22 := t21.trans e22
  have t23 := t22.trans e23
  have t24 := t23.trans e24
  have t25 := t24.trans e25
  have t26 := t25.trans e26
  have t27 := t26.trans e27
  have t28 := t27.trans e28
  have t29 := t28.trans e29
  have t30 := t29.trans e30
  have t31 := t30.trans e31
  have t32 := t31.trans e32
  have t33 := t32.trans e33
  have t34 := t33.trans e34
  have t35 := t34.trans e35
  have t36 := t35.trans e36
  have t37 := t36.trans e37
  have t38 := t37.trans e38
  have t39 := t38.trans e39
  have t40 := t39.trans e40
  have t41 := t40.trans e41
  have t42 := t41.trans e42
  have t43 := t42.trans e43
  have t44 := t43.trans e44
  have t45 := t44.trans e45
  have t46 := t45.trans e46
  have t47 := t46.trans e47
  have t48 := t47.trans e48
  have t49 := t48.trans e49
  have t50 := t49.trans e50
  have t51 := t50.trans e51
  have t52 := t51.trans e52
  have t53 := t52.trans e53
  have t54 := t53.trans e54
  have t55 := t54.trans e55
  have t56 := t55.trans e56
  have t57 := t56.trans e57
  have t58 := t57.trans e58
  have t59 := t58.trans e59
  have t60 := t59.trans e60
  have t61 := t60.trans e61
  have t62 := t61.trans e62
  have t63 := t62.trans e63
  have t64 := t63.trans e64
  have t65 := t64.trans e65
  have t66 := t65.trans e66
  have t67 := t66.trans e67
  have t68 := t67.trans e68
  have t69 := t68.trans e69
  have t70 := t69.trans e70
  have t71 := t70.trans e71
  have t72 := t71.trans e72
  have t73 := t72.trans e73
  have t74 := t73.trans e74
  have t75 := t74.trans e75
  have t76 := t75.trans e76
  have t77 := t76.trans e77
  have t78 := t77.trans e78
  have t79 := t78.trans e79
  have t80 := t79.trans e80
  have t81 := t80.trans e81
  have t82 := t81.trans e82
  have t83 := t82.trans e83
  have t84 := t83.trans e84
  have t85 := t84.trans e85
  have t86 := t85.trans e86
  have t87 := t86.trans e87
  have t88 := t87.trans e88
  have t89 := t88.trans e89
  have t90 := t89.trans e90
  have t91 := t90.trans e91
  have t92 := t91.trans e92
  have t93 := t92.trans e93
  have t94 := t93.trans e94
  have t95 := t94.trans e95
  have t96 := t95.trans e96
  have t97 := t96.trans e97
  have t98 := t97.trans e98
  have t99 := t98.trans e99
  exact t99

theorem hiChainSeg27 : hiLoop SHA_1 (strBytes "pencil") 1395
    (unpackBytes 20 796554633814706774459552432844239753722462949024)
    (unpackBytes 20 1208214844336112973810100021555332775973390886843) =
    hiLoop SHA_1 (strBytes "pencil") 1295
      (unpackBytes 20 1086792184264671067231652336630375582536139330027)
      (unpackBytes 20 726681944854286436026291041271356486886321551871) := by
  have e0 := hiStepP 1394 796554633814706774459552432844239753722462949024 1208214844336112973810100021555332775973390886843 112341493555131399240963550855470624542431362443 1096475651596648309233912499110709653724064913968 (by decide!)
  have e1 := hiStepP 1393 112341493555131399240963550855470624542431362443 1096475651596648309233912499110709653724064913968 1115839479325415950591670579203898305216992417021 19899421971158191001463178999564485459563679437 (by decide!)
  have e2 := hiStepP 1392 1115839479325415950591670579203898305216992417021 19899421971158191001463178999564485459563679437 659949258197308500026610676418737123211380199501 644524277991923768856299715373755169570315673216 (by decide!)
  have e3 := hiStepP 1391 659949258197308500026610676418737123211380199501 644524277991923768856299715373755169570315673216 600498806519153535000417148352320263803338587011 147234736168026068854475918464721487703635715331 (by decide!)
  have e4 := hiStepP 1390 600498806519153535000417148352320263803338587011 147234736168026068854475918464721487703635715331 224308660189066782774582353587584652828321384439 356820526447542267334929424933558612690889794292 (by decide!)
  have e5 := hiStepP 1389 224308660189066782774582353587584652828321384439 356820526447542267334929424933558612690889794292 730168485376134394211408848716984826665576291399 373348091449351348394604362168621504393357246131 (by decide!)
  have e6 := hiStepP 1388 730168485376134394211408848716984826665576291399 373348091449351348394604362168621504393357246131 369145129687874679016509440109078260278675621492 10270506711850329623815453858124335117555529927 (by decide!)
  have e7 := hiStepP 1387 369145129687874679016509440109078260278675621492 10270506711850329623815453858124335117555529927 1444614406542937960427754397926783609378719941329 1443087819032304016037351766353161466555282012694 (by decide!)
  have e8 := hiStepP 1386 1444614406542937960427754397926783609378719941329 1443087819032304016037351766353161466555282012694 159762356095691129285249375606551645672703931565 1320153099303343779170274297568682764989339700923 (by decide!)
  have e9 := hiStepP 1385 159762356095691129285249375606551645672703931565 1320153099303343779170274297568682764989339700923 411796816237396184440208686959557180390687100 1319841853254652467802568794473138292977066463175 (by decide!)
  have e10 := hiStepP 1384 411796816237396184440208686959557180390687100 1319841853254652467802568794473138292977066463175 880415170317017053001326648831961190524253821896 714179890034355251500587387970733173904377156623 (by decide!)
  have e11 := hiStepP 1383 880415170317017053001326648831961190524253821896 714179890034355251500587387970733173904377156623 560071525213026064689074581646761811760897894483 177036457548684183358297272189051052020239449180 (by decide!)
  have e12 := hiStepP 1382 560071525213026064689074581646761811760897894483 177036457548684183358297272189051052020239449180 78549383639614226669696024489437274219825119586 107061733924038384402404061167254942066063768894 (by decide!)
  have e13 := hiStepP 1381 78549383639614226669696024489437274219825119586 107061733924038384402404061167254942066063768894 640758324498995075900179112525747523212972111487 565107218772884142832625634815693615884046650177 (by decide!)
  have e14 := hiStepP 1380 640758324498995075900179112525747523212972111487 565107218772884142832625634815693615884046650177 45514266094326645658774733389511430245286989309 576711784728464987613278173618536111579792639676 (by decide!)
  have e15 := hiStepP 1379 45514266094326645658774733389511430245286989309 576711784728464987613278173618536111579792639676 1151922066078532680540646493531183770488649624357 986258673427483922292523757302739259497270652313 (by decide!)
  have e16 := hiStepP 1378 1151922066078532680540646493531183770488649624357 986258673427483922292523757302739259497270652313 440608495762670188502447001226680398323658061059 1289803945692503211645780896799627885730362972314 (by decide!)
  have e17 := hiStepP 1377 440608495762670188502447001226680398323658061059 1289803945692503211645780896799627885730362972314 701178474598499004525538544337666961542509924145 886256793073042106468582557149330704379484100523 (by decide!)
  have e18 := hiStepP 1376 701178474598499004525538544337666961542509924145 886256793073042106468582557149330704379484100523 635644485052754236119714892481827400855396122846 1395366849852049657568406698247341125824705550197 (by decide!)
  have e19 := hiStepP 1375 635644485052754236119714892481827400855396122846 1395366849852049657568406698247341125824705550197 1089590040936469470192538572758032675839855096154 426401540048007675402260437789525966729030772271 (by decide!)
  have e20 := hiStepP 1374 1089590040936469470192538572758032675839855096154 426401540048007675402260437789525966729030772271 1376559631257860463073677079124568178984465692182 1071496451633826601621394564895365104247970123833 (by decide!)
  have e21 := hiStepP 1373 1376559631257860463073677079124568178984465692182 1071496451633826601621394564895365104247970123833 1269218118581760756762253548214149929550200427387 582275722631155386665432529798312373554193433410 (by decide!)
  have e22 := hiStepP 1372 1269218118581760756762253548214149929550200427387 582275722631155386665432529798312373554193433410 67119011675254687267515029532162403188498015661 629407612381004983204136001756294815318886688495 (by decide!)
  have e23 := hiStepP 1371 67119011675254687267515029532162403188498015661 629407612381004983204136001756294815318886688495 1295342675070953504643454870946719615957766367263 804135744885024312326142640130060993648717221616 (by decide!)
  have e24 := hiStepP 1370 1295342675070953504643454870946719615957766367263 804135744885024312326142640130060993648717221616 1116772886525584567506641914012512983676827480481 452602479190037463873537147755939112332706217809 (by decide!)
  have e25 := hiStepP 1369 1116772886525584567506641914012512983676827480481 452602479190037463873537147755939112332706217809 1093854381632768497698160233341829965071381383911 1375092335370812503460563280810304084070938654134 (by decide!)
  have e26 := hiStepP 1368 1093854381632768497698160233341829965071381383911 1375092335370812503460563280810304084070938654134 328653536064858730542001610811750291025690497443 1149203421816090772695316103741022243350616548373 (by decide!)
  have e27 := hiStepP 1367 328653536064858730542001610811750291025690497443 1149203421816090772695316103741022243350616548373 462481588223739923028843521820866198360598924496 869516165233474000065249727468828485191236806853 (by decide!)
  have e28 := hiStepP 1366 462481588223739923028843521820866198360598924496 869516165233474000065249727468828485191236806853 912478698604428275518193174676539589476596187625 43408558016905191558151257431197915556427163948 (by decide!)
  have e29 := hiStepP 1365 912478698604428275518193174676539589476596187625 43408558016905191558151257431197915556427163948 400390633875048802121664888501537556539112797239 375201925053819330590158529003402835565434690843 (by decide!)
  have e30 := hiStepP 1364 400390633875048802121664888501537556539112797239 375201925053819330590158529003402835565434690843 459834934934055293405792715278811154445839511442 98192005910197527245411937949539489431162647177 (by decide!)
  have e31 := hiStepP 1363 459834934934055293405792715278811154445839511442 98192005910197527245411937949539489431162647177 789752991533647058762484923356142394943575071278 887183166402972103568303980899639476397641066663 (by decide!)
  have e32 := hiStepP 1362 789752991533647058762484923356142394943575071278 887183166402972103568303980899639476397641066663 566714177644912576757086661915795045103377771865 1416609974975291830458730071933985139099126367742 (by decide!)
  have e33 := hiStepP 1361 566714177644912576757086661915795045103377771865 1416609974975291830458730071933985139099126367742 1383781807931286189048009722404691634719847420866 58518626012720774305129618968775837532366542396 (by decide!)
  have e34 := hiStepP 1360 1383781807931286189048009722404691634719847420866 58518626012720774305129618968775837532366542396 711240985804514144478532225569282073189454587815 678415759342314161163578603351714161099322536347 (by decide!)
  have e35 := hiStepP 1359 711240985804514144478532225569282073189454587815 678415759342314161163578603351714161099322536347 907939319717305447069010946351863239764818055761 1335109269647855631210677427272644770725813904330 (by decide!)
  have e36 := hiStepP 1358 907939319717305447069010946351863239764818055761 1335109269647855631210677427272644770725813904330 65944537283732636412471543625133001317987275322 1292045324915469652116386846211738800171108741616 (by decide!)
  have e37 := hiStepP 1357 65944537283732636412471543625133001317987275322 1292045324915469652116386846211738800171108741616 51337368875695757874601819284166978741813349124 1339814569720599683695140834398906308784467524340 (by decide!)
  have e38 := hiStepP 1356 51337368875695757874601819284166978741813349124 1339814569720599683695140834398906308784467524340 849765272017184610905340453600605147789277932516 721999699217200298647857220263973341034916516112 (by decide!)
  have e39 := hiStepP 1355 849765272017184610905340453600605147789277932516 721999699217200298647857220263973341034916516112 572334587083027285828856913016738106996722345210 149677792877542567288544568737035962751413073386 (by decide!)
  have e40 := hiStepP 1354 572334587083027285828856913016738106996722345210 149677792877542567288544568737035962751413073386 428348805588769225833144574633895894621170417106 463501119541297445816608905475212402215877380152 (by decide!)
  have e41 := hiStepP 1353 428348805588769225833144574633895894621170417106 463501119541297445816608905475212402215877380152 1368444858552075347194110735903253682195278378697 1087633430936924627755570170102313048000566935281 (by decide!)
  have e42 := hiStepP 1352 1368444858552075347194110735903253682195278378697 1087633430936924627755570170102313048000566935281 100864494952690070725701725626408088521063285328 1000004519480824455595372079873312771075524033697 (by decide!)
  have e43 := hiStepP 1351 100864494952690070725701725626408088521063285328 1000004519480824455595372079873312771075524033697 973608726657201280321914069021255640198362477843 32199567972390953515959296053249404593423305138 (by decide!)
  have e44 := hiStepP 1350 973608726657201280321914069021255640198362477843 32199567972390953515959296053249404593423305138 337016116381039005981385786981870324006799171772 357786503437757198919353176007116758343493527822 (by decide!)
  have e45 := hiStepP 1349 337016116381039005981385786981870324006799171772 357786503437757198919353176007116758343493527822 954150317189904779205749184976851105393065825911 876556561909401212874134415863365613939970883449 (by decide!)
  have e46 := hiStepP 1348 954150317189904779205749184976851105393065825911 876556561909401212874134415863365613939970883449 1412043644557796920826825386143735136560981037342 632897745422982839516466753340291527990439341671 (by decide!)
  have e47 := hiStepP 1347 1412043644557796920826825386143735136560981037342 632897745422982839516466753340291527990439341671 138750598785603704134954015551771301880933916415 676913252371841832742026632534446887930759508120 (by decide!)
  have e48 := hiStepP 1346 138750598785603704134954015551771301880933916415 676913252371841832742026632534446887930759508120 323733582276823259974412154776796029890951856437 446134795229520580409434682966428721885475451309 (by decide!)
  have e49 := hiStepP 1345 323733582276823259974412154776796029890951856437 446134795229520580409434682966428721885475451309 29349162467726006382902072712076102061673920763 428206328397011298901809383036900135211086678358 (by decide!)
  have e50 := hiStepP 1344 29349162467726006382902072712076102061673920763 428206328397011298901809383036900135211086678358 1089603178365538897691640362267870511764421797382 1403565740038480701213542927348866962244386189136 (by decide!)
  have e51 := hiStepP 1343 1089603178365538897691640362267870511764421797382 1403565740038480701213542927348866962244386189136 29399448132126477560177648011685685777924299812 1375783287132893627962901374670218323561799709556 (by decide!)
  have e52 := hiStepP 1342 29399448132126477560177648011685685777924299812 1375783287132893627962901374670218323561799709556 756315108715511828968579177125908146616885249766 665233162294063387669671211003647881450413127058 (by decide!)
  have e53 := hiStepP 1341 756315108715511828968579177125908146616885249766 665233162294063387669671211003647881450413127058 1306365786026050235900806070994122530067371388769 823998767037699948659204200476775635704948300531 (by decide!)
  have e54 := hiStepP 1340 1306365786026050235900806070994122530067371388769 823998767037699948659204200476775635704948300531 1108044186950132369687295908999674154072685349941 469632310146719221406218837982610158132471174854 (by decide!)
  have e55 := hiStepP 1339 1108044186950132369687295908999674154072685349941 469632310146719221406218837982610158132471174854 1149580318564564522725907961655172227853902845289 885606875972563332924587637018802441563501757359 (by decide!)
  have e56 := hiStepP 1338 1149580318564564522725907961655172227853902845289 885606875972563332924587637018802441563501757359 756049562274891550127019463735744534225800991475 179511508412880786199208108600310848865012617564 (by decide!)
  have e57 := hiStepP 1337 756049562274891550127019463735744534225800991475 179511508412880786199208108600310848865012617564 555662479273775166051815697250733028565207534895 720165576640133366647476644136693138183987780723 (by decide!)
  have e58 := hiStepP 1336 555662479273775166051815697250733028565207534895 720165576640133366647476644136693138183987780723 907778230101283529861990762579688073941168481641 1285403140100843218984349789326522547519365396762 (by decide!)
  have e59 := hiStepP 1335 907778230101283529861990762579688073941168481641 1285403140100843218984349789326522547519365396762 418038247991849276941805634369566802766029767868 959779807056026188284079346574430830052927929766 (by decide!)
  have e60 := hiStepP 1334 418038247991849276941805634369566802766029767868 959779807056026188284079346574430830052927929766 502128095018993349131292640361336711668715714604 1461015207308267023571979641109449320775704610186 (by decide!)
  have e61 := hiStepP 1333 502128095018993349131292640361336711668715714604 1461015207308267023571979641109449320775704610186 268842366067724355140842436761055705146914705630 1193123236480813412353479302736168749862634952020 (by decide!)
  have e62 := hiStepP 1332 268842366067724355140842436761055705146914705630 1193123236480813412353479302736168749862634952020 1076624669230197241001144675748946827128928274221 618912067451194506227732699158351395832025682553 (by decide!)
  have e63 := hiStepP 1331 1076624669230197241001144675748946827128928274221 618912067451194506227732699158351395832025682553 167352302427533615910702160908970739117171163794 646379797838779062280647191980320954314889220331 (by decide!)
  have e64 := hiStepP 1330 167352302427533615910702160908970739117171163794 646379797838779062280647191980320954314889220331 1357529987808126749989200236094232333531438928499 895978766185738229605495706169514232569433260696 (by decide!)
  have e65 := hiStepP 1329 1357529987808126749989200236094232333531438928499 895978766185738229605495706169514232569433260696 1328561933457305551777602802162204111313964192791 663844824982068733829569058200742046698702165647 (by decide!)
  have e66 := hiStepP 1328 1328561933457305551777602802162204111313964192791 663844824982068733829569058200742046698702165647 229501117294476890257868881310376367272639016681 527835925957290520116672720164489868092531800166 (by decide!)
  have e67 := hiStepP 1327 229501117294476890257868881310376367272639016681 527835925957290520116672720164489868092531800166 919241424113443953608324072129845535116458784353 1446890232520988275033199805615109582092125539847 (by decide!)
  have e68 := hiStepP 1326 919241424113443953608324072129845535116458784353 1446890232520988275033199805615109582092125539847 1195007934125725465513410427365757228410715533792 251971861397794663391685498176818447289629769703 (by decide!)
  have e69 := hiStepP 1325 1195007934125725465513410427365757228410715533792 251971861397794663391685498176818447289629769703 1029691245260633027569839614213094486101332127784 870581789137015350074669205375299352651701129167 (by decide!)
  have e70 := hiStepP 1324 1029691245260633027569839614213094486101332127784 870581789137015350074669205375299352651701129167 1450527012666325254245710115497098338194214109367 584767150671917412701639483103217719579264667512 (by decide!)
  have e71 := hiStepP 1323 1450527012666325254245710115497098338194214109367 584767150671917412701639483103217719579264667512 117246573237151442140313209597533006016986386178 655917274298941570569484450277213395841366179962 (by decide!)
  have e72 := hiStepP 1322 117246573237151442140313209597533006016986386178 655917274298941570569484450277213395841366179962 221516800428828869203946938404474762652765838533 480479410760424167759586253771290657396691279039 (by decide!)
  have e73 := hiStepP 1321 221516800428828869203946938404474762652765838533 480479410760424167759586253771290657396691279039 367072919495644200207568994422630199777071612085 116441888924222090476253676929028444587457371146 (by decide!)
  have e74 := hiStepP 1320 367072919495644200207568994422630199777071612085 116441888924222090476253676929028444587457371146 1382459234245382494904637286451762406313553200222 1314560884778961870436834462902919297220606384212 (by decide!)
  have e75 := hiStepP 1319 1382459234245382494904637286451762406313553200222 1314560884778961870436834462902919297220606384212 369856045677057587839396661355541410559874722270 950772218160468228481110237748541635586436444554 (by decide!)
  have e76 := hiStepP 1318 369856045677057587839396661355541410559874722270 950772218160468228481110237748541635586436444554 463876023684732295563854448087358155390940771380 1414646581069414945642432180454400896532177438142 (by decide!)
  have e77 := hiStepP 1317 463876023684732295563854448087358155390940771380 1414646581069414945642432180454400896532177438142 534861577334826484269855726335333844748019538362 973270693035839131828063363845678591908247952388 (by decide!)
  have e78 := hiStepP 1316 534861577334826484269855726335333844748019538362 973270693035839131828063363845678591908247952388 1245394918668121073934220389322192731559528017683 641537305156170472769979129257769215205959693079 (by decide!)
  have e79 := hiStepP 1315 1245394918668121073934220389322192731559528017683 641537305156170472769979129257769215205959693079 598236566581758471244625695746459759439838236088 140369071369327780798681602975175160507451227823 (by decide!)
  have e80 := hiStepP 1314 598236566581758471244625695746459759439838236088 140369071369327780798681602975175160507451227823 859734779262641447560251079069721411953173217754 810711069755302389270741811191106515727021703029 (by decide!)
  have e81 := hiStepP 1313 859734779262641447560251079069721411953173217754 810711069755302389270741811191106515727021703029 252044823154141779711648415376021382397782790807 925740000038548580425268715875554250768105139682 (by decide!)
  have e82 := hiStepP 1312 252044823154141779711648415376021382397782790807 925740000038548580425268715875554250768105139682 1249844056590082607318320918676454506276986773595 689615365218773942091131185871730084789582794169 (by decide!)
  have e83 := hiStepP 1311 1249844056590082607318320918676454506276986773595 689615365218773942091131185871730084789582794169 1047571593712800738504790283487089782028821033162 1185815645531977622233699868322764838303229869427 (by decide!)
  have e84 := hiStepP 1310 1047571593712800738504790283487089782028821033162 1185815645531977622233699868322764838303229869427 1460199885935787351411583244819431291348621338468 276539053314100747985379802246040678171661752855 (by decide!)
  have e85 := hiStepP 1309 1460199885935787351411583244819431291348621338468 276539053314100747985379802246040678171661752855 849167743697701692464510489936815292010990447742 940858598762474885059314136633928144006294173289 (by decide!)
  have e86 := hiStepP 1308 849167743697701692464510489936815292010990447742 940858598762474885059314136633928144006294173289 1291013271508624448428714297241906561699140777735 404948652627684795674574388954322141881811648878 (by decide!)
  have e87 := hiStepP 1307 1291013271508624448428714297241906561699140777735 404948652627684795674574388954322141881811648878 827655914707663202079541224765543715411912457133 1222255888931668092392124421142012537944371804867 (by decide!)
  have e88 := hiStepP 1306 827655914707663202079541224765543715411912457133 1222255888931668092392124421142012537944371804867 306253911732424805625096853950126404763871290897 1299938227242514859109801166868822233620627954898 (by decide!)
  have e89 := hiStepP 1305 306253911732424805625096853950126404763871290897 1299938227242514859109801166868822233620627954898 365690154611591268802313564506096721882895436558 934783307625990160258285179079699657701862463452 (by decide!)
  have e90 := hiStepP 1304 365690154611591268802313564506096721882895436558 934783307625990160258285179079699657701862463452 620214493733541464773061939359977550448118766532 1182435960456908987881390654205681700889907973144 (by decide!)
  have e91 := hiStepP 1303 620214493733541464773061939359977550448118766532 1182435960456908987881390654205681700889907973144 399084862995338923808892842666321599095083481630 793412313696933504986148173377792484564429305350 (by decide!)
  have e92 := hiStepP 1302 399084862995338923808892842666321599095083481630 793412313696933504986148173377792484564429305350 699436339425021880580477869299613032861458166737 1372880721751119703322860331163987723647112119767 (by decide!)
  have e93 := hiStepP 1301 699436339425021880580477869299613032861458166737 1372880721751119703322860331163987723647112119767 1364822114977740928206610956392557046253795352313 179356902770446238641007485952555279560495864622 (by decide!)
  have e94 := hiStepP 1300 1364822114977740928206610956392557046253795352313 179356902770446238641007485952555279560495864622 721892840241729654375775481745245096812631752037 554317003680180510935500939934519933716027336267 (by decide!)
  have e95 := hiStepP 1299 721892840241729654375775481745245096812631752037 554317003680180510935500939934519933716027336267 1107105771721121464354829885893675649544439228264 918884945071085215742029162388216473517281935651 (by decide!)
  have e96 := hiStepP 1298 1107105771721121464354829885893675649544439228264 918884945071085215742029162388216473517281935651 1085608839296284489351109796654905361075123356073 176183865512678792905152962496395670534006177930 (by decide!)
  have e97 := hiStepP 1297 1085608839296284489351109796654905361075123356073 176183865512678792905152962496395670534006177930 1380275289793373173375626167636484664608009653961 1365027640689696136771875323718908970235083722307 (by decide!)
  have e98 := hiStepP 1296 1380275289793373173375626167636484664608009653961 1365027640689696136771875323718908970235083722307 262904630065684194634756898792032446501750744663 1102303006385237724790247867677701844134372255764 (by decide!)
  have e99 := hiStepP 1295 262904630065684194634756898792032446501750744663 1102303006385237724790247867677701844134372255764 1086792184264671067231652336630375582536139330027 726681944854286436026291041271356486886321551871 (by decide!)
  have t0 := e0
  have t1 := t0.trans e1
  have t2 := t1.trans e2
  have t3 := t2.trans e3
  have t4 := t3.trans e4
  have t5 := t4.trans e5
  have t6 := t5.trans e6
  have t7 := t6.trans e7
  have t8 := t7.trans e8
  have t9 := t8.trans e9
  have t10 := t9.trans e10
  have t11 := t10.trans e11
  have t12 := t11.trans e12
  have t13 := t12.trans e13
  have t14 := t13.trans e14
  have t15 := t14.trans e15
  have t16 := t15.trans e16
  have t17 := t16.trans e17
  have t18 := t17.trans e18
  have t19 := t18.trans e19
  have t20 := t19.trans e20
  have t21 := t20.trans e21
  have t22 := t21.trans e22
  have t23 := t22.trans e23
  have t24 := t23.trans e24
  have t25 := t24.trans e25
  have t26 := t25.trans e26
  have t27 := t26.trans e27
  have t28 := t27.trans e28
  have t29 := t28.trans e29
  have t30 := t29.trans e30
  have t31 := t30.trans e31
  have t32 := t31.trans e32
  have t33 := t32.trans e33
  have t34 := t33.trans e34
  have t35 := t34.trans e35
  have t36 := t35.trans e36
  have t37 := t36.trans e37
  have t38 := t37.trans e38
  have t39 := t38.trans e39
  have t40 := t39.trans e40
  have t41 := t40.trans e41
  have t42 := t41.trans e42
  have t43 := t42.trans e43
  have t44 := t43.trans e44
  have t45 := t44.trans e45
  have t46 := t45.trans e46
  have t47 := t46.trans e47
  have t48 := t47.trans e48
  have t49 := t48.trans e49
  have t50 := t49.trans e50
  have t51 := t50.trans e51
  have t52 := t51.trans e52
  have t53 := t52.trans e53
  have t54 := t53.trans e54
  have t55 := t54.trans e55
  have t56 := t55.trans e56
  have t57 := t56.trans e57
  have t58 := t57.trans e58
  have t59 := t58.trans e59
  have t60 := t59.trans e60
  have t61 := t60.trans e61
  have t62 := t61.trans e62
  have t63 := t62.trans e63
  have t64 := t63.trans e64
  have t65 := t64.trans e65
  have t66 := t65.trans e66
  have t67 := t66.trans e67
  have t68 := t67.trans e68
  have t69 := t68.trans e69
  have t70 := t69.trans e70
  have t71 := t70.trans e71
  have t72 := t71.trans e72
  have t73 := t72.trans e73
  have t74 := t73.trans e74
  have t75 := t74.trans e75
  have t76 := t75.trans e76
  have t77 := t76.trans e77
  have t78 := t77.trans e78
  have t79 := t78.trans e79
  have t80 := t79.trans e80
  have t81 := t80.trans e81
  have t82 := t81.trans e82
  have t83 := t82.trans e83
  have t84 := t83.trans e84
  have t85 := t84.trans e85
  have t86 := t85.trans e86
  have t87 := t86.trans e87
  have t88 := t87.trans e88
  have t89 := t88.trans e89
  have t90 := t89.trans e90
  have t91 := t90.trans e91
  have t92 := t91.trans e92
  have t93 := t92.trans e93
  have t94 := t93.trans e94
  have t95 := t94.trans e95
  have t96 := t95.trans e96
  have t97 := t96.trans e97
  have t98 := t97.trans e98
  have t99 := t98.trans e99
  exact t99

theorem hiChainSeg28 : hiLoop SHA_1 (strBytes "pencil") 1295
    (unpackBytes 20 1086792184264671067231652336630375582536139330027)
    (unpackBytes 20 726681944854286436026291041271356486886321551871) =
    hiLoop SHA_1 (strBytes "pencil") 1195
      (unpackBytes 20 890796502919127562713660718134199045915131624082)
      (unpackBytes 20 1217287878582250031956106211142918505002820836498) := by
  have e0 := hiStepP 1294 1086792184264671067231652336630375582536139330027 726681944854286436026291041271356486886321551871 1320492728653392498628145984204100004324343241710 867888773370418679434113076377044728914788262417 (by decide!)
  have e1 := hiStepP 1293 1320492728653392498628145984204100004324343241710 867888773370418679434113076377044728914788262417 400911593649869718105827752272790653492431588490 1268734507727995416785780530917538207738479652507 (by decide!)
  have e2 := hiStepP 1292 400911593649869718105827752272790653492431588490 1268734507727995416785780530917538207738479652507 390547418515150698406151126378334874834144259148 881075056245318851774716822268645496825049826007 (by decide!)
  have e3 := hiStepP 1291 390547418515150698406151126378334874834144259148 881075056245318851774716822268645496825049826007 1021709158076325879555896821318826873941325344418 232011416284006479283962245950800509982079822965 (by decide!)
  have e4 := hiStepP 1290 1021709158076325879555896821318826873941325344418 232011416284006479283962245950800509982079822965 1094032838929306634830986485626791467473501028850 862099540958751086332778507158235893537260154247 (by decide!)
  have e5 := hiStepP 1289 1094032838929306634830986485626791467473501028850 862099540958751086332778507158235893537260154247 1255798410398664102490488564104266407228504695126 439370991617165377359042804421786991287831219409 (by decide!)
  have e6 := hiStepP 1288 1255798410398664102490488564104266407228504695126 439370991617165377359042804421786991287831219409 1454267649962314352317553904768174056442572325335 1017929908242314957552066352303983882132268354822 (by decide!)
  have e7 := hiStepP 1287 1454267649962314352317553904768174056442572325335 1017929908242314957552066352303983882132268354822 422345229098351577049212639123928058652702866816 1437039391633050494198284122038886886847051559046 (by decide!)
  have e8 := hiStepP 1286 422345229098351577049212639123928058652702866816 1437039391633050494198284122038886886847051559046 801644672744983464762847313793680138222224179558 684319161961671445852621831792331069421372830176 (by decide!)
  have e9 := hiStepP 1285 801644672744983464762847313793680138222224179558 684319161961671445852621831792331069421372830176 275391628647962645492695301576212951363572643254 410357614368042104006321612909827855682443232342 (by decide!)
  have e10 := hiStepP 1284 275391628647962645492695301576212951363572643254 410357614368042104006321612909827855682443232342 1436716017499329922341261881309823850485327897850 1074929492869365863991434286324575696744434753708 (by decide!)
  have e11 := hiStepP 1283 1436716017499329922341261881309823850485327897850 1074929492869365863991434286324575696744434753708 1075253605433311481002560429144662262522674413881 391254358332728792256642687141183416776647061 (by decide!)
  have e12 := hiStepP 1282 1075253605433311481002560429144662262522674413881 391254358332728792256642687141183416776647061 1080472720221318005733994876677236214470311445014 1080863625386051049361322509092071453346084250499 (by decide!)
  have e13 := hiStepP 1281 1080472720221318005733994876677236214470311445014 1080863625386051049361322509092071453346084250499 754825547105048119056834913746286687289902183377 327644442492741858693563453787887524721336012882 (by decide!)
  have e14 := hiStepP 1280 754825547105048119056834913746286687289902183377 327644442492741858693563453787887524721336012882 156223923907314716728457150964310169503714129036 195383017772200002566350994863568132399005066462 (by decide!)
  have e15 := hiStepP 1279 156223923907314716728457150964310169503714129036 195383017772200002566350994863568132399005066462 154494073813498116703644595296581312470355541005 326628556549263287297895323269478538647491418323 (by decide!)
  have e16 := hiStepP 1278 154494073813498116703644595296581312470355541005 326628556549263287297895323269478538647491418323 850626418418136808865107587625817397749734023231 992158723459128501635359586012652323757762033900 (by decide!)
  have e17 := hiStepP 1277 850626418418136808865107587625817397749734023231 992158723459128501635359586012652323757762033900 452636741943457884987852152667119318658917786827 1293108834388752603299625819736254488697790979111 (by decide!)
  have e18 := hiStepP 1276 452636741943457884987852152667119318658917786827 1293108834388752603299625819736254488697790979111 691753857477389089517164695036492375796293645815 888691816061113707916907853898850857192241490384 (by decide!)
  have e19 := hiStepP 1275 691753857477389089517164695036492375796293645815 888691816061113707916907853898850857192241490384 1303977855458200519400718260021450545523908743703 729372533938933975086028484658559254892542098375 (by decide!)
  have e20 := hiStepP 1274 1303977855458200519400718260021450545523908743703 729372533938933975086028484658559254892542098375 630210850273830551894816197328131799781081785000 100656140374003275998996346413024430878992652655 (by decide!)
  have e21 := hiStepP 1273 630210850273830551894816197328131799781081785000 100656140374003275998996346413024430878992652655 307514759325385615683065739647397389809842535382 208308788071058584355910412841875705641222169273 (by decide!)
  have e22 := hiStepP 1272 307514759325385615683065739647397389809842535382 208308788071058584355910412841875705641222169273 1444569954022729214083858476161169715776526172595 1241440874048173669651348304026374398904176026378 (by decide!)
  have e23 := hiStepP 1271 1444569954022729214083858476161169715776526172595 1241440874048173669651348304026374398904176026378 985673941507503654401836797072180938674057141635 672658051591276725180794885648543255365619515017 (by decide!)
  have e24 := hiStepP 1270 985673941507503654401836797072180938674057141635 672658051591276725180794885648543255365619515017 1425472711355356387682849568005136816200388372472 801476198681726226799294710309014354903826274673 (by decide!)
  have e25 := hiStepP 1269 1425472711355356387682849568005136816200388372472 801476198681726226799294710309014354903826274673 148553008981946728856973716423301125445964404262 858628116348449981602690215871782908886292074327 (by decide!)
  have e26 := hiStepP 1268 148553008981946728856973716423301125445964404262 858628116348449981602690215871782908886292074327 838332137886992452348447702838853767921399136218 27076902541975062009935804925252355833057898637 (by decide!)
  have e27 := hiStepP 1267 838332137886992452348447702838853767921399136218 27076902541975062009935804925252355833057898637 1186298141232458808817078889820341808319112452448 1161542095400435424879040890298114512183956433389 (by decide!)
  have e28 := hiStepP 1266 1186298141232458808817078889820341808319112452448 1161542095400435424879040890298114512183956433389 817051912125018983275685097170820784873710739511 390542378730230440960570969011552652534521235930 (by decide!)
  have e29 := hiStepP 1265 817051912125018983275685097170820784873710739511 390542378730230440960570969011552652534521235930 829671737964493421140295732620550696823580246893 1217336600186166100707924091863776345871261125303 (by decide!)
  have e30 := hiStepP 1264 829671737964493421140295732620550696823580246893 1217336600186166100707924091863776345871261125303 763665234968404781823073304014264466638164363802 462264845234411590703197020593960435349375860909 (by decide!)
  have e31 := hiStepP 1263 763665234968404781823073304014264466638164363802 462264845234411590703197020593960435349375860909 14969838406977962803272872504052121827663268552 470454559436446822013859465871628694974057613925 (by decide!)
  have e32 := hiStepP 1262 14969838406977962803272872504052121827663268552 470454559436446822013859465871628694974057613925 294837906555274275837617985625755517686987379631 558122520147319452265839358894911961166389402058 (by decide!)
  have e33 := hiStepP 1261 294837906555274275837617985625755517686987379631 558122520147319452265839358894911961166389402058 980450790848939757112051206218101430400341153719 1156070221219768959730197501205304086046620110461 (by decide!)
  have e34 := hiStepP 1260 980450790848939757112051206218101430400341153719 1156070221219768959730197501205304086046620110461 552385750122428185914095938855912616220339276555 974769592943509207983040466676287999787706664310 (by decide!)
  have e35 := hiStepP 1259 552385750122428185914095938855912616220339276555 974769592943509207983040466676287999787706664310 692410151769363239168278101326999561568010066 974121844194689985042624431066310892981788932644 (by decide!)
  have e36 := hiStepP 1258 692410151769363239168278101326999561568010066 974121844194689985042624431066310892981788932644 922183351234145665492149090727773129437770938863 63713571811286725073716088466920587232487080907 (by decide!)
  have e37 := hiStepP 1257 922183351234145665492149090727773129437770938863 63713571811286725073716088466920587232487080907 484113823806332196376785538309203476496081231956 547470209341282585743709521534105660131734397855 (by decide!)
  have e38 := hiStepP 1256 484113823806332196376785538309203476496081231956 547470209341282585743709521534105660131734397855 453879705283076434034930172667617171887752546623 93613188641925040024474687401241966274627381920 (by decide!)
  have e39 := hiStepP 1255 453879705283076434034930172667617171887752546623 93613188641925040024474687401241966274627381920 71816271115716341652380772703635699747120626676 165239541355029662721675807870365657815522218324 (by decide!)
  have e40 := hiStepP 1254 71816271115716341652380772703635699747120626676 165239541355029662721675807870365657815522218324 314677873012027298574127958654785573032336492760 250821728186869497768856991345104057606890527116 (by decide!)
  have e41 := hiStepP 1253 314677873012027298574127958654785573032336492760 250821728186869497768856991345104057606890527116 1061994627645573598384070008644333851690420062577 833027636808936445019993398059459560892697530621 (by decide!)
  have e42 := hiStepP 1252 1061994627645573598384070008644333851690420062577 833027636808936445019993398059459560892697530621 960024756519116631891603824822246795158736596665 329755538628690764829853404603120626651219508804 (by decide!)
  have e43 := hiStepP 1251 960024756519116631891603824822246795158736596665 329755538628690764829853404603120626651219508804 568476700957425714244120898647074217322720162429 515635003532909407802449521785031545821141158969 (by decide!)
  have e44 := hiStepP 1250 568476700957425714244120898647074217322720162429 515635003532909407802449521785031545821141158969 1408393880820029313535127764904914430044877192298 987015593150963262955577208179995183683176837203 (by decide!)
  have e45 := hiStepP 1249 1408393880820029313535127764904914430044877192298 987015593150963262955577208179995183683176837203 938793988407367571094236641075510902228450001551 48965913982048423783308456469940238029054735068 (by decide!)
  have e46 := hiStepP 1248 938793988407367571094236641075510902228450001551 48965913982048423783308456469940238029054735068 861714980161448668789605378832956606565319683150 904230403480024314444516352837376071479114686098 (by decide!)
  have e47 := hiStepP 1247 861714980161448668789605378832956606565319683150 904230403480024314444516352837376071479114686098 328323541202458851085472339345058165512056595052 958432943909159165088110510557620556777367977214 (by decide!)
  have e48 := hiStepP 1246 328323541202458851085472339345058165512056595052 958432943909159165088110510557620556777367977214 88410294284875785706616424040662616578830542726 962632135738839029759150139769333444334614485880 (by decide!)
  have e49 := hiStepP 1245 88410294284875785706616424040662616578830542726 962632135738839029759150139769333444334614485880 194693851252155218473243356925487984628414529968 790867111999675215574322085955247975910494165704 (by decide!)
  have e50 := hiStepP 1244 194693851252155218473243356925487984628414529968 790867111999675215574322085955247975910494165704 1247872969338761200241587924304590701008030533080 457148038211679137696614911857400944034568462096 (by decide!)
  have e51 := hiStepP 1243 1247872969338761200241587924304590701008030533080 457148038211679137696614911857400944034568462096 1131441986174379798506783974867650236247109299383 857701216455081092522493426858751474865599132583 (by decide!)
  have e52 := hiStepP 1242 1131441986174379798506783974867650236247109299383 857701216455081092522493426858751474865599132583 535616173053275915184206223462610404434237689614 1164221137129696564679819263344246250254749678761 (by decide!)
  have e53 := hiStepP 1241 535616173053275915184206223462610404434237689614 1164221137129696564679819263344246250254749678761 1255220843241916564455378239926075545741236538881 92491612905057268745707837877695366464723137192 (by decide!)
  have e54 := hiStepP 1240 1255220843241916564455378239926075545741236538881 92491612905057268745707837877695366464723137192 1045369641047569809874389455141847489527877686280 954305450744511562430981733983234612504241497760 (by decide!)
  have e55 := hiStepP 1239 1045369641047569809874389455141847489527877686280 954305450744511562430981733983234612504241497760 906595518985770163738443495761561960871815059856 330534630192010634688947882141392139195415363376 (by decide!)
  have e56 := hiStepP 1238 906595518985770163738443495761561960871815059856 330534630192010634688947882141392139195415363376 1419819855297359791592373340974144580966618577707 1103781297683797917650276526683275957038961411099 (by decide!)
  have e57 := hiStepP 1237 1419819855297359791592373340974144580966618577707 1103781297683797917650276526683275957038961411099 964956880102777778000405072258173861382328022993 595550664612537724956778212881264487929645216714 (by decide!)
  have e58 := hiStepP 1236 964956880102777778000405072258173861382328022993 595550664612537724956778212881264487929645216714 1021664025163475482574888586140606454178237276978 1248252638952421223287719221794079974389840335096 (by decide!)
  have e59 := hiStepP 1235 1021664025163475482574888586140606454178237276978 1248252638952421223287719221794079974389840335096 400210708323555106332207570404686264500619828280 894873507983699099258182209351375893319292816576 (by decide!)
  have e60 := hiStepP 1234 400210708323555106332207570404686264500619828280 894873507983699099258182209351375893319292816576 839078497462501651032332861647665040080701558894 81488390080331106823591917295433979980905258158 (by decide!)
  have e61 := hiStepP 1233 839078497462501651032332861647665040080701558894 81488390080331106823591917295433979980905258158 1321587701420158141135400275027554537074912336067 1331445967025669695931062192694068503278658913389 (by decide!)
  have e62 := hiStepP 1232 1321587701420158141135400275027554537074912336067 1331445967025669695931062192694068503278658913389 718458007712211633580828920842566469578731373386 849945464056095035185415822218212425752515921703 (by decide!)
  have e63 := hiStepP 1231 718458007712211633580828920842566469578731373386 849945464056095035185415822218212425752515921703 780007079531592549256667435091201469040753960986 161287812193023499244409482223098687110423490365 (by decide!)
  have e64 := hiStepP 1230 780007079531592549256667435091201469040753960986 161287812193023499244409482223098687110423490365 1124533477106659287449033685326117173443682835100 1237283537639194036848243921310039620674470065569 (by decide!)
  have e65 := hiStepP 1229 1124533477106659287449033685326117173443682835100 1237283537639194036848243921310039620674470065569 620490436226474908577395884446046461896249924720 1028119283533392696352415996268979469240087996881 (by decide!)
  have e66 := hiStepP 1228 620490436226474908577395884446046461896249924720 1028119283533392696352415996268979469240087996881 717143747958967556264407864625504094033506828296 1150620967231266150325827964768140058659500091865 (by decide!)
  have e67 := hiStepP 1227 717143747958967556264407864625504094033506828296 1150620967231266150325827964768140058659500091865 579141312852483271103428914260428905771809647915 987526549561015821253778905187780459683213231346 (by decide!)
  have e68 := hiStepP 1226 579141312852483271103428914260428905771809647915 987526549561015821253778905187780459683213231346 465753161528405788351855785087014515526396079245 1446852901045373482874148089242816305553826949247 (by decide!)
  have e69 := hiStepP 1225 465753161528405788351855785087014515526396079245 1446852901045373482874148089242816305553826949247 378597982219900533035512623618967188626781303914 1091839906180678825296256728079883550417159740437 (by decide!)
  have e70 := hiStepP 1224 378597982219900533035512623618967188626781303914 1091839906180678825296256728079883550417159740437 583880744373038524311154735288022795521854395219 1241567967921639001406080443467394837909210763078 (by decide!)
  have e71 := hiStepP 1223 583880744373038524311154735288022795521854395219 1241567967921639001406080443467394837909210763078 6476716522501058818089983124244752710731238182 1235187426142244909604012832131864456292163290208 (by decide!)
  have e72 := hiStepP 1222 6476716522501058818089983124244752710731238182 1235187426142244909604012832131864456292163290208 510116536440024190786095840778807147328439021405 736500481019221428209845016822528943546081340221 (by decide!)
  have e73 := hiStepP 1221 510116536440024190786095840778807147328439021405 736500481019221428209845016822528943546081340221 572510966319540385247211225987991548582245260486 1308999861377774471316233634176532876007778072571 (by decide!)
  have e74 := hiStepP 1220 572510966319540385247211225987991548582245260486 1308999861377774471316233634176532876007778072571 336710317925769000978836602797958496961946006178 1277097609921807351245137276690265788087656875353 (by decide!)
  have e75 := hiStepP 1219 336710317925769000978836602797958496961946006178 1277097609921807351245137276690265788087656875353 562382473274490832539328194991754067558545204264 1080093710649380459022922398854594829836794863985 (by decide!)
  have e76 := hiStepP 1218 562382473274490832539328194991754067558545204264 1080093710649380459022922398854594829836794863985 1455581538239134142575686227982667178648819620188 386953744071066765180502930776190132497805768749 (by decide!)
  have e77 := hiStepP 1217 1455581538239134142575686227982667178648819620188 386953744071066765180502930776190132497805768749 692199199842707430721267583974976807257432788025 336670363795559828251986865567899960548217746452 (by decide!)
  have e78 := hiStepP 1216 692199199842707430721267583974976807257432788025 336670363795559828251986865567899960548217746452 1021408925884917981452906296599873227364969731848 776809987345007327657960077040513715369095570204 (by decide!)
  have e79 := hiStepP 1215 1021408925884917981452906296599873227364969731848 776809987345007327657960077040513715369095570204 1353132633490569233255726194485582542269208392532 577094288824777234002491840243241760053385842760 (by decide!)
  have e80 := hiStepP 1214 1353132633490569233255726194485582542269208392532 577094288824777234002491840243241760053385842760 728391568016462923948005862402699882789671881683 151376819520704671340769629844636463246520884123 (by decide!)
  have e81 := hiStepP 1213 728391568016462923948005862402699882789671881683 151376819520704671340769629844636463246520884123 320843234109850367762454274812072772263722231013 198050400199214193522371747392811666377706454910 (by decide!)
  have e82 := hiStepP 1212 320843234109850367762454274812072772263722231013 198050400199214193522371747392811666377706454910 28872209845859432399609430988549454872102405113 226894722872294136224136257175973837887800589447 (by decide!)
  have e83 := hiStepP 1211 28872209845859432399609430988549454872102405113 226894722872294136224136257175973837887800589447 183727005289972902658878882092970562205488203993 43192816821668618744588330877891639044122408030 (by decide!)
  have e84 := hiStepP 1210 183727005289972902658878882092970562205488203993 43192816821668618744588330877891639044122408030 1180703341148707042468123946272047761091888929808 1148940369570909240716932619533519200041818073166 (by decide!)
  have e85 := hiStepP 1209 1180703341148707042468123946272047761091888929808 1148940369570909240716932619533519200041818073166 245564257654632397421277487888554021862013596880 1291731634791116185593588784322229294011684609182 (by decide!)
  have e86 := hiStepP 1208 245564257654632397421277487888554021862013596880 1291731634791116185593588784322229294011684609182 612577257512109384826334781614369065427060527481 782484888361787448276909970520352027523195325927 (by decide!)
  have e87 := hiStepP 1207 612577257512109384826334781614369065427060527481 782484888361787448276909970520352027523195325927 29021088148625477535788073935157513858221786183 799850744193413934506765885645680129258977560992 (by decide!)
  have e88 := hiStepP 1206 29021088148625477535788073935157513858221786183 799850744193413934506765885645680129258977560992 121866807600136184121937115453050809665247345373 874952874139204696282229490600141027624488301437 (by decide!)
  have e89 := hiStepP 1205 121866807600136184121937115453050809665247345373 874952874139204696282229490600141027624488301437 471324742865161092776851807523310841013669484598 1163492672180090709267391642006196180739106810699 (by decide!)
  have e90 := hiStepP 1204 471324742865161092776851807523310841013669484598 1163492672180090709267391642006196180739106810699 1412210232001779772075766737374791066357576110200 345781651483718954691986967702259158072004590387 (by decide!)
  have e91 := hiStepP 1203 1412210232001779772075766737374791066357576110200 345781651483718954691986967702259158072004590387 374224952485135475354966764481842524056447732698 714286026697750129449391841466094831074077569257 (by decide!)
  have e92 := hiStepP 1202 374224952485135475354966764481842524056447732698 714286026697750129449391841466094831074077569257 622185922366331767792718893914032587423076262071 102192590947708521595690282767337019532492722270 (by decide!)
  have e93 := hiStepP 1201 622185922366331767792718893914032587423076262071 102192590947708521595690282767337019532492722270 122928832672047077890880034486779148272838549361 25292585192003972416145081113729246298716655407 (by decide!)
  have e94 := hiStepP 1200 122928832672047077890880034486779148272838549361 25292585192003972416145081113729246298716655407 392815473162938010462198554203754698873285141252 368951618965283225258554340111453698888763059243 (by decide!)
  have e95 := hiStepP 1199 392815473162938010462198554203754698873285141252 368951618965283225258554340111453698888763059243 254532407573530163435640344004752685279613206409 617774928238566201257879150567265340932965307298 (by decide!)
  have e96 := hiStepP 1198 254532407573530163435640344004752685279613206409 617774928238566201257879150567265340932965307298 1049416245518132277300577044789858426432780529649 1255366077620311389806117866335228836273811946579 (by decide!)
  have e97 := hiStepP 1197 1049416245518132277300577044789858426432780529649 1255366077620311389806117866335228836273811946579 1070895750430901232692004202073956604699593735968 550564935726310836225281413422488540241647895411 (by decide!)
  have e98 := hiStepP 1196 1070895750430901232692004202073956604699593735968 550564935726310836225281413422488540241647895411 235530568042177792551733655114208200035674858867 417863159734785994133695658040199893008899352064 (by decide!)
  have e99 := hiStepP 1195 235530568042177792551733655114208200035674858867 417863159734785994133695658040199893008899352064 890796502919127562713660718134199045915131624082 1217287878582250031956106211142918505002820836498 (by decide!)
  have t0 := e0
  have t1 := t0.trans e1
  have t2 := t1.trans e2
  have t3 := t2.trans e3
  have t4 := t3.trans e4
  have t5 := t4.trans e5
  have t6 := t5.trans e6
  have t7 := t6.trans e7
  have t8 := t7.trans e8
  have t9 := t8.trans e9
  have t10 := t9.trans e10
  have t11 := t10.trans e11
  have t12 := t11.trans e12
  have t13 := t12.trans e13
  have t14 := t13.trans e14
  have t15 := t14.trans e15
  have t16 := t15.trans e16
  have t17 := t16.trans e17
  have t18 := t17.trans e18
  have t19 := t18.trans e19
  have t20 := t19.trans e20
  have t21 := t20.trans e21
  have t22 := t21.trans e22
  have t23 := t22.trans e23
  have t24 := t23.trans e24
  have t25 := t24.trans e25
  have t26 := t25.trans e26
  have t27 := t26.trans e27
  have t28 := t27.trans e28
  have t29 := t28.trans e29
  have t30 := t29.trans e30
  have t31 := t30.trans e31
  have t32 := t31.trans e32
  have t33 := t32.trans e33
  have t34 := t33.trans e34
  have t35 := t34.trans e35
  have t36 := t35.trans e36
  have t37 := t36.trans e37
  have t38 := t37.trans e38
  have t39 := t38.trans e39
  have t40 := t39.trans e40
  have t41 := t40.trans e41
  have t42 := t41.trans e42
  have t43 := t42.trans e43
  have t44 := t43.trans e44
  have t45 := t44.trans e45
  have t46 := t45.trans e46
  have t47 := t46.trans e47
  have t48 := t47.trans e48
  have t49 := t48.trans e49
  have t50 := t49.trans e50
  have t51 := t50.trans e51
  have t52 := t51.trans e52
  have t53 := t52.trans e53
  have t54 := t53.trans e54
  have t55 := t54.trans e55
  have t56 := t55.trans e56
  have t57 := t56.trans e57
  have t58 := t57.trans e58
  have t59 := t58.trans e59
  have t60 := t59.trans e60
  have t61 := t60.trans e61
  have t62 := t61.trans e62
  have t63 := t62.trans e63
  have t64 := t63.trans e64
  have t65 := t64.trans e65
  have t66 := t65.trans e66
  have t67 := t66.trans e67
  have t68 := t67.trans e68
  have t69 := t68.trans e69
  have t70 := t69.trans e70
  have t71 := t70.trans e71
  have t72 := t71.trans e72
  have t73 := t72.trans e73
  have t74 := t73.trans e74
  have t75 := t74.trans e75
  have t76 := t75.trans e76
  have t77 := t76.trans e77
  have t78 := t77.trans e78
  have t79 := t78.trans e79
  have t80 := t79.trans e80
  have t81 := t80.trans e81
  have t82 := t81.trans e82
  have t83 := t82.trans e83
  have t84 := t83.trans e84
  have t85 := t84.trans e85
  have t86 := t85.trans e86
  have t87 := t86.trans e87
  have t88 := t87.trans e88
  have t89 := t88.trans e89
  have t90 := t89.trans e90
  have t91 := t90.trans e91
  have t92 := t91.trans e92
  have t93 := t92.trans e93
  have t94 := t93.trans e94
  have t95 := t94.trans e95
  have t96 := t95.trans e96
  have t97 := t96.trans e97
  have t98 := t97.trans e98
  have t99 := t98.trans e99
  exact t99

theorem hiChainSeg29 : hiLoop SHA_1 (strBytes "pencil") 1195
    (unpackBytes 20 890796502919127562713660718134199045915131624082)
    (unpackBytes 20 1217287878582250031956106211142918505002820836498) =
    hiLoop SHA_1 (strBytes "pencil") 1095
      (unpackBytes 20 113117882954160152965352577837374702935191260844)
      (unpackBytes 20 346116745235918208973803341881344208084717503243) := by
  have e0 := hiStepP 1194 890796502919127562713660718134199045915131624082 1217287878582250031956106211142918505002820836498 205708684564157430076617370778197210092651475091 1376967214556460042076661023880713140497643924481 (by decide!)
  have e1 := hiStepP 1193 205708684564157430076617370778197210092651475091 1376967214556460042076661023880713140497643924481 395512109057901679639449272679979409154319749253 1030254722069735507658524932262153053176839306372 (by decide!)
  have e2 := hiStepP 1192 395512109057901679639449272679979409154319749253 1030254722069735507658524932262153053176839306372 758381328065952753440247135632580718542433885484 277616969049307442902879317597360284840521982376 (by decide!)
  have e3 := hiStepP 1191 758381328065952753440247135632580718542433885484 277616969049307442902879317597360284840521982376 803306891420372589246424634282515409962504437297 1073764187434123589075857217666309620733257932697 (by decide!)
  have e4 := hiStepP 1190 803306891420372589246424634282515409962504437297 1073764187434123589075857217666309620733257932697 492861983693385198043658934227178145466468188656 1337374493450894351745126491487404523152045088361 (by decide!)
  have e5 := hiStepP 1189 492861983693385198043658934227178145466468188656 1337374493450894351745126491487404523152045088361 1317877318243095827834000680751877654672887946898 71861007314561273078332151110484342213108236539 (by decide!)
  have e6 := hiStepP 1188 1317877318243095827834000680751877654672887946898 71861007314561273078332151110484342213108236539 893146114102422876170436957900972505000430990296 827186686511346083807720488632869826665879565091 (by decide!)
  have e7 := hiStepP 1187 893146114102422876170436957900972505000430990296 827186686511346083807720488632869826665879565091 687563568575368565861004079557113942677474978923 1327591223338579230446175564518323562671015911240 (by decide!)
  have e8 := hiStepP 1186 687563568575368565861004079557113942677474978923 1327591223338579230446175564518323562671015911240 1435634333063477213317514779416549028954401424723 113893934330466173246717962629463661970252274203 (by decide!)
  have e9 := hiStepP 1185 1435634333063477213317514779416549028954401424723 113893934330466173246717962629463661970252274203 30033328429024937166598843333707262046907551661 129557882426461812502611708977826923162026956214 (by decide!)
  have e10 := hiStepP 1184 30033328429024937166598843333707262046907551661 129557882426461812502611708977826923162026956214 268643712003398110857772009896503502638611330652 329693269543899688521494095483568691404427928554 (by decide!)
  have e11 := hiStepP 1183 268643712003398110857772009896503502638611330652 329693269543899688521494095483568691404427928554 639204666270010308604516334141283275056540632288 492603309293659575176899191701031456079291344650 (by decide!)
  have e12 := hiStepP 1182 639204666270010308604516334141283275056540632288 492603309293659575176899191701031456079291344650 1148188144126409835222364668801297367304188558902 909682401809348709347769159760429860365203839292 (by decide!)
  have e13 := hiStepP 1181 1148188144126409835222364668801297367304188558902 909682401809348709347769159760429860365203839292 1449628252961247415744543665650110365334204507031 563674152083753137556250802837651791607392926379 (by decide!)
  have e14 := hiStepP 1180 1449628252961247415744543665650110365334204507031 563674152083753137556250802837651791607392926379 1132754557867927549178240567955877240640373232598 941057775300413176480549691080559127672961624445 (by decide!)
  have e15 := hiStepP 1179 1132754557867927549178240567955877240640373232598 941057775300413176480549691080559127672961624445 974005383438474543534009480446994937319632001698 81655921611408780659531135584959028715642041311 (by decide!)
  have e16 := hiStepP 1178 974005383438474543534009480446994937319632001698 81655921611408780659531135584959028715642041311 203301981135250395546393981530564129842313508710 261586721606933787990105630189847362098516788409 (by decide!)
  have e17 := hiStepP 1177 203301981135250395546393981530564129842313508710 261586721606933787990105630189847362098516788409 366319309377164724058118202416446770948501859136 627892049004204337189513745304782516249300561913 (by decide!)
  have e18 := hiStepP 1176 366319309377164724058118202416446770948501859136 627892049004204337189513745304782516249300561913 633505281481728872290037046159349352205679735886 17416599455371588733442940070756172361919224759 (by decide!)
  have e19 := hiStepP 1175 633505281481728872290037046159349352205679735886 17416599455371588733442940070756172361919224759 634973438405099586755827030127591003450931843896 617770831311614013008511453621356516563978504335 (by decide!)
  have e20 := hiStepP 1174 634973438405099586755827030127591003450931843896 617770831311614013008511453621356516563978504335 91680240812649630607959691782523166456554329387 709227187583477063485309473489410526376511233444 (by decide!)
  have e21 := hiStepP 1173 91680240812649630607959691782523166456554329387 709227187583477063485309473489410526376511233444 717885882942683390442084968480773248042562271053 8692157456510860624298889509479777492266248937 (by decide!)
  have e22 := hiStepP 1172 717885882942683390442084968480773248042562271053 8692157456510860624298889509479777492266248937 640712717864405842479564486844849760634496706413 649381701519722102844329399059781338129245179268 (by decide!)
  have e23 := hiStepP 1171 640712717864405842479564486844849760634496706413 649381701519722102844329399059781338129245179268 1336088886347128023085457113793306654600375118277 888974987335718405052407655719997719741100827713 (by decide!)
  have e24 := hiStepP 1170 1336088886347128023085457113793306654600375118277 888974987335718405052407655719997719741100827713 852166151321101726842726670281623997570906002562 85355387334378523222480733936198858771506835651 (by decide!)
  have e25 := hiStepP 1169 852166151321101726842726670281623997570906002562 85355387334378523222480733936198858771506835651 1125626887092861524050869713924616486925811469746 1163779479804642889266551712686249042339448814961 (by decide!)
  have e26 := hiStepP 1168 1125626887092861524050869713924616486925811469746 1163779479804642889266551712686249042339448814961 152781425527581149226352413696588008097861906925 1193789030907999271772699111024023211537124838556 (by decide!)
  have e27 := hiStepP 1167 152781425527581149226352413696588008097861906925 1193789030907999271772699111024023211537124838556 48573644236187240899402754364714854909636655467 1242269275282839247605393709072415925486976398839 (by decide!)
  have e28 := hiStepP 1166 48573644236187240899402754364714854909636655467 1242269275282839247605393709072415925486976398839 1342090106594644018196783621052920747253724105981 288574534675070992479420925431499066642200410378 (by decide!)
  have e29 := hiStepP 1165 1342090106594644018196783621052920747253724105981 288574534675070992479420925431499066642200410378 1290498677739681782707787720242231368945452405032 1190499451525383245730527852747618134250323273762 (by decide!)
  have e30 := hiStepP 1164 1290498677739681782707787720242231368945452405032 1190499451525383245730527852747618134250323273762 100800685191059646813801334643189609669479681460 1102902205373522789684711316054986780698945103254 (by decide!)
  have e31 := hiStepP 1163 100800685191059646813801334643189609669479681460 1102902205373522789684711316054986780698945103254 278528618539286122181732503040054749588513784342 1381007085209820145109756984483932170393805858688 (by decide!)
  have e32 := hiStepP 1162 278528618539286122181732503040054749588513784342 1381007085209820145109756984483932170393805858688 113790664174195039979418971232918056721407530167 1290431496809343619157358204901869066797730034487 (by decide!)
  have e33 := hiStepP 1161 113790664174195039979418971232918056721407530167 1290431496809343619157358204901869066797730034487 1302007367014924327149188387520804651344490915424 34810464586399757063146772323465632921784096087 (by decide!)
  have e34 := hiStepP 1160 1302007367014924327149188387520804651344490915424 34810464586399757063146772323465632921784096087 456888709122146869568375041328050589379531403086 491674079242445768339973286088948068482251455001 (by decide!)
  have e35 := hiStepP 1159 456888709122146869568375041328050589379531403086 491674079242445768339973286088948068482251455001 977410417965782906501091640749657237295042529605 1445354936039797354414333100811736405693011161948 (by decide!)
  have e36 := hiStepP 1158 977410417965782906501091640749657237295042529605 1445354936039797354414333100811736405693011161948 1460086712469192717434583298187079834106353430045 16669240834035072318242250271066288417295392065 (by decide!)
  have e37 := hiStepP 1157 1460086712469192717434583298187079834106353430045 16669240834035072318242250271066288417295392065 867958787899361929163561974517176279041243029246 884267035409706072292275367818938392419630990271 (by decide!)
  have e38 := hiStepP 1156 867958787899361929163561974517176279041243029246 884267035409706072292275367818938392419630990271 1086777165535700020805276888926118522344143677916 209786048552018907487278720860452343492262701667 (by decide!)
  have e39 := hiStepP 1155 1086777165535700020805276888926118522344143677916 209786048552018907487278720860452343492262701667 1041496375733983745894871888651120309074387252954 838183414017886316088810570003045303185105263801 (by decide!)
  have e40 := hiStepP 1154 1041496375733983745894871888651120309074387252954 838183414017886316088810570003045303185105263801 314915100465221454624484260477369082151679762501 947519090567574727070634692248716660966037896444 (by decide!)
  have e41 := hiStepP 1153 314915100465221454624484260477369082151679762501 947519090567574727070634692248716660966037896444 1203992150782395467192969630753044548204563039857 680013283329070763789046124148405863727936780941 (by decide!)
  have e42 := hiStepP 1152 1203992150782395467192969630753044548204563039857 680013283329070763789046124148405863727936780941 588876219384336025531985374303210528471383632079 92654615112698975638294977361135800986485019202 (by decide!)
  have e43 := hiStepP 1151 588876219384336025531985374303210528471383632079 92654615112698975638294977361135800986485019202 888248098528003544763808357069238871369150574590 797400323577181756254888191206593145956591828412 (by decide!)
  have e44 := hiStepP 1150 888248098528003544763808357069238871369150574590 797400323577181756254888191206593145956591828412 752252836376425513266106146020527504549564603376 48002856857537083969737509123551333489107674700 (by decide!)
  have e45 := hiStepP 1149 752252836376425513266106146020527504549564603376 48002856857537083969737509123551333489107674700 567645173202374411263874267726416514441718080949 611008602815507657253453002837466959763161154553 (by decide!)
  have e46 := hiStepP 1148 567645173202374411263874267726416514441718080949 611008602815507657253453002837466959763161154553 29861048387626695539916811568253153990309478073 629362462576036317655306447822464997217000062272 (by decide!)
  have e47 := hiStepP 1147 29861048387626695539916811568253153990309478073 629362462576036317655306447822464997217000062272 960810422196476139810389548475823740396060158554 1132915181897103664640485017219937207222783137562 (by decide!)
  have e48 := hiStepP 1146 960810422196476139810389548475823740396060158554 1132915181897103664640485017219937207222783137562 393174389032826351604976723498137799618987043443 746074291815669113803260521495642724024875187561 (by decide!)
  have e49 := hiStepP 1145 393174389032826351604976723498137799618987043443 746074291815669113803260521495642724024875187561 338910913464645826436080918485473164749065749109 1061569362916197470880295644560841266866910822172 (by decide!)
  have e50 := hiStepP 1144 338910913464645826436080918485473164749065749109 1061569362916197470880295644560841266866910822172 825387752269308097986992544578193824624223126114 236248529266563525189788519877981832687052488062 (by decide!)
  have e51 := hiStepP 1143 825387752269308097986992544578193824624223126114 236248529266563525189788519877981832687052488062 990176695162625007574209341501380500688584009327 753961636263975530135703729785662488924290685713 (by decide!)
  have e52 := hiStepP 1142 990176695162625007574209341501380500688584009327 753961636263975530135703729785662488924290685713 728644387021577683225692871996379211969810039545 1436909863396987650311509171938301432817025063400 (by decide!)
  have e53 := hiStepP 1141 728644387021577683225692871996379211969810039545 1436909863396987650311509171938301432817025063400 514821428052816289626695139994310322311287873450 922629255821307872914124310511545108911444821570 (by decide!)
  have e54 := hiStepP 1140 514821428052816289626695139994310322311287873450 922629255821307872914124310511545108911444821570 781884805883444779079532074121232415087400401893 236405761732658324277193643751917772774462504359 (by decide!)
  have e55 := hiStepP 1139 781884805883444779079532074121232415087400401893 236405761732658324277193643751917772774462504359 991774756287227595888584812317366220667675238531 758236037877516786932955269194391174987084782884 (by decide!)
  have e56 := hiStepP 1138 991774756287227595888584812317366220667675238531 758236037877516786932955269194391174987084782884 952794889985849630942093447663507635424012171387 195281198924433004314782977709123240475842487647 (by decide!)
  have e57 := hiStepP 1137 952794889985849630942093447663507635424012171387 195281198924433004314782977709123240475842487647 994990652407437690408408143281961423283496128890 802031905404163819868751354714357641513741661221 (by decide!)
  have e58 := hiStepP 1136 994990652407437690408408143281961423283496128890 802031905404163819868751354714357641513741661221 1240941983565910616840818841846436065255724310067 486013546736333668554472006053642415024158239254 (by decide!)
  have e59 := hiStepP 1135 1240941983565910616840818841846436065255724310067 486013546736333668554472006053642415024158239254 298710053378556856401052206938514004813074837052 556337286711654222398718595659445381735992640554 (by decide!)
  have e60 := hiStepP 1134 298710053378556856401052206938514004813074837052 556337286711654222398718595659445381735992640554 1195999267205573797457758385483616977917827346520 1005082094773683834439463400428285158486441079922 (by decide!)
  have e61 := hiStepP 1133 1195999267205573797457758385483616977917827346520 1005082094773683834439463400428285158486441079922 266999525665352454667733969497528450715671170265 906522212922953042842246410870013851451050670251 (by decide!)
  have e62 := hiStepP 1132 266999525665352454667733969497528450715671170265 906522212922953042842246410870013851451050670251 263213661336483105610624513595505450849506661227 1009492363953534124304898425943258447918864542656 (by decide!)
  have e63 := hiStepP 1131 263213661336483105610624513595505450849506661227 1009492363953534124304898425943258447918864542656 974500652335553088906491551511910470131527072218 150600666812943343380472055074083486743240774170 (by decide!)
  have e64 := hiStepP 1130 974500652335553088906491551511910470131527072218 150600666812943343380472055074083486743240774170 166416504793410337464263650049140228183090488301 41556488439410954566082947564321655767842517495 (by decide!)
  have e65 := hiStepP 1129 166416504793410337464263650049140228183090488301 41556488439410954566082947564321655767842517495 326407224815453399958028958079157593564953972080 356364359849767378693754234816627611716518247559 (by decide!)
  have e66 := hiStepP 1128 326407224815453399958028958079157593564953972080 356364359849767378693754234816627611716518247559 185435320050505386018211840697081179231520467475 171645627100409496978651009321743866711997666964 (by decide!)
  have e67 := hiStepP 1127 185435320050505386018211840697081179231520467475 171645627100409496978651009321743866711997666964 13435722210556350281132495348658111778879396917 161516080540544601169378107582190961774218742433 (by decide!)
  have e68 := hiStepP 1126 13435722210556350281132495348658111778879396917 161516080540544601169378107582190961774218742433 808530856602330938444063736572460081518253992991 832562660602284380686134413212312624172844246718 (by decide!)
  have e69 := hiStepP 1125 808530856602330938444063736572460081518253992991 832562660602284380686134413212312624172844246718 1309315406701423399417376141878991884372285615251 665161310972760473640645076301007712227555576365 (by decide!)
  have e70 := hiStepP 1124 1309315406701423399417376141878991884372285615251 665161310972760473640645076301007712227555576365 1020796066217179107079114405610597611448996623204 1132092562784205877369152409709926650512741693769 (by decide!)
  have e71 := hiStepP 1123 1020796066217179107079114405610597611448996623204 1132092562784205877369152409709926650512741693769 953654787231230929347038921432870336841459941199 555368467323994138760024128600065288381455484422 (by decide!)
  have e72 := hiStepP 1122 953654787231230929347038921432870336841459941199 555368467323994138760024128600065288381455484422 157905778875418433625684309453148425907612449220 701830249727704164304191998816173241592305762242 (by decide!)
  have e73 := hiStepP 1121 157905778875418433625684309453148425907612449220 701830249727704164304191998816173241592305762242 663809408472263806982087966317082761475321063814 83696649374073211547010445796366381276045268548 (by decide!)
  have e74 := hiStepP 1120 663809408472263806982087966317082761475321063814 83696649374073211547010445796366381276045268548 709451283319359739348778297406368760464039237933 656131412207788302300995710231978942928731246441 (by decide!)
  have e75 := hiStepP 1119 709451283319359739348778297406368760464039237933 656131412207788302300995710231978942928731246441 1004571687096209201576842753243232856638396948919 1262300084161962000978150727716383025876148547294 (by decide!)
  have e76 := hiStepP 1118 1004571687096209201576842753243232856638396948919 1262300084161962000978150727716383025876148547294 651889356779207620042619030444928664693449022449 1000250141310554145974189136134119780103389197615 (by decide!)
  have e77 := hiStepP 1117 651889356779207620042619030444928664693449022449 1000250141310554145974189136134119780103389197615 250017849045740993217711893305146525553795920804 759294783884337620610932683194739803691059889803 (by decide!)
  have e78 := hiStepP 1116 250017849045740993217711893305146525553795920804 759294783884337620610932683194739803691059889803 1234557655999644791056205573397324494053602186237 529521306584608870034176440951299462207416210806 (by decide!)
  have e79 := hiStepP 1115 1234557655999644791056205573397324494053602186237 529521306584608870034176440951299462207416210806 696063059964017172497403010370688497928583514765 212214104433905383608257986500550288118665093115 (by decide!)
  have e80 := hiStepP 1114 696063059964017172497403010370688497928583514765 212214104433905383608257986500550288118665093115 433945177172023932245303791006004090688545760830 600486952332002179340323689643204765928947890629 (by decide!)
  have e81 := hiStepP 1113 433945177172023932245303791006004090688545760830 600486952332002179340323689643204765928947890629 229265237969069746738981044241755097983216650170 371226565541013826862132735599336633294677917311 (by decide!)
  have e82 := hiStepP 1112 229265237969069746738981044241755097983216650170 371226565541013826862132735599336633294677917311 819001692141075216854047966446730254763872424494 1178618220771530328846825334004610272071646948433 (by decide!)
  have e83 := hiStepP 1111 819001692141075216854047966446730254763872424494 1178618220771530328846825334004610272071646948433 40507823252412983935929910348984199419596208261 1149904356548853658031340541617977737781215417556 (by decide!)
  have e84 := hiStepP 1110 40507823252412983935929910348984199419596208261 1149904356548853658031340541617977737781215417556 162945856441660366067250690245159423496540527499 1221049433393478824957969758810843237572460466015 (by decide!)
  have e85 := hiStepP 1109 162945856441660366067250690245159423496540527499 1221049433393478824957969758810843237572460466015 1389389603245140652989503723525896042458151758743 221215237781219857303605120849794869068510880968 (by decide!)
  have e86 := hiStepP 1108 1389389603245140652989503723525896042458151758743 221215237781219857303605120849794869068510880968 208409141138069076666576775486291125251878951998 12817527520242171224020560100603213271618648310 (by decide!)
  have e87 := hiStepP 1107 208409141138069076666576775486291125251878951998 12817527520242171224020560100603213271618648310 42531077748811393417450256473921004701118787124 30282423342067783311660805275944186304580490946 (by decide!)
  have e88 := hiStepP 1106 42531077748811393417450256473921004701118787124 30282423342067783311660805275944186304580490946 1178689588317036735052699839706912321022979693959 1160256011289309613726419083985565563051327900485 (by decide!)
  have e89 := hiStepP 1105 1178689588317036735052699839706912321022979693959 1160256011289309613726419083985565563051327900485 758477047312068381839993537729754604033797705798 456025559366193993372036112454763570110517648131 (by decide!)
  have e90 := hiStepP 1104 758477047312068381839993537729754604033797705798 456025559366193993372036112454763570110517648131 813944849983058682699808891500639298293503906225 1104386570458858003640500302054887470240739543730 (by decide!)
  have e91 := hiStepP 1103 813944849983058682699808891500639298293503906225 1104386570458858003640500302054887470240739543730 1418944868665812492983213111521374282038968381262 330984204884770334102953721624230415934078199292 (by decide!)
  have e92 := hiStepP 1102 1418944868665812492983213111521374282038968381262 330984204884770334102953721624230415934078199292 1379635756902859582804534396394002943195384574515 1143601170813474538634809420669654904627613456335 (by decide!)
  have e93 := hiStepP 1101 1379635756902859582804534396394002943195384574515 1143601170813474538634809420669654904627613456335 945654021480104500103172356500387066123744816756 627728199704377163228484071019702657291043568059 (by decide!)
  have e94 := hiStepP 1100 945654021480104500103172356500387066123744816756 627728199704377163228484071019702657291043568059 1339283315149797674131596125349420350311189269468 772938613508053768530001854979957576339398341223 (by decide!)
  have e95 := hiStepP 1099 1339283315149797674131596125349420350311189269468 772938613508053768530001854979957576339398341223 525583163417389143932638782991595768808528060258 1252681896894378083152457409125324640732357242117 (by decide!)
  have e96 := hiStepP 1098 525583163417389143932638782991595768808528060258 1252681896894378083152457409125324640732357242117 963016916082064874195703221905090340962230038468 660885282208092576412996725127669737086982668993 (by decide!)
  have e97 := hiStepP 1097 963016916082064874195703221905090340962230038468 660885282208092576412996725127669737086982668993 861149576266827206049874536244642286291606526795 1307812451001717745685129686630919934441290897802 (by decide!)
  have e98 := hiStepP 1096 861149576266827206049874536244642286291606526795 1307812451001717745685129686630919934441290897802 1155454428086302336651858393535471951640939598893 270821032391847958865821677968952036209072836007 (by decide!)
  have e99 := hiStepP 1095 1155454428086302336651858393535471951640939598893 270821032391847958865821677968952036209072836007 113117882954160152965352577837374702935191260844 346116745235918208973803341881344208084717503243 (by decide!)
  have t0 := e0
  have t1 := t0.trans e1
  have t2 := t1.trans e2
  have t3 := t2.trans e3
  have t4 := t3.trans e4
  have t5 := t4.trans e5
  have t6 := t5.trans e6
  have t7 := t6.trans e7
  have t8 := t7.trans e8
  have t9 := t8.trans e9
  have t10 := t9.trans e10
  have t11 := t10.trans e11
  have t12 := t11.trans e12
  have t13 := t12.trans e13
  have t14 := t13.trans e14
  have t15 := t14.trans e15
  have t16 := t15.trans e16
  have t17 := t16.trans e17
  have t18 := t17.trans e18
  have t19 := t18.trans e19
  have t20 := t19.trans e20
  have t21 := t20.trans e21
  have t22 := t21.trans e22
  have t23 := t22.trans e23
  have t24 := t23.trans e24
  have t25 := t24.trans e25
  have t26 := t25.trans e26
  have t27 := t26.trans e27
  have t28 := t27.trans e28
  have t29 := t28.trans e29
  have t30 := t29.trans e30
  have t31 := t30.trans e31
  have t32 := t31.trans e32
  have t33 := t32.trans e33
  have t34 := t33.trans e34
  have t35 := t34.trans e35
  have t36 := t35.trans e36
  have t37 := t36.trans e37
  have t38 := t37.trans e38
  have t39 := t38.trans e39
  have t40 := t39.trans e40
  have t41 := t40.trans e41
  have t42 := t41.trans e42
  have t43 := t42.trans e43
  have t44 := t43.trans e44
  have t45 := t44.trans e45
  have t46 := t45.trans e46
  have t47 := t46.trans e47
  have t48 := t47.trans e48
  have t49 := t48.trans e49
  have t50 := t49.trans e50
  have t51 := t50.trans e51
  have t52 := t51.trans e52
  have t53 := t52.trans e53
  have t54 := t53.trans e54
  have t55 := t54.trans e55
  have t56 := t55.trans e56
  have t57 := t56.trans e57
  have t58 := t57.trans e58
  have t59 := t58.trans e59
  have t60 := t59.trans e60
  have t61 := t60.trans e61
  have t62 := t61.trans e62
  have t63 := t62.trans e63
  have t64 := t63.trans e64
  have t65 := t64.trans e65
  have t66 := t65.trans e66
  have t67 := t66.trans e67
  have t68 := t67.trans e68
  have t69 := t68.trans e69
  have t70 := t69.trans e70
  have t71 := t70.trans e71
  have t72 := t71.trans e72
  have t73 := t72.trans e73
  have t74 := t73.trans e74
  have t75 := t74.trans e75
  have t76 := t75.trans e76
  have t77 := t76.trans e77
  have t78 := t77.trans e78
  have t79 := t78.trans e79
  have t80 := t79.trans e80
  have t81 := t80.trans e81
  have t82 := t81.trans e82
  have t83 := t82.trans e83
  have t84 := t83.trans e84
  have t85 := t84.trans e85
  have t86 := t85.trans e86
  have t87 := t86.trans e87
  have t88 := t87.trans e88
  have t89 := t88.trans e89
  have t90 := t89.trans e90
  have t91 := t90.trans e91
  have t92 := t91.trans e92
  have t93 := t92.trans e93
  have t94 := t93.trans e94
  have t95 := t94.trans e95
  have t96 := t95.trans e96
  have t97 := t96.trans e97
  have t98 := t97.trans e98
  have t99 := t98.trans e99
  exact t99

theorem hiChainSeg30 : hiLoop SHA_1 (strBytes "pencil") 1095
    (unpackBytes 20 113117882954160152965352577837374702935191260844)
    (unpackBytes 20 346116745235918208973803341881344208084717503243) =
    hiLoop SHA_1 (strBytes "pencil") 995
      (unpackBytes 20 643409653941799766283741722373249940013040905604)
      (unpackBytes 20 260505080607479136834901956131900957532733147920) := by
  have e0 := hiStepP 1094 113117882954160152965352577837374702935191260844 346116745235918208973803341881344208084717503243 1455055618000935803712300760095248796524272658232 1110367536215473722431205613617267418469181170739 (by decide!)
  have e1 := hiStepP 1093 1455055618000935803712300760095248796524272658232 1110367536215473722431205613617267418469181170739 1066022475893932664738215806950297462909529024499 689461330845983489231616152501919324144368665536 (by decide!)
  have e2 := hiStepP 1092 1066022475893932664738215806950297462909529024499 689461330845983489231616152501919324144368665536 1161517552726822886605551638723597632196224937411 1025850695985476695308397668772919460025333853699 (by decide!)
  have e3 := hiStepP 1091 1161517552726822886605551638723597632196224937411 1025850695985476695308397668772919460025333853699 278383173451054068058450891847475206417336401596 750456178411826778465448829581673390403306148031 (by decide!)
  have e4 := hiStepP 1090 278383173451054068058450891847475206417336401596 750456178411826778465448829581673390403306148031 1200867808166866934270462822993871245608595742154 463394866990389421049516522322402445812364184949 (by decide!)
  have e5 := hiStepP 1089 1200867808166866934270462822993871245608595742154 463394866990389421049516522322402445812364184949 1134435603270031581866976552655569299430485554538 865592470287399295498467642947373052973509769247 (by decide!)
  have e6 := hiStepP 1088 1134435603270031581866976552655569299430485554538 865592470287399295498467642947373052973509769247 1127554370278069137244734685829337286595939509825 468846282115406661430552655604530570238658502238 (by decide!)
  have e7 := hiStepP 1087 1127554370278069137244734685829337286595939509825 468846282115406661430552655604530570238658502238 1178554048685595545759722805121489015328818499805 893099865306568258365553467749361705596777451139 (by decide!)
  have e8 := hiStepP 1086 1178554048685595545759722805121489015328818499805 893099865306568258365553467749361705596777451139 1258565717567005978143109916773216106876537908194 365998633809192008390770120052627606223429526881 (by decide!)
  have e9 := hiStepP 1085 1258565717567005978143109916773216106876537908194 365998633809192008390770120052627606223429526881 1124954323392774359268605176578066847926234519214 759814268276051934929795902402807280661966189519 (by decide!)
  have e10 := hiStepP 1084 1124954323392774359268605176578066847926234519214 759814268276051934929795902402807280661966189519 548390769592392242271760652135151576968708969491 1307937423427705006757005557528751219243540948956 (by decide!)
  have e11 := hiStepP 1083 548390769592392242271760652135151576968708969491 1307937423427705006757005557528751219243540948956 1342495848531000221730977428120975358188376169685 81317733812778850460158147688548591381862169353 (by decide!)
  have e12 := hiStepP 1082 1342495848531000221730977428120975358188376169685 81317733812778850460158147688548591381862169353 486702282511630929150375086477882752215731217956 522329970090500987044691206055811128386825297197 (by decide!)
  have e13 := hiStepP 1081 486702282511630929150375086477882752215731217956 522329970090500987044691206055811128386825297197 134678811236042444348915073759951300238159124783 439082252599550856015298440502143743948371592194 (by decide!)
  have e14 := hiStepP 1080 134678811236042444348915073759951300238159124783 439082252599550856015298440502143743948371592194 189035436276585329217229895223003696896755538902 627755301382990629446432008389205455926302842836 (by decide!)
  have e15 := hiStepP 1079 189035436276585329217229895223003696896755538902 627755301382990629446432008389205455926302842836 783909700527201039082677689772601824006744388597 1305803364411222584273974618835603946409587813409 (by decide!)
  have e16 := hiStepP 1078 783909700527201039082677689772601824006744388597 1305803364411222584273974618835603946409587813409 1083149278533175668982669435878268991944354357282 508103714275823619437997230539655502933767769091 (by decide!)
  have e17 := hiStepP 1077 1083149278533175668982669435878268991944354357282 508103714275823619437997230539655502933767769091 1360423089342844267807109446933179081235393926027 1046425160828999482768439184280569749175230242696 (by decide!)
  have e18 := hiStepP 1076 1360423089342844267807109446933179081235393926027 1046425160828999482768439184280569749175230242696 568071659407914628728960050498443828503489926464 1214819629362743381847157315685484465473216465608 (by decide!)
  have e19 := hiStepP 1075 568071659407914628728960050498443828503489926464 1214819629362743381847157315685484465473216465608 1273858522352701915857539307742995759304088263223 68054883962374237083027030683268302734065324287 (by decide!)
  have e20 := hiStepP 1074 1273858522352701915857539307742995759304088263223 68054883962374237083027030683268302734065324287 163990700292749112452776344784895104616478905039 133140254791669968497568741542105118360881545776 (by decide!)
  have e21 := hiStepP 1073 163990700292749112452776344784895104616478905039 133140254791669968497568741542105118360881545776 171852440316841939672050089632818118536421994638 52988522628032184813899115110857298610054705854 (by decide!)
  have e22 := hiStepP 1072 171852440316841939672050089632818118536421994638 52988522628032184813899115110857298610054705854 350759713876360633859622794165810557316923064852 298128417295153596376534716737059590460297195690 (by decide!)
  have e23 := hiStepP 1071 350759713876360633859622794165810557316923064852 298128417295153596376534716737059590460297195690 367284009708651455196130545145895709448635743309 664676480378945291740856188025153907028329024743 (by decide!)
  have e24 := hiStepP 1070 367284009708651455196130545145895709448635743309 664676480378945291740856188025153907028329024743 1343246575748474856485781929259708086019301671910 908540524937007503312444558279323087863249194753 (by decide!)
  have e25 := hiStepP 1069 1343246575748474856485781929259708086019301671910 908540524937007503312444558279323087863249194753 634768349995398531486838420355433945954077386399 1370417289653014242510454415963829781682219477406 (by decide!)
  have e26 := hiStepP 1068 634768349995398531486838420355433945954077386399 1370417289653014242510454415963829781682219477406 120181529535629541525248162783089970139462597647 1307504079303717852466776212939550519987172414865 (by decide!)
  have e27 := hiStepP 1067 120181529535629541525248162783089970139462597647 1307504079303717852466776212939550519987172414865 360640927015971107144919087845739296542819393558 1245567743047155837710611463489257918565392496007 (by decide!)
  have e28 := hiStepP 1066 360640927015971107144919087845739296542819393558 1245567743047155837710611463489257918565392496007 380508940170691654475677575183387129069489872392 870881394884761721433141037475386481163770096527 (by decide!)
  have e29 := hiStepP 1065 380508940170691654475677575183387129069489872392 870881394884761721433141037475386481163770096527 1117261089708213056868031908291023354178065405286 520768771200573060293083031338600886199924653801 (by decide!)
  have e30 := hiStepP 1064 1117261089708213056868031908291023354178065405286 520768771200573060293083031338600886199924653801 316806682581512254712091499188995812043474349864 618133281666526446402743212289062034678446379457 (by decide!)
  have e31 := hiStepP 1063 316806682581512254712091499188995812043474349864 618133281666526446402743212289062034678446379457 398728910042325170484394272347732485807064270112 237314902639007317479375129412633482941439251681 (by decide!)
  have e32 := hiStepP 1062 398728910042325170484394272347732485807064270112 237314902639007317479375129412633482941439251681 811953513246409981920603046633858813723244237144 957166129621018939373306128654286466749550921145 (by decide!)
  have e33 := hiStepP 1061 811953513246409981920603046633858813723244237144 957166129621018939373306128654286466749550921145 538340523271445314832941608966369310066663482769 1426641950839359212677794947342481337121734025256 (by decide!)
  have e34 := hiStepP 1060 538340523271445314832941608966369310066663482769 1426641950839359212677794947342481337121734025256 928907082668652286902184714604181866074067286163 521334644224031261713774347129778858286677481659 (by decide!)
  have e35 := hiStepP 1059 928907082668652286902184714604181866074067286163 521334644224031261713774347129778858286677481659 772516306875617548309755128487072698921961364613 1256014250592006425243284100505724828391198180414 (by decide!)
  have e36 := hiStepP 1058 772516306875617548309755128487072698921961364613 1256014250592006425243284100505724828391198180414 159054505710401545160186486180032228624560151531 1141037169170580885865880106757420410439275225045 (by decide!)
  have e37 := hiStepP 1057 159054505710401545160186486180032228624560151531 1141037169170580885865880106757420410439275225045 1238234931204351144263859270413899770765074085663 178266558309990883172549925842808781216831514826 (by decide!)
  have e38 := hiStepP 1056 1238234931204351144263859270413899770765074085663 178266558309990883172549925842808781216831514826 334447943699991140054263426531968833739549093155 215081421462129132072637910325998170230795306473 (by decide!)
  have e39 := hiStepP 1055 334447943699991140054263426531968833739549093155 215081421462129132072637910325998170230795306473 1143140262467923043436346652073932544528946563410 1356258411500548032900085461039457417983868832955 (by decide!)
  have e40 := hiStepP 1054 1143140262467923043436346652073932544528946563410 1356258411500548032900085461039457417983868832955 1281843968317896622642408492955951109726013945635 74738518625031645537952779551939931355966241688 (by decide!)
  have e41 := hiStepP 1053 1281843968317896622642408492955951109726013945635 74738518625031645537952779551939931355966241688 1335577477219390185781477819871425230575249610857 1306784083906096484558020391630309552524485796849 (by decide!)
  have e42 := hiStepP 1052 1335577477219390185781477819871425230575249610857 1306784083906096484558020391630309552524485796849 321008537939377405588822083891604921769053640875 1260900586081896995126716552655425337021488888666 (by decide!)
  have e43 := hiStepP 1051 321008537939377405588822083891604921769053640875 1260900586081896995126716552655425337021488888666 497797680995676149939652833117360996405091708672 798873496387491678953914367904406158419905860698 (by decide!)
  have e44 := hiStepP 1050 497797680995676149939652833117360996405091708672 798873496387491678953914367904406158419905860698 357137061424241980709448435636678245044288194435 1035472173683434790413659977956158170641243198425 (by decide!)
  have e45 := hiStepP 1049 357137061424241980709448435636678245044288194435 1035472173683434790413659977956158170641243198425 1013421091762252301824318620326322558837908033993 27908163918830907735804012982729084493874954768 (by decide!)
  have e46 := hiStepP 1048 1013421091762252301824318620326322558837908033993 27908163918830907735804012982729084493874954768 256569148606375119910070427569608796605420109360 228795138974743528193184811358787474571580341280 (by decide!)
  have e47 := hiStepP 1047 256569148606375119910070427569608796605420109360 228795138974743528193184811358787474571580341280 144863374638382495831760194184183203178833034497 281443995584249413737912677397642158894216790305 (by decide!)
  have e48 := hiStepP 1046 144863374638382495831760194184183203178833034497 281443995584249413737912677397642158894216790305 486196747305292819889219735974505348199433604965 573166996331252160476537601314384568811890003524 (by decide!)
  have e49 := hiStepP 1045 486196747305292819889219735974505348199433604965 573166996331252160476537601314384568811890003524 411396194424879675994997908489343774285759173408 253561464096326152309964964572560068058312809828 (by decide!)
  have e50 := hiStepP 1044 411396194424879675994997908489343774285759173408 253561464096326152309964964572560068058312809828 992464671467358893420283788093172604513377751804 740690105675924718775122558294995770724428386200 (by decide!)
  have e51 := hiStepP 1043 992464671467358893420283788093172604513377751804 740690105675924718775122558294995770724428386200 179489692064589313888431085321829261218474092161 906595850195705354085598665476762872300289288473 (by decide!)
  have e52 := hiStepP 1042 179489692064589313888431085321829261218474092161 906595850195705354085598665476762872300289288473 918324689219672343623196657293220360241898290459 354452538649973042529440600000982862245451076610 (by decide!)
  have e53 := hiStepP 1041 918324689219672343623196657293220360241898290459 354452538649973042529440600000982862245451076610 799333631153656745766584525737797252123645595923 1016678389810921611090439810164006635569245799697 (by decide!)
  have e54 := hiStepP 1040 799333631153656745766584525737797252123645595923 1016678389810921611090439810164006635569245799697 555292757963597230523545897140733100567768366217 1206411750444310287127773501581390158370164390296 (by decide!)
  have e55 := hiStepP 1039 555292757963597230523545897140733100567768366217 1206411750444310287127773501581390158370164390296 128319241541573903639332355538182856478023488521 1125637699254971135374791084139328297337956019601 (by decide!)
  have e56 := hiStepP 1038 128319241541573903639332355538182856478023488521 1125637699254971135374791084139328297337956019601 302631785607989198987730876177511901019838411109 1371076086894161898525030901477622197423043239156 (by decide!)
  have e57 := hiStepP 1037 302631785607989198987730876177511901019838411109 1371076086894161898525030901477622197423043239156 927453165617825456247278191101096224372905437548 470219369310183472807684134292127678663725200792 (by decide!)
  have e58 := hiStepP 1036 927453165617825456247278191101096224372905437548 470219369310183472807684134292127678663725200792 1311876407138158324003552517591236125558984502709 1048130773958042264443790409080799391954718283821 (by decide!)
  have e59 := hiStepP 1035 1311876407138158324003552517591236125558984502709 1048130773958042264443790409080799391954718283821 635082240169464910084054692185507467016014476925 1236930139154071054526728439804128702454869061200 (by decide!)
  have e60 := hiStepP 1034 635082240169464910084054692185507467016014476925 1236930139154071054526728439804128702454869061200 398913091373772748109479284828997265746711087466 898948272545369802187357741579853885426554234682 (by decide!)
  have e61 := hiStepP 1033 398913091373772748109479284828997265746711087466 898948272545369802187357741579853885426554234682 1009484016209553675851499482054587555556511195553 260582137232182845459018910814423887881144747675 (by decide!)
  have e62 := hiStepP 1032 1009484016209553675851499482054587555556511195553 260582137232182845459018910814423887881144747675 383186644027261833040961340369856062695853671710 632143089978588866539117100562624708336368976773 (by decide!)
  have e63 := hiStepP 1031 383186644027261833040961340369856062695853671710 632143089978588866539117100562624708336368976773 84077867827551423449037820173679008103364262092 548072206116970642020363913774043432817894947657 (by decide!)
  have e64 := hiStepP 1030 84077867827551423449037820173679008103364262092 548072206116970642020363913774043432817894947657 244775298154434211931271818301721246953254334713 427470680724491704444916332111011410060600560560 (by decide!)
  have e65 := hiStepP 1029 244775298154434211931271818301721246953254334713 427470680724491704444916332111011410060600560560 211287552514478031246478605553589412602849639607 638738371082155995193675471415224839030128768775 (by decide!)
  have e66 := hiStepP 1028 211287552514478031246478605553589412602849639607 638738371082155995193675471415224839030128768775 218063899335206189689394843806694973327363403983 421402387668118124000986133970745032315328923592 (by decide!)
  have e67 := hiStepP 1027 218063899335206189689394843806694973327363403983 421402387668118124000986133970745032315328923592 231539905207138283914591077187489982202424640544 555886312197139800504873866158808980557158073320 (by decide!)
  have e68 := hiStepP 1026 231539905207138283914591077187489982202424640544 555886312197139800504873866158808980557158073320 44729049366962324944391323402801937722538828046 585427111225436681419613427937065971877798961894 (by decide!)
  have e69 := hiStepP 1025 44729049366962324944391323402801937722538828046 585427111225436681419613427937065971877798961894 674608032652959645375935487480690088134869550565 94935474071984193224919237012155831486093715203 (by decide!)
  have e70 := hiStepP 1024 674608032652959645375935487480690088134869550565 94935474071984193224919237012155831486093715203 1012397567210332038698698945731978804386608689609 924599335522622697834426326883989035777281251018 (by decide!)
  have e71 := hiStepP 1023 1012397567210332038698698945731978804386608689609 924599335522622697834426326883989035777281251018 643497552785387116270736726914172447312560256524 1194675526136155133723747752908508654038579650758 (by decide!)
  have e72 := hiStepP 1022 643497552785387116270736726914172447312560256524 1194675526136155133723747752908508654038579650758 1050331362624369846604360036707515026516713199380 586451651437442023850566303479103507941542557650 (by decide!)
  have e73 := hiStepP 1021 1050331362624369846604360036707515026516713199380 586451651437442023850566303479103507941542557650 994277588567768822483916263458303683548236345219 1145044674395238711017368264543689101015083554897 (by decide!)
  have e74 := hiStepP 1020 994277588567768822483916263458303683548236345219 1145044674395238711017368264543689101015083554897 723698769947263466299833822862561457811282683642 1040872149814800710626861971211794913766084312747 (by decide!)
  have e75 := hiStepP 1019 723698769947263466299833822862561457811282683642 1040872149814800710626861971211794913766084312747 200316410508421756957517240095314286044565304279 852160067809667756020732980252219440963249540476 (by decide!)
  have e76 := hiStepP 1018 200316410508421756957517240095314286044565304279 852160067809667756020732980252219440963249540476 134352636233256438397865993769203129687966375481 746734307476796672545257403017309516609721652037 (by decide!)
  have e77 := hiStepP 1017 134352636233256438397865993769203129687966375481 746734307476796672545257403017309516609721652037 1040444937103978841247778515316300150922112778859 302299435519116469375861637698619313427253236014 (by decide!)
  have e78 := hiStepP 1016 1040444937103978841247778515316300150922112778859 302299435519116469375861637698619313427253236014 1098672092235998165999034288559986212991517210184 1395886769668379857812374297934138246154018170726 (by decide!)
  have e79 := hiStepP 1015 1098672092235998165999034288559986212991517210184 1395886769668379857812374297934138246154018170726 1347628601326171654033551644030971522604318153237 140148675899786945167166058013816212732205366643 (by decide!)
  have e80 := hiStepP 1014 1347628601326171654033551644030971522604318153237 140148675899786945167166058013816212732205366643 249236125794503084984545414388220988063602062071 291969157205634639075573490753816936823138439044 (by decide!)
  have e81 := hiStepP 1013 249236125794503084984545414388220988063602062071 291969157205634639075573490753816936823138439044 216377846459967947758939345878271084607035906990 129944901859130759750295442212274962810283611178 (by decide!)
  have e82 := hiStepP 1012 216377846459967947758939345878271084607035906990 129944901859130759750295442212274962810283611178 1028716727622803586842138855970991547029836968664 930290804714256630675322361113286624177383237362 (by decide!)
  have e83 := hiStepP 1011 1028716727622803586842138855970991547029836968664 930290804714256630675322361113286624177383237362 644142390686632327990499767737511781921812650568 1199779281332802490917850013440878848962329279674 (by decide!)
  have e84 := hiStepP 1010 644142390686632327990499767737511781921812650568 1199779281332802490917850013440878848962329279674 998923410755151410892979101835658895693000708841 712881024583645543424666774989053797087449771603 (by decide!)
  have e85 := hiStepP 1009 998923410755151410892979101835658895693000708841 712881024583645543424666774989053797087449771603 1441383790875344928674999621876609983296911603332 734482241401914963864168080202724304128791451863 (by decide!)
  have e86 := hiStepP 1008 1441383790875344928674999621876609983296911603332 734482241401914963864168080202724304128791451863 1080255819779320235000571167583217039972049036007 351795128041202366730002337695860713973368863280 (by decide!)
  have e87 := hiStepP 1007 1080255819779320235000571167583217039972049036007 351795128041202366730002337695860713973368863280 970457108778226121447134995890296815633362956197 847155767212917221455767146550372357693257029013 (by decide!)
  have e88 := hiStepP 1006 970457108778226121447134995890296815633362956197 847155767212917221455767146550372357693257029013 470914610691106455205385571039505735061708563242 1131078278199887761284001276949798711160260097727 (by decide!)
  have e89 := hiStepP 1005 470914610691106455205385571039505735061708563242 1131078278199887761284001276949798711160260097727 1081820507029172080960174553027800805288922540503 704387133116499819467636508362507988314034937704 (by decide!)
  have e90 := hiStepP 1004 1081820507029172080960174553027800805288922540503 704387133116499819467636508362507988314034937704 775986227329097676697457129849998908152620363220 1441824255897902435984357471596715547022182298300 (by decide!)
  have e91 := hiStepP 1003 775986227329097676697457129849998908152620363220 1441824255897902435984357471596715547022182298300 566623691515610651583139758307269800841796486463 912321593501877188251155060262696905102851979139 (by decide!)
  have e92 := hiStepP 1002 566623691515610651583139758307269800841796486463 912321593501877188251155060262696905102851979139 512473245595127379142476811195152271012327100797 1130601971009333695492100436234011375559333553918 (by decide!)
  have e93 := hiStepP 1001 512473245595127379142476811195152271012327100797 1130601971009333695492100436234011375559333553918 582284825201052987501392229016731584173856287533 936084920760048657847981029038111679219725159891 (by decide!)
  have e94 := hiStepP 1000 582284825201052987501392229016731584173856287533 936084920760048657847981029038111679219725159891 260935387192408171087974736084686982799959953844 812187626009317847999954921165959372059067833447 (by decide!)
  have e95 := hiStepP 999 260935387192408171087974736084686982799959953844 812187626009317847999954921165959372059067833447 391529277265475502223942532593531986997891242722 1158011415728199756919167612757472582258224481925 (by decide!)
  have e96 := hiStepP 998 391529277265475502223942532593531986997891242722 1158011415728199756919167612757472582258224481925 822697465993787743857001471669302888409784378352 518358576594296834666528903278827309970397635957 (by decide!)
  have e97 := hiStepP 997 822697465993787743857001471669302888409784378352 518358576594296834666528903278827309970397635957 15134758674928175296016486351831265457531502151 504769886962551348846357069213832522386810542898 (by decide!)
  have e98 := hiStepP 996 15134758674928175296016486351831265457531502151 504769886962551348846357069213832522386810542898 31235423396725051949737029298719195827575930278 531338879191537591682756129576460090800965428884 (by decide!)
  have e99 := hiStepP 995 31235423396725051949737029298719195827575930278 531338879191537591682756129576460090800965428884 643409653941799766283741722373249940013040905604 260505080607479136834901956131900957532733147920 (by decide!)
  have t0 := e0
  have t1 := t0.trans e1
  have t2 := t1.trans e2
  have t3 := t2.trans e3
  have t4 := t3.trans e4
  have t5 := t4.trans e5
  have t6 := t5.trans e6
  have t7 := t6.trans e7
  have t8 := t7.trans e8
  have t9 := t8.trans e9
  have t10 := t9.trans e10
  have t11 := t10.trans e11
  have t12 := t11.trans e12
  have t13 := t12.trans e13
  have t14 := t13.trans e14
  have t15 := t14.trans e15
  have t16 := t15.trans e16
  have t17 := t16.trans e17
  have t18 := t17.trans e18
  have t19 := t18.trans e19
  have t20 := t19.trans e20
  have t21 := t20.trans e21
  have t22 := t21.trans e22
  have t23 := t22.trans e23
  have t24 := t23.trans e24
  have t25 := t24.trans e25
  have t26 := t25.trans e26
  have t27 := t26.trans e27
  have t28 := t27.trans e28
  have t29 := t28.trans e29
  have t30 := t29.trans e30
  have t31 := t30.trans e31
  have t32 := t31.trans e32
  have t33 := t32.trans e33
  have t34 := t33.trans e34
  have t35 := t34.trans e35
  have t36 := t35.trans e36
  have t37 := t36.trans e37
  have t38 := t37.trans e38
  have t39 := t38.trans e39
  have t40 := t39.trans e40
  have t41 := t40.trans e41
  have t42 := t41.trans e42
  have t43 := t42.trans e43
  have t44 := t43.trans e44
  have t45 := t44.trans e45
  have t46 := t45.trans e46
  have t47 := t46.trans e47
  have t48 := t47.trans e48
  have t49 := t48.trans e49
  have t50 := t49.trans e50
  have t51 := t50.trans e51
  have t52 := t51.trans e52
  have t53 := t52.trans e53
  have t54 := t53.trans e54
  have t55 := t54.trans e55
  have t56 := t55.trans e56
  have t57 := t56.trans e57
  have t58 := t57.trans e58
  have t59 := t58.trans e59
  have t60 := t59.trans e60
  have t61 := t60.trans e61
  have t62 := t61.trans e62
  have t63 := t62.trans e63
  have t64 := t63.trans e64
  have t65 := t64.trans e65
  have t66 := t65.trans e66
  have t67 := t66.trans e67
  have t68 := t67.trans e68
  have t69 := t68.trans e69
  have t70 := t69.trans e70
  have t71 := t70.trans e71
  have t72 := t71.trans e72
  have t73 := t72.trans e73
  have t74 := t73.trans e74
  have t75 := t74.trans e75
  have t76 := t75.trans e76
  have t77 := t76.trans e77
  have t78 := t77.trans e78
  have t79 := t78.trans e79
  have t80 := t79.trans e80
  have t81 := t80.trans e81
  have t82 := t81.trans e82
  have t83 := t82.trans e83
  have t84 := t83.trans e84
  have t85 := t84.trans e85
  have t86 := t85.trans e86
  have t87 := t86.trans e87
  have t88 := t87.trans e88
  have t89 := t88.trans e89
  have t90 := t89.trans e90
  have t91 := t90.trans e91
  have t92 := t91.trans e92
  have t93 := t92.trans e93
  have t94 := t93.trans e94
  have t95 := t94.trans e95
  have t96 := t95.trans e96
  have t97 := t96.trans e97
  have t98 := t97.trans e98
  have t99 := t98.trans e99
  exact t99

theorem hiChainSeg31 : hiLoop SHA_1 (strBytes "pencil") 995
    (unpackBytes 20 643409653941799766283741722373249940013040905604)
    (unpackBytes 20 260505080607479136834901956131900957532733147920) =
    hiLoop SHA_1 (strBytes "pencil") 895
      (unpackBytes 20 1426038413643843733355495936977660593350605316662)
      (unpackBytes 20 455017001234950865815643509302536188008818585994) := by
  have e0 := hiStepP 994 643409653941799766283741722373249940013040905604 260505080607479136834901956131900957532733147920 74984800404408874653479334684950577090871689270 185611618218200710911772555083706022220672895782 (by decide!)
  have e1 := hiStepP 993 74984800404408874653479334684950577090871689270 185611618218200710911772555083706022220672895782 1445231465257465997071775736247260448027087555004 1265376989226910085048440974913174060805280547482 (by decide!)
  have e2 := hiStepP 992 1445231465257465997071775736247260448027087555004 1265376989226910085048440974913174060805280547482 1025935908401305657620939213900276435928660754552 628389859762889243478196227486083485758801183458 (by decide!)
  have e3 := hiStepP 991 1025935908401305657620939213900276435928660754552 628389859762889243478196227486083485758801183458 867155864468279067417075550455213909824130424205 1427011177490611487187173146986635514651009392495 (by decide!)
  have e4 := hiStepP 990 867155864468279067417075550455213909824130424205 1427011177490611487187173146986635514651009392495 622683056087568349053805008590668403468003995637 850092395242177001938516465682057621181923389594 (by decide!)
  have e5 := hiStepP 989 622683056087568349053805008590668403468003995637 850092395242177001938516465682057621181923389594 42645761830657744647956175866423323975214917852 842772626941159479981017450077946887845326329926 (by decide!)
  have e6 := hiStepP 988 42645761830657744647956175866423323975214917852 842772626941159479981017450077946887845326329926 784747432591465291592273380926512927377833110270 153662059916730135865097566339192784229665288888 (by decide!)
  have e7 := hiStepP 987 784747432591465291592273380926512927377833110270 153662059916730135865097566339192784229665288888 1215658099936191383085432525411426970104269648975 1176176095280275285619461356598279238361664915191 (by decide!)
  have e8 := hiStepP 986 1215658099936191383085432525411426970104269648975 1176176095280275285619461356598279238361664915191 294440300639359443692599716577046101277723584131 1447734372121276223868153365786388104324076068980 (by decide!)
  have e9 := hiStepP 985 294440300639359443692599716577046101277723584131 1447734372121276223868153365786388104324076068980 1048185622429830033017751199826551076367593163628 422752732371729284810258854427407883594174573336 (by decide!)
  have e10 := hiStepP 984 1048185622429830033017751199826551076367593163628 422752732371729284810258854427407883594174573336 1224975279510928589614698736760074652549161965582 894107419576350377059256560526226534320516395798 (by decide!)
  have e11 := hiStepP 983 1224975279510928589614698736760074652549161965582 894107419576350377059256560526226534320516395798 1160023224091939181231770600312234975899931704116 500519690964432020252604397891780374034816731170 (by decide!)
  have e12 := hiStepP 982 1160023224091939181231770600312234975899931704116 500519690964432020252604397891780374034816731170 32970240070266196132697465181369353306302942784 470511885452406416606339463712953551823287682658 (by decide!)
  have e13 := hiStepP 981 32970240070266196132697465181369353306302942784 470511885452406416606339463712953551823287682658 321995004748136897874776506378750620864340344152 605436914845857045661009019605422295473116789562 (by decide!)
  have e14 := hiStepP 980 321995004748136897874776506378750620864340344152 605436914845857045661009019605422295473116789562 982260080599757216755715866737304483164736595228 1130439612305381280198919216112511739839806152230 (by decide!)
  have e15 := hiStepP 979 982260080599757216755715866737304483164736595228 1130439612305381280198919216112511739839806152230 596507587527592910797525896154478659244334509452 996195989146015119292201179117031916310356063146 (by decide!)
  have e16 := hiStepP 978 596507587527592910797525896154478659244334509452 996195989146015119292201179117031916310356063146 1359258297879930636224860517119056598220001725988 367733112809919791939350397341905355141120212366 (by decide!)
  have e17 := hiStepP 977 1359258297879930636224860517119056598220001725988 367733112809919791939350397341905355141120212366 183892759712192908642762175592531273837402649904 550197038913575942191428306293272823332740843710 (by decide!)
  have e18 := hiStepP 976 183892759712192908642762175592531273837402649904 550197038913575942191428306293272823332740843710 1189569226791519213983204664024806543633166770094 1004817331075408742765529052630158125408883234576 (by decide!)
  have e19 := hiStepP 975 1189569226791519213983204664024806543633166770094 1004817331075408742765529052630158125408883234576 730443000235309188188828852121169312009263884909 1187194385716928308577499202869765707034870644093 (by decide!)
  have e20 := hiStepP 974 730443000235309188188828852121169312009263884909 1187194385716928308577499202869765707034870644093 430887258370882679440628743487130975852635889977 756664636943822943579938017732316827508286643268 (by decide!)
  have e21 := hiStepP 973 430887258370882679440628743487130975852635889977 756664636943822943579938017732316827508286643268 903466196977807235656781122826511594325237268276 152957263437713468430583369704451534422872171376 (by decide!)
  have e22 := hiStepP 972 903466196977807235656781122826511594325237268276 152957263437713468430583369704451534422872171376 321715825978391176964451598844250420644834532223 197337537634560269666379877333480318941143332879 (by decide!)
  have e23 := hiStepP 971 321715825978391176964451598844250420644834532223 197337537634560269666379877333480318941143332879 527197471974951167023302609863074539091076728512 723808489623671258042635930483470116166810156751 (by decide!)
  have e24 := hiStepP 970 527197471974951167023302609863074539091076728512 723808489623671258042635930483470116166810156751 1131068023796402749714528763435788704013088732105 1055235883116875822504806845279129690020705668358 (by decide!)
  have e25 := hiStepP 969 1131068023796402749714528763435788704013088732105 1055235883116875822504806845279129690020705668358 398098321896845595187411704222231509425876797466 1446809736992659536578210613170687250068266648860 (by decide!)
  have e26 := hiStepP 968 398098321896845595187411704222231509425876797466 1446809736992659536578210613170687250068266648860 82928304723319558353751294649766753483106049040 1392538238299270827146937906177979113285231171852 (by decide!)
  have e27 := hiStepP 967 82928304723319558353751294649766753483106049040 1392538238299270827146937906177979113285231171852 401298861088457168547170097148611002201377229290 1036924544785335941671101812060269040057355571430 (by decide!)
  have e28 := hiStepP 966 401298861088457168547170097148611002201377229290 1036924544785335941671101812060269040057355571430 531207869360472303414945875393069856312643075612 1328352361571439466876340662335061393656860323578 (by decide!)
  have e29 := hiStepP 965 531207869360472303414945875393069856312643075612 1328352361571439466876340662335061393656860323578 872538133953259630482152493946847432468488235153 642096277782841780087548059584017485847892625003 (by decide!)
  have e30 := hiStepP 964 872538133953259630482152493946847432468488235153 642096277782841780087548059584017485847892625003 975196897898037448511178984416298387261632769769 1248345590920654696402529850859906398444826388610 (by decide!)
  have e31 := hiStepP 963 975196897898037448511178984416298387261632769769 1248345590920654696402529850859906398444826388610 464953573863363337942759889736721083085317451949 798388789546319923674828530934834357542989092911 (by decide!)
  have e32 := hiStepP 962 464953573863363337942759889736721083085317451949 798388789546319923674828530934834357542989092911 321675354098094401975234089921895263234191811047 1024776922614782629512386566879562467654554630600 (by decide!)
  have e33 := hiStepP 961 321675354098094401975234089921895263234191811047 1024776922614782629512386566879562467654554630600 1120800812193455899725193182625903809883780974589 684072958492120857263718627335624293359130558005 (by decide!)
  have e34 := hiStepP 960 1120800812193455899725193182625903809883780974589 684072958492120857263718627335624293359130558005 396544018790000395461065207396648096558366567152 289179547615962221011375960330390562943287628997 (by decide!)
  have e35 := hiStepP 959 396544018790000395461065207396648096558366567152 289179547615962221011375960330390562943287628997 92922331241115154282922328053809604663019386539 199135412087001498790875929774067123737581724270 (by decide!)
  have e36 := hiStepP 958 92922331241115154282922328053809604663019386539 199135412087001498790875929774067123737581724270 1197425493198547131414006225501849983257821600875 1389422918525150624809433264119458643869783457285 (by decide!)
  have e37 := hiStepP 957 1197425493198547131414006225501849983257821600875 1389422918525150624809433264119458643869783457285 1300526959555942915093636773058300929733717055502 94605831837106342544457041409764245172910073355 (by decide!)
  have e38 := hiStepP 956 1300526959555942915093636773058300929733717055502 94605831837106342544457041409764245172910073355 162413294084278357149061128809629881146048266425 73516551025989663129209548729852013762770429618 (by decide!)
  have e39 := hiStepP 955 162413294084278357149061128809629881146048266425 73516551025989663129209548729852013762770429618 1077477684076825509639311367480508532146026683275 1006819902389650895732860697943322000145319034169 (by decide!)
  have e40 := hiStepP 954 1077477684076825509639311367480508532146026683275 1006819902389650895732860697943322000145319034169 1238895055796557946534393714609230331013478167605 601465421343280130411441787662116852528924215564 (by decide!)
  have e41 := hiStepP 953 1238895055796557946534393714609230331013478167605 601465421343280130411441787662116852528924215564 96393174598217839142599580940128118695998228763 694909257048044643599029953649127244259219849239 (by decide!)
  have e42 := hiStepP 952 96393174598217839142599580940128118695998228763 694909257048044643599029953649127244259219849239 813775498008674019955314007000503777402684813483 1411240951428071452182324850515607250438348370108 (by decide!)
  have e43 := hiStepP 951 813775498008674019955314007000503777402684813483 1411240951428071452182324850515607250438348370108 358642263228616262777896570833820301449072389590 1152506070825141591014123537792670725162348764522 (by decide!)
  have e44 := hiStepP 950 358642263228616262777896570833820301449072389590 1152506070825141591014123537792670725162348764522 494248220775954711001770367940730448290520908830 910293032177249399985950473048764205563168725364 (by decide!)
  have e45 := hiStepP 949 494248220775954711001770367940730448290520908830 910293032177249399985950473048764205563168725364 1181159255163272103121822749161312460248503293099 465816642648041503250999730124357137920821333471 (by decide!)
  have e46 := hiStepP 948 1181159255163272103121822749161312460248503293099 465816642648041503250999730124357137920821333471 393136047326752201751269648700697871559590798199 121564558422476093230080755686516871962610986664 (by decide!)
  have e47 := hiStepP 947 393136047326752201751269648700697871559590798199 121564558422476093230080755686516871962610986664 976576145851236843987956881673264079108355165886 1086226520123070305644910804052193917315265454102 (by decide!)
  have e48 := hiStepP 946 976576145851236843987956881673264079108355165886 1086226520123070305644910804052193917315265454102 1450435594345891786701482644678907782826969405768 367067207250750657484833987302030130261055764830 (by decide!)
  have e49 := hiStepP 945 1450435594345891786701482644678907782826969405768 367067207250750657484833987302030130261055764830 448881200679421179081834269553288884601412317298 85174526138135205546932938608314752597139982636 (by decide!)
  have e50 := hiStepP 944 448881200679421179081834269553288884601412317298 85174526138135205546932938608314752597139982636 1180612136700069203792051319388511567015381485572 1096998848365750725648871839603754141252487463208 (by decide!)
  have e51 := hiStepP 943 1180612136700069203792051319388511567015381485572 1096998848365750725648871839603754141252487463208 491949231523521398722926278826254590162610103181 856636176206068647027448746113619225112315224741 (by decide!)
  have e52 := hiStepP 942 491949231523521398722926278826254590162610103181 856636176206068647027448746113619225112315224741 1390990373610575666380729304809376662617457270879 580417263201384748012765867706922003424191529722 (by decide!)
  have e53 := hiStepP 941 1390990373610575666380729304809376662617457270879 580417263201384748012765867706922003424191529722 789726547868341712952270696361445559412721050237 1370121481038941677882537998955025813983404531847 (by decide!)
  have e54 := hiStepP 940 789726547868341712952270696361445559412721050237 1370121481038941677882537998955025813983404531847 256744331250570818730420853565481689043971761280 1113399473146420717480880011644700670210352006151 (by decide!)
  have e55 := hiStepP 939 256744331250570818730420853565481689043971761280 1113399473146420717480880011644700670210352006151 658494924992821101551396025940054213051374976885 1006597111679807937218956038980638128618061429618 (by decide!)
  have e56 := hiStepP 938 658494924992821101551396025940054213051374976885 1006597111679807937218956038980638128618061429618 1203937533531218841111893812841556784669127867856 563474078511638571782817713186815212975107606178 (by decide!)
  have e57 := hiStepP 937 1203937533531218841111893812841556784669127867856 563474078511638571782817713186815212975107606178 48292191063270381798713845598826539803940510913 609578508274139775201168389749417555115421489763 (by decide!)
  have e58 := hiStepP 936 48292191063270381798713845598826539803940510913 609578508274139775201168389749417555115421489763 562630008606937664592408803082923621866903585640 47350201491350603841114503092595212953090136331 (by decide!)
  have e59 := hiStepP 935 562630008606937664592408803082923621866903585640 47350201491350603841114503092595212953090136331 41948549600838999181436768691731530405684640894 86042556709730983640108353276886253091272320373 (by decide!)
  have e60 := hiStepP 934 41948549600838999181436768691731530405684640894 86042556709730983640108353276886253091272320373 20002589269297053185125033759216012158131286957 71780037306380157120550803706973177783716435672 (by decide!)
  have e61 := hiStepP 933 20002589269297053185125033759216012158131286957 71780037306380157120550803706973177783716435672 785443286642945237072170236009682875481018967723 759446724237743366324012529928081772154331983987 (by decide!)
  have e62 := hiStepP 932 785443286642945237072170236009682875481018967723 759446724237743366324012529928081772154331983987 1288865662716223692230964271719109273838517458255 575280554370699605011131321691703435709033899324 (by decide!)
  have e63 := hiStepP 931 1288865662716223692230964271719109273838517458255 575280554370699605011131321691703435709033899324 672662028388920294647462806821351888671181704572 97572513984276966747455196719301821969090963520 (by decide!)
  have e64 := hiStepP 930 672662028388920294647462806821351888671181704572 97572513984276966747455196719301821969090963520 1032917818446024632925521677150496840281217755309 947579443992516942599708253032796266665070395629 (by decide!)
  have e65 := hiStepP 929 1032917818446024632925521677150496840281217755309 947579443992516942599708253032796266665070395629 917762178059592694525729478887005435630589029015 29862054589634721474260567959151775459871435386 (by decide!)
  have e66 := hiStepP 928 917762178059592694525729478887005435630589029015 29862054589634721474260567959151775459871435386 713098517087516863689544964031683977230013907481 695504324530549340577538998405084292495428642915 (by decide!)
  have e67 := hiStepP 927 713098517087516863689544964031683977230013907481 695504324530549340577538998405084292495428642915 881340271193954404398485886306592402452871376884 1299951224546397171004338703457885951766941042583 (by decide!)
  have e68 := hiStepP 926 881340271193954404398485886306592402452871376884 1299951224546397171004338703457885951766941042583 567136139040889098161000480723183026204952537630 735848598000314900850615329965283023912662085001 (by decide!)
  have e69 := hiStepP 925 567136139040889098161000480723183026204952537630 735848598000314900850615329965283023912662085001 17667565724580938075679080833610873684574543755 753512395437299942385127866220687692892507550210 (by decide!)
  have e70 := hiStepP 924 17667565724580938075679080833610873684574543755 753512395437299942385127866220687692892507550210 788160282946004574328427227153798521056406807860 56799846289612046290423212603005104075864348470 (by decide!)
  have e71 := hiStepP 923 788160282946004574328427227153798521056406807860 56799846289612046290423212603005104075864348470 1415818597395529501283797591610532743125402190776 1450384555761998844348844411376999765493526041742 (by decide!)
  have e72 := hiStepP 922 1415818597395529501283797591610532743125402190776 1450384555761998844348844411376999765493526041742 258456503717048411143288492594110181265190720937 1206223004027227550690853800381956071609487884583 (by decide!)
  have e73 := hiStepP 921 258456503717048411143288492594110181265190720937 1206223004027227550690853800381956071609487884583 1142626301073089331847648990303234508818426466588 156591273231321287298290536969806448658955964475 (by decide!)
  have e74 := hiStepP 920 1142626301073089331847648990303234508818426466588 156591273231321287298290536969806448658955964475 458677917777264571166067757417929529481618343573 429470531929773480243158637201857982246016538286 (by decide!)
  have e75 := hiStepP 919 458677917777264571166067757417929529481618343573 429470531929773480243158637201857982246016538286 357825801916712161021938701439136652892106798616 671328494991941322139371554014652566573846782134 (by decide!)
  have e76 := hiStepP 918 357825801916712161021938701439136652892106798616 671328494991941322139371554014652566573846782134 503262933325740762507635503057773187788297763905 260840494803351222340053044804753668252677840119 (by decide!)
  have e77 := hiStepP 917 503262933325740762507635503057773187788297763905 260840494803351222340053044804753668252677840119 13923444760221313542814228612606204690976377473 272607730806610495109304999053076758544685504118 (by decide!)
  have e78 := hiStepP 916 13923444760221313542814228612606204690976377473 272607730806610495109304999053076758544685504118 468914856607013643011779542668153305773652125914 718685578727477399767925106358720782296103108268 (by decide!)
  have e79 := hiStepP 915 468914856607013643011779542668153305773652125914 718685578727477399767925106358720782296103108268 983379407091721230618755835544769702419851697805 1196807836445955942516094600687432901967031132193 (by decide!)
  have e80 := hiStepP 914 983379407091721230618755835544769702419851697805 1196807836445955942516094600687432901967031132193 893325099705481571949298538952603389763906816887 444424328407809936139552850302544127485638126422 (by decide!)
  have e81 := hiStepP 913 893325099705481571949298538952603389763906816887 444424328407809936139552850302544127485638126422 1132008104569007403330445668820983189435235948111 796768225004181938138019498238633236128942226713 (by decide!)
  have e82 := hiStepP 912 1132008104569007403330445668820983189435235948111 796768225004181938138019498238633236128942226713 1169353122193002250877273566516507232106405385859 406850019759889010076444679292059276058323856282 (by decide!)
  have e83 := hiStepP 911 1169353122193002250877273566516507232106405385859 406850019759889010076444679292059276058323856282 353281515976054092790719742998558977692736749866 700120202072707062788851002305203319938879400624 (by decide!)
  have e84 := hiStepP 910 353281515976054092790719742998558977692736749866 700120202072707062788851002305203319938879400624 351891188940430552405943612496863288610263379298 405363561639673371789208236965312824245870299090 (by decide!)
  have e85 := hiStepP 909 351891188940430552405943612496863288610263379298 405363561639673371789208236965312824245870299090 372352563353439305665131037736008636690009323784 35547100988877572007511795361642326891107253978 (by decide!)
  have e86 := hiStepP 908 372352563353439305665131037736008636690009323784 35547100988877572007511795361642326891107253978 1279175790475544878205790075420580759827156029004 1313999399429198808064368920079395248590077505686 (by decide!)
  have e87 := hiStepP 907 1279175790475544878205790075420580759827156029004 1313999399429198808064368920079395248590077505686 47163946229601856196245546928153613721210494775 1361129017632659829524588502700233410899629027233 (by decide!)
  have e88 := hiStepP 906 47163946229601856196245546928153613721210494775 1361129017632659829524588502700233410899629027233 1293650721232292483407375329260050018723299905704 73914355287470062050514572448711888427525570313 (by decide!)
  have e89 := hiStepP 905 1293650721232292483407375329260050018723299905704 73914355287470062050514572448711888427525570313 1189242224030726598111096417595937652971585028019 1260194909948283031424239690248833204081950015674 (by decide!)
  have e90 := hiStepP 904 1189242224030726598111096417595937652971585028019 1260194909948283031424239690248833204081950015674 860942008519376765541692689308337767554636385188 424982647538594993719315770376351546753351699230 (by decide!)
  have e91 := hiStepP 903 860942008519376765541692689308337767554636385188 424982647538594993719315770376351546753351699230 594560543360906323680217585818944598832679936930 196021265864728193737150403323923603029566335164 (by decide!)
  have e92 := hiStepP 902 594560543360906323680217585818944598832679936930 196021265864728193737150403323923603029566335164 1039650699168963365014957202072729185062682147989 846679282523516529822139384939325133579169698857 (by decide!)
  have e93 := hiStepP 901 1039650699168963365014957202072729185062682147989 846679282523516529822139384939325133579169698857 265844266344537104486652306964680862969857904298 1066839076402179132787777967437939424696935848579 (by decide!)
  have e94 := hiStepP 900 265844266344537104486652306964680862969857904298 1066839076402179132787777967437939424696935848579 375542748390019740070347064006996964015546846189 1433522273883544799465590724578023020303264207214 (by decide!)
  have e95 := hiStepP 899 375542748390019740070347064006996964015546846189 1433522273883544799465590724578023020303264207214 41690457555135010208263823694873319015336255781 1440542623985751445029150877715004040376758136907 (by decide!)
  have e96 := hiStepP 898 41690457555135010208263823694873319015336255781 1440542623985751445029150877715004040376758136907 279094143357319038139038431785956129271360001252 1168718809488157787869177964200800936088426341551 (by decide!)
  have e97 := hiStepP 897 279094143357319038139038431785956129271360001252 1168718809488157787869177964200800936088426341551 525580740441230306989912635417747128305729289864 826219172860382685446374314802647384402429434407 (by decide!)
  have e98 := hiStepP 896 525580740441230306989912635417747128305729289864 826219172860382685446374314802647384402429434407 221281920797708218429048788415844265056768313755 1041766520755235167277973559139955729204610864060 (by decide!)
  have e99 := hiStepP 895 221281920797708218429048788415844265056768313755 1041766520755235167277973559139955729204610864060 1426038413643843733355495936977660593350605316662 455017001234950865815643509302536188008818585994 (by decide!)
  have t0 := e0
  have t1 := t0.trans e1
  have t2 := t1.trans e2
  have t3 := t2.trans e3
  have t4 := t3.trans e4
  have t5 := t4.trans e5
  have t6 := t5.trans e6
  have t7 := t6.trans e7
  have t8 := t7.trans e8
  have t9 := t8.trans e9
  have t10 := t9.trans e10
  have t11 := t10.trans e11
  have t12 := t11.trans e12
  have t13 := t12.trans e13
  have t14 := t13.trans e14
  have t15 := t14.trans e15
  have t16 := t15.trans e16
  have t17 := t16.trans e17
  have t18 := t17.trans e18
  have t19 := t18.trans e19
  have t20 := t19.trans e20
  have t21 := t20.trans e21
  have t22 := t21.trans e22
  have t23 := t22.trans e23
  have t24 := t23.trans e24
  have t25 := t24.trans e25
  have t26 := t25.trans e26
  have t27 := t26.trans e27
  have t28 := t27.trans e28
  have t29 := t28.trans e29
  have t30 := t29.trans e30
  have t31 := t30.trans e31
  have t32 := t31.trans e32
  have t33 := t32.trans e33
  have t34 := t33.trans e34
  have t35 := t34.trans e35
  have t36 := t35.trans e36
  have t37 := t36.trans e37
  have t38 := t37.trans e38
  have t39 := t38.trans e39
  have t40 := t39.trans e40
  have t41 := t40.trans e41
  have t42 := t41.trans e42
  have t43 := t42.trans e43
  have t44 := t43.trans e44
  have t45 := t44.trans e45
  have t46 := t45.trans e46
  have t47 := t46.trans e47
  have t48 := t47.trans e48
  have t49 := t48.trans e49
  have t50 := t49.trans e50
  have t51 := t50.trans e51
  have t52 := t51.trans e52
  have t53 := t52.trans e53
  have t54 := t53.trans e54
  have t55 := t54.trans e55
  have t56 := t55.trans e56
  have t57 := t56.trans e57
  have t58 := t57.trans e58
  have t59 := t58.trans e59
  have t60 := t59.trans e60
  have t61 := t60.trans e61
  have t62 := t61.trans e62
  have t63 := t62.trans e63
  have t64 := t63.trans e64
  have t65 := t64.trans e65
  have t66 := t65.trans e66
  have t67 := t66.trans e67
  have t68 := t67.trans e68
  have t69 := t68.trans e69
  have t70 := t69.trans e70
  have t71 := t70.trans e71
  have t72 := t71.trans e72
  have t73 := t72.trans e73
  have t74 := t73.trans e74
  have t75 := t74.trans e75
  have t76 := t75.trans e76
  have t77 := t76.trans e77
  have t78 := t77.trans e78
  have t79 := t78.trans e79
  have t80 := t79.trans e80
  have t81 := t80.trans e81
  have t82 := t81.trans e82
  have t83 := t82.trans e83
  have t84 := t83.trans e84
  have t85 := t84.trans e85
  have t86 := t85.trans e86
  have t87 := t86.trans e87
  have t88 := t87.trans e88
  have t89 := t88.trans e89
  have t90 := t89.trans e90
  have t91 := t90.trans e91
  have t92 := t91.trans e92
  have t93 := t92.trans e93
  have t94 := t93.trans e94
  have t95 := t94.trans e95
  have t96 := t95.trans e96
  have t97 := t96.trans e97
  have t98 := t97.trans e98
  have t99 := t98.trans e99
  exact t99

theorem hiChainSeg32 : hiLoop SHA_1 (strBytes "pencil") 895
    (unpackBytes 20 1426038413643843733355495936977660593350605316662)
    (unpackBytes 20 455017001234950865815643509302536188008818585994) =
    hiLoop SHA_1 (strBytes "pencil") 795
      (unpackBytes 20 871713159661938652064279851976846866538506602123)
      (unpackBytes 20 43635866825972041715759347921155042667613219300) := by
  have e0 := hiStepP 894 1426038413643843733355495936977660593350605316662 455017001234950865815643509302536188008818585994 463008781866804700115833712998149206066337737989 175052760822059588202085693359369974336252304527 (by decide!)
  have e1 := hiStepP 893 463008781866804700115833712998149206066337737989 175052760822059588202085693359369974336252304527 1329613220736114717587179077145582136346234474093 1406112868881112507518294617634636806532328198882 (by decide!)
  have e2 := hiStepP 892 1329613220736114717587179077145582136346234474093 1406112868881112507518294617634636806532328198882 904981288526397096470075833211967875043087226508 598207355767992568717296747746469509630156342382 (by decide!)
  have e3 := hiStepP 891 904981288526397096470075833211967875043087226508 598207355767992568717296747746469509630156342382 1432179919616579280142429775061976603176245684362 833994958725397434436194565264957066487107448036 (by decide!)
  have e4 := hiStepP 890 1432179919616579280142429775061976603176245684362 833994958725397434436194565264957066487107448036 1073544740941276547218315818605267427664493321140 263300164435512954821263138576096616727032952656 (by decide!)
  have e5 := hiStepP 889 1073544740941276547218315818605267427664493321140 263300164435512954821263138576096616727032952656 330119246568140382766643608706693342832624584175 135895753447241495002134106105913212566157800127 (by decide!)
  have e6 := hiStepP 888 330119246568140382766643608706693342832624584175 135895753447241495002134106105913212566157800127 665538400306389869486161539285798430925042294583 567286408327736316411144496020546677634847681928 (by decide!)
  have e7 := hiStepP 887 665538400306389869486161539285798430925042294583 567286408327736316411144496020546677634847681928 814054674154878640812167929659110043827835184352 1357523869894179793540085672194013636334998784360 (by decide!)
  have e8 := hiStepP 886 814054674154878640812167929659110043827835184352 1357523869894179793540085672194013636334998784360 33100393573711386115415840153742057829779480270 1324602602322214627876144045806852880764118079398 (by decide!)
  have e9 := hiStepP 885 33100393573711386115415840153742057829779480270 1324602602322214627876144045806852880764118079398 981161723671254326527626541197906817613196157169 387362207556201866991488022972082638207482492759 (by decide!)
  have e10 := hiStepP 884 981161723671254326527626541197906817613196157169 387362207556201866991488022972082638207482492759 812167340780197567710335047067671244389741474256 1173804930616961406467433693503705407800878417543 (by decide!)
  have e11 := hiStepP 883 812167340780197567710335047067671244389741474256 1173804930616961406467433693503705407800878417543 1116109309285163118805974535373093522268556417230 80531585544989781255499221901906822819829325385 (by decide!)
  have e12 := hiStepP 882 1116109309285163118805974535373093522268556417230 80531585544989781255499221901906822819829325385 872897712034957220026163052740335570908958559800 861996196643511839379938984403684207872457511025 (by decide!)
  have e13 := hiStepP 881 872897712034957220026163052740335570908958559800 861996196643511839379938984403684207872457511025 81804031089742651655206406869470606170261715523 871536051258582188834741746414307545512973527602 (by decide!)
  have e14 := hiStepP 880 81804031089742651655206406869470606170261715523 871536051258582188834741746414307545512973527602 1350619327267746056739538148117956428140231576810 663555424603478630801301051901750122899742762712 (by decide!)
  have e15 := hiStepP 879 1350619327267746056739538148117956428140231576810 663555424603478630801301051901750122899742762712 969468727041499482194597086768976891457406576585 1266919405198830317832632433186957027549767827729 (by decide!)
  have e16 := hiStepP 878 969468727041499482194597086768976891457406576585 1266919405198830317832632433186957027549767827729 1249872494896269624498384406525596717342509689449 40065473056854058056113786646891457407920794488 (by decide!)
  have e17 := hiStepP 877 1249872494896269624498384406525596717342509689449 40065473056854058056113786646891457407920794488 818547799850553648864323213121097007290939303694 778662138190588470731617570092497642584768318582 (by decide!)
  have e18 := hiStepP 876 818547799850553648864323213121097007290939303694 778662138190588470731617570092497642584768318582 568380044811537600364875081925494714415641413446 1346861876156686049575496331236883174520110664496 (by decide!)
  have e19 := hiStepP 875 568380044811537600364875081925494714415641413446 1346861876156686049575496331236883174520110664496 607008621531414337420939274039839888652658661226 740570565092205416249631676911021826382096931930 (by decide!)
  have e20 := hiStepP 874 607008621531414337420939274039839888652658661226 740570565092205416249631676911021826382096931930 1016953191798036011408567910680871861218818252007 294583716047677335091046776833088088176414900413 (by decide!)
  have e21 := hiStepP 873 1016953191798036011408567910680871861218818252007 294583716047677335091046776833088088176414900413 1386291389755108718529341802454154167551472630159 1103505293326812413341001138745679248564668184882 (by decide!)
  have e22 := hiStepP 872 1386291389755108718529341802454154167551472630159 1103505293326812413341001138745679248564668184882 1115072614566036743128258468052309181677173159577 12030412887207422452421924793743427354713558955 (by decide!)
  have e23 := hiStepP 871 1115072614566036743128258468052309181677173159577 12030412887207422452421924793743427354713558955 409565906646095518043632515847621711063325442921 397642179146476304374421093019891991288635657410 (by decide!)
  have e24 := hiStepP 870 409565906646095518043632515847621711063325442921 397642179146476304374421093019891991288635657410 350654331728985709339061150339917479170547573833 689651071700394614167683318380445555976182032523 (by decide!)
  have e25 := hiStepP 869 350654331728985709339061150339917479170547573833 689651071700394614167683318380445555976182032523 704978124288397987733752947764564966614639793391 21080645561823208225216610260226771109163220068 (by decide!)
  have e26 := hiStepP 868 704978124288397987733752947764564966614639793391 21080645561823208225216610260226771109163220068 86753908645880353857086493168917964486274661445 71438343363060191485658070555313876516743249953 (by decide!)
  have e27 := hiStepP 867 86753908645880353857086493168917964486274661445 71438343363060191485658070555313876516743249953 954646981237341784032479804928431652290649282427 980268113762352699503964291480958152631390295898 (by decide!)
  have e28 := hiStepP 866 954646981237341784032479804928431652290649282427 980268113762352699503964291480958152631390295898 332848474710390370843053048959089159268152795323 833374582732142198267502520545930348706057795553 (by decide!)
  have e29 := hiStepP 865 332848474710390370843053048959089159268152795323 833374582732142198267502520545930348706057795553 1303590106390639332568561569355607949807135129960 671850331069705780071082245697757441482608817801 (by decide!)
  have e30 := hiStepP 864 1303590106390639332568561569355607949807135129960 671850331069705780071082245697757441482608817801 1122236342071233449872232478962860399338227639641 1011832103150949897526486305491546675680550654928 (by decide!)
  have e31 := hiStepP 863 1122236342071233449872232478962860399338227639641 1011832103150949897526486305491546675680550654928 286783507758231159061927358174964908773335371724 748051999264491514714240577666044034250268023836 (by decide!)
  have e32 := hiStepP 862 286783507758231159061927358174964908773335371724 748051999264491514714240577666044034250268023836 1264859334874494619924161440750867662339569467259 539712770837825286913585859785250722649532310375 (by decide!)
  have e33 := hiStepP 861 1264859334874494619924161440750867662339569467259 539712770837825286913585859785250722649532310375 1379140543059983572321486818936413177106771849790 999681408088338673208241702173705324680877773145 (by decide!)
  have e34 := hiStepP 860 1379140543059983572321486818936413177106771849790 999681408088338673208241702173705324680877773145 922664589999197138629295454106682786556050703695 82935583444766883686394996894284432014079005718 (by decide!)
  have e35 := hiStepP 859 922664589999197138629295454106682786556050703695 82935583444766883686394996894284432014079005718 63985905421607082249213986604505770944518279141 32554897559811800843804895734421110655516695539 (by decide!)
  have e36 := hiStepP 858 63985905421607082249213986604505770944518279141 32554897559811800843804895734421110655516695539 413406932018027697370396128891215787414046815837 444453956485038796841060320149930951745940417966 (by decide!)
  have e37 := hiStepP 857 413406932018027697370396128891215787414046815837 444453956485038796841060320149930951745940417966 1156960062886097474122535652267573779833004856610 773521132079263099323037090291247000141145012364 (by decide!)
  have e38 := hiStepP 856 1156960062886097474122535652267573779833004856610 773521132079263099323037090291247000141145012364 1187438260436335534855587057548172429425878603078 413978633714330628870376770084177199331009818058 (by decide!)
  have e39 := hiStepP 855 1187438260436335534855587057548172429425878603078 413978633714330628870376770084177199331009818058 484373784871620630972840200434222217696755579046 161889819512152454351688680149676940056081012076 (by decide!)
  have e40 := hiStepP 854 484373784871620630972840200434222217696755579046 161889819512152454351688680149676940056081012076 1332852486046061811537812692364057760189491331362 1399690926730327901993315540400799085037132665934 (by decide!)
  have e41 := hiStepP 853 1332852486046061811537812692364057760189491331362 1399690926730327901993315540400799085037132665934 1367026958662825501114912987631568765876915189912 150570817516093913213965373028192007259571612886 (by decide!)
  have e42 := hiStepP 852 1367026958662825501114912987631568765876915189912 150570817516093913213965373028192007259571612886 1069524886123609103593454809591918428601329745349 919347144573059233767387401692508180417944391955 (by decide!)
  have e43 := hiStepP 851 1069524886123609103593454809591918428601329745349 919347144573059233767387401692508180417944391955 579096660157191459618630344443217448358078131779 1121267881199003086319706869245032138077250502480 (by decide!)
  have e44 := hiStepP 850 579096660157191459618630344443217448358078131779 1121267881199003086319706869245032138077250502480 1413646888304212284651133779414934759951055484408 296722078764007276179430183869965606562285210280 (by decide!)
  have e45 := hiStepP 849 1413646888304212284651133779414934759951055484408 296722078764007276179430183869965606562285210280 1084346289743457353195403075281061733706242520265 811183909826591452924283987720345875370150149729 (by decide!)
  have e46 := hiStepP 848 1084346289743457353195403075281061733706242520265 811183909826591452924283987720345875370150149729 425201238139703778279386636677541626234624315122 1121372092517966604741168803615586141533605179539 (by decide!)
  have e47 := hiStepP 847 425201238139703778279386636677541626234624315122 1121372092517966604741168803615586141533605179539 99009253206182624641247537439803019775716070655 1217345604682244289937097409116099397155546473580 (by decide!)
  have e48 := hiStepP 846 99009253206182624641247537439803019775716070655 1217345604682244289937097409116099397155546473580 1012810289194581551491030952743145470164306675129 572957877534547651061084736274337274057308692949 (by decide!)
  have e49 := hiStepP 845 1012810289194581551491030952743145470164306675129 572957877534547651061084736274337274057308692949 1239569216271028818763769853198805468740774368675 1081773379507302923610493630332403819818675827830 (by decide!)
  have e50 := hiStepP 844 1239569216271028818763769853198805468740774368675 1081773379507302923610493630332403819818675827830 638417994054844813030931062420306666863885869180 1202807616093890336056570586359029882297243636746 (by decide!)
  have e51 := hiStepP 843 638417994054844813030931062420306666863885869180 1202807616093890336056570586359029882297243636746 1413457649252401790526692905235917227350931356536 212534493810859908667082848900325600167852420978 (by decide!)
  have e52 := hiStepP 842 1413457649252401790526692905235917227350931356536 212534493810859908667082848900325600167852420978 957296130171574262781845795298876917809370657226 745486467747833898130782707820566261215803662008 (by decide!)
  have e53 := hiStepP 841 957296130171574262781845795298876917809370657226 745486467747833898130782707820566261215803662008 690703398371482693468924847020585707318364262980 1429588126778392397490252633867671605647683357948 (by decide!)
  have e54 := hiStepP 840 690703398371482693468924847020585707318364262980 1429588126778392397490252633867671605647683357948 51900103950583605006826133784465218120126287192 1390132731549891420795530682428555806812564079012 (by decide!)
  have e55 := hiStepP 839 51900103950583605006826133784465218120126287192 1390132731549891420795530682428555806812564079012 705544588488476294450507111395279448220405670657 781641429246294228706648916952760300235669824165 (by decide!)
  have e56 := hiStepP 838 705544588488476294450507111395279448220405670657 781641429246294228706648916952760300235669824165 1423540053703410632156111454789335081502921975293 649124334725862909273238916733217080712642234200 (by decide!)
  have e57 := hiStepP 837 1423540053703410632156111454789335081502921975293 649124334725862909273238916733217080712642234200 129163507748670424024346514199147009333769105433 589015095442657405150036608040627415579856238401 (by decide!)
  have e58 := hiStepP 836 129163507748670424024346514199147009333769105433 589015095442657405150036608040627415579856238401 254355157203423697223582887791091811147657343358 431786304719025663673988007522634047760195978815 (by decide!)
  have e59 := hiStepP 835 254355157203423697223582887791091811147657343358 431786304719025663673988007522634047760195978815 88641648851586825825378245309873985589402266175 389084197123599524278884181354936864079998938112 (by decide!)
  have e60 := hiStepP 834 88641648851586825825378245309873985589402266175 389084197123599524278884181354936864079998938112 247093875831599729540579650211754045742604137630 636177636521581836599460186905052102907237521566 (by decide!)
  have e61 := hiStepP 833 247093875831599729540579650211754045742604137630 636177636521581836599460186905052102907237521566 615549472584464484220420688730127516141760842801 27050845971512736220198063049941662499451229359 (by decide!)
  have e62 := hiStepP 832 615549472584464484220420688730127516141760842801 27050845971512736220198063049941662499451229359 101952399977461472053161154202571526642530141905 122179193756843880791330273829252377453427069566 (by decide!)
  have e63 := hiStepP 831 101952399977461472053161154202571526642530141905 122179193756843880791330273829252377453427069566 951881099267688904015872535848985308505020209238 1026846827773151603183077484982426000118822734376 (by decide!)
  have e64 := hiStepP 830 951881099267688904015872535848985308505020209238 1026846827773151603183077484982426000118822734376 17453384916627426129333739314241541048178617216 1009504946864815722821023156791696481021489357224 (by decide!)
  have e65 := hiStepP 829 17453384916627426129333739314241541048178617216 1009504946864815722821023156791696481021489357224 296985870802662776863249688096665558742955417657 758371243335801029462585916009792479494654378385 (by decide!)
  have e66 := hiStepP 828 296985870802662776863249688096665558742955417657 758371243335801029462585916009792479494654378385 1161215770815939818667197766809133841620026896041 454940571142450648427444247690813783853807333176 (by decide!)
  have e67 := hiStepP 827 1161215770815939818667197766809133841620026896041 454940571142450648427444247690813783853807333176 868449445431175305738027765395982355696321164555 1231327551811863441957316365320954314477905615411 (by decide!)
  have e68 := hiStepP 826 868449445431175305738027765395982355696321164555 1231327551811863441957316365320954314477905615411 260082483921336624320208996613154615450445045351 1427964401750151567996334074893770917398070150228 (by decide!)
  have e69 := hiStepP 825 260082483921336624320208996613154615450445045351 1427964401750151567996334074893770917398070150228 1374332287131811376240150153125181440135722407450 60548223823433035524014853419499711488065032782 (by decide!)
  have e70 := hiStepP 824 1374332287131811376240150153125181440135722407450 60548223823433035524014853419499711488065032782 856422073817727742266035741177254821434929577299 894000007327877586581475929934292666517211164445 (by decide!)
  have e71 := hiStepP 823 856422073817727742266035741177254821434929577299 894000007327877586581475929934292666517211164445 905371108864499746316317820233638557852218155474 11739107441754338710925114563007745886223486671 (by decide!)
  have e72 := hiStepP 822 905371108864499746316317820233638557852218155474 11739107441754338710925114563007745886223486671 950152730534502606687010924274998189607661111517 938419906108948015357206278073700857282255308306 (by decide!)
  have e73 := hiStepP 821 950152730534502606687010924274998189607661111517 938419906108948015357206278073700857282255308306 477792332987550685831656986289702087915858995388 1414776592844017934025170050459028107825775931054 (by decide!)
  have e74 := hiStepP 820 477792332987550685831656986289702087915858995388 1414776592844017934025170050459028107825775931054 1396864631906115335097122597042096790855937599624 19922000723660061269308857771546618011471758886 (by decide!)
  have e75 := hiStepP 819 1396864631906115335097122597042096790855937599624 19922000723660061269308857771546618011471758886 1414627441291364165157037897289538714677946362619 1397080687722696431356399146961454903174714027229 (by decide!)
  have e76 := hiStepP 818 1414627441291364165157037897289538714677946362619 1397080687722696431356399146961454903174714027229 463364863797984150653807247671799049811668669387 945523372481021114915298600092267574434167815958 (by decide!)
  have e77 := hiStepP 817 463364863797984150653807247671799049811668669387 945523372481021114915298600092267574434167815958 1160104928077885178569149452600825613507035642096 631788078171333546973475968991655227306480486374 (by decide!)
  have e78 := hiStepP 816 1160104928077885178569149452600825613507035642096 631788078171333546973475968991655227306480486374 215786067610530990903248847561738077500586968205 430459254441446073229837259166418458942805246827 (by decide!)
  have e79 := hiStepP 815 215786067610530990903248847561738077500586968205 430459254441446073229837259166418458942805246827 1456029881837660979346553747506001132818562928086 1030045523000329178795145327307161136294848351933 (by decide!)
  have e80 := hiStepP 814 1456029881837660979346553747506001132818562928086 1030045523000329178795145327307161136294848351933 751671748248761958277644445842845479066407955733 318431538697583819327632113134946345566524253096 (by decide!)
  have e81 := hiStepP 813 751671748248761958277644445842845479066407955733 318431538697583819327632113134946345566524253096 727287271044972493803372246895642610977308747825 414666211058348736098923236343996603419084491673 (by decide!)
  have e82 := hiStepP 812 727287271044972493803372246895642610977308747825 414666211058348736098923236343996603419084491673 355738728479865034493028552514288005946772875156 678960731000266941518142169370632396683202554893 (by decide!)
  have e83 := hiStepP 811 355738728479865034493028552514288005946772875156 678960731000266941518142169370632396683202554893 1151784787487652469085328034181091453120734599893 1092256188108708855011817958896120158029556807384 (by decide!)
  have e84 := hiStepP 810 1151784787487652469085328034181091453120734599893 1092256188108708855011817958896120158029556807384 330636653037423605175127460796761820313752532618 769112694349948186745761147662393300123707867218 (by decide!)
  have e85 := hiStepP 809 330636653037423605175127460796761820313752532618 769112694349948186745761147662393300123707867218 492491566416269370935481427424883500073519978088 1193092772513042064034105369373006416997645358650 (by decide!)
  have e86 := hiStepP 808 492491566416269370935481427424883500073519978088 1193092772513042064034105369373006416997645358650 240731423753499848633231303751876151805266663277 1432039946624167578081351675288475960259020161367 (by decide!)
  have e87 := hiStepP 807 240731423753499848633231303751876151805266663277 1432039946624167578081351675288475960259020161367 1280699972792841894104730764426370537436997039733 151343206030026168629928948789987794141271078690 (by decide!)
  have e88 := hiStepP 806 1280699972792841894104730764426370537436997039733 151343206030026168629928948789987794141271078690 544952985214922638214876859403932574493030617981 399428621977854805566752831440168543435066352735 (by decide!)
  have e89 := hiStepP 805 544952985214922638214876859403932574493030617981 399428621977854805566752831440168543435066352735 1408309768598538996886415229923463319120836810562 1023876430261028946771668668952097644847006053149 (by decide!)
  have e90 := hiStepP 804 1408309768598538996886415229923463319120836810562 1023876430261028946771668668952097644847006053149 580050203475973589223385408352859204653352704588 1226059883890775285694715751579941465241283602769 (by decide!)
  have e91 := hiStepP 803 580050203475973589223385408352859204653352704588 1226059883890775285694715751579941465241283602769 372244853878177706633178759784701821873540271272 867552334652743240381740127445013352258116888057 (by decide!)
  have e92 := hiStepP 802 372244853878177706633178759784701821873540271272 867552334652743240381740127445013352258116888057 1306645615879421801423902248758338708337615839021 657032955561683705081252961229229064397136313044 (by decide!)
  have e93 := hiStepP 801 1306645615879421801423902248758338708337615839021 657032955561683705081252961229229064397136313044 820172928408695801994108785722331453761671979450 1442940716805009040633663733359288427240963398510 (by decide!)
  have e94 := hiStepP 800 820172928408695801994108785722331453761671979450 1442940716805009040633663733359288427240963398510 1128988464901098332854012189023157020248934869657 328225584997356256225918796045980122706342654455 (by decide!)
  have e95 := hiStepP 799 1128988464901098332854012189023157020248934869657 328225584997356256225918796045980122706342654455 1363754912392120259771738568991642743489143371936 1230973808552838498811554398366623987259840186711 (by decide!)
  have e96 := hiStepP 798 1363754912392120259771738568991642743489143371936 1230973808552838498811554398366623987259840186711 1309184082583769238518656096276702706577050721998 290068446915003598352095558477285232090814388121 (by decide!)
  have e97 := hiStepP 797 1309184082583769238518656096276702706577050721998 290068446915003598352095558477285232090814388121 1269284286079954170229355281365677810155206521163 1350794069459891197655927603939774899191452280530 (by decide!)
  have e98 := hiStepP 796 1269284286079954170229355281365677810155206521163 1350794069459891197655927603939774899191452280530 659744553815584853030292182595743817707122100669 908182124297635740271564663378286169802428428143 (by decide!)
  have e99 := hiStepP 795 659744553815584853030292182595743817707122100669 908182124297635740271564663378286169802428428143 871713159661938652064279851976846866538506602123 43635866825972041715759347921155042667613219300 (by decide!)
  have t0 := e0
  have t1 := t0.trans e1
  have t2 := t1.trans e2
  have t3 := t2.trans e3
  have t4 := t3.trans e4
  have t5 := t4.trans e5
  have t6 := t5.trans e6
  have t7 := t6.trans e7
  have t8 := t7.trans e8
  have t9 := t8.trans e9
  have t10 := t9.trans e10
  have t11 := t10.trans e11
  have t12 := t11.trans e12
  have t13 := t12.trans e13
  have t14 := t13.trans e14
  have t15 := t14.trans e15
  have t16 := t15.trans e16
  have t17 := t16.trans e17
  have t18 := t17.trans e18
  have t19 := t18.trans e19
  have t20 := t19.trans e20
  have t21 := t20.trans e21
  have t22 := t21.trans e22
  have t23 := t22.trans e23
  have t24 := t23.trans e24
  have t25 := t24.trans e25
  have t26 := t25.trans e26
  have t27 := t26.trans e27
  have t28 := t27.trans e28
  have t29 := t28.trans e29
  have t30 := t29.trans e30
  have t31 := t30.trans e31
  have t32 := t31.trans e32
  have t33 := t32.trans e33
  have t34 := t33.trans e34
  have t35 := t34.trans e35
  have t36 := t35.trans e36
  have t37 := t36.trans e37
  have t38 := t37.trans e38
  have t39 := t38.trans e39
  have t40 := t39.trans e40
  have t41 := t40.trans e41
  have t42 := t41.trans e42
  have t43 := t42.trans e43
  have t44 := t43.trans e44
  have t45 := t44.trans e45
  have t46 := t45.trans e46
  have t47 := t46.trans e47
  have t48 := t47.trans e48
  have t49 := t48.trans e49
  have t50 := t49.trans e50
  have t51 := t50.trans e51
  have t52 := t51.trans e52
  have t53 := t52.trans e53
  have t54 := t53.trans e54
  have t55 := t54.trans e55
  have t56 := t55.trans e56
  have t57 := t56.trans e57
  have t58 := t57.trans e58
  have t59 := t58.trans e59
  have t60 := t59.trans e60
  have t61 := t60.trans e61
  have t62 := t61.trans e62
  have t63 := t62.trans e63
  have t64 := t63.trans e64
  have t65 := t64.trans e65
  have t66 := t65.trans e66
  have t67 := t66.trans e67
  have t68 := t67.trans e68
  have t69 := t68.trans e69
  have t70 := t69.trans e70
  have t71 := t70.trans e71
  have t72 := t71.trans e72
  have t73 := t72.trans e73
  have t74 := t73.trans e74
  have t75 := t74.trans e75
  have t76 := t75.trans e76
  have t77 := t76.trans e77
  have t78 := t77.trans e78
  have t79 := t78.trans e79
  have t80 := t79.trans e80
  have t81 := t80.trans e81
  have t82 := t81.trans e82
  have t83 := t82.trans e83
  have t84 := t83.trans e84
  have t85 := t84.trans e85
  have t86 := t85.trans e86
  have t87 := t86.trans e87
  have t88 := t87.trans e88
  have t89 := t88.trans e89
  have t90 := t89.trans e90
  have t91 := t90.trans e91
  have t92 := t91.trans e92
  have t93 := t92.trans e93
  have t94 := t93.trans e94
  have t95 := t94.trans e95
  have t96 := t95.trans e96
  have t97 := t96.trans e97
  have t98 := t97.trans e98
  have t99 := t98.trans e99
  exact t99

theorem hiChainSeg33 : hiLoop SHA_1 (strBytes "pencil") 795
    (unpackBytes 20 871713159661938652064279851976846866538506602123)
    (unpackBytes 20 43635866825972041715759347921155042667613219300) =
    hiLoop SHA_1 (strBytes "pencil") 695
      (unpackBytes 20 1026521127474697122045094490907267118150233076642)
      (unpackBytes 20 979456195084940062446051372728022924023218421055) := by
  have e0 := hiStepP 794 871713159661938652064279851976846866538506602123 43635866825972041715759347921155042667613219300 758750376611268649901154481032502929866530189566 749376821283856705724075798519745803194841045274 (by decide!)
  have e1 := hiStepP 793 758750376611268649901154481032502929866530189566 749376821283856705724075798519745803194841045274 7412472269479542668344475092665109266068615896 742511239993652335326073781291888590850456890306 (by decide!)
  have e2 := hiStepP 792 7412472269479542668344475092665109266068615896 742511239993652335326073781291888590850456890306 1333493142053919003269388052693534545199624998366 614357441370542235764160501279625863605617747484 (by decide!)
  have e3 := hiStepP 791 1333493142053919003269388052693534545199624998366 614357441370542235764160501279625863605617747484 966272168148875947871612258215458074282555894343 1112486084672605935292768942569579838990630292571 (by decide!)
  have e4 := hiStepP 790 966272168148875947871612258215458074282555894343 1112486084672605935292768942569579838990630292571 677164218707914015495635617201006979030948312305 1029056906248042984019746160640198836816399595690 (by decide!)
  have e5 := hiStepP 789 677164218707914015495635617201006979030948312305 1029056906248042984019746160640198836816399595690 1221998995733367264986353110253867966095935753752 561194546417384154896238367712600534948586010290 (by decide!)
  have e6 := hiStepP 788 1221998995733367264986353110253867966095935753752 561194546417384154896238367712600534948586010290 530363248796048434294544074259492784155084740663 357762051619797483258372506756116308901507198597 (by decide!)
  have e7 := hiStepP 787 530363248796048434294544074259492784155084740663 357762051619797483258372506756116308901507198597 1214269041829519816037633486631150967403595850852 1336509972108666756183261657230890065963291970273 (by decide!)
  have e8 := hiStepP 786 1214269041829519816037633486631150967403595850852 1336509972108666756183261657230890065963291970273 1152900357469583234926837469117186169246574359921 205054744439398431559734603963773210408693383056 (by decide!)
  have e9 := hiStepP 785 1152900357469583234926837469117186169246574359921 205054744439398431559734603963773210408693383056 1208083030586658451200484261336335234488453396419 1372803915383614045353891068933880783864858724435 (by decide!)
  have e10 := hiStepP 784 1208083030586658451200484261336335234488453396419 1372803915383614045353891068933880783864858724435 403866476782265764847475294080365402238376629903 1043571026069330363298959168933912290791544495836 (by decide!)
  have e11 := hiStepP 783 403866476782265764847475294080365402238376629903 1043571026069330363298959168933912290791544495836 1118262902899771570136191671246402534984623401176 668932047115507979410806260502130295726960260612 (by decide!)
  have e12 := hiStepP 782 1118262902899771570136191671246402534984623401176 668932047115507979410806260502130295726960260612 45365423809767167925902601974204557304096821821 655679783854835509859921522799612017694733280313 (by decide!)
  have e13 := hiStepP 781 45365423809767167925902601974204557304096821821 655679783854835509859921522799612017694733280313 324261489616762194836981373837968264446875578591 422951888745016629124252522886030134237255701734 (by decide!)
  have e14 := hiStepP 780 324261489616762194836981373837968264446875578591 422951888745016629124252522886030134237255701734 851421356933550508044405670536190571659571654448 1274328371897969616137229008465115957673283189718 (by decide!)
  have e15 := hiStepP 779 851421356933550508044405670536190571659571654448 1274328371897969616137229008465115957673283189718 463792875670408203729069730436858378868662241152 810942671473336064585826080938029182886760610902 (by decide!)
  have e16 := hiStepP 778 463792875670408203729069730436858378868662241152 810942671473336064585826080938029182886760610902 199838494276846977836962011002493194201331771556 987900382958422947313078017749199671804718437618 (by decide!)
  have e17 := hiStepP 777 199838494276846977836962011002493194201331771556 987900382958422947313078017749199671804718437618 1395280920792102767636914561462183839562685038407 510518703831678756197282991699712704749624257461 (by decide!)
  have e18 := hiStepP 776 1395280920792102767636914561462183839562685038407 510518703831678756197282991699712704749624257461 593773010316261567281888187399174974449866433977 282188114070475826102017471061026625942626799116 (by decide!)
  have e19 := hiStepP 775 593773010316261567281888187399174974449866433977 282188114070475826102017471061026625942626799116 1434626530639779356419632369804084650385166063179 1154088677247664728784395465943995904463075596359 (by decide!)
  have e20 := hiStepP 774 1434626530639779356419632369804084650385166063179 1154088677247664728784395465943995904463075596359 1028313554001723508515517454282381946981359571732 720582802850485316491840861683397137600005573459 (by decide!)
  have e21 := hiStepP 773 1028313554001723508515517454282381946981359571732 720582802850485316491840861683397137600005573459 1261764757576450063874001704886442984763356429943 931891167134830115917331458994409515669313402148 (by decide!)
  have e22 := hiStepP 772 1261764757576450063874001704886442984763356429943 931891167134830115917331458994409515669313402148 1234797228721798640514066555870917964970769689624 704732203688108875671404891947029409298455927100 (by decide!)
  have e23 := hiStepP 771 1234797228721798640514066555870917964970769689624 704732203688108875671404891947029409298455927100 465639549855879854285220137937128692828996996680 245457948735426006008536104885350807203575928692 (by decide!)
  have e24 := hiStepP 770 465639549855879854285220137937128692828996996680 245457948735426006008536104885350807203575928692 110077504322744881022042773023821840235733519441 329487659987894557103133118085861503814609115941 (by decide!)
  have e25 := hiStepP 769 110077504322744881022042773023821840235733519441 329487659987894557103133118085861503814609115941 1244286964624841561969622069243141972418725297790 1280363578307812500174549114399231296908271920475 (by decide!)
  have e26 := hiStepP 768 1244286964624841561969622069243141972418725297790 1280363578307812500174549114399231296908271920475 433702743944697092341400106658436935890440093568 980220400591971482451055804606494448430851119835 (by decide!)
  have e27 := hiStepP 767 433702743944697092341400106658436935890440093568 980220400591971482451055804606494448430851119835 727182881641471296415673393220019043272141333405 1215002467454490686453879609008764894347281905990 (by decide!)
  have e28 := hiStepP 766 727182881641471296415673393220019043272141333405 1215002467454490686453879609008764894347281905990 761689115904434526698162707949924333484477628025 466571525692493293931507208465767456087384819519 (by decide!)
  have e29 := hiStepP 765 761689115904434526698162707949924333484477628025 466571525692493293931507208465767456087384819519 493046550221564833162071560400094356697073439327 45074217448498819457016756710958364982091273568 (by decide!)
  have e30 := hiStepP 764 493046550221564833162071560400094356697073439327 45074217448498819457016756710958364982091273568 604249282119901047881684413994486178445842519994 629110574526790540224190991425686015014778716890 (by decide!)
  have e31 := hiStepP 763 604249282119901047881684413994486178445842519994 629110574526790540224190991425686015014778716890 1033815065631295323238877900504522828599835353548 1251151761237312321190429986577810660531198337814 (by decide!)
  have e32 := hiStepP 762 1033815065631295323238877900504522828599835353548 1251151761237312321190429986577810660531198337814 132388722814185860823741079204877406197836700844 1165148589159233387792292243176722573301873770426 (by decide!)
  have e33 := hiStepP 761 132388722814185860823741079204877406197836700844 1165148589159233387792292243176722573301873770426 1303209218772028370851944499757963692957518355017 230210418316263208749466137886331987056710690291 (by decide!)
  have e34 := hiStepP 760 1303209218772028370851944499757963692957518355017 230210418316263208749466137886331987056710690291 1036892498160302856225295269365492357479620596919 900886328743760382561207384610129313642531942724 (by decide!)
  have e35 := hiStepP 759 1036892498160302856225295269365492357479620596919 900886328743760382561207384610129313642531942724 388100277878993812379182264821554714898602357750 1268603625857743748073403527424253969738089169586 (by decide!)
  have e36 := hiStepP 758 388100277878993812379182264821554714898602357750 1268603625857743748073403527424253969738089169586 276426358232178771881293675131243598597148942011 1360819834335343711973922385924832419264552344585 (by decide!)
  have e37 := hiStepP 757 276426358232178771881293675131243598597148942011 1360819834335343711973922385924832419264552344585 1311604659789686996089408955812158182002566418407 67864522613314595738287821887398855194548720622 (by decide!)
  have e38 := hiStepP 756 1311604659789686996089408955812158182002566418407 67864522613314595738287821887398855194548720622 503588410306371347839806138649816780117000125489 478630610779235123067170725360057631313580634079 (by decide!)
  have e39 := hiStepP 755 503588410306371347839806138649816780117000125489 478630610779235123067170725360057631313580634079 1342731782489761304075636901927786557461956197475 1055553255374450420405109068625632724439239578556 (by decide!)
  have e40 := hiStepP 754 1342731782489761304075636901927786557461956197475 1055553255374450420405109068625632724439239578556 585308731667582655213339770329131183575161523405 1269592892117325198045142658592441990296568012657 (by decide!)
  have e41 := hiStepP 753 585308731667582655213339770329131183575161523405 1269592892117325198045142658592441990296568012657 1065224001112040892684588385940971190401877801308 576357919642826476660727846829278537147207050797 (by decide!)
  have e42 := hiStepP 752 1065224001112040892684588385940971190401877801308 576357919642826476660727846829278537147207050797 662552141625699736340613008121447931774323710068 96898645331450533994966976025582167615508987481 (by decide!)
  have e43 := hiStepP 751 662552141625699736340613008121447931774323710068 96898645331450533994966976025582167615508987481 3905507494273428128798290038868992467252956785 93266323679899585411343785368175460965263372328 (by decide!)
  have e44 := hiStepP 750 3905507494273428128798290038868992467252956785 93266323679899585411343785368175460965263372328 1365262852890223954484649439841187555561309956438 1458350616108688868230718571600036918320556087678 (by decide!)
  have e45 := hiStepP 749 1365262852890223954484649439841187555561309956438 1458350616108688868230718571600036918320556087678 152506032682263613776679116100621025749344653837 1311733962700961682945262219644702059873864256371 (by decide!)
  have e46 := hiStepP 748 152506032682263613776679116100621025749344653837 1311733962700961682945262219644702059873864256371 1352255512485365639503543556599746796464062458760 51940228233105309735542978480440697104841433339 (by decide!)
  have e47 := hiStepP 747 1352255512485365639503543556599746796464062458760 51940228233105309735542978480440697104841433339 92440580612569588431712007709929885748684771165 143621788498278621031084209426018124065620635558 (by decide!)
  have e48 := hiStepP 746 92440580612569588431712007709929885748684771165 143621788498278621031084209426018124065620635558 1456628209744100487339347562101505441305516113228 1313364629746572655938404833755828255259442074346 (by decide!)
  have e49 := hiStepP 745 1456628209744100487339347562101505441305516113228 1313364629746572655938404833755828255259442074346 1295111109343810186417444303394320604349324363264 27642199997914772032855355938108253379980711146 (by decide!)
  have e50 := hiStepP 744 1295111109343810186417444303394320604349324363264 27642199997914772032855355938108253379980711146 33637283754278714810744717615121226066433260913 6865662356636913564746066967476244706723490203 (by decide!)
  have e51 := hiStepP 743 33637283754278714810744717615121226066433260913 6865662356636913564746066967476244706723490203 942299101089203977805079851063390167235780233140 937656685827016889527182744014650747683875892783 (by decide!)
  have e52 := hiStepP 742 942299101089203977805079851063390167235780233140 937656685827016889527182744014650747683875892783 872412789177145548538361802812253936017940534393 347839832813515645454026288592953381762295757398 (by decide!)
  have e53 := hiStepP 741 872412789177145548538361802812253936017940534393 347839832813515645454026288592953381762295757398 36628885463297020678888501488186521877524114765 334150494981987316830008846701248627016343787291 (by decide!)
  have e54 := hiStepP 740 36628885463297020678888501488186521877524114765 334150494981987316830008846701248627016343787291 66068378571223423773337194225024312377771806115 280215159157349802760044134570361479475405740728 (by decide!)
  have e55 := hiStepP 739 66068378571223423773337194225024312377771806115 280215159157349802760044134570361479475405740728 668558346297860128125653067878133902230409166491 388534138292343143777625023424352463817773212707 (by decide!)
  have e56 := hiStepP 738 668558346297860128125653067878133902230409166491 388534138292343143777625023424352463817773212707 1247828143402510147715014904626728222414130393803 905520865464942874901176783970015083915421472488 (by decide!)
  have e57 := hiStepP 737 1247828143402510147715014904626728222414130393803 905520865464942874901176783970015083915421472488 919344706259059263583161358452729770466490441136 362969899316304369659914730250327854938897976152 (by decide!)
  have e58 := hiStepP 736 919344706259059263583161358452729770466490441136 362969899316304369659914730250327854938897976152 1060219984741035736000307434942883916190023341142 765758334866161974731855320859836466528763633422 (by decide!)
  have e59 := hiStepP 735 1060219984741035736000307434942883916190023341142 765758334866161974731855320859836466528763633422 649136369345916932919124626130774768527892422158 1413454900391628818906304726667445477780833681664 (by decide!)
  have e60 := hiStepP 734 649136369345916932919124626130774768527892422158 1413454900391628818906304726667445477780833681664 945673975831231688560238446758611127951057009352 469229836341624120606991871172189230285170113480 (by decide!)
  have e61 := hiStepP 733 945673975831231688560238446758611127951057009352 469229836341624120606991871172189230285170113480 145633336631168232024335461238728680711962018487 432156639801827066306952310651182826460783819135 (by decide!)
  have e62 := hiStepP 732 145633336631168232024335461238728680711962018487 432156639801827066306952310651182826460783819135 704854284513993201663192756482632323596169393006 278409531968013375091492086859368286255484078609 (by decide!)
  have e63 := hiStepP 731 704854284513993201663192756482632323596169393006 278409531968013375091492086859368286255484078609 38231787847817718128861789934143324875895366732 310918369249334294975425640385994990632009330269 (by decide!)
  have e64 := hiStepP 730 38231787847817718128861789934143324875895366732 310918369249334294975425640385994990632009330269 96877860745476609591905510875402183313594690802 220111892553198245653815564282247583167147360943 (by decide!)
  have e65 := hiStepP 729 96877860745476609591905510875402183313594690802 220111892553198245653815564282247583167147360943 1278174029936371688071105915819119792798447568546 1423978443979195765139613006587095017121745028109 (by decide!)
  have e66 := hiStepP 728 1278174029936371688071105915819119792798447568546 1423978443979195765139613006587095017121745028109 666955537099843339926091505545633905111559835608 809209438253596337053411275348866103838687710165 (by decide!)
  have e67 := hiStepP 727 666955537099843339926091505545633905111559835608 809209438253596337053411275348866103838687710165 152604450338514744662916599282131793455082214771 862173456560625072407554738089909068400175931046 (by decide!)
  have e68 := hiStepP 726 152604450338514744662916599282131793455082214771 862173456560625072407554738089909068400175931046 1374794927506448394790699844416683279571856006476 592550153830847695447424952704805787059796755434 (by decide!)
  have e69 := hiStepP 725 1374794927506448394790699844416683279571856006476 592550153830847695447424952704805787059796755434 1414400769542475890229546734782100142968606198258 824708268918744766457802726814668215633224944152 (by decide!)
  have e70 := hiStepP 724 1414400769542475890229546734782100142968606198258 824708268918744766457802726814668215633224944152 1302893640120927769731986622105024969485695801777 663736370811963218388386465202336094689877758889 (by decide!)
  have e71 := hiStepP 723 1302893640120927769731986622105024969485695801777 663736370811963218388386465202336094689877758889 1316643159062094138307373380673993746214078489329 838567072448207504340761021035477096839757082968 (by decide!)
  have e72 := hiStepP 722 1316643159062094138307373380673993746214078489329 838567072448207504340761021035477096839757082968 611322969659704743805233642479545769552452510969 1427025938332148824555561156247547985203729880481 (by decide!)
  have e73 := hiStepP 721 611322969659704743805233642479545769552452510969 1427025938332148824555561156247547985203729880481 366270945504736907476113829388868027937962962277 1061117379936908931939655462079259679524693801156 (by decide!)
  have e74 := hiStepP 720 366270945504736907476113829388868027937962962277 1061117379936908931939655462079259679524693801156 556210117611323736407861337627284194081016802046 1237144043593347016304902937026726271742329655866 (by decide!)
  have e75 := hiStepP 719 556210117611323736407861337627284194081016802046 1237144043593347016304902937026726271742329655866 1028706618938490552675316308378151494235034834088 619508601697954915952076673691274667586921678482 (by decide!)
  have e76 := hiStepP 718 1028706618938490552675316308378151494235034834088 619508601697954915952076673691274667586921678482 198848296924825665756695142769432803944052319862 447243141508559358467477758736602304526830510308 (by decide!)
  have e77 := hiStepP 717 198848296924825665756695142769432803944052319862 447243141508559358467477758736602304526830510308 1295160595076505651578177908175445662461213305721 985025397342431314507774087539746341726560963485 (by decide!)
  have e78 := hiStepP 716 1295160595076505651578177908175445662461213305721 985025397342431314507774087539746341726560963485 270608856168046941563909150260127951486258334641 753153686938352932155924474136513444761822724140 (by decide!)
  have e79 := hiStepP 715 270608856168046941563909150260127951486258334641 753153686938352932155924474136513444761822724140 1287107741402249486950266950234510111450388903425 563037722062007783438894091688854490019346822701 (by decide!)
  have e80 := hiStepP 714 1287107741402249486950266950234510111450388903425 563037722062007783438894091688854490019346822701 922887607564186213153843082257489535807782576242 1114519658847205213818625617687686344372957369951 (by decide!)
  have e81 := hiStepP 713 922887607564186213153843082257489535807782576242 1114519658847205213818625617687686344372957369951 1259117567044964766715782540513823119545226972302 180993105486256742399995774125173498316293479121 (by decide!)
  have e82 := hiStepP 712 1259117567044964766715782540513823119545226972302 180993105486256742399995774125173498316293479121 1359651569950898197319870593203797202897778642883 1379365239369209694144301265645397655454508586258 (by decide!)
  have e83 := hiStepP 711 1359651569950898197319870593203797202897778642883 1379365239369209694144301265645397655454508586258 1402314677473303612419918018239919520682185040627 24198345432972315919773098316616508814390245345 (by decide!)
  have e84 := hiStepP 710 1402314677473303612419918018239919520682185040627 24198345432972315919773098316616508814390245345 527434886545178289728759824273326278062064162308 504530049670662940633509456692353954432810672613 (by decide!)
  have e85 := hiStepP 709 527434886545178289728759824273326278062064162308 504530049670662940633509456692353954432810672613 1081683306356634159861448641887394703902073255232 1308244255647139192545285043996514324705174328485 (by decide!)
  have e86 := hiStepP 708 1081683306356634159861448641887394703902073255232 1308244255647139192545285043996514324705174328485 1283210858608508310719755689930130589171273458304 33598312380829794101922871014287008941413234213 (by decide!)
  have e87 := hiStepP 707 1283210858608508310719755689930130589171273458304 33598312380829794101922871014287008941413234213 584406946969742689457734527352485599775384497818 569453626958496544397331997898149426780785514687 (by decide!)
  have e88 := hiStepP 706 584406946969742689457734527352485599775384497818 569453626958496544397331997898149426780785514687 1338088661250594265252094156352939663604818522046 787101276674034080689237917471742845392751736577 (by decide!)
  have e89 := hiStepP 705 1338088661250594265252094156352939663604818522046 787101276674034080689237917471742845392751736577 581676754366111545150908425149158639056166897574 1348695942773725641982280776856133081392074748071 (by decide!)
  have e90 := hiStepP 704 581676754366111545150908425149158639056166897574 1348695942773725641982280776856133081392074748071 774746463846246308031865715251151713749038213945 613923758425682906954644162455484219738455235486 (by decide!)
  have e91 := hiStepP 703 774746463846246308031865715251151713749038213945 613923758425682906954644162455484219738455235486 1290606792465573716687876779583266484511793346894 785555290158016669314472931160986315923768386256 (by decide!)
  have e92 := hiStepP 702 1290606792465573716687876779583266484511793346894 785555290158016669314472931160986315923768386256 853214529178211594469246351789491343657455861535 165091200239840146829304724827704004108850994639 (by decide!)
  have e93 := hiStepP 701 853214529178211594469246351789491343657455861535 165091200239840146829304724827704004108850994639 1381897922372956108419258462172236417843314891783 1363835535907609487072101551380639652485039882696 (by decide!)
  have e94 := hiStepP 700 1381897922372956108419258462172236417843314891783 1363835535907609487072101551380639652485039882696 555260178986167013607172451289081742906269046335 820092690067772243141022392558074429900930455543 (by decide!)
  have e95 := hiStepP 699 555260178986167013607172451289081742906269046335 820092690067772243141022392558074429900930455543 172538329647771475490451995265113884515808458259 831346039768656471889071024042665455280877904356 (by decide!)
  have e96 := hiStepP 698 172538329647771475490451995265113884515808458259 831346039768656471889071024042665455280877904356 516643130677160509972607956899258227480852963535 1163960632622740513555258571156559188757636612395 (by decide!)
  have e97 := hiStepP 697 516643130677160509972607956899258227480852963535 1163960632622740513555258571156559188757636612395 54509090881420480609691184113489408976029229204 1109986961365938720334964402346543796492406268351 (by decide!)
  have e98 := hiStepP 696 54509090881420480609691184113489408976029229204 1109986961365938720334964402346543796492406268351 1245698763125842896795799765587471950132050439970 139125383998651818344517236209752983224874569373 (by decide!)
  have e99 := hiStepP 695 1245698763125842896795799765587471950132050439970 139125383998651818344517236209752983224874569373 1026521127474697122045094490907267118150233076642 979456195084940062446051372728022924023218421055 (by decide!)
  have t0 := e0
  have t1 := t0.trans e1
  have t2 := t1.trans e2
  have t3 := t2.trans e3
  have t4 := t3.trans e4
  have t5 := t4.trans e5
  have t6 := t5.trans e6
  have t7 := t6.trans e7
  have t8 := t7.trans e8
  have t9 := t8.trans e9
  have t10 := t9.trans e10
  have t11 := t10.trans e11
  have t12 := t11.trans e12
  have t13 := t12.trans e13
  have t14 := t13.trans e14
  have t15 := t14.trans e15
  have t16 := t15.trans e16
  have t17 := t16.trans e17
  have t18 := t17.trans e18
  have t19 := t18.trans e19
  have t20 := t19.trans e20
  have t21 := t20.trans e21
  have t22 := t21.trans e22
  have t23 := t22.trans e23
  have t24 := t23.trans e24
  have t25 := t24.trans e25
  have t26 := t25.trans e26
  have t27 := t26.trans e27
  have t28 := t27.trans e28
  have t29 := t28.trans e29
  have t30 := t29.trans e30
  have t31 := t30.trans e31
  have t32 := t31.trans e32
  have t33 := t32.trans e33
  have t34 := t33.trans e34
  have t35 := t34.trans e35
  have t36 := t35.trans e36
  have t37 := t36.trans e37
  have t38 := t37.trans e38
  have t39 := t38.trans e39
  have t40 := t39.trans e40
  have t41 := t40.trans e41
  have t42 := t41.trans e42
  have t43 := t42.trans e43
  have t44 := t43.trans e44
  have t45 := t44.trans e45
  have t46 := t45.trans e46
  have t47 := t46.trans e47
  have t48 := t47.trans e48
  have t49 := t48.trans e49
  have t50 := t49.trans e50
  have t51 := t50.trans e51
  have t52 := t51.trans e52
  have t53 := t52.trans e53
  have t54 := t53.trans e54
  have t55 := t54.trans e55
  have t56 := t55.trans e56
  have t57 := t56.trans e57
  have t58 := t57.trans e58
  have t59 := t58.trans e59
  have t60 := t59.trans e60
  have t61 := t60.trans e61
  have t62 := t61.trans e62
  have t63 := t62.trans e63
  have t64 := t63.trans e64
  have t65 := t64.trans e65
  have t66 := t65.trans e66
  have t67 := t66.trans e67
  have t68 := t67.trans e68
  have t69 := t68.trans e69
  have t70 := t69.trans e70
  have t71 := t70.trans e71
  have t72 := t71.trans e72
  have t73 := t72.trans e73
  have t74 := t73.trans e74
  have t75 := t74.trans e75
  have t76 := t75.trans e76
  have t77 := t76.trans e77
  have t78 := t77.trans e78
  have t79 := t78.trans e79
  have t80 := t79.trans e80
  have t81 := t80.trans e81
  have t82 := t81.trans e82
  have t83 := t82.trans e83
  have t84 := t83.trans e84
  have t85 := t84.trans e85
  have t86 := t85.trans e86
  have t87 := t86.trans e87
  have t88 := t87.trans e88
  have t89 := t88.trans e89
  have t90 := t89.trans e90
  have t91 := t90.trans e91
  have t92 := t91.trans e92
  have t93 := t92.trans e93
  have t94 := t93.trans e94
  have t95 := t94.trans e95
  have t96 := t95.trans e96
  have t97 := t96.trans e97
  have t98 := t97.trans e98
  have t99 := t98.trans e99
  exact t99

theorem hiChainSeg34 : hiLoop SHA_1 (strBytes "pencil") 695
    (unpackBytes 20 1026521127474697122045094490907267118150233076642)
    (unpackBytes 20 979456195084940062446051372728022924023218421055) =
    hiLoop SHA_1 (strBytes "pencil") 595
      (unpackBytes 20 973774508541298873108579085535045008123458127616)
      (unpackBytes 20 1112250513719423866738252385965245548483799953497) := by
  have e0 := hiStepP 694 1026521127474697122045094490907267118150233076642 979456195084940062446051372728022924023218421055 695223361251985059828156894349317125585301933956 1200821387975353007442620240771989188088236716731 (by decide!)
  have e1 := hiStepP 693 695223361251985059828156894349317125585301933956 1200821387975353007442620240771989188088236716731 293018996748535361988682744002340305673888755825 1284653624744307258571605008638271968629614035658 (by decide!)
  have e2 := hiStepP 692 293018996748535361988682744002340305673888755825 1284653624744307258571605008638271968629614035658 288865130287321509533342097847816096329530987230 1208097350411408979635709052789608337047619375124 (by decide!)
  have e3 := hiStepP 691 288865130287321509533342097847816096329530987230 1208097350411408979635709052789608337047619375124 1193017084903598834359868414964847114887129307050 19363411465699710409952439632837014686458021822 (by decide!)
  have e4 := hiStepP 690 1193017084903598834359868414964847114887129307050 19363411465699710409952439632837014686458021822 448928846521341068301501259820516778142826394870 444027645586721668941831134121644191101901861704 (by decide!)
  have e5 := hiStepP 689 448928846521341068301501259820516778142826394870 444027645586721668941831134121644191101901861704 721178528900984778883243182618708780347904708704 294461905067708866029750721575532560087774962472 (by decide!)
  have e6 := hiStepP 688 721178528900984778883243182618708780347904708704 294461905067708866029750721575532560087774962472 318055931869680938653939111007492593846102369623 23599757220846480703380699188641940159259543167 (by decide!)
  have e7 := hiStepP 687 318055931869680938653939111007492593846102369623 23599757220846480703380699188641940159259543167 47082838722012226843066347941533901078157838599 69165376847788772912917474168136216896383405944 (by decide!)
  have e8 := hiStepP 686 47082838722012226843066347941533901078157838599 69165376847788772912917474168136216896383405944 1353062054393654642341004692199588976558755645893 1285149888684704004270007283824574267483650999997 (by decide!)
  have e9 := hiStepP 685 1353062054393654642341004692199588976558755645893 1285149888684704004270007283824574267483650999997 206767738251284598896946293057035794202371871859 1125648587092435321256746757287763373202178020046 (by decide!)
  have e10 := hiStepP 684 206767738251284598896946293057035794202371871859 1125648587092435321256746757287763373202178020046 633119889899874891474399622942449997498364608781 980826489278181404264550665717828385992802161603 (by decide!)
  have e11 := hiStepP 683 633119889899874891474399622942449997498364608781 980826489278181404264550665717828385992802161603 1258506017334557490577070843950766096633061865128 683575985601854894296414778733565921017786508651 (by decide!)
  have e12 := hiStepP 682 1258506017334557490577070843950766096633061865128 683575985601854894296414778733565921017786508651 1333738662088659174852559270909780325094763386695 902788829087220322886114208448598738175064437292 (by decide!)
  have e13 := hiStepP 681 1333738662088659174852559270909780325094763386695 902788829087220322886114208448598738175064437292 1155895199889817528612469627730159713760085043443 481569404901251478058380172672513047888361298655 (by decide!)
  have e14 := hiStepP 680 1155895199889817528612469627730159713760085043443 481569404901251478058380172672513047888361298655 690886542471822949834535842384545888048634687094 259006182940210022629812436031963737570732045481 (by decide!)
  have e15 := hiStepP 679 690886542471822949834535842384545888048634687094 259006182940210022629812436031963737570732045481 1454570825121819875150349242992809400041684506547 1207965426017957583718029781661773970159502943002 (by decide!)
  have e16 := hiStepP 678 1454570825121819875150349242992809400041684506547 1207965426017957583718029781661773970159502943002 1250529386022415556990048997160153535620539219062 49165331527374443603850663282052079061483331436 (by decide!)
  have e17 := hiStepP 677 1250529386022415556990048997160153535620539219062 49165331527374443603850663282052079061483331436 678350648854722118561181579032806283338694714511 721093016629520523172685142633676541311216122851 (by decide!)
  have e18 := hiStepP 676 678350648854722118561181579032806283338694714511 721093016629520523172685142633676541311216122851 1138067986376864985497838702431595727343707554953 1056661409056722859209873179929534121457737858922 (by decide!)
  have e19 := hiStepP 675 1138067986376864985497838702431595727343707554953 1056661409056722859209873179929534121457737858922 216630241501343005806352957709913219036366145482 895695421623706868263145386727395890549177874592 (by decide!)
  have e20 := hiStepP 674 216630241501343005806352957709913219036366145482 895695421623706868263145386727395890549177874592 299041509698855275091556243851723669224133293228 962079498634145130440517749415588612670644718604 (by decide!)
  have e21 := hiStepP 673 299041509698855275091556243851723669224133293228 962079498634145130440517749415588612670644718604 78801857327544336023949336776695021113998786695 943605504709134035759620590312226289066218736779 (by decide!)
  have e22 := hiStepP 672 78801857327544336023949336776695021113998786695 943605504709134035759620590312226289066218736779 42858184631582167114920186525557873804556152536 929348026145957481232396438707020467161626927699 (by decide!)
  have e23 := hiStepP 671 42858184631582167114920186525557873804556152536 929348026145957481232396438707020467161626927699 689003485407545319291660619949087348060078935235 1246847578211563765052383337079888102837725851280 (by decide!)
  have e24 := hiStepP 670 689003485407545319291660619949087348060078935235 1246847578211563765052383337079888102837725851280 1350556334093787569630772636817172539619417816082 313807581994500276937017791143081813048274326146 (by decide!)
  have e25 := hiStepP 669 1350556334093787569630772636817172539619417816082 313807581994500276937017791143081813048274326146 1012711927625402111305407246152026561212197568807 774015360536745407627630293603785123080660652965 (by decide!)
  have e26 := hiStepP 668 1012711927625402111305407246152026561212197568807 774015360536745407627630293603785123080660652965 1187069708703811283562984161202773328132024522960 413768669183658050869476171283385753289177058165 (by decide!)
  have e27 := hiStepP 667 1187069708703811283562984161202773328132024522960 413768669183658050869476171283385753289177058165 562893347925702802955774456369310380266615618833 244840392105965895308912909794522945159038793316 (by decide!)
  have e28 := hiStepP 666 562893347925702802955774456369310380266615618833 244840392105965895308912909794522945159038793316 850704453092105853066983867347475898222939007489 1095455631322540093074835250056907970256144473189 (by decide!)
  have e29 := hiStepP 665 850704453092105853066983867347475898222939007489 1095455631322540093074835250056907970256144473189 1157745371679456778202848274928707011476837540337 668909891701062623314632348373898776346434878868 (by decide!)
  have e30 := hiStepP 664 1157745371679456778202848274928707011476837540337 668909891701062623314632348373898776346434878868 267337732650185062423142083942118639342191083419 525074035921003049739563580473938519449214468623 (by decide!)
  have e31 := hiStepP 663 267337732650185062423142083942118639342191083419 525074035921003049739563580473938519449214468623 550662213130940640147076431105255420625485472811 339990051656790553027452775878957401494454789668 (by decide!)
  have e32 := hiStepP 662 550662213130940640147076431105255420625485472811 339990051656790553027452775878957401494454789668 1425890817822008166404907920333014436669739349707 1109295663889946040383308047680463641708800659695 (by decide!)
  have e33 := hiStepP 661 1425890817822008166404907920333014436669739349707 1109295663889946040383308047680463641708800659695 1176379368882958894068227802706843783764385010114 69938389320292111102052408783107045821254680877 (by decide!)
  have e34 := hiStepP 660 1176379368882958894068227802706843783764385010114 69938389320292111102052408783107045821254680877 1373806566331234290604708535667258901267142389100 1443744027020944089765024584645255538682180987969 (by decide!)
  have e35 := hiStepP 659 1373806566331234290604708535667258901267142389100 1443744027020944089765024584645255538682180987969 318933723385654715089865895663864106149552567336 1160324778010658089277412484116019793893843490921 (by decide!)
  have e36 := hiStepP 658 318933723385654715089865895663864106149552567336 1160324778010658089277412484116019793893843490921 57548808716018410070050317818246451913962302278 1102778893559012227697811352461468922624634221359 (by decide!)
  have e37 := hiStepP 657 57548808716018410070050317818246451913962302278 1102778893559012227697811352461468922624634221359 1178420480466143511025364853442874151571223306542 87070769704226073864634375922948255775961518593 (by decide!)
  have e38 := hiStepP 656 1178420480466143511025364853442874151571223306542 87070769704226073864634375922948255775961518593 1226576363260589740735846928607360058762563637691 1242284394091544455513475456727555046207787451322 (by decide!)
  have e39 := hiStepP 655 1226576363260589740735846928607360058762563637691 1242284394091544455513475456727555046207787451322 295564220483190422923492013196634682480440317323 1337966282559747696982955133354807178113271354929 (by decide!)
  have e40 := hiStepP 654 295564220483190422923492013196634682480440317323 1337966282559747696982955133354807178113271354929 1374923960272792536037139701814084445590590844201 151505921338319109516242982021989847031834852120 (by decide!)
  have e41 := hiStepP 653 1374923960272792536037139701814084445590590844201 151505921338319109516242982021989847031834852120 263055652500917322902852737413959428804667340085 300303263079285737867916263048688690199407676973 (by decide!)
  have e42 := hiStepP 652 263055652500917322902852737413959428804667340085 300303263079285737867916263048688690199407676973 1440081714665524654035585548815514771797285403897 1145487467666093592901726351501299529391419503316 (by decide!)
  have e43 := hiStepP 651 1440081714665524654035585548815514771797285403897 1145487467666093592901726351501299529391419503316 1176412455040888475177576786696354596678976966881 38296614216173638481259077156282251200637280821 (by decide!)
  have e44 := hiStepP 650 1176412455040888475177576786696354596678976966881 38296614216173638481259077156282251200637280821 617449815975479753207646603006659371065916016225 608413097040091875804151349350795344939542242388 (by decide!)
  have e45 := hiStepP 649 617449815975479753207646603006659371065916016225 608413097040091875804151349350795344939542242388 118895718712713180272311544320272636658917851177 720790072670935311931436248553551039123752854653 (by decide!)
  have e46 := hiStepP 648 118895718712713180272311544320272636658917851177 720790072670935311931436248553551039123752854653 1137781859036833964978443120627890491878207192912 1056402943615966643157346288562881491812456946477 (by decide!)
  have e47 := hiStepP 647 1137781859036833964978443120627890491878207192912 1056402943615966643157346288562881491812456946477 516125157621068224146632511300927284762420538784 1298380501825276860847750038991852320022689232525 (by decide!)
  have e48 := hiStepP 646 516125157621068224146632511300927284762420538784 1298380501825276860847750038991852320022689232525 425237078046145308554662106127604388567956054221 965202686446744784186638124108969893280956012096 (by decide!)
  have e49 := hiStepP 645 425237078046145308554662106127604388567956054221 965202686446744784186638124108969893280956012096 375550168278146067837327785261708912564187880279 1329334872496959730055827566871738843427635531031 (by decide!)
  have e50 := hiStepP 644 375550168278146067837327785261708912564187880279 1329334872496959730055827566871738843427635531031 12309388035150282831517972924749001328735368066 1341581398011633341814575572020229814690367422101 (by decide!)
  have e51 := hiStepP 643 12309388035150282831517972924749001328735368066 1341581398011633341814575572020229814690367422101 440804245197957707022048714851617785530428476238 957879702724643824394893553632418833248826226139 (by decide!)
  have e52 := hiStepP 642 440804245197957707022048714851617785530428476238 957879702724643824394893553632418833248826226139 1089663654069572436397022589356447533826783064806 143237246233205866176398128846724091841074480957 (by decide!)
  have e53 := hiStepP 641 1089663654069572436397022589356447533826783064806 143237246233205866176398128846724091841074480957 510753029815688772483682270282150882822417790001 367517658132014618368030008086741455190507614988 (by decide!)
  have e54 := hiStepP 640 510753029815688772483682270282150882822417790001 367517658132014618368030008086741455190507614988 423200374070075697858721866988037047049732650482 58538913419528141499616610824101401310425843454 (by decide!)
  have e55 := hiStepP 639 423200374070075697858721866988037047049732650482 58538913419528141499616610824101401310425843454 1098265520211264963950345906859236740629077737828 1153909210526458358822175520558266268804738828186 (by decide!)
  have e56 := hiStepP 638 1098265520211264963950345906859236740629077737828 1153909210526458358822175520558266268804738828186 1264655595094389659558124404152532768300038749641 134742004485697540174592391938426536506063862355 (by decide!)
  have e57 := hiStepP 637 1264655595094389659558124404152532768300038749641 134742004485697540174592391938426536506063862355 1392950272038708423032103004363974165167872606306 1303880553468512525294333049643953977231238445617 (by decide!)
  have e58 := hiStepP 636 1392950272038708423032103004363974165167872606306 1303880553468512525294333049643953977231238445617 1299747561380680699657015703946061982702929293768 44572652276239311354370355322205750659201534969 (by decide!)
  have e59 := hiStepP 635 1299747561380680699657015703946061982702929293768 44572652276239311354370355322205750659201534969 352164501838520262623165791691245899196615373303 333288713676570498515267784556956317511216183822 (by decide!)
  have e60 := hiStepP 634 352164501838520262623165791691245899196615373303 333288713676570498515267784556956317511216183822 1338364730583671434873946756468945794194279183354 1187814995332651200461723400014021835603981994484 (by decide!)
  have e61 := hiStepP 633 1338364730583671434873946756468945794194279183354 1187814995332651200461723400014021835603981994484 731357636282261873682536210695880610183874669729 457171070437062369651756758795346870920362419541 (by decide!)
  have e62 := hiStepP 632 731357636282261873682536210695880610183874669729 457171070437062369651756758795346870920362419541 1096007034349295772492852135792477335693339992734 1369776340709530162921894766792370512266898720715 (by decide!)
  have e63 := hiStepP 631 1096007034349295772492852135792477335693339992734 1369776340709530162921894766792370512266898720715 1040059120046522922300850165245691428926342009466 512453708216824069537062041552782537311560914353 (by decide!)
  have e64 := hiStepP 630 1040059120046522922300850165245691428926342009466 512453708216824069537062041552782537311560914353 1238275692438494983565338592799964218696349377260 737285961477658882788993064344858469719802263389 (by decide!)
  have e65 := hiStepP 629 1238275692438494983565338592799964218696349377260 737285961477658882788993064344858469719802263389 1353089954077729640552140676239043544060967070951 617455817127776220990135728134385438964743871418 (by decide!)
  have e66 := hiStepP 628 1353089954077729640552140676239043544060967070951 617455817127776220990135728134385438964743871418 890309563795615803677834434219106225870292518743 1414880686279183156957438757293616181793160240365 (by decide!)
  have e67 := hiStepP 627 890309563795615803677834434219106225870292518743 1414880686279183156957438757293616181793160240365 866743553574839768121007253791715880880860876670 548226336430237384118679480497100162431115973523 (by decide!)
  have e68 := hiStepP 626 866743553574839768121007253791715880880860876670 548226336430237384118679480497100162431115973523 230554961325762339639640564974949372138800369062 413302551407620810895781939483939754367683698229 (by decide!)
  have e69 := hiStepP 625 230554961325762339639640564974949372138800369062 413302551407620810895781939483939754367683698229 179919931636906178942436833486400686774968795019 501828365560546700447574610477403742416685146558 (by decide!)
  have e70 := hiStepP 624 179919931636906178942436833486400686774968795019 501828365560546700447574610477403742416685146558 1146757039972976811045026988746347409223628436455 908992152449753326678969245829847931632318911065 (by decide!)
  have e71 := hiStepP 623 1146757039972976811045026988746347409223628436455 908992152449753326678969245829847931632318911065 495947837643424439948189391787075192742944924015 1152671149671019315061715134699786298285333214006 (by decide!)
  have e72 := hiStepP 622 495947837643424439948189391787075192742944924015 1152671149671019315061715134699786298285333214006 1026534279635790902515581212381779980757733785622 697409484609701148117157010872019486533853917984 (by decide!)
  have e73 := hiStepP 621 1026534279635790902515581212381779980757733785622 697409484609701148117157010872019486533853917984 855563427831285286100893885540261158563663952624 1369893507118034992391829578163513826747108395472 (by decide!)
  have e74 := hiStepP 620 855563427831285286100893885540261158563663952624 1369893507118034992391829578163513826747108395472 463934305148092092389340761846971156793461448036 1088804494214948562122240459769942144986340103348 (by decide!)
  have e75 := hiStepP 619 463934305148092092389340761846971156793461448036 1088804494214948562122240459769942144986340103348 445247306533130657622774218324301294552390902522 1388940149315890545201909701112362121690241480270 (by decide!)
  have e76 := hiStepP 618 445247306533130657622774218324301294552390902522 1388940149315890545201909701112362121690241480270 1291182017305229670901686235712784040228140527988 99207680491814966710434589687433486347005855546 (by decide!)
  have e77 := hiStepP 617 1291182017305229670901686235712784040228140527988 99207680491814966710434589687433486347005855546 670597103024225547581583682974280057232080150376 571395041445056995055504837996213675921418393682 (by decide!)
  have e78 := hiStepP 616 670597103024225547581583682974280057232080150376 571395041445056995055504837996213675921418393682 581028694253944214414773131276820993637069596367 10348169556275175645334414780801800445470260893 (by decide!)
  have e79 := hiStepP 615 581028694253944214414773131276820993637069596367 10348169556275175645334414780801800445470260893 776043244946827459310331618904184409236443531400 766409418681585419350839738676115268204838106645 (by decide!)
  have e80 := hiStepP 614 776043244946827459310331618904184409236443531400 766409418681585419350839738676115268204838106645 145403678550698506209150072097186961171598324749 909309834457777135450029673006892490297976619544 (by decide!)
  have e81 := hiStepP 613 145403678550698506209150072097186961171598324749 909309834457777135450029673006892490297976619544 167454266537482447287157253127830843905922250764 742574769735111063080266884547128353407960496660 (by decide!)
  have e82 := hiStepP 612 167454266537482447287157253127830843905922250764 742574769735111063080266884547128353407960496660 750767246258886848491685533861004223140836561580 9001583648831832872008627425546336048748193976 (by decide!)
  have e83 := hiStepP 611 750767246258886848491685533861004223140836561580 9001583648831832872008627425546336048748193976 1340923742270399017403195848424994176162573469031 1344171556200723148377358033041693243312372067807 (by decide!)
  have e84 := hiStepP 610 1340923742270399017403195848424994176162573469031 1344171556200723148377358033041693243312372067807 1128254399521673708232254674453481653262649181540 267298292928522939300964852092147418827859093691 (by decide!)
  have e85 := hiStepP 609 1128254399521673708232254674453481653262649181540 267298292928522939300964852092147418827859093691 33482699901937211533369898388322313266083640025 245831861876617348372508084387555387037524777570 (by decide!)
  have e86 := hiStepP 608 33482699901937211533369898388322313266083640025 245831861876617348372508084387555387037524777570 1134419952869623343935791871116734019915222935951 1357186855155563090632932314816209018831311320045 (by decide!)
  have e87 := hiStepP 607 1134419952869623343935791871116734019915222935951 1357186855155563090632932314816209018831311320045 76456697538277350553205135340204298876058677773 1283769129603710917995314102710824590658079064544 (by decide!)
  have e88 := hiStepP 606 76456697538277350553205135340204298876058677773 1283769129603710917995314102710824590658079064544 235888823609989803456886148111821131514323325604 1150711155215226576843297507855085623186906829636 (by decide!)
  have e89 := hiStepP 605 235888823609989803456886148111821131514323325604 1150711155215226576843297507855085623186906829636 1437972096885234802964018112738625142925707920316 287931380040650028048442031351977910363298009336 (by decide!)
  have e90 := hiStepP 604 1437972096885234802964018112738625142925707920316 287931380040650028048442031351977910363298009336 1335934168174577567636879874416230082345387047808 1235597005538094981959541017977946500134947466104 (by decide!)
  have e91 := hiStepP 603 1335934168174577567636879874416230082345387047808 1235597005538094981959541017977946500134947466104 259224689863938887945270908904551093762383254046 1398839287896406759280409968569583881932601735526 (by decide!)
  have e92 := hiStepP 602 259224689863938887945270908904551093762383254046 1398839287896406759280409968569583881932601735526 1185157827423691677283517856763332284928518058378 334651876229458364916184158016523032014062242028 (by decide!)
  have e93 := hiStepP 601 1185157827423691677283517856763332284928518058378 334651876229458364916184158016523032014062242028 1231701068873705503027074174037747808349795669805 1353770742431928130759345561476528335107702792129 (by decide!)
  have e94 := hiStepP 600 1231701068873705503027074174037747808349795669805 1353770742431928130759345561476528335107702792129 1260293506672017754235194185176666074713982089208 284751079626714337994962153230702519884079409209 (by decide!)
  have e95 := hiStepP 599 1260293506672017754235194185176666074713982089208 284751079626714337994962153230702519884079409209 1381545537690734403382895145181017367678757591536 1096796200719390183968732392571932568833418916297 (by decide!)
  have e96 := hiStepP 598 1381545537690734403382895145181017367678757591536 1096796200719390183968732392571932568833418916297 386357516954793355323776848976306390489148588115 751865802549047898645263549059135879640931266970 (by decide!)
  have e97 := hiStepP 597 386357516954793355323776848976306390489148588115 751865802549047898645263549059135879640931266970 44650795481957428886551232432498452468056795534 755747329160737124125706028967160938511295010836 (by decide!)
  have e98 := hiStepP 596 44650795481957428886551232432498452468056795534 755747329160737124125706028967160938511295010836 1348089042499691732492470203434681554786369531725 595218615682857615842581592133974978373603735385 (by decide!)
  have e99 := hiStepP 595 1348089042499691732492470203434681554786369531725 595218615682857615842581592133974978373603735385 973774508541298873108579085535045008123458127616 1112250513719423866738252385965245548483799953497 (by decide!)
  have t0 := e0
  have t1 := t0.trans e1
  have t2 := t1.trans e2
  have t3 := t2.trans e3
  have t4 := t3.trans e4
  have t5 := t4.trans e5
  have t6 := t5.trans e6
  have t7 := t6.trans e7
  have t8 := t7.trans e8
  have t9 := t8.trans e9
  have t10 := t9.trans e10
  have t11 := t10.trans e11
  have t12 := t11.trans e12
  have t13 := t12.trans e13
  have t14 := t13.trans e14
  have t15 := t14.trans e15
  have t16 := t15.trans e16
  have t17 := t16.trans e17
  have t18 := t17.trans e18
  have t19 := t18.trans e19
  have t20 := t19.trans e20
  have t21 := t20.trans e21
  have t22 := t21.trans e22
  have t23 := t22.trans e23
  have t24 := t23.trans e24
  have t25 := t24.trans e25
  have t26 := t25.trans e26
  have t27 := t26.trans e27
  have t28 := t27.trans e28
  have t29 := t28.trans e29
  have t30 := t29.trans e30
  have t31 := t30.trans e31
  have t32 := t31.trans e32
  have t33 := t32.trans e33
  have t34 := t33.trans e34
  have t35 := t34.trans e35
  have t36 := t35.trans e36
  have t37 := t36.trans e37
  have t38 := t37.trans e38
  have t39 := t38.trans e39
  have t40 := t39.trans e40
  have t41 := t40.trans e41
  have t42 := t41.trans e42
  have t43 := t42.trans e43
  have t44 := t43.trans e44
  have t45 := t44.trans e45
  have t46 := t45.trans e46
  have t47 := t46.trans e47
  have t48 := t47.trans e48
  have t49 := t48.trans e49
  have t50 := t49.trans e50
  have t51 := t50.trans e51
  have t52 := t51.trans e52
  have t53 := t52.trans e53
  have t54 := t53.trans e54
  have t55 := t54.trans e55
  have t56 := t55.trans e56
  have t57 := t56.trans e57
  have t58 := t57.trans e58
  have t59 := t58.trans e59
  have t60 := t59.trans e60
  have t61 := t60.trans e61
  have t62 := t61.trans e62
  have t63 := t62.trans e63
  have t64 := t63.trans e64
  have t65 := t64.trans e65
  have t66 := t65.trans e66
  have t67 := t66.trans e67
  have t68 := t67.trans e68
  have t69 := t68.trans e69
  have t70 := t69.trans e70
  have t71 := t70.trans e71
  have t72 := t71.trans e72
  have t73 := t72.trans e73
  have t74 := t73.trans e74
  have t75 := t74.trans e75
  have t76 := t75.trans e76
  have t77 := t76.trans e77
  have t78 := t77.trans e78
  have t79 := t78.trans e79
  have t80 := t79.trans e80
  have t81 := t80.trans e81
  have t82 := t81.trans e82
  have t83 := t82.trans e83
  have t84 := t83.trans e84
  have t85 := t84.trans e85
  have t86 := t85.trans e86
  have t87 := t86.trans e87
  have t88 := t87.trans e88
  have t89 := t88.trans e89
  have t90 := t89.trans e90
  have t91 := t90.trans e91
  have t92 := t91.trans e92
  have t93 := t92.trans e93
  have t94 := t93.trans e94
  have t95 := t94.trans e95
  have t96 := t95.trans e96
  have t97 := t96.trans e97
  have t98 := t97.trans e98
  have t99 := t98.trans e99
  exact t99

theorem hiChainSeg35 : hiLoop SHA_1 (strBytes "pencil") 595
    (unpackBytes 20 973774508541298873108579085535045008123458127616)
    (unpackBytes 20 1112250513719423866738252385965245548483799953497) =
    hiLoop SHA_1 (strBytes "pencil") 495
      (unpackBytes 20 231158574302198161858671215670811625907924810169)
      (unpackBytes 20 1029435308757687091951580130036673702405652712822) := by
  have e0 := hiStepP 594 973774508541298873108579085535045008123458127616 1112250513719423866738252385965245548483799953497 1178991029312192895778408371471385700466118674224 70308760305986228204274353720830632088786761577 (by decide!)
  have e1 := hiStepP 593 1178991029312192895778408371471385700466118674224 70308760305986228204274353720830632088786761577 335183664611246200093075408159430925870412467951 313434815345596822411284292602131302403100572038 (by decide!)
  have e2 := hiStepP 592 335183664611246200093075408159430925870412467951 313434815345596822411284292602131302403100572038 1314201438045992614149411886633280365212491059687 1192202333890874751840233030665685503189925947489 (by decide!)
  have e3 := hiStepP 591 1314201438045992614149411886633280365212491059687 1192202333890874751840233030665685503189925947489 1086880564882016899501918356720429210946429381263 632033381353018269573173916975947065708996920046 (by decide!)
  have e4 := hiStepP 590 1086880564882016899501918356720429210946429381263 632033381353018269573173916975947065708996920046 886404267605056078501940108448702779022367474301 1404208808206872728110323808311684666650001162387 (by decide!)
  have e5 := hiStepP 589 886404267605056078501940108448702779022367474301 1404208808206872728110323808311684666650001162387 440380734674290147480280087569909552983863815207 1055220779527422607831971657816994126595893570740 (by decide!)
  have e6 := hiStepP 588 440380734674290147480280087569909552983863815207 1055220779527422607831971657816994126595893570740 690423393576512261501072288822609429427907675143 1097422079755376047081100957074851483770057550003 (by decide!)
  have e7 := hiStepP 587 690423393576512261501072288822609429427907675143 1097422079755376047081100957074851483770057550003 1454531031377408531375724994445518812459467271278 359609880050850532131861013159851781587593692381 (by decide!)
  have e8 := hiStepP 586 1454531031377408531375724994445518812459467271278 359609880050850532131861013159851781587593692381 11558418744354279565397917441862438404020904384 348142060636152946227191262414403659693963584797 (by decide!)
  have e9 := hiStepP 585 11558418744354279565397917441862438404020904384 348142060636152946227191262414403659693963584797 367376350955272727231482492250130514775291511077 711539027837857206748790888495103954793373590584 (by decide!)
  have e10 := hiStepP 584 367376350955272727231482492250130514775291511077 711539027837857206748790888495103954793373590584 226948928211970250028644292022053582551735827079 521709086051507159126890374992117028187306729151 (by decide!)
  have e11 := hiStepP 583 226948928211970250028644292022053582551735827079 521709086051507159126890374992117028187306729151 372966485439344675761282618258813295219993490171 149646003430920731967756876112508548734601407556 (by decide!)
  have e12 := hiStepP 582 372966485439344675761282618258813295219993490171 149646003430920731967756876112508548734601407556 1422672806396388229381898356295936677961860931869 1296041366651864984804123543073087762152195902809 (by decide!)
  have e13 := hiStepP 581 1422672806396388229381898356295936677961860931869 1296041366651864984804123543073087762152195902809 688031454685402083348012995700340249467263675073 887768012972154433540769470821649592511762802584 (by decide!)
  have e14 := hiStepP 580 688031454685402083348012995700340249467263675073 887768012972154433540769470821649592511762802584 1341054529261357239645059544180380572012226959303 647392374002250331352602881035528428867997560927 (by decide!)
  have e15 := hiStepP 579 1341054529261357239645059544180380572012226959303 647392374002250331352602881035528428867997560927 1170507258404950072150083271980047884681384734870 1075460375774310394695733185872952946636438683849 (by decide!)
  have e16 := hiStepP 578 1170507258404950072150083271980047884681384734870 1075460375774310394695733185872952946636438683849 1062952965596622607113465944901841266188877912195 36065376975569151466747231252239318680674342986 (by decide!)
  have e17 := hiStepP 577 1062952965596622607113465944901841266188877912195 36065376975569151466747231252239318680674342986 644388763389328001761599391582356690957746478 35990528508091429271112945244236809954441451876 (by decide!)
  have e18 := hiStepP 576 644388763389328001761599391582356690957746478 35990528508091429271112945244236809954441451876 647802262500285987790745876327384355286695246141 680566674578905209328650797208105258308539850841 (by decide!)
  have e19 := hiStepP 575 647802262500285987790745876327384355286695246141 680566674578905209328650797208105258308539850841 1210617592997344208273656635692852327783516972097 931821496490914394035341065422611560371298010136 (by decide!)
  have e20 := hiStepP 574 1210617592997344208273656635692852327783516972097 931821496490914394035341065422611560371298010136 1261406773859313730676686050317440842282321623293 729574254048396947499606821383768770001006247141 (by decide!)
  have e21 := hiStepP 573 1261406773859313730676686050317440842282321623293 729574254048396947499606821383768770001006247141 1039973027581338277327487295753170623006630526166 1152530163221076078030724773602280517919388237875 (by decide!)
  have e22 := hiStepP 572 1039973027581338277327487295753170623006630526166 1152530163221076078030724773602280517919388237875 45143365659972176793358241968529651828312910835 1176262649287624190924523176140916400449790585792 (by decide!)
  have e23 := hiStepP 571 45143365659972176793358241968529651828312910835 1176262649287624190924523176140916400449790585792 164740724671840852450966781772264294315866073409 1203577819263085860215352340759539325635605070465 (by decide!)
  have e24 := hiStepP 570 164740724671840852450966781772264294315866073409 1203577819263085860215352340759539325635605070465 881801021630502802240541771074966820297841478940 414773698617675242077084784405523378957774098333 (by decide!)
  have e25 := hiStepP 569 881801021630502802240541771074966820297841478940 414773698617675242077084784405523378957774098333 1011162657084383476165804120503027009910874245313 1425664559307003898850458066070311260527849965404 (by decide!)
  have e26 := hiStepP 568 1011162657084383476165804120503027009910874245313 1425664559307003898850458066070311260527849965404 955788732874877801334083797922851150273762520313 541329515744560701255467281007074002819699600293 (by decide!)
  have e27 := hiStepP 567 955788732874877801334083797922851150273762520313 541329515744560701255467281007074002819699600293 1270061614159460582900494143949430680890251413853 734442145507968202078527731266872398840042775288 (by decide!)
  have e28 := hiStepP 566 1270061614159460582900494143949430680890251413853 734442145507968202078527731266872398840042775288 112559185295410147317657100852621523606016643635 839641377100539801939109769005917612836853002443 (by decide!)
  have e29 := hiStepP 565 112559185295410147317657100852621523606016643635 839641377100539801939109769005917612836853002443 785400734748600519631241380960563391761399495391 151294183034968176696020337996131689608477084180 (by decide!)
  have e30 := hiStepP 564 785400734748600519631241380960563391761399495391 151294183034968176696020337996131689608477084180 1109797455269730451994255527119815005611187591408 1238255668413837028593276353906387530236976059108 (by decide!)
  have e31 := hiStepP 563 1109797455269730451994255527119815005611187591408 1238255668413837028593276353906387530236976059108 1219103874548729900992660956215866526835587966523 76710365847676353912580396242707165643315754207 (by decide!)
  have e32 := hiStepP 562 1219103874548729900992660956215866526835587966523 76710365847676353912580396242707165643315754207 77705162039591161610706279855971212018612654397 5433396005522040614640296119916819992683832802 (by decide!)
  have e33 := hiStepP 561 77705162039591161610706279855971212018612654397 5433396005522040614640296119916819992683832802 334859213946498783039914695961510343919771618182 333000221523636932494446414088457655374527983204 (by decide!)
  have e34 := hiStepP 560 334859213946498783039914695961510343919771618182 333000221523636932494446414088457655374527983204 125791688147240080222613777833525188840232491657 253259703518818185404748419024535896684622476525 (by decide!)
  have e35 := hiStepP 559 125791688147240080222613777833525188840232491657 253259703518818185404748419024535896684622476525 1172047209879556767175062359990184553717382302097 1284899679212145404496392640735419028322807430524 (by decide!)
  have e36 := hiStepP 558 1172047209879556767175062359990184553717382302097 1284899679212145404496392640735419028322807430524 661469846135877717593203125843676460252550622735 838099768366454022299727572742407316784784921459 (by decide!)
  have e37 := hiStepP 557 661469846135877717593203125843676460252550622735 838099768366454022299727572742407316784784921459 912778060244582453972699828657885574678363147893 75283461315966332383103105632287927754317257990 (by decide!)
  have e38 := hiStepP 556 912778060244582453972699828657885574678363147893 75283461315966332383103105632287927754317257990 272804701428295786221468499788017311037444634962 199261308160898360197278183169875065731453477972 (by decide!)
  have e39 := hiStepP 555 272804701428295786221468499788017311037444634962 199261308160898360197278183169875065731453477972 927230616976037321432564022845419588382536731922 733903138486875616244882469133437920286318356806 (by decide!)
  have e40 := hiStepP 554 927230616976037321432564022845419588382536731922 733903138486875616244882469133437920286318356806 739276716876404397852736900769537134618278962838 11128973493403114195207982239795358432325554128 (by decide!)
  have e41 := hiStepP 553 739276716876404397852736900769537134618278962838 11128973493403114195207982239795358432325554128 1181565015392237005809178167388243334203246271054 1181855820216454697442881158761266548952564372894 (by decide!)
  have e42 := hiStepP 552 1181565015392237005809178167388243334203246271054 1181855820216454697442881158761266548952564372894 336786258063522676642134880692275460227336828910 1404283137970170257590175292087616207062529663600 (by decide!)
  have e43 := hiStepP 551 336786258063522676642134880692275460227336828910 1404283137970170257590175292087616207062529663600 687999588484143157065036360941006136740406325012 807661571621513947549584982541417998669583846756 (by decide!)
  have e44 := hiStepP 550 687999588484143157065036360941006136740406325012 807661571621513947549584982541417998669583846756 1045429904633179540973839950606819635001632908839 333407169517267787422467758447846757092677643075 (by decide!)
  have e45 := hiStepP 549 1045429904633179540973839950606819635001632908839 333407169517267787422467758447846757092677643075 1257389885196253822053998539026178941640420971963 1315056946707159877782741101673283504476024127224 (by decide!)
  have e46 := hiStepP 548 1257389885196253822053998539026178941640420971963 1315056946707159877782741101673283504476024127224 1218329627048248395516195661149559010678164069706 292563072257682104894854409478734523330152899506 (by decide!)
  have e47 := hiStepP 547 1218329627048248395516195661149559010678164069706 292563072257682104894854409478734523330152899506 942784789641579392976320767110071547217460065124 856997232297792579503216370025149776671542333654 (by decide!)
  have e48 := hiStepP 546 942784789641579392976320767110071547217460065124 856997232297792579503216370025149776671542333654 759480550277603789689665449577623703337812546861 108947232232888451467663747463288627609282348539 (by decide!)
  have e49 := hiStepP 545 759480550277603789689665449577623703337812546861 108947232232888451467663747463288627609282348539 1087782137227126920294911138024540786298850484396 991146378199544589561697143039066114971721049431 (by decide!)
  have e50 := hiStepP 544 1087782137227126920294911138024540786298850484396 991146378199544589561697143039066114971721049431 482773854772164832814793459285955728527197689855 1421825683324643120274075391765116027281510757032 (by decide!)
  have e51 := hiStepP 543 482773854772164832814793459285955728527197689855 1421825683324643120274075391765116027281510757032 1238554926756395024304664677349439664278843823917 194070069692660740656869394798075836052186719621 (by decide!)
  have e52 := hiStepP 542 1238554926756395024304664677349439664278843823917 194070069692660740656869394798075836052186719621 257433323818708265788761772190286965922475929086 73722301655189591475905533469571816454527912059 (by decide!)
  have e53 := hiStepP 541 257433323818708265788761772190286965922475929086 73722301655189591475905533469571816454527912059 1072052308679775258393797331453806648649444983014 1045496431739253532794563101155559522319136950429 (by decide!)
  have e54 := hiStepP 540 1072052308679775258393797331453806648649444983014 1045496431739253532794563101155559522319136950429 300025571260107720629373241385735800867368434450 751717947931040759253474559617294135141430784911 (by decide!)
  have e55 := hiStepP 539 300025571260107720629373241385735800867368434450 751717947931040759253474559617294135141430784911 156995784767853424944968446109696780451070357791 872491387285017585707470321569062626824783446672 (by decide!)
  have e56 := hiStepP 538 156995784767853424944968446109696780451070357791 872491387285017585707470321569062626824783446672 328695329756615295632857757511523343720561147673 920595034481207040808196064828607553682766216585 (by decide!)
  have e57 := hiStepP 537 328695329756615295632857757511523343720561147673 920595034481207040808196064828607553682766216585 239135252702659655209757908003138617537666517196 780076814806106566982324717031163912692743157061 (by decide!)
  have e58 := hiStepP 536 239135252702659655209757908003138617537666517196 780076814806106566982324717031163912692743157061 1200307374381557244414511508279758319048156377207 517299084254727818328838755342539835999021679922 (by decide!)
  have e59 := hiStepP 535 1200307374381557244414511508279758319048156377207 517299084254727818328838755342539835999021679922 28210985623265417257952038767999602295783602545 539086408509719779707205242615271837883217706051 (by decide!)
  have e60 := hiStepP 534 28210985623265417257952038767999602295783602545 539086408509719779707205242615271837883217706051 1323738663831436110446988576776078611181938877754 1060155727178909979523514068288396409383042177401 (by decide!)
  have e61 := hiStepP 533 1323738663831436110446988576776078611181938877754 1060155727178909979523514068288396409383042177401 610084298893150727129686159603940947424537184261 1207053504630698287185861104797975381264528298364 (by decide!)
  have e62 := hiStepP 532 610084298893150727129686159603940947424537184261 1207053504630698287185861104797975381264528298364 1447975394683499904042213471999701204800054335940 267236882713059041776915882573614438812623980728 (by decide!)
  have e63 := hiStepP 531 1447975394683499904042213471999701204800054335940 267236882713059041776915882573614438812623980728 304753649633007266021549530643423694799424699997 158044043638237650354461103853853692285410211557 (by decide!)
  have e64 := hiStepP 530 304753649633007266021549530643423694799424699997 158044043638237650354461103853853692285410211557 790089184898542799048042182440706430950857407218 832311519946847570702706231969002282483450088471 (by decide!)
  have e65 := hiStepP 529 790089184898542799048042182440706430950857407218 832311519946847570702706231969002282483450088471 736895703962001106214410634741409732656154874065 96197791924891922929471449598451578583863434438 (by decide!)
  have e66 := hiStepP 528 736895703962001106214410634741409732656154874065 96197791924891922929471449598451578583863434438 935270774219900420768449489506538640320911482525 1022162108563737063724383833507787548004315759195 (by decide!)
  have e67 := hiStepP 527 935270774219900420768449489506538640320911482525 1022162108563737063724383833507787548004315759195 673206607427229650168512742708467479829418956730 1135396911131441377871724203013616519237629007329 (by decide!)
  have e68 := hiStepP 526 673206607427229650168512742708467479829418956730 1135396911131441377871724203013616519237629007329 1301948624279007057411266473700346785828981817708 199403542782973536610162076833532090247216600205 (by decide!)
  have e69 := hiStepP 525 1301948624279007057411266473700346785828981817708 199403542782973536610162076833532090247216600205 1223721177345105212562988260059753725155219382291 1397010519511813937045141267992557474921457071262 (by decide!)
  have e70 := hiStepP 524 1223721177345105212562988260059753725155219382291 1397010519511813937045141267992557474921457071262 1201590134538527886874362628626234110635207911074 221517833153628910515922255793014334949496345148 (by decide!)
  have e71 := hiStepP 523 1201590134538527886874362628626234110635207911074 221517833153628910515922255793014334949496345148 931653917497838942596922056488968823675996712932 764959681294122223633050914193157899549098638808 (by decide!)
  have e72 := hiStepP 522 931653917497838942596922056488968823675996712932 764959681294122223633050914193157899549098638808 479272263342309419910447783083163280957349946054 1222052065583872736016519150056580646347020050206 (by decide!)
  have e73 := hiStepP 521 479272263342309419910447783083163280957349946054 1222052065583872736016519150056580646347020050206 329211182455077049926802934269672846122061683517 1368125864302354409604247855759178227877414061091 (by decide!)
  have e74 := hiStepP 520 329211182455077049926802934269672846122061683517 1368125864302354409604247855759178227877414061091 794345184092760135855805767467809714394967236671 573916054068407175347376580431203130370429330460 (by decide!)
  have e75 := hiStepP 519 794345184092760135855805767467809714394967236671 573916054068407175347376580431203130370429330460 1233695321551142332716611789820164861999274897330 1076847804190977302696403687248085824148676873134 (by decide!)
  have e76 := hiStepP 518 1233695321551142332716611789820164861999274897330 1076847804190977302696403687248085824148676873134 845971546554735688422676136479983593798877525971 232310661169771520863717687219401622192624123005 (by decide!)
  have e77 := hiStepP 517 845971546554735688422676136479983593798877525971 232310661169771520863717687219401622192624123005 1305142160808992369698177801861233083144266572424 1165653213333836996176372068300165907575990509301 (by decide!)
  have e78 := hiStepP 516 1305142160808992369698177801861233083144266572424 1165653213333836996176372068300165907575990509301 731526802986700136636621547297962417860898155457 434228392135089772660467102235261816153075529012 (by decide!)
  have e79 := hiStepP 515 731526802986700136636621547297962417860898155457 434228392135089772660467102235261816153075529012 1075290579301968841175439882241212535533708864979 1372093333360200397863797894176929840138342881511 (by decide!)
  have e80 := hiStepP 514 1075290579301968841175439882241212535533708864979 1372093333360200397863797894176929840138342881511 479022628526614103992232060103720461281686013854 934821200726803782887096138419942524012300509049 (by decide!)
  have e81 := hiStepP 513 479022628526614103992232060103720461281686013854 934821200726803782887096138419942524012300509049 1025599672591807272218191056731398154428284086478 91961282569203902357075154992456192885976840119 (by decide!)
  have e82 := hiStepP 512 1025599672591807272218191056731398154428284086478 91961282569203902357075154992456192885976840119 1405372881700238584409935387431302454057685094407 1314154231623856344592751936228523329580531689392 (by decide!)
  have e83 := hiStepP 511 1405372881700238584409935387431302454057685094407 1314154231623856344592751936228523329580531689392 1081711994841812017511022197057860268969303779088 521147686509697654411713761066516529693880156320 (by decide!)
  have e84 := hiStepP 510 1081711994841812017511022197057860268969303779088 521147686509697654411713761066516529693880156320 1336750816489270363407153365150692492551614618567 1012920123852431888115509163705529082494257519463 (by decide!)
  have e85 := hiStepP 509 1336750816489270363407153365150692492551614618567 1012920123852431888115509163705529082494257519463 688077863965159342119657190442864112420493847842 1152738261361213742468029091627639211828464924229 (by decide!)
  have e86 := hiStepP 508 688077863965159342119657190442864112420493847842 1152738261361213742468029091627639211828464924229 523558524311535675937766252945770790944749790813 835647893987500626804841538163639962924332027928 (by decide!)
  have e87 := hiStepP 507 523558524311535675937766252945770790944749790813 835647893987500626804841538163639962924332027928 364693762692457312405550414606426175530391763615 991910689548020204688117978866203376186829695623 (by decide!)
  have e88 := hiStepP 506 364693762692457312405550414606426175530391763615 991910689548020204688117978866203376186829695623 740423682058622509908975862701017998896015507768 251539800624540783433113633461583634100983917503 (by decide!)
  have e89 := hiStepP 505 740423682058622509908975862701017998896015507768 251539800624540783433113633461583634100983917503 866758883418491537434262831510814728829484290081 1072526404479726204357258113758466003097104759710 (by decide!)
  have e90 := hiStepP 504 866758883418491537434262831510814728829484290081 1072526404479726204357258113758466003097104759710 93320276161747103510416181804924609656480948874 979206161029901133288760553864742469109142280468 (by decide!)
  have e91 := hiStepP 503 93320276161747103510416181804924609656480948874 979206161029901133288760553864742469109142280468 101409957959453730615628301877129403185320116832 1063444338159225826476353312705303288132518746996 (by decide!)
  have e92 := hiStepP 502 101409957959453730615628301877129403185320116832 1063444338159225826476353312705303288132518746996 1308590435113749868240844913221588640427925622360 544880309345950204309526571862740997209261069612 (by decide!)
  have e93 := hiStepP 501 1308590435113749868240844913221588640427925622360 544880309345950204309526571862740997209261069612 1137321019276986213391195891297414241994424119079 869338294321938744052615212389817820363529206283 (by decide!)
  have e94 := hiStepP 500 1137321019276986213391195891297414241994424119079 869338294321938744052615212389817820363529206283 1176157067311895865470861326076077695983574125972 492463068684735388871233318749368802179409262495 (by decide!)
  have e95 := hiStepP 499 1176157067311895865470861326076077695983574125972 492463068684735388871233318749368802179409262495 763807923176401537002640033753734043898617968277 1207643389387511385778530386641632264173746815242 (by decide!)
  have e96 := hiStepP 498 763807923176401537002640033753734043898617968277 1207643389387511385778530386641632264173746815242 821033550496104148595545415499081498898253318473 527210595601624856930519267953832865538435647555 (by decide!)
  have e97 := hiStepP 497 821033550496104148595545415499081498898253318473 527210595601624856930519267953832865538435647555 60369719130775202923599592671727271270655776115 495520007365517201898504232607855992131532873008 (by decide!)
  have e98 := hiStepP 496 60369719130775202923599592671727271270655776115 495520007365517201898504232607855992131532873008 1158369804054445924970998398013300579563135494655 891605702249064981268803804351811053180409951439 (by decide!)
  have e99 := hiStepP 495 1158369804054445924970998398013300579563135494655 891605702249064981268803804351811053180409951439 231158574302198161858671215670811625907924810169 1029435308757687091951580130036673702405652712822 (by decide!)
  have t0 := e0
  have t1 := t0.trans e1
  have t2 := t1.trans e2
  have t3 := t2.trans e3
  have t4 := t3.trans e4
  have t5 := t4.trans e5
  have t6 := t5.trans e6
  have t7 := t6.trans e7
  have t8 := t7.trans e8
  have t9 := t8.trans e9
  have t10 := t9.trans e10
  have t11 := t10.trans e11
  have t12 := t11.trans e12
  have t13 := t12.trans e13
  have t14 := t13.trans e14
  have t15 := t14.trans e15
  have t16 := t15.trans e16
  have t17 := t16.trans e17
  have t18 := t17.trans e18
  have t19 := t18.trans e19
  have t20 := t19.trans e20
  have t21 := t20.trans e21
  have t22 := t21.trans e22
  have t23 := t22.trans e23
  have t24 := t23.trans e24
  have t25 := t24.trans e25
  have t26 := t25.trans e26
  have t27 := t26.trans e27
  have t28 := t27.trans e28
  have t29 := t28.trans e29
  have t30 := t29.trans e30
  have t31 := t30.trans e31
  have t32 := t31.trans e32
  have t33 := t32.trans e33
  have t34 := t33.trans e34
  have t35 := t34.trans e35
  have t36 := t35.trans e36
  have t37 := t36.trans e37
  have t38 := t37.trans e38
  have t39 := t38.trans e39
  have t40 := t39.trans e40
  have t41 := t40.trans e41
  have t42 := t41.trans e42
  have t43 := t42.trans e43
  have t44 := t43.trans e44
  have t45 := t44.trans e45
  have t46 := t45.trans e46
  have t47 := t46.trans e47
  have t48 := t47.trans e48
  have t49 := t48.trans e49
  have t50 := t49.trans e50
  have t51 := t50.trans e51
  have t52 := t51.trans e52
  have t53 := t52.trans e53
  have t54 := t53.trans e54
  have t55 := t54.trans e55
  have t56 := t55.trans e56
  have t57 := t56.trans e57
  have t58 := t57.trans e58
  have t59 := t58.trans e59
  have t60 := t59.trans e60
  have t61 := t60.trans e61
  have t62 := t61.trans e62
  have t63 := t62.trans e63
  have t64 := t63.trans e64
  have t65 := t64.trans e65
  have t66 := t65.trans e66
  have t67 := t66.trans e67
  have t68 := t67.trans e68
  have t69 := t68.trans e69
  have t70 := t69.trans e70
  have t71 := t70.trans e71
  have t72 := t71.trans e72
  have t73 := t72.trans e73
  have t74 := t73.trans e74
  have t75 := t74.trans e75
  have t76 := t75.trans e76
  have t77 := t76.trans e77
  have t78 := t77.trans e78
  have t79 := t78.trans e79
  have t80 := t79.trans e80
  have t81 := t80.trans e81
  have t82 := t81.trans e82
  have t83 := t82.trans e83
  have t84 := t83.trans e84
  have t85 := t84.trans e85
  have t86 := t85.trans e86
  have t87 := t86.trans e87
  have t88 := t87.trans e88
  have t89 := t88.trans e89
  have t90 := t89.trans e90
  have t91 := t90.trans e91
  have t92 := t91.trans e92
  have t93 := t92.trans e93
  have t94 := t93.trans e94
  have t95 := t94.trans e95
  have t96 := t95.trans e96
  have t97 := t96.trans e97
  have t98 := t97.trans e98
  have t99 := t98.trans e99
  exact t99

theorem hiChainSeg36 : hiLoop SHA_1 (strBytes "pencil") 495
    (unpackBytes 20 231158574302198161858671215670811625907924810169)
    (unpackBytes 20 1029435308757687091951580130036673702405652712822) =
    hiLoop SHA_1 (strBytes "pencil") 395
      (unpackBytes 20 1105131521603818358761070776943594548877988357185)
      (unpackBytes 20 874879656959582812201230804987966960825674755782) := by
  have e0 := hiStepP 494 231158574302198161858671215670811625907924810169 1029435308757687091951580130036673702405652712822 1219985484571937630106419508820904623506876670732 558844414317345521463764348902248772791101533818 (by decide!)
  have e1 := hiStepP 493 1219985484571937630106419508820904623506876670732 558844414317345521463764348902248772791101533818 814884102094649940982179202826571454736923385542 1366586352941882020881342843035536308894939476156 (by decide!)
  have e2 := hiStepP 492 814884102094649940982179202826571454736923385542 1366586352941882020881342843035536308894939476156 1065510205025595160184249990795312855175571006194 490905667935391607290104721291250239347889443406 (by decide!)
  have e3 := hiStepP 491 1065510205025595160184249990795312855175571006194 490905667935391607290104721291250239347889443406 185475377337996818170754124257083391403810925990 670850351189474490161479185111978529650400706536 (by decide!)
  have e4 := hiStepP 490 185475377337996818170754124257083391403810925990 670850351189474490161479185111978529650400706536 1180341561592984048411809100526025600932162849591 1069044827613566630179041798229880114895654647007 (by decide!)
  have e5 := hiStepP 489 1180341561592984048411809100526025600932162849591 1069044827613566630179041798229880114895654647007 654319717476153921826380155169371985945757044289 1152437458667454280774385697337957512035662510750 (by decide!)
  have e6 := hiStepP 488 654319717476153921826380155169371985945757044289 1152437458667454280774385697337957512035662510750 1376515148400433573552466412497043080380731608699 323985904835637332417544111528991333819285566693 (by decide!)
  have e7 := hiStepP 487 1376515148400433573552466412497043080380731608699 323985904835637332417544111528991333819285566693 687451148273485799605642657529040711296072574929 369175585853788325369111151582730195593183662900 (by decide!)
  have e8 := hiStepP 486 687451148273485799605642657529040711296072574929 369175585853788325369111151582730195593183662900 1016020125771585312732185741694740413307173383403 1377953019905721707657590477593365506637780893663 (by decide!)
  have e9 := hiStepP 485 1016020125771585312732185741694740413307173383403 1377953019905721707657590477593365506637780893663 276514242749543826108888562107909516136833263228 1102969703104885276677390019064372303890317875619 (by decide!)
  have e10 := hiStepP 484 276514242749543826108888562107909516136833263228 1102969703104885276677390019064372303890317875619 1433126578756634212624427590843047643909535253023 332309104798863261842692396309333943001357999036 (by decide!)
  have e11 := hiStepP 483 1433126578756634212624427590843047643909535253023 332309104798863261842692396309333943001357999036 1339835284656076716594203930629611291217811022959 1190437099213676166303394471249932538057085091795 (by decide!)
  have e12 := hiStepP 482 1339835284656076716594203930629611291217811022959 1190437099213676166303394471249932538057085091795 98815315488794055190532422133253316736146436324 1106340275555933198093548138354437226865499672375 (by decide!)
  have e13 := hiStepP 481 98815315488794055190532422133253316736146436324 1106340275555933198093548138354437226865499672375 115320081774386057621147713990275877854801473036 1221570890285016095278743047081980368854507528507 (by decide!)
  have e14 := hiStepP 480 115320081774386057621147713990275877854801473036 1221570890285016095278743047081980368854507528507 112246400350607903467267560661858993421788762444 1132173935180822284394753481169318760579574984823 (by decide!)
  have e15 := hiStepP 479 112246400350607903467267560661858993421788762444 1132173935180822284394753481169318760579574984823 1315510820846527616871683179362423865277759996615 184067998670071728494140751923751015569996067504 (by decide!)
  have e16 := hiStepP 478 1315510820846527616871683179362423865277759996615 184067998670071728494140751923751015569996067504 1220080991171621582291237577172064893779756554614 1401818405772317924432007191100993042246785215430 (by decide!)
  have e17 := hiStepP 477 1220080991171621582291237577172064893779756554614 1401818405772317924432007191100993042246785215430 939165075139852265941353446383943415389401141340 462654771224643102459607262246045602611452115866 (by decide!)
  have e18 := hiStepP 476 939165075139852265941353446383943415389401141340 462654771224643102459607262246045602611452115866 389270475773648723175372837344767415963488593856 120721395443915743768215157984533811463852481626 (by decide!)
  have e19 := hiStepP 475 389270475773648723175372837344767415963488593856 120721395443915743768215157984533811463852481626 1189445388425795522580517320298969653280095482982 1127476092366191116022548051170216208443486726204 (by decide!)
  have e20 := hiStepP 474 1189445388425795522580517320298969653280095482982 1127476092366191116022548051170216208443486726204 398078415501153277985906800060336415510883059664 735204244634104979346839224132186496137079992300 (by decide!)
  have e21 := hiStepP 473 398078415501153277985906800060336415510883059664 735204244634104979346839224132186496137079992300 445612792777310010730319388446778501737458183444 1180562876320837973967346899729938420363377672952 (by decide!)
  have e22 := hiStepP 472 445612792777310010730319388446778501737458183444 1180562876320837973967346899729938420363377672952 151994134112884000892930768647176807796644410168 1212221313452979722866124624507333391270979367360 (by decide!)
  have e23 := hiStepP 471 151994134112884000892930768647176807796644410168 1212221313452979722866124624507333391270979367360 1092471562538254675722542915388312876347508004077 611084695885734326340298685329186348405765104941 (by decide!)
  have e24 := hiStepP 470 1092471562538254675722542915388312876347508004077 611084695885734326340298685329186348405765104941 590168575530545569849116725813793074846797715196 70870263454075339222675251137079579874258727889 (by decide!)
  have e25 := hiStepP 469 590168575530545569849116725813793074846797715196 70870263454075339222675251137079579874258727889 977959003870911841981390925014347445749217719992 954223489436813868840031070616122869856484017513 (by decide!)
  have e26 := hiStepP 468 977959003870911841981390925014347445749217719992 954223489436813868840031070616122869856484017513 49505108103876299576437690895938562817737577775 1002267854493457941133031676873982609575427838022 (by decide!)
  have e27 := hiStepP 467 49505108103876299576437690895938562817737577775 1002267854493457941133031676873982609575427838022 797953132720983037711205631487465911807648550105 207180373708800460368245465428484937757954890911 (by decide!)
  have e28 := hiStepP 466 797953132720983037711205631487465911807648550105 207180373708800460368245465428484937757954890911 1197020622530670250553247185315062318450465027515 1403832679366410351030272610122767833476938131748 (by decide!)
  have e29 := hiStepP 465 1197020622530670250553247185315062318450465027515 1403832679366410351030272610122767833476938131748 153644699255671313207874084338769948842944278884 1364797456463690495716223875232569031976523552832 (by decide!)
  have e30 := hiStepP 464 153644699255671313207874084338769948842944278884 1364797456463690495716223875232569031976523552832 144342901835876639716390075451932897379170521000 1405999019599189851470064499432575823427504461800 (by decide!)
  have e31 := hiStepP 463 144342901835876639716390075451932897379170521000 1405999019599189851470064499432575823427504461800 1059597294691086955640722095676009060174854665682 455979273809937548963961950706807791051520139834 (by decide!)
  have e32 := hiStepP 462 1059597294691086955640722095676009060174854665682 455979273809937548963961950706807791051520139834 1209188066869893712160465721929214571195909668208 891027589625591633774217282037976514717774847818 (by decide!)
  have e33 := hiStepP 461 1209188066869893712160465721929214571195909668208 891027589625591633774217282037976514717774847818 565180612738004923664627679128585109548186257417 1455360234357503533901245220350551710407852676931 (by decide!)
  have e34 := hiStepP 460 565180612738004923664627679128585109548186257417 1455360234357503533901245220350551710407852676931 68682998327520589457282305004548672295022397186 1386822540173758362084523917056416090838568882241 (by decide!)
  have e35 := hiStepP 459 68682998327520589457282305004548672295022397186 1386822540173758362084523917056416090838568882241 579635873302168564369188818131324695915209041291 864477542624470503349713144641408156871022048714 (by decide!)
  have e36 := hiStepP 458 579635873302168564369188818131324695915209041291 864477542624470503349713144641408156871022048714 650992055246272271352206892614667148627865052040 1309767175428223769635314998373994059083226437186 (by decide!)
  have e37 := hiStepP 457 650992055246272271352206892614667148627865052040 1309767175428223769635314998373994059083226437186 1112263322256157764851427453873817392074518301976 226762431448513182868271045952599338691498629978 (by decide!)
  have e38 := hiStepP 456 1112263322256157764851427453873817392074518301976 226762431448513182868271045952599338691498629978 1124252826661888920192075953546567485793409974235 1297844529026032490129478341460793224941348349057 (by decide!)
  have e39 := hiStepP 455 1124252826661888920192075953546567485793409974235 1297844529026032490129478341460793224941348349057 833324378925488989272419857041710291395569583278 654455979138237576415840702787022463850211008559 (by decide!)
  have e40 := hiStepP 454 833324378925488989272419857041710291395569583278 654455979138237576415840702787022463850211008559 293113236974434465470165308532464582766114214202 376558253145207844313222104240294608112178491669 (by decide!)
  have e41 := hiStepP 453 293113236974434465470165308532464582766114214202 376558253145207844313222104240294608112178491669 828689694798438201464294834903418517175537189021 1192171348476090836352930263902654437968159158664 (by decide!)
  have e42 := hiStepP 452 828689694798438201464294834903418517175537189021 1192171348476090836352930263902654437968159158664 215266894354209117764289456796037492752306654989 1400981000345052675644373818769759261052497591941 (by decide!)
  have e43 := hiStepP 451 215266894354209117764289456796037492752306654989 1400981000345052675644373818769759261052497591941 1259791075452700345465118081083265583772336561361 238636563864852548651693407614569975254354682452 (by decide!)
  have e44 := hiStepP 450 1259791075452700345465118081083265583772336561361 238636563864852548651693407614569975254354682452 1332806738909660681404080647763023524027601511129 1100269496269921799738856415159933094536182562957 (by decide!)
  have e45 := hiStepP 449 1332806738909660681404080647763023524027601511129 1100269496269921799738856415159933094536182562957 66684024840220244580422532157151312241110962914 1159460122209655793982899774543423345091697922671 (by decide!)
  have e46 := hiStepP 448 66684024840220244580422532157151312241110962914 1159460122209655793982899774543423345091697922671 1152035093910262295966451931632382480743190119527 16345683060705292447448712154085118628235908616 (by decide!)
  have e47 := hiStepP 447 1152035093910262295966451931632382480743190119527 16345683060705292447448712154085118628235908616 864905960069582652705899715006018714038649977491 854281463574371405050588409787099659705934310555 (by decide!)
  have e48 := hiStepP 446 864905960069582652705899715006018714038649977491 854281463574371405050588409787099659705934310555 774918112164292483755986895255506884635833490237 103470746813922245281679372281482456588550616998 (by decide!)
  have e49 := hiStepP 445 774918112164292483755986895255506884635833490237 103470746813922245281679372281482456588550616998 1179800341542883825807066344806617375437924423986 1260078027937831209044758619779170119408550833812 (by decide!)
  have e50 := hiStepP 444 1179800341542883825807066344806617375437924423986 1260078027937831209044758619779170119408550833812 1084365983756047332952268204641012292205652696055 555366376922379809781394652908253680471936677219 (by decide!)
  have e51 := hiStepP 443 1084365983756047332952268204641012292205652696055 555366376922379809781394652908253680471936677219 210859966519800034287286746134265480011426035271 397671498653564048281354435307582519931273921316 (by decide!)
  have e52 := hiStepP 442 210859966519800034287286746134265480011426035271 397671498653564048281354435307582519931273921316 823353341784451009276349134814708042680515096150 1219232284396451243108275942949199701767936552306 (by decide!)
  have e53 := hiStepP 441 823353341784451009276349134814708042680515096150 1219232284396451243108275942949199701767936552306 692893294645847847138358927893214628679303890369 986544272338282117210069924047090176165940111539 (by decide!)
  have e54 := hiStepP 440 692893294645847847138358927893214628679303890369 986544272338282117210069924047090176165940111539 73309844645946025218240402058075262905863515808 914007141279523974288974423683877401437491627539 (by decide!)
  have e55 := hiStepP 439 73309844645946025218240402058075262905863515808 914007141279523974288974423683877401437491627539 231092544819574502701385683011957766408139726547 778651706489296945516018893415183894958680791232 (by decide!)
  have e56 := hiStepP 438 231092544819574502701385683011957766408139726547 778651706489296945516018893415183894958680791232 212957442209447675833311525732462193192407777230 988695584664347529250098998647099036920461846286 (by decide!)
  have e57 := hiStepP 437 212957442209447675833311525732462193192407777230 988695584664347529250098998647099036920461846286 483440414739551042208147770980084767158617889969 1424406044029323035823661381520366692140125469631 (by decide!)
  have e58 := hiStepP 436 483440414739551042208147770980084767158617889969 1424406044029323035823661381520366692140125469631 187813217191187005120700523703879181428767770037 1241109516202997087566335272756991686116535303690 (by decide!)
  have e59 := hiStepP 435 187813217191187005120700523703879181428767770037 1241109516202997087566335272756991686116535303690 857356819923561813850715584912540719859228656917 452625950877846068868297775259522670292179041055 (by decide!)
  have e60 := hiStepP 434 857356819923561813850715584912540719859228656917 452625950877846068868297775259522670292179041055 633024616382186263864053088129891561904310759559 192182001766402304530019776332194985487468694424 (by decide!)
  have e61 := hiStepP 433 633024616382186263864053088129891561904310759559 192182001766402304530019776332194985487468694424 31979470926417214224428516853703967655927064243 206677686749359843623054952232050789368191003947 (by decide!)
  have e62 := hiStepP 432 31979470926417214224428516853703967655927064243 206677686749359843623054952232050789368191003947 1122557880169072025130891101067190053489914940086 1282081253704366704614557621205450621893680048029 (by decide!)
  have e63 := hiStepP 431 1122557880169072025130891101067190053489914940086 1282081253704366704614557621205450621893680048029 369571173029468752940636179422656847765421625770 914478818507522847954629790403777809432246433335 (by decide!)
  have e64 := hiStepP 430 369571173029468752940636179422656847765421625770 914478818507522847954629790403777809432246433335 645920586281938345499545272415601149484560526189 1193417644563494476086710466887033921703014341978 (by decide!)
  have e65 := hiStepP 429 645920586281938345499545272415601149484560526189 1193417644563494476086710466887033921703014341978 178672752669180976720390210952792838467268328008 1177507586142143569137324098710804073250700633874 (by decide!)
  have e66 := hiStepP 428 178672752669180976720390210952792838467268328008 1177507586142143569137324098710804073250700633874 729118896362704146232882014778385024948172296036 1016012749850233321532922122164271129703573530742 (by decide!)
  have e67 := hiStepP 427 729118896362704146232882014778385024948172296036 1016012749850233321532922122164271129703573530742 1023221289319198892336786943492158359253041805136 15995385952682397258237893569473608997987508006 (by decide!)
  have e68 := hiStepP 426 1023221289319198892336786943492158359253041805136 15995385952682397258237893569473608997987508006 340995979509742719092478809447412196208446032079 328078444888836596007506843907205447912904529897 (by decide!)
  have e69 := hiStepP 425 340995979509742719092478809447412196208446032079 328078444888836596007506843907205447912904529897 398991851649361884957025523279789502968523564359 711235057804157565746432754762325810137979400878 (by decide!)
  have e70 := hiStepP 424 398991851649361884957025523279789502968523564359 711235057804157565746432754762325810137979400878 1429492464226460679007580280479498049187669037018 770363452412192898971033795419532476176356932980 (by decide!)
  have e71 := hiStepP 423 1429492464226460679007580280479498049187669037018 770363452412192898971033795419532476176356932980 687520377461549372305085233809335886429579013652 1453589088392012044144546694908382010262381302624 (by decide!)
  have e72 := hiStepP 422 687520377461549372305085233809335886429579013652 1453589088392012044144546694908382010262381302624 1183661562494992658062908029710901349233625911966 284201415299141581428121534915588009005126337022 (by decide!)
  have e73 := hiStepP 421 1183661562494992658062908029710901349233625911966 284201415299141581428121534915588009005126337022 924739447762566708494665857173296144092737965607 823227174062642544219176744962768709148712062937 (by decide!)
  have e74 := hiStepP 420 924739447762566708494665857173296144092737965607 823227174062642544219176744962768709148712062937 1173462056476819233502575803977781899735742011182 535063498263995057357316979110329634384575502583 (by decide!)
  have e75 := hiStepP 419 1173462056476819233502575803977781899735742011182 535063498263995057357316979110329634384575502583 952459703947133928380241429940932206610151785101 1435383856914828791712912203907786089884923910778 (by decide!)
  have e76 := hiStepP 418 952459703947133928380241429940932206610151785101 1435383856914828791712912203907786089884923910778 123079974220863146168901489990938672003940115294 1363820048485334688275260304739048272106167646500 (by decide!)
  have e77 := hiStepP 417 123079974220863146168901489990938672003940115294 1363820048485334688275260304739048272106167646500 646474600583769896229773279992668177632242418089 912705575535506190099884536559853062780175349901 (by decide!)
  have e78 := hiStepP 416 646474600583769896229773279992668177632242418089 912705575535506190099884536559853062780175349901 1228570136606395713084477759544458806431262828784 416352097338313395623685300065002721178053546109 (by decide!)
  have e79 := hiStepP 415 1228570136606395713084477759544458806431262828784 416352097338313395623685300065002721178053546109 314606879278480213085228039228361449599908309668 730542660671539856623282434370706912705495268057 (by decide!)
  have e80 := hiStepP 414 314606879278480213085228039228361449599908309668 730542660671539856623282434370706912705495268057 270393010985780919678161020821526464814481601817 460521363449433013297142039765555339240953843648 (by decide!)
  have e81 := hiStepP 413 270393010985780919678161020821526464814481601817 460521363449433013297142039765555339240953843648 1249454518049262170979684754895419977763173048709 790361368724032663290929249485220689142042439237 (by decide!)
  have e82 := hiStepP 412 1249454518049262170979684754895419977763173048709 790361368724032663290929249485220689142042439237 782323950909944588852491393795765339001241360437 19838693425280965318082691983921518931985561200 (by decide!)
  have e83 := hiStepP 411 782323950909944588852491393795765339001241360437 19838693425280965318082691983921518931985561200 625127066387571460848814641369756778998310779123 628127297888007778950532305213781859081971682947 (by decide!)
  have e84 := hiStepP 410 625127066387571460848814641369756778998310779123 628127297888007778950532305213781859081971682947 915390390233813555761534730400157863539715744318 1177874277138830408568386197936662585060579863741 (by decide!)
  have e85 := hiStepP 409 915390390233813555761534730400157863539715744318 1177874277138830408568386197936662585060579863741 296248920806039843152902041378934106727665517192 1448432638751062857129918265593443228990245547573 (by decide!)
  have e86 := hiStepP 408 296248920806039843152902041378934106727665517192 1448432638751062857129918265593443228990245547573 492470864457258931400123977861149378305906728444 981742832942727269563721698448954468738532242377 (by decide!)
  have e87 := hiStepP 407 492470864457258931400123977861149378305906728444 981742832942727269563721698448954468738532242377 186119729414383173800468995693414340803847743830 796030213438881099639537009911827768014252710559 (by decide!)
  have e88 := hiStepP 406 186119729414383173800468995693414340803847743830 796030213438881099639537009911827768014252710559 379523194197263521416054007011816203255605847206 1147982617917052885670107004579061951477928033849 (by decide!)
  have e89 := hiStepP 405 379523194197263521416054007011816203255605847206 1147982617917052885670107004579061951477928033849 1450231193192782462361358952385969014048851243356 314436286761608144702739975676802608727142813541 (by decide!)
  have e90 := hiStepP 404 1450231193192782462361358952385969014048851243356 314436286761608144702739975676802608727142813541 418398154363826240806988673157704736287915513940 721346943925612942172761353935433425563940149041 (by decide!)
  have e91 := hiStepP 403 418398154363826240806988673157704736287915513940 721346943925612942172761353935433425563940149041 773869973719811695408449729561533778977311711032 1426352118550764861742168677631730096990334584841 (by decide!)
  have e92 := hiStepP 402 773869973719811695408449729561533778977311711032 1426352118550764861742168677631730096990334584841 585749562717808380166408835251820480342795667003 909474252457837928192708637415267737419362291250 (by decide!)
  have e93 := hiStepP 401 585749562717808380166408835251820480342795667003 909474252457837928192708637415267737419362291250 494083505262975995955662166926643016988290367924 1151906325532191155582905018358749182758266441606 (by decide!)
  have e94 := hiStepP 400 494083505262975995955662166926643016988290367924 1151906325532191155582905018358749182758266441606 497618840855810960414411926022412340876154078680 907356363053777022261742629340783201953866320478 (by decide!)
  have e95 := hiStepP 399 497618840855810960414411926022412340876154078680 907356363053777022261742629340783201953866320478 136202623955807100236787889027224505417000505361 783309257192359756281711058443147756424538053199 (by decide!)
  have e96 := hiStepP 398 136202623955807100236787889027224505417000505361 783309257192359756281711058443147756424538053199 603398847724870342727169722427709343102405857381 1281793377368192157124106072387616768537843534378 (by decide!)
  have e97 := hiStepP 397 603398847724870342727169722427709343102405857381 1281793377368192157124106072387616768537843534378 433508037862162719006891054625693604144822223435 978617192946588247429005994372016059543803594849 (by decide!)
  have e98 := hiStepP 396 433508037862162719006891054625693604144822223435 978617192946588247429005994372016059543803594849 1391734818239523519010128918811374471191513694950 506254301726288762768682086676416307551015897735 (by decide!)
  have e99 := hiStepP 395 1391734818239523519010128918811374471191513694950 506254301726288762768682086676416307551015897735 1105131521603818358761070776943594548877988357185 874879656959582812201230804987966960825674755782 (by decide!)
  have t0 := e0
  have t1 := t0.trans e1
  have t2 := t1.trans e2
  have t3 := t2.trans e3
  have t4 := t3.trans e4
  have t5 := t4.trans e5
  have t6 := t5.trans e6
  have t7 := t6.trans e7
  have t8 := t7.trans e8
  have t9 := t8.trans e9
  have t10 := t9.trans e10
  have t11 := t10.trans e11
  have t12 := t11.trans e12
  have t13 := t12.trans e13
  have t14 := t13.trans e14
  have t15 := t14.trans e15
  have t16 := t15.trans e16
  have t17 := t16.trans e17
  have t18 := t17.trans e18
  have t19 := t18.trans e19
  have t20 := t19.trans e20
  have t21 := t20.trans e21
  have t22 := t21.trans e22
  have t23 := t22.trans e23
  have t24 := t23.trans e24
  have t25 := t24.trans e25
  have t26 := t25.trans e26
  have t27 := t26.trans e27
  have t28 := t27.trans e28
  have t29 := t28.trans e29
  have t30 := t29.trans e30
  have t31 := t30.trans e31
  have t32 := t31.trans e32
  have t33 := t32.trans e33
  have t34 := t33.trans e34
  have t35 := t34.trans e35
  have t36 := t35.trans e36
  have t37 := t36.trans e37
  have t38 := t37.trans e38
  have t39 := t38.trans e39
  have t40 := t39.trans e40
  have t41 := t40.trans e41
  have t42 := t41.trans e42
  have t43 := t42.trans e43
  have t44 := t43.trans e44
  have t45 := t44.trans e45
  have t46 := t45.trans e46
  have t47 := t46.trans e47
  have t48 := t47.trans e48
  have t49 := t48.trans e49
  have t50 := t49.trans e50
  have t51 := t50.trans e51
  have t52 := t51.trans e52
  have t53 := t52.trans e53
  have t54 := t53.trans e54
  have t55 := t54.trans e55
  have t56 := t55.trans e56
  have t57 := t56.trans e57
  have t58 := t57.trans e58
  have t59 := t58.trans e59
  have t60 := t59.trans e60
  have t61 := t60.trans e61
  have t62 := t61.trans e62
  have t63 := t62.trans e63
  have t64 := t63.trans e64
  have t65 := t64.trans e65
  have t66 := t65.trans e66
  have t67 := t66.trans e67
  have t68 := t67.trans e68
  have t69 := t68.trans e69
  have t70 := t69.trans e70
  have t71 := t70.trans e71
  have t72 := t71.trans e72
  have t73 := t72.trans e73
  have t74 := t73.trans e74
  have t75 := t74.trans e75
  have t76 := t75.trans e76
  have t77 := t76.trans e77
  have t78 := t77.trans e78
  have t79 := t78.trans e79
  have t80 := t79.trans e80
  have t81 := t80.trans e81
  have t82 := t81.trans e82
  have t83 := t82.trans e83
  have t84 := t83.trans e84
  have t85 := t84.trans e85
  have t86 := t85.trans e86
  have t87 := t86.trans e87
  have t88 := t87.trans e88
  have t89 := t88.trans e89
  have t90 := t89.trans e90
  have t91 := t90.trans e91
  have t92 := t91.trans e92
  have t93 := t92.trans e93
  have t94 := t93.trans e94
  have t95 := t94.trans e95
  have t96 := t95.trans e96
  have t97 := t96.trans e97
  have t98 := t97.trans e98
  have t99 := t98.trans e99
  exact t99

theorem hiChainSeg37 : hiLoop SHA_1 (strBytes "pencil") 395
    (unpackBytes 20 1105131521603818358761070776943594548877988357185)
    (unpackBytes 20 874879656959582812201230804987966960825674755782) =
    hiLoop SHA_1 (strBytes "pencil") 295
      (unpackBytes 20 1459554353173181159464015790297911097466742773402)
      (unpackBytes 20 308886956358426051164875481891410142290209970701) := by
  have e0 := hiStepP 394 1105131521603818358761070776943594548877988357185 874879656959582812201230804987966960825674755782 853199659846169085360701287810555224450695505148 70208162730869229350789114295057753997234588218 (by decide!)
  have e1 := hiStepP 393 853199659846169085360701287810555224450695505148 70208162730869229350789114295057753997234588218 695756170580041266561741963719928085939323268344 671229349302886141924574894001898690297590916802 (by decide!)
  have e2 := hiStepP 392 695756170580041266561741963719928085939323268344 671229349302886141924574894001898690297590916802 630421536311115017600139677732873802058483230335 159849245583187110476778385836906586269900259517 (by decide!)
  have e3 := hiStepP 391 630421536311115017600139677732873802058483230335 159849245583187110476778385836906586269900259517 472845502203531922080813950147130354582096597210 417754584506401341207395940191246274304970887271 (by decide!)
  have e4 := hiStepP 390 472845502203531922080813950147130354582096597210 417754584506401341207395940191246274304970887271 809064020612198794036347746174803537689222497604 1122428217944648752675476306861210144948541871395 (by decide!)
  have e5 := hiStepP 389 809064020612198794036347746174803537689222497604 1122428217944648752675476306861210144948541871395 849473252382510171824802008450471668808621995678 458522723542063976057494705362794498145236673469 (by decide!)
  have e6 := hiStepP 388 849473252382510171824802008450471668808621995678 458522723542063976057494705362794498145236673469 683587263485139074518355852479827228647005466318 227952841749012056760384019594002080112087158131 (by decide!)
  have e7 := hiStepP 387 683587263485139074518355852479827228647005466318 227952841749012056760384019594002080112087158131 424795908132017542631765569655589311651956379354 625251880681369875597887193364873601915723940777 (by decide!)
  have e8 := hiStepP 386 424795908132017542631765569655589311651956379354 625251880681369875597887193364873601915723940777 92963133259023735497786914230711549099830711753 718215010579772836782482483737567216859827344992 (by decide!)
  have e9 := hiStepP 385 92963133259023735497786914230711549099830711753 718215010579772836782482483737567216859827344992 905413778013869563943497130095558698833959010818 1297858032013086479158642700477388342709698843746 (by decide!)
  have e10 := hiStepP 384 905413778013869563943497130095558698833959010818 1297858032013086479158642700477388342709698843746 714495058397740589188249658677281662107167025187 904582910239822678593093996333073567938263301185 (by decide!)
  have e11 := hiStepP 383 714495058397740589188249658677281662107167025187 904582910239822678593093996333073567938263301185 893183870856366337856391781940507697069753375738 11448074072542801176921012959252992379178100667 (by decide!)
  have e12 := hiStepP 382 893183870856366337856391781940507697069753375738 11448074072542801176921012959252992379178100667 216250932210009506608616799394947852860821914535 227654328568790632361119742844122791246037935132 (by decide!)
  have e13 := hiStepP 381 216250932210009506608616799394947852860821914535 227654328568790632361119742844122791246037935132 638208272840185779572662440502082485819033866642 411992344043431152646630694628458987746904716686 (by decide!)
  have e14 := hiStepP 380 638208272840185779572662440502082485819033866642 411992344043431152646630694628458987746904716686 924578544324233062214611532364162543688261725040 1335054409110443586736493925387060397431019626238 (by decide!)
  have e15 := hiStepP 379 924578544324233062214611532364162543688261725040 1335054409110443586736493925387060397431019626238 75522616702413968483272860042966380370322549841 1306720886648470354019666875811110453011247608495 (by decide!)
  have e16 := hiStepP 378 75522616702413968483272860042966380370322549841 1306720886648470354019666875811110453011247608495 796635137288619770771794408273344610851618211953 636045040599733788855405579215239612328122251998 (by decide!)
  have e17 := hiStepP 377 796635137288619770771794408273344610851618211953 636045040599733788855405579215239612328122251998 887999664840481519913476762357352923262791590615 1398044063071736578604136443694919543189827082249 (by decide!)
  have e18 := hiStepP 376 887999664840481519913476762357352923262791590615 1398044063071736578604136443694919543189827082249 1279668559946571312164358018516948481440583427996 118553932227013731183210930639753825931475255189 (by decide!)
  have e19 := hiStepP 375 1279668559946571312164358018516948481440583427996 118553932227013731183210930639753825931475255189 1253577245305938203604326263938817472367908676620 1183556076133137856811323802149282176936985467801 (by decide!)
  have e20 := hiStepP 374 1253577245305938203604326263938817472367908676620 1183556076133137856811323802149282176936985467801 769452168132502955319047608929934678157431260625 420125207235509741655460855694181390340818361928 (by decide!)
  have e21 := hiStepP 373 769452168132502955319047608929934678157431260625 420125207235509741655460855694181390340818361928 1442391987348680337426826684340970998120865780269 1034398386862300928368865678919814262148459433061 (by decide!)
  have e22 := hiStepP 372 1442391987348680337426826684340970998120865780269 1034398386862300928368865678919814262148459433061 224054421542487412328969017110099153067178452364 833846269578468749828676108402892319533913303529 (by decide!)
  have e23 := hiStepP 371 224054421542487412328969017110099153067178452364 833846269578468749828676108402892319533913303529 1204367079983221606667736902236001402380520883828 370978969498739664408594770324411992502428168093 (by decide!)
  have e24 := hiStepP 370 1204367079983221606667736902236001402380520883828 370978969498739664408594770324411992502428168093 801825313153422812289045783390282894147559098891 1167674214091238579340702328692304524338552300950 (by decide!)
  have e25 := hiStepP 369 801825313153422812289045783390282894147559098891 1167674214091238579340702328692304524338552300950 636409802955319366781250523075900875913255560255 935957471830348787616138443341065842719691588009 (by decide!)
  have e26 := hiStepP 368 636409802955319366781250523075900875913255560255 935957471830348787616138443341065842719691588009 76256317841780753869068663265913727518762911244 997171832845513169897169159392701250341833246629 (by decide!)
  have e27 := hiStepP 367 76256317841780753869068663265913727518762911244 997171832845513169897169159392701250341833246629 1067084095339252141843815377975175321795220668076 115675351669561507926634777553277355823704144137 (by decide!)
  have e28 := hiStepP 366 1067084095339252141843815377975175321795220668076 115675351669561507926634777553277355823704144137 725382724376380622460087331237941207444671668365 612563023697390238636458417493644449577787906436 (by decide!)
  have e29 := hiStepP 365 725382724376380622460087331237941207444671668365 612563023697390238636458417493644449577787906436 989904443820361510170508497735964908996136196848 1131286059190396452489268614312537463582896685940 (by decide!)
  have e30 := hiStepP 364 989904443820361510170508497735964908996136196848 1131286059190396452489268614312537463582896685940 1390272583808411036405623387726244663371964487454 306443382254469290221238314619244451055751271530 (by decide!)
  have e31 := hiStepP 363 1390272583808411036405623387726244663371964487454 306443382254469290221238314619244451055751271530 266982560699002749046684477421623316037643116649 156608114291228557213773213894246790712336823299 (by decide!)
  have e32 := hiStepP 362 266982560699002749046684477421623316037643116649 156608114291228557213773213894246790712336823299 1161213144584349944710776120750480995004063300061 1187650388127274032020689573307444640159533731294 (by decide!)
  have e33 := hiStepP 361 1161213144584349944710776120750480995004063300061 1187650388127274032020689573307444640159533731294 751661482536273204225734152204982184702345475242 477453331486953088699974653613425503843687496052 (by decide!)
  have e34 := hiStepP 360 751661482536273204225734152204982184702345475242 477453331486953088699974653613425503843687496052 1116844657910836747673777458219608169476354241569 822110404146247987257388396532954605092037856597 (by decide!)
  have e35 := hiStepP 359 1116844657910836747673777458219608169476354241569 822110404146247987257388396532954605092037856597 1374227987551854190066689966392218003416515450670 552126660480726990877187305785700004991424240251 (by decide!)
  have e36 := hiStepP 358 1374227987551854190066689966392218003416515450670 552126660480726990877187305785700004991424240251 739358860686481333339543759976576497870467564065 1285766908739571841023227320512062709230037538906 (by decide!)
  have e37 := hiStepP 357 739358860686481333339543759976576497870467564065 1285766908739571841023227320512062709230037538906 327004281302854835203840606553747577651691056405 1235654438250115798366879160535858284511267812687 (by decide!)
  have e38 := hiStepP 356 327004281302854835203840606553747577651691056405 1235654438250115798366879160535858284511267812687 557650993198278214478327408277484947453061293436 1061097874805598355514762883945604887861689356339 (by decide!)
  have e39 := hiStepP 355 557650993198278214478327408277484947453061293436 1061097874805598355514762883945604887861689356339 439612041889078763183095741763856995681743810233 1397936545035773838295771434318971056805272796810 (by decide!)
  have e40 := hiStepP 354 439612041889078763183095741763856995681743810233 1397936545035773838295771434318971056805272796810 331707454209035559030740538163835664478416417275 1180509662662408484647510068001185269806755123057 (by decide!)
  have e41 := hiStepP 353 331707454209035559030740538163835664478416417275 1180509662662408484647510068001185269806755123057 639299742458367042304511011337252770943731840692 920503978887052424484397600605136674660799461829 (by decide!)
  have e42 := hiStepP 352 639299742458367042304511011337252770943731840692 920503978887052424484397600605136674660799461829 841408997092073955717772680486824171078274943717 287563134644057043867177053068158150740942074656 (by decide!)
  have e43 := hiStepP 351 841408997092073955717772680486824171078274943717 287563134644057043867177053068158150740942074656 227305204483448650648629013404269602996237108964 123065367867583843059775884398227871608290751940 (by decide!)
  have e44 := hiStepP 350 227305204483448650648629013404269602996237108964 123065367867583843059775884398227871608290751940 30125379673113594842550847652331681968555085185 95819269769092665066152335811634657670775568453 (by decide!)
  have e45 := hiStepP 349 30125379673113594842550847652331681968555085185 95819269769092665066152335811634657670775568453 491961220057639887011911330060984555046143187308 404733661016847089345447535172358682837695013161 (by decide!)
  have e46 := hiStepP 348 491961220057639887011911330060984555046143187308 404733661016847089345447535172358682837695013161 1047820583001532559087197956524089084202538447651 1378297987691222978427539984518892375208392397322 (by decide!)
  have e47 := hiStepP 347 1047820583001532559087197956524089084202538447651 1378297987691222978427539984518892375208392397322 819774202233897393709260726972067083425128051942 724929508345884473042456560629937138911275050732 (by decide!)
  have e48 := hiStepP 346 819774202233897393709260726972067083425128051942 724929508345884473042456560629937138911275050732 130929638711096062106909494197347753259121958832 594222882627849578985049059431141515738343553372 (by decide!)
  have e49 := hiStepP 345 130929638711096062106909494197347753259121958832 594222882627849578985049059431141515738343553372 301033603055057840627323946947245373871881783845 529133995842364469083456821454846897234473988985 (by decide!)
  have e50 := hiStepP 344 301033603055057840627323946947245373871881783845 529133995842364469083456821454846897234473988985 1393752122161434769085913180435189582429457892162 962259195304137769343413247538634488360569630779 (by decide!)
  have e51 := hiStepP 343 1393752122161434769085913180435189582429457892162 962259195304137769343413247538634488360569630779 867588651313895727044051091132350587851018848980 362280188800822966264433226021441482383836363503 (by decide!)
  have e52 := hiStepP 342 867588651313895727044051091132350587851018848980 362280188800822966264433226021441482383836363503 535649691404162180342355519808787482521276258724 563192120363982550127633242315282367675593696075 (by decide!)
  have e53 := hiStepP 341 535649691404162180342355519808787482521276258724 563192120363982550127633242315282367675593696075 70754580814573852697813624508420480144160409216 632334034280739564471457167428733510149810283979 (by decide!)
  have e54 := hiStepP 340 70754580814573852697813624508420480144160409216 632334034280739564471457167428733510149810283979 271337531293511090422525574332266903468766627595 372643068530950313791088381318168659902852129472 (by decide!)
  have e55 := hiStepP 339 271337531293511090422525574332266903468766627595 372643068530950313791088381318168659902852129472 12551174810667413596317532864239857946238927843 385160768693555300950627928716721719985581465891 (by decide!)
  have e56 := hiStepP 338 12551174810667413596317532864239857946238927843 385160768693555300950627928716721719985581465891 172987413540471564131422909798090951109113548802 532234013714651045720169312140006905709073412385 (by decide!)
  have e57 := hiStepP 337 172987413540471564131422909798090951109113548802 532234013714651045720169312140006905709073412385 1340026681221132947706747263980506665865812918130 1047665070996737941859678039071224847407555939923 (by decide!)
  have e58 := hiStepP 336 1340026681221132947706747263980506665865812918130 1047665070996737941859678039071224847407555939923 1093090094663019505400267386711342653776393874264 51140472498355366983187263590757918117575599371 (by decide!)
  have e59 := hiStepP 335 1093090094663019505400267386711342653776393874264 51140472498355366983187263590757918117575599371 1330245302669714015515618043241313798759442084909 1290041397405637169182158309267042625758553035046 (by decide!)
  have e60 := hiStepP 334 1330245302669714015515618043241313798759442084909 1290041397405637169182158309267042625758553035046 1378256335017287678886963464491955696098212993549 94829928826710017381744162289343760938939157291 (by decide!)
  have e61 := hiStepP 333 1378256335017287678886963464491955696098212993549 94829928826710017381744162289343760938939157291 752381842332254119605566971511882760905216384129 841131649344332598357771613126186345975238481834 (by decide!)
  have e62 := hiStepP 332 752381842332254119605566971511882760905216384129 841131649344332598357771613126186345975238481834 360123188229109672385635709002980284777907744001 983415364656305308805089356662668829037740178091 (by decide!)
  have e63 := hiStepP 331 360123188229109672385635709002980284777907744001 983415364656305308805089356662668829037740178091 1018565298783597619680746625026193183862612423564 172246996559325997270937785705767920334206519591 (by decide!)
  have e64 := hiStepP 330 1018565298783597619680746625026193183862612423564 172246996559325997270937785705767920334206519591 861889121056460251071211696364183450412366474356 781142439002908645416664021363379495908789019987 (by decide!)
  have e65 := hiStepP 329 861889121056460251071211696364183450412366474356 781142439002908645416664021363379495908789019987 204782785311692298974989582190061799067894656604 976536083779401794972963322298033973889220397839 (by decide!)
  have e66 := hiStepP 328 204782785311692298974989582190061799067894656604 976536083779401794972963322298033973889220397839 759253867549696760821250042441238959684003715729 273752322981071326990231430453523451300403253662 (by decide!)
  have e67 := hiStepP 327 759253867549696760821250042441238959684003715729 273752322981071326990231430453523451300403253662 283148888751308040248663900163742361126396713835 173671177823761636563203349715946005260403722997 (by decide!)
  have e68 := hiStepP 326 283148888751308040248663900163742361126396713835 173671177823761636563203349715946005260403722997 1090641800266456988392690790003228797297034393807 921327282087402691082186953274295684161294709306 (by decide!)
  have e69 := hiStepP 325 1090641800266456988392690790003228797297034393807 921327282087402691082186953274295684161294709306 225069195918952256099008133089585308925217094065 765312545539164532265673605620525447145012333451 (by decide!)
  have e70 := hiStepP 324 225069195918952256099008133089585308925217094065 765312545539164532265673605620525447145012333451 898602244496611879924291422238298530345696499408 156539641837851958601010206755843016844078619995 (by decide!)
  have e71 := hiStepP 323 898602244496611879924291422238298530345696499408 156539641837851958601010206755843016844078619995 1368550249624106242835334364053133132014142152099 1397912506462302850859409238585108236461450641656 (by decide!)
  have e72 := hiStepP 322 1368550249624106242835334364053133132014142152099 1397912506462302850859409238585108236461450641656 1256941893925811220695734204323340350999341213025 233882711974819562370221590705513483088672089497 (by decide!)
  have e73 := hiStepP 321 1256941893925811220695734204323340350999341213025 233882711974819562370221590705513483088672089497 226911783005865953894149713149015709893891150929 87256748410194061531319793817005722055164244424 (by decide!)
  have e74 := hiStepP 320 226911783005865953894149713149015709893891150929 87256748410194061531319793817005722055164244424 741106185597184593547765388108209663953455067263 814086226647397200119716930294196476267372708279 (by decide!)
  have e75 := hiStepP 319 741106185597184593547765388108209663953455067263 814086226647397200119716930294196476267372708279 167473762001761601037656805779768464522316661250 843797047902340033409310961394575779285876556725 (by decide!)
  have e76 := hiStepP 318 167473762001761601037656805779768464522316661250 843797047902340033409310961394575779285876556725 1094964654907860188119856451370466697815715890662 251346372654900815445974014153716047404307908179 (by decide!)
  have e77 := hiStepP 317 1094964654907860188119856451370466697815715890662 251346372654900815445974014153716047404307908179 299321213285627078082985044865073402362177810654 139352292956571873279080955717623153188531959437 (by decide!)
  have e78 := hiStepP 316 299321213285627078082985044865073402362177810654 139352292956571873279080955717623153188531959437 1401555046243160551439596685510305376994736268747 1353546799443891853750506759641049036105615250246 (by decide!)
  have e79 := hiStepP 315 1401555046243160551439596685510305376994736268747 1353546799443891853750506759641049036105615250246 651350739605930909377640169592528360826558615591 907744948642134835168192120521535615741722854241 (by decide!)
  have e80 := hiStepP 314 651350739605930909377640169592528360826558615591 907744948642134835168192120521535615741722854241 40168787063227917034087027280653935455734267772 867979497003164848765025818278957853017656884253 (by decide!)
  have e81 := hiStepP 313 40168787063227917034087027280653935455734267772 867979497003164848765025818278957853017656884253 878250592505355748394663377547449316409062769556 10695092946864981728627249585751087594850860937 (by decide!)
  have e82 := hiStepP 312 878250592505355748394663377547449316409062769556 10695092946864981728627249585751087594850860937 1004803313985495856453716060276689071333207515342 1015473315825052698803076169482254918390198083399 (by decide!)
  have e83 := hiStepP 311 1004803313985495856453716060276689071333207515342 1015473315825052698803076169482254918390198083399 554832518239849493004499192327231973820282787297 1192842559898189304278800393751214627210089581222 (by decide!)
  have e84 := hiStepP 310 554832518239849493004499192327231973820282787297 1192842559898189304278800393751214627210089581222 1460297256087300368729469827035478387542210805993 269595748977712114620216967455428429604934601295 (by decide!)
  have e85 := hiStepP 309 1460297256087300368729469827035478387542210805993 269595748977712114620216967455428429604934601295 507798845951916816330858824524666446371518289925 683906335693737228924994726733975741518093046346 (by decide!)
  have e86 := hiStepP 308 507798845951916816330858824524666446371518289925 683906335693737228924994726733975741518093046346 431962127216670329110282486203426553105700298296 344740402796993212519560846841400370833588374642 (by decide!)
  have e87 := hiStepP 307 431962127216670329110282486203426553105700298296 344740402796993212519560846841400370833588374642 616753255029446546300690685949561305423385582530 459096869052390625605143938956605382882840778672 (by decide!)
  have e88 := hiStepP 306 616753255029446546300690685949561305423385582530 459096869052390625605143938956605382882840778672 1346567690559266461191698146578537532609365963122 1071611036430384266933497654809714715710340064962 (by decide!)
  have e89 := hiStepP 305 1346567690559266461191698146578537532609365963122 1071611036430384266933497654809714715710340064962 240971710626188912335760807393765810634932518691 830685419343049100068886010339654762512604961249 (by decide!)
  have e90 := hiStepP 304 240971710626188912335760807393765810634932518691 830685419343049100068886010339654762512604961249 1194705067335681656543488358624791878310239836139 369776095985390862247554812248115402470103256586 (by decide!)
  have e91 := hiStepP 303 1194705067335681656543488358624791878310239836139 369776095985390862247554812248115402470103256586 1118482113523423741190592144295053408436973232050 748929899613433221600768752276988437109411762616 (by decide!)
  have e92 := hiStepP 302 1118482113523423741190592144295053408436973232050 748929899613433221600768752276988437109411762616 1404582272359604189924545550567411885997405440458 668855808637475264668462260140493696255942613106 (by decide!)
  have e93 := hiStepP 301 1404582272359604189924545550567411885997405440458 668855808637475264668462260140493696255942613106 110968426999388595441381821515697174345042611291 583910794504137932068261507523585017095945294889 (by decide!)
  have e94 := hiStepP 300 110968426999388595441381821515697174345042611291 583910794504137932068261507523585017095945294889 1394766859099430233155174591567303457163306020235 833712433755515036218669249330253737439007259042 (by decide!)
  have e95 := hiStepP 299 1394766859099430233155174591567303457163306020235 833712433755515036218669249330253737439007259042 131294475940166836521552774479557147114113336119 759106895003642207901750910717961769247517358741 (by decide!)
  have e96 := hiStepP 298 131294475940166836521552774479557147114113336119 759106895003642207901750910717961769247517358741 829097018617098030581404903898885351681285264278 124493281555454678273734610717804911129912879363 (by decide!)
  have e97 := hiStepP 297 829097018617098030581404903898885351681285264278 124493281555454678273734610717804911129912879363 374941555874281316260165511228193287048422764911 481752997963225790407848140798693043968826349676 (by decide!)
  have e98 := hiStepP 296 374941555874281316260165511228193287048422764911 481752997963225790407848140798693043968826349676 900969197321350756523761500190122658464894129403 1151484178324402583952293913701758458738956209303 (by decide!)
  have e99 := hiStepP 295 900969197321350756523761500190122658464894129403 1151484178324402583952293913701758458738956209303 1459554353173181159464015790297911097466742773402 308886956358426051164875481891410142290209970701 (by decide!)
  have t0 := e0
  have t1 := t0.trans e1
  have t2 := t1.trans e2
  have t3 := t2.trans e3
  have t4 := t3.trans e4
  have t5 := t4.trans e5
  have t6 := t5.trans e6
  have t7 := t6.trans e7
  have t8 := t7.trans e8
  have t9 := t8.trans e9
  have t10 := t9.trans e10
  have t11 := t10.trans e11
  have t12 := t11.trans e12
  have t13 := t12.trans e13
  have t14 := t13.trans e14
  have t15 := t14.trans e15
  have t16 := t15.trans e16
  have t17 := t16.trans e17
  have t18 := t17.trans e18
  have t19 := t18.trans e19
  have t20 := t19.trans e20
  have t21 := t20.trans e21
  have t22 := t21.trans e22
  have t23 := t22.trans e23
  have t24 := t23.trans e24
  have t25 := t24.trans e25
  have t26 := t25.trans e26
  have t27 := t26.trans e27
  have t28 := t27.trans e28
  have t29 := t28.trans e29
  have t30 := t29.trans e30
  have t31 := t30.trans e31
  have t32 := t31.trans e32
  have t33 := t32.trans e33
  have t34 := t33.trans e34
  have t35 := t34.trans e35
  have t36 := t35.trans e36
  have t37 := t36.trans e37
  have t38 := t37.trans e38
  have t39 := t38.trans e39
  have t40 := t39.trans e40
  have t41 := t40.trans e41
  have t42 := t41.trans e42
  have t43 := t42.trans e43
  have t44 := t43.trans e44
  have t45 := t44.trans e45
  have t46 := t45.trans e46
  have t47 := t46.trans e47
  have t48 := t47.trans e48
  have t49 := t48.trans e49
  have t50 := t49.trans e50
  have t51 := t50.trans e51
  have t52 := t51.trans e52
  have t53 := t52.trans e53
  have t54 := t53.trans e54
  have t55 := t54.trans e55
  have t56 := t55.trans e56
  have t57 := t56.trans e57
  have t58 := t57.trans e58
  have t59 := t58.trans e59
  have t60 := t59.trans e60
  have t61 := t60.trans e61
  have t62 := t61.trans e62
  have t63 := t62.trans e63
  have t64 := t63.trans e64
  have t65 := t64.trans e65
  have t66 := t65.trans e66
  have t67 := t66.trans e67
  have t68 := t67.trans e68
  have t69 := t68.trans e69
  have t70 := t69.trans e70
  have t71 := t70.trans e71
  have t72 := t71.trans e72
  have t73 := t72.trans e73
  have t74 := t73.trans e74
  have t75 := t74.trans e75
  have t76 := t75.trans e76
  have t77 := t76.trans e77
  have t78 := t77.trans e78
  have t79 := t78.trans e79
  have t80 := t79.trans e80
  have t81 := t80.trans e81
  have t82 := t81.trans e82
  have t83 := t82.trans e83
  have t84 := t83.trans e84
  have t85 := t84.trans e85
  have t86 := t85.trans e86
  have t87 := t86.trans e87
  have t88 := t87.trans e88
  have t89 := t88.trans e89
  have t90 := t89.trans e90
  have t91 := t90.trans e91
  have t92 := t91.trans e92
  have t93 := t92.trans e93
  have t94 := t93.trans e94
  have t95 := t94.trans e95
  have t96 := t95.trans e96
  have t97 := t96.trans e97
  have t98 := t97.trans e98
  have t99 := t98.trans e99
  exact t99

theorem hiChainSeg38 : hiLoop SHA_1 (strBytes "pencil") 295
    (unpackBytes 20 1459554353173181159464015790297911097466742773402)
    (unpackBytes 20 308886956358426051164875481891410142290209970701) =
    hiLoop SHA_1 (strBytes "pencil") 195
      (unpackBytes 20 269342787574495866804892089146462092122684543154)
      (unpackBytes 20 9844904929737510826438681720820014664894147750) := by
  have e0 := hiStepP 294 1459554353173181159464015790297911097466742773402 308886956358426051164875481891410142290209970701 634554444845612124534631749961753992789536103747 509452125075090572205144424764937900050310612814 (by decide!)
  have e1 := hiStepP 293 634554444845612124534631749961753992789536103747 509452125075090572205144424764937900050310612814 1461167990965242033415992671831722982256369549715 952277228715332126300672554597981924434310104797 (by decide!)
  have e2 := hiStepP 292 1461167990965242033415992671831722982256369549715 952277228715332126300672554597981924434310104797 549834547245920771176164899215033425898386928911 1133301000784747045850064055950491258909941707730 (by decide!)
  have e3 := hiStepP 291 549834547245920771176164899215033425898386928911 1133301000784747045850064055950491258909941707730 909400765668050555872512049723424609272372328077 512561168207836351080346085225850553494755919199 (by decide!)
  have e4 := hiStepP 290 909400765668050555872512049723424609272372328077 512561168207836351080346085225850553494755919199 262675822709430932146766440990758258407157740911 683891657541886157865238939910376326825960271920 (by decide!)
  have e5 := hiStepP 289 262675822709430932146766440990758258407157740911 683891657541886157865238939910376326825960271920 53231957216073352836170285310248779530233312306 722761908967320885391340868570868322324559299586 (by decide!)
  have e6 := hiStepP 288 53231957216073352836170285310248779530233312306 722761908967320885391340868570868322324559299586 711065801506854389147881248623823187516449744269 11875910973366543405948400338257178417934885263 (by decide!)
  have e7 := hiStepP 287 711065801506854389147881248623823187516449744269 11875910973366543405948400338257178417934885263 453791578468176786933337512258419788109303133555 441917065136346553796062215672471778101260834044 (by decide!)
  have e8 := hiStepP 286 453791578468176786933337512258419788109303133555 441917065136346553796062215672471778101260834044 568374108514026738469952655121529618721562083222 267764510537857419696607914624043804333332720490 (by decide!)
  have e9 := hiStepP 285 568374108514026738469952655121529618721562083222 267764510537857419696607914624043804333332720490 691270645516793903117108397646050098596188740309 502109293501541786746426181175733617575176712639 (by decide!)
  have e10 := hiStepP 284 691270645516793903117108397646050098596188740309 502109293501541786746426181175733617575176712639 636041741321943993970920213940075824304932185057 323143819397324891287938497972470721206311637598 (by decide!)
  have e11 := hiStepP 283 636041741321943993970920213940075824304932185057 323143819397324891287938497972470721206311637598 188729290021687318196496806421193082404088477513 146040339139380254637043721188951814044362515735 (by decide!)
  have e12 := hiStepP 282 188729290021687318196496806421193082404088477513 146040339139380254637043721188951814044362515735 172961851801203022228896796768553243913239330316 44942649119179296238907333117208558625267800859 (by decide!)
  have e13 := hiStepP 281 172961851801203022228896796768553243913239330316 44942649119179296238907333117208558625267800859 1315487782371952061558712073116594741656946360144 1288532825312928931536125511419881094886454748235 (by decide!)
  have e14 := hiStepP 280 1315487782371952061558712073116594741656946360144 1288532825312928931536125511419881094886454748235 1028172712707715175452431369189830144748497229099 489079432884745522957719747880984766718816629088 (by decide!)
  have e15 := hiStepP 279 1028172712707715175452431369189830144748497229099 489079432884745522957719747880984766718816629088 356583696962915884150586830332677257355730439137 615830950125985221662133477183080860504305203841 (by decide!)
  have e16 := hiStepP 278 356583696962915884150586830332677257355730439137 615830950125985221662133477183080860504305203841 98472004441106490188231017605908637170315214862 701524621894776095406228175734499706254915189391 (by decide!)
  have e17 := hiStepP 277 98472004441106490188231017605908637170315214862 701524621894776095406228175734499706254915189391 567678740981500121400897926286536177558879057594 145912027382890616569690077053718729543247137845 (by decide!)
  have e18 := hiStepP 276 567678740981500121400897926286536177558879057594 145912027382890616569690077053718729543247137845 1192047480259584654382259506592867158556703683115 1149016110980292569638781474634280845057907260958 (by decide!)
  have e19 := hiStepP 275 1192047480259584654382259506592867158556703683115 1149016110980292569638781474634280845057907260958 616277204870095789279227716897727447751685022333 928814302050345869206804930473397030093141826659 (by decide!)
  have e20 := hiStepP 274 616277204870095789279227716897727447751685022333 928814302050345869206804930473397030093141826659 1115444236470097755035583399860359106150221834100 558483710269953547287102248638557882426281868055 (by decide!)
  have e21 := hiStepP 273 1115444236470097755035583399860359106150221834100 558483710269953547287102248638557882426281868055 353581408430757916319210965909175108131624049006 526574001610730739448080548698636668422211068537 (by decide!)
  have e22 := hiStepP 272 353581408430757916319210965909175108131624049006 526574001610730739448080548698636668422211068537 868967918029131899771099256730580402211565940030 1119179224129076321436931065133645797803512057671 (by decide!)
  have e23 := hiStepP 271 868967918029131899771099256730580402211565940030 1119179224129076321436931065133645797803512057671 124231472647704347154243110216066912499742297498 1197706141251212932785040164252089883374041694941 (by decide!)
  have e24 := hiStepP 270 124231472647704347154243110216066912499742297498 1197706141251212932785040164252089883374041694941 1145316058656864401651497893160933460558189678348 144659328742561511157325466836442244626542480849 (by decide!)
  have e25 := hiStepP 269 1145316058656864401651497893160933460558189678348 144659328742561511157325466836442244626542480849 866634625850291875021764396957261981198527868848 814144650013337000550080448773880651722373358177 (by decide!)
  have e26 := hiStepP 268 866634625850291875021764396957261981198527868848 814144650013337000550080448773880651722373358177 926512608393312651430623939477786181851874174564 255873272817691467695683861511566214757462557701 (by decide!)
  have e27 := hiStepP 267 926512608393312651430623939477786181851874174564 255873272817691467695683861511566214757462557701 919008353891141514874619659909110237401948813512 800151051521829419111390103487183811283189054669 (by decide!)
  have e28 := hiStepP 266 919008353891141514874619659909110237401948813512 800151051521829419111390103487183811283189054669 579916666660582043212607222785264543117270699702 1334395687207434208916387766424056373923427185275 (by decide!)
  have e29 := hiStepP 265 579916666660582043212607222785264543117270699702 1334395687207434208916387766424056373923427185275 90517085760482449018617701247998857742823357960 1315358097151641214153212607162749080877589236851 (by decide!)
  have e30 := hiStepP 264 90517085760482449018617701247998857742823357960 1315358097151641214153212607162749080877589236851 163196484457362905249715493880632123297662777207 1432673191732824253177790094301812496799609830148 (by decide!)
  have e31 := hiStepP 263 163196484457362905249715493880632123297662777207 1432673191732824253177790094301812496799609830148 1203907575392937019760014109844892492033402441010 228769111941687630586061301810157092818325550646 (by decide!)
  have e32 := hiStepP 262 1203907575392937019760014109844892492033402441010 228769111941687630586061301810157092818325550646 1237781371664286244197305505652046252174180992980 1374491604909453577875630124426333835353385005538 (by decide!)
  have e33 := hiStepP 261 1237781371664286244197305505652046252174180992980 1374491604909453577875630124426333835353385005538 340611437401032278448200576635926524343164522264 1161330676179720483004451388372818960996313612026 (by decide!)
  have e34 := hiStepP 260 340611437401032278448200576635926524343164522264 1161330676179720483004451388372818960996313612026 1319496676106547201624650152080557957299627980304 252881447546723603363474580290418775691707631850 (by decide!)
  have e35 := hiStepP 259 1319496676106547201624650152080557957299627980304 252881447546723603363474580290418775691707631850 452460375158737195609213513538376391592253116304 565426925519740560915573266961524207172260300666 (by decide!)
  have e36 := hiStepP 258 452460375158737195609213513538376391592253116304 565426925519740560915573266961524207172260300666 163166191949570006815568074301226249852079908290 728570812554872016149322272897479531024548668088 (by decide!)
  have e37 := hiStepP 257 163166191949570006815568074301226249852079908290 728570812554872016149322272897479531024548668088 968821659533559991327592641485973591124773140610 1222734002252100824261714912273082576455688510010 (by decide!)
  have e38 := hiStepP 256 968821659533559991327592641485973591124773140610 1222734002252100824261714912273082576455688510010 649040038667073055611788846897756124241344194516 956317262028621271588830075109315665400821071342 (by decide!)
  have e39 := hiStepP 255 649040038667073055611788846897756124241344194516 956317262028621271588830075109315665400821071342 529019001399987087352816163946171990539821883988 1433864701381967416871302728747223498505843744698 (by decide!)
  have e40 := hiStepP 254 529019001399987087352816163946171990539821883988 1433864701381967416871302728747223498505843744698 314300496337123240353754422037554139160607287019 1165460576016518469836506859044285118936739281233 (by decide!)
  have e41 := hiStepP 253 314300496337123240353754422037554139160607287019 1165460576016518469836506859044285118936739281233 1334062663386396624130257031116129009676190937485 214276632372502983769183900944905648153859328220 (by decide!)
  have e42 := hiStepP 252 1334062663386396624130257031116129009676190937485 214276632372502983769183900944905648153859328220 1266602862452494571547787903021598617657298348029 1417704439341282175909474591944943296334813294369 (by decide!)
  have e43 := hiStepP 251 1266602862452494571547787903021598617657298348029 1417704439341282175909474591944943296334813294369 289893343247448358272207072966849694401698062212 1156501723473819282432652221173760501612395671717 (by decide!)
  have e44 := hiStepP 250 289893343247448358272207072966849694401698062212 1156501723473819282432652221173760501612395671717 1293918432535232841470695941834208406451364540540 229566273822065475170612414417528123055808381145 (by decide!)
  have e45 := hiStepP 249 1293918432535232841470695941834208406451364540540 229566273822065475170612414417528123055808381145 70306218149187819806295499030546213478242621607 207814402595728117989681610782556134720746133630 (by decide!)
  have e46 := hiStepP 248 70306218149187819806295499030546213478242621607 207814402595728117989681610782556134720746133630 204666383201384812748059800077598190069692164629 44227126551782979805464007123683849317672776299 (by decide!)
  have e47 := hiStepP 247 204666383201384812748059800077598190069692164629 44227126551782979805464007123683849317672776299 803901497729175704345613331568359559831124336978 796025633243116441671109258535361101635069219641 (by decide!)
  have e48 := hiStepP 246 803901497729175704345613331568359559831124336978 796025633243116441671109258535361101635069219641 1051210548113072885216561020008122015372870612859 292918837011309114302676870928126593033045009474 (by decide!)
  have e49 := hiStepP 245 1051210548113072885216561020008122015372870612859 292918837011309114302676870928126593033045009474 1171757750566724729510309847841612429200234085692 1452614799786869272409956814216421968022050478462 (by decide!)
  have e50 := hiStepP 244 1171757750566724729510309847841612429200234085692 1452614799786869272409956814216421968022050478462 27010786830387554736620079187884065347991317690 1431768187418551632174219353636962773840710710724 (by decide!)
  have e51 := hiStepP 243 27010786830387554736620079187884065347991317690 1431768187418551632174219353636962773840710710724 770198353839558473769074849376895926534427888859 708680726764418939446440462356533257588468513055 (by decide!)
  have e52 := hiStepP 242 770198353839558473769074849376895926534427888859 708680726764418939446440462356533257588468513055 453903097405032733256804369651090472324636882764 294814435976329701682960079316478260763440074323 (by decide!)
  have e53 := hiStepP 241 453903097405032733256804369651090472324636882764 294814435976329701682960079316478260763440074323 535712019788109169160369292641561497866130356810 630615563217268886820553653431421093901358904345 (by decide!)
  have e54 := hiStepP 240 535712019788109169160369292641561497866130356810 630615563217268886820553653431421093901358904345 1263983995177313520005106725309678209024757434081 1022328101807319655339911246410316744575479526136 (by decide!)
  have e55 := hiStepP 239 1263983995177313520005106725309678209024757434081 1022328101807319655339911246410316744575479526136 653409022589987187501889430678109006596328388742 1104000544345427675406882302362010868628247726718 (by decide!)
  have e56 := hiStepP 238 653409022589987187501889430678109006596328388742 1104000544345427675406882302362010868628247726718 681270197404763573899221254915517356659272944095 1040200044090122616567888555248546663593439871905 (by decide!)
  have e57 := hiStepP 237 681270197404763573899221254915517356659272944095 1040200044090122616567888555248546663593439871905 983184489135483579886205415425039473943151219190 148515520064905433095218065857768190021779771991 (by decide!)
  have e58 := hiStepP 236 983184489135483579886205415425039473943151219190 148515520064905433095218065857768190021779771991 109219822780943813582977699867491230068616704213 52144422324562083903834097285128799232324362882 (by decide!)
  have e59 := hiStepP 235 109219822780943813582977699867491230068616704213 52144422324562083903834097285128799232324362882 825009379168725765043453958364888498416763478841 877056222014330597561781542718495204181710881211 (by decide!)
  have e60 := hiStepP 234 825009379168725765043453958364888498416763478841 877056222014330597561781542718495204181710881211 538436696528888784300324148905124586351782985904 1141460293344147110551037535678849867941755044107 (by decide!)
  have e61 := hiStepP 233 538436696528888784300324148905124586351782985904 1141460293344147110551037535678849867941755044107 811363439452175161534885071936006179787171587253 422065475925335980616473975454083719200436856254 (by decide!)
  have e62 := hiStepP 232 811363439452175161534885071936006179787171587253 422065475925335980616473975454083719200436856254 495731181058081317094454248337315405332540851841 178300801989738198801911177920963605365690442559 (by decide!)
  have e63 := hiStepP 231 495731181058081317094454248337315405332540851841 178300801989738198801911177920963605365690442559 907435107781934065323024858139817531302359640017 740953842732987022888726736306111436823075423470 (by decide!)
  have e64 := hiStepP 230 907435107781934065323024858139817531302359640017 740953842732987022888726736306111436823075423470 1109678681402580679652617468927064457136124380736 385851887803634448482506494932996710230090695342 (by decide!)
  have e65 := hiStepP 229 1109678681402580679652617468927064457136124380736 385851887803634448482506494932996710230090695342 1347793187400469938206377480712225585008620577057 1001996302643329621318030925985784251221528699791 (by decide!)
  have e66 := hiStepP 228 1347793187400469938206377480712225585008620577057 1001996302643329621318030925985784251221528699791 129636672900811505588473928137880507510094805072 1057368705758654977219323318510898376961054333919 (by decide!)
  have e67 := hiStepP 227 129636672900811505588473928137880507510094805072 1057368705758654977219323318510898376961054333919 752928342038664110539263865241163424126158818337 335859332301463563586517305088351554079621715966 (by decide!)
  have e68 := hiStepP 226 752928342038664110539263865241163424126158818337 335859332301463563586517305088351554079621715966 248849728774573993949935669652102136061465152144 98540962049024971484445194997805287002735795566 (by decide!)
  have e69 := hiStepP 225 248849728774573993949935669652102136061465152144 98540962049024971484445194997805287002735795566 702993733403032280790848716713296168671565108616 607336974772659015754550924068357086989418399974 (by decide!)
  have e70 := hiStepP 224 702993733403032280790848716713296168671565108616 607336974772659015754550924068357086989418399974 1084502962762184401898912238298443094887819013427 1230803735896824337630087921413920757262374462933 (by decide!)
  have e71 := hiStepP 223 1084502962762184401898912238298443094887819013427 1230803735896824337630087921413920757262374462933 766559680317882908842062889789588850671122047985 467125034598754846619505031854458206188508677668 (by decide!)
  have e72 := hiStepP 222 766559680317882908842062889789588850671122047985 467125034598754846619505031854458206188508677668 1045960421984985130718646810692162126781538954629 1318172014853482039021411268334584304059682843553 (by decide!)
  have e73 := hiStepP 221 1045960421984985130718646810692162126781538954629 1318172014853482039021411268334584304059682843553 1279652439688481087906661528888449000994236336873 38568547584083580980506955741441964132426309960 (by decide!)
  have e74 := hiStepP 220 1279652439688481087906661528888449000994236336873 38568547584083580980506955741441964132426309960 407777616901577600166289016241813895009824637817 374922245563445681317063911891331284831278228017 (by decide!)
  have e75 := hiStepP 219 407777616901577600166289016241813895009824637817 374922245563445681317063911891331284831278228017 1159994511740776099998883606819359876216445520533 790782660359724042931449463021883633692493523108 (by decide!)
  have e76 := hiStepP 218 1159994511740776099998883606819359876216445520533 790782660359724042931449463021883633692493523108 431142777808144838109228864305533662507135200339 1101990617459301102844478736038836279547254031607 (by decide!)
  have e77 := hiStepP 217 431142777808144838109228864305533662507135200339 1101990617459301102844478736038836279547254031607 718362126038770783586339292078220431430319522622 1077985893168451828420048982579212024811042015177 (by decide!)
  have e78 := hiStepP 216 718362126038770783586339292078220431430319522622 1077985893168451828420048982579212024811042015177 566032852682467331482395327120692123992940991437 1278619264252275536694728156518426937890774930436 (by decide!)
  have e79 := hiStepP 215 566032852682467331482395327120692123992940991437 1278619264252275536694728156518426937890774930436 330282622940021716857010498306036686789911439680 1314074874017890526329273524442901637648359996740 (by decide!)
  have e80 := hiStepP 214 330282622940021716857010498306036686789911439680 1314074874017890526329273524442901637648359996740 69303453725993378210093392310877462707253284933 1336228192324506794641690071277754324906677480705 (by decide!)
  have e81 := hiStepP 213 69303453725993378210093392310877462707253284933 1336228192324506794641690071277754324906677480705 1158484888861542790372883781614001123969703606719 187745199445514452666424811813986112623583843518 (by decide!)
  have e82 := hiStepP 212 1158484888861542790372883781614001123969703606719 187745199445514452666424811813986112623583843518 1397577260160747105213896644701512487292403272126 1211359846946738844661754153359238037329422523648 (by decide!)
  have e83 := hiStepP 211 1397577260160747105213896644701512487292403272126 1211359846946738844661754153359238037329422523648 931493455566740538667111439586617637173191140176 679522993109501337853340127900793368909679263312 (by decide!)
  have e84 := hiStepP 210 931493455566740538667111439586617637173191140176 679522993109501337853340127900793368909679263312 565082543271402183440058837702687486320046617819 125551807214376255035382551978743236309420919435 (by decide!)
  have e85 := hiStepP 209 565082543271402183440058837702687486320046617819 125551807214376255035382551978743236309420919435 425736413333002033812061402226829013247293359235 544837719103685531586821724799311318983367937544 (by decide!)
  have e86 := hiStepP 208 425736413333002033812061402226829013247293359235 544837719103685531586821724799311318983367937544 1191901437825900552055613369110900001584240960661 820174995606177764800110302485618693583399283357 (by decide!)
  have e87 := hiStepP 207 1191901437825900552055613369110900001584240960661 820174995606177764800110302485618693583399283357 398370095402380369846427733095904952372976967954 1155677874028053565037434069878768774715565378447 (by decide!)
  have e88 := hiStepP 206 398370095402380369846427733095904952372976967954 1155677874028053565037434069878768774715565378447 486681581237806482736788140487331891119739791229 909556609915471894926070732786692103119047093490 (by decide!)
  have e89 := hiStepP 205 486681581237806482736788140487331891119739791229 909556609915471894926070732786692103119047093490 15720858109816775459307666817845701041868382046 899547884218157365969051631268894396352972714924 (by decide!)
  have e90 := hiStepP 204 15720858109816775459307666817845701041868382046 899547884218157365969051631268894396352972714924 127975477580577777059327269091585888834365781405 799158454990685772344961536655471419339509237297 (by decide!)
  have e91 := hiStepP 203 127975477580577777059327269091585888834365781405 799158454990685772344961536655471419339509237297 913059739051997152167525477271505932129833480570 114637231882783725279539509007115101081780418379 (by decide!)
  have e92 := hiStepP 202 913059739051997152167525477271505932129833480570 114637231882783725279539509007115101081780418379 356114151301467569736957196025275968710803485643 242369299159578033586218784204393712688535995520 (by decide!)
  have e93 := hiStepP 201 356114151301467569736957196025275968710803485643 242369299159578033586218784204393712688535995520 248699520015861746547731721732246780334607442673 10796816832937795042205656870486404221222823537 (by decide!)
  have e94 := hiStepP 200 248699520015861746547731721732246780334607442673 10796816832937795042205656870486404221222823537 1143790872799557244383832803271992223280672751254 1151732975966226603190586576608390172078253250791 (by decide!)
  have e95 := hiStepP 199 1143790872799557244383832803271992223280672751254 1151732975966226603190586576608390172078253250791 661877700581040695892032851042167642884120129012 1063720569809399447475412984248300341532040213779 (by decide!)
  have e96 := hiStepP 198 661877700581040695892032851042167642884120129012 1063720569809399447475412984248300341532040213779 892204695126208065184238104008690596917327374543 217414740664659608678666638622142324752043908572 (by decide!)
  have e97 := hiStepP 197 892204695126208065184238104008690596917327374543 217414740664659608678666638622142324752043908572 217204618696470478707623976128856152400102074045 691012497370858892664147105277973945808862049 (by decide!)
  have e98 := hiStepP 196 217204618696470478707623976128856152400102074045 691012497370858892664147105277973945808862049 265695785579893515296117872109798432616764016501 265931717224215289671286373172285030022139755540 (by decide!)
  have e99 := hiStepP 195 265695785579893515296117872109798432616764016501 265931717224215289671286373172285030022139755540 269342787574495866804892089146462092122684543154 9844904929737510826438681720820014664894147750 (by decide!)
  have t0 := e0
  have t1 := t0.trans e1
  have t2 := t1.trans e2
  have t3 := t2.trans e3
  have t4 := t3.trans e4
  have t5 := t4.trans e5
  have t6 := t5.trans e6
  have t7 := t6.trans e7
  have t8 := t7.trans e8
  have t9 := t8.trans e9
  have t10 := t9.trans e10
  have t11 := t10.trans e11
  have t12 := t11.trans e12
  have t13 := t12.trans e13
  have t14 := t13.trans e14
  have t15 := t14.trans e15
  have t16 := t15.trans e16
  have t17 := t16.trans e17
  have t18 := t17.trans e18
  have t19 := t18.trans e19
  have t20 := t19.trans e20
  have t21 := t20.trans e21
  have t22 := t21.trans e22
  have t23 := t22.trans e23
  have t24 := t23.trans e24
  have t25 := t24.trans e25
  have t26 := t25.trans e26
  have t27 := t26.trans e27
  have t28 := t27.trans e28
  have t29 := t28.trans e29
  have t30 := t29.trans e30
  have t31 := t30.trans e31
  have t32 := t31.trans e32
  have t33 := t32.trans e33
  have t34 := t33.trans e34
  have t35 := t34.trans e35
  have t36 := t35.trans e36
  have t37 := t36.trans e37
  have t38 := t37.trans e38
  have t39 := t38.trans e39
  have t40 := t39.trans e40
  have t41 := t40.trans e41
  have t42 := t41.trans e42
  have t43 := t42.trans e43
  have t44 := t43.trans e44
  have t45 := t44.trans e45
  have t46 := t45.trans e46
  have t47 := t46.trans e47
  have t48 := t47.trans e48
  have t49 := t48.trans e49
  have t50 := t49.trans e50
  have t51 := t50.trans e51
  have t52 := t51.trans e52
  have t53 := t52.trans e53
  have t54 := t53.trans e54
  have t55 := t54.trans e55
  have t56 := t55.trans e56
  have t57 := t56.trans e57
  have t58 := t57.trans e58
  have t59 := t58.trans e59
  have t60 := t59.trans e60
  have t61 := t60.trans e61
  have t62 := t61.trans e62
  have t63 := t62.trans e63
  have t64 := t63.trans e64
  have t65 := t64.trans e65
  have t66 := t65.trans e66
  have t67 := t66.trans e67
  have t68 := t67.trans e68
  have t69 := t68.trans e69
  have t70 := t69.trans e70
  have t71 := t70.trans e71
  have t72 := t71.trans e72
  have t73 := t72.trans e73
  have t74 := t73.trans e74
  have t75 := t74.trans e75
  have t76 := t75.trans e76
  have t77 := t76.trans e77
  have t78 := t77.trans e78
  have t79 := t78.trans e79
  have t80 := t79.trans e80
  have t81 := t80.trans e81
  have t82 := t81.trans e82
  have t83 := t82.trans e83
  have t84 := t83.trans e84
  have t85 := t84.trans e85
  have t86 := t85.trans e86
  have t87 := t86.trans e87
  have t88 := t87.trans e88
  have t89 := t88.trans e89
  have t90 := t89.trans e90
  have t91 := t90.trans e91
  have t92 := t91.trans e92
  have t93 := t92.trans e93
  have t94 := t93.trans e94
  have t95 := t94.trans e95
  have t96 := t95.trans e96
  have t97 := t96.trans e97
  have t98 := t97.trans e98
  have t99 := t98.trans e99
  exact t99

theorem hiChainSeg39 : hiLoop SHA_1 (strBytes "pencil") 195
    (unpackBytes 20 269342787574495866804892089146462092122684543154)
    (unpackBytes 20 9844904929737510826438681720820014664894147750) =
    hiLoop SHA_1 (strBytes "pencil") 95
      (unpackBytes 20 1359866752492691763689823875970363269083340996746)
      (unpackBytes 20 1424076897242956338686635919021378656478119591146) := by
  have e0 := hiStepP 194 269342787574495866804892089146462092122684543154 9844904929737510826438681720820014664894147750 889393264553383835631326277622071256552266328007 881697593942639002807460007982868595144429964129 (by decide!)
  have e1 := hiStepP 193 889393264553383835631326277622071256552266328007 881697593942639002807460007982868595144429964129 1089921047507778273090328780083625341926942852442 208945440191758214271217099397840708072545898043 (by decide!)
  have e2 := hiStepP 192 1089921047507778273090328780083625341926942852442 208945440191758214271217099397840708072545898043 844315785397886866627694280723263342374806776570 1047535509216579609217990872314754337680856491201 (by decide!)
  have e3 := hiStepP 191 844315785397886866627694280723263342374806776570 1047535509216579609217990872314754337680856491201 128663948764607985818912196897472816415114739803 924597287716633115555547481676390877421569303706 (by decide!)
  have e4 := hiStepP 190 128663948764607985818912196897472816415114739803 924597287716633115555547481676390877421569303706 543834060972610219963097374301976296014997898476 1454147666845997376293794451371554925597270712438 (by decide!)
  have e5 := hiStepP 189 543834060972610219963097374301976296014997898476 1454147666845997376293794451371554925597270712438 77592898816313425848498057483879329746284613515 1388028893795896471539191955397953767041329868797 (by decide!)
  have e6 := hiStepP 188 77592898816313425848498057483879329746284613515 1388028893795896471539191955397953767041329868797 1192946904621935278994311912325648037964023364980 204559909351692667277275434938724260145252881033 (by decide!)
  have e7 := hiStepP 187 1192946904621935278994311912325648037964023364980 204559909351692667277275434938724260145252881033 143113987636021672053635141744265592216878065528 335531140821821866036072746322640918381754938865 (by decide!)
  have e8 := hiStepP 186 143113987636021672053635141744265592216878065528 335531140821821866036072746322640918381754938865 499056800807539829343091576615626664372935251705 626200004819060733501062117444949076959312454408 (by decide!)
  have e9 := hiStepP 185 499056800807539829343091576615626664372935251705 626200004819060733501062117444949076959312454408 867732043640208421369215832929178464175176195770 1429069808160831932464701621337732627895498915250 (by decide!)
  have e10 := hiStepP 184 867732043640208421369215832929178464175176195770 1429069808160831932464701621337732627895498915250 203318756010058802689703601118179697101757695044 1243413244221691946626721092368758538974466832886 (by decide!)
  have e11 := hiStepP 183 203318756010058802689703601118179697101757695044 1243413244221691946626721092368758538974466832886 310100091794737554691570682781244564132012386656 1367967651440572820645872656377823731334342250646 (by decide!)
  have e12 := hiStepP 182 310100091794737554691570682781244564132012386656 1367967651440572820645872656377823731334342250646 1050730011554189800915745152236534241476876404860 499928916191195580298381883684050471435523037418 (by decide!)
  have e13 := hiStepP 181 1050730011554189800915745152236534241476876404860 499928916191195580298381883684050471435523037418 1304997806193159270154289319790373212700912156748 1022081362570760818488375697205187595766028769446 (by decide!)
  have e14 := hiStepP 180 1304997806193159270154289319790373212700912156748 1022081362570760818488375697205187595766028769446 365294222443004659191304280515850710071412191577 804876635158766610092858759606721450819591203327 (by decide!)
  have e15 := hiStepP 179 365294222443004659191304280515850710071412191577 804876635158766610092858759606721450819591203327 152798412339765820562378049375375417702410643947 857605592852774653489203933314105316444514123796 (by decide!)
  have e16 := hiStepP 178 152798412339765820562378049375375417702410643947 857605592852774653489203933314105316444514123796 468910023232240837565504820305593567943214995924 1119563826797526400005780239985741021030027762112 (by decide!)
  have e17 := hiStepP 177 468910023232240837565504820305593567943214995924 1119563826797526400005780239985741021030027762112 708383784680600422777139289880766801835101119204 1050810894173301477089393459829768201052360538916 (by decide!)
  have e18 := hiStepP 176 708383784680600422777139289880766801835101119204 1050810894173301477089393459829768201052360538916 46879641610926176343983941866615704320978044700 1006072562386724032281662106803923406230466477112 (by decide!)
  have e19 := hiStepP 175 46879641610926176343983941866615704320978044700 1006072562386724032281662106803923406230466477112 242800320129489924694502426839288534709989360295 883428723891194891918999002602824853882812202655 (by decide!)
  have e20 := hiStepP 174 242800320129489924694502426839288534709989360295 883428723891194891918999002602824853882812202655 1098229567692386945768304186669318000387649354634 518804646010874140898894078649734913851641414933 (by decide!)
  have e21 := hiStepP 173 1098229567692386945768304186669318000387649354634 518804646010874140898894078649734913851641414933 180803920168746578627102060951798936787234328501 395604631771028115130752074939047521529243486880 (by decide!)
  have e22 := hiStepP 172 180803920168746578627102060951798936787234328501 395604631771028115130752074939047521529243486880 728880039806578562085857758297401833724594430269 336286436381123629076105562165211109465661959069 (by decide!)
  have e23 := hiStepP 171 728880039806578562085857758297401833724594430269 336286436381123629076105562165211109465661959069 779276790278343057617199585339992776443734988951 1019598444889800823232727961396759236014664053514 (by decide!)
  have e24 := hiStepP 170 779276790278343057617199585339992776443734988951 1019598444889800823232727961396759236014664053514 747554332025528409537824825037004593453954803167 276375834921390473587387571263646712300441917141 (by decide!)
  have e25 := hiStepP 169 747554332025528409537824825037004593453954803167 276375834921390473587387571263646712300441917141 207304164610238078373279921204478032279950294960 115044832124985069923723661734491502011768908133 (by decide!)
  have e26 := hiStepP 168 207304164610238078373279921204478032279950294960 115044832124985069923723661734491502011768908133 389783457597345404622069459606369236444552682416 458876096783193979768680293899209537879853298389 (by decide!)
  have e27 := hiStepP 167 389783457597345404622069459606369236444552682416 458876096783193979768680293899209537879853298389 944639279069927364715097482739591026806114275562 1399229625595558801632806252545436757707232649791 (by decide!)
  have e28 := hiStepP 166 944639279069927364715097482739591026806114275562 1399229625595558801632806252545436757707232649791 190194271083942939998685749545223076851973645741 1211894575742280629279357004944442342192634939282 (by decide!)
  have e29 := hiStepP 165 190194271083942939998685749545223076851973645741 1211894575742280629279357004944442342192634939282 904666237613554638020488608362849512100708280938 423571331986444344787082574696206772481200532984 (by decide!)
  have e30 := hiStepP 164 904666237613554638020488608362849512100708280938 423571331986444344787082574696206772481200532984 362275206571955590779289542528514545347441511087 669499298154858803131095902322473990325870028631 (by decide!)
  have e31 := hiStepP 163 362275206571955590779289542528514545347441511087 669499298154858803131095902322473990325870028631 1095204553596061980051986790704598194605665634876 1156511829459289840347057486752796862998101437803 (by decide!)
  have e32 := hiStepP 162 1095204553596061980051986790704598194605665634876 1156511829459289840347057486752796862998101437803 1169994416589695695114098339730525700655765610941 36474742542408178830210847678240202986203401430 (by decide!)
  have e33 := hiStepP 161 1169994416589695695114098339730525700655765610941 36474742542408178830210847678240202986203401430 1162173216176159065680846101192115864770404724714 1175744396161101259612844983101933945365058872124 (by decide!)
  have e34 := hiStepP 160 1162173216176159065680846101192115864770404724714 1175744396161101259612844983101933945365058872124 1217439271800822093629652575180156962696478228696 141608233773431993581015966154454566652409963492 (by decide!)
  have e35 := hiStepP 159 1217439271800822093629652575180156962696478228696 141608233773431993581015966154454566652409963492 570986716500262323961303708242813306728902861515 712508874439999395934425096954749408329365373231 (by decide!)
  have e36 := hiStepP 158 570986716500262323961303708242813306728902861515 712508874439999395934425096954749408329365373231 50842868239070032753519940021002526743880597752 663176708112345522492084591837771581926577521111 (by decide!)
  have e37 := hiStepP 157 50842868239070032753519940021002526743880597752 663176708112345522492084591837771581926577521111 1239099573300203544138963846458417880205816671462 988435473360589638858070429496459481801768922417 (by decide!)
  have e38 := hiStepP 156 1239099573300203544138963846458417880205816671462 988435473360589638858070429496459481801768922417 634155857153189178936783243972256480212474006768 1108758465895652027665267649064424557485371646401 (by decide!)
  have e39 := hiStepP 155 634155857153189178936783243972256480212474006768 1108758465895652027665267649064424557485371646401 795410359414792804574460182024608022267905325795 419011302151391732696411102236390025164472539938 (by decide!)
  have e40 := hiStepP 154 795410359414792804574460182024608022267905325795 419011302151391732696411102236390025164472539938 1388709984995382065598206586086759440772427010553 1063900700178265664187352393405986750215143852763 (by decide!)
  have e41 := hiStepP 153 1388709984995382065598206586086759440772427010553 1063900700178265664187352393405986750215143852763 1423429996661326227867416062572314453986996464608 382819811530184214206770792046696742693583036731 (by decide!)
  have e42 := hiStepP 152 1423429996661326227867416062572314453986996464608 382819811530184214206770792046696742693583036731 325964937763052864802202054109286722460188837124 697009623701768390995284547170296618384694387775 (by decide!)
  have e43 := hiStepP 151 325964937763052864802202054109286722460188837124 697009623701768390995284547170296618384694387775 506370620775741552847562606256642711962649858131 197775527258646324384602836207370298694196049004 (by decide!)
  have e44 := hiStepP 150 506370620775741552847562606256642711962649858131 197775527258646324384602836207370298694196049004 155458198182922376794985117246486119100816662395 328946025221526009655483431033756656738783275799 (by decide!)
  have e45 := hiStepP 149 155458198182922376794985117246486119100816662395 328946025221526009655483431033756656738783275799 740598830315345363635940750367977143021949468423 1051344463076987497561430548381021310923568157712 (by decide!)
  have e46 := hiStepP 148 740598830315345363635940750367977143021949468423 1051344463076987497561430548381021310923568157712 901061547633284382166851207347277145701707439007 216653636251019522040980110250038974005425852303 (by decide!)
  have e47 := hiStepP 147 901061547633284382166851207347277145701707439007 216653636251019522040980110250038974005425852303 1263275027821613902554435452311573676527499759848 1419846968889840686151245521780403606463929360231 (by decide!)
  have e48 := hiStepP 146 1263275027821613902554435452311573676527499759848 1419846968889840686151245521780403606463929360231 33620515244411104931182160888411786483994472540 1446331146131425108434628182801953490969218494267 (by decide!)
  have e49 := hiStepP 145 33620515244411104931182160888411786483994472540 1446331146131425108434628182801953490969218494267 107040454672497567843377818122259818414865632575 1369631574148033933646141448995386180517046018564 (by decide!)
  have e50 := hiStepP 144 107040454672497567843377818122259818414865632575 1369631574148033933646141448995386180517046018564 188241551623626732563007873320750352480308241213 1182149647110322116093832297771275151075303964985 (by decide!)
  have e51 := hiStepP 143 188241551623626732563007873320750352480308241213 1182149647110322116093832297771275151075303964985 908904969314695735958321667818033881155070370822 457563311037702777114958419391659564895348712767 (by decide!)
  have e52 := hiStepP 142 908904969314695735958321667818033881155070370822 457563311037702777114958419391659564895348712767 81851464631336900209254539096596682909699284896 539221003822513589578503964612527910969248316063 (by decide!)
  have e53 := hiStepP 141 81851464631336900209254539096596682909699284896 539221003822513589578503964612527910969248316063 269748389886944836306975566912474480273650855745 646820410631260716468205099347009429227603776990 (by decide!)
  have e54 := hiStepP 140 269748389886944836306975566912474480273650855745 646820410631260716468205099347009429227603776990 1363911932207055965130661709727385759746429619913 911554375413057002801888179556575559942302423831 (by decide!)
  have e55 := hiStepP 139 1363911932207055965130661709727385759746429619913 911554375413057002801888179556575559942302423831 904946160895011727379571945539100503854294354420 6616656971797233437342084535762857063318852323 (by decide!)
  have e56 := hiStepP 138 904946160895011727379571945539100503854294354420 6616656971797233437342084535762857063318852323 1064543674219357106848994802159503209132319852809 1069710423345950474624890236767905033986012142570 (by decide!)
  have e57 := hiStepP 137 1064543674219357106848994802159503209132319852809 1069710423345950474624890236767905033986012142570 617889653688979844956925847594612021587846825938 1229670773310851547183346896104333233255111711800 (by decide!)
  have e58 := hiStepP 136 617889653688979844956925847594612021587846825938 1229670773310851547183346896104333233255111711800 419687291196827225557745804482741455496266708429 907176707687655726482545538441467283700084582901 (by decide!)
  have e59 := hiStepP 135 419687291196827225557745804482741455496266708429 907176707687655726482545538441467283700084582901 950470028420803857561782007688662715201259864715 323176232522435580444681188643415358625501916030 (by decide!)
  have e60 := hiStepP 134 950470028420803857561782007688662715201259864715 323176232522435580444681188643415358625501916030 1225059024352450339615904997018562903057863597465 1359056445471201533708576351464904865390400861927 (by decide!)
  have e61 := hiStepP 133 1225059024352450339615904997018562903057863597465 1359056445471201533708576351464904865390400861927 993676834367039689262085620127211834140527542652 365379632952694742876637892779295715780778178459 (by decide!)
  have e62 := hiStepP 132 993676834367039689262085620127211834140527542652 365379632952694742876637892779295715780778178459 845350060083940036033008872235547899081304932090 1210729646694428632577977048023436769173968243041 (by decide!)
  have e63 := hiStepP 131 845350060083940036033008872235547899081304932090 1210729646694428632577977048023436769173968243041 322383723752337787881739203789227968553015651754 1349703917258123089705102035284576632833673192651 (by decide!)
  have e64 := hiStepP 130 322383723752337787881739203789227968553015651754 1349703917258123089705102035284576632833673192651 501888490882613731599252603786088653225006345398 1070516985228043532610744470738725325210409551997 (by decide!)
  have e65 := hiStepP 129 501888490882613731599252603786088653225006345398 1070516985228043532610744470738725325210409551997 759888076653270564345163338552825148336741384872 357373197870884049920792051299355240520492862165 (by decide!)
  have e66 := hiStepP 128 759888076653270564345163338552825148336741384872 357373197870884049920792051299355240520492862165 1049110305114762721469570137136491008417871708748 784151407652083898484119406222717342212346153113 (by decide!)
  have e67 := hiStepP 127 1049110305114762721469570137136491008417871708748 784151407652083898484119406222717342212346153113 975010556613917394940335149295550822806016964635 203080077464333388581829042492487475629894021250 (by decide!)
  have e68 := hiStepP 126 975010556613917394940335149295550822806016964635 203080077464333388581829042492487475629894021250 222066012371919754392368625176031828875005343705 31213048065306834805366847015651506348076894043 (by decide!)
  have e69 := hiStepP 125 222066012371919754392368625176031828875005343705 31213048065306834805366847015651506348076894043 504898854961488757033762053538257859443899375906 531110944550557033469990251009762113520086230649 (by decide!)
  have e70 := hiStepP 124 504898854961488757033762053538257859443899375906 531110944550557033469990251009762113520086230649 1195289180984661039426641162364755785137748673132 801249788835499952284149806615189155305082627093 (by decide!)
  have e71 := hiStepP 123 1195289180984661039426641162364755785137748673132 801249788835499952284149806615189155305082627093 315718814352426793947699408794551606420684545054 1068029576473529172111005374863124336676063852555 (by decide!)
  have e72 := hiStepP 122 315718814352426793947699408794551606420684545054 1068029576473529172111005374863124336676063852555 277426665464531251883528074260158392774249788226 796675277782588720599953509789149711026432183113 (by decide!)
  have e73 := hiStepP 121 277426665464531251883528074260158392774249788226 796675277782588720599953509789149711026432183113 570258974683384201817580429726024638004872373188 1326970677306622371601995827263882530273177069709 (by decide!)
  have e74 := hiStepP 120 570258974683384201817580429726024638004872373188 1326970677306622371601995827263882530273177069709 45377490937058734504109243416878530216887384811 1367963981030533556435146170713803097591091532390 (by decide!)
  have e75 := hiStepP 119 45377490937058734504109243416878530216887384811 1367963981030533556435146170713803097591091532390 1237169277994806892085706455527934885726346582841 314913576925805662306035496658737835305868134751 (by decide!)
  have e76 := hiStepP 118 1237169277994806892085706455527934885726346582841 314913576925805662306035496658737835305868134751 1308669821556363273513593781383943553649460321267 1199333933003544852862027778659754722407946654380 (by decide!)
  have e77 := hiStepP 117 1308669821556363273513593781383943553649460321267 1199333933003544852862027778659754722407946654380 572429638466851266720808761380215773090027572507 1040984816207438474096551399276804789451341602743 (by decide!)
  have e78 := hiStepP 116 572429638466851266720808761380215773090027572507 1040984816207438474096551399276804789451341602743 140900858880943092284688522497136404757176133693 998926441357974067600070156640333242863576856458 (by decide!)
  have e79 := hiStepP 115 140900858880943092284688522497136404757176133693 998926441357974067600070156640333242863576856458 1290567726236328815094574717519171871856386648595 439378321543044843851625955872228108028644335001 (by decide!)
  have e80 := hiStepP 114 1290567726236328815094574717519171871856386648595 439378321543044843851625955872228108028644335001 1246209645806072046988171104619589137061636746399 860621898400690004576763416504403555989884678406 (by decide!)
  have e81 := hiStepP 113 1246209645806072046988171104619589137061636746399 860621898400690004576763416504403555989884678406 425647690114957797184634006426778054089084994588 1257074645382531348030895620592597147473025512730 (by decide!)
  have e82 := hiStepP 112 425647690114957797184634006426778054089084994588 1257074645382531348030895620592597147473025512730 932665985369178276947179404117279954563432653027 727519761376607726170437527751968326719065953785 (by decide!)
  have e83 := hiStepP 111 932665985369178276947179404117279954563432653027 727519761376607726170437527751968326719065953785 626034770096279943658687235320550253330049869898 107205605524079072563301937864068515068164652467 (by decide!)
  have e84 := hiStepP 110 626034770096279943658687235320550253330049869898 107205605524079072563301937864068515068164652467 466568497203077357993847328176492257983379056005 385332165376165028934237041435889219177338083382 (by decide!)
  have e85 := hiStepP 109 466568497203077357993847328176492257983379056005 385332165376165028934237041435889219177338083382 295912076696591712467094004921298910363375512488 643238196919193232792940170015263459410485031838 (by decide!)
  have e86 := hiStepP 108 295912076696591712467094004921298910363375512488 643238196919193232792940170015263459410485031838 1293537004815090061092976370959635432563577331706 834939272281895593201178371621323770988345142372 (by decide!)
  have e87 := hiStepP 107 1293537004815090061092976370959635432563577331706 834939272281895593201178371621323770988345142372 1182071758522104040704006012570688600861700261959 532053140541345463251837321515738094072123073571 (by decide!)
  have e88 := hiStepP 106 1182071758522104040704006012570688600861700261959 532053140541345463251837321515738094072123073571 1275764858981260530967593186127258299188960764744 743714595935483476546639595175463775336302413675 (by decide!)
  have e89 := hiStepP 105 1275764858981260530967593186127258299188960764744 743714595935483476546639595175463775336302413675 1373754553643120512614300087151644658158368447777 655911629001066789419285738707548472244153309770 (by decide!)
  have e90 := hiStepP 104 1373754553643120512614300087151644658158368447777 655911629001066789419285738707548472244153309770 1032270777360393909064227222780354768370019343513 1131551602860887332290793255075315096382736123603 (by decide!)
  have e91 := hiStepP 103 1032270777360393909064227222780354768370019343513 1131551602860887332290793255075315096382736123603 1143438362581481065482405093377248609965187040658 82714506312461957305248720853296688176882500417 (by decide!)
  have e92 := hiStepP 102 1143438362581481065482405093377248609965187040658 82714506312461957305248720853296688176882500417 489232212566131896754429152975161739477677586378 524087518056130161061451347795331735158321247371 (by decide!)
  have e93 := hiStepP 101 489232212566131896754429152975161739477677586378 524087518056130161061451347795331735158321247371 478983279188919536097358702852520359089827865316 46625265000356001559587575856385466264628172399 (by decide!)
  have e94 := hiStepP 100 478983279188919536097358702852520359089827865316 46625265000356001559587575856385466264628172399 189049779784958330381388962742109234237398155169 235316658035302127572940005924757717530243131854 (by decide!)
  have e95 := hiStepP 99 189049779784958330381388962742109234237398155169 235316658035302127572940005924757717530243131854 346380744265306108219056087433050195012775723686 123362947985370450200140051218425801673970035560 (by decide!)
  have e96 := hiStepP 98 346380744265306108219056087433050195012775723686 123362947985370450200140051218425801673970035560 925889350182386945502387907604687113965593797451 1048795099542011442158585445610347286181581260835 (by decide!)
  have e97 := hiStepP 97 925889350182386945502387907604687113965593797451 1048795099542011442158585445610347286181581260835 624919534956557450793420929435169548300547345022 1248925814574343391581516024356231993718208774749 (by decide!)
  have e98 := hiStepP 96 624919534956557450793420929435169548300547345022 1248925814574343391581516024356231993718208774749 1173211240262541599624351466287286553839201369661 132808750558948948358733846469963151457547975776 (by decide!)
  have e99 := hiStepP 95 1173211240262541599624351466287286553839201369661 132808750558948948358733846469963151457547975776 1359866752492691763689823875970363269083340996746 1424076897242956338686635919021378656478119591146 (by decide!)
  have t0 := e0
  have t1 := t0.trans e1
  have t2 := t1.trans e2
  have t3 := t2.trans e3
  have t4 := t3.trans e4
  have t5 := t4.trans e5
  have t6 := t5.trans e6
  have t7 := t6.trans e7
  have t8 := t7.trans e8
  have t9 := t8.trans e9
  have t10 := t9.trans e10
  have t11 := t10.trans e11
  have t12 := t11.trans e12
  have t13 := t12.trans e13
  have t14 := t13.trans e14
  have t15 := t14.trans e15
  have t16 := t15.trans e16
  have t17 := t16.trans e17
  have t18 := t17.trans e18
  have t19 := t18.trans e19
  have t20 := t19.trans e20
  have t21 := t20.trans e21
  have t22 := t21.trans e22
  have t23 := t22.trans e23
  have t24 := t23.trans e24
  have t25 := t24.trans e25
  have t26 := t25.trans e26
  have t27 := t26.trans e27
  have t28 := t27.trans e28
  have t29 := t28.trans e29
  have t30 := t29.trans e30
  have t31 := t30.trans e31
  have t32 := t31.trans e32
  have t33 := t32.trans e33
  have t34 := t33.trans e34
  have t35 := t34.trans e35
  have t36 := t35.trans e36
  have t37 := t36.trans e37
  have t38 := t37.trans e38
  have t39 := t38.trans e39
  have t40 := t39.trans e40
  have t41 := t40.trans e41
  have t42 := t41.trans e42
  have t43 := t42.trans e43
  have t44 := t43.trans e44
  have t45 := t44.trans e45
  have t46 := t45.trans e46
  have t47 := t46.trans e47
  have t48 := t47.trans e48
  have t49 := t48.trans e49
  have t50 := t49.trans e50
  have t51 := t50.trans e51
  have t52 := t51.trans e52
  have t53 := t52.trans e53
  have t54 := t53.trans e54
  have t55 := t54.trans e55
  have t56 := t55.trans e56
  have t57 := t56.trans e57
  have t58 := t57.trans e58
  have t59 := t58.trans e59
  have t60 := t59.trans e60
  have t61 := t60.trans e61
  have t62 := t61.trans e62
  have t63 := t62.trans e63
  have t64 := t63.trans e64
  have t65 := t64.trans e65
  have t66 := t65.trans e66
  have t67 := t66.trans e67
  have t68 := t67.trans e68
  have t69 := t68.trans e69
  have t70 := t69.trans e70
  have t71 := t70.trans e71
  have t72 := t71.trans e72
  have t73 := t72.trans e73
  have t74 := t73.trans e74
  have t75 := t74.trans e75
  have t76 := t75.trans e76
  have t77 := t76.trans e77
  have t78 := t77.trans e78
  have t79 := t78.trans e79
  have t80 := t79.trans e80
  have t81 := t80.trans e81
  have t82 := t81.trans e82
  have t83 := t82.trans e83
  have t84 := t83.trans e84
  have t85 := t84.trans e85
  have t86 := t85.trans e86
  have t87 := t86.trans e87
  have t88 := t87.trans e88
  have t89 := t88.trans e89
  have t90 := t89.trans e90
  have t91 := t90.trans e91
  have t92 := t91.trans e92
  have t93 := t92.trans e93
  have t94 := t93.trans e94
  have t95 := t94.trans e95
  have t96 := t95.trans e96
  have t97 := t96.trans e97
  have t98 := t97.trans e98
  have t99 := t98.trans e99
  exact t99

theorem hiChainSeg40 : hiLoop SHA_1 (strBytes "pencil") 95
    (unpackBytes 20 1359866752492691763689823875970363269083340996746)
    (unpackBytes 20 1424076897242956338686635919021378656478119591146) =
    hiLoop SHA_1 (strBytes "pencil") 0
      (unpackBytes 20 447390577463428724808004934281455678289996439358)
      (unpackBytes 20 168926596703903314687085447480504447677832978301) := by
  have e0 := hiStepP 94 1359866752492691763689823875970363269083340996746 1424076897242956338686635919021378656478119591146 868128718364597748570433022239026041776019988294 555956009462251434185987365971939317860418069420 (by decide!)
  have e1 := hiStepP 93 868128718364597748570433022239026041776019988294 555956009462251434185987365971939317860418069420 1270425472762089799886617497577749359100144465661 1095551008214761938673658853708845793620108186961 (by decide!)
  have e2 := hiStepP 92 1270425472762089799886617497577749359100144465661 1095551008214761938673658853708845793620108186961 15012432492217485525910381946940047835169165067 1080584920147909741212784743306509179267215858266 (by decide!)
  have e3 := hiStepP 91 15012432492217485525910381946940047835169165067 1080584920147909741212784743306509179267215858266 980052232023618411426633912221918991104599271939 130862631672744310320916058570434762789204209753 (by decide!)
  have e4 := hiStepP 90 980052232023618411426633912221918991104599271939 130862631672744310320916058570434762789204209753 710654861051100562619687199972638256226220882725 608515637258963670418824522656145760106558557052 (by decide!)
  have e5 := hiStepP 89 710654861051100562619687199972638256226220882725 608515637258963670418824522656145760106558557052 1436437028529022417933066503159188961660231934142 828045531807777897770533187334978133546520964034 (by decide!)
  have e6 := hiStepP 88 1436437028529022417933066503159188961660231934142 828045531807777897770533187334978133546520964034 1027177267835548658093371542930099806583176941989 199254395677886010426500540832138661182274255463 (by decide!)
  have e7 := hiStepP 87 1027177267835548658093371542930099806583176941989 199254395677886010426500540832138661182274255463 310502113655067703755132368822831563741438724253 117157421030239137098190709001164401218598171386 (by decide!)
  have e8 := hiStepP 86 310502113655067703755132368822831563741438724253 117157421030239137098190709001164401218598171386 1305063679696227920771966791762144381820771432981 1370794874294667954800392074839010179815346112751 (by decide!)
  have e9 := hiStepP 85 1305063679696227920771966791762144381820771432981 1370794874294667954800392074839010179815346112751 774878480535183038517357655121719516577699378156 683078955780904584593765338532783295122567281411 (by decide!)
  have e10 := hiStepP 84 774878480535183038517357655121719516577699378156 683078955780904584593765338532783295122567281411 683860271117567618758939721383660534108875546237 2476358507635958210727624988932934749830342014 (by decide!)
  have e11 := hiStepP 83 683860271117567618758939721383660534108875546237 2476358507635958210727624988932934749830342014 1237251704893926108014056234613889349482292457749 1237942434344240623564845489835804073557114049643 (by decide!)
  have e12 := hiStepP 82 1237251704893926108014056234613889349482292457749 1237942434344240623564845489835804073557114049643 567226022112963571645340692622007839691312400505 1070704189743215048535652033943568908986093034514 (by decide!)
  have e13 := hiStepP 81 567226022112963571645340692622007839691312400505 1070704189743215048535652033943568908986093034514 776249328862740172330667133227704685667966233260 345130522366316059946957282837904226815319078590 (by decide!)
  have e14 := hiStepP 80 776249328862740172330667133227704685667966233260 345130522366316059946957282837904226815319078590 1244638124165174032552648405008581234594991602470 1315737078450746858494426874860989555458427162008 (by decide!)
  have e15 := hiStepP 79 1244638124165174032552648405008581234594991602470 1315737078450746858494426874860989555458427162008 358093868410505839761168403503893391436290189531 1237753812333935421454432036897085144669324993859 (by decide!)
  have e16 := hiStepP 78 358093868410505839761168403503893391436290189531 1237753812333935421454432036897085144669324993859 402262199600779549751538544281079857766907635891 906140907560935417704706551188474561290636856816 (by decide!)
  have e17 := hiStepP 77 402262199600779549751538544281079857766907635891 906140907560935417704706551188474561290636856816 1139380337832950053034352635129167135670445208804 509066748903149946126399258205533879955174029588 (by decide!)
  have e18 := hiStepP 76 1139380337832950053034352635129167135670445208804 509066748903149946126399258205533879955174029588 1015088814642746720739903343310806451482202057998 1329603853711344861590410626311759999038775677978 (by decide!)
  have e19 := hiStepP 75 1015088814642746720739903343310806451482202057998 1329603853711344861590410626311759999038775677978 907674676180463006641737885107343148911825214044 674217554628727601699713871372047172272575450694 (by decide!)
  have e20 := hiStepP 74 907674676180463006641737885107343148911825214044 674217554628727601699713871372047172272575450694 525719069287724567968557126425889074240740741751 240111690226090440164079924693623031787599617073 (by decide!)
  have e21 := hiStepP 73 525719069287724567968557126425889074240740741751 240111690226090440164079924693623031787599617073 187189464141596515458386624413215930628477045186 61531124975027196494947169296384764712267453939 (by decide!)
  have e22 := hiStepP 72 187189464141596515458386624413215930628477045186 61531124975027196494947169296384764712267453939 1348410832441568773718752083569555213053436111427 1318597380951804540990023493303230380092895182768 (by decide!)
  have e23 := hiStepP 71 1348410832441568773718752083569555213053436111427 1318597380951804540990023493303230380092895182768 1039276765213436829757248437497601007000321619983 462366553401570468268374606609354646573051004863 (by decide!)
  have e24 := hiStepP 70 1039276765213436829757248437497601007000321619983 462366553401570468268374606609354646573051004863 639608595580316823783296537038456049953284304429 188133370583465488248484334082117506912734407058 (by decide!)
  have e25 := hiStepP 69 639608595580316823783296537038456049953284304429 188133370583465488248484334082117506912734407058 844469336751991949593666003690982828623692131949 1022609185350992195622393261695833710678924756991 (by decide!)
  have e26 := hiStepP 68 844469336751991949593666003690982828623692131949 1022609185350992195622393261695833710678924756991 11600047309514928013574587069554111057433303320 1011010881659292314030248400462990334800015859431 (by decide!)
  have e27 := hiStepP 67 11600047309514928013574587069554111057433303320 1011010881659292314030248400462990334800015859431 768819210247823064358043673819821898233910872243 318192611115465440410361223638416249748525438548 (by decide!)
  have e28 := hiStepP 66 768819210247823064358043673819821898233910872243 318192611115465440410361223638416249748525438548 730248750445336252394130913510358075255608958334 412948169137817229216397029147180658792986151722 (by decide!)
  have e29 := hiStepP 65 730248750445336252394130913510358075255608958334 412948169137817229216397029147180658792986151722 785598977355844650691465958312771972315348595204 1106435225128772993580370513349242386794550425902 (by decide!)
  have e30 := hiStepP 64 785598977355844650691465958312771972315348595204 1106435225128772993580370513349242386794550425902 229498029577217682383564772167388637109132327048 1335843326771215587596240780554589158659847717286 (by decide!)
  have e31 := hiStepP 63 229498029577217682383564772167388637109132327048 1335843326771215587596240780554589158659847717286 1201017147852987855334796628946030383595119117735 340447522234989741228643583911380026437125964801 (by decide!)
  have e32 := hiStepP 62 1201017147852987855334796628946030383595119117735 340447522234989741228643583911380026437125964801 1390326466444077210427975899864295419062883576518 1142742187320557613335009298884547999487583284935 (by decide!)
  have e33 := hiStepP 61 1390326466444077210427975899864295419062883576518 1142742187320557613335009298884547999487583284935 507374501765367233541947788103267511122085206290 827561259384704599821851098229357172664791840725 (by decide!)
  have e34 := hiStepP 60 507374501765367233541947788103267511122085206290 827561259384704599821851098229357172664791840725 980047849420805934061654983717321899623918896074 338971047722009140661614013556723413303049663519 (by decide!)
  have e35 := hiStepP 59 980047849420805934061654983717321899623918896074 338971047722009140661614013556723413303049663519 1334584403882739835984124794723299147423139053717 1202348278799071914092019856482491537001291478154 (by decide!)
  have e36 := hiStepP 58 1334584403882739835984124794723299147423139053717 1202348278799071914092019856482491537001291478154 1055432246615086137230382456113968422181507302120 606670983046587279904695671667016661235799586402 (by decide!)
  have e37 := hiStepP 57 1055432246615086137230382456113968422181507302120 606670983046587279904695671667016661235799586402 704707989068817397785233254786897042255331922709 98215589697863361444666022040410805837330474359 (by decide!)
  have e38 := hiStepP 56 704707989068817397785233254786897042255331922709 98215589697863361444666022040410805837330474359 245341070403487407525555415134674389102769254343 341410030215020273802430696481366451383430138544 (by decide!)
  have e39 := hiStepP 55 245341070403487407525555415134674389102769254343 341410030215020273802430696481366451383430138544 964318153351444734368131261528765184017320367102 840043935207113854831155079492239120134838294862 (by decide!)
  have e40 := hiStepP 54 964318153351444734368131261528765184017320367102 840043935207113854831155079492239120134838294862 721287033559053964859421931977011959859676685221 1355606407749727929564513538318851308663660198635 (by decide!)
  have e41 := hiStepP 53 721287033559053964859421931977011959859676685221 1355606407749727929564513538318851308663660198635 271001936931441548393963855787134432521516085254 1107797514140063692308341930628940146263092906733 (by decide!)
  have e42 := hiStepP 52 271001936931441548393963855787134432521516085254 1107797514140063692308341930628940146263092906733 1397961770722385428182856968670107005001744252507 313049308119315409623203290398426443579641541814 (by decide!)
  have e43 := hiStepP 51 1397961770722385428182856968670107005001744252507 313049308119315409623203290398426443579641541814 1218111562038219400647157923054466446331291350908 1299054571855964100583629417307301800249021957066 (by decide!)
  have e44 := hiStepP 50 1218111562038219400647157923054466446331291350908 1299054571855964100583629417307301800249021957066 981859864983760004758409097194096095435246499598 413712394299325628473225262403455312504227329220 (by decide!)
  have e45 := hiStepP 49 981859864983760004758409097194096095435246499598 413712394299325628473225262403455312504227329220 43862507161819909988975575670289201987489894742 455857698227227787300961334396748907141707556242 (by decide!)
  have e46 := hiStepP 48 43862507161819909988975575670289201987489894742 455857698227227787300961334396748907141707556242 612532793974578947052395816575930347404417663071 208817741633275350289793353715155952453942961613 (by decide!)
  have e47 := hiStepP 47 612532793974578947052395816575930347404417663071 208817741633275350289793353715155952453942961613 378634743063077845904680662163701930365187177578 586624560619088785403684519971637304135473977767 (by decide!)
  have e48 := hiStepP 46 378634743063077845904680662163701930365187177578 586624560619088785403684519971637304135473977767 830014372925980431237943025288593054719589560951 1413733967393916381662239332192320098670703635408 (by decide!)
  have e49 := hiStepP 45 830014372925980431237943025288593054719589560951 1413733967393916381662239332192320098670703635408 991984317517604870295259420534487821048891053377 515952433026934184049205094495296529708874301073 (by decide!)
  have e50 := hiStepP 44 991984317517604870295259420534487821048891053377 515952433026934184049205094495296529708874301073 927455676169778584723088220938159773418288363244 1416288831100157524406551343616444380243908741245 (by decide!)
  have e51 := hiStepP 43 927455676169778584723088220938159773418288363244 1416288831100157524406551343616444380243908741245 353357069594746562685102198072734676306020162436 1130057011199792730489396779387804868642774684665 (by decide!)
  have e52 := hiStepP 42 353357069594746562685102198072734676306020162436 1130057011199792730489396779387804868642774684665 1019883832494716258067706762374396485047706481691 681258360342726801997499325756678554536594368482 (by decide!)
  have e53 := hiStepP 41 1019883832494716258067706762374396485047706481691 681258360342726801997499325756678554536594368482 1419827437729501346982119002987525076644639997318 821557871288095297460673894418320086438272899684 (by decide!)
  have e54 := hiStepP 40 1419827437729501346982119002987525076644639997318 821557871288095297460673894418320086438272899684 1206679711022017320418310053131201732857049897633 529387495382783916276121803414516220415880380613 (by decide!)
  have e55 := hiStepP 39 1206679711022017320418310053131201732857049897633 529387495382783916276121803414516220415880380613 577018659963436953838955245150670365869667750324 329179139858976844145288410754063538563424538993 (by decide!)
  have e56 := hiStepP 38 577018659963436953838955245150670365869667750324 329179139858976844145288410754063538563424538993 926913811587721592325832543454279171754909519977 890349547129467499333817456370927268951070146840 (by decide!)
  have e57 := hiStepP 37 926913811587721592325832543454279171754909519977 890349547129467499333817456370927268951070146840 616398936437487349212247950379789095640417468887 1370446238387709168028596069027499628924867018959 (by decide!)
  have e58 := hiStepP 36 616398936437487349212247950379789095640417468887 1370446238387709168028596069027499628924867018959 57068055272333412113974649188774044162763107292 1426978204433376209833072836030698040899269831443 (by decide!)
  have e59 := hiStepP 35 57068055272333412113974649188774044162763107292 1426978204433376209833072836030698040899269831443 648487031423419029933926111340420864118057251333 778669578994495381208779179478134460714445084950 (by decide!)
  have e60 := hiStepP 34 648487031423419029933926111340420864118057251333 778669578994495381208779179478134460714445084950 1039880821690189911458273688960517679306694852476 355409590524780651686353898496582684874881328746 (by decide!)
  have e61 := hiStepP 33 1039880821690189911458273688960517679306694852476 355409590524780651686353898496582684874881328746 774590838145680489702396806981508623564678150156 1061443406665047590322762475885074978874632691302 (by decide!)
  have e62 := hiStepP 32 774590838145680489702396806981508623564678150156 1061443406665047590322762475885074978874632691302 760306631481169042652072747078167799140077291738 346856092725606509633658995309475307107762017980 (by decide!)
  have e63 := hiStepP 31 760306631481169042652072747078167799140077291738 346856092725606509633658995309475307107762017980 1229610103325809210234197678814065627154203604732 1345182264781420849490505386295252566435561955392 (by decide!)
  have e64 := hiStepP 30 1229610103325809210234197678814065627154203604732 1345182264781420849490505386295252566435561955392 600713428494746201133995607453796659622438742432 745578456263388785166879070050877604705334774240 (by decide!)
  have e65 := hiStepP 29 600713428494746201133995607453796659622438742432 745578456263388785166879070050877604705334774240 358404297033143539122452885470091727338345593373 1075420280332668404214333804595397269529117012989 (by decide!)
  have e66 := hiStepP 28 358404297033143539122452885470091727338345593373 1075420280332668404214333804595397269529117012989 852325995243713564195114407412946842966263658546 234517246326748375170680759596446030023810337743 (by decide!)
  have e67 := hiStepP 27 852325995243713564195114407412946842966263658546 234517246326748375170680759596446030023810337743 1259432328125622260008818008857187293374736359970 1401891387081192353209349004562186670508584085997 (by decide!)
  have e68 := hiStepP 26 1259432328125622260008818008857187293374736359970 1401891387081192353209349004562186670508584085997 354576677014215479557074293321872690489732683979 1162253448421667210411933199632944784803463360806 (by decide!)
  have e69 := hiStepP 25 354576677014215479557074293321872690489732683979 1162253448421667210411933199632944784803463360806 1294225348868636892291114987169149378063960662418 234919981773563954931445848269074964198278992052 (by decide!)
  have e70 := hiStepP 24 1294225348868636892291114987169149378063960662418 234919981773563954931445848269074964198278992052 1272594984896266872301776832337034661478087337866 1414738094093123289686932261808235274596120770366 (by decide!)
  have e71 := hiStepP 23 1272594984896266872301776832337034661478087337866 1414738094093123289686932261808235274596120770366 457545164180102344673178266997427328733526379625 958620202276863853437195765433460715570743737175 (by decide!)
  have e72 := hiStepP 22 457545164180102344673178266997427328733526379625 958620202276863853437195765433460715570743737175 645320329228867218962525200162560221375646536639 1226790317386480488824621764592287911187938142440 (by decide!)
  have e73 := hiStepP 21 645320329228867218962525200162560221375646536639 1226790317386480488824621764592287911187938142440 576559590383816115200549590700535641411035644234 1016891478458511015141281645672092570877043747234 (by decide!)
  have e74 := hiStepP 20 576559590383816115200549590700535641411035644234 1016891478458511015141281645672092570877043747234 1239800988092892256135473857658123014605857340262 612030445081023368046280618307790571612146406084 (by decide!)
  have e75 := hiStepP 19 1239800988092892256135473857658123014605857340262 612030445081023368046280618307790571612146406084 982152847182420625377095822015583677281015195065 1137452749034620181705302811531944313940233090941 (by decide!)
  have e76 := hiStepP 18 982152847182420625377095822015583677281015195065 1137452749034620181705302811531944313940233090941 102375307279669057858632627715880650282360099077 1226442012206464700797849501784467633280349447800 (by decide!)
  have e77 := hiStepP 17 102375307279669057858632627715880650282360099077 1226442012206464700797849501784467633280349447800 415786993368459890417999977262874768932152021223 902177282917589059171654036976722247041655322271 (by decide!)
  have e78 := hiStepP 16 415786993368459890417999977262874768932152021223 902177282917589059171654036976722247041655322271 48046343592383707092271968516229795645098865719 858790521844410399718166233261092194275518415528 (by decide!)
  have e79 := hiStepP 15 48046343592383707092271968516229795645098865719 858790521844410399718166233261092194275518415528 458842209419422375868020344939841221113955745727 1131501965106284593555694950740931681290022976791 (by decide!)
  have e80 := hiStepP 14 458842209419422375868020344939841221113955745727 1131501965106284593555694950740931681290022976791 1391904316106124836196328444041150844545243703860 308227693427718737031764048551237713457931360035 (by decide!)
  have e81 := hiStepP 13 1391904316106124836196328444041150844545243703860 308227693427718737031764048551237713457931360035 636976264635305848019887363377787360781521469048 516271359105985606366292139783217690094715349339 (by decide!)
  have e82 := hiStepP 12 636976264635305848019887363377787360781521469048 516271359105985606366292139783217690094715349339 868018402568967533451415480995784230196801424265 1109799555086964922943425011719274062936392000210 (by decide!)
  have e83 := hiStepP 11 868018402568967533451415480995784230196801424265 1109799555086964922943425011719274062936392000210 259955634564871140736950468835479857999735195759 1369755178345411433899642145046898644866876467901 (by decide!)
  have e84 := hiStepP 10 259955634564871140736950468835479857999735195759 1369755178345411433899642145046898644866876467901 34022499908311539543466009610547854390800105166 1336448589047422701153101418546433354828665148531 (by decide!)
  have e85 := hiStepP 9 34022499908311539543466009610547854390800105166 1336448589047422701153101418546433354828665148531 387841239747023169554896306479530896646595773786 970328638206467141510452040431280102491517407529 (by decide!)
  have e86 := hiStepP 8 387841239747023169554896306479530896646595773786 970328638206467141510452040431280102491517407529 802654853659931271585566498835359210140134433373 213713935935907573496885047911370018913812132724 (by decide!)
  have e87 := hiStepP 7 802654853659931271585566498835359210140134433373 213713935935907573496885047911370018913812132724 168928270756038918402129687044517702784586447954 325239891947090328364098082624540445906248388390 (by decide!)
  have e88 := hiStepP 6 168928270756038918402129687044517702784586447954 325239891947090328364098082624540445906248388390 942406175076452494115437956215951717464417268219 901545828292692549473477847833736721354725768925 (by decide!)
  have e89 := hiStepP 5 942406175076452494115437956215951717464417268219 901545828292692549473477847833736721354725768925 377577340480730298312653568352861084433696596317 1277600089225282869024314026695996812071062282112 (by decide!)
  have e90 := hiStepP 4 377577340480730298312653568352861084433696596317 1277600089225282869024314026695996812071062282112 1433538189552503216072164898108709437791656384119 210240503507936866192261234162225144600146971127 (by decide!)
  have e91 := hiStepP 3 1433538189552503216072164898108709437791656384119 210240503507936866192261234162225144600146971127 235920101118305680912718057902590068934788133326 77083173419092684629760114476909106966166616121 (by decide!)
  have e92 := hiStepP 2 235920101118305680912718057902590068934788133326 77083173419092684629760114476909106966166616121 1165537211798422387716335169665663468879177517009 1105603384354335753214560515660619160498775703528 (by decide!)
  have e93 := hiStepP 1 1165537211798422387716335169665663468879177517009 1105603384354335753214560515660619160498775703528 835736597973274564931249375474153177575358709675 478379018116972705101484282207312545187469525059 (by decide!)
  have e94 := hiStepP 0 835736597973274564931249375474153177575358709675 478379018116972705101484282207312545187469525059 447390577463428724808004934281455678289996439358 168926596703903314687085447480504447677832978301 (by decide!)
  have t0 := e0
  have t1 := t0.trans e1
  have t2 := t1.trans e2
  have t3 := t2.trans e3
  have t4 := t3.trans e4
  have t5 := t4.trans e5
  have t6 := t5.trans e6
  have t7 := t6.trans e7
  have t8 := t7.trans e8
  have t9 := t8.trans e9
  have t10 := t9.trans e10
  have t11 := t10.trans e11
  have t12 := t11.trans e12
  have t13 := t12.trans e13
  have t14 := t13.trans e14
  have t15 := t14.trans e15
  have t16 := t15.trans e16
  have t17 := t16.trans e17
  have t18 := t17.trans e18
  have t19 := t18.trans e19
  have t20 := t19.trans e20
  have t21 := t20.trans e21
  have t22 := t21.trans e22
  have t23 := t22.trans e23
  have t24 := t23.trans e24
  have t25 := t24.trans e25
  have t26 := t25.trans e26
  have t27 := t26.trans e27
  have t28 := t27.trans e28
  have t29 := t28.trans e29
  have t30 := t29.trans e30
  have t31 := t30.trans e31
  have t32 := t31.trans e32
  have t33 := t32.trans e33
  have t34 := t33.trans e34
  have t35 := t34.trans e35
  have t36 := t35.trans e36
  have t37 := t36.trans e37
  have t38 := t37.trans e38
  have t39 := t38.trans e39
  have t40 := t39.trans e40
  have t41 := t40.trans e41
  have t42 := t41.trans e42
  have t43 := t42.trans e43
  have t44 := t43.trans e44
  have t45 := t44.trans e45
  have t46 := t45.trans e46
  have t47 := t46.trans e47
  have t48 := t47.trans e48
  have t49 := t48.trans e49
  have t50 := t49.trans e50
  have t51 := t50.trans e51
  have t52 := t51.trans e52
  have t53 := t52.trans e53
  have t54 := t53.trans e54
  have t55 := t54.trans e55
  have t56 := t55.trans e56
  have t57 := t56.trans e57
  have t58 := t57.trans e58
  have t59 := t58.trans e59
  have t60 := t59.trans e60
  have t61 := t60.trans e61
  have t62 := t61.trans e62
  have t63 := t62.trans e63
  have t64 := t63.trans e64
  have t65 := t64.trans e65
  have t66 := t65.trans e66
  have t67 := t66.trans e67
  have t68 := t67.trans e68
  have t69 := t68.trans e69
  have t70 := t69.trans e70
  have t71 := t70.trans e71
  have t72 := t71.trans e72
  have t73 := t72.trans e73
  have t74 := t73.trans e74
  have t75 := t74.trans e75
  have t76 := t75.trans e76
  have t77 := t76.trans e77
  have t78 := t77.trans e78
  have t79 := t78.trans e79
  have t80 := t79.trans e80
  have t81 := t80.trans e81
  have t82 := t81.trans e82
  have t83 := t82.trans e83
  have t84 := t83.trans e84
  have t85 := t84.trans e85
  have t86 := t85.trans e86
  have t87 := t86.trans e87
  have t88 := t87.trans e88
  have t89 := t88.trans e89
  have t90 := t89.trans e90
  have t91 := t90.trans e91
  have t92 := t91.trans e92
  have t93 := t92.trans e93
  have t94 := t93.trans e94
  exact t94

theorem Hi_eq_hiLoop (ops : SCRAMOperations) (p salt : Bytes) (i : Nat) (u1 : Bytes)
    (h : ops.HMAC p (salt ++ [0, 0, 0, 1]) = u1) :
    ops.Hi p salt i = hiLoop ops p (i - 1) u1 u1 := by
  unfold SCRAMOperations.Hi
  rw [h]

/-- The RFC 5802 salted password: `Hi("pencil", salt, 4096)` evaluates to
the vector's `SaltedPassword`. -/
theorem hi_rfc :
    SHA_1.Hi (strBytes "pencil") [65, 37, 194, 71, 228, 58, 177, 233, 60, 109, 255, 118] 4096 =
      rfcSaltedPassword := by
  have hu1 : SHA_1.HMAC (strBytes "pencil")
      ([65, 37, 194, 71, 228, 58, 177, 233, 60, 109, 255, 118] ++ [0, 0, 0, 1]) =
      [243,5,33,36,18,182,0,163,115,86,31,194,123,148,28,53,11,169,211,153] := by decide!
  rw [Hi_eq_hiLoop SHA_1 (strBytes "pencil")
    [65, 37, 194, 71, 228, 58, 177, 233, 60, 109, 255, 118] 4096 _ hu1]
  show hiLoop SHA_1 (strBytes "pencil") 4095
      [243, 5, 33, 36, 18, 182, 0, 163, 115, 86, 31, 194, 123, 148, 28, 53, 11, 169, 211, 153]
      [243, 5, 33, 36, 18, 182, 0, 163, 115, 86, 31, 194, 123, 148, 28, 53, 11, 169, 211, 153] =
      rfcSaltedPassword
  rw [(by decide :
    ([243, 5, 33, 36, 18, 182, 0, 163, 115, 86, 31, 194, 123, 148, 28, 53, 11, 169, 211, 153] : Bytes) =
      unpackBytes 20 1387399148016657729648552872063065704306095805337)]
  have c0 := hiChainSeg0
  have c1 := c0.trans hiChainSeg1
  have c2 := c1.trans hiChainSeg2
  have c3 := c2.trans hiChainSeg3
  have c4 := c3.trans hiChainSeg4
  have c5 := c4.trans hiChainSeg5
  have c6 := c5.trans hiChainSeg6
  have c7 := c6.trans hiChainSeg7
  have c8 := c7.trans hiChainSeg8
  have c9 := c8.trans hiChainSeg9
  have c10 := c9.trans hiChainSeg10
  have c11 := c10.trans hiChainSeg11
  have c12 := c11.trans hiChainSeg12
  have c13 := c12.trans hiChainSeg13
  have c14 := c13.trans hiChainSeg14
  have c15 := c14.trans hiChainSeg15
  have c16 := c15.trans hiChainSeg16
  have c17 := c16.trans hiChainSeg17
  have c18 := c17.trans hiChainSeg18
  have c19 := c18.trans hiChainSeg19
  have c20 := c19.trans hiChainSeg20
  have c21 := c20.trans hiChainSeg21
  have c22 := c21.trans hiChainSeg22
  have c23 := c22.trans hiChainSeg23
  have c24 := c23.trans hiChainSeg24
  have c25 := c24.trans hiChainSeg25
  have c26 := c25.trans hiChainSeg26
  have c27 := c26.trans hiChainSeg27
  have c28 := c27.trans hiChainSeg28
  have c29 := c28.trans hiChainSeg29
  have c30 := c29.trans hiChainSeg30
  have c31 := c30.trans hiChainSeg31
  have c32 := c31.trans hiChainSeg32
  have c33 := c32.trans hiChainSeg33
  have c34 := c33.trans hiChainSeg34
  have c35 := c34.trans hiChainSeg35
  have c36 := c35.trans hiChainSeg36
  have c37 := c36.trans hiChainSeg37
  have c38 := c37.trans hiChainSeg38
  have c39 := c38.trans hiChainSeg39
  have c40 := c39.trans hiChainSeg40
  exact c40.trans (by decide)

theorem challenge_first_to_make_response {ops : SCRAMOperations} {s : ScramState}
    {m cn salt : Bytes} {pr : ParsedServerFirst}
    (hs : s.server_first_message = none)
    (hp : parseServerFirstMessage m = some pr)
    (hmext : pr.mext = none)
    (hcn : s.c_nonce = some cn)
    (hpre : cn.isPrefixOf pr.nonce = true)
    (hsalt : a2b_base64 pr.salt = some salt) :
    challenge ops s m =
      make_response ops { s with server_first_message := some m }
        pr.nonce salt pr.iteration_count := by
  unfold challenge
  simp only [parseServerFirstMessage_ne_nil hp, Bool.false_eq_true, if_false,
    hs, Option.isSome_none, hp, hmext, hcn, hpre, Bool.not_true, hsalt]

theorem make_response_eq {ops : SCRAMOperations} {s : ScramState}
    {nonce salt pw gs2 bare sfm sp ck sk cs : Bytes} {i : Nat}
    (hpw : s.password = some pw) (hgh : s.gs2_header = some gs2)
    (hcb : s.channel_binding = false)
    (hbare : s.client_first_message_bare = some bare)
    (hsfm : s.server_first_message = some sfm)
    (hsp : ops.Hi (SCRAMOperations.Normalize pw) salt i = sp)
    (hck : ops.HMAC sp (strBytes "Client Key") = ck)
    (hsk : ops.H ck = sk)
    (hcs : ops.HMAC sk (bare ++ [44] ++ sfm ++ [44] ++
        ((strBytes "c=" ++ b64encode gs2) ++ strBytes ",r=" ++ nonce)) = cs) :
    make_response ops s nonce salt i =
      .ok ({ s with
               salted_password := some sp, password := none,
               auth_message := some (bare ++ [44] ++ sfm ++ [44] ++
                 ((strBytes "c=" ++ b64encode gs2) ++ strBytes ",r=" ++ nonce)) },
           .response (some (((strBytes "c=" ++ b64encode gs2) ++ strBytes ",r=" ++ nonce)
             ++ [44] ++ (strBytes "p=" ++ b64encode (SCRAMOperations.XOR ck cs))))) := by
  unfold make_response
  simp only [hpw, hgh, hcb, Bool.false_eq_true, if_false, hbare, hsfm]
  rw [hsp, hck, hsk, hcs]

theorem final_challenge_verifier_match {ops : SCRAMOperations} {s : ScramState}
    {msg v dv sp am : Bytes}
    (hfin : s.finished = false) (hsp : s.salted_password = some sp)
    (ham : s.auth_message = some am)
    (hp : parseServerFinalMessage msg = some (.verifier v))
    (hdv : a2b_base64 v = some dv)
    (heq : dv = ops.HMAC (ops.HMAC sp (strBytes "Server Key")) am) :
    final_challenge ops s msg = .ok ({ s with finished := true }, .response none) := by
  unfold final_challenge
  simp only [hfin, Bool.false_eq_true, if_false, hp,
    parseServerFinalMessage_verifier_ne_nil hp, hsp, ham, hdv]
  rw [if_neg (fun hne => hne heq.symm)]

/-- C1: the RFC 5802 test vector.  With username `user`, password `pencil`
and client nonce `fyko+d2lbbFgONRv9qkxdawL`, `start()` yields the
client-first message with bare part `n=user,r=fyko+d2lbbFgONRv9qkxdawL`;
the server-first message of the vector produces the client-final message
whose proof attribute is `p=v0X8v3Bz2T0CJGbJQyF0X+HI4Ts=`; the server-final
message `v=rmF9pqV8S7suAoZWja4dJRkFsKQ=` is accepted, finishing the
session, with a `Response` (never a `Failure`) at every step and `finish`
reporting `Success`. -/
theorem rfc5802_test_vector :
    start rfc_s0 rfcProps =
      .ok (rfc_s1, .response (some (strBytes "n,,n=user,r=fyko+d2lbbFgONRv9qkxdawL"))) ∧
    rfc_s1.client_first_message_bare =
      some (strBytes "n=user,r=fyko+d2lbbFgONRv9qkxdawL") ∧
    challenge SHA_1 rfc_s1 rfcServerFirst =
      .ok (rfc_s2, .response (some (strBytes
        "c=biws,r=fyko+d2lbbFgONRv9qkxdawL3rfcNHYJY1ZVvWVs7j,p=v0X8v3Bz2T0CJGbJQyF0X+HI4Ts="))) ∧
    challenge SHA_1 rfc_s2 (strBytes "v=rmF9pqV8S7suAoZWja4dJRkFsKQ=") =
      .ok (rfc_s3, .response none) ∧
    rfc_s3.finished = true ∧
    finish SHA_1 rfc_s3 [] =
      .ok (rfc_s3, .success (some (strBytes "user")) (some [])) := by
  have hsk : SHA_1.HMAC rfcSaltedPassword (strBytes "Server Key") =
      [15, 224, 146, 88, 179, 172, 133, 43, 165, 2, 204, 98, 186, 144, 62, 170,
       205, 191, 125, 49] := by decide!
  refine ⟨by decide, by decide, ?_, ?_, by decide, by decide⟩
  · rw [@challenge_first_to_make_response SHA_1 rfc_s1 rfcServerFirst
        (strBytes "fyko+d2lbbFgONRv9qkxdawL")
        [65, 37, 194, 71, 228, 58, 177, 233, 60, 109, 255, 118]
        ⟨none, strBytes "fyko+d2lbbFgONRv9qkxdawL3rfcNHYJY1ZVvWVs7j",
         strBytes "QSXCR+Q6sek8bf92", 4096⟩
        (by decide) (by decide) rfl (by decide) (by decide) (by decide)]
    exact (@make_response_eq SHA_1
        { rfc_s1 with server_first_message := some rfcServerFirst }
        (strBytes "fyko+d2lbbFgONRv9qkxdawL3rfcNHYJY1ZVvWVs7j")
        [65, 37, 194, 71, 228, 58, 177, 233, 60, 109, 255, 118]
        (strBytes "pencil") (strBytes "n,,")
        (strBytes "n=user,r=fyko+d2lbbFgONRv9qkxdawL") rfcServerFirst
        rfcSaltedPassword
        [226, 52, 196, 123, 246, 195, 102, 150, 221, 109, 133, 43, 153, 170,
         162, 186, 38, 85, 87, 40]
        [233, 217, 70, 96, 195, 157, 101, 195, 143, 186, 217, 28, 53, 143, 20,
         218, 14, 239, 43, 214]
        [93, 113, 56, 196, 134, 176, 191, 171, 223, 73, 227, 226, 218, 139,
         214, 229, 199, 157, 182, 19]
        4096
        (by decide) (by decide) (by decide) (by decide) (by decide)
        hi_rfc (by decide!) (by decide!) (by decide!)).trans (by decide!)
  rw [challenge_after_first_is_final (m := strBytes "v=rmF9pqV8S7suAoZWja4dJRkFsKQ=")
    (by decide) (by decide)]
  exact @final_challenge_verifier_match SHA_1 rfc_s2
    (strBytes "v=rmF9pqV8S7suAoZWja4dJRkFsKQ=")
    (strBytes "rmF9pqV8S7suAoZWja4dJRkFsKQ=")
    [174, 97, 125, 166, 165, 124, 75, 187, 46, 2, 134, 86, 141, 174, 29, 37,
     25, 5, 176, 164]
    rfcSaltedPassword
    (strBytes
      "n=user,r=fyko+d2lbbFgONRv9qkxdawL,r=fyko+d2lbbFgONRv9qkxdawL3rfcNHYJY1ZVvWVs7j,s=QSXCR+Q6sek8bf92,i=4096,c=biws,r=fyko+d2lbbFgONRv9qkxdawL3rfcNHYJY1ZVvWVs7j")
    (by decide) rfl rfl (by decide) (by decide) (by rw [hsk]; decide!)
